import Mathlib

/-!
# Verification development for the Networks repository

Shallow embedding of the chirouter forwarding engine (`Router/src/c/router.c`,
`Router/src/c/utils.c`) and of the RTO estimator of the TCP endpoint
(`TCP/src/chitcpd/tcp.c`), followed by the theorems that settle the claims of
the specification against this code.

Conventions of the embedding.

* A byte buffer is a `List Nat`; a well-formed buffer holds values below 256
  (`BytesOK`).  Reads outside a buffer yield 0 and writes outside a buffer are
  dropped; the theorems carry the length hypotheses under which the C code stays
  inside its buffers.
* Machine integers are natural numbers reduced modulo `2 ^ w` where the C
  arithmetic wraps (`uint8_t`, `uint16_t`, `uint32_t`, `uint64_t`).
* The host is little-endian: `htons`/`ntohs` swap the two bytes of a 16-bit value
  and multi-byte loads and stores put the least significant byte first.  An
  `in_addr_t` therefore holds the four address octets with the first octet in the
  least significant byte.
-/

namespace Router

/-! ## Byte buffers -/

/-- Well-formed byte buffer: every element is an 8-bit value. -/
def BytesOK (l : List Nat) : Prop := ∀ b ∈ l, b < 256

instance (l : List Nat) : Decidable (BytesOK l) := by
  unfold BytesOK; infer_instance

/-- Load of a `uint8_t` at offset `i`. -/
def rd8 (buf : List Nat) (i : Nat) : Nat := buf.getD i 0

/-- Load of a `uint16_t` at offset `i` (least significant byte first). -/
def ld16 (buf : List Nat) (i : Nat) : Nat := rd8 buf i + 256 * rd8 buf (i + 1)

/-- Load of a `uint32_t` at offset `i` (least significant byte first). -/
def ld32 (buf : List Nat) (i : Nat) : Nat :=
  rd8 buf i + 256 * rd8 buf (i + 1) + 65536 * rd8 buf (i + 2) + 16777216 * rd8 buf (i + 3)

/-- Store of a `uint8_t` at offset `i`. -/
def st8 (buf : List Nat) (i : Nat) (v : Nat) : List Nat := buf.set i (v % 256)

/-- Store of a `uint16_t` at offset `i` (least significant byte first). -/
def st16 (buf : List Nat) (i : Nat) (v : Nat) : List Nat :=
  st8 (st8 buf i v) (i + 1) (v / 256)

/-- Store of a `uint32_t` at offset `i` (least significant byte first). -/
def st32 (buf : List Nat) (i : Nat) (v : Nat) : List Nat :=
  st8 (st8 (st8 (st8 buf i v) (i + 1) (v / 256)) (i + 2) (v / 65536)) (i + 3) (v / 16777216)

/-- The C library `memcpy(dst + off, src, src.length)`, byte after byte. -/
def memcpy : List Nat → Nat → List Nat → List Nat
  | dst, _, [] => dst
  | dst, off, b :: bs => memcpy (dst.set off b) (off + 1) bs

/-- The `n` bytes of `buf` that start at offset `off`. -/
def bytes_at (buf : List Nat) (off n : Nat) : List Nat := (buf.drop off).take n

/-- The C library `htons` on a little-endian host: the argument is converted to
`uint16_t` and its two bytes are exchanged. -/
def htons (x : Nat) : Nat := ((x % 65536) % 256) * 256 + (x % 65536) / 256

/-- The C library `ntohs` on a little-endian host. -/
def ntohs (x : Nat) : Nat := htons x

/-! ## utils.c: cksum -/

/-- The summation loop of `cksum` and its odd-byte step: `sum` is a `uint32_t`,
`data` advances by two bytes per round. -/
def cksum_sum : List Nat → Nat → Nat → Nat
  | data, len + 2, sum =>
      cksum_sum (data.drop 2) len ((sum + ((rd8 data 0 <<< 8) ||| rd8 data 1)) % 2 ^ 32)
  | data, 1, sum => (sum + (rd8 data 0 <<< 8)) % 2 ^ 32
  | _, 0, sum => sum

/-- The loop `while (sum > 0xffff) sum = (sum >> 16) + (sum & 0xffff);` run for at
most `fuel` rounds. -/
def cksum_fold : Nat → Nat → Nat
  | 0, sum => sum
  | fuel + 1, sum =>
      if sum > 0xffff then cksum_fold fuel ((sum >>> 16) + (sum &&& 0xffff)) else sum

/-- The function `cksum` of utils.c.  `len` is a C `int`; the loop does nothing for
`len <= 0`.  Two rounds of the folding loop always reach its exit condition for a
32-bit `sum` (`cksum_fold_exit`), and further rounds change nothing
(`cksum_fold_stable`).  `~sum` is the 32-bit complement, which `htons` truncates
to 16 bits. -/
def cksum (data : List Nat) (len : Int) : Nat :=
  let sum := cksum_sum data len.toNat 0
  let sum := cksum_fold 2 sum
  let sum := htons (0xffffffff - sum)
  if sum ≠ 0 then sum else 0xffff

/-! ## The Internet checksum in the words of the specification -/

/-- The data read as big-endian 16-bit words, an odd trailing byte padded with a
zero low byte. -/
def beWords : List Nat → List Nat
  | [] => []
  | [a] => [a * 256]
  | a :: b :: rest => (a * 256 + b) :: beWords rest

/-- Addition of two 16-bit values with end-around carry. -/
def onesAdd (a b : Nat) : Nat := (a + b) % 65536 + (a + b) / 65536

/-- The end-around-carry (ones-complement) sum of a list of 16-bit words. -/
def onesSum (ws : List Nat) : Nat := ws.foldl onesAdd 0

/-- The Internet checksum as the specification words it: the 16-bit
ones-complement of the ones-complement sum, with 0x0000 represented as 0xFFFF. -/
def inetChecksum (data : List Nat) : Nat :=
  let c := 0xFFFF - onesSum (beWords data)
  if c = 0 then 0xFFFF else c

/-- A buffer verifies when the ones-complement sum of all its words is 0xFFFF. -/
def verifies (data : List Nat) : Prop := onesSum (beWords data) = 0xFFFF

instance (data : List Nat) : Decidable (verifies data) := by
  unfold verifies; infer_instance

/-! ## Wire constants and layouts -/

/-- Modelled from the spec: `ETHERTYPE_IP` of protocols/ethernet.h (Ethernet II,
spec 6.2), which is not among the sources. -/
def ETHERTYPE_IP : Nat := 0x0800
/-- Modelled from the spec: `ETHERTYPE_ARP` of protocols/ethernet.h. -/
def ETHERTYPE_ARP : Nat := 0x0806
/-- Modelled from the spec: `ETHERTYPE_IPV6` of protocols/ethernet.h. -/
def ETHERTYPE_IPV6 : Nat := 0x86DD
/-- Modelled from the spec: `ETHER_ADDR_LEN` of protocols/ethernet.h. -/
def ETHER_ADDR_LEN : Nat := 6
/-- Modelled from the spec: `IPV4_ADDR_LEN` of protocols/ipv4.h. -/
def IPV4_ADDR_LEN : Nat := 4
/-- Modelled from the spec: `sizeof(ethhdr_t)`, the 14-byte Ethernet II header
(dst at 0, src at 6, type at 12). -/
def sizeof_ethhdr : Nat := 14
/-- Modelled from the spec: `sizeof(iphdr_t)`, the 20-byte IPv4 header without
options (version/ihl 0, tos 1, len 2, id 4, off 6, ttl 8, proto 9, cksum 10,
src 12, dst 16). -/
def sizeof_iphdr : Nat := 20
/-- Modelled from the spec: `ICMP_HDR_SIZE` of protocols/icmp.h (type 0, code 1,
chksum 2, four bytes of rest-of-header; every body payload starts at 8). -/
def ICMP_HDR_SIZE : Nat := 8
/-- Modelled from the spec: `sizeof(arp_packet_t)`, the RFC 826 packet for
Ethernet/IPv4 (hrd 0, pro 2, hln 4, pln 5, op 6, sha 8, spa 14, tha 18, tpa 24). -/
def sizeof_arp_packet : Nat := 28
/-- Modelled from the spec: `ARP_HRD_ETHERNET` of protocols/arp.h. -/
def ARP_HRD_ETHERNET : Nat := 1
/-- Modelled from the spec: `ARP_OP_REQUEST` of protocols/arp.h. -/
def ARP_OP_REQUEST : Nat := 1
/-- Modelled from the spec: `ARP_OP_REPLY` of protocols/arp.h. -/
def ARP_OP_REPLY : Nat := 2
/-- Modelled from the spec: `ICMPTYPE_ECHO_REPLY` of protocols/icmp.h. -/
def ICMPTYPE_ECHO_REPLY : Nat := 0
/-- Modelled from the spec: `ICMPTYPE_DEST_UNREACHABLE` of protocols/icmp.h. -/
def ICMPTYPE_DEST_UNREACHABLE : Nat := 3
/-- Modelled from the spec: `ICMPTYPE_ECHO_REQUEST` of protocols/icmp.h. -/
def ICMPTYPE_ECHO_REQUEST : Nat := 8
/-- Modelled from the spec: `ICMPTYPE_TIME_EXCEEDED` of protocols/icmp.h. -/
def ICMPTYPE_TIME_EXCEEDED : Nat := 11
/-- Modelled from the spec: `ICMPCODE_DEST_NET_UNREACHABLE` of protocols/icmp.h. -/
def ICMPCODE_DEST_NET_UNREACHABLE : Nat := 0
/-- Modelled from the spec: `ICMPCODE_DEST_HOST_UNREACHABLE` of protocols/icmp.h. -/
def ICMPCODE_DEST_HOST_UNREACHABLE : Nat := 1
/-- Modelled from the spec: `ICMPCODE_DEST_PORT_UNREACHABLE` of protocols/icmp.h. -/
def ICMPCODE_DEST_PORT_UNREACHABLE : Nat := 3

/-- The constant `ICMP_PROTO` of utils.h. -/
def ICMP_PROTO : Nat := 1
/-- The constant `TCP_PROTO` of utils.h. -/
def TCP_PROTO : Nat := 6
/-- The constant `UDP_PROTO` of utils.h. -/
def UDP_PROTO : Nat := 17

/-- The `s_addr` of the address `a.b.c.d`: the four octets in network order, as a
little-endian host loads them. -/
def in_addr (a b c d : Nat) : Nat := a + 256 * b + 65536 * c + 16777216 * d

/-! ## Router state -/

/-- Modelled from the spec: `chirouter_interface_t` of chirouter.h (spec 3.3: a
name, a MAC address and an IP address). -/
structure chirouter_interface_t where
  name : String
  mac : List Nat
  ip : Nat
  deriving DecidableEq, Repr

/-- Modelled from the spec: `ethernet_frame_t` of chirouter.h; `length` is the
length of `raw`. -/
structure ethernet_frame_t where
  raw : List Nat
  in_interface : chirouter_interface_t
  deriving DecidableEq, Repr

/-- Modelled from the spec: `chirouter_rtable_entry_t` of chirouter.h (spec 3.3:
destination, netmask, gateway, outbound interface). -/
structure chirouter_rtable_entry_t where
  dest : Nat
  mask : Nat
  gw : Nat
  interface : chirouter_interface_t
  deriving DecidableEq, Repr

/-- Modelled from the spec: a live `chirouter_arpcache_entry_t` (spec 3.3). -/
structure chirouter_arpcache_entry_t where
  ip : Nat
  mac : List Nat
  deriving DecidableEq, Repr

/-- Modelled from the spec: `chirouter_pending_arp_req_t` of chirouter.h (spec
3.3: target IP, outbound interface, withheld frames). -/
structure chirouter_pending_arp_req_t where
  ip : Nat
  out_interface : chirouter_interface_t
  withheld_frames : List ethernet_frame_t
  deriving DecidableEq, Repr

/-- Modelled from the spec: the fields of `chirouter_ctx_t` the router code uses. -/
structure chirouter_ctx_t where
  interfaces : List chirouter_interface_t
  routing_table : List chirouter_rtable_entry_t
  arpcache : List chirouter_arpcache_entry_t
  pending_arp_reqs : List chirouter_pending_arp_req_t
  deriving DecidableEq, Repr

/-- Which routine handed a frame to `chirouter_send_frame`: `chirouter_send_icmp`
with its type and code, `chirouter_send_arp` with its operation, or one of the two
forwarding sites of router.c. -/
inductive sent_kind_t where
  | icmp (type code : Nat)
  | arp (op : Nat)
  | forward
  deriving DecidableEq, Repr

/-- One call of `chirouter_send_frame`: the interface, the bytes sent, and the
routine that made the call (bookkeeping of the embedding, not part of the frame). -/
structure sent_frame_t where
  iface : chirouter_interface_t
  msg : List Nat
  kind : sent_kind_t
  deriving DecidableEq, Repr

/-- What a frame handler did: the new context, the frames handed to
`chirouter_send_frame` in order, and the return value. -/
structure outcome_t where
  ctx : chirouter_ctx_t
  sent : List sent_frame_t
  ret : Int
  deriving DecidableEq, Repr

/-- Modelled from the spec: `chirouter_arp_cache_lookup` of arp.c, which is not
among the sources; the cache is a map from IPv4 address to MAC (spec 3.3). -/
def chirouter_arp_cache_lookup (ctx : chirouter_ctx_t) (ip : Nat) :
    Option chirouter_arpcache_entry_t :=
  ctx.arpcache.find? (fun e => e.ip == ip)

/-- Modelled from the spec: `chirouter_arp_cache_add` of arp.c, which is not among
the sources; inserts the mapping into the cache (spec 4.2.2). -/
def chirouter_arp_cache_add (ctx : chirouter_ctx_t) (ip : Nat) (mac : List Nat) :
    chirouter_ctx_t :=
  { ctx with arpcache := ⟨ip, mac⟩ :: ctx.arpcache }

/-- Modelled from the spec: `chirouter_arp_pending_req_lookup` of arp.c, which is
not among the sources; the pending entry for a target IP, if any. -/
def chirouter_arp_pending_req_lookup (ctx : chirouter_ctx_t) (ip : Nat) :
    Option chirouter_pending_arp_req_t :=
  ctx.pending_arp_reqs.find? (fun p => p.ip == ip)

/-- Modelled from the spec: `chirouter_arp_pending_req_add` of arp.c, which is not
among the sources; appends a pending entry without withheld frames. -/
def chirouter_arp_pending_req_add (ctx : chirouter_ctx_t) (ip : Nat)
    (iface : chirouter_interface_t) : chirouter_ctx_t :=
  { ctx with pending_arp_reqs := ctx.pending_arp_reqs ++ [⟨ip, iface, []⟩] }

/-- Appends a frame to the first pending entry for `ip`. -/
def add_frame_to : List chirouter_pending_arp_req_t → Nat → ethernet_frame_t →
    List chirouter_pending_arp_req_t
  | [], _, _ => []
  | p :: ps, ip, frame =>
      if p.ip == ip then { p with withheld_frames := p.withheld_frames ++ [frame] } :: ps
      else p :: add_frame_to ps ip frame

/-- Modelled from the spec: `chirouter_arp_pending_req_add_frame` of arp.c, which
is not among the sources; enqueues a deep copy of the frame on the pending entry
of `ip` (spec 4.2.1 step 5). -/
def chirouter_arp_pending_req_add_frame (ctx : chirouter_ctx_t) (ip : Nat)
    (frame : ethernet_frame_t) : chirouter_ctx_t :=
  { ctx with pending_arp_reqs := add_frame_to ctx.pending_arp_reqs ip frame }

/-- Removes the first pending entry for `ip`: the `DL_DELETE` of the entry that
`chirouter_arp_pending_req_lookup` returned. -/
def delete_pending : List chirouter_pending_arp_req_t → Nat →
    List chirouter_pending_arp_req_t
  | [], _ => []
  | p :: ps, ip => if p.ip == ip then ps else p :: delete_pending ps ip

/-- The invariant of the pending-request list (spec 3.3): one entry per target
IP. -/
def pending_unique (l : List chirouter_pending_arp_req_t) : Prop :=
  (l.map (fun p => p.ip)).Nodup

instance (l : List chirouter_pending_arp_req_t) : Decidable (pending_unique l) := by
  unfold pending_unique; infer_instance

/-! ## utils.c -/

/-- The function `ethernet_addr_is_equal` of utils.c: compares six bytes. -/
def ethernet_addr_is_equal (addr1 addr2 : List Nat) : Bool :=
  (List.range ETHER_ADDR_LEN).all (fun i => rd8 addr1 i == rd8 addr2 i)

/-- The `payload_len` of `chirouter_send_icmp` (a C `int`). -/
def icmp_payload_len (frame : ethernet_frame_t) (type : Nat) : Int :=
  if type = ICMPTYPE_ECHO_REPLY ∨ type = ICMPTYPE_ECHO_REQUEST then
    (ntohs (ld16 frame.raw 16) : Int) - sizeof_iphdr - ICMP_HDR_SIZE
  else
    sizeof_iphdr + 8

/-- The reply buffer that `chirouter_send_icmp` builds, statement by statement.
Frame offsets: Ethernet header at 0, IP header at 14, ICMP message at 34. -/
def icmp_reply (frame : ethernet_frame_t) (type code : Nat) : List Nat :=
  let payload_len : Int := icmp_payload_len frame type
  let reply_len : Int := sizeof_ethhdr + sizeof_iphdr + ICMP_HDR_SIZE + payload_len
  let reply := List.replicate reply_len.toNat 0
  -- Ethernet header
  let reply := memcpy reply 0 (bytes_at frame.raw 6 ETHER_ADDR_LEN)
  let reply := memcpy reply 6 (bytes_at frame.in_interface.mac 0 ETHER_ADDR_LEN)
  let reply := st16 reply 12 (htons ETHERTYPE_IP)
  -- IP header
  let reply_ip_len : Int := sizeof_iphdr + ICMP_HDR_SIZE + payload_len
  let reply := st8 reply 15 0
  let reply := st16 reply 24 0
  let reply := st16 reply 16 (htons (reply_ip_len % 65536).toNat)
  let reply := st16 reply 18 (htons 0)
  let reply := st16 reply 20 (htons 0)
  let reply := st8 reply 22 64
  let reply := st8 reply 23 ICMP_PROTO
  let reply := st8 reply 14 (4 * 16 + rd8 reply 14 % 16)
  let reply := st8 reply 14 (rd8 reply 14 / 16 * 16 + 5)
  let reply := st32 reply 26 frame.in_interface.ip
  let reply := memcpy reply 30 (bytes_at frame.raw 26 IPV4_ADDR_LEN)
  let reply := st16 reply 24 (cksum (reply.drop 14) sizeof_iphdr)
  -- ICMP message
  let reply := st8 reply 35 code
  let reply := st8 reply 34 type
  let reply := st16 reply 36 0
  let reply :=
    if type = ICMPTYPE_ECHO_REQUEST ∨ type = ICMPTYPE_ECHO_REPLY then
      if code = 0 then
        let reply := st16 reply 38 (ld16 frame.raw 38)
        let reply := st16 reply 40 (ld16 frame.raw 40)
        memcpy reply 42 (bytes_at frame.raw 42 payload_len.toNat)
      else reply
    else if type = ICMPTYPE_DEST_UNREACHABLE then
      memcpy reply 42 (bytes_at frame.raw 14 payload_len.toNat)
    else
      memcpy reply 42 (bytes_at frame.raw 14 payload_len.toNat)
  st16 reply 36 (cksum (reply.drop 34) (ICMP_HDR_SIZE + payload_len))

/-- The function `chirouter_send_icmp` of utils.c: the reply goes out on the
interface the frame came in on. -/
def chirouter_send_icmp (frame : ethernet_frame_t) (type code : Nat) : sent_frame_t :=
  ⟨frame.in_interface, icmp_reply frame type code, sent_kind_t.icmp type code⟩

/-- The function `chirouter_send_arp` of utils.c: the frame it sends, or nothing
(return value 1) for an operation other than request and reply. -/
def chirouter_send_arp (eth_dst_mac : List Nat) (out_interface : chirouter_interface_t)
    (arp_op : Nat) (tpa : Nat) : List sent_frame_t :=
  let reply_len := sizeof_ethhdr + sizeof_arp_packet
  let reply := List.replicate reply_len 0
  let reply := memcpy reply 6 (bytes_at out_interface.mac 0 ETHER_ADDR_LEN)
  let reply := st16 reply 12 (htons ETHERTYPE_ARP)
  let reply := st16 reply 14 (htons ARP_HRD_ETHERNET)
  let reply := st16 reply 16 (htons ETHERTYPE_IP)
  let reply := st8 reply 18 ETHER_ADDR_LEN
  let reply := st8 reply 19 IPV4_ADDR_LEN
  let reply := st16 reply 20 (htons arp_op)
  let reply := st32 reply 28 out_interface.ip
  let reply := st32 reply 38 tpa
  let reply := memcpy reply 22 (bytes_at out_interface.mac 0 ETHER_ADDR_LEN)
  if arp_op = ARP_OP_REQUEST then
    let reply := memcpy reply 0 [0xFF, 0xFF, 0xFF, 0xFF, 0xFF, 0xFF]
    let reply := memcpy reply 32 [0, 0, 0, 0, 0, 0]
    [⟨out_interface, reply, sent_kind_t.arp arp_op⟩]
  else if arp_op = ARP_OP_REPLY then
    let reply := memcpy reply 0 (bytes_at eth_dst_mac 0 ETHER_ADDR_LEN)
    let reply := memcpy reply 32 (bytes_at eth_dst_mac 0 ETHER_ADDR_LEN)
    [⟨out_interface, reply, sent_kind_t.arp arp_op⟩]
  else
    []

/-! ## router.c -/

/-- The rewriting of a frame that is forwarded (router.c 549-556):
source and destination MAC, `ttl -= 1` on a `uint8_t`, and the header checksum
recomputed over `sizeof(iphdr_t)` bytes with the checksum field zeroed. -/
def forward_rewrite (raw : List Nat) (src_mac dst_mac : List Nat) : List Nat :=
  let raw := memcpy raw 6 (bytes_at src_mac 0 ETHER_ADDR_LEN)
  let raw := memcpy raw 0 (bytes_at dst_mac 0 ETHER_ADDR_LEN)
  let raw := st8 raw 22 (rd8 raw 22 + 256 - 1)
  let raw := st16 raw 24 0
  st16 raw 24 (cksum (raw.drop 14) sizeof_iphdr)

/-- What the specification says of a forwarded frame `out` made from the inbound
frame `inp`: Ethernet destination and source are the given MAC addresses, the TTL
is the inbound TTL minus 1, the checksum field holds `cksum` of the 20-byte
header with that field zeroed and the header verifies, and the length and every
other byte are those of the inbound frame. -/
def is_forwarded (inp out src_mac dst_mac : List Nat) : Prop :=
  out.length = inp.length ∧
  bytes_at out 0 6 = dst_mac ∧
  bytes_at out 6 6 = src_mac ∧
  rd8 out 22 + 1 = rd8 inp 22 ∧
  ld16 out 24 = cksum (bytes_at (st16 out 24 0) 14 20) 20 ∧
  verifies (bytes_at out 14 20) ∧
  ∀ i : Nat, 12 ≤ i → i ≠ 22 → i ≠ 24 → i ≠ 25 → out[i]? = inp[i]?

/-- The function `chirouter_forward_ip` of router.c. -/
def chirouter_forward_ip (ctx : chirouter_ctx_t) (frame : ethernet_frame_t)
    (gateway : Nat) (frame_out_iface : chirouter_interface_t) : outcome_t :=
  let forward_dst := if gateway ≠ 0 then gateway else ld32 frame.raw 30
  match chirouter_arp_cache_lookup ctx forward_dst with
  | none =>
      let sent := chirouter_send_arp (bytes_at frame.raw 0 ETHER_ADDR_LEN) frame_out_iface
        ARP_OP_REQUEST forward_dst
      let ctx :=
        match chirouter_arp_pending_req_lookup ctx forward_dst with
        | none => chirouter_arp_pending_req_add ctx forward_dst frame_out_iface
        | some _ => ctx
      let ctx := chirouter_arp_pending_req_add_frame ctx forward_dst frame
      ⟨ctx, sent, 0⟩
  | some arp_entry =>
      if rd8 frame.raw 22 = 1 then
        ⟨ctx, [chirouter_send_icmp frame ICMPTYPE_TIME_EXCEEDED 0], 0⟩
      else
        ⟨ctx, [⟨frame_out_iface, forward_rewrite frame.raw frame_out_iface.mac arp_entry.mac,
          sent_kind_t.forward⟩], 0⟩

/-- The locals `frame_iface`, `router_is_dst` and `host_unreachable` of
`process_ipv4`. -/
structure ipv4_scan_t where
  frame_iface : Option chirouter_interface_t
  router_is_dst : Bool
  host_unreachable : Bool
  deriving DecidableEq, Repr

/-- One round of the interface loop of `process_ipv4` (router.c 336-356). -/
def ipv4_scan_step (frame : ethernet_frame_t) (s : ipv4_scan_t)
    (iface : chirouter_interface_t) : ipv4_scan_t :=
  let s := if ethernet_addr_is_equal (bytes_at frame.raw 0 ETHER_ADDR_LEN) iface.mac
    then { s with frame_iface := some iface } else s
  if ld32 frame.raw 30 = iface.ip then
    let s := { s with router_is_dst := true }
    if ld32 frame.raw 30 ≠ frame.in_interface.ip then { s with host_unreachable := true }
    else s
  else s

/-- The locals `forward_dst_max`, `frame_out_iface` and `gateway` of
`process_ipv4`; `gateway` is uninitialised (`none`) until a route is chosen. -/
structure route_pick_t where
  forward_dst_max : Nat
  frame_out_iface : Option chirouter_interface_t
  gateway : Option Nat
  deriving DecidableEq, Repr

/-- One round of the routing-table loop of `process_ipv4` (router.c 385-400). -/
def route_step (dst : Nat) (s : route_pick_t) (e : chirouter_rtable_entry_t) :
    route_pick_t :=
  let forward_candidate := e.mask &&& e.dest
  if forward_candidate = dst &&& e.mask then
    if ntohs e.mask ≥ s.forward_dst_max then
      ⟨ntohs e.mask, some e.interface, some e.gw⟩
    else s
  else s

/-- The test of the routing-table loop: entry `e` matches the destination `dst`. -/
def route_matches (dst : Nat) (e : chirouter_rtable_entry_t) : Prop :=
  e.mask &&& e.dest = dst &&& e.mask

instance (dst : Nat) (e : chirouter_rtable_entry_t) : Decidable (route_matches dst e) := by
  unfold route_matches; infer_instance

/-- The routing-table loop of `process_ipv4` for the destination `dst`. -/
def route_lookup (table : List chirouter_rtable_entry_t) (dst : Nat) : route_pick_t :=
  table.foldl (route_step dst) ⟨0, none, none⟩

/-- The function `process_ipv4` of router.c.  The result is `none` where the C
code reaches `chirouter_forward_ip` with `frame_out_iface == NULL` and an
uninitialised `gateway` (the router is the destination and no reply applies). -/
def process_ipv4 (ctx : chirouter_ctx_t) (frame : ethernet_frame_t) : Option outcome_t :=
  let scan := ctx.interfaces.foldl (ipv4_scan_step frame) ⟨none, false, false⟩
  let router_is_dst := scan.router_is_dst
  let host_unreachable := scan.host_unreachable && router_is_dst
  match scan.frame_iface with
  | none => some ⟨ctx, [], 1⟩
  | some _ =>
    let proto := rd8 frame.raw 23
    let tcp_udp := (proto == TCP_PROTO || proto == UDP_PROTO) && router_is_dst
    let is_icmp := proto == ICMP_PROTO
    let pick : route_pick_t :=
      if !router_is_dst then route_lookup ctx.routing_table (ld32 frame.raw 30)
      else ⟨0, none, none⟩
    let net_unreachable :=
      !router_is_dst && (pick.forward_dst_max == 0 && pick.frame_out_iface.isNone)
    let reply_block := host_unreachable || is_icmp || tcp_udp || net_unreachable
    if reply_block && (host_unreachable || net_unreachable || tcp_udp) then
      let icmp_code :=
        if host_unreachable then ICMPCODE_DEST_HOST_UNREACHABLE
        else if net_unreachable then ICMPCODE_DEST_NET_UNREACHABLE
        else if tcp_udp then ICMPCODE_DEST_PORT_UNREACHABLE
        else 0
      some ⟨ctx, [chirouter_send_icmp frame ICMPTYPE_DEST_UNREACHABLE icmp_code], 0⟩
    else if reply_block && (rd8 frame.raw 22 == 1 && router_is_dst) then
      some ⟨ctx, [chirouter_send_icmp frame ICMPTYPE_TIME_EXCEEDED 0], 0⟩
    else if reply_block && (is_icmp && router_is_dst) then
      if rd8 frame.raw 34 = ICMPTYPE_ECHO_REQUEST then
        some ⟨ctx, [chirouter_send_icmp frame ICMPTYPE_ECHO_REPLY 0], 0⟩
      else some ⟨ctx, [], 0⟩
    else
      match pick.gateway, pick.frame_out_iface with
      | some gateway, some frame_out_iface =>
          some (chirouter_forward_ip ctx frame gateway frame_out_iface)
      | _, _ => none

/-- The rewriting of a withheld frame in `process_arp` (router.c 285-294):
destination MAC, source MAC, `ttl -= 1` on a `uint8_t`, and the header checksum
recomputed with the checksum field zeroed. -/
def withheld_rewrite (raw : List Nat) (query_mac out_mac : List Nat) : List Nat :=
  let raw := memcpy raw 0 (bytes_at query_mac 0 ETHER_ADDR_LEN)
  let raw := memcpy raw 6 (bytes_at out_mac 0 ETHER_ADDR_LEN)
  let raw := st8 raw 22 (rd8 raw 22 + 256 - 1)
  let raw := st16 raw 24 0
  st16 raw 24 (cksum (raw.drop 14) sizeof_iphdr)

/-- One round of the withheld-frames loop of `process_arp` (router.c 273-302):
Time Exceeded for a frame whose TTL is 1, otherwise the frame is rewritten and
sent on the outbound interface of the pending entry. -/
def forward_withheld (query_mac : List Nat) (pending_arp : chirouter_pending_arp_req_t)
    (withheld_frame : ethernet_frame_t) : sent_frame_t :=
  if rd8 withheld_frame.raw 22 = 1 then
    chirouter_send_icmp withheld_frame ICMPTYPE_TIME_EXCEEDED 0
  else
    ⟨pending_arp.out_interface,
      withheld_rewrite withheld_frame.raw query_mac pending_arp.out_interface.mac,
      sent_kind_t.forward⟩

/-- What the specification says of the output `s` for a withheld frame `wf` when
the ARP reply with the MAC `mac` arrives for the pending entry `p`: Time Exceeded
for a TTL of 1; for a TTL of at least 2 the frame itself, forwarded on the
outbound interface of the pending entry. -/
def withheld_output (mac : List Nat) (p : chirouter_pending_arp_req_t)
    (wf : ethernet_frame_t) (s : sent_frame_t) : Prop :=
  (rd8 wf.raw 22 = 1 → s = chirouter_send_icmp wf ICMPTYPE_TIME_EXCEEDED 0) ∧
  (2 ≤ rd8 wf.raw 22 → 34 ≤ wf.raw.length → BytesOK wf.raw →
    s.iface = p.out_interface ∧ s.kind = sent_kind_t.forward ∧
      is_forwarded wf.raw s.msg p.out_interface.mac mac)

/-- The function `process_arp` of router.c.  Frame offsets of the ARP packet:
op at 20, sha at 22, spa at 28, tpa at 38. -/
def process_arp (ctx : chirouter_ctx_t) (frame : ethernet_frame_t) : outcome_t :=
  let op := ntohs (ld16 frame.raw 20)
  if op = ARP_OP_REQUEST then
    let tpa := ld32 frame.raw 38
    let replies := (ctx.interfaces.filter (fun iface => tpa == iface.ip)).flatMap
      (fun iface => chirouter_send_arp (bytes_at frame.raw 6 ETHER_ADDR_LEN) iface
        ARP_OP_REPLY tpa)
    let arp_ip_exist := ctx.interfaces.any (fun iface => tpa == iface.ip)
    if !arp_ip_exist then
      ⟨ctx, replies ++ [chirouter_send_icmp frame ICMPTYPE_DEST_UNREACHABLE
        ICMPCODE_DEST_HOST_UNREACHABLE], 0⟩
    else ⟨ctx, replies, 0⟩
  else if op = ARP_OP_REPLY then
    let query_ip := ld32 frame.raw 28
    let query_mac := bytes_at frame.raw 22 ETHER_ADDR_LEN
    let ctx := chirouter_arp_cache_add ctx query_ip query_mac
    match chirouter_arp_pending_req_lookup ctx query_ip with
    | none => ⟨ctx, [], 0⟩
    | some pending_arp =>
        let sent := pending_arp.withheld_frames.map (forward_withheld query_mac pending_arp)
        ⟨{ ctx with pending_arp_reqs := delete_pending ctx.pending_arp_reqs query_ip }, sent, 0⟩
  else
    ⟨ctx, [], 1⟩

/-- The function `process_ipv6` of router.c. -/
def process_ipv6 (ctx : chirouter_ctx_t) (_frame : ethernet_frame_t) : outcome_t :=
  ⟨ctx, [], 0⟩

/-- The function `chirouter_process_ethernet_frame` of router.c; the return
values of the three handlers are discarded. -/
def chirouter_process_ethernet_frame (ctx : chirouter_ctx_t) (frame : ethernet_frame_t) :
    Option outcome_t :=
  let ethertype := ntohs (ld16 frame.raw 12)
  if ethertype = ETHERTYPE_IP then
    (process_ipv4 ctx frame).map (fun o => { o with ret := 0 })
  else if ethertype = ETHERTYPE_ARP then
    some { process_arp ctx frame with ret := 0 }
  else if ethertype = ETHERTYPE_IPV6 then
    some { process_ipv6 ctx frame with ret := 0 }
  else
    some ⟨ctx, [], 1⟩

/-! ## A small topology for concrete runs -/

/-- Interface eth0, 10.0.0.1. -/
def ex_eth0 : chirouter_interface_t := ⟨"eth0", [2, 0, 0, 0, 0, 1], in_addr 10 0 0 1⟩
/-- Interface eth1, 10.0.1.1. -/
def ex_eth1 : chirouter_interface_t := ⟨"eth1", [2, 0, 0, 0, 0, 2], in_addr 10 0 1 1⟩
/-- Interface eth2, 10.0.2.1. -/
def ex_eth2 : chirouter_interface_t := ⟨"eth2", [2, 0, 0, 0, 0, 3], in_addr 10 0 2 1⟩

/-- Route 10.0.1.0/24, on-link on eth1. -/
def ex_route24 : chirouter_rtable_entry_t :=
  ⟨in_addr 10 0 1 0, in_addr 255 255 255 0, 0, ex_eth1⟩
/-- Route 10.0.0.0/16 through the gateway 10.0.2.254 on eth2. -/
def ex_route16 : chirouter_rtable_entry_t :=
  ⟨in_addr 10 0 0 0, in_addr 255 255 0 0, in_addr 10 0 2 254, ex_eth2⟩

/-- The MAC address of the host 10.0.1.5. -/
def ex_host_mac : List Nat := [2, 0, 0, 0, 0, 0x15]

/-- A 42-byte UDP datagram from 10.0.0.5 to 10.0.1.5 with the given TTL, received
on eth0 and addressed to the MAC of eth0. -/
def ex_frame (ttl : Nat) : ethernet_frame_t :=
  ⟨[2, 0, 0, 0, 0, 1, 2, 0, 0, 0, 0, 0x10, 0x08, 0x00,
    0x45, 0, 0, 28, 0, 0, 0, 0, ttl, 17, 0, 0, 10, 0, 0, 5, 10, 0, 1, 5,
    0x30, 0x39, 0x00, 0x35, 0, 8, 0, 0], ex_eth0⟩

/-- A router with three interfaces and the single route 10.0.1.0/24; the ARP
cache is given, nothing is pending. -/
def ex_ctx (arpcache : List chirouter_arpcache_entry_t) : chirouter_ctx_t :=
  ⟨[ex_eth0, ex_eth1, ex_eth2], [ex_route24], arpcache, []⟩

/-- A router without routes. -/
def ex_ctx_no_route : chirouter_ctx_t := ⟨[ex_eth0, ex_eth1, ex_eth2], [], [], []⟩

/-- An ICMP Echo Request from 10.0.0.5 to 10.0.0.1 (the IP of eth0) with TTL 64,
identifier 0x1234, sequence number 7 and the five payload bytes `hello`, received
on eth0. -/
def ex_echo_request : ethernet_frame_t :=
  ⟨[2, 0, 0, 0, 0, 1, 2, 0, 0, 0, 0, 0x10, 0x08, 0x00,
    0x45, 0, 0, 33, 0, 0, 0, 0, 64, 1, 0, 0, 10, 0, 0, 5, 10, 0, 0, 1,
    8, 0, 0, 0, 0x12, 0x34, 0, 7, 0x68, 0x65, 0x6c, 0x6c, 0x6f], ex_eth0⟩

/-- An ARP Reply from 10.0.1.5 (MAC `ex_host_mac`) to eth1. -/
def ex_arp_reply : ethernet_frame_t :=
  ⟨[2, 0, 0, 0, 0, 2, 2, 0, 0, 0, 0, 0x15, 0x08, 0x06,
    0, 1, 0x08, 0x00, 6, 4, 0, 2, 2, 0, 0, 0, 0, 0x15, 10, 0, 1, 5,
    2, 0, 0, 0, 0, 2, 10, 0, 1, 1], ex_eth1⟩

/-- A router that withholds the given frames for the next hop 10.0.1.5 on eth1. -/
def ex_ctx_pending (frames : List ethernet_frame_t) : chirouter_ctx_t :=
  ⟨[ex_eth0, ex_eth1, ex_eth2], [ex_route24], [], [⟨in_addr 10 0 1 5, ex_eth1, frames⟩]⟩

/-! ## Definitions used by the proofs -/

/-- The value that end-around-carry folding gives to a total `S`. -/
def canon (S : Nat) : Nat := if S = 0 then 0 else (S - 1) % 65535 + 1

/-- The header bytes over which `forward_rewrite` computes the checksum. -/
def fwd_header (inp : List Nat) : List Nat :=
  st16 (st8 (bytes_at inp 14 20) 8 (rd8 inp 22 + 256 - 1)) 10 0

/-- A state of the routing-table loop in which a route has been chosen. -/
def route_chosen (table : List chirouter_rtable_entry_t) (dst : Nat) (s : route_pick_t) :
    Prop :=
  ∃ e ∈ table, route_matches dst e ∧ s = ⟨ntohs e.mask, some e.interface, some e.gw⟩

/-- The reply buffer of `chirouter_send_icmp` before the IP checksum is stored,
for a payload of `p` bytes. -/
def icmp_ip_part (frame : ethernet_frame_t) (p : Nat) : List Nat :=
  let reply := List.replicate (42 + p) 0
  let reply := memcpy reply 0 (bytes_at frame.raw 6 6)
  let reply := memcpy reply 6 (bytes_at frame.in_interface.mac 0 6)
  let reply := st16 reply 12 (htons 0x0800)
  let reply := st8 reply 15 0
  let reply := st16 reply 24 0
  let reply := st16 reply 16 (htons ((28 + p) % 65536))
  let reply := st16 reply 18 (htons 0)
  let reply := st16 reply 20 (htons 0)
  let reply := st8 reply 22 64
  let reply := st8 reply 23 1
  let reply := st8 reply 14 (4 * 16 + rd8 reply 14 % 16)
  let reply := st8 reply 14 (rd8 reply 14 / 16 * 16 + 5)
  let reply := st32 reply 26 frame.in_interface.ip
  memcpy reply 30 (bytes_at frame.raw 26 4)

/-- The reply buffer with the IP checksum stored and the ICMP type, code and
zeroed checksum written. -/
def icmp_head_part (frame : ethernet_frame_t) (type code p : Nat) : List Nat :=
  st16 (st8 (st8 (st16 (icmp_ip_part frame p) 24
    (cksum ((icmp_ip_part frame p).drop 14) (20 : Nat))) 35 code) 34 type) 36 0

/-- The reply buffer before the ICMP checksum is stored. -/
def icmp_body_part (frame : ethernet_frame_t) (type code p : Nat) : List Nat :=
  if type = ICMPTYPE_ECHO_REQUEST ∨ type = ICMPTYPE_ECHO_REPLY then
    if code = 0 then
      memcpy (st16 (st16 (icmp_head_part frame type code p) 38 (ld16 frame.raw 38)) 40
        (ld16 frame.raw 40)) 42 (bytes_at frame.raw 42 p)
    else icmp_head_part frame type code p
  else
    memcpy (icmp_head_part frame type code p) 42 (bytes_at frame.raw 14 p)

/-- The reply buffer of `chirouter_send_icmp` up to the assignment of `proto`. -/
def icmp_ip_pre (frame : ethernet_frame_t) (p : Nat) : List Nat :=
  let reply := List.replicate (42 + p) 0
  let reply := memcpy reply 0 (bytes_at frame.raw 6 6)
  let reply := memcpy reply 6 (bytes_at frame.in_interface.mac 0 6)
  let reply := st16 reply 12 (htons 0x0800)
  let reply := st8 reply 15 0
  let reply := st16 reply 24 0
  let reply := st16 reply 16 (htons ((28 + p) % 65536))
  let reply := st16 reply 18 (htons 0)
  let reply := st16 reply 20 (htons 0)
  let reply := st8 reply 22 64
  st8 reply 23 1

/-- The fixed bytes 12..29 of the reply: EtherType, then the IP header up to the
source address, before the IP checksum is stored. -/
def icmp_fixed_bytes (frame : ethernet_frame_t) (p : Nat) : List Nat :=
  [8, 0, 0x45, 0, (28 + p) % 65536 / 256, (28 + p) % 65536 % 256, 0, 0, 0, 0, 64, 1, 0, 0,
    frame.in_interface.ip % 256, frame.in_interface.ip / 256 % 256,
    frame.in_interface.ip / 65536 % 256, frame.in_interface.ip / 16777216 % 256]

end Router

namespace TCP

/-! ## Times and timers: multitimer.c -/

/-- Modelled from the spec: `MILLISECOND` of chitcp/utils.h, which is not among the
sources; times are counted in nanoseconds. -/
def MILLISECOND : Nat := 1000000
/-- Modelled from the spec: `SECOND` of chitcp/utils.h, in nanoseconds. -/
def SECOND : Nat := 1000000000

/-- The constant `CLOCK_GRANULARITY` of tcp.c. -/
def CLOCK_GRANULARITY : Nat := 50 * MILLISECOND
/-- The constant `MIN_RTO` of tcp.c. -/
def MIN_RTO : Nat := 200 * MILLISECOND
/-- The constant `MAX_RTO` of tcp.c. -/
def MAX_RTO : Nat := 60 * SECOND

/-- Modelled from the spec: `RETRANSMISSION`, timer id 0 (spec 3.2). -/
def RETRANSMISSION : Nat := 0
/-- Modelled from the spec: `PERSIST`, timer id 1 (spec 3.2). -/
def PERSIST : Nat := 1

/-- The C library `struct timespec`. -/
structure timespec where
  tv_sec : Int
  tv_nsec : Int
  deriving DecidableEq, Repr

/-- Modelled from the spec: the return codes of chitcp/types.h that multitimer.c
uses; their numeric values are not among the sources. -/
inductive chitcp_rc_t where
  | CHITCP_OK
  | CHITCP_EINVAL
  | CHITCP_EINIT
  | CHITCP_ETHREAD
  deriving DecidableEq, Repr

/-- Modelled from the spec: `MAX_TIMER_NAME_LEN` of chitcp/multitimer.h, which is
not among the sources; 16 is its value in chiTCP. -/
def MAX_TIMER_NAME_LEN : Nat := 16

/-- Modelled from the spec: `single_timer_t` of chitcp/multitimer.h (spec 3.1) with
the fields that multitimer.c writes; a callback is named by a number, `none` is
NULL; `name` holds the bytes of the name up to its end. -/
structure single_timer_t where
  id : Nat
  active : Bool
  num_timeouts : Nat
  callback_fn : Option Nat
  callback_args : Option Nat
  name : List Nat
  deriving DecidableEq, Repr

/-- Modelled from the spec: an element of the list `active_timers`; `timer` is the
index in `timers` of the timer pointed to, which multitimer.c reads as
`elt->timer->id`. -/
structure active_timer_t where
  timer : Nat
  timeout_spec : timespec
  deriving DecidableEq, Repr

/-- Modelled from the spec: `multi_timer_t` of chitcp/multitimer.h; `active` is the
flag that the timer thread sets when it starts and `mt_free` clears. -/
structure multi_timer_t where
  num_timers : Nat
  timers : List single_timer_t
  active_timers : List active_timer_t
  active : Bool
  deriving DecidableEq, Repr

/-- The function `timespec_normalize` of multitimer.c. -/
def timespec_normalize (ts : timespec) : timespec :=
  let ts := { ts with tv_sec := ts.tv_sec + Int.tdiv ts.tv_nsec SECOND }
  { ts with tv_nsec := Int.tmod ts.tv_nsec SECOND }

/-- The function `timespec_subtract` of multitimer.c: the difference `x - y` and
the returned flag (1 when the difference is negative).  The arithmetic is that of
`long`, without overflow. -/
def timespec_subtract (x y : timespec) : timespec × Int :=
  let tmp := y
  let tmp :=
    if x.tv_nsec < tmp.tv_nsec then
      let sec := Int.tdiv (tmp.tv_nsec - x.tv_nsec) SECOND + 1
      let tmp := { tmp with tv_nsec := tmp.tv_nsec - SECOND * sec }
      { tmp with tv_sec := tmp.tv_sec + sec }
    else tmp
  let tmp :=
    if x.tv_nsec - tmp.tv_nsec > SECOND then
      let sec := Int.tdiv (x.tv_nsec - tmp.tv_nsec) SECOND
      let tmp := { tmp with tv_nsec := tmp.tv_nsec + SECOND * sec }
      { tmp with tv_sec := tmp.tv_sec - sec }
    else tmp
  ({ tv_sec := x.tv_sec - tmp.tv_sec, tv_nsec := x.tv_nsec - tmp.tv_nsec },
    if x.tv_sec < tmp.tv_sec then 1 else 0)

/-- The loop at the start of `mt_init` of multitimer.c: timer `id` as it is
created; `calloc` leaves the name empty. -/
def mt_init_timer (id : Nat) : single_timer_t :=
  { id := id, active := false, num_timeouts := 0, callback_fn := none, callback_args := none,
    name := [] }

/-- The function `mt_init` of multitimer.c when its allocations and the creation of
the timer thread succeed; the thread is taken to have set `active` by the time
the timers are used. -/
def mt_init (num_timers : Nat) : multi_timer_t :=
  { num_timers := num_timers,
    timers := (List.range num_timers).map mt_init_timer,
    active_timers := [],
    active := true }

/-- The function `mt_get_timer_by_id` of multitimer.c; `none` is the return code
`CHITCP_EINVAL`, with which `*timer` is not written. -/
def mt_get_timer_by_id (mt : multi_timer_t) (id : Nat) : Option single_timer_t :=
  if id ≥ mt.num_timers ∨ id < 0 then none else mt.timers[id]?

/-- The function `timeoutcmp` of multitimer.c. -/
def timeoutcmp (a b : active_timer_t) : Int :=
  let first := a.timeout_spec
  let second := b.timeout_spec
  if first.tv_sec > second.tv_sec then 1
  else if first.tv_sec < second.tv_sec then -1
  else if first.tv_nsec > second.tv_nsec then 1
  else if first.tv_nsec < second.tv_nsec then -1
  else 0

/-- The macro `DL_SORT` of utlist.h, a stable sort; as every stable sort does, it
returns what stable insertion gives. -/
def DL_SORT (l : List active_timer_t) : List active_timer_t :=
  l.insertionSort (fun a b => timeoutcmp a b ≤ 0)

/-- The function `delete_timer` of multitimer.c; `none` is the NULL dereference of
`DL_DELETE` when the list is non-empty and holds no element of this id. -/
def delete_timer (mt : multi_timer_t) (id : Nat) : Option multi_timer_t :=
  if mt.active_timers.isEmpty then some mt
  else if mt.active_timers.any (fun elt => elt.timer == id) then
    some { mt with active_timers := mt.active_timers.eraseP (fun elt => elt.timer == id) }
  else none

/-- The function `mt_set_timer` of multitimer.c; `now` is the reading of the
clock. -/
def mt_set_timer (mt : multi_timer_t) (id : Nat) (timeout : Nat)
    (callback_fn callback_args : Option Nat) (now : timespec) : multi_timer_t × chitcp_rc_t :=
  if id ≥ mt.num_timers ∨ id < 0 then (mt, chitcp_rc_t.CHITCP_EINVAL)
  else if mt.active_timers.any (fun elt => elt.timer == id) then (mt, chitcp_rc_t.CHITCP_EINVAL)
  else
    let timers := mt.timers.modify
      (fun t => { t with active := true, callback_fn := callback_fn, callback_args := callback_args })
      id
    let mt := { mt with timers := timers }
    let temp_timer : active_timer_t :=
      { timer := id,
        timeout_spec := timespec_normalize { now with tv_nsec := now.tv_nsec + timeout } }
    let mt := { mt with active_timers := DL_SORT (mt.active_timers ++ [temp_timer]) }
    (mt, chitcp_rc_t.CHITCP_OK)

/-- The function `mt_cancel_timer` of multitimer.c; `none` when the call does not
return: the loop `while (1)` spins as long as `mt->active` is clear, and
`delete_timer` may fail. -/
def mt_cancel_timer (mt : multi_timer_t) (id : Nat) : Option (multi_timer_t × chitcp_rc_t) :=
  if id ≥ mt.num_timers ∨ id < 0 then some (mt, chitcp_rc_t.CHITCP_EINVAL)
  else if mt.active then
    match mt.timers[id]? with
    | none => none
    | some t =>
      if !t.active then some (mt, chitcp_rc_t.CHITCP_EINVAL)
      else
        let timers := mt.timers.modify (fun t => { t with active := false }) id
        let mt := { mt with timers := timers }
        (delete_timer mt id).map (fun mt => (mt, chitcp_rc_t.CHITCP_OK))
  else none

/-- The function `mt_set_timer_name` of multitimer.c; `name` is the C string
without its terminator, of which `strncpy` copies at most `MAX_TIMER_NAME_LEN`
bytes.  A valid id whose timer is missing from the array is not modelled
apart: the array then stays as it is. -/
def mt_set_timer_name (mt : multi_timer_t) (id : Nat) (name : List Nat) :
    multi_timer_t × chitcp_rc_t :=
  if id ≥ mt.num_timers ∨ id < 0 then (mt, chitcp_rc_t.CHITCP_EINVAL)
  else
    let timers := mt.timers.modify
      (fun t => { t with name := name.take MAX_TIMER_NAME_LEN }) id
    ({ mt with timers := timers }, chitcp_rc_t.CHITCP_OK)

/-! ## TCP endpoint state: the types that tcp.c works on -/

/-- Modelled from the spec: the connection states `tcp_state_t` (spec 3.2). -/
inductive tcp_state_t where
  | CLOSED
  | LISTEN
  | SYN_RCVD
  | SYN_SENT
  | ESTABLISHED
  | FIN_WAIT_1
  | FIN_WAIT_2
  | CLOSE_WAIT
  | CLOSING
  | TIME_WAIT
  | LAST_ACK
  deriving DecidableEq, Repr

/-- Modelled from the spec: the events `tcp_event_type_t` (spec 4.1). -/
inductive tcp_event_type_t where
  | APPLICATION_CONNECT
  | APPLICATION_SEND
  | APPLICATION_RECEIVE
  | APPLICATION_CLOSE
  | PACKET_ARRIVAL
  | TIMEOUT_RTX
  | TIMEOUT_PST
  | CLEANUP
  deriving DecidableEq, Repr

/-- Modelled from the spec: a `tcp_packet_t` with the header fields that tcp.c
reads and writes (spec 6.1).  `seq`, `ack_seq` and `win` hold the values in host
byte order, that is what `chitcp_ntohl` or `chitcp_ntohs` gives for the stored
field. -/
structure tcp_packet_t where
  syn : Nat
  ack : Nat
  fin : Nat
  seq : Nat
  ack_seq : Nat
  win : Nat
  payload : List Nat
  deriving DecidableEq, Repr

/-- Modelled from the spec: `TCP_PAYLOAD_LEN` of chitcp/packet.h, the number of
data bytes. -/
def TCP_PAYLOAD_LEN (packet : tcp_packet_t) : Nat := packet.payload.length

/-- Modelled from the spec: `SEG_LEN` of chitcp/packet.h, "data-bytes + SYN-bit +
FIN-bit" (spec 4.1). -/
def SEG_LEN (packet : tcp_packet_t) : Nat := TCP_PAYLOAD_LEN packet + packet.syn + packet.fin

/-- Modelled from the spec: `TCP_MSS` of chitcp/types.h, taken to be the default
maximum segment size of 536 bytes. -/
def TCP_MSS : Int := 536

/-- Modelled from the spec: `chitcp_htonl` of chitcp/utils.h on a little-endian
host, the four bytes of a 32-bit value in reverse order. -/
def chitcp_htonl (hostlong : Nat) : Nat :=
  hostlong % 256 * 2 ^ 24 + hostlong / 2 ^ 8 % 256 * 2 ^ 16 + hostlong / 2 ^ 16 % 256 * 2 ^ 8
    + hostlong / 2 ^ 24 % 256

/-- Modelled from the spec: a `circular_buffer_t` of chitcp/buffer.h, a byte
buffer "carrying a sequence number at buffer origin" (spec 3.2): the bytes held,
the sequence number of the first of them, and the capacity. -/
structure circular_buffer_t where
  data : List Nat
  seq_initial : Nat
  maxsize : Nat
  deriving DecidableEq, Repr

/-- Modelled from the spec: `circular_buffer_count`, the number of bytes held. -/
def circular_buffer_count (buf : circular_buffer_t) : Int := buf.data.length

/-- Modelled from the spec: `circular_buffer_capacity`. -/
def circular_buffer_capacity (buf : circular_buffer_t) : Nat := buf.maxsize

/-- Modelled from the spec: `circular_buffer_available`, the free space. -/
def circular_buffer_available (buf : circular_buffer_t) : Nat := buf.maxsize - buf.data.length

/-- Modelled from the spec: `circular_buffer_next`, the sequence number after the
last byte held. -/
def circular_buffer_next (buf : circular_buffer_t) : Nat :=
  (buf.seq_initial + buf.data.length) % 2 ^ 32

/-- Modelled from the spec: `circular_buffer_set_seq_initial`. -/
def circular_buffer_set_seq_initial (buf : circular_buffer_t) (seq : Nat) : circular_buffer_t :=
  { buf with seq_initial := seq }

/-- Modelled from the spec: `circular_buffer_read` into a NULL destination without
blocking: the first `len` bytes held (all of them when there are fewer) are
dropped. -/
def circular_buffer_read (buf : circular_buffer_t) (len : Nat) : circular_buffer_t :=
  { buf with data := buf.data.drop len,
             seq_initial := (buf.seq_initial + min len buf.data.length) % 2 ^ 32 }

/-- Modelled from the spec: `circular_buffer_write` without blocking: the bytes
that fit the free space are appended. -/
def circular_buffer_write (buf : circular_buffer_t) (bytes : List Nat) : circular_buffer_t :=
  { buf with data := buf.data ++ bytes.take (circular_buffer_available buf) }

/-- Modelled from the spec: `circular_buffer_peek_at`: up to `len` of the bytes
held from sequence number `seq` on are copied; the result is the number of bytes
copied and the destination array of `len` bytes after the call (bytes that were
not written read as 0). -/
def circular_buffer_peek_at (buf : circular_buffer_t) (seq len : Nat) : Int × List Nat :=
  let offset := (seq + 2 ^ 32 - buf.seq_initial % 2 ^ 32) % 2 ^ 32
  let bytes := (buf.data.drop offset).take len
  (bytes.length, bytes ++ List.replicate (len - bytes.length) 0)

/-- The `retransmission_queue_t` element of tcp.c, as used by its code. -/
structure retransmission_queue_t where
  packet_sent : tcp_packet_t
  packet_sent_ts : timespec
  expected_ack_seq : Nat
  retransmitted : Bool
  deriving DecidableEq, Repr

/-- The `out_of_order_list_t` element of tcp.c, as used by its code. -/
structure out_of_order_list_t where
  seq : Nat
  packet : tcp_packet_t
  deriving DecidableEq, Repr

/-- What a handler asks of its collaborators, in order. -/
inductive tcp_action_t where
  | send_tcp_packet (p : tcp_packet_t)
  | set_timer (id : Nat) (timeout : Nat)
  | cancel_timer (id : Nat)
  deriving DecidableEq, Repr

/-- Modelled from the spec: the fields of `tcp_data_t` that tcp.c uses (spec 3.2);
the declaration (tcp.h) is not among the sources.  The sequence variables are
`uint32_t`.  `RTO` is the `uint64_t` timeout handed to `mt_set_timer`; `RTT`,
`SRTT` and `RTTVAR` are taken to be `uint64_t` nanosecond counts as well. -/
structure tcp_data_t where
  ISS : Nat
  IRS : Nat
  SND_UNA : Nat
  SND_NXT : Nat
  SND_WND : Nat
  RCV_NXT : Nat
  RCV_WND : Nat
  send : circular_buffer_t
  recv : circular_buffer_t
  mt : multi_timer_t
  rt_queue : List retransmission_queue_t
  list : List out_of_order_list_t
  pending_packets : List tcp_packet_t
  RTT : Nat
  SRTT : Nat
  RTTVAR : Nat
  RTO : Nat
  first_RTT : Bool
  rtms_timer_on : Bool
  probe_packet : Option tcp_packet_t
  closing : Bool
  deriving DecidableEq, Repr

/-- The double-precision expressions of `update_RTO`, converted back to
`uint64_t`: `rttvar` stands for `(1 - beta) * RTTVAR + beta * abs(...)` as a
function of `RTTVAR` and of the `int` that `abs` returns, `srtt` for
`(1 - alpha) * SRTT + alpha * RTT` as a function of `SRTT` and `RTT`. -/
structure double_ops where
  rttvar : Nat → Int → Nat
  srtt : Nat → Nat → Nat

/-- What the surroundings give to one call of a handler: the double-precision
arithmetic, the function `circular_buffer_peek_at` (its result is the count
returned and the destination array after the call), the reading of the clock,
and the value of `rand()`. -/
structure tcp_env_t where
  fp : double_ops
  peek_at : circular_buffer_t → Nat → Nat → Int × List Nat
  now : timespec
  rand : Nat

/-- What a handler leaves behind: the state and the data of the socket entry and
the calls made. -/
structure tcp_result_t where
  tcp_state : tcp_state_t
  tcp_data : tcp_data_t
  actions : List tcp_action_t
  deriving DecidableEq, Repr

/-- The name of the callback `rtx_callback_fn` of tcp.c. -/
def rtx_callback_fn : Nat := 0
/-- The name of the callback `pst_callback_fn` of tcp.c. -/
def pst_callback_fn : Nat := 1

/-- The function `random_number` of tcp.c, `rand` being the value of `rand()`. -/
def random_number (rand : Nat) : Nat := rand &&& 0xff

/-- The conversion `(int)` of a `uint32_t`. -/
def to_int (x : Nat) : Int :=
  if x % 2 ^ 32 < 2 ^ 31 then ((x % 2 ^ 32 : Nat) : Int) else ((x % 2 ^ 32 : Nat) : Int) - 2 ^ 32

/-- The result of an `int` operation: the value is reduced to the 32-bit signed
range (overflow is taken to wrap). -/
def int_wrap (x : Int) : Int := (x + 2 ^ 31) % 2 ^ 32 - 2 ^ 31

/-- The packet that `chitcpd_tcp_packet_create` makes and the handlers of tcp.c
fill in: the flags, the sequence and acknowledgment numbers and the window of
the header (`chitcp_htons` takes the low 16 bits of `RCV_WND`). -/
def make_packet (syn ack fin seq ack_seq win : Nat) (payload : List Nat) : tcp_packet_t :=
  { syn := syn, ack := ack, fin := fin, seq := seq % 2 ^ 32, ack_seq := ack_seq % 2 ^ 32,
    win := win % 2 ^ 16, payload := payload }

/-- The statements `mt_get_timer_by_id(tcp_data->mt, id, &timer)` and
`mt_set_timer(tcp_data->mt, id, tcp_data->RTO, timer->callback_fn,
timer->callback_args)` of tcp.c.  With a `timer` that was not found the callback
is read through a NULL pointer; `tcp_data_init` makes both timers, so that this
does not happen. -/
def tcp_set_timer (tcp_data : tcp_data_t) (id : Nat) (now : timespec) :
    tcp_data_t × List tcp_action_t :=
  let timer := mt_get_timer_by_id tcp_data.mt id
  let r := mt_set_timer tcp_data.mt id tcp_data.RTO
    (timer.bind (fun t => t.callback_fn)) (timer.bind (fun t => t.callback_args)) now
  ({ tcp_data with mt := r.1 }, [tcp_action_t.set_timer id tcp_data.RTO])

/-- The statement `mt_cancel_timer(tcp_data->mt, id)` of tcp.c; `none` when the
call does not return. -/
def tcp_cancel_timer (tcp_data : tcp_data_t) (id : Nat) :
    Option (tcp_data_t × List tcp_action_t) :=
  match mt_cancel_timer tcp_data.mt id with
  | none => none
  | some r => some ({ tcp_data with mt := r.1 }, [tcp_action_t.cancel_timer id])

/-! ## tcp.c: the retransmission queue and the estimate of the round-trip time -/

/-- The function `rtqueue_append` of tcp.c; `now` is the reading of the clock.
The sum `expected_ack_seq` is a 32-bit `tcp_seq`. -/
def rtqueue_append (tcp_data : tcp_data_t) (packet : tcp_packet_t) (seq : Nat) (now : timespec) :
    tcp_data_t × List tcp_action_t :=
  let temp : retransmission_queue_t :=
    { packet_sent := packet,
      packet_sent_ts := now,
      expected_ack_seq := (TCP_PAYLOAD_LEN packet + seq) % 2 ^ 32,
      retransmitted := false }
  let tcp_data := { tcp_data with rt_queue := tcp_data.rt_queue ++ [temp] }
  if !tcp_data.rtms_timer_on && !tcp_data.rt_queue.isEmpty then
    let tcp_data := { tcp_data with rtms_timer_on := true }
    tcp_set_timer tcp_data RETRANSMISSION now
  else (tcp_data, [])

/-- The C library `abs` applied to a `uint64_t` difference: the argument is
converted to a 32-bit `int` first; `abs(INT_MIN)` is taken to be `INT_MIN`. -/
def abs_int (x : Nat) : Int :=
  let t : Nat := x % 2 ^ 32
  if t < 2 ^ 31 then (t : Int) else if t = 2 ^ 31 then -(2 ^ 31 : Int) else ((2 ^ 32 - t : Nat) : Int)

/-- The bounds check that ends `update_RTO` and follows the doubling in
`chitcpd_tcp_state_handle_TIMEOUT_RTX`. -/
def clamp_RTO (RTO : Nat) : Nat :=
  if RTO > MAX_RTO then MAX_RTO else if RTO < MIN_RTO then MIN_RTO else RTO

/-- The function `update_RTO` of tcp.c. -/
def update_RTO (fp : double_ops) (tcp_data : tcp_data_t) (recv_ts sent_ts : timespec) :
    tcp_data_t :=
  let RTT := (timespec_subtract recv_ts sent_ts).1
  let tcp_data := { tcp_data with RTT := ((RTT.tv_sec * SECOND + RTT.tv_nsec) % 2 ^ 64).toNat }
  let tcp_data :=
    if tcp_data.first_RTT then
      let tcp_data := { tcp_data with SRTT := tcp_data.RTT }
      let tcp_data := { tcp_data with RTTVAR := tcp_data.RTT / 2 }
      let tcp_data :=
        if CLOCK_GRANULARITY > (4 * tcp_data.RTTVAR) % 2 ^ 64 then
          { tcp_data with RTO := (tcp_data.SRTT + CLOCK_GRANULARITY) % 2 ^ 64 }
        else
          { tcp_data with RTO := (tcp_data.SRTT + 4 * tcp_data.RTTVAR) % 2 ^ 64 }
      { tcp_data with first_RTT := false }
    else
      let tcp_data := { tcp_data with
        RTTVAR := fp.rttvar tcp_data.RTTVAR
          (abs_int ((tcp_data.SRTT + 2 ^ 64 - tcp_data.RTT) % 2 ^ 64)) % 2 ^ 64 }
      let tcp_data := { tcp_data with SRTT := fp.srtt tcp_data.SRTT tcp_data.RTT % 2 ^ 64 }
      if CLOCK_GRANULARITY > (4 * tcp_data.RTTVAR) % 2 ^ 64 then
        { tcp_data with RTO := (tcp_data.SRTT + CLOCK_GRANULARITY) % 2 ^ 64 }
      else
        { tcp_data with RTO := (tcp_data.SRTT + 4 * tcp_data.RTTVAR) % 2 ^ 64 }
  { tcp_data with RTO := clamp_RTO tcp_data.RTO }

/-- The loop `DL_FOREACH(tcp_data->rt_queue, elt)` of `rtqueue_pop` over the
elements still to be visited: an acknowledged element is deleted, at which
moment it is the head of the queue, and the loop goes on with the element that
followed it; the first element that is not acknowledged ends the loop. -/
def rtqueue_pop_loop (fp : double_ops) (now : timespec) (ack_seq : Nat) :
    List retransmission_queue_t → tcp_data_t → tcp_data_t
  | [], tcp_data => tcp_data
  | elt :: rest, tcp_data =>
    if elt.expected_ack_seq ≤ ack_seq then
      let tcp_data := update_RTO fp tcp_data now elt.packet_sent_ts
      let tcp_data := { tcp_data with
        send := circular_buffer_read tcp_data.send (TCP_PAYLOAD_LEN elt.packet_sent) }
      let tcp_data := { tcp_data with rt_queue := rest }
      rtqueue_pop_loop fp now ack_seq rest tcp_data
    else tcp_data

/-- The function `rtqueue_pop` of tcp.c; `ack_seq` is an unsigned 32-bit `tcp_seq`,
`now` is the reading of the clock, and the result is `none` when a call of
`mt_cancel_timer` does not return.  The return code of `mt_cancel_timer` is not
looked at. -/
def rtqueue_pop (fp : double_ops) (tcp_data : tcp_data_t) (ack_seq : Nat) (now : timespec) :
    Option (tcp_data_t × List tcp_action_t) :=
  match tcp_data.rt_queue with
  | retransmission_queue :: rest =>
    let tcp_data :=
      if ack_seq < 0 then
        let tcp_data := update_RTO fp tcp_data now retransmission_queue.packet_sent_ts
        { tcp_data with rt_queue := rest }
      else
        rtqueue_pop_loop fp now ack_seq tcp_data.rt_queue tcp_data
    let cancelled :=
      if tcp_data.rtms_timer_on then
        tcp_cancel_timer { tcp_data with rtms_timer_on := false } RETRANSMISSION
      else some (tcp_data, [])
    match cancelled with
    | none => none
    | some (tcp_data, actions) =>
      let len := tcp_data.rt_queue.length
      if len > 0 then
        if !tcp_data.rtms_timer_on then
          let tcp_data := { tcp_data with rtms_timer_on := true }
          let r := tcp_set_timer tcp_data RETRANSMISSION now
          some (r.1, actions ++ r.2)
        else some (tcp_data, actions)
      else some (tcp_data, actions)
  | [] => tcp_cancel_timer tcp_data RETRANSMISSION

/-! ## tcp.c: closing, sending, initialisation, timeouts -/

/-- The function `chitcpd_tcp_state_handle_APPLICATION_CLOSE` of tcp.c. -/
def chitcpd_tcp_state_handle_APPLICATION_CLOSE (tcp_data : tcp_data_t) (now : timespec) :
    tcp_data_t × List tcp_action_t :=
  let packet_to_send := make_packet 0 1 1 tcp_data.SND_NXT tcp_data.RCV_NXT tcp_data.RCV_WND []
  let r := rtqueue_append tcp_data packet_to_send tcp_data.SND_NXT now
  let tcp_data := r.1
  let tcp_data := { tcp_data with closing := false }
  let tcp_data := { tcp_data with SND_NXT := (tcp_data.SND_NXT + 1) % 2 ^ 32 }
  (tcp_data, tcp_action_t.send_tcp_packet packet_to_send :: r.2)

/-- The loop `while (bytes_to_send > 0)` of `chitcp_update_send_buffer`.  The
first argument bounds the number of iterations; `none` when the bound is used
up.  An iteration in which nothing was read changes nothing and is followed by
the same iteration. -/
def update_send_buffer_loop (env : tcp_env_t) :
    Nat → Int → tcp_data_t → List tcp_action_t → Option (tcp_data_t × List tcp_action_t)
  | 0, bytes_to_send, tcp_data, actions =>
    if bytes_to_send > 0 then none else some (tcp_data, actions)
  | fuel + 1, bytes_to_send, tcp_data, actions =>
    if bytes_to_send > 0 then
      let tcp_payload_len := if bytes_to_send > TCP_MSS then TCP_MSS else bytes_to_send
      let peeked := env.peek_at tcp_data.send tcp_data.SND_NXT tcp_payload_len.toNat
      let bytes_read := peeked.1
      let payload_dst :=
        (peeked.2 ++ List.replicate tcp_payload_len.toNat 0).take tcp_payload_len.toNat
      if bytes_read > 0 then
        let bytes_to_send := int_wrap (bytes_to_send - bytes_read)
        let packet_to_send :=
          make_packet 0 1 0 tcp_data.SND_NXT tcp_data.RCV_NXT tcp_data.RCV_WND payload_dst
        let r := rtqueue_append tcp_data packet_to_send tcp_data.SND_NXT env.now
        let tcp_data := r.1
        let tcp_data := { tcp_data with SND_NXT := (tcp_data.SND_NXT + bytes_read.toNat) % 2 ^ 32 }
        update_send_buffer_loop env fuel bytes_to_send tcp_data
          (actions ++ tcp_action_t.send_tcp_packet packet_to_send :: r.2)
      else update_send_buffer_loop env fuel bytes_to_send tcp_data actions
    else some (tcp_data, actions)

/-- The function `chitcp_update_send_buffer` of tcp.c; `none` when its loop does
not end.  Every iteration that reads something takes at least one byte off
`bytes_to_send`, so that `bytes_to_send` iterations are enough for a loop that
ends. -/
def chitcp_update_send_buffer (env : tcp_env_t) (tcp_data : tcp_data_t) :
    Option (tcp_data_t × List tcp_action_t) :=
  let bytes_to_send := circular_buffer_count tcp_data.send
  if bytes_to_send = 0 ∧ tcp_data.closing then
    some (chitcpd_tcp_state_handle_APPLICATION_CLOSE tcp_data env.now)
  else if bytes_to_send ≤ int_wrap (to_int tcp_data.SND_NXT - to_int tcp_data.SND_UNA) then
    some (tcp_data, [])
  else
    let bytes_to_send :=
      if circular_buffer_count tcp_data.send > to_int tcp_data.SND_WND then
        int_wrap (to_int tcp_data.SND_WND
          - int_wrap (to_int tcp_data.SND_NXT - to_int tcp_data.SND_UNA))
      else
        int_wrap (circular_buffer_count tcp_data.send
          - int_wrap (to_int tcp_data.SND_NXT - to_int tcp_data.SND_UNA))
    update_send_buffer_loop env bytes_to_send.toNat bytes_to_send tcp_data []

/-- The function `tcp_data_init` of tcp.c: the fields it assigns; the others keep
what the caller left in them.  `mt_init_ok` tells whether `mt_init` returned
`CHITCP_OK`; otherwise the function returns before the remaining assignments.
The two names are the bytes of "RETRANSMISSION" and of "PERSIST". -/
def tcp_data_init (mt_init_ok : Bool) (tcp_data : tcp_data_t) : tcp_data_t :=
  let tcp_data := { tcp_data with pending_packets := [] }
  if !mt_init_ok then tcp_data
  else
    let mt := mt_init 2
    let timers := mt.timers.modify
      (fun t => { t with callback_fn := some rtx_callback_fn, callback_args := some RETRANSMISSION })
      0
    let timers := timers.modify
      (fun t => { t with callback_fn := some pst_callback_fn, callback_args := some PERSIST })
      1
    let mt := { mt with timers := timers }
    let mt := (mt_set_timer_name mt RETRANSMISSION [82, 69, 84, 82, 65, 78, 83, 77, 73, 83, 83, 73, 79, 78]).1
    let mt := (mt_set_timer_name mt PERSIST [80, 69, 82, 83, 73, 83, 84]).1
    { tcp_data with mt := mt, rt_queue := [], list := [], RTO := MIN_RTO, rtms_timer_on := false,
                    first_RTT := false, probe_packet := none, closing := false }

/-- One round of the queue loop of `chitcpd_tcp_state_handle_TIMEOUT_RTX`: with a
zero send window a segment that carries neither SYN nor FIN is skipped, any other
is stamped with the current time, marked retransmitted and sent again. -/
def rtx_resend (SND_WND : Nat) (now : timespec) (elt : retransmission_queue_t) :
    retransmission_queue_t × List tcp_action_t :=
  if SND_WND = 0 ∧ elt.packet_sent.syn ≠ 1 ∧ elt.packet_sent.fin ≠ 1 then (elt, [])
  else ({ elt with packet_sent_ts := now, retransmitted := true },
        [tcp_action_t.send_tcp_packet elt.packet_sent])

/-- The function `chitcpd_tcp_state_handle_TIMEOUT_RTX` of tcp.c; `now` is what
`clock_gettime` returns. -/
def chitcpd_tcp_state_handle_TIMEOUT_RTX (tcp_data : tcp_data_t) (now : timespec) :
    tcp_data_t × List tcp_action_t :=
  let tcp_data := { tcp_data with RTO := (tcp_data.RTO * 2) % 2 ^ 64 }
  let tcp_data := { tcp_data with RTO := clamp_RTO tcp_data.RTO }
  let resent := tcp_data.rt_queue.map (rtx_resend tcp_data.SND_WND now)
  let tcp_data := { tcp_data with rt_queue := resent.map Prod.fst }
  let actions := (resent.map Prod.snd).flatten
  let tcp_data := { tcp_data with rtms_timer_on := false }
  if !tcp_data.rtms_timer_on && !tcp_data.rt_queue.isEmpty then
    let tcp_data := { tcp_data with rtms_timer_on := true }
    let r := tcp_set_timer tcp_data RETRANSMISSION now
    (r.1, actions ++ r.2)
  else (tcp_data, actions)

/-- The function `chitcpd_tcp_state_handle_TIMEOUT_PST` of tcp.c. -/
def chitcpd_tcp_state_handle_TIMEOUT_PST (env : tcp_env_t) (tcp_data : tcp_data_t) :
    tcp_data_t × List tcp_action_t :=
  let r : tcp_data_t × List tcp_action_t :=
    if circular_buffer_count tcp_data.send ≤ 0 then (tcp_data, [])
    else
      match tcp_data.probe_packet with
      | none =>
        let peeked := env.peek_at tcp_data.send tcp_data.SND_NXT 1
        let bytes_read := peeked.1
        let payload := (peeked.2 ++ [0]).take 1
        if bytes_read > 0 then
          let packet_to_send :=
            make_packet 0 1 0 tcp_data.SND_NXT tcp_data.RCV_NXT tcp_data.RCV_WND payload
          let tcp_data := { tcp_data with SND_NXT := (tcp_data.SND_NXT + 1) % 2 ^ 32 }
          let tcp_data := { tcp_data with probe_packet := some packet_to_send }
          (tcp_data, [tcp_action_t.send_tcp_packet packet_to_send])
        else (tcp_data, [])
      | some probe_packet => (tcp_data, [tcp_action_t.send_tcp_packet probe_packet])
  let t := tcp_set_timer r.1 PERSIST env.now
  (t.1, r.2 ++ t.2)

/-- The calls that assign `RTO` after `tcp_data_init`: `update_RTO` with its
timestamps (and the double-precision arithmetic in force) and the retransmission
timeout with the current time. -/
inductive rto_call_t where
  | update (fp : double_ops) (recv_ts sent_ts : timespec)
  | timeout_rtx (now : timespec)

/-- The TCB after one such call. -/
def rto_call (tcp_data : tcp_data_t) : rto_call_t → tcp_data_t
  | rto_call_t.update fp recv_ts sent_ts => update_RTO fp tcp_data recv_ts sent_ts
  | rto_call_t.timeout_rtx now => (chitcpd_tcp_state_handle_TIMEOUT_RTX tcp_data now).1

/-- The TCB after a sequence of such calls, starting from `tcp_data`. -/
def rto_run (tcp_data : tcp_data_t) (calls : List rto_call_t) : tcp_data_t :=
  calls.foldl rto_call tcp_data

/-! ## tcp.c: arrival of a packet -/

/-- The function `segmentcmp` of tcp.c: the difference of two `tcp_seq` returned as
an `int`. -/
def segmentcmp (a b : out_of_order_list_t) : Int :=
  to_int ((a.seq % 2 ^ 32 + 2 ^ 32 - b.seq % 2 ^ 32) % 2 ^ 32)

/-- The place at which `DL_INSERT_INORDER` of utlist.h puts `add`: in front of the
first element that does not compare below it. -/
def DL_LOWER_BOUND (add : out_of_order_list_t) : List out_of_order_list_t → Nat
  | [] => 0
  | elt :: rest => if segmentcmp elt add ≥ 0 then 0 else DL_LOWER_BOUND add rest + 1

/-- The out-of-order branch of `chitcpd_tcp_state_handle_PACKET_ARRIVAL`:
`DL_INSERT_INORDER` followed by the removal of a duplicate.  In a list of
utlist.h the `prev` of the head is the tail of the list, and the head of a list
of one element is its own `prev`. -/
def out_of_order_insert (list : List out_of_order_list_t) (out_of_order_seg : out_of_order_list_t) :
    List out_of_order_list_t :=
  let i := DL_LOWER_BOUND out_of_order_seg list
  let inserted := list.take i ++ out_of_order_seg :: list.drop i
  let next := inserted[i + 1]?
  let prev := if i = 0 then inserted.getLast? else inserted[i - 1]?
  let same (o : Option out_of_order_list_t) : Bool :=
    match o with
    | none => false
    | some elt => elt.seq == out_of_order_seg.seq
  if same next || same prev then inserted.eraseIdx i else inserted

/-- The packet of an acknowledgment without data: `ack` set, `seq = SND_NXT`,
`ack_seq = RCV_NXT`, `win = RCV_WND`. -/
def ack_packet (tcp_data : tcp_data_t) : tcp_packet_t :=
  make_packet 0 1 0 tcp_data.SND_NXT tcp_data.RCV_NXT tcp_data.RCV_WND []

/-- The branch `tcp_state == LISTEN` of `chitcpd_tcp_state_handle_PACKET_ARRIVAL`. -/
def packet_arrival_LISTEN (env : tcp_env_t) (tcp_data : tcp_data_t) (packet : tcp_packet_t) :
    tcp_result_t :=
  if packet.ack = 1 then ⟨tcp_state_t.LISTEN, tcp_data, []⟩
  else if packet.syn = 1 then
    let ISS := random_number env.rand
    let tcp_data := { tcp_data with ISS := ISS }
    let tcp_data := { tcp_data with SND_UNA := ISS }
    let tcp_data := { tcp_data with SND_NXT := (ISS + 1) % 2 ^ 32 }
    let tcp_data := { tcp_data with RCV_WND := circular_buffer_capacity tcp_data.recv }
    let tcp_data := { tcp_data with IRS := packet.seq }
    let tcp_data := { tcp_data with RCV_NXT := (packet.seq + 1) % 2 ^ 32 }
    let tcp_data := { tcp_data with
      send := circular_buffer_set_seq_initial tcp_data.send tcp_data.SND_NXT }
    let tcp_data := { tcp_data with
      recv := circular_buffer_set_seq_initial tcp_data.recv tcp_data.RCV_NXT }
    let packet_to_send := make_packet 1 1 0 tcp_data.ISS tcp_data.RCV_NXT tcp_data.RCV_WND []
    let r := rtqueue_append tcp_data packet_to_send tcp_data.ISS env.now
    ⟨tcp_state_t.SYN_RCVD, r.1, tcp_action_t.send_tcp_packet packet_to_send :: r.2⟩
  else ⟨tcp_state_t.LISTEN, tcp_data, []⟩

/-- The branch `tcp_state == SYN_SENT` of `chitcpd_tcp_state_handle_PACKET_ARRIVAL`.
The argument -1 of `rtqueue_pop` is the `tcp_seq` 2^32 - 1, and the third
argument of the second `rtqueue_append` is the header field as stored, in
network byte order. -/
def packet_arrival_SYN_SENT (env : tcp_env_t) (tcp_data : tcp_data_t) (packet : tcp_packet_t) :
    Option tcp_result_t :=
  if packet.ack = 1 ∧ (packet.ack_seq ≤ tcp_data.ISS ∨ packet.ack_seq > tcp_data.SND_NXT) then
    some ⟨tcp_state_t.SYN_SENT, tcp_data, []⟩
  else if packet.syn = 1 then
    let tcp_data := { tcp_data with first_RTT := true }
    match rtqueue_pop env.fp tcp_data (2 ^ 32 - 1) env.now with
    | none => none
    | some (tcp_data, popped) =>
      let tcp_data := { tcp_data with RCV_NXT := (packet.seq + 1) % 2 ^ 32 }
      let tcp_data := { tcp_data with IRS := packet.seq }
      let tcp_data := { tcp_data with SND_UNA := packet.ack_seq }
      let tcp_data := { tcp_data with SND_NXT := packet.ack_seq }
      let tcp_data := { tcp_data with SND_WND := packet.win }
      let tcp_data := { tcp_data with
        recv := circular_buffer_set_seq_initial tcp_data.recv tcp_data.RCV_NXT }
      if tcp_data.SND_UNA > tcp_data.ISS then
        some ⟨tcp_state_t.ESTABLISHED, tcp_data,
          popped ++ [tcp_action_t.send_tcp_packet (ack_packet tcp_data)]⟩
      else
        let packet_to_send := make_packet 1 1 0 tcp_data.ISS tcp_data.RCV_NXT tcp_data.RCV_WND []
        let r := rtqueue_append tcp_data packet_to_send (chitcp_htonl packet_to_send.seq) env.now
        some ⟨tcp_state_t.SYN_RCVD, r.1,
          popped ++ tcp_action_t.send_tcp_packet packet_to_send :: r.2⟩
  else some ⟨tcp_state_t.SYN_SENT, tcp_data, []⟩

/-- The value of `seq_acceptability` in `chitcpd_tcp_state_handle_PACKET_ARRIVAL`;
`Receive_Window` and `Segment_Length` are `uint16_t`, the sums are `uint32_t`. -/
def seq_acceptability (tcp_data : tcp_data_t) (packet : tcp_packet_t) : Bool :=
  let Receive_Window := tcp_data.RCV_WND % 2 ^ 16
  let Segment_Length := SEG_LEN packet % 2 ^ 16
  let first := packet.seq
  let last := (packet.seq + Segment_Length + 2 ^ 32 - 1) % 2 ^ 32
  let window_end := (tcp_data.RCV_NXT + tcp_data.RCV_WND) % 2 ^ 32
  if Segment_Length = 0 ∧ Receive_Window = 0 then
    if tcp_data.RCV_NXT ≠ first then false else true
  else if Segment_Length = 0 ∧ Receive_Window > 0 then
    if tcp_data.RCV_NXT > first ∨ first ≥ window_end then false else true
  else if Segment_Length > 0 ∧ Receive_Window = 0 then false
  else if Segment_Length > 0 ∧ Receive_Window > 0 then
    if (tcp_data.RCV_NXT > first ∨ first ≥ window_end) ∧
        (tcp_data.RCV_NXT > last ∨ last ≥ window_end) then false else true
  else true

/-- What the first step, "check sequence number", of the branch of
`chitcpd_tcp_state_handle_PACKET_ARRIVAL` for the synchronized states does with
a segment. -/
inductive seq_check_t where
  | out_of_order
  | dropped
  | not_acceptable
  | acceptable
  deriving DecidableEq, Repr

/-- The first step, "check sequence number", of the branch for the synchronized
states: a segment with data beyond `RCV_NXT` takes the out-of-order branch, a
segment before `RCV_NXT` makes the handler return, and the others are judged by
`seq_acceptability`. -/
def seq_check (tcp_data : tcp_data_t) (packet : tcp_packet_t) : seq_check_t :=
  let Segment_Length := SEG_LEN packet % 2 ^ 16
  if packet.seq > tcp_data.RCV_NXT ∧ Segment_Length ≠ 0 then seq_check_t.out_of_order
  else if packet.seq < tcp_data.RCV_NXT then seq_check_t.dropped
  else if !seq_acceptability tcp_data packet then seq_check_t.not_acceptable
  else seq_check_t.acceptable

/-- The handling of the PERSIST timer in the fifth step, "check ACK"; a timer
`pst` that was not found counts as inactive (`tcp_data_init` makes both
timers). -/
def packet_arrival_persist (env : tcp_env_t) (tcp_data : tcp_data_t) (packet : tcp_packet_t) :
    Option (tcp_data_t × List tcp_action_t) :=
  let pst := mt_get_timer_by_id tcp_data.mt PERSIST
  let pst_active := match pst with
    | none => false
    | some t => t.active
  if packet.win = 0 then
    let cancelled :=
      if pst_active then tcp_cancel_timer tcp_data PERSIST else some (tcp_data, [])
    match cancelled with
    | none => none
    | some (tcp_data, actions) =>
      let r := tcp_set_timer tcp_data PERSIST env.now
      some (r.1, actions ++ r.2)
  else if packet.win > 0 ∧ tcp_data.SND_WND = 0 then
    match tcp_cancel_timer tcp_data PERSIST with
    | none => none
    | some (tcp_data, actions) =>
      match tcp_data.probe_packet with
      | some _ =>
        let tcp_data := { tcp_data with probe_packet := none }
        some ({ tcp_data with send := circular_buffer_read tcp_data.send 1 }, actions)
      | none => some (tcp_data, actions)
  else some (tcp_data, [])

/-- The state in which an acknowledgment of everything sent leaves the entry, in
the fifth step: FIN_WAIT_1 becomes FIN_WAIT_2, CLOSING and LAST_ACK become
CLOSED. -/
def packet_arrival_ack_state (tcp_state : tcp_state_t) (tcp_data : tcp_data_t)
    (packet : tcp_packet_t) : tcp_state_t :=
  if tcp_state = tcp_state_t.FIN_WAIT_1 then
    if packet.ack_seq = tcp_data.SND_NXT then tcp_state_t.FIN_WAIT_2 else tcp_state
  else if tcp_state = tcp_state_t.CLOSING then
    if packet.ack_seq = tcp_data.SND_NXT then tcp_state_t.CLOSED else tcp_state
  else if tcp_state = tcp_state_t.LAST_ACK then
    if packet.ack_seq = tcp_data.SND_NXT then tcp_state_t.CLOSED else tcp_state
  else tcp_state

/-- The loop `DL_FOREACH(tcp_data->list, l)` of the seventh step over the elements
still to be visited: an element whose `seq` is `next_seq` is handed to the
pending packets and deleted from the list.  The result is what stays in the
list, the pending packets and `next_seq`. -/
def out_of_order_drain : List out_of_order_list_t → List tcp_packet_t → Nat →
    List out_of_order_list_t × List tcp_packet_t × Nat
  | [], pending_packets, next_seq => ([], pending_packets, next_seq)
  | l :: rest, pending_packets, next_seq =>
    if l.seq = next_seq then
      out_of_order_drain rest (pending_packets ++ [l.packet])
        ((next_seq + TCP_PAYLOAD_LEN l.packet) % 2 ^ 32)
    else
      let r := out_of_order_drain rest pending_packets next_seq
      (l :: r.1, r.2.1, r.2.2)

/-- The eighth step, "check the FIN bit", of the branch for the synchronized
states; `tcp_state` is the state at the entry of the handler and `current` the
state of the entry by now. -/
def packet_arrival_fin (tcp_state current : tcp_state_t) (tcp_data : tcp_data_t)
    (packet : tcp_packet_t) (actions : List tcp_action_t) : tcp_result_t :=
  if tcp_state = tcp_state_t.CLOSED ∨ tcp_state = tcp_state_t.LISTEN
      ∨ tcp_state = tcp_state_t.SYN_SENT then
    ⟨current, tcp_data, actions⟩
  else if packet.fin = 1 then
    let tcp_data := { tcp_data with RCV_NXT := (packet.seq + 1) % 2 ^ 32 }
    let actions := actions ++ [tcp_action_t.send_tcp_packet (ack_packet tcp_data)]
    if tcp_state = tcp_state_t.SYN_RCVD ∨ tcp_state = tcp_state_t.ESTABLISHED then
      ⟨tcp_state_t.CLOSE_WAIT, tcp_data, actions⟩
    else if tcp_state = tcp_state_t.FIN_WAIT_1 then
      if packet.ack_seq = tcp_data.SND_NXT then
        let tcp_data := { tcp_data with RCV_NXT := (packet.seq + 1) % 2 ^ 32 }
        let tcp_data := { tcp_data with SND_NXT := packet.ack_seq }
        ⟨tcp_state_t.CLOSING, tcp_data, actions⟩
      else ⟨tcp_state_t.CLOSING, tcp_data, actions⟩
    else if tcp_state = tcp_state_t.FIN_WAIT_2 then
      ⟨tcp_state_t.CLOSED, tcp_data, actions⟩
    else ⟨current, tcp_data, actions⟩
  else ⟨current, tcp_data, actions⟩

/-- The seventh step, "process the segment text", followed by the eighth. -/
def packet_arrival_text (tcp_state current : tcp_state_t) (tcp_data : tcp_data_t)
    (packet : tcp_packet_t) (actions : List tcp_action_t) : tcp_result_t :=
  if tcp_state = tcp_state_t.ESTABLISHED ∨ tcp_state = tcp_state_t.FIN_WAIT_1
      ∨ tcp_state = tcp_state_t.FIN_WAIT_2 then
    if packet.fin ≠ 1 ∧ tcp_state = tcp_state_t.ESTABLISHED ∧ TCP_PAYLOAD_LEN packet > 0 then
      let tcp_data := { tcp_data with recv := circular_buffer_write tcp_data.recv packet.payload }
      let tcp_data := { tcp_data with RCV_NXT := circular_buffer_next tcp_data.recv }
      let tcp_data := { tcp_data with RCV_WND := circular_buffer_available tcp_data.recv }
      let drained := out_of_order_drain tcp_data.list tcp_data.pending_packets tcp_data.RCV_NXT
      let tcp_data := { tcp_data with list := drained.1, pending_packets := drained.2.1 }
      let next_seq := drained.2.2
      let packet_to_send := make_packet 0 1 0 tcp_data.SND_NXT next_seq tcp_data.RCV_WND []
      packet_arrival_fin tcp_state current tcp_data packet
        (actions ++ [tcp_action_t.send_tcp_packet packet_to_send])
    else packet_arrival_fin tcp_state current tcp_data packet actions
  else ⟨current, tcp_data, actions⟩

/-- The fifth step, "check ACK", of the branch for the synchronized states,
followed by the seventh and the eighth. -/
def packet_arrival_ack (env : tcp_env_t) (tcp_state : tcp_state_t) (tcp_data : tcp_data_t)
    (packet : tcp_packet_t) : Option tcp_result_t :=
  if tcp_state = tcp_state_t.SYN_RCVD ∧ tcp_data.SND_UNA ≤ packet.ack_seq
      ∧ packet.ack_seq ≤ tcp_data.SND_NXT then
    let tcp_data := { tcp_data with first_RTT := true }
    match rtqueue_pop env.fp tcp_data (2 ^ 32 - 1) env.now with
    | none => none
    | some (tcp_data, popped) =>
      let tcp_data := { tcp_data with SND_UNA := packet.ack_seq }
      let tcp_data := { tcp_data with SND_NXT := packet.ack_seq }
      let tcp_data := { tcp_data with SND_WND := packet.win }
      some ⟨tcp_state_t.ESTABLISHED, tcp_data, popped⟩
  else if tcp_state = tcp_state_t.ESTABLISHED ∨ tcp_state = tcp_state_t.FIN_WAIT_1
      ∨ tcp_state = tcp_state_t.FIN_WAIT_2 ∨ tcp_state = tcp_state_t.CLOSE_WAIT
      ∨ tcp_state = tcp_state_t.CLOSING ∨ tcp_state = tcp_state_t.LAST_ACK
      ∨ tcp_state = tcp_state_t.TIME_WAIT then
    if tcp_data.SND_UNA ≤ packet.ack_seq ∧ packet.ack_seq ≤ tcp_data.SND_NXT then
      match rtqueue_pop env.fp tcp_data packet.ack_seq env.now with
      | none => none
      | some (tcp_data, popped) =>
        match packet_arrival_persist env tcp_data packet with
        | none => none
        | some (tcp_data, persist) =>
          let tcp_data := { tcp_data with SND_UNA := packet.ack_seq }
          let tcp_data := { tcp_data with SND_WND := packet.win }
          match chitcp_update_send_buffer env tcp_data with
          | none => none
          | some (tcp_data, pumped) =>
            some (packet_arrival_text tcp_state
              (packet_arrival_ack_state tcp_state tcp_data packet) tcp_data packet
              (popped ++ persist ++ pumped))
    else if packet.ack_seq > tcp_data.SND_NXT then
      some (packet_arrival_text tcp_state
        (packet_arrival_ack_state tcp_state tcp_data packet) tcp_data packet
        [tcp_action_t.send_tcp_packet (ack_packet tcp_data)])
    else some ⟨tcp_state, tcp_data, []⟩
  else some (packet_arrival_text tcp_state tcp_state tcp_data packet [])

/-- The branch of `chitcpd_tcp_state_handle_PACKET_ARRIVAL` for the synchronized
states (SYN_RCVD, ESTABLISHED, FIN_WAIT_1, FIN_WAIT_2, CLOSE_WAIT, CLOSING,
LAST_ACK, TIME_WAIT). -/
def packet_arrival_synchronized (env : tcp_env_t) (tcp_state : tcp_state_t)
    (tcp_data : tcp_data_t) (packet : tcp_packet_t) : Option tcp_result_t :=
  match seq_check tcp_data packet with
  | seq_check_t.out_of_order =>
    some ⟨tcp_state,
      { tcp_data with list := out_of_order_insert tcp_data.list ⟨packet.seq, packet⟩ }, []⟩
  | seq_check_t.dropped => some ⟨tcp_state, tcp_data, []⟩
  | seq_check_t.not_acceptable =>
    some ⟨tcp_state, tcp_data, [tcp_action_t.send_tcp_packet (ack_packet tcp_data)]⟩
  | seq_check_t.acceptable =>
    if packet.syn = 1 then some ⟨tcp_state, tcp_data, []⟩
    else if packet.ack = 0 then some ⟨tcp_state, tcp_data, []⟩
    else packet_arrival_ack env tcp_state tcp_data packet

/-- The function `chitcpd_tcp_state_handle_PACKET_ARRIVAL` of tcp.c; `tcp_state` is
`entry->tcp_state` at the call.  The result is `none` when the handler does not
return. -/
def chitcpd_tcp_state_handle_PACKET_ARRIVAL (env : tcp_env_t) (tcp_state : tcp_state_t)
    (tcp_data : tcp_data_t) : Option tcp_result_t :=
  match tcp_data.pending_packets with
  | [] => some ⟨tcp_state, tcp_data, []⟩
  | packet :: rest =>
    let tcp_data := { tcp_data with pending_packets := rest }
    if tcp_state = tcp_state_t.CLOSED then some ⟨tcp_state, tcp_data, []⟩
    else if tcp_state = tcp_state_t.LISTEN then some (packet_arrival_LISTEN env tcp_data packet)
    else if tcp_state = tcp_state_t.SYN_SENT then packet_arrival_SYN_SENT env tcp_data packet
    else packet_arrival_synchronized env tcp_state tcp_data packet

/-! ## tcp.c: the handlers of the states -/

/-- The function `chitcpd_tcp_state_handle_CLOSED` of tcp.c.  The third argument
of `rtqueue_append` is the header field as stored, in network byte order;
`tcp_data_free` empties the list of pending packets. -/
def chitcpd_tcp_state_handle_CLOSED (env : tcp_env_t) (tcp_state : tcp_state_t)
    (tcp_data : tcp_data_t) (event : tcp_event_type_t) : Option tcp_result_t :=
  if event = tcp_event_type_t.APPLICATION_CONNECT then
    let ISS := random_number env.rand
    let tcp_data := { tcp_data with ISS := ISS }
    let tcp_data := { tcp_data with SND_UNA := ISS }
    let tcp_data := { tcp_data with SND_NXT := (ISS + 1) % 2 ^ 32 }
    let tcp_data := { tcp_data with RCV_WND := circular_buffer_capacity tcp_data.recv }
    let tcp_data := { tcp_data with
      send := circular_buffer_set_seq_initial tcp_data.send tcp_data.SND_NXT }
    let packet := make_packet 1 0 0 tcp_data.ISS 0 tcp_data.RCV_WND []
    let r := rtqueue_append tcp_data packet (chitcp_htonl packet.seq) env.now
    some ⟨tcp_state_t.SYN_SENT, r.1, tcp_action_t.send_tcp_packet packet :: r.2⟩
  else if event = tcp_event_type_t.CLEANUP then
    some ⟨tcp_state, { tcp_data with pending_packets := [] }, []⟩
  else some ⟨tcp_state, tcp_data, []⟩

/-- The function `chitcpd_tcp_state_handle_LISTEN` of tcp.c. -/
def chitcpd_tcp_state_handle_LISTEN (env : tcp_env_t) (tcp_state : tcp_state_t)
    (tcp_data : tcp_data_t) (event : tcp_event_type_t) : Option tcp_result_t :=
  if event = tcp_event_type_t.PACKET_ARRIVAL then
    chitcpd_tcp_state_handle_PACKET_ARRIVAL env tcp_state tcp_data
  else some ⟨tcp_state, tcp_data, []⟩

/-- The branch `event == TIMEOUT_RTX` of the handlers of the states. -/
def handle_TIMEOUT_RTX (env : tcp_env_t) (tcp_state : tcp_state_t) (tcp_data : tcp_data_t) :
    Option tcp_result_t :=
  let r := chitcpd_tcp_state_handle_TIMEOUT_RTX tcp_data env.now
  some ⟨tcp_state, r.1, r.2⟩

/-- The branch `event == TIMEOUT_PST` of the handlers of the states. -/
def handle_TIMEOUT_PST (env : tcp_env_t) (tcp_state : tcp_state_t) (tcp_data : tcp_data_t) :
    Option tcp_result_t :=
  let r := chitcpd_tcp_state_handle_TIMEOUT_PST env tcp_data
  some ⟨tcp_state, r.1, r.2⟩

/-- The branch `event == APPLICATION_RECEIVE` of the handlers of the states. -/
def handle_APPLICATION_RECEIVE (tcp_state : tcp_state_t) (tcp_data : tcp_data_t) :
    Option tcp_result_t :=
  some ⟨tcp_state, { tcp_data with RCV_WND := circular_buffer_available tcp_data.recv }, []⟩

/-- The branch `event == APPLICATION_CLOSE` of the handlers of ESTABLISHED and
CLOSE_WAIT; `next` is the state that the branch moves to. -/
def handle_APPLICATION_CLOSE (env : tcp_env_t) (next : tcp_state_t) (tcp_data : tcp_data_t) :
    Option tcp_result_t :=
  let tcp_data := { tcp_data with closing := true }
  match chitcp_update_send_buffer env tcp_data with
  | none => none
  | some (tcp_data, actions) => some ⟨next, tcp_data, actions⟩

/-- The function `chitcpd_tcp_state_handle_SYN_RCVD` of tcp.c. -/
def chitcpd_tcp_state_handle_SYN_RCVD (env : tcp_env_t) (tcp_state : tcp_state_t)
    (tcp_data : tcp_data_t) (event : tcp_event_type_t) : Option tcp_result_t :=
  if event = tcp_event_type_t.PACKET_ARRIVAL then
    chitcpd_tcp_state_handle_PACKET_ARRIVAL env tcp_state tcp_data
  else if event = tcp_event_type_t.TIMEOUT_RTX then handle_TIMEOUT_RTX env tcp_state tcp_data
  else some ⟨tcp_state, tcp_data, []⟩

/-- The function `chitcpd_tcp_state_handle_SYN_SENT` of tcp.c. -/
def chitcpd_tcp_state_handle_SYN_SENT (env : tcp_env_t) (tcp_state : tcp_state_t)
    (tcp_data : tcp_data_t) (event : tcp_event_type_t) : Option tcp_result_t :=
  if event = tcp_event_type_t.PACKET_ARRIVAL then
    chitcpd_tcp_state_handle_PACKET_ARRIVAL env tcp_state tcp_data
  else if event = tcp_event_type_t.TIMEOUT_RTX then handle_TIMEOUT_RTX env tcp_state tcp_data
  else some ⟨tcp_state, tcp_data, []⟩

/-- The function `chitcpd_tcp_state_handle_ESTABLISHED` of tcp.c. -/
def chitcpd_tcp_state_handle_ESTABLISHED (env : tcp_env_t) (tcp_state : tcp_state_t)
    (tcp_data : tcp_data_t) (event : tcp_event_type_t) : Option tcp_result_t :=
  if event = tcp_event_type_t.APPLICATION_SEND then
    match chitcp_update_send_buffer env tcp_data with
    | none => none
    | some (tcp_data, actions) => some ⟨tcp_state, tcp_data, actions⟩
  else if event = tcp_event_type_t.PACKET_ARRIVAL then
    chitcpd_tcp_state_handle_PACKET_ARRIVAL env tcp_state tcp_data
  else if event = tcp_event_type_t.APPLICATION_RECEIVE then
    handle_APPLICATION_RECEIVE tcp_state tcp_data
  else if event = tcp_event_type_t.APPLICATION_CLOSE then
    handle_APPLICATION_CLOSE env tcp_state_t.FIN_WAIT_1 tcp_data
  else if event = tcp_event_type_t.TIMEOUT_RTX then handle_TIMEOUT_RTX env tcp_state tcp_data
  else if event = tcp_event_type_t.TIMEOUT_PST then handle_TIMEOUT_PST env tcp_state tcp_data
  else some ⟨tcp_state, tcp_data, []⟩

/-- The function `chitcpd_tcp_state_handle_FIN_WAIT_1` of tcp.c. -/
def chitcpd_tcp_state_handle_FIN_WAIT_1 (env : tcp_env_t) (tcp_state : tcp_state_t)
    (tcp_data : tcp_data_t) (event : tcp_event_type_t) : Option tcp_result_t :=
  if event = tcp_event_type_t.PACKET_ARRIVAL then
    chitcpd_tcp_state_handle_PACKET_ARRIVAL env tcp_state tcp_data
  else if event = tcp_event_type_t.APPLICATION_RECEIVE then
    handle_APPLICATION_RECEIVE tcp_state tcp_data
  else if event = tcp_event_type_t.TIMEOUT_RTX then handle_TIMEOUT_RTX env tcp_state tcp_data
  else if event = tcp_event_type_t.TIMEOUT_PST then handle_TIMEOUT_PST env tcp_state tcp_data
  else some ⟨tcp_state, tcp_data, []⟩

/-- The function `chitcpd_tcp_state_handle_FIN_WAIT_2` of tcp.c. -/
def chitcpd_tcp_state_handle_FIN_WAIT_2 (env : tcp_env_t) (tcp_state : tcp_state_t)
    (tcp_data : tcp_data_t) (event : tcp_event_type_t) : Option tcp_result_t :=
  if event = tcp_event_type_t.PACKET_ARRIVAL then
    chitcpd_tcp_state_handle_PACKET_ARRIVAL env tcp_state tcp_data
  else if event = tcp_event_type_t.APPLICATION_RECEIVE then
    handle_APPLICATION_RECEIVE tcp_state tcp_data
  else if event = tcp_event_type_t.TIMEOUT_RTX then handle_TIMEOUT_RTX env tcp_state tcp_data
  else some ⟨tcp_state, tcp_data, []⟩

/-- The function `chitcpd_tcp_state_handle_CLOSE_WAIT` of tcp.c. -/
def chitcpd_tcp_state_handle_CLOSE_WAIT (env : tcp_env_t) (tcp_state : tcp_state_t)
    (tcp_data : tcp_data_t) (event : tcp_event_type_t) : Option tcp_result_t :=
  if event = tcp_event_type_t.APPLICATION_CLOSE then
    handle_APPLICATION_CLOSE env tcp_state_t.LAST_ACK tcp_data
  else if event = tcp_event_type_t.PACKET_ARRIVAL then
    chitcpd_tcp_state_handle_PACKET_ARRIVAL env tcp_state tcp_data
  else if event = tcp_event_type_t.TIMEOUT_RTX then handle_TIMEOUT_RTX env tcp_state tcp_data
  else if event = tcp_event_type_t.TIMEOUT_PST then handle_TIMEOUT_PST env tcp_state tcp_data
  else some ⟨tcp_state, tcp_data, []⟩

/-- The function `chitcpd_tcp_state_handle_CLOSING` of tcp.c. -/
def chitcpd_tcp_state_handle_CLOSING (env : tcp_env_t) (tcp_state : tcp_state_t)
    (tcp_data : tcp_data_t) (event : tcp_event_type_t) : Option tcp_result_t :=
  if event = tcp_event_type_t.PACKET_ARRIVAL then
    chitcpd_tcp_state_handle_PACKET_ARRIVAL env tcp_state tcp_data
  else if event = tcp_event_type_t.TIMEOUT_RTX then handle_TIMEOUT_RTX env tcp_state tcp_data
  else if event = tcp_event_type_t.TIMEOUT_PST then handle_TIMEOUT_PST env tcp_state tcp_data
  else some ⟨tcp_state, tcp_data, []⟩

/-- The function `chitcpd_tcp_state_handle_TIME_WAIT` of tcp.c. -/
def chitcpd_tcp_state_handle_TIME_WAIT (tcp_state : tcp_state_t)
    (tcp_data : tcp_data_t) : Option tcp_result_t :=
  some ⟨tcp_state, tcp_data, []⟩

/-- The function `chitcpd_tcp_state_handle_LAST_ACK` of tcp.c. -/
def chitcpd_tcp_state_handle_LAST_ACK (env : tcp_env_t) (tcp_state : tcp_state_t)
    (tcp_data : tcp_data_t) (event : tcp_event_type_t) : Option tcp_result_t :=
  if event = tcp_event_type_t.PACKET_ARRIVAL then
    chitcpd_tcp_state_handle_PACKET_ARRIVAL env tcp_state tcp_data
  else if event = tcp_event_type_t.TIMEOUT_RTX then handle_TIMEOUT_RTX env tcp_state tcp_data
  else if event = tcp_event_type_t.TIMEOUT_PST then handle_TIMEOUT_PST env tcp_state tcp_data
  else some ⟨tcp_state, tcp_data, []⟩

/-- Modelled from the spec: the dispatch of an event, "the handler function for
that state is called" (tcp.c, opening comment; spec 4.1). -/
def chitcpd_tcp_handle_event (env : tcp_env_t) (tcp_state : tcp_state_t) (tcp_data : tcp_data_t)
    (event : tcp_event_type_t) : Option tcp_result_t :=
  match tcp_state with
  | tcp_state_t.CLOSED => chitcpd_tcp_state_handle_CLOSED env tcp_state tcp_data event
  | tcp_state_t.LISTEN => chitcpd_tcp_state_handle_LISTEN env tcp_state tcp_data event
  | tcp_state_t.SYN_RCVD => chitcpd_tcp_state_handle_SYN_RCVD env tcp_state tcp_data event
  | tcp_state_t.SYN_SENT => chitcpd_tcp_state_handle_SYN_SENT env tcp_state tcp_data event
  | tcp_state_t.ESTABLISHED => chitcpd_tcp_state_handle_ESTABLISHED env tcp_state tcp_data event
  | tcp_state_t.FIN_WAIT_1 => chitcpd_tcp_state_handle_FIN_WAIT_1 env tcp_state tcp_data event
  | tcp_state_t.FIN_WAIT_2 => chitcpd_tcp_state_handle_FIN_WAIT_2 env tcp_state tcp_data event
  | tcp_state_t.CLOSE_WAIT => chitcpd_tcp_state_handle_CLOSE_WAIT env tcp_state tcp_data event
  | tcp_state_t.CLOSING => chitcpd_tcp_state_handle_CLOSING env tcp_state tcp_data event
  | tcp_state_t.TIME_WAIT => chitcpd_tcp_state_handle_TIME_WAIT tcp_state tcp_data
  | tcp_state_t.LAST_ACK => chitcpd_tcp_state_handle_LAST_ACK env tcp_state tcp_data event

/-! ## The threads around the handlers -/

/-- The body of the inner loop of `mt_handler_func` of multitimer.c: the timer at
the head of the list of active timers times out; its callback (for the timers
of tcp.c, `chitcpd_timeout`, which posts a timeout event) is not part of the
result.  `none` when `delete_timer` fails. -/
def mt_timeout (mt : multi_timer_t) : Option multi_timer_t :=
  match mt.active_timers with
  | [] => some mt
  | elt :: _ =>
    let timers := mt.timers.modify
      (fun t => { t with num_timeouts := t.num_timeouts + 1, active := false }) elt.timer
    delete_timer { mt with timers := timers } elt.timer

/-- Modelled from the spec: what happens to a connection (spec 5.1): its thread
handles an event; the application writes bytes to the send buffer or takes bytes
from the receive buffer; the network thread appends an arriving packet to the
pending packets; the timer thread lets the earliest timer time out. -/
inductive tcp_input_t where
  | event (env : tcp_env_t) (event : tcp_event_type_t)
  | socket_send (bytes : List Nat)
  | socket_recv (len : Nat)
  | packet_arrives (packet : tcp_packet_t)
  | timer_expires

/-- Modelled from the spec: one step of a connection (spec 5.1); `none` when the
step does not return. -/
def tcp_step (tcp_state : tcp_state_t) (tcp_data : tcp_data_t) :
    tcp_input_t → Option tcp_result_t
  | tcp_input_t.event env event => chitcpd_tcp_handle_event env tcp_state tcp_data event
  | tcp_input_t.socket_send bytes =>
    some ⟨tcp_state, { tcp_data with send := circular_buffer_write tcp_data.send bytes }, []⟩
  | tcp_input_t.socket_recv len =>
    some ⟨tcp_state, { tcp_data with recv := circular_buffer_read tcp_data.recv len }, []⟩
  | tcp_input_t.packet_arrives packet =>
    some ⟨tcp_state,
      { tcp_data with pending_packets := tcp_data.pending_packets ++ [packet] }, []⟩
  | tcp_input_t.timer_expires =>
    match mt_timeout tcp_data.mt with
    | none => none
    | some mt => some ⟨tcp_state, { tcp_data with mt := mt }, []⟩

/-- Modelled from the spec: a sequence of steps of a connection, one after the
other (spec 5.1); the actions of the steps are collected in order, and the
result is `none` when one of the steps does not return. -/
def tcp_run : tcp_result_t → List tcp_input_t → Option tcp_result_t
  | r, [] => some r
  | r, input :: rest =>
    match tcp_step r.tcp_state r.tcp_data input with
    | none => none
    | some next => tcp_run ⟨next.tcp_state, next.tcp_data, r.actions ++ next.actions⟩ rest

/-! ## Examples -/

/-- The double-precision expressions of `update_RTO` when the arithmetic is exact,
as it is for operands below 2^51: three quarters of RTTVAR plus one quarter of the
value of `abs`, and seven eighths of SRTT plus one eighth of RTT, each cut to an
integer by the conversion to `uint64_t`. -/
def exact_double_ops : double_ops :=
  { rttvar := fun RTTVAR d => (Int.tdiv (3 * (RTTVAR : Int) + d) 4).toNat,
    srtt := fun SRTT RTT => (7 * SRTT + RTT) / 8 }

/-- A socket entry as it is allocated: every field zero, two empty buffers of
4096 bytes. -/
def ex_zero_data : tcp_data_t :=
  { ISS := 0, IRS := 0, SND_UNA := 0, SND_NXT := 0, SND_WND := 0, RCV_NXT := 0, RCV_WND := 0,
    send := ⟨[], 0, 4096⟩, recv := ⟨[], 0, 4096⟩, mt := ⟨0, [], [], false⟩,
    rt_queue := [], list := [], pending_packets := [],
    RTT := 0, SRTT := 0, RTTVAR := 0, RTO := 0,
    first_RTT := false, rtms_timer_on := false, probe_packet := none, closing := false }

/-- The entry after `tcp_data_init`. -/
def ex_init_data : tcp_data_t := tcp_data_init true ex_zero_data

/-- A call at 100 s on the clock, with exact arithmetic, the buffer function
`circular_buffer_peek_at`, and `rand() = rand`. -/
def ex_env (rand : Nat) : tcp_env_t :=
  { fp := exact_double_ops, peek_at := circular_buffer_peek_at, now := ⟨100, 0⟩, rand := rand }

/-- A call when the clock reads `sec` seconds, otherwise as `ex_env 0`. -/
def ex_env_at (sec : Int) : tcp_env_t :=
  { ex_env 0 with now := ⟨sec, 0⟩ }

/-- A connection in SYN_SENT with ISS 1000: the SYN is in the retransmission queue
and the retransmission timer is armed. -/
def ex_syn_sent : tcp_data_t :=
  { ex_init_data with
    ISS := 1000, SND_UNA := 1000, SND_NXT := 1001, RCV_WND := 4096,
    send := ⟨[], 1001, 4096⟩,
    rt_queue := [⟨make_packet 1 0 0 1000 0 4096 [], ⟨99, 0⟩, chitcp_htonl 1000, false⟩],
    rtms_timer_on := true,
    mt := (tcp_set_timer ex_init_data RETRANSMISSION ⟨99, 0⟩).1.mt }

/-- An established connection: ISS 232, IRS 2000, nothing in flight, a peer window
of 4096 bytes, and an estimate of the round-trip time of 200 ms. -/
def ex_established : tcp_data_t :=
  { ex_init_data with
    ISS := 232, IRS := 2000, SND_UNA := 233, SND_NXT := 233, SND_WND := 4096,
    RCV_NXT := 2001, RCV_WND := 4096,
    send := ⟨[], 233, 4096⟩, recv := ⟨[], 2001, 4096⟩,
    RTT := 200000000, SRTT := 200000000, RTTVAR := 100000000, RTO := 600000000 }

/-- The result of APPLICATION_CONNECT in CLOSED after `tcp_data_init`, with
`rand() = 1000`, that is ISS = 232. -/
def ex_after_connect : tcp_result_t :=
  (chitcpd_tcp_handle_event (ex_env 1000) tcp_state_t.CLOSED ex_init_data
    tcp_event_type_t.APPLICATION_CONNECT).getD ⟨tcp_state_t.CLOSED, ex_init_data, []⟩

/-- The SYN+ACK of the peer: SEG.SEQ = 2000, SEG.ACK = 233, window 4096. -/
def ex_synack : tcp_packet_t := ⟨1, 1, 0, 2000, 233, 4096, []⟩

/-- The connection of `ex_after_connect` once the network thread has queued
`ex_synack`. -/
def ex_synack_pending : tcp_data_t :=
  { ex_after_connect.tcp_data with
    pending_packets := ex_after_connect.tcp_data.pending_packets ++ [ex_synack] }

/-- The result of PACKET_ARRIVAL for `ex_synack_pending`. -/
def ex_after_synack : tcp_result_t :=
  (chitcpd_tcp_handle_event (ex_env 0) tcp_state_t.SYN_SENT ex_synack_pending
    tcp_event_type_t.PACKET_ARRIVAL).getD ⟨tcp_state_t.SYN_SENT, ex_synack_pending, []⟩

/-- The established connection with a closed peer window and three bytes waiting in
the send buffer, to which a segment without data arrives whose SEG.ACK = 233 is
SND.UNA and which opens the window. -/
def ex_window_update : tcp_data_t :=
  { ex_established with
    SND_WND := 0, send := ⟨[1, 2, 3], 233, 4096⟩,
    pending_packets := [⟨0, 1, 0, 2001, 233, 4096, []⟩] }

/-- The result of the arrival handler for `ex_window_update`. -/
def ex_window_opened : tcp_result_t :=
  (chitcpd_tcp_state_handle_PACKET_ARRIVAL (ex_env 0) tcp_state_t.ESTABLISHED
    ex_window_update).getD ⟨tcp_state_t.ESTABLISHED, ex_window_update, []⟩

/-- The established connection with two segments in flight, of three and of two
bytes, sent at 100 s. -/
def ex_two_in_flight : tcp_data_t :=
  { ex_established with
    SND_NXT := 238, send := ⟨[1, 2, 3, 4, 5], 233, 4096⟩,
    rt_queue := [⟨⟨0, 1, 0, 233, 2001, 4096, [1, 2, 3]⟩, ⟨100, 0⟩, 236, false⟩,
                 ⟨⟨0, 1, 0, 236, 2001, 4096, [4, 5]⟩, ⟨100, 0⟩, 238, false⟩] }

/-- The application closes the established connection at 100 s: the FIN, with
SEG.SEQ = 233, is sent and queued for retransmission. -/
def ex_close_inputs : List tcp_input_t :=
  [tcp_input_t.event (ex_env_at 100) tcp_event_type_t.APPLICATION_CLOSE]

/-- After `ex_close_inputs`, a segment without data arrives at 101 s whose
SEG.ACK = 233 acknowledges nothing that is outstanding. -/
def ex_close_ack_inputs : List tcp_input_t :=
  ex_close_inputs ++
  [tcp_input_t.packet_arrives ⟨0, 1, 0, 2001, 233, 4096, []⟩,
   tcp_input_t.event (ex_env_at 101) tcp_event_type_t.PACKET_ARRIVAL]

/-- The application sends three bytes at 100 s; the retransmission timer expires
and the segment is sent again at 101 s. -/
def ex_resend_inputs : List tcp_input_t :=
  [tcp_input_t.socket_send [1, 2, 3],
   tcp_input_t.event (ex_env_at 100) tcp_event_type_t.APPLICATION_SEND,
   tcp_input_t.timer_expires,
   tcp_input_t.event (ex_env_at 101) tcp_event_type_t.TIMEOUT_RTX]

/-- After `ex_resend_inputs`, the acknowledgment of the three bytes arrives at
102 s. -/
def ex_resend_ack_inputs : List tcp_input_t :=
  ex_resend_inputs ++
  [tcp_input_t.packet_arrives ⟨0, 1, 0, 2001, 236, 4096, []⟩,
   tcp_input_t.event (ex_env_at 102) tcp_event_type_t.PACKET_ARRIVAL]

/-- The application sends three bytes and then two bytes at 100 s, in two
segments. -/
def ex_two_segments_inputs : List tcp_input_t :=
  [tcp_input_t.socket_send [1, 2, 3],
   tcp_input_t.event (ex_env_at 100) tcp_event_type_t.APPLICATION_SEND,
   tcp_input_t.socket_send [4, 5],
   tcp_input_t.event (ex_env_at 100) tcp_event_type_t.APPLICATION_SEND]

/-- After `ex_two_segments_inputs`, one acknowledgment of both segments arrives at
101 s. -/
def ex_two_segments_ack_inputs : List tcp_input_t :=
  ex_two_segments_inputs ++
  [tcp_input_t.packet_arrives ⟨0, 1, 0, 2001, 238, 4096, []⟩,
   tcp_input_t.event (ex_env_at 101) tcp_event_type_t.PACKET_ARRIVAL]

/-- The later measurement as the spec words it (spec 4.1):
RTTVAR' = floor(3/4 RTTVAR + 1/4 |SRTT - R|). -/
def spec_update_RTTVAR (RTTVAR SRTT R : Nat) : Nat :=
  (3 * RTTVAR + (max SRTT R - min SRTT R)) / 4

/-- The later measurement as the spec words it: SRTT' = floor(7/8 SRTT + 1/8 R). -/
def spec_update_SRTT (SRTT R : Nat) : Nat := (7 * SRTT + R) / 8

/-- The later measurement as the spec words it:
RTO = clamp(SRTT' + max(50 ms, 4 RTTVAR'), 200 ms, 60 s). -/
def spec_update_RTO (RTTVAR SRTT R : Nat) : Nat :=
  max 200000000 (min 60000000000
    (spec_update_SRTT SRTT R + max 50000000 (4 * spec_update_RTTVAR RTTVAR SRTT R)))

/-- Two timers of which timer 0 was set at 5 s for 100 ns and timer 1 is idle. -/
def ex_one_armed : multi_timer_t :=
  (mt_set_timer (mt_init 2) 0 100 none none ⟨5, 0⟩).1

/-- The two timers of `ex_one_armed` after timer 1 was set at 5 s for 30 ns: it
comes before timer 0 in the list. -/
def ex_two_armed : multi_timer_t :=
  (mt_set_timer ex_one_armed 1 30 none none ⟨5, 0⟩).1

/-- A first segment is put in the retransmission queue of the connection of
`ex_init_data` at 100 s: the RETRANSMISSION timer is set. -/
def ex_one_queued : tcp_data_t :=
  (rtqueue_append ex_init_data ⟨0, 1, 0, 233, 2001, 4096, [1, 2, 3]⟩ 233 ⟨100, 0⟩).1

/-- The connection of `ex_one_queued` once the RETRANSMISSION timer has timed out
and before the timeout is handled. -/
def ex_timer_expired : tcp_data_t :=
  { ex_one_queued with mt := (mt_timeout ex_one_queued.mt).getD ex_one_queued.mt }

/-- A second segment is put in the retransmission queue of `ex_timer_expired`, at
101 s. -/
def ex_two_queued : tcp_data_t :=
  (rtqueue_append ex_timer_expired ⟨0, 1, 0, 236, 2001, 4096, [4, 5]⟩ 236 ⟨101, 0⟩).1

/-- The established connection with two segments in the out-of-order list, at
2010 and 2030, to which a segment of one byte at 2020 arrives. -/
def ex_two_out_of_order : tcp_data_t :=
  { ex_established with
    list := [⟨2010, ⟨0, 1, 0, 2010, 233, 4096, [7]⟩⟩, ⟨2030, ⟨0, 1, 0, 2030, 233, 4096, [9]⟩⟩],
    pending_packets := [⟨0, 1, 0, 2020, 233, 4096, [8]⟩] }

/-- The established connection with a segment of two bytes at 2004 in the
out-of-order list, to which the three bytes from 2001 on arrive. -/
def ex_gap_filled : tcp_data_t :=
  { ex_established with
    list := [⟨2004, ⟨0, 1, 0, 2004, 233, 4096, [9, 9]⟩⟩],
    pending_packets := [⟨0, 1, 0, 2001, 233, 4096, [1, 2, 3]⟩] }

/-- The established connection to which three bytes arrive in a segment whose
SEG.ACK = 200 is below SND.UNA = 233. -/
def ex_data_with_old_ack : tcp_data_t :=
  { ex_established with pending_packets := [⟨0, 1, 0, 2001, 200, 4096, [1, 2, 3]⟩] }

/-- The established connection to which three bytes arrive in order. -/
def ex_data_in_order : tcp_data_t :=
  { ex_established with pending_packets := [⟨0, 1, 0, 2001, 233, 4096, [1, 2, 3]⟩] }

/-- The result of the arrival handler for `ex_data_in_order`. -/
def ex_data_delivered : tcp_result_t :=
  (chitcpd_tcp_state_handle_PACKET_ARRIVAL (ex_env 0) tcp_state_t.ESTABLISHED
    ex_data_in_order).getD ⟨tcp_state_t.CLOSED, ex_zero_data, []⟩

/-- After `ex_close_inputs` (FIN_WAIT_1, our FIN at 233, SND.NXT = 234) a segment
with FIN and ACK arrives at 101 s whose SEG.ACK = 234 acknowledges our FIN. -/
def ex_fin_wait_1_fin_acked_inputs : List tcp_input_t :=
  ex_close_inputs ++
  [tcp_input_t.packet_arrives ⟨0, 1, 1, 2001, 234, 4096, []⟩,
   tcp_input_t.event (ex_env_at 101) tcp_event_type_t.PACKET_ARRIVAL]

/-- After `ex_close_inputs` a segment with FIN and ACK arrives at 101 s whose
SEG.ACK = 233 does not acknowledge our FIN. -/
def ex_fin_wait_1_fin_inputs : List tcp_input_t :=
  ex_close_inputs ++
  [tcp_input_t.packet_arrives ⟨0, 1, 1, 2001, 233, 4096, []⟩,
   tcp_input_t.event (ex_env_at 101) tcp_event_type_t.PACKET_ARRIVAL]

/-- After `ex_close_inputs` the acknowledgment of our FIN arrives at 101 s
(FIN_WAIT_2) and the FIN of the peer at 102 s. -/
def ex_fin_wait_2_fin_inputs : List tcp_input_t :=
  ex_close_inputs ++
  [tcp_input_t.packet_arrives ⟨0, 1, 0, 2001, 234, 4096, []⟩,
   tcp_input_t.event (ex_env_at 101) tcp_event_type_t.PACKET_ARRIVAL,
   tcp_input_t.packet_arrives ⟨0, 1, 1, 2001, 234, 4096, []⟩,
   tcp_input_t.event (ex_env_at 102) tcp_event_type_t.PACKET_ARRIVAL]

/-- The FIN of the peer arrives in ESTABLISHED at 101 s. -/
def ex_established_fin_inputs : List tcp_input_t :=
  [tcp_input_t.packet_arrives ⟨0, 1, 1, 2001, 233, 4096, []⟩,
   tcp_input_t.event (ex_env_at 101) tcp_event_type_t.PACKET_ARRIVAL]

/-- The established connection with three bytes in the send buffer that are not
yet sent. -/
def ex_three_to_send : tcp_data_t :=
  { ex_established with send := ⟨[1, 2, 3], 233, 4096⟩ }

/-- Three bytes are written and sent at 100 s; at 101 s a segment arrives whose
SEG.ACK = 233 acknowledges none of them and which advertises a window of 0; the
retransmission timer and then the persist timer expire. -/
def ex_all_in_flight_inputs : List tcp_input_t :=
  [tcp_input_t.socket_send [1, 2, 3],
   tcp_input_t.event (ex_env_at 100) tcp_event_type_t.APPLICATION_SEND,
   tcp_input_t.packet_arrives ⟨0, 1, 0, 2001, 233, 0, []⟩,
   tcp_input_t.event (ex_env_at 101) tcp_event_type_t.PACKET_ARRIVAL,
   tcp_input_t.timer_expires,
   tcp_input_t.timer_expires]

/-- The connection after `ex_all_in_flight_inputs`: SND.UNA = 233, SND.NXT = 236,
SND.WND = 0, the send buffer holds the three bytes, all of them sent. -/
def ex_all_in_flight : tcp_data_t :=
  ((tcp_run ⟨tcp_state_t.ESTABLISHED, ex_established, []⟩ ex_all_in_flight_inputs).getD
    ⟨tcp_state_t.CLOSED, ex_zero_data, []⟩).tcp_data

/-- At 100 s a segment arrives that advertises a window of 0; three bytes are
written at 101 s, which the closed window keeps in the send buffer; the persist
timer expires. -/
def ex_probe_due_inputs : List tcp_input_t :=
  [tcp_input_t.packet_arrives ⟨0, 1, 0, 2001, 233, 0, []⟩,
   tcp_input_t.event (ex_env_at 100) tcp_event_type_t.PACKET_ARRIVAL,
   tcp_input_t.socket_send [1, 2, 3],
   tcp_input_t.event (ex_env_at 101) tcp_event_type_t.APPLICATION_SEND,
   tcp_input_t.timer_expires]

/-- The connection after `ex_probe_due_inputs`: SND.UNA = SND.NXT = 233,
SND.WND = 0, three unsent bytes in the send buffer, no timer armed. -/
def ex_probe_due : tcp_data_t :=
  ((tcp_run ⟨tcp_state_t.ESTABLISHED, ex_established, []⟩ ex_probe_due_inputs).getD
    ⟨tcp_state_t.CLOSED, ex_zero_data, []⟩).tcp_data

/-- The established connection with an empty send buffer, to which a segment
without data arrives whose SEG.ACK = 233 is SND.UNA and which advertises a
window of 0. -/
def ex_zero_window_idle : tcp_data_t :=
  { ex_established with pending_packets := [⟨0, 1, 0, 2001, 233, 0, []⟩] }

/-- The result of the arrival handler for `ex_zero_window_idle`. -/
def ex_zero_window_armed : tcp_result_t :=
  (chitcpd_tcp_state_handle_PACKET_ARRIVAL (ex_env 0) tcp_state_t.ESTABLISHED
    ex_zero_window_idle).getD ⟨tcp_state_t.CLOSED, ex_zero_data, []⟩

/-- After `ex_probe_due_inputs` the handler of TIMEOUT_PST runs at 102 s and sends
the probe with the byte at 233; at 103 s a segment arrives whose SEG.ACK = 234
acknowledges the probe and which advertises a window of 10. -/
def ex_probe_acked_inputs : List tcp_input_t :=
  ex_probe_due_inputs ++
  [tcp_input_t.event (ex_env_at 102) tcp_event_type_t.TIMEOUT_PST,
   tcp_input_t.packet_arrives ⟨0, 1, 0, 2001, 234, 10, []⟩]

/-- The connection after `ex_probe_acked_inputs`: the probe is outstanding, the
PERSIST timer is armed, SND.WND = 0, and the segment is pending. -/
def ex_probe_acked : tcp_data_t :=
  ((tcp_run ⟨tcp_state_t.ESTABLISHED, ex_established, []⟩ ex_probe_acked_inputs).getD
    ⟨tcp_state_t.CLOSED, ex_zero_data, []⟩).tcp_data

/-- The result of the arrival handler at 103 s for `ex_probe_acked`. -/
def ex_probe_window_opened : tcp_result_t :=
  (chitcpd_tcp_state_handle_PACKET_ARRIVAL (ex_env_at 103) tcp_state_t.ESTABLISHED
    ex_probe_acked).getD ⟨tcp_state_t.CLOSED, ex_zero_data, []⟩

/-- The connection in FIN_WAIT_1 after `ex_close_inputs`, to which a segment with
three bytes at RCV.NXT = 2001 arrives whose SEG.ACK = 233 does not acknowledge
our FIN. -/
def ex_fin_wait_1_data : tcp_data_t :=
  { ((tcp_run ⟨tcp_state_t.ESTABLISHED, ex_established, []⟩ ex_close_inputs).getD
      ⟨tcp_state_t.CLOSED, ex_zero_data, []⟩).tcp_data with
    pending_packets := [⟨0, 1, 0, 2001, 233, 4096, [1, 2, 3]⟩] }

/-- The result of the arrival handler at 101 s in FIN_WAIT_1 for
`ex_fin_wait_1_data`. -/
def ex_fin_wait_1_data_handled : tcp_result_t :=
  (chitcpd_tcp_state_handle_PACKET_ARRIVAL (ex_env_at 101) tcp_state_t.FIN_WAIT_1
    ex_fin_wait_1_data).getD ⟨tcp_state_t.CLOSED, ex_zero_data, []⟩

/-- Three bytes are written and sent at 100 s (SEG.SEQ = 233, SND.NXT = 236); a
segment arrives whose SEG.ACK = 234 acknowledges the first of them only. -/
def ex_partial_ack_inputs : List tcp_input_t :=
  [tcp_input_t.socket_send [1, 2, 3],
   tcp_input_t.event (ex_env_at 100) tcp_event_type_t.APPLICATION_SEND,
   tcp_input_t.packet_arrives ⟨0, 1, 0, 2001, 234, 4096, []⟩]

/-- The connection after `ex_partial_ack_inputs`, with the segment pending. -/
def ex_partial_ack : tcp_data_t :=
  ((tcp_run ⟨tcp_state_t.ESTABLISHED, ex_established, []⟩ ex_partial_ack_inputs).getD
    ⟨tcp_state_t.CLOSED, ex_zero_data, []⟩).tcp_data

/-- Surroundings in which `circular_buffer_peek_at` reads one byte, 7, whatever is
asked for. -/
def ex_env_one_byte : tcp_env_t :=
  { ex_env 0 with peek_at := fun _ _ _ => (1, [7]) }

/-- Surroundings in which `circular_buffer_peek_at` reads as many bytes as are
asked for, all 0. -/
def ex_env_full_reads : tcp_env_t :=
  { ex_env 0 with peek_at := fun _ _ len => (len, List.replicate len 0) }

/-- The established connection with two bytes in the send buffer that are not yet
sent. -/
def ex_two_to_send : tcp_data_t :=
  { ex_established with send := ⟨[1, 2], 233, 4096⟩ }

/-- The connection of `ex_after_synack` once the application has written three
bytes to the send buffer. -/
def ex_connected_written : tcp_data_t :=
  { ex_after_synack.tcp_data with
    send := circular_buffer_write ex_after_synack.tcp_data.send [1, 2, 3] }

/-- The result of APPLICATION_SEND at 100 s for `ex_connected_written`: the three
bytes leave in one segment with SEG.SEQ = 233. -/
def ex_connected_sent : tcp_result_t :=
  (chitcpd_tcp_handle_event (ex_env_at 100) tcp_state_t.ESTABLISHED ex_connected_written
    tcp_event_type_t.APPLICATION_SEND).getD ⟨tcp_state_t.CLOSED, ex_zero_data, []⟩

/-- The connection of `ex_connected_sent` once the network thread has queued a
segment whose SEG.ACK = 234 acknowledges the first of the three bytes. -/
def ex_connected_partial_ack : tcp_data_t :=
  { ex_connected_sent.tcp_data with
    pending_packets :=
      ex_connected_sent.tcp_data.pending_packets ++ [⟨0, 1, 0, 2001, 234, 4096, []⟩] }

/-- The connection of `ex_connected_sent` once the network thread has queued a
segment whose SEG.ACK = 236 acknowledges the three bytes. -/
def ex_connected_full_ack : tcp_data_t :=
  { ex_connected_sent.tcp_data with
    pending_packets :=
      ex_connected_sent.tcp_data.pending_packets ++ [⟨0, 1, 0, 2001, 236, 4096, []⟩] }

/-- The result of PACKET_ARRIVAL at 101 s for `ex_connected_full_ack`. -/
def ex_connected_acked : tcp_result_t :=
  (chitcpd_tcp_state_handle_PACKET_ARRIVAL (ex_env_at 101) tcp_state_t.ESTABLISHED
    ex_connected_full_ack).getD ⟨tcp_state_t.CLOSED, ex_zero_data, []⟩

/-! ## Definitions used by the statements about tcp.c -/

/-- The nanoseconds that a `timespec` stands for. -/
def timespec_ns (ts : timespec) : Int := ts.tv_sec * SECOND + ts.tv_nsec

/-- The packets handed to `chitcpd_send_tcp_packet`, in order. -/
def sent_packets (actions : List tcp_action_t) : List tcp_packet_t :=
  actions.filterMap (fun a =>
    match a with
    | tcp_action_t.send_tcp_packet p => some p
    | _ => none)

/-- Whether timer `id` is in the list of active timers. -/
def timer_armed (mt : multi_timer_t) (id : Nat) : Bool :=
  mt.active_timers.any (fun elt => elt.timer == id)

/-- Whether the loop of `chitcpd_tcp_state_handle_TIMEOUT_RTX` passes over an
element: the send window is zero and the packet has neither SYN nor FIN. -/
def rtx_skipped (SND_WND : Nat) (elt : retransmission_queue_t) : Bool :=
  decide (SND_WND = 0 ∧ elt.packet_sent.syn ≠ 1 ∧ elt.packet_sent.fin ≠ 1)

/-- The value that `update_RTO` stores in `RTT`: the difference of the two
timestamps in nanoseconds, as a `uint64_t`. -/
def measured_RTT (recv_ts sent_ts : timespec) : Nat :=
  (((timespec_subtract recv_ts sent_ts).1.tv_sec * SECOND
    + (timespec_subtract recv_ts sent_ts).1.tv_nsec) % 2 ^ 64).toNat

/-- The timers that tcp.c relies on: the timer thread runs, the array `timers` has
`num_timers` elements, and a timer whose `active` flag is set is in the list of
active timers. -/
def mt_wf (mt : multi_timer_t) : Prop :=
  mt.active = true ∧ mt.timers.length = mt.num_timers ∧
  ∀ id t, mt.timers[id]? = some t → t.active = true → timer_armed mt id = true

/-- The data of a connection with the fields that the retransmission code writes
replaced. -/
def with_rtx (tcp_data : tcp_data_t) (RTT SRTT RTTVAR RTO : Nat) (first_RTT : Bool)
    (send : circular_buffer_t) (rt_queue : List retransmission_queue_t) (rtms_timer_on : Bool)
    (mt : multi_timer_t) : tcp_data_t :=
  { tcp_data with RTT := RTT, SRTT := SRTT, RTTVAR := RTTVAR, RTO := RTO, first_RTT := first_RTT,
                  send := send, rt_queue := rt_queue, rtms_timer_on := rtms_timer_on, mt := mt }

/-- The end of `rtqueue_pop` for a queue that was not empty: the retransmission
timer is cancelled if the flag says it is on, and set again if elements are
left. -/
def rtqueue_pop_timers (tcp_data : tcp_data_t) (now : timespec) :
    Option (tcp_data_t × List tcp_action_t) :=
  let cancelled :=
    if tcp_data.rtms_timer_on then
      tcp_cancel_timer { tcp_data with rtms_timer_on := false } RETRANSMISSION
    else some (tcp_data, [])
  match cancelled with
  | none => none
  | some (tcp_data, actions) =>
    let len := tcp_data.rt_queue.length
    if len > 0 then
      if !tcp_data.rtms_timer_on then
        let tcp_data := { tcp_data with rtms_timer_on := true }
        let r := tcp_set_timer tcp_data RETRANSMISSION now
        some (r.1, actions ++ r.2)
      else some (tcp_data, actions)
    else some (tcp_data, actions)

/-- The assignments of the branch SYN_SENT that follow `rtqueue_pop`, for a segment
with SYN. -/
def syn_sent_assign (tcp_data : tcp_data_t) (packet : tcp_packet_t) : tcp_data_t :=
  { tcp_data with
    RCV_NXT := (packet.seq + 1) % 2 ^ 32
    IRS := packet.seq
    SND_UNA := packet.ack_seq
    SND_NXT := packet.ack_seq
    SND_WND := packet.win
    recv := circular_buffer_set_seq_initial tcp_data.recv ((packet.seq + 1) % 2 ^ 32) }

/-- No segment that is sent reaches beyond the end of the 32-bit sequence space:
SEG.SEQ + SEG_LEN stays below 2^32. -/
def no_wraparound (actions : List tcp_action_t) : Prop :=
  ∀ p, tcp_action_t.send_tcp_packet p ∈ actions → p.seq + SEG_LEN p < 2 ^ 32

/-- The count that `circular_buffer_peek_at` returns is at most the length asked
for. -/
def peek_bounded (env : tcp_env_t) : Prop :=
  ∀ buf seq len, (env.peek_at buf seq len).1 ≤ len

/-- The sequence and acknowledgment numbers of a packet are 32-bit values. -/
def packet_in_range (packet : tcp_packet_t) : Prop :=
  packet.seq < 2 ^ 32 ∧ packet.ack_seq < 2 ^ 32

/-- What is asked of an input: the buffer function of a call is `peek_bounded`, a
packet that arrives is `packet_in_range`. -/
def input_in_range : tcp_input_t → Prop
  | tcp_input_t.event env _ => peek_bounded env
  | tcp_input_t.packet_arrives packet => packet_in_range packet
  | _ => True

/-- The states of a connection that are reached without wraparound of the send
sequence numbers: from an entry with SND.UNA <= SND.NXT < 2^32 (a new entry
holds zeros) that `tcp_data_init` has initialised, in CLOSED (active open) or
LISTEN (passive open), by steps none of which sends a segment beyond the end of
the sequence space. -/
inductive reachable_without_wraparound : tcp_state_t → tcp_data_t → Prop where
  | init (tcp_data : tcp_data_t) (passive : Bool)
      (h : tcp_data.SND_UNA ≤ tcp_data.SND_NXT) (hlt : tcp_data.SND_NXT < 2 ^ 32) :
      reachable_without_wraparound
        (if passive then tcp_state_t.LISTEN else tcp_state_t.CLOSED)
        (tcp_data_init true tcp_data)
  | step (tcp_state : tcp_state_t) (tcp_data : tcp_data_t) (input : tcp_input_t)
      (r : tcp_result_t)
      (h : reachable_without_wraparound tcp_state tcp_data)
      (hin : input_in_range input)
      (hstep : tcp_step tcp_state tcp_data input = some r)
      (hnw : no_wraparound r.actions) :
      reachable_without_wraparound r.tcp_state r.tcp_data

/-- The send variables and the lists of packets of a TCB are those of another. -/
def keeps_send (a b : tcp_data_t) : Prop :=
  b.SND_UNA = a.SND_UNA ∧ b.SND_NXT = a.SND_NXT ∧ b.SND_WND = a.SND_WND ∧
  b.pending_packets = a.pending_packets ∧ b.list = a.list

/-- A TCB after sending: SND.NXT has not gone down and is below 2^32, the other send
variables and the lists of packets are as before. -/
def advances_send (a b : tcp_data_t) : Prop :=
  b.SND_UNA = a.SND_UNA ∧ a.SND_NXT ≤ b.SND_NXT ∧ b.SND_NXT < 2 ^ 32 ∧ b.SND_WND = a.SND_WND ∧
  b.pending_packets = a.pending_packets ∧ b.list = a.list

/-- The invariant of the send sequence variables, together with what it rests on:
SND.UNA <= SND.NXT < 2^32, and the packets that wait in the pending packets and
in the out-of-order list have 32-bit numbers. -/
def send_inv (tcp_data : tcp_data_t) : Prop :=
  tcp_data.SND_UNA ≤ tcp_data.SND_NXT ∧ tcp_data.SND_NXT < 2 ^ 32 ∧
  (∀ p ∈ tcp_data.pending_packets, packet_in_range p) ∧
  (∀ o ∈ tcp_data.list, packet_in_range o.packet)

/-- The states of the family of ESTABLISHED in which
`chitcpd_tcp_state_handle_PACKET_ARRIVAL` processes acknowledgments. -/
def established_family (tcp_state : tcp_state_t) : Prop :=
  tcp_state = tcp_state_t.ESTABLISHED ∨ tcp_state = tcp_state_t.FIN_WAIT_1
    ∨ tcp_state = tcp_state_t.FIN_WAIT_2 ∨ tcp_state = tcp_state_t.CLOSE_WAIT
    ∨ tcp_state = tcp_state_t.CLOSING ∨ tcp_state = tcp_state_t.LAST_ACK
    ∨ tcp_state = tcp_state_t.TIME_WAIT

/-- Deadline `a` is not after deadline `b`: seconds first, then nanoseconds. -/
def deadline_le (a b : timespec) : Prop :=
  a.tv_sec < b.tv_sec ∨ (a.tv_sec = b.tv_sec ∧ a.tv_nsec ≤ b.tv_nsec)

/-- The state invariant of a multi-timer: the timer thread runs, the array has
`num_timers` elements, no id is twice in the list of active timers, the flag
`active` of a timer is set exactly when its id is in the list, the ids in the
list are valid, and the list is in non-decreasing order of deadline. -/
def mt_inv (mt : multi_timer_t) : Prop :=
  mt.active = true ∧ mt.timers.length = mt.num_timers ∧
  (mt.active_timers.map (fun elt => elt.timer)).Nodup ∧
  (∀ id t, mt.timers[id]? = some t → (t.active = true ↔ timer_armed mt id = true)) ∧
  (∀ elt ∈ mt.active_timers, elt.timer < mt.num_timers) ∧
  mt.active_timers.Pairwise (fun a b => deadline_le a.timeout_spec b.timeout_spec)

/-- The multi-timers that are reached from `mt_init` by calls of `mt_set_timer`,
`mt_cancel_timer` and `mt_set_timer_name`, whatever they return, and by
timeouts of the timer at the head of the list. -/
inductive mt_reachable : multi_timer_t → Prop
  | init (num_timers : Nat) : mt_reachable (mt_init num_timers)
  | set_timer (mt : multi_timer_t) (id timeout : Nat) (callback_fn callback_args : Option Nat)
      (now : timespec) :
      mt_reachable mt →
      mt_reachable (mt_set_timer mt id timeout callback_fn callback_args now).1
  | cancel_timer (mt mt2 : multi_timer_t) (id : Nat) (rc : chitcp_rc_t) :
      mt_reachable mt → mt_cancel_timer mt id = some (mt2, rc) → mt_reachable mt2
  | set_timer_name (mt : multi_timer_t) (id : Nat) (name : List Nat) :
      mt_reachable mt → mt_reachable (mt_set_timer_name mt id name).1
  | timeout (mt mt2 : multi_timer_t) :
      mt_reachable mt → mt_timeout mt = some mt2 → mt_reachable mt2

/-- What holds of the retransmission queue and its timer at all times: the
multi-timer is in order and has a RETRANSMISSION timer, the flag
`rtms_timer_on` is set exactly when the queue is not empty, and the timer is
armed only when the flag is set. -/
def rtx_flag_inv (tcp_data : tcp_data_t) : Prop :=
  mt_inv tcp_data.mt ∧ RETRANSMISSION < tcp_data.mt.num_timers ∧
  (tcp_data.rtms_timer_on = true ↔ tcp_data.rt_queue ≠ []) ∧
  (timer_armed tcp_data.mt RETRANSMISSION = true → tcp_data.rtms_timer_on = true)

/-- The RETRANSMISSION timer is armed exactly when the flag `rtms_timer_on` is
set. -/
def rtx_timer_inv (tcp_data : tcp_data_t) : Prop :=
  timer_armed tcp_data.mt RETRANSMISSION = true ↔ tcp_data.rtms_timer_on = true

/-- The data of a connection as far as the retransmission queue and the timers
go, reached from `tcp_data_init` by `rtqueue_append`, `rtqueue_pop`,
`chitcpd_tcp_state_handle_TIMEOUT_RTX`, the timeout of a timer, the setting and
the cancelling of the PERSIST timer, and any change of the other fields. -/
inductive rtx_reachable : tcp_data_t → Prop
  | init (tcp_data : tcp_data_t) : rtx_reachable (tcp_data_init true tcp_data)
  | append (tcp_data : tcp_data_t) (packet : tcp_packet_t) (seq : Nat) (now : timespec) :
      rtx_reachable tcp_data → rtx_reachable (rtqueue_append tcp_data packet seq now).1
  | pop (fp : double_ops) (tcp_data : tcp_data_t) (ack_seq : Nat) (now : timespec)
      (r : tcp_data_t × List tcp_action_t) :
      rtx_reachable tcp_data → rtqueue_pop fp tcp_data ack_seq now = some r → rtx_reachable r.1
  | timeout_rtx (tcp_data : tcp_data_t) (now : timespec) :
      rtx_reachable tcp_data →
      rtx_reachable (chitcpd_tcp_state_handle_TIMEOUT_RTX tcp_data now).1
  | timer_expires (tcp_data : tcp_data_t) (mt : multi_timer_t) :
      rtx_reachable tcp_data → mt_timeout tcp_data.mt = some mt →
      rtx_reachable { tcp_data with mt := mt }
  | persist_set (tcp_data : tcp_data_t) (now : timespec) :
      rtx_reachable tcp_data → rtx_reachable (tcp_set_timer tcp_data PERSIST now).1
  | persist_cancel (tcp_data : tcp_data_t) (r : tcp_data_t × List tcp_action_t) :
      rtx_reachable tcp_data → tcp_cancel_timer tcp_data PERSIST = some r → rtx_reachable r.1
  | other (tcp_data changed : tcp_data_t) :
      rtx_reachable tcp_data → changed.rt_queue = tcp_data.rt_queue →
      changed.rtms_timer_on = tcp_data.rtms_timer_on → changed.mt = tcp_data.mt →
      rtx_reachable changed

/-- The receive side of a TCB (ISS and IRS, the receive variables, the receive
buffer, the out-of-order list and the pending packets) is that of another. -/
def keeps_recv (a b : tcp_data_t) : Prop :=
  b.ISS = a.ISS ∧ b.IRS = a.IRS ∧ b.RCV_NXT = a.RCV_NXT ∧ b.RCV_WND = a.RCV_WND ∧
  b.recv = a.recv ∧ b.list = a.list ∧ b.pending_packets = a.pending_packets

/-- The out-of-order list is in strictly increasing order of SEG.SEQ. -/
def list_increasing (list : List out_of_order_list_t) : Prop :=
  list.Pairwise (fun a b => a.seq < b.seq)

/-- The sequence numbers of a segment and of the elements of an out-of-order list
are 32-bit values less than 2^31 apart, so that the `int` which `segmentcmp`
returns has the sign of their difference. -/
def list_near (list : List out_of_order_list_t) (seq : Nat) : Prop :=
  seq < 2 ^ 32 ∧ ∀ o ∈ list, o.seq < 2 ^ 32 ∧ o.seq < seq + 2 ^ 31 ∧ seq < o.seq + 2 ^ 31

/-- The side of a TCB that the persist timer works on is that of another: the send
window, the probe remembered, whether the PERSIST timer is armed and the number
of timers; and the timers of the second are in order. -/
def keeps_persist (a b : tcp_data_t) : Prop :=
  b.SND_WND = a.SND_WND ∧ b.probe_packet = a.probe_packet ∧
  timer_armed b.mt PERSIST = timer_armed a.mt PERSIST ∧
  b.mt.num_timers = a.mt.num_timers ∧ mt_inv b.mt

/-- What `rtqueue_pop` does to the TCB for one element that it removes, the
deletion from the queue apart: `update_RTO` with the time of the call and the
time at which the element was sent, and the bytes of the element are read off
the send buffer. -/
def rtqueue_pop_one (fp : double_ops) (now : timespec) (tcp_data : tcp_data_t)
    (elt : retransmission_queue_t) : tcp_data_t :=
  let tcp_data := update_RTO fp tcp_data now elt.packet_sent_ts
  { tcp_data with
    send := circular_buffer_read tcp_data.send (TCP_PAYLOAD_LEN elt.packet_sent) }

end TCP

namespace IRC

/-! # The IRC server (src/IRC/src)

The mutexes of `server_ctx` are not modelled: a handler runs from its first
statement to its last without another thread in between.  An `sds` string is the
list of its characters, and the functions of sds (`sdsempty`, `sdsnew`,
`sdscpy`, `sdscat`, `sdscatsds`, `sdscatprintf`) are the operations on lists
that their names say.  A hash table of uthash.h is the list of its elements in
the order in which they were added. -/

/-- An `sds` string.  The strings that the handlers are given hold no NUL:
`service_single_client` appends what `recv` wrote with `sdscat`, which copies up
to the first NUL, and the tokens are parts of that string; so the functions
that take a C string see all of it. -/
@[reducible] def sds : Type := List Char

/-- The constant `MAX_STR_LEN` of server.h. -/
def MAX_STR_LEN : Nat := 100

/-- The constant `NICK_PARAMETER_NUM` of handlers.h. -/
def NICK_PARAMETER_NUM : Int := 1

/-- Modelled from the spec: `CHIRC_OK`, whose header is not among the sources. -/
def CHIRC_OK : Int := 0

/-- Modelled from the spec: `CHIRC_ERROR`, whose header is not among the sources. -/
def CHIRC_ERROR : Int := -1

/-- Modelled from the spec: `MSG_OK`, whose header is not among the sources. -/
def MSG_OK : Int := 0

/-- Modelled from the spec: `MSG_ERROR`, whose header is not among the sources. -/
def MSG_ERROR : Int := -1

/-- Modelled from the spec: `ERROR_CODE_LEN` of reply.h; the numeric reply codes
are strings of three digits. -/
def ERROR_CODE_LEN : Nat := 3

/-- Modelled from the spec: `ERR_NOSUCHNICK` of reply.h. -/
def ERR_NOSUCHNICK : sds := "401".toList

/-- Modelled from the spec: `ERR_NOSUCHCHANNEL` of reply.h. -/
def ERR_NOSUCHCHANNEL : sds := "403".toList

/-- Modelled from the spec: `ERR_CANNOTSENDTOCHAN` of reply.h. -/
def ERR_CANNOTSENDTOCHAN : sds := "404".toList

/-- Modelled from the spec: `ERR_NORECIPIENT` of reply.h. -/
def ERR_NORECIPIENT : sds := "411".toList

/-- Modelled from the spec: `ERR_NOTEXTTOSEND` of reply.h. -/
def ERR_NOTEXTTOSEND : sds := "412".toList

/-- Modelled from the spec: `ERR_UNKNOWNCOMMAND` of reply.h. -/
def ERR_UNKNOWNCOMMAND : sds := "421".toList

/-- Modelled from the spec: `ERR_NOMOTD` of reply.h. -/
def ERR_NOMOTD : sds := "422".toList

/-- Modelled from the spec: `ERR_NONICKNAMEGIVEN` of reply.h. -/
def ERR_NONICKNAMEGIVEN : sds := "431".toList

/-- Modelled from the spec: `ERR_NICKNAMEINUSE` of reply.h. -/
def ERR_NICKNAMEINUSE : sds := "433".toList

/-- Modelled from the spec: `ERR_USERNOTINCHANNEL` of reply.h. -/
def ERR_USERNOTINCHANNEL : sds := "441".toList

/-- Modelled from the spec: `ERR_NOTONCHANNEL` of reply.h. -/
def ERR_NOTONCHANNEL : sds := "442".toList

/-- Modelled from the spec: `ERR_NOTREGISTERED` of reply.h. -/
def ERR_NOTREGISTERED : sds := "451".toList

/-- Modelled from the spec: `ERR_NEEDMOREPARAMS` of reply.h. -/
def ERR_NEEDMOREPARAMS : sds := "461".toList

/-- Modelled from the spec: `ERR_ALREADYREGISTRED` of reply.h. -/
def ERR_ALREADYREGISTRED : sds := "462".toList

/-- Modelled from the spec: `ERR_PASSWDMISMATCH` of reply.h. -/
def ERR_PASSWDMISMATCH : sds := "464".toList

/-- Modelled from the spec: `ERR_UNKNOWNMODE` of reply.h. -/
def ERR_UNKNOWNMODE : sds := "472".toList

/-- Modelled from the spec: `ERR_CHANOPRIVSNEEDED` of reply.h. -/
def ERR_CHANOPRIVSNEEDED : sds := "482".toList

/-- Whether `strncmp(s1, s2, n)` of the C library is 0, for strings without
NUL. -/
def strncmp_eq (s1 s2 : sds) (n : Nat) : Bool := decide (s1.take n = s2.take n)

/-! ## client.h, channels.h, server.h, msg.h: the data -/

/-- The enumeration `conn_status` of client.h. -/
inductive conn_status where
  | NOT_REGISTERED
  | USER_MISSING
  | NICK_MISSING
  | REGISTERED
  deriving DecidableEq, Repr

/-- The value of an enumerator of `conn_status` as an `int`. -/
def conn_status.toInt : conn_status → Int
  | conn_status.NOT_REGISTERED => 0
  | conn_status.USER_MISSING => 1
  | conn_status.NICK_MISSING => 2
  | conn_status.REGISTERED => 3

/-- The structure `user_t` of client.h. -/
structure user_t where
  nick : sds
  username : sds
  realname : sds
  state : conn_status
  is_irc_operator : Bool
  deriving DecidableEq, Repr

/-- The structure `client_t` of client.h. -/
structure client_t where
  socket : Int
  client_hostname : sds
  info : user_t
  deriving DecidableEq, Repr

/-- The structure `nick_t` of client.h. -/
structure nick_t where
  nick : sds
  client_socket : Int
  deriving DecidableEq, Repr

/-- The structure `channel_client` of channels.h. -/
structure channel_client where
  nick : sds
  mode : sds
  deriving DecidableEq, Repr

/-- The structure `channel_t` of channels.h. -/
structure channel_t where
  channel_name : sds
  channel_clients : List channel_client
  deriving DecidableEq, Repr

/-- The structure `irc_oper_t` of server.h. -/
structure irc_oper_t where
  nick : sds
  mode : sds
  deriving DecidableEq, Repr

/-- The structure `server_ctx` of server.h, without its mutexes. -/
structure server_ctx where
  num_connected_users : Int
  total_connections : Int
  password : sds
  client_hashtable : List client_t
  nicks_hashtable : List nick_t
  channels_hashtable : List channel_t
  irc_operators_hashtable : List irc_oper_t
  deriving DecidableEq, Repr

/-- The structure `conn_info_t` of server.h. -/
structure conn_info_t where
  client_socket : Int
  server_hostname : sds
  client_hostname : sds
  deriving DecidableEq, Repr

/-- The structure `chirc_message_t` of msg.h; `nparams` is the length of
`params`, and the field `prefix` is `prefix_` here. -/
structure chirc_message_t where
  prefix_ : sds
  cmd : sds
  params : List sds
  longlast : Bool
  deriving DecidableEq, Repr

/-- The fields of `struct tm` of the C library that `reply_welcome` reads. -/
structure tm_t where
  tm_year : Int
  tm_mon : Int
  tm_mday : Int
  tm_hour : Int
  tm_min : Int
  tm_sec : Int
  deriving DecidableEq, Repr

/-- What the surroundings give to a handler: the return value of `sendall` (-1
when a `send` failed), which may depend on the number of buffers handed to
`sendall` before, on the socket and on the buffer; what `malloc` left in
the fields of a new `client_t` that `handle_NICK` does not assign; what
`localtime(time(NULL))` gives, which may depend on the number of buffers handed
to `sendall` before; and the text of the macro `VERSION`, whose header is not
among the sources. -/
structure irc_env where
  sendall : Nat → Int → sds → Int
  malloc_client_hostname : sds
  malloc_is_irc_operator : Bool
  localtime : Nat → tm_t := fun _ => ⟨0, 0, 0, 0, 0, 0⟩
  version : sds := []

/-- The server as a handler sees it: the context, and the buffers handed to
`sendall` so far, each with its socket, in order. -/
structure irc_state where
  ctx : server_ctx
  sent : List (Int × sds)
  deriving DecidableEq, Repr

/-! ## client.c -/

/-- The function `find_NICK` of client.c. -/
def find_NICK (nickname : sds) (nicks : List nick_t) : Option nick_t :=
  nicks.find? (fun n => decide (n.nick = nickname))

/-- The function `add_NICK` of client.c: the table afterwards. -/
def add_NICK (nickname : sds) (client_socket : Int) (nicks : List nick_t) : List nick_t :=
  match find_NICK nickname nicks with
  | some _ => nicks
  | none => nicks ++ [{ nick := nickname, client_socket := client_socket }]

/-- The function `find_USER` of client.c. -/
def find_USER (client_socket : Int) (client_hashtable : List client_t) : Option client_t :=
  client_hashtable.find? (fun c => decide (c.socket = client_socket))

/-- The function `add_USER` of client.c: the table afterwards. -/
def add_USER (client : client_t) (client_socket : Int) (client_hashtable : List client_t) :
    List client_t :=
  match find_USER client_socket client_hashtable with
  | some _ => client_hashtable
  | none => client_hashtable ++ [client]

/-- The function `remove_NICK` of client.c: the table afterwards. -/
def remove_NICK (nick : sds) (nicks : List nick_t) : List nick_t :=
  nicks.eraseP (fun n => decide (n.nick = nick))

/-- The function `remove_USER` of client.c: the table afterwards. -/
def remove_USER (client_socket : Int) (clients : List client_t) : List client_t :=
  clients.eraseP (fun c => decide (c.socket = client_socket))

/-- An assignment through the pointer that `find_USER` returned for
`client_socket`: the element of the table at which it points becomes `s`.  A
client that is not in the table was made by `malloc`, and the table does not
see what is written to it. -/
def write_USER (client_socket : Int) (s : client_t) : List client_t → List client_t
  | [] => []
  | c :: rest =>
    if c.socket = client_socket then s :: rest else c :: write_USER client_socket s rest

/-! ## channels.c -/

/-- The function `find_CHANNEL_CLIENT` of channels.c. -/
def find_CHANNEL_CLIENT (nickname : sds) (channel_clients : List channel_client) :
    Option channel_client :=
  channel_clients.find? (fun c => decide (c.nick = nickname))

/-! ## server_cmd.c -/

/-- The function `server_find_USER` of server_cmd.c. -/
def server_find_USER (ctx : server_ctx) (client_socket : Int) : Option client_t :=
  find_USER client_socket ctx.client_hashtable

/-- The function `server_find_NICK` of server_cmd.c. -/
def server_find_NICK (ctx : server_ctx) (nickname : sds) : Option nick_t :=
  find_NICK nickname ctx.nicks_hashtable

/-- The function `server_add_NICK` of server_cmd.c: the context afterwards. -/
def server_add_NICK (ctx : server_ctx) (client_socket : Int) (nickname : sds) : server_ctx :=
  { ctx with nicks_hashtable := add_NICK nickname client_socket ctx.nicks_hashtable }

/-- The function `server_add_USER` of server_cmd.c: the context afterwards. -/
def server_add_USER (ctx : server_ctx) (client : client_t) (client_socket : Int) : server_ctx :=
  { ctx with client_hashtable := add_USER client client_socket ctx.client_hashtable }

/-- The function `server_remove_NICK` of server_cmd.c: the context afterwards. -/
def server_remove_NICK (ctx : server_ctx) (nickname : sds) : server_ctx :=
  { ctx with nicks_hashtable := remove_NICK nickname ctx.nicks_hashtable }

/-- The function `add_connected_user_number` of server_cmd.c: the context
afterwards. -/
def add_connected_user_number (ctx : server_ctx) : server_ctx :=
  { ctx with num_connected_users := ctx.num_connected_users + 1 }

/-! ## msg.c -/

/-- The function `chirc_message_construct` of msg.c. -/
def chirc_message_construct (prefix_ cmd : sds) : chirc_message_t :=
  { prefix_ := prefix_, cmd := cmd, params := [], longlast := false }

/-- The function `chirc_message_add_parameter` of msg.c. -/
def chirc_message_add_parameter (msg : chirc_message_t) (param : sds) (longlast : Bool) :
    chirc_message_t :=
  { msg with longlast := longlast, params := msg.params ++ [param] }

/-- The function `chirc_message_to_string` of msg.c: the string written to `*s`.
Without a parameter the unsigned `nparams - 1` is 2^32 - 1 and the loop reads
elements of `params` that were never assigned: `none`. -/
def chirc_message_to_string (msg : chirc_message_t) : Option sds :=
  match msg.params.getLast? with
  | none => none
  | some last =>
    let s : sds := []
    let s := s ++ msg.prefix_
    let s := s ++ " ".toList
    let s := s ++ msg.cmd
    let s := s ++ " ".toList
    let s := msg.params.dropLast.foldl (fun s param => s ++ param ++ " ".toList) s
    let s := if msg.longlast then s ++ ":".toList else s
    some (s ++ last)

/-! ## send_msg.c -/

/-- The function `send_msg` of send_msg.c. -/
def send_msg (env : irc_env) (st : irc_state) (client_socket : Int) (msg : sds) :
    irc_state × Int :=
  let r := if env.sendall st.sent.length client_socket msg = -1 then MSG_ERROR else MSG_OK
  ({ st with sent := st.sent ++ [(client_socket, msg)] }, r)

/-- The function `sdsjoinsds` of sds: the strings joined, with `sep` between
them. -/
def sdsjoinsds (argv : List sds) (sep : sds) : sds :=
  match argv with
  | [] => []
  | [a] => a
  | a :: rest => a ++ sep ++ sdsjoinsds rest sep

/-- The function `server_reply_nick` of send_msg.c; `none` when `cmdtokens[0]`
or one of the `argc - 1` tokens after it is read outside the array. -/
def server_reply_nick (env : irc_env) (st : irc_state) (prefix_ : sds) (cmdtokens : List sds)
    (argc : Int) (client_socket : Int) : Option (irc_state × Int) :=
  match cmdtokens[0]? with
  | none => none
  | some cmd =>
    if (argc - 1).toNat + 1 > cmdtokens.length then none
    else
      let msg := chirc_message_construct prefix_ cmd
      let param := sdsjoinsds ((cmdtokens.drop 1).take (argc - 1).toNat) " ".toList
      let param := param ++ "\r\n".toList
      let msg := chirc_message_add_parameter msg param true
      match chirc_message_to_string msg with
      | none => none
      | some host_msg =>
        let r := send_msg env st client_socket host_msg
        if r.2 = MSG_ERROR then some (r.1, MSG_ERROR) else some (r.1, MSG_OK)

/-! ## reply.c -/

/-- The parameters that `reply_error` adds after the nick, for the reply codes it
knows: the parameters with the flag `longlast` of each; `none` for a code it
does not know, and `some none` when a token is read outside the array `cmd`. -/
def reply_error_params (cmd : List sds) (reply_code : sds) :
    Option (Option (List (sds × Bool))) :=
  if strncmp_eq reply_code ERR_UNKNOWNCOMMAND ERROR_CODE_LEN then
    some (cmd[0]?.map (fun c0 => [(c0, false), ("Unknown command\r\n".toList, true)]))
  else if strncmp_eq reply_code ERR_NONICKNAMEGIVEN ERROR_CODE_LEN then
    some (some [("No nickname given\r\n".toList, true)])
  else if strncmp_eq reply_code ERR_NICKNAMEINUSE ERROR_CODE_LEN then
    some (cmd[1]?.map (fun c1 => [(c1, false), ("Nickname is already in use\r\n".toList, true)]))
  else if strncmp_eq reply_code ERR_NEEDMOREPARAMS ERROR_CODE_LEN then
    some (cmd[0]?.map (fun c0 => [(c0, false), ("Not enough parameters\r\n".toList, true)]))
  else if strncmp_eq reply_code ERR_ALREADYREGISTRED ERROR_CODE_LEN then
    some (some [("Unauthorized command (already registered)\r\n".toList, true)])
  else if strncmp_eq reply_code ERR_NOSUCHNICK ERROR_CODE_LEN then
    some (cmd[1]?.map (fun c1 => [(c1, false), ("No such nick/channel\r\n".toList, true)]))
  else if strncmp_eq reply_code ERR_NOMOTD ERROR_CODE_LEN then
    some (some [("MOTD File is missing\r\n".toList, true)])
  else if strncmp_eq reply_code ERR_NOTREGISTERED ERROR_CODE_LEN then
    some (some [("You have not registered\r\n".toList, true)])
  else if strncmp_eq reply_code ERR_NORECIPIENT ERROR_CODE_LEN then
    some (cmd[0]?.map (fun c0 =>
      [("No recipient given (".toList ++ c0 ++ ")\r\n".toList, true)]))
  else if strncmp_eq reply_code ERR_NOTEXTTOSEND ERROR_CODE_LEN then
    some (some [("No text to send\r\n".toList, true)])
  else if strncmp_eq reply_code ERR_NOSUCHCHANNEL ERROR_CODE_LEN then
    some (cmd[1]?.map (fun c1 => [(c1, false), ("No such channel\r\n".toList, true)]))
  else if strncmp_eq reply_code ERR_UNKNOWNMODE ERROR_CODE_LEN then
    some (cmd[1]?.bind (fun c1 => cmd[2]?.map (fun c2 =>
      [(c1, false),
       (c2 ++ " is unknown mode char to me for ".toList ++ c1 ++ "\r\n".toList, true)])))
  else if strncmp_eq reply_code ERR_CHANOPRIVSNEEDED ERROR_CODE_LEN then
    some (cmd[1]?.map (fun c1 =>
      [(c1 ++ " :You".toList ++ [Char.ofNat 39] ++ "re not channel operator\r\n".toList, false)]))
  else if strncmp_eq reply_code ERR_USERNOTINCHANNEL ERROR_CODE_LEN then
    some (cmd[3]?.bind (fun c3 => cmd[1]?.map (fun c1 =>
      [(c3 ++ " ".toList ++ c1 ++ " They aren".toList ++ [Char.ofNat 39]
          ++ "t on that channel\r\n".toList, true)])))
  else if strncmp_eq reply_code ERR_CANNOTSENDTOCHAN ERROR_CODE_LEN then
    some (cmd[1]?.map (fun c1 => [(c1, false), ("Cannot send to channel\r\n".toList, true)]))
  else if strncmp_eq reply_code ERR_NOTONCHANNEL ERROR_CODE_LEN then
    some (cmd[1]?.map (fun c1 =>
      [(c1, false),
       ("You".toList ++ [Char.ofNat 39] ++ "re not on that channel\r\n".toList, true)]))
  else if strncmp_eq reply_code ERR_PASSWDMISMATCH ERROR_CODE_LEN then
    some (some [("Password incorrect\r\n".toList, true)])
  else none

/-- The function `reply_error` of reply.c; `none` when a token is read outside the
array `cmd`. -/
def reply_error (env : irc_env) (st : irc_state) (cmd : List sds) (reply_code : sds)
    (conn : conn_info_t) : Option (irc_state × Int) :=
  let client_socket := conn.client_socket
  let server_hostname := conn.server_hostname
  let s := server_find_USER st.ctx client_socket
  let nick : sds :=
    match s with
    | none => "*".toList
    | some s => if s.info.state = conn_status.NICK_MISSING then "*".toList else s.info.nick
  let prefix_ := ":".toList ++ server_hostname
  let msg := chirc_message_construct prefix_ reply_code
  let msg := chirc_message_add_parameter msg nick false
  match reply_error_params cmd reply_code with
  | none => some (st, MSG_ERROR)
  | some none => none
  | some (some params) =>
    let msg := params.foldl (fun msg p => chirc_message_add_parameter msg p.1 p.2) msg
    match chirc_message_to_string msg with
    | none => none
    | some host_msg => some (send_msg env st client_socket host_msg)

/-! ## handlers.c -/

/-- The loop over the members of one channel in the branch of `handle_NICK` for a
registered client: the NICK message goes to every member whose nick differs
from `nick` in the first `MAX_STR_LEN` characters.  The flag of the result is
false when a send failed and the handler returns at once; `none` when a member
is not in the table of nicks (a NULL pointer is read) or a token is read
outside the array. -/
def handle_NICK_members (env : irc_env) (prefix_ : sds) (cmdtokens : List sds) (argc : Int)
    (nick : sds) : List channel_client → irc_state → Option (irc_state × Bool)
  | [], st => some (st, true)
  | cc :: rest, st =>
    if strncmp_eq cc.nick nick MAX_STR_LEN then
      handle_NICK_members env prefix_ cmdtokens argc nick rest st
    else
      match server_find_NICK st.ctx cc.nick with
      | none => none
      | some msgtarget =>
        match server_reply_nick env st prefix_ cmdtokens argc msgtarget.client_socket with
        | none => none
        | some r =>
          if r.2 = MSG_ERROR then some (r.1, false)
          else handle_NICK_members env prefix_ cmdtokens argc nick rest r.1

/-- The loop over the channels in the branch of `handle_NICK` for a registered
client: the channels of which `nick` is a member are served by
`handle_NICK_members`. -/
def handle_NICK_channels (env : irc_env) (prefix_ : sds) (cmdtokens : List sds) (argc : Int)
    (nick : sds) : List channel_t → irc_state → Option (irc_state × Bool)
  | [], st => some (st, true)
  | c :: rest, st =>
    match find_CHANNEL_CLIENT nick c.channel_clients with
    | none => handle_NICK_channels env prefix_ cmdtokens argc nick rest st
    | some _ =>
      match handle_NICK_members env prefix_ cmdtokens argc nick c.channel_clients st with
      | none => none
      | some r =>
        if r.2 then handle_NICK_channels env prefix_ cmdtokens argc nick rest r.1
        else some (r.1, false)

/-- The function `handle_NICK` of handlers.c; `none` when it reads outside the
array `cmdtokens` or through a NULL pointer.  The return value of
`reply_error` is not looked at. -/
def handle_NICK (env : irc_env) (st : irc_state) (cmdtokens : List sds) (argc : Int)
    (conn : conn_info_t) : Option (irc_state × Int) :=
  let client_socket := conn.client_socket
  let client_hostname := conn.client_hostname
  if argc - 1 < NICK_PARAMETER_NUM then
    (reply_error env st cmdtokens ERR_NONICKNAMEGIVEN conn).map (fun r => (r.1, CHIRC_ERROR))
  else
    match cmdtokens[1]? with
    | none => none
    | some new_nick =>
      match server_find_NICK st.ctx new_nick with
      | some _ =>
        (reply_error env st cmdtokens ERR_NICKNAMEINUSE conn).map (fun r => (r.1, CHIRC_ERROR))
      | none =>
        let s : client_t :=
          match server_find_USER st.ctx client_socket with
          | some s => s
          | none =>
            { socket := client_socket,
              client_hostname := env.malloc_client_hostname,
              info := { nick := [], realname := [], username := [],
                        state := conn_status.NOT_REGISTERED,
                        is_irc_operator := env.malloc_is_irc_operator } }
        if argc - 1 < NICK_PARAMETER_NUM then
          (reply_error env st cmdtokens ERR_NONICKNAMEGIVEN conn).map
            (fun r => (r.1, CHIRC_ERROR))
        else if s.info.state = conn_status.NICK_MISSING then
          let s := { s with info := { s.info with state := conn_status.REGISTERED } }
          let s := { s with info := { s.info with nick := new_nick } }
          let ctx :=
            { st.ctx with client_hashtable := write_USER client_socket s st.ctx.client_hashtable }
          let ctx := add_connected_user_number ctx
          let ctx := server_add_NICK ctx s.socket s.info.nick
          some ({ st with ctx := ctx }, conn_status.REGISTERED.toInt)
        else if s.info.state = conn_status.REGISTERED then
          let prefix_ := ":".toList ++ s.info.nick ++ "!".toList ++ s.info.username
            ++ "@".toList ++ client_hostname
          match server_reply_nick env st prefix_ cmdtokens argc client_socket with
          | none => none
          | some r =>
            if r.2 = MSG_ERROR then some (r.1, CHIRC_ERROR)
            else
              match handle_NICK_channels env prefix_ cmdtokens argc s.info.nick
                  r.1.ctx.channels_hashtable r.1 with
              | none => none
              | some looped =>
                if looped.2 then
                  let st := looped.1
                  let s := { s with info := { s.info with nick := new_nick } }
                  let ctx :=
                    { st.ctx with
                      client_hashtable := write_USER client_socket s st.ctx.client_hashtable }
                  let ctx := server_remove_NICK ctx s.info.nick
                  let ctx := server_add_NICK ctx client_socket s.info.nick
                  some ({ st with ctx := ctx }, conn_status.REGISTERED.toInt)
                else some (looped.1, CHIRC_ERROR)
        else if s.info.state = conn_status.NOT_REGISTERED then
          let s := { s with info := { s.info with state := conn_status.USER_MISSING } }
          let s := { s with info := { s.info with nick := new_nick } }
          let ctx :=
            { st.ctx with client_hashtable := write_USER client_socket s st.ctx.client_hashtable }
          let ctx := server_add_USER ctx s client_socket
          some ({ st with ctx := ctx }, conn_status.NOT_REGISTERED.toInt)
        else
          let s := { s with info := { s.info with nick := new_nick } }
          let ctx :=
            { st.ctx with client_hashtable := write_USER client_socket s st.ctx.client_hashtable }
          some ({ st with ctx := ctx }, conn_status.NOT_REGISTERED.toInt)

/-! ## The other handlers

Memory is not modelled: a string or an element of a table that was freed still
reads as it did, and a string that `sdscatsds` extends is extended where it
is.  The keys of a table are distinct, so that an assignment through a pointer
to an element is an assignment to the element with that key. -/

/-- The constant `USER_PARAMETER_NUM` of handlers.h. -/
def USER_PARAMETER_NUM : Int := 4

/-- The constant `JOIN_PARAMETER_NUM` of handlers.h. -/
def JOIN_PARAMETER_NUM : Int := 1

/-- The constant `PRIVMSG_PARAMETER_NUM` of handlers.h. -/
def PRIVMSG_PARAMETER_NUM : Int := 2

/-- The constant `WHOIS_PARAMETER_NUM` of handlers.h. -/
def WHOIS_PARAMETER_NUM : Int := 1

/-- The constant `PART_PARAMETER_NUM` of handlers.h. -/
def PART_PARAMETER_NUM : Int := 1

/-- The constant `OPER_PARAMETER_NUM` of handlers.h. -/
def OPER_PARAMETER_NUM : Int := 2

/-- The constant `MODE_PARAMETER_NUM` of handlers.h. -/
def MODE_PARAMETER_NUM : Int := 3

/-- The constant `BUFFER_SIZE` of server.h. -/
def BUFFER_SIZE : Nat := 512

/-- Modelled from the spec: `ERR_NOSUCHSERVER` of reply.h. -/
def ERR_NOSUCHSERVER : sds := "402".toList

/-- Modelled from the spec: `RPL_WELCOME` of reply.h. -/
def RPL_WELCOME : sds := "001".toList

/-- Modelled from the spec: `RPL_YOURHOST` of reply.h. -/
def RPL_YOURHOST : sds := "002".toList

/-- Modelled from the spec: `RPL_CREATED` of reply.h. -/
def RPL_CREATED : sds := "003".toList

/-- Modelled from the spec: `RPL_MYINFO` of reply.h. -/
def RPL_MYINFO : sds := "004".toList

/-- Modelled from the spec: `RPL_LUSERCLIENT` of reply.h. -/
def RPL_LUSERCLIENT : sds := "251".toList

/-- Modelled from the spec: `RPL_LUSEROP` of reply.h. -/
def RPL_LUSEROP : sds := "252".toList

/-- Modelled from the spec: `RPL_LUSERUNKNOWN` of reply.h. -/
def RPL_LUSERUNKNOWN : sds := "253".toList

/-- Modelled from the spec: `RPL_LUSERCHANNELS` of reply.h. -/
def RPL_LUSERCHANNELS : sds := "254".toList

/-- Modelled from the spec: `RPL_LUSERME` of reply.h. -/
def RPL_LUSERME : sds := "255".toList

/-- Modelled from the spec: `RPL_WHOISUSER` of reply.h. -/
def RPL_WHOISUSER : sds := "311".toList

/-- Modelled from the spec: `RPL_WHOISSERVER` of reply.h. -/
def RPL_WHOISSERVER : sds := "312".toList

/-- Modelled from the spec: `RPL_ENDOFWHOIS` of reply.h. -/
def RPL_ENDOFWHOIS : sds := "318".toList

/-- Modelled from the spec: `RPL_LIST` of reply.h. -/
def RPL_LIST : sds := "322".toList

/-- Modelled from the spec: `RPL_LISTEND` of reply.h. -/
def RPL_LISTEND : sds := "323".toList

/-- Modelled from the spec: `RPL_NAMREPLY` of reply.h. -/
def RPL_NAMREPLY : sds := "353".toList

/-- Modelled from the spec: `RPL_ENDOFNAMES` of reply.h. -/
def RPL_ENDOFNAMES : sds := "366".toList

/-- Modelled from the spec: `RPL_YOUREOPER` of reply.h. -/
def RPL_YOUREOPER : sds := "381".toList

/-! ## sds, printf -/

/-- Modelled from the spec: `sdsrange` of sds, whose source is not among the
sources: the part of `s` from index `start` to index `end_`, both counted from the
end when negative and `end_` cut to the last index. -/
def sdsrange (s : sds) (start end_ : Int) : sds :=
  let len : Int := s.length
  if len = 0 then s
  else
    let start := if start < 0 then (if len + start < 0 then 0 else len + start) else start
    let end_ := if end_ < 0 then (if len + end_ < 0 then 0 else len + end_) else end_
    let newlen := if start > end_ then 0 else end_ - start + 1
    let newlen :=
      if newlen ≠ 0 then
        if start ≥ len then 0
        else if end_ ≥ len then (len - 1) - start + 1
        else newlen
      else newlen
    (s.drop start.toNat).take newlen.toNat

/-- Modelled from the spec: `sdstrim` of sds, whose source is not among the
sources: `s` without the characters of `cset` at its two ends. -/
def sdstrim (s : sds) (cset : sds) : sds :=
  ((s.dropWhile (fun c => decide (c ∈ cset))).reverse.dropWhile
    (fun c => decide (c ∈ cset))).reverse

/-- The scan of `sdssplitlen`: `cur` is the token begun, and `skip` counts the
characters of a separator found that are still to be passed over. -/
def sdssplitlen_scan (sep : sds) : Nat → sds → sds → List sds
  | _, [], cur => [cur]
  | skip + 1, _ :: rest, cur => sdssplitlen_scan sep skip rest cur
  | 0, c :: rest, cur =>
    if sep.isPrefixOf (c :: rest) then cur :: sdssplitlen_scan sep (sep.length - 1) rest []
    else sdssplitlen_scan sep 0 rest (cur ++ [c])

/-- Modelled from the spec: `sdssplitlen` of sds, whose source is not among the
sources, for a separator of at least one character: the tokens between the
occurrences of `sep`, found from the left; the number of tokens that is stored
in `*count` is the length of the list.  An empty string has no token. -/
def sdssplitlen (s : sds) (sep : sds) : List sds :=
  if s = [] then [] else sdssplitlen_scan sep 0 s []

/-- The text that `%d` of `sdscatprintf` gives for an `int`, and
`sdsfromlonglong` for its argument. -/
def printf_d (n : Int) : sds := (toString n).toList

/-- The text that `%02d` of `sdscatprintf` gives for an `int`. -/
def printf_02d (n : Int) : sds :=
  if 0 ≤ n ∧ n < 10 then "0".toList ++ printf_d n else printf_d n

/-- The tokens `cmdtokens[from_]` to `cmdtokens[argc - 1]` that
`sdsjoinsds(cmdtokens + from_, argc - from_, " ", 1)` joins; `none` when one of
them is outside the array. -/
def tokens_from (cmdtokens : List sds) (from_ : Nat) (argc : Int) : Option (List sds) :=
  if (argc - from_).toNat + from_ > cmdtokens.length ∧ 0 < (argc - from_).toNat then none
  else some ((cmdtokens.drop from_).take (argc - from_).toNat)

/-- The statements `if (param[0] == ':') sdsrange(param, 1, sdslen(param));` that
follow `sdsjoinsds` in several places. -/
def strip_colon (param : sds) : sds :=
  if param.head? = some ':' then sdsrange param 1 param.length else param

/-! ## channels.c -/

/-- The function `find_CHANNEL` of channels.c. -/
def find_CHANNEL (channelname : sds) (channels : List channel_t) : Option channel_t :=
  channels.find? (fun c => decide (c.channel_name = channelname))

/-- The function `add_CHANNEL` of channels.c: the table afterwards. -/
def add_CHANNEL (channelname : sds) (channels : List channel_t) : List channel_t :=
  match find_CHANNEL channelname channels with
  | some _ => channels
  | none => channels ++ [{ channel_name := channelname, channel_clients := [] }]

/-- The function `add_CHANNEL_CLIENT` of channels.c: the table afterwards.  The
function does not assign the field `mode` of a new element; its one caller,
`server_add_CHANNEL_CLIENT`, does so at once, and the empty string stands here
for what `malloc` left. -/
def add_CHANNEL_CLIENT (nickname : sds) (channel_clients : List channel_client) :
    List channel_client :=
  match find_CHANNEL_CLIENT nickname channel_clients with
  | some _ => channel_clients
  | none => channel_clients ++ [{ nick := nickname, mode := [] }]

/-- The function `remove_CHANNEL` of channels.c: the table afterwards. -/
def remove_CHANNEL (channelname : sds) (channels : List channel_t) : List channel_t :=
  channels.eraseP (fun c => decide (c.channel_name = channelname))

/-- The function `remove_CHANNEL_CLIENT` of channels.c: the table afterwards. -/
def remove_CHANNEL_CLIENT (nickname : sds) (channel_clients : List channel_client) :
    List channel_client :=
  channel_clients.eraseP (fun c => decide (c.nick = nickname))

/-- An assignment to the field `channel_clients` through the pointer that
`find_CHANNEL` returned for `channel_name`. -/
def write_CHANNEL (channel_name : sds) (channel_clients : List channel_client) :
    List channel_t → List channel_t
  | [] => []
  | c :: rest =>
    if c.channel_name = channel_name then { c with channel_clients := channel_clients } :: rest
    else c :: write_CHANNEL channel_name channel_clients rest

/-- An assignment to the field `mode` through the pointer that
`find_CHANNEL_CLIENT` returned for `nickname`. -/
def write_mode (nickname : sds) (mode : sds) : List channel_client → List channel_client
  | [] => []
  | c :: rest =>
    if c.nick = nickname then { c with mode := mode } :: rest
    else c :: write_mode nickname mode rest

/-! ## server_cmd.c -/

/-- The function `server_find_OPER` of server_cmd.c. -/
def server_find_OPER (ctx : server_ctx) (nickname : sds) : Option irc_oper_t :=
  ctx.irc_operators_hashtable.find? (fun o => decide (o.nick = nickname))

/-- The function `server_find_CHANNEL_CLIENT` of server_cmd.c. -/
def server_find_CHANNEL_CLIENT (channel : channel_t) (nickname : sds) : Option channel_client :=
  find_CHANNEL_CLIENT nickname channel.channel_clients

/-- The function `server_find_CHANNEL` of server_cmd.c. -/
def server_find_CHANNEL (ctx : server_ctx) (channel_name : sds) : Option channel_t :=
  find_CHANNEL channel_name ctx.channels_hashtable

/-- The function `server_add_CHANNEL` of server_cmd.c: the context afterwards. -/
def server_add_CHANNEL (ctx : server_ctx) (channel_name : sds) : server_ctx :=
  { ctx with channels_hashtable := add_CHANNEL channel_name ctx.channels_hashtable }

/-- The function `server_add_CHANNEL_CLIENT` of server_cmd.c: the context
afterwards; `none` when there is no channel `channel_name` (a NULL pointer is
read).  `flag` is false for 0. -/
def server_add_CHANNEL_CLIENT (ctx : server_ctx) (nickname : sds) (channel_name : sds)
    (flag : Bool) : Option server_ctx :=
  match server_find_CHANNEL ctx channel_name with
  | none => none
  | some c =>
    let channel_clients := add_CHANNEL_CLIENT nickname c.channel_clients
    let channel_clients :=
      if flag = false then write_mode nickname "o".toList channel_clients
      else write_mode nickname "-o".toList channel_clients
    some { ctx with
      channels_hashtable := write_CHANNEL channel_name channel_clients ctx.channels_hashtable }

/-- The function `server_add_OPER` of server_cmd.c: the context afterwards. -/
def server_add_OPER (ctx : server_ctx) (irc_operator_value : irc_oper_t) : server_ctx :=
  { ctx with irc_operators_hashtable := ctx.irc_operators_hashtable ++ [irc_operator_value] }

/-- The function `dec_connected_user_number` of server_cmd.c: the context
afterwards. -/
def dec_connected_user_number (ctx : server_ctx) : server_ctx :=
  { ctx with num_connected_users := ctx.num_connected_users - 1 }

/-- The function `dec_total_connected_number` of server_cmd.c: the context
afterwards. -/
def dec_total_connected_number (ctx : server_ctx) : server_ctx :=
  { ctx with total_connections := ctx.total_connections - 1 }

/-! ## send_msg.c: the replies -/

/-- The end of the reply functions: `send_msg`, and MSG_ERROR or MSG_OK. -/
def send_reply (env : irc_env) (st : irc_state) (client_socket : Int) (host_msg : sds) :
    irc_state × Int :=
  let r := send_msg env st client_socket host_msg
  if r.2 = MSG_ERROR then (r.1, MSG_ERROR) else (r.1, MSG_OK)

/-- The function `server_reply_quit_relay` of send_msg.c; `none` when a token is
read outside the array. -/
def server_reply_quit_relay (env : irc_env) (st : irc_state) (prefix_ : sds)
    (cmdtokens : List sds) (argc : Int) (client_socket : Int) : Option (irc_state × Int) :=
  match cmdtokens[0]? with
  | none => none
  | some cmd =>
    let quit_msg := chirc_message_construct prefix_ cmd
    let param : Option sds :=
      if argc > 1 then
        (tokens_from cmdtokens 1 argc).map (fun tokens =>
          strip_colon (sdsjoinsds tokens " ".toList) ++ "\r\n".toList)
      else some "Client Quit\r\n".toList
    match param with
    | none => none
    | some param =>
      let quit_msg := chirc_message_add_parameter quit_msg param true
      (chirc_message_to_string quit_msg).map (fun host_msg =>
        send_reply env st client_socket host_msg)

/-- The function `server_reply_quit` of send_msg.c; `none` when a token is read
outside the array. -/
def server_reply_quit (env : irc_env) (st : irc_state) (cmdtokens : List sds) (argc : Int)
    (client_hostname : sds) (client_socket : Int) : Option (irc_state × Int) :=
  let msg : Option sds :=
    if argc - 1 = 0 then some "Client Quit".toList
    else (tokens_from cmdtokens 1 argc).map (fun tokens => sdsjoinsds tokens " ".toList)
  match msg with
  | none => none
  | some msg =>
    let msg := strip_colon msg
    let reply_msg := "ERROR :Closing Link: ".toList ++ client_hostname ++ " (".toList ++ msg
      ++ ")\r\n".toList
    some (send_reply env st client_socket reply_msg)

/-- The function `server_reply_join` of send_msg.c.  The result of
`sdscatsds(param, channel_name)` is not assigned; `param` is taken to be
extended where it is. -/
def server_reply_join (env : irc_env) (st : irc_state) (prefix_ : sds) (cmd : sds)
    (nickname : sds) (channel_name : sds) (client_socket : Int) (c : channel_t) :
    Option (irc_state × Int) :=
  let msg := chirc_message_construct prefix_ cmd
  let msg := chirc_message_add_parameter msg nickname false
  let param : sds := []
  let r : chirc_message_t × sds :=
    if strncmp_eq cmd RPL_NAMREPLY MAX_STR_LEN then
      let msg := chirc_message_add_parameter msg "=".toList false
      let param := param ++ channel_name
      let msg := chirc_message_add_parameter msg param false
      let param := "@".toList
      let param := param ++ sdsjoinsds (c.channel_clients.map (fun cc => cc.nick)) " ".toList
      (msg, param ++ "\r\n".toList)
    else if strncmp_eq cmd RPL_ENDOFNAMES MAX_STR_LEN then
      let param := param ++ channel_name
      let msg := chirc_message_add_parameter msg param false
      (msg, "End of NAMES list\r\n".toList)
    else (msg, param)
  let msg := chirc_message_add_parameter r.1 r.2 true
  (chirc_message_to_string msg).map (fun host_msg => send_reply env st client_socket host_msg)

/-- The function `server_reply_join_relay` of send_msg.c; `none` when
`cmdtokens[0]` is read outside the array. -/
def server_reply_join_relay (env : irc_env) (st : irc_state) (join_prefix_ : sds)
    (cmdtokens : List sds) (channel_name : sds) (client_socket : Int) :
    Option (irc_state × Int) :=
  match cmdtokens[0]? with
  | none => none
  | some cmd =>
    let join_msg := chirc_message_construct join_prefix_ cmd
    let join_param := channel_name ++ "\r\n".toList
    let join_msg := chirc_message_add_parameter join_msg join_param false
    (chirc_message_to_string join_msg).map (fun host_join_msg =>
      send_reply env st client_socket host_join_msg)

/-- The function `server_reply_privmsg` of send_msg.c; `none` when a token is read
outside the array. -/
def server_reply_privmsg (env : irc_env) (st : irc_state) (prefix_ : sds)
    (cmdtokens : List sds) (argc : Int) (client_socket : Int) : Option (irc_state × Int) :=
  match cmdtokens[0]?, cmdtokens[1]? with
  | some cmd0, some target =>
    let cmd :=
      if strncmp_eq cmd0 "NOTICE".toList MAX_STR_LEN ∧ target.head? = some '#' then
        "PRIVMSG".toList
      else cmd0
    let msg := chirc_message_construct prefix_ cmd
    let msg := chirc_message_add_parameter msg target false
    match tokens_from cmdtokens 2 argc with
    | none => none
    | some tokens =>
      let param := strip_colon (sdsjoinsds tokens " ".toList) ++ "\r\n".toList
      let msg := chirc_message_add_parameter msg param true
      (chirc_message_to_string msg).map (fun host_msg =>
        send_reply env st client_socket host_msg)
  | _, _ => none

/-- The function `server_reply_ping` of send_msg.c.  It appends "\r\n" to the
string `server_hostname` of the connection itself and frees the result; the
model leaves the connection as it was. -/
def server_reply_ping (env : irc_env) (st : irc_state) (prefix_ : sds) (server_hostname : sds)
    (client_socket : Int) : Option (irc_state × Int) :=
  let msg := chirc_message_construct prefix_ "PONG".toList
  let host := server_hostname ++ "\r\n".toList
  let msg := chirc_message_add_parameter msg host true
  (chirc_message_to_string msg).map (fun host_msg => send_reply env st client_socket host_msg)

/-- The function `server_reply_whois` of send_msg.c; `none` when `cmdtokens[1]`
is read outside the array or `starget` is NULL where it is read. -/
def server_reply_whois (env : irc_env) (st : irc_state) (prefix_ : sds) (cmd : sds)
    (cmdtokens : List sds) (conn : conn_info_t) (nickname : sds) (starget : Option client_t) :
    Option (irc_state × Int) :=
  match cmdtokens[1]? with
  | none => none
  | some target =>
    let msg := chirc_message_construct prefix_ cmd
    let msg := chirc_message_add_parameter msg nickname false
    let msg := chirc_message_add_parameter msg target false
    let msg : Option chirc_message_t :=
      if strncmp_eq cmd RPL_WHOISUSER MAX_STR_LEN then
        starget.map (fun starget =>
          let msg := chirc_message_add_parameter msg starget.info.username false
          let msg := chirc_message_add_parameter msg conn.client_hostname false
          let msg := chirc_message_add_parameter msg "*".toList false
          chirc_message_add_parameter msg (starget.info.realname ++ "\r\n".toList) true)
      else if strncmp_eq cmd RPL_WHOISSERVER MAX_STR_LEN then
        let msg := chirc_message_add_parameter msg conn.server_hostname false
        some (chirc_message_add_parameter msg "*\r\n".toList true)
      else if strncmp_eq cmd RPL_ENDOFWHOIS MAX_STR_LEN then
        some (chirc_message_add_parameter msg "End of WHOIS list\r\n".toList true)
      else some msg
    match msg with
    | none => none
    | some msg =>
      (chirc_message_to_string msg).map (fun host_msg_user =>
        send_reply env st conn.client_socket host_msg_user)

/-- The function `server_reply_list` of send_msg.c: the string returned. -/
def server_reply_list (prefix_ : sds) (cmd : sds) (nickname : sds) (channel_name : sds)
    (num_client : sds) : Option sds :=
  let msg := chirc_message_construct prefix_ cmd
  let msg := chirc_message_add_parameter msg nickname false
  let msg := chirc_message_add_parameter msg channel_name false
  let msg := chirc_message_add_parameter msg num_client false
  let msg := chirc_message_add_parameter msg "\r\n".toList true
  chirc_message_to_string msg

/-- The function `server_reply_listend` of send_msg.c. -/
def server_reply_listend (env : irc_env) (st : irc_state) (prefix_ : sds) (cmd : sds)
    (nickname : sds) (client_socket : Int) : Option (irc_state × Int) :=
  let msg := chirc_message_construct prefix_ cmd
  let msg := chirc_message_add_parameter msg nickname false
  let msg := chirc_message_add_parameter msg "End of LIST\r\n".toList true
  (chirc_message_to_string msg).map (fun host_msg => send_reply env st client_socket host_msg)

/-- The function `server_reply_oper` of send_msg.c; `none` when `cmdtokens[1]` is
read outside the array. -/
def server_reply_oper (env : irc_env) (st : irc_state) (prefix_ : sds) (cmd : sds)
    (cmdtokens : List sds) (client_socket : Int) : Option (irc_state × Int) :=
  match cmdtokens[1]? with
  | none => none
  | some name =>
    let msg := chirc_message_construct prefix_ cmd
    let msg := chirc_message_add_parameter msg name false
    let msg := chirc_message_add_parameter msg "You are now an IRC operator\r\n".toList true
    (chirc_message_to_string msg).map (fun host_msg => send_reply env st client_socket host_msg)

/-- The function `server_reply_part` of send_msg.c; `none` when a token is read
outside the array. -/
def server_reply_part (env : irc_env) (st : irc_state) (prefix_ : sds) (cmdtokens : List sds)
    (channel_name : sds) (argc : Int) (client_socket : Int) : Option (irc_state × Int) :=
  match cmdtokens[0]? with
  | none => none
  | some cmd =>
    let msg := chirc_message_construct prefix_ cmd
    let msg : Option chirc_message_t :=
      if argc > 2 then
        let msg := chirc_message_add_parameter msg channel_name false
        (tokens_from cmdtokens 2 argc).map (fun tokens =>
          let part_msg := strip_colon (sdsjoinsds tokens " ".toList) ++ "\r\n".toList
          chirc_message_add_parameter msg part_msg true)
      else
        let param := channel_name ++ "\r\n".toList
        some (chirc_message_add_parameter msg param false)
    match msg with
    | none => none
    | some msg =>
      (chirc_message_to_string msg).map (fun host_msg =>
        send_reply env st client_socket host_msg)

/-- The function `server_reply_mode` of send_msg.c; `none` when one of
`cmdtokens[0]` to `cmdtokens[3]` is read outside the array. -/
def server_reply_mode (env : irc_env) (st : irc_state) (prefix_ : sds) (cmdtokens : List sds)
    (client_socket : Int) : Option (irc_state × Int) :=
  match cmdtokens[0]?, cmdtokens[1]?, cmdtokens[2]?, cmdtokens[3]? with
  | some t0, some t1, some t2, some t3 =>
    let host_msg := prefix_ ++ " ".toList ++ t0 ++ " ".toList ++ t1 ++ " ".toList ++ t2
      ++ " ".toList ++ t3 ++ "\r\n".toList
    some (send_reply env st client_socket host_msg)
  | _, _, _, _ => none

/-- The function `server_reply_welcome` of send_msg.c. -/
def server_reply_welcome (env : irc_env) (st : irc_state) (client : client_t)
    (conn : conn_info_t) : irc_state × Int :=
  let msg := ":".toList ++ conn.server_hostname ++ " ".toList ++ RPL_WELCOME ++ " ".toList
    ++ client.info.nick ++ " :Welcome to the Internet Relay Network ".toList
    ++ client.info.nick ++ "!".toList ++ client.info.username ++ "@".toList
    ++ conn.client_hostname ++ "\r\n".toList
  send_reply env st conn.client_socket msg

/-- The function `reply_welcome` of send_msg.c. -/
def reply_welcome (env : irc_env) (st : irc_state) (client : client_t) (conn : conn_info_t) :
    irc_state × Int :=
  let client_socket := conn.client_socket
  let server_hostname := conn.server_hostname
  let host_msg := ":".toList ++ server_hostname ++ " ".toList ++ RPL_YOURHOST ++ " ".toList
    ++ client.info.nick ++ " :Your host is ".toList ++ server_hostname
    ++ ", running version ".toList ++ env.version ++ "\r\n".toList
  let r := send_msg env st client_socket host_msg
  if r.2 = MSG_ERROR then (r.1, MSG_ERROR)
  else
    let st := r.1
    let tm := env.localtime st.sent.length
    let create_msg := ":".toList ++ server_hostname ++ " ".toList ++ RPL_CREATED ++ " ".toList
      ++ client.info.nick ++ " :This server was created ".toList
      ++ printf_d (tm.tm_year + 1900) ++ "-".toList ++ printf_02d (tm.tm_mon + 1)
      ++ "-".toList ++ printf_02d tm.tm_mday ++ " ".toList ++ printf_02d tm.tm_hour
      ++ ":".toList ++ printf_02d tm.tm_min ++ ":".toList ++ printf_02d tm.tm_sec
      ++ "\r\n".toList
    let r := send_msg env st client_socket create_msg
    if r.2 = MSG_ERROR then (r.1, MSG_ERROR)
    else
      let st := r.1
      let info_msg := ":".toList ++ server_hostname ++ " ".toList ++ RPL_MYINFO ++ " ".toList
        ++ client.info.nick ++ " ".toList ++ server_hostname ++ " ".toList ++ env.version
        ++ " ao mtov\r\n".toList
      send_reply env st client_socket info_msg

/-- The function `server_reply_lusers` of send_msg.c. -/
def server_reply_lusers (env : irc_env) (st : irc_state) (nick : sds) (conn : conn_info_t) :
    irc_state × Int :=
  let client_socket := conn.client_socket
  let server_hostname := conn.server_hostname
  let num_connections : Int := st.ctx.client_hashtable.length
  let num_of_users := st.ctx.num_connected_users
  let num_of_total_connections := st.ctx.total_connections
  let num_of_unknown_connections := num_of_total_connections - num_connections
  let serclient_msg := ":".toList ++ server_hostname ++ " ".toList ++ RPL_LUSERCLIENT
    ++ " ".toList ++ nick ++ " :There are ".toList ++ printf_d num_of_users
    ++ " users and 0 services on 1 servers\r\n".toList
  let r := send_msg env st client_socket serclient_msg
  if r.2 = MSG_ERROR then (r.1, MSG_ERROR)
  else
    let st := r.1
    let num_of_irc_operator : Int := st.ctx.irc_operators_hashtable.length
    let serop_msg := ":".toList ++ server_hostname ++ " ".toList ++ RPL_LUSEROP ++ " ".toList
      ++ nick ++ " ".toList ++ printf_d num_of_irc_operator ++ " :operator(s) online\r\n".toList
    let r := send_msg env st client_socket serop_msg
    if r.2 = MSG_ERROR then (r.1, MSG_ERROR)
    else
      let st := r.1
      let serunknown_msg := ":".toList ++ server_hostname ++ " ".toList ++ RPL_LUSERUNKNOWN
        ++ " ".toList ++ nick ++ " ".toList ++ printf_d num_of_unknown_connections
        ++ " :unknown connection(s)\r\n".toList
      let r := send_msg env st client_socket serunknown_msg
      if r.2 = MSG_ERROR then (r.1, MSG_ERROR)
      else
        let st := r.1
        let num_of_channels : Int := st.ctx.channels_hashtable.length
        let serchannel_msg := ":".toList ++ server_hostname ++ " ".toList ++ RPL_LUSERCHANNELS
          ++ " ".toList ++ nick ++ " ".toList ++ printf_d num_of_channels
          ++ " :channels formed\r\n".toList
        let r := send_msg env st client_socket serchannel_msg
        if r.2 = MSG_ERROR then (r.1, MSG_ERROR)
        else
          let st := r.1
          let serme_msg := ":".toList ++ server_hostname ++ " ".toList ++ RPL_LUSERME
            ++ " ".toList ++ nick ++ " :I have ".toList ++ printf_d num_connections
            ++ " clients and 1 servers\r\n".toList
          send_reply env st client_socket serme_msg

/-! ## handlers.c: the other handlers -/

/-- The text ":nick!username@client_hostname" that several handlers build with
`sdscatprintf`. -/
def user_prefix_ (s : client_t) (client_hostname : sds) : sds :=
  ":".toList ++ s.info.nick ++ "!".toList ++ s.info.username ++ "@".toList ++ client_hostname

/-- The loops of the handlers over the members of a channel: `reply` is called
for the socket that the table of nicks has for the nick of each member, but
for `skip` not for the members whose nick agrees with it in the first
`MAX_STR_LEN` characters.  The flag of the result is false when `reply`
returned MSG_ERROR, at which the handlers return; `none` when a member is not
in the table of nicks (a NULL pointer is read) or `reply` gives `none`. -/
def relay_to_members (reply : irc_state → Int → Option (irc_state × Int)) (skip : Option sds) :
    List channel_client → irc_state → Option (irc_state × Bool)
  | [], st => some (st, true)
  | cc :: rest, st =>
    if (match skip with
        | some nick => strncmp_eq cc.nick nick MAX_STR_LEN
        | none => false) then relay_to_members reply skip rest st
    else
      match server_find_NICK st.ctx cc.nick with
      | none => none
      | some msgtarget =>
        match reply st msgtarget.client_socket with
        | none => none
        | some r =>
          if r.2 = MSG_ERROR then some (r.1, false)
          else relay_to_members reply skip rest r.1

/-- The function `handle_USER` of handlers.c; `none` when it reads outside the
array `cmdtokens`.  The return value of `reply_error` is not looked at. -/
def handle_USER (env : irc_env) (st : irc_state) (cmdtokens : List sds) (argc : Int)
    (conn : conn_info_t) : Option (irc_state × Int) :=
  let client_socket := conn.client_socket
  if argc - 1 < USER_PARAMETER_NUM then
    (reply_error env st cmdtokens ERR_NEEDMOREPARAMS conn).map (fun r => (r.1, CHIRC_ERROR))
  else
    let found := server_find_USER st.ctx client_socket
    if (match found with
        | some s => decide (s.info.state = conn_status.REGISTERED)
        | none => false) then some (st, conn_status.REGISTERED.toInt)
    else
      let s : client_t :=
        match found with
        | some s => s
        | none =>
          { socket := client_socket,
            client_hostname := env.malloc_client_hostname,
            info := { nick := [], realname := [], username := [],
                      state := conn_status.NOT_REGISTERED,
                      is_irc_operator := env.malloc_is_irc_operator } }
      match cmdtokens[1]?, tokens_from cmdtokens 4 argc with
      | some username, some tokens =>
        let s := { s with info := { s.info with username := username } }
        let realname := strip_colon (sdsjoinsds tokens " ".toList)
        let s := { s with info := { s.info with realname := realname } }
        let ctx :=
          { st.ctx with client_hashtable := write_USER client_socket s st.ctx.client_hashtable }
        if s.info.username.length = 0 then some ({ st with ctx := ctx }, CHIRC_ERROR)
        else if s.info.state = conn_status.USER_MISSING then
          let s := { s with info := { s.info with state := conn_status.REGISTERED } }
          let ctx := { ctx with client_hashtable := write_USER client_socket s ctx.client_hashtable }
          let ctx := server_add_NICK ctx client_socket s.info.nick
          let ctx := add_connected_user_number ctx
          some ({ st with ctx := ctx }, conn_status.REGISTERED.toInt)
        else if s.info.state = conn_status.NOT_REGISTERED then
          let s := { s with info := { s.info with state := conn_status.NICK_MISSING } }
          let ctx := { ctx with client_hashtable := write_USER client_socket s ctx.client_hashtable }
          let ctx := server_add_USER ctx s client_socket
          some ({ st with ctx := ctx }, conn_status.NICK_MISSING.toInt)
        else some ({ st with ctx := ctx }, conn_status.NICK_MISSING.toInt)
      | _, _ => none

/-- The loop over the channels in `handle_QUIT`: in every channel of which `nick`
is a member the QUIT message goes to the other members, `nick` is removed, and
the channel is removed when no member is left.  The loop reads the field
`hh.next` of a channel that `remove_CHANNEL` has freed; the model takes the
channel that followed it.  The flag of the result is false when a send failed
and the handler returns at once. -/
def handle_QUIT_channels (env : irc_env) (prefix_ : sds) (cmdtokens : List sds) (argc : Int)
    (nick : sds) : List channel_t → irc_state → Option (irc_state × Bool)
  | [], st => some (st, true)
  | c :: rest, st =>
    match find_CHANNEL_CLIENT nick c.channel_clients with
    | none => handle_QUIT_channels env prefix_ cmdtokens argc nick rest st
    | some _ =>
      match relay_to_members
          (fun st client_socket =>
            server_reply_quit_relay env st prefix_ cmdtokens argc client_socket)
          (some nick) c.channel_clients st with
      | none => none
      | some r =>
        if r.2 then
          let st := r.1
          let channel_clients := remove_CHANNEL_CLIENT nick c.channel_clients
          let channels :=
            write_CHANNEL c.channel_name channel_clients st.ctx.channels_hashtable
          let channels :=
            if (channel_clients.length : Int) ≤ 0 then remove_CHANNEL c.channel_name channels
            else channels
          handle_QUIT_channels env prefix_ cmdtokens argc nick rest
            { st with ctx := { st.ctx with channels_hashtable := channels } }
        else some (r.1, false)

/-- The function `handle_QUIT` of handlers.c.  The second component is the value
returned, and `none` when the handler does not return because it has ended the
thread of the client with `pthread_exit`; the whole is `none` when it reads
outside the array `cmdtokens` or through a NULL pointer. -/
def handle_QUIT (env : irc_env) (st : irc_state) (cmdtokens : List sds) (argc : Int)
    (conn : conn_info_t) : Option (irc_state × Option Int) :=
  let client_socket := conn.client_socket
  let client_hostname := conn.client_hostname
  let st := { st with ctx := dec_total_connected_number st.ctx }
  match server_find_USER st.ctx client_socket with
  | none =>
    (reply_error env st cmdtokens ERR_NOTREGISTERED conn).map (fun r => (r.1, some CHIRC_ERROR))
  | some s =>
    if s.info.state ≠ conn_status.REGISTERED then
      (reply_error env st cmdtokens ERR_NOTREGISTERED conn).map
        (fun r => (r.1, some CHIRC_ERROR))
    else
      let st := { st with ctx := dec_connected_user_number st.ctx }
      match server_reply_quit env st cmdtokens argc client_hostname client_socket with
      | none => none
      | some r =>
        if r.2 = MSG_ERROR then some (r.1, some CHIRC_ERROR)
        else
          let st := r.1
          let prefix_ := user_prefix_ s client_hostname
          match handle_QUIT_channels env prefix_ cmdtokens argc s.info.nick
              st.ctx.channels_hashtable st with
          | none => none
          | some looped =>
            if looped.2 then some (looped.1, none)
            else some (looped.1, some CHIRC_ERROR)

/-- The function `handle_JOIN` of handlers.c; `none` when it reads outside the
array `cmdtokens` or through a NULL pointer.  The return value of `reply_error`
is not looked at. -/
def handle_JOIN (env : irc_env) (st : irc_state) (cmdtokens : List sds) (argc : Int)
    (conn : conn_info_t) : Option (irc_state × Int) :=
  let client_socket := conn.client_socket
  let server_hostname := conn.server_hostname
  let client_hostname := conn.client_hostname
  match server_find_USER st.ctx client_socket with
  | none =>
    (reply_error env st cmdtokens ERR_NOTREGISTERED conn).map (fun r => (r.1, CHIRC_ERROR))
  | some s =>
    if s.info.state ≠ conn_status.REGISTERED then
      (reply_error env st cmdtokens ERR_NOTREGISTERED conn).map (fun r => (r.1, CHIRC_ERROR))
    else if argc - 1 < JOIN_PARAMETER_NUM then
      (reply_error env st cmdtokens ERR_NEEDMOREPARAMS conn).map (fun r => (r.1, CHIRC_ERROR))
    else
      match cmdtokens[1]? with
      | none => none
      | some channel_name =>
        let found := server_find_CHANNEL st.ctx channel_name
        let flag := found.isSome
        let ctx := if flag then st.ctx else server_add_CHANNEL st.ctx channel_name
        let c : channel_t :=
          match found with
          | some c => c
          | none => { channel_name := channel_name, channel_clients := [] }
        match server_find_CHANNEL_CLIENT c s.info.nick with
        | some _ => some ({ st with ctx := ctx }, CHIRC_ERROR)
        | none =>
          match server_add_CHANNEL_CLIENT ctx s.info.nick channel_name flag with
          | none => none
          | some ctx =>
            let st := { st with ctx := ctx }
            match server_find_CHANNEL ctx channel_name with
            | none => none
            | some c =>
              let join_prefix_ := user_prefix_ s client_hostname
              match relay_to_members
                  (fun st client_socket =>
                    server_reply_join_relay env st join_prefix_ cmdtokens channel_name
                      client_socket)
                  none c.channel_clients st with
              | none => none
              | some r =>
                if r.2 = false then some (r.1, CHIRC_ERROR)
                else
                  let st := r.1
                  let prefix_ := ":".toList ++ server_hostname
                  match server_reply_join env st prefix_ RPL_NAMREPLY s.info.nick channel_name
                      client_socket c with
                  | none => none
                  | some r =>
                    if r.2 = MSG_ERROR then some (r.1, CHIRC_ERROR)
                    else
                      match server_reply_join env r.1 prefix_ RPL_ENDOFNAMES s.info.nick
                          channel_name client_socket c with
                      | none => none
                      | some r =>
                        if r.2 = MSG_ERROR then some (r.1, CHIRC_ERROR)
                        else some (r.1, CHIRC_OK)

/-- The function `handle_PRIVMSG` of handlers.c; `none` when it reads outside the
array `cmdtokens` or through a NULL pointer. -/
def handle_PRIVMSG (env : irc_env) (st : irc_state) (cmdtokens : List sds) (argc : Int)
    (conn : conn_info_t) : Option (irc_state × Int) :=
  let client_socket := conn.client_socket
  let client_hostname := conn.client_hostname
  match server_find_USER st.ctx client_socket with
  | none =>
    (reply_error env st cmdtokens ERR_NOTREGISTERED conn).map (fun r => (r.1, CHIRC_ERROR))
  | some s =>
    if s.info.state ≠ conn_status.REGISTERED then
      (reply_error env st cmdtokens ERR_NOTREGISTERED conn).map (fun r => (r.1, CHIRC_ERROR))
    else if argc - 1 < PRIVMSG_PARAMETER_NUM ∧ argc = 1 then
      (reply_error env st cmdtokens ERR_NORECIPIENT conn).map (fun r => (r.1, CHIRC_ERROR))
    else if argc - 1 < PRIVMSG_PARAMETER_NUM ∧ argc = 2 then
      (reply_error env st cmdtokens ERR_NOTEXTTOSEND conn).map (fun r => (r.1, CHIRC_ERROR))
    else
      match cmdtokens[1]? with
      | none => none
      | some target =>
        if target.head? = some '#' then
          match server_find_CHANNEL st.ctx target with
          | none =>
            (reply_error env st cmdtokens ERR_NOSUCHNICK conn).map (fun r => (r.1, CHIRC_ERROR))
          | some c =>
            match server_find_CHANNEL_CLIENT c s.info.nick with
            | none =>
              (reply_error env st cmdtokens ERR_CANNOTSENDTOCHAN conn).map
                (fun r => (r.1, CHIRC_ERROR))
            | some _ =>
              let prefix_ := user_prefix_ s client_hostname
              (relay_to_members
                (fun st client_socket =>
                  server_reply_privmsg env st prefix_ cmdtokens argc client_socket)
                (some s.info.nick) c.channel_clients st).map
                (fun r => (r.1, if r.2 then CHIRC_OK else CHIRC_ERROR))
        else
          match server_find_NICK st.ctx target with
          | none =>
            (reply_error env st cmdtokens ERR_NOSUCHNICK conn).map (fun r => (r.1, CHIRC_ERROR))
          | some msgtarget =>
            let msg_prefix_ := user_prefix_ s client_hostname
            (server_reply_privmsg env st msg_prefix_ cmdtokens argc msgtarget.client_socket).map
              (fun r => (r.1, if r.2 = MSG_ERROR then CHIRC_ERROR else CHIRC_OK))

/-- The function `handle_NOTICE` of handlers.c; `none` when it reads outside the
array `cmdtokens` or through a NULL pointer. -/
def handle_NOTICE (env : irc_env) (st : irc_state) (cmdtokens : List sds) (argc : Int)
    (conn : conn_info_t) : Option (irc_state × Int) :=
  let client_socket := conn.client_socket
  let client_hostname := conn.client_hostname
  match server_find_USER st.ctx client_socket with
  | none => some (st, CHIRC_ERROR)
  | some s =>
    if s.info.state ≠ conn_status.REGISTERED then some (st, CHIRC_ERROR)
    else if argc - 1 < PRIVMSG_PARAMETER_NUM then some (st, CHIRC_ERROR)
    else
      match cmdtokens[1]? with
      | none => none
      | some target =>
        if target.head? = some '#' then
          match server_find_CHANNEL st.ctx target with
          | none => some (st, CHIRC_ERROR)
          | some c =>
            match server_find_CHANNEL_CLIENT c s.info.nick with
            | none => some (st, CHIRC_ERROR)
            | some _ =>
              let prefix_ := user_prefix_ s client_hostname
              (relay_to_members
                (fun st client_socket =>
                  server_reply_privmsg env st prefix_ cmdtokens argc client_socket)
                (some s.info.nick) c.channel_clients st).map
                (fun r => (r.1, if r.2 then CHIRC_OK else CHIRC_ERROR))
        else
          match server_find_NICK st.ctx target with
          | none => some (st, CHIRC_ERROR)
          | some msgtarget =>
            let msg_prefix_ := user_prefix_ s client_hostname
            (server_reply_privmsg env st msg_prefix_ cmdtokens argc msgtarget.client_socket).map
              (fun r => (r.1, if r.2 = MSG_ERROR then CHIRC_ERROR else CHIRC_OK))

/-- The function `handle_PING` of handlers.c.  `reply_error` does not know
ERR_NOSUCHSERVER and sends nothing for it. -/
def handle_PING (env : irc_env) (st : irc_state) (cmdtokens : List sds) (_argc : Int)
    (conn : conn_info_t) : Option (irc_state × Int) :=
  let client_socket := conn.client_socket
  let server_hostname := conn.server_hostname
  match server_find_USER st.ctx client_socket with
  | none =>
    (reply_error env st cmdtokens ERR_NOSUCHSERVER conn).map (fun r => (r.1, CHIRC_ERROR))
  | some _ =>
    let prefix_ := ":".toList ++ server_hostname
    (server_reply_ping env st prefix_ server_hostname client_socket).map
      (fun r => (r.1, if r.2 = MSG_ERROR then CHIRC_ERROR else CHIRC_OK))

/-- The function `handle_PONG` of handlers.c. -/
def handle_PONG (_env : irc_env) (st : irc_state) (_cmdtokens : List sds) (_argc : Int)
    (_conn : conn_info_t) : Option (irc_state × Int) :=
  some (st, CHIRC_OK)

/-- The function `handle_LUSERS` of handlers.c. -/
def handle_LUSERS (env : irc_env) (st : irc_state) (_cmdtokens : List sds) (_argc : Int)
    (conn : conn_info_t) : Option (irc_state × Int) :=
  let client_socket := conn.client_socket
  let nick : sds :=
    match server_find_USER st.ctx client_socket with
    | none => "*".toList
    | some s => s.info.nick
  let r := server_reply_lusers env st nick conn
  if r.2 = MSG_ERROR then some (r.1, CHIRC_ERROR) else some (r.1, CHIRC_OK)

/-- The function `handle_WHOIS` of handlers.c; `none` when it reads outside the
array `cmdtokens` or through a NULL pointer. -/
def handle_WHOIS (env : irc_env) (st : irc_state) (cmdtokens : List sds) (argc : Int)
    (conn : conn_info_t) : Option (irc_state × Int) :=
  let client_socket := conn.client_socket
  let server_hostname := conn.server_hostname
  match server_find_USER st.ctx client_socket with
  | none =>
    (reply_error env st cmdtokens ERR_NOTREGISTERED conn).map (fun r => (r.1, CHIRC_ERROR))
  | some s =>
    if s.info.state = conn_status.USER_MISSING ∨ s.info.state = conn_status.NICK_MISSING then
      (reply_error env st cmdtokens ERR_NOTREGISTERED conn).map (fun r => (r.1, CHIRC_ERROR))
    else if argc - 1 < WHOIS_PARAMETER_NUM then some (st, CHIRC_ERROR)
    else
      match cmdtokens[1]? with
      | none => none
      | some target =>
        match server_find_NICK st.ctx target with
        | none =>
          (reply_error env st cmdtokens ERR_NOSUCHNICK conn).map (fun r => (r.1, CHIRC_ERROR))
        | some msgtarget =>
          let starget := server_find_USER st.ctx msgtarget.client_socket
          let msg_prefix_ := ":".toList ++ server_hostname
          match server_reply_whois env st msg_prefix_ RPL_WHOISUSER cmdtokens conn s.info.nick
              starget with
          | none => none
          | some r =>
            if r.2 = MSG_ERROR then some (r.1, CHIRC_ERROR)
            else
              match server_reply_whois env r.1 msg_prefix_ RPL_WHOISSERVER cmdtokens conn
                  s.info.nick starget with
              | none => none
              | some r =>
                if r.2 = MSG_ERROR then some (r.1, CHIRC_ERROR)
                else
                  (server_reply_whois env r.1 msg_prefix_ RPL_ENDOFWHOIS cmdtokens conn
                    s.info.nick starget).map
                    (fun r => (r.1, if r.2 = MSG_ERROR then CHIRC_ERROR else CHIRC_OK))

/-- The function `handle_LIST` of handlers.c; `none` when it reads outside the
array `cmdtokens` or through a NULL pointer.  The return value of the
`send_msg` of the list is not looked at. -/
def handle_LIST (env : irc_env) (st : irc_state) (cmdtokens : List sds) (argc : Int)
    (conn : conn_info_t) : Option (irc_state × Int) :=
  let client_socket := conn.client_socket
  let server_hostname := conn.server_hostname
  match server_find_USER st.ctx client_socket with
  | none =>
    (reply_error env st cmdtokens ERR_NOTREGISTERED conn).map (fun r => (r.1, CHIRC_ERROR))
  | some s =>
    if s.info.state ≠ conn_status.REGISTERED then
      (reply_error env st cmdtokens ERR_NOTREGISTERED conn).map (fun r => (r.1, CHIRC_ERROR))
    else
      let msg_prefix_ := ":".toList ++ server_hostname
      let msg_all : Option sds :=
        if argc = 1 then
          st.ctx.channels_hashtable.foldl
            (fun msg_all channel =>
              match msg_all, server_reply_list msg_prefix_ RPL_LIST s.info.nick
                  channel.channel_name (printf_d channel.channel_clients.length) with
              | some msg_all, some line => some (msg_all ++ line)
              | _, _ => none)
            (some [])
        else if argc = 2 then
          match cmdtokens[1]? with
          | none => none
          | some name =>
            match server_find_CHANNEL st.ctx name with
            | none => none
            | some channel =>
              server_reply_list msg_prefix_ RPL_LIST s.info.nick name
                (printf_d channel.channel_clients.length)
        else some []
      match msg_all with
      | none => none
      | some msg_all =>
        let st := (send_msg env st client_socket msg_all).1
        (server_reply_listend env st msg_prefix_ RPL_LISTEND s.info.nick client_socket).map
          (fun r => (r.1, if r.2 = MSG_ERROR then CHIRC_ERROR else CHIRC_OK))

/-- The function `handle_MODE` of handlers.c; `none` when it reads outside the
array `cmdtokens` or through a NULL pointer.  The field `mode` of an element of
a channel is a string in the model, so that the test `owner->mode == NULL` has
no counterpart. -/
def handle_MODE (env : irc_env) (st : irc_state) (cmdtokens : List sds) (argc : Int)
    (conn : conn_info_t) : Option (irc_state × Int) :=
  let client_socket := conn.client_socket
  let client_hostname := conn.client_hostname
  if argc - 1 < MODE_PARAMETER_NUM then some (st, CHIRC_ERROR)
  else
    match cmdtokens[1]?, cmdtokens[2]?, cmdtokens[3]? with
    | some channel_name, some mode, some nick =>
      let client := server_find_USER st.ctx client_socket
      match server_find_CHANNEL st.ctx channel_name with
      | none =>
        (reply_error env st cmdtokens ERR_NOSUCHCHANNEL conn).map (fun r => (r.1, CHIRC_ERROR))
      | some channel =>
        if !strncmp_eq mode "+o".toList MAX_STR_LEN ∧ !strncmp_eq mode "-o".toList MAX_STR_LEN then
          (reply_error env st cmdtokens ERR_UNKNOWNMODE conn).map (fun r => (r.1, CHIRC_ERROR))
        else
          match server_find_CHANNEL_CLIENT channel nick with
          | none =>
            (reply_error env st cmdtokens ERR_USERNOTINCHANNEL conn).map
              (fun r => (r.1, CHIRC_ERROR))
          | some _ =>
            match client with
            | none => none
            | some client =>
              let owner := server_find_CHANNEL_CLIENT channel client.info.nick
              if (match owner with
                  | none => true
                  | some owner =>
                    !strncmp_eq owner.mode "o".toList MAX_STR_LEN
                      && client.info.is_irc_operator == false) then
                (reply_error env st cmdtokens ERR_CHANOPRIVSNEEDED conn).map
                  (fun r => (r.1, CHIRC_ERROR))
              else
                let new_mode : sds :=
                  if strncmp_eq mode "+o".toList MAX_STR_LEN then "o".toList else "-o".toList
                let channel_clients := write_mode nick new_mode channel.channel_clients
                let ctx :=
                  { st.ctx with
                    channels_hashtable :=
                      write_CHANNEL channel.channel_name channel_clients
                        st.ctx.channels_hashtable }
                let st := { st with ctx := ctx }
                let msg_prefix_ := user_prefix_ client client_hostname
                (relay_to_members
                  (fun st client_socket =>
                    server_reply_mode env st msg_prefix_ cmdtokens client_socket)
                  none channel_clients st).map
                  (fun r => (r.1, if r.2 then CHIRC_OK else CHIRC_ERROR))
    | _, _, _ => none

/-- An assignment to the field `mode` through the pointer that `server_find_OPER`
returned for `nickname`. -/
def write_OPER_mode (nickname : sds) (mode : sds) : List irc_oper_t → List irc_oper_t
  | [] => []
  | o :: rest =>
    if o.nick = nickname then { o with mode := mode } :: rest
    else o :: write_OPER_mode nickname mode rest

/-- The function `handle_OPER` of handlers.c; `none` when it reads outside the
array `cmdtokens` or through a NULL pointer. -/
def handle_OPER (env : irc_env) (st : irc_state) (cmdtokens : List sds) (argc : Int)
    (conn : conn_info_t) : Option (irc_state × Int) :=
  let client_socket := conn.client_socket
  let client_hostname := conn.client_hostname
  let client := server_find_USER st.ctx client_socket
  if argc - 1 < OPER_PARAMETER_NUM then
    (reply_error env st cmdtokens ERR_NEEDMOREPARAMS conn).map (fun r => (r.1, CHIRC_ERROR))
  else
    match cmdtokens[1]?, cmdtokens[2]? with
    | some name, some password =>
      if !strncmp_eq password st.ctx.password MAX_STR_LEN then
        (reply_error env st cmdtokens ERR_PASSWDMISMATCH conn).map (fun r => (r.1, CHIRC_ERROR))
      else
        let ctx :=
          match server_find_OPER st.ctx name with
          | some _ => st.ctx
          | none => server_add_OPER st.ctx { nick := name, mode := [] }
        let ctx :=
          { ctx with
            irc_operators_hashtable :=
              write_OPER_mode name "o".toList ctx.irc_operators_hashtable }
        match client with
        | none => none
        | some client =>
          let client := { client with info := { client.info with is_irc_operator := true } }
          let ctx :=
            { ctx with
              client_hashtable := write_USER client_socket client ctx.client_hashtable }
          let st := { st with ctx := ctx }
          let prefix_ := user_prefix_ client client_hostname
          (server_reply_oper env st prefix_ RPL_YOUREOPER cmdtokens client_socket).map
            (fun r => (r.1, if r.2 = MSG_ERROR then CHIRC_ERROR else CHIRC_OK))
    | _, _ => none

/-- The function `handle_PART` of handlers.c; `none` when it reads outside the
array `cmdtokens` or through a NULL pointer.  The return value of `reply_error`
is not looked at. -/
def handle_PART (env : irc_env) (st : irc_state) (cmdtokens : List sds) (argc : Int)
    (conn : conn_info_t) : Option (irc_state × Int) :=
  let client_socket := conn.client_socket
  let client_hostname := conn.client_hostname
  match server_find_USER st.ctx client_socket with
  | none =>
    (reply_error env st cmdtokens ERR_NOTREGISTERED conn).map (fun r => (r.1, CHIRC_ERROR))
  | some s =>
    if s.info.state ≠ conn_status.REGISTERED then
      (reply_error env st cmdtokens ERR_NOTREGISTERED conn).map (fun r => (r.1, CHIRC_ERROR))
    else if argc - 1 < PART_PARAMETER_NUM then
      (reply_error env st cmdtokens ERR_NEEDMOREPARAMS conn).map (fun r => (r.1, CHIRC_ERROR))
    else
      match cmdtokens[1]? with
      | none => none
      | some name =>
        match server_find_CHANNEL st.ctx name with
        | none =>
          (reply_error env st cmdtokens ERR_NOSUCHCHANNEL conn).map (fun r => (r.1, CHIRC_ERROR))
        | some c =>
          match server_find_CHANNEL_CLIENT c s.info.nick with
          | none =>
            (reply_error env st cmdtokens ERR_NOTONCHANNEL conn).map
              (fun r => (r.1, CHIRC_ERROR))
          | some _ =>
            let prefix_ := user_prefix_ s client_hostname
            match relay_to_members
                (fun st client_socket =>
                  server_reply_part env st prefix_ cmdtokens c.channel_name argc client_socket)
                none c.channel_clients st with
            | none => none
            | some r =>
              if r.2 = false then some (r.1, CHIRC_ERROR)
              else
                let st := r.1
                let channel_clients := remove_CHANNEL_CLIENT s.info.nick c.channel_clients
                let channels :=
                  write_CHANNEL c.channel_name channel_clients st.ctx.channels_hashtable
                let channels :=
                  if (channel_clients.length : Int) ≤ 0 then
                    remove_CHANNEL c.channel_name channels
                  else channels
                some ({ st with ctx := { st.ctx with channels_hashtable := channels } },
                  CHIRC_OK)

/-- The type of the functions in the table `handlers`: the state afterwards and
the value returned, which is `none` when the handler has ended the thread. -/
@[reducible] def handler_t : Type :=
  irc_env → irc_state → List sds → Int → conn_info_t → Option (irc_state × Option Int)

/-- A handler that returns, as an element of the table `handlers`. -/
def returning (f : irc_env → irc_state → List sds → Int → conn_info_t → Option (irc_state × Int)) :
    handler_t :=
  fun env st cmdtokens argc conn => (f env st cmdtokens argc conn).map (fun r => (r.1, some r.2))

/-- The dispatch table `handlers` of handlers.c. -/
def handlers : List (sds × handler_t) :=
  [("NICK".toList, returning handle_NICK),
   ("USER".toList, returning handle_USER),
   ("QUIT".toList, handle_QUIT),
   ("JOIN".toList, returning handle_JOIN),
   ("PRIVMSG".toList, returning handle_PRIVMSG),
   ("NOTICE".toList, returning handle_NOTICE),
   ("PING".toList, returning handle_PING),
   ("PONG".toList, returning handle_PONG),
   ("LUSERS".toList, returning handle_LUSERS),
   ("WHOIS".toList, returning handle_WHOIS),
   ("LIST".toList, returning handle_LIST),
   ("MODE".toList, returning handle_MODE),
   ("OPER".toList, returning handle_OPER),
   ("PART".toList, returning handle_PART)]

/-- The commands after which `handle_request` sends nothing to a registered
client. -/
def no_welcome_commands : List sds :=
  ["PONG".toList, "PRIVMSG".toList, "PART".toList, "NOTICE".toList, "WHOIS".toList,
   "JOIN".toList, "OPER".toList, "MODE".toList]

/-- The last part of `handle_request`, for a registered client and a command that
is in the table and not among `no_welcome_commands`: RPL_WELCOME after USER
and NICK, then `reply_welcome`, `handle_LUSERS` and ERR_NOMOTD. -/
def handle_request_welcome (env : irc_env) (st : irc_state) (cmdtokens : List sds) (argc : Int)
    (conn : conn_info_t) (cmd : sds) (s : client_t) : Option (irc_state × Int) :=
  let first : irc_state × Int :=
    if strncmp_eq cmd "USER".toList MAX_STR_LEN ∨ strncmp_eq cmd "NICK".toList MAX_STR_LEN then
      server_reply_welcome env st s conn
    else (st, MSG_OK)
  if first.2 = MSG_ERROR then some (first.1, CHIRC_ERROR)
  else
    let r := reply_welcome env first.1 s conn
    if r.2 = MSG_ERROR then some (r.1, CHIRC_ERROR)
    else
      match handle_LUSERS env r.1 cmdtokens argc conn with
      | none => none
      | some r =>
        if r.2 = MSG_ERROR then some (r.1, CHIRC_ERROR)
        else
          (reply_error env r.1 cmdtokens ERR_NOMOTD conn).map
            (fun r => (r.1, if r.2 = MSG_ERROR then CHIRC_ERROR else CHIRC_OK))

/-- The function `handle_request` of handlers.c.  The second component is the
value returned, and `none` when the handler has ended the thread; the whole is
`none` when the code reads outside the array `cmdtokens` or through a NULL
pointer. -/
def handle_request (env : irc_env) (st : irc_state) (cmdtokens : List sds) (argc : Int)
    (conn : conn_info_t) : Option (irc_state × Option Int) :=
  let client_socket := conn.client_socket
  match cmdtokens[0]? with
  | none => none
  | some cmd =>
    let found := handlers.find? (fun h => strncmp_eq h.1 cmd MAX_STR_LEN)
    let ran : Option (irc_state × Option Int) :=
      match found with
      | some h => h.2 env st cmdtokens argc conn
      | none => some (st, some 0)
    match ran with
    | none => none
    | some (st, none) => some (st, none)
    | some (st, some rc) =>
      match server_find_USER st.ctx client_socket with
      | none => some (st, some CHIRC_ERROR)
      | some s =>
        if rc = CHIRC_ERROR then some (st, some CHIRC_ERROR)
        else if s.info.state = conn_status.REGISTERED
            ∧ no_welcome_commands.all (fun name => !strncmp_eq cmd name MAX_STR_LEN) then
          if found.isNone then
            (reply_error env st cmdtokens ERR_UNKNOWNCOMMAND conn).map
              (fun r => (r.1, some CHIRC_ERROR))
          else
            (handle_request_welcome env st cmdtokens argc conn cmd s).map
              (fun r => (r.1, some r.2))
        else some (st, some CHIRC_OK)

/-! ## server.c: the loop of `service_single_client` -/

/-- The statements of the loop of `service_single_client` between `recv` and the
calls of `handle_request`, for a `recv` that wrote the bytes `received` and
returned their number: the token lists for which `handle_request` is called, in
order, and the string `cmdstack` afterwards.  `sdscat` appends the bytes of
`buffer` before the first NUL.  `none` when `recv` filled all `BUFFER_SIZE`
bytes of `buffer`: the statement `buffer[nbytes] = 0` then writes outside the
array. -/
def service_recv (cmdstack : sds) (received : sds) : Option (List (List sds) × sds) :=
  let nbytes := received.length
  if nbytes ≥ BUFFER_SIZE then none
  else
    let cmdstack := cmdstack ++ received.takeWhile (fun c => decide (c ≠ Char.ofNat 0))
    let cmdseg := sdssplitlen cmdstack "\r\n".toList
    let count : Int := cmdseg.length
    if count ≤ 1 then some ([], cmdstack)
    else
      let lines := (cmdseg.take (count - 1).toNat).map (fun seg =>
        sdssplitlen (sdstrim seg " ".toList) " ".toList)
      let last := cmdseg.getLast?.getD []
      some (lines,
        sdsrange cmdstack ((cmdstack.length : Int) - (last.length : Int)) cmdstack.length)

/-- The calls of `handle_request` in the loop of `service_single_client`, for the
token lists `lines` in order: the state afterwards, the token lists for which
`handle_request` was called, and whether the thread goes on (false when a
handler ended it).  The value that `handle_request` returns is not looked at.
`none` when a call reads outside its array or through a NULL pointer. -/
def service_lines (env : irc_env) (conn : conn_info_t) :
    List (List sds) → irc_state → Option (irc_state × List (List sds) × Bool)
  | [], st => some (st, [], true)
  | cmdtokens :: rest, st =>
    match handle_request env st cmdtokens cmdtokens.length conn with
    | none => none
    | some (st, none) => some (st, [cmdtokens], false)
    | some (st, some _) =>
      (service_lines env conn rest st).map (fun r => (r.1, cmdtokens :: r.2.1, r.2.2))

/-- The loop of `service_single_client` for the successive results `chunks` of
`recv`, each of at least one byte: the state afterwards, the token lists for
which `handle_request` was called, and `cmdstack`, which is `none` when a
handler has ended the thread. -/
def service_single_client (env : irc_env) (conn : conn_info_t) :
    List sds → irc_state → sds → Option (irc_state × List (List sds) × Option sds)
  | [], st, cmdstack => some (st, [], some cmdstack)
  | received :: rest, st, cmdstack =>
    match service_recv cmdstack received with
    | none => none
    | some (lines, cmdstack) =>
      match service_lines env conn lines st with
      | none => none
      | some (st, called, false) => some (st, called, none)
      | some (st, called, true) =>
        (service_single_client env conn rest st cmdstack).map
          (fun r => (r.1, called ++ r.2.1, r.2.2))

/-! ## Framing as the specification words it

The definitions of this section follow the words of the specification: the
lines of a byte string are its segments that end with CRLF, each without the
spaces at its two ends and split at every single space. -/

/-- The segments of a byte string that end with CRLF, without the CRLF, from the
left; `cur` is the segment begun. -/
def crlf_segments : sds → sds → List sds
  | [], _ => []
  | [_], _ => []
  | c :: d :: rest, cur =>
    if c = '\r' ∧ d = '\n' then cur :: crlf_segments rest []
    else crlf_segments (d :: rest) (cur ++ [c])

/-- The bytes of a byte string after its last CRLF; `cur` is the segment begun. -/
def crlf_rest : sds → sds → sds
  | [], cur => cur
  | [c], cur => cur ++ [c]
  | c :: d :: rest, cur =>
    if c = '\r' ∧ d = '\n' then crlf_rest rest []
    else crlf_rest (d :: rest) (cur ++ [c])

/-- The parts of a string between its spaces; `cur` is the part begun. -/
def split_spaces : sds → sds → List sds
  | [], cur => [cur]
  | c :: rest, cur =>
    if c = ' ' then cur :: split_spaces rest [] else split_spaces rest (cur ++ [c])

/-- A string without the spaces at its two ends. -/
def trim_spaces (s : sds) : sds :=
  ((s.dropWhile (fun c => decide (c = ' '))).reverse.dropWhile
    (fun c => decide (c = ' '))).reverse

/-- The tokens of a line: the line without the spaces at its ends, split at every
single space; a line of spaces only has no token. -/
def line_tokens (line : sds) : List sds :=
  if trim_spaces line = [] then [] else split_spaces (trim_spaces line) []

/-- The lines of a byte string: the tokens of each of its segments that end with
CRLF. -/
def stream_lines (bytes : sds) : List (List sds) :=
  (crlf_segments bytes []).map line_tokens

/-- The bytes of a byte string after its last CRLF. -/
def stream_rest (bytes : sds) : sds :=
  crlf_rest bytes []

/-! ## Examples -/

/-- Surroundings in which every `sendall` succeeds. -/
def ex_irc_env : irc_env :=
  { sendall := fun _ _ _ => 0, malloc_client_hostname := [], malloc_is_irc_operator := false }

/-- The connection of the client of a socket to the server bar.example.com. -/
def ex_conn (client_socket : Int) : conn_info_t :=
  { client_socket := client_socket,
    server_hostname := "bar.example.com".toList,
    client_hostname := "foo.example.com".toList }

/-- A server on which the client of socket 4 is registered as alice; nothing has
been sent. -/
def ex_alice_registered : irc_state :=
  { ctx :=
      { num_connected_users := 1, total_connections := 2, password := "pw".toList,
        client_hashtable :=
          [⟨4, "foo.example.com".toList,
            ⟨"alice".toList, "al".toList, "Alice".toList, conn_status.REGISTERED, false⟩⟩],
        nicks_hashtable := [⟨"alice".toList, 4⟩],
        channels_hashtable := [],
        irc_operators_hashtable := [] },
    sent := [] }

/-- The server `ex_alice_registered` after `NICK bob` from the client of socket
5, which has not sent USER. -/
def ex_bob_pending : irc_state :=
  ((handle_NICK ex_irc_env ex_alice_registered ["NICK".toList, "bob".toList] 2
    (ex_conn 5)).getD (ex_alice_registered, 0)).1

/-- A server without clients on which two connections are open; nothing has been
sent. -/
def ex_empty_server : irc_state :=
  { ctx :=
      { num_connected_users := 0, total_connections := 2, password := "pw".toList,
        client_hashtable := [], nicks_hashtable := [], channels_hashtable := [],
        irc_operators_hashtable := [] },
    sent := [] }

/-- The tokens that `service_single_client` makes of a line. -/
def ex_line (line : String) : List sds :=
  sdssplitlen (sdstrim line.toList " ".toList) " ".toList

/-- The call of `handle_request` for a line from the client of a socket, with
sends that succeed. -/
def ex_request (st : irc_state) (client_socket : Int) (line : String) :
    Option (irc_state × Option Int) :=
  handle_request ex_irc_env st (ex_line line) (ex_line line).length (ex_conn client_socket)

/-- The calls of `handle_request` for lines from the clients of sockets, one after
the other: the state afterwards. -/
def ex_requests : irc_state → List (Int × String) → Option irc_state
  | st, [] => some st
  | st, (client_socket, line) :: rest =>
    match ex_request st client_socket line with
    | none => none
    | some r => ex_requests r.1 rest

/-- The client of socket 4 registers as alice and then sends `NICK carol`. -/
def ex_nick_change_lines : List (Int × String) :=
  [(4, "NICK alice"), (4, "USER al * * :Alice"), (4, "NICK carol")]

/-- The server after `ex_nick_change_lines`. -/
def ex_nick_changed : irc_state :=
  (ex_requests ex_empty_server ex_nick_change_lines).getD ex_empty_server

/-- The clients of sockets 4, 5 and 6 register as alice, bob and carol; alice and
then bob join the channel #c, and carol becomes an IRC operator. -/
def ex_channel_lines : List (Int × String) :=
  [(4, "NICK alice"), (4, "USER al * * :Alice"), (5, "NICK bob"), (5, "USER bo * * :Bob"),
   (6, "NICK carol"), (6, "USER ca * * :Carol"), (4, "JOIN #c"), (5, "JOIN #c"),
   (6, "OPER carol pw")]

/-- The server after `ex_channel_lines`, with nothing sent: alice is operator of
the channel #c, bob is a member, and carol is an IRC operator and no member. -/
def ex_channel : irc_state :=
  { (ex_requests ex_empty_server ex_channel_lines).getD ex_empty_server with sent := [] }

/-- Surroundings in which every `sendall` fails. -/
def ex_env_send_fails : irc_env :=
  { ex_irc_env with sendall := fun _ _ _ => -1 }

/-! ## Notions for the statements -/

/-- The state `st2` comes from `st1` by handing buffers to `sendall`: the context is
the same, and the buffers handed over are those of `st1` and further ones. -/
def sends_only (st1 st2 : irc_state) : Prop :=
  st2.ctx = st1.ctx ∧ ∃ msgs, st2.sent = st1.sent ++ msgs

/-- No `sendall` fails. -/
def sends_succeed (env : irc_env) : Prop :=
  ∀ (k : Nat) (client_socket : Int) (msg : sds), env.sendall k client_socket msg ≠ -1

/-- A numeric reply: the prefix ":" and the name of the server, the code, and the
rest of the message after a space. -/
def numeric_reply (server_hostname code rest : sds) : sds :=
  ":".toList ++ server_hostname ++ " ".toList ++ code ++ " ".toList ++ rest

/-- The second of the words of a message that single spaces separate: the
command or the numeric of a message that begins with a prefix. -/
def second_word (msg : sds) : sds :=
  ((sdssplitlen msg " ".toList)[1]?).getD []

/-- The sockets and the second words of the buffers handed to `sendall`. -/
def sent_words (st : irc_state) : List (Int × sds) :=
  st.sent.map (fun m => (m.1, second_word m.2))

/-- The numerics that `handle_request` sends after the handler of a command
`cmd` to a client that is registered: RPL_WELCOME after USER and NICK, then
RPL_YOURHOST, RPL_CREATED, RPL_MYINFO, the five replies of LUSERS and
ERR_NOMOTD. -/
def welcome_numerics (cmd : sds) : List sds :=
  (if strncmp_eq cmd "USER".toList MAX_STR_LEN ∨ strncmp_eq cmd "NICK".toList MAX_STR_LEN then
    [RPL_WELCOME] else [])
  ++ [RPL_YOURHOST, RPL_CREATED, RPL_MYINFO, RPL_LUSERCLIENT, RPL_LUSEROP, RPL_LUSERUNKNOWN,
      RPL_LUSERCHANNELS, RPL_LUSERME, ERR_NOMOTD]

/-- The nicks of the table of nicks are distinct. -/
def nick_keys_distinct (ctx : server_ctx) : Prop :=
  (ctx.nicks_hashtable.map (fun n => n.nick)).Nodup

/-- No channel of the table is without a member. -/
def no_empty_channel (ctx : server_ctx) : Prop :=
  ∀ c ∈ ctx.channels_hashtable, c.channel_clients ≠ []

/-- The states of the server that NICK, USER and QUIT commands lead to: at the
start the tables of clients and of nicks are empty, and a step is a call of
`handle_request` that returns or ends its thread, for a command NICK, USER or
QUIT with any parameters, from any connection, with any surroundings. -/
inductive registry_reachable : irc_state → Prop
  | start (st : irc_state) (h1 : st.ctx.client_hashtable = [])
      (h2 : st.ctx.nicks_hashtable = []) : registry_reachable st
  | request (env : irc_env) (st : irc_state) (cmdtokens : List sds) (argc : Int)
      (conn : conn_info_t) (cmd : sds) (r : irc_state × Option Int)
      (h : registry_reachable st) (h0 : cmdtokens[0]? = some cmd)
      (hc : cmd = "NICK".toList ∨ cmd = "USER".toList ∨ cmd = "QUIT".toList)
      (hr : handle_request env st cmdtokens argc conn = some r) : registry_reachable r.1

/-- The sockets, nicks and states of the clients of the table of clients. -/
def client_nicks (st : irc_state) : List (Int × sds × conn_status) :=
  st.ctx.client_hashtable.map (fun c => (c.socket, c.info.nick, c.info.state))

/-- The socket that the table of nicks has for a nick, and 0 when it has none. -/
def nick_socket (ctx : server_ctx) (nick : sds) : Int :=
  ((server_find_NICK ctx nick).map (fun t => t.client_socket)).getD 0

end IRC

/-! # Theorems -/

namespace Router

/-! ## Checksum arithmetic -/

theorem word_or_eq (a b : Nat) (hb : b < 256) : (a <<< 8) ||| b = a * 256 + b := by
  have h := Nat.mul_add_lt_is_or (i := 8) (b := b) (by simpa using hb) a
  rw [Nat.shiftLeft_eq, ← Nat.mul_comm (2 ^ 8) a, ← h]

theorem shift8_eq (a : Nat) : a <<< 8 = a * 256 := by
  rw [Nat.shiftLeft_eq]

theorem and_ffff (y : Nat) : y &&& 0xffff = y % 65536 :=
  Nat.and_pow_two_sub_one_eq_mod y 16

/-- Two rounds of the folding loop compute the end-around-carry value of any
32-bit sum. -/
theorem cksum_fold_two (x : Nat) (h : x < 2 ^ 32) : cksum_fold 2 x = canon x := by
  simp only [cksum_fold, canon, Nat.shiftRight_eq_div_pow, and_ffff]
  split_ifs <;> omega

/-- After two rounds the exit condition of the folding loop holds. -/
theorem cksum_fold_exit (x : Nat) (h : x < 2 ^ 32) : ¬ (cksum_fold 2 x > 0xffff) := by
  rw [cksum_fold_two x h]; unfold canon; split_ifs <;> omega

/-- Rounds after the exit condition holds change nothing. -/
theorem cksum_fold_stable (n k x : Nat) (h : ¬ (cksum_fold n x > 0xffff)) :
    cksum_fold (n + k) x = cksum_fold n x := by
  induction n generalizing x with
  | zero =>
    cases k with
    | zero => rfl
    | succ k => simp only [cksum_fold] at h ⊢; simp [cksum_fold, h]
  | succ n ih =>
    have e : n + 1 + k = (n + k) + 1 := by omega
    rw [e]
    simp only [cksum_fold] at h ⊢
    split_ifs with hx
    · rw [if_pos hx] at h; exact ih _ h
    · rfl

theorem canon_le (S : Nat) : canon S ≤ 65535 := by
  unfold canon; split_ifs <;> omega

theorem onesAdd_canon (A w : Nat) (hw : w ≤ 65535) : onesAdd (canon A) w = canon (A + w) := by
  unfold onesAdd canon
  split_ifs <;> omega

theorem foldl_onesAdd_canon (ws : List Nat) (hws : ∀ w ∈ ws, w ≤ 65535) (A : Nat) :
    ws.foldl onesAdd (canon A) = canon (A + ws.sum) := by
  induction ws generalizing A with
  | nil => simp
  | cons w ws ih =>
    rw [List.foldl_cons, onesAdd_canon A w (hws w (List.mem_cons_self _ _)),
      ih (fun x hx => hws x (List.mem_cons_of_mem _ hx)), List.sum_cons, Nat.add_assoc]

theorem beWords_le (data : List Nat) (h : BytesOK data) : ∀ w ∈ beWords data, w ≤ 65535 := by
  induction data using beWords.induct with
  | case1 => simp [beWords]
  | case2 a =>
    have := h a (List.mem_singleton_self a)
    simp only [beWords, List.mem_singleton]; intro w hw; omega
  | case3 a b rest ih =>
    have ha := h a (List.mem_cons_self _ _)
    have hb := h b (List.mem_cons_of_mem _ (List.mem_cons_self _ _))
    intro w hw
    simp only [beWords, List.mem_cons] at hw
    rcases hw with hw | hw
    · omega
    · exact ih (fun x hx => h x (List.mem_cons_of_mem _ (List.mem_cons_of_mem _ hx))) w hw

/-- The ones-complement sum of the words of a buffer is the folded total. -/
theorem onesSum_beWords (data : List Nat) (h : BytesOK data) :
    onesSum (beWords data) = canon (beWords data).sum := by
  have := foldl_onesAdd_canon (beWords data) (beWords_le data h) 0
  simpa [onesSum, canon] using this

theorem beWords_sum_le (data : List Nat) (h : BytesOK data) :
    (beWords data).sum ≤ 65535 * ((data.length + 1) / 2) := by
  induction data using beWords.induct with
  | case1 => simp [beWords]
  | case2 a =>
    have := h a (List.mem_singleton_self a)
    simp [beWords]; omega
  | case3 a b rest ih =>
    have ha := h a (List.mem_cons_self _ _)
    have hb := h b (List.mem_cons_of_mem _ (List.mem_cons_self _ _))
    have := ih (fun x hx => h x (List.mem_cons_of_mem _ (List.mem_cons_of_mem _ hx)))
    simp only [beWords, List.sum_cons, List.length_cons]
    omega

theorem BytesOK_take {l : List Nat} (h : BytesOK l) (n : Nat) : BytesOK (l.take n) :=
  fun b hb => h b (List.mem_of_mem_take hb)

theorem BytesOK_drop {l : List Nat} (h : BytesOK l) (n : Nat) : BytesOK (l.drop n) :=
  fun b hb => h b (List.mem_of_mem_drop hb)

/-- The summation loop adds the big-endian words of the first `len` bytes to a
32-bit accumulator. -/
theorem cksum_sum_eq (data : List Nat) (len s : Nat) (h : BytesOK data)
    (hlen : len ≤ data.length) (hs : s < 2 ^ 32) :
    cksum_sum data len s = (s + (beWords (data.take len)).sum) % 2 ^ 32 := by
  induction data, len, s using cksum_sum.induct with
  | case1 data len s ih =>
    match data, hlen, h, ih with
    | [], hlen, _, _ => simp at hlen
    | [_], hlen, _, _ => simp at hlen
    | a :: b :: rest, hlen, h, ih =>
      have hb := h b (List.mem_cons_of_mem _ (List.mem_cons_self _ _))
      have hr : BytesOK rest := fun x hx => h x (List.mem_cons_of_mem _ (List.mem_cons_of_mem _ hx))
      simp only [List.length_cons] at hlen
      have ih' := ih hr (by simp; omega) (Nat.mod_lt _ (by norm_num))
      simp only [List.drop_succ_cons, List.drop_zero] at ih'
      rw [cksum_sum]
      simp only [List.drop_succ_cons, List.drop_zero]
      rw [ih']
      simp only [rd8, List.getD_cons_zero, List.getD_cons_succ, List.take_succ_cons, beWords,
        List.sum_cons, word_or_eq a b hb]
      omega
  | case2 data s =>
    match data, hlen with
    | [], hlen => simp at hlen
    | a :: rest, _ =>
      simp [cksum_sum, rd8, beWords, shift8_eq]
  | case3 data s =>
    simp only [cksum_sum, List.take_zero, beWords, List.sum_nil, Nat.add_zero]
    exact (Nat.mod_eq_of_lt hs).symm

theorem htons_eq_zero (x : Nat) : htons x = 0 ↔ x % 65536 = 0 := by
  unfold htons; omega

theorem ntohs_htons (x : Nat) : ntohs (htons x) = x % 65536 := by
  unfold ntohs htons
  have h1 : x % 65536 < 65536 := Nat.mod_lt _ (by norm_num)
  generalize x % 65536 = y at h1 ⊢
  have h2 : y % 256 * 256 + y / 256 < 65536 := by omega
  rw [Nat.mod_eq_of_lt h2]
  omega

/-- The value `cksum` returns, read in network byte order, in terms of the 32-bit
total of the words. -/
theorem ntohs_cksum (data : List Nat) (len : Nat) (h : BytesOK data) (hlen : len ≤ data.length) :
    ntohs (cksum data len) =
      (let c := 0xFFFF - canon ((beWords (data.take len)).sum % 2 ^ 32)
       if c = 0 then 0xFFFF else c) := by
  have hs := cksum_sum_eq data len 0 h hlen (by norm_num)
  simp only [Nat.zero_add] at hs
  have hlt : (beWords (data.take len)).sum % 2 ^ 32 < 2 ^ 32 := Nat.mod_lt _ (by norm_num)
  have hc := canon_le ((beWords (data.take len)).sum % 2 ^ 32)
  simp only [cksum, Int.toNat_ofNat, hs, cksum_fold_two _ hlt]
  generalize canon ((beWords (data.take len)).sum % 2 ^ 32) = c at hc ⊢
  by_cases hz : htons (0xffffffff - c) = 0
  · have hz' := (htons_eq_zero _).1 hz
    simp only [ne_eq, hz, not_true_eq_false, if_false]
    have : 0xFFFF - c = 0 := by omega
    simp [this, ntohs, htons]
  · have hz' : ¬ ((0xffffffff - c) % 65536 = 0) := fun e => hz ((htons_eq_zero _).2 e)
    simp only [ne_eq, hz, not_false_eq_true, if_true, ntohs_htons]
    have : ¬ (0xFFFF - c = 0) := by omega
    simp only [this, if_false]
    omega

theorem cksum_ne_zero (data : List Nat) (len : Int) : cksum data len ≠ 0 := by
  unfold cksum
  simp only
  split_ifs with h
  · simpa using h
  · norm_num

theorem cksum_lt (data : List Nat) (len : Int) : cksum data len < 65536 := by
  unfold cksum htons
  simp only
  split_ifs <;> omega

theorem st8_length (buf : List Nat) (i v : Nat) : (st8 buf i v).length = buf.length := by
  simp [st8]

theorem st16_length (buf : List Nat) (i v : Nat) : (st16 buf i v).length = buf.length := by
  simp [st16, st8]

theorem st16_append (pre post : List Nat) (a b v : Nat) :
    st16 (pre ++ a :: b :: post) pre.length v = pre ++ (v % 256) :: (v / 256 % 256) :: post := by
  simp [st16, st8, List.set_append]

theorem beWords_append_even (pre l : List Nat) (h : pre.length % 2 = 0) :
    beWords (pre ++ l) = beWords pre ++ beWords l := by
  induction pre using beWords.induct with
  | case1 => simp [beWords]
  | case2 a => simp at h
  | case3 a b rest ih =>
    have : rest.length % 2 = 0 := by simp only [List.length_cons] at h; omega
    simp [beWords, ih this]

theorem BytesOK_append {a b : List Nat} (ha : BytesOK a) (hb : BytesOK b) : BytesOK (a ++ b) := by
  intro x hx
  rcases List.mem_append.1 hx with h | h
  · exact ha x h
  · exact hb x h

theorem BytesOK_cons {a : Nat} {l : List Nat} (ha : a < 256) (hl : BytesOK l) :
    BytesOK (a :: l) := by
  intro x hx
  rcases List.mem_cons.1 hx with h | h
  · omega
  · exact hl x h

theorem canon_verify (T w : Nat)
    (hw : w = (let c := 0xFFFF - canon T; if c = 0 then 0xFFFF else c)) :
    canon (T + w) = 0xFFFF := by
  simp only at hw
  unfold canon at hw ⊢
  split_ifs at hw ⊢ <;> omega

/-- Storing the checksum of a buffer into its zeroed, 16-bit aligned checksum
field makes the buffer verify, as long as the 32-bit accumulator of `cksum`
cannot wrap. -/
theorem cksum_store_append (pre post : List Nat) (hpre : pre.length % 2 = 0)
    (h1 : BytesOK pre) (h2 : BytesOK post) (hlen : pre.length + 2 + post.length ≤ 131074) :
    verifies (st16 (pre ++ 0 :: 0 :: post) pre.length
      (cksum (pre ++ 0 :: 0 :: post) ((pre ++ 0 :: 0 :: post).length : Nat))) := by
  have hb : BytesOK (pre ++ 0 :: 0 :: post) :=
    BytesOK_append h1 (BytesOK_cons (by norm_num) (BytesOK_cons (by norm_num) h2))
  have hn := ntohs_cksum (pre ++ 0 :: 0 :: post) (pre ++ 0 :: 0 :: post).length hb (Nat.le_refl _)
  have hc := cksum_lt (pre ++ 0 :: 0 :: post) ((pre ++ 0 :: 0 :: post).length : Nat)
  rw [List.take_length] at hn
  have hsum := beWords_sum_le (pre ++ 0 :: 0 :: post) hb
  have hT : (beWords (pre ++ 0 :: 0 :: post)).sum < 2 ^ 32 := by
    have : (pre ++ 0 :: 0 :: post).length ≤ 131074 := by simp; omega
    have : ((pre ++ 0 :: 0 :: post).length + 1) / 2 ≤ 65537 := by omega
    calc (beWords (pre ++ 0 :: 0 :: post)).sum
        ≤ 65535 * (((pre ++ 0 :: 0 :: post).length + 1) / 2) := hsum
      _ ≤ 65535 * 65537 := Nat.mul_le_mul_left _ this
      _ < 2 ^ 32 := by norm_num
  rw [Nat.mod_eq_of_lt hT] at hn
  generalize cksum (pre ++ 0 :: 0 :: post) ((pre ++ 0 :: 0 :: post).length : Nat) = c at hn hc ⊢
  have hb' : BytesOK (pre ++ (c % 256) :: (c / 256 % 256) :: post) :=
    BytesOK_append h1 (BytesOK_cons (Nat.mod_lt _ (by norm_num))
      (BytesOK_cons (Nat.mod_lt _ (by norm_num)) h2))
  unfold verifies
  rw [st16_append, onesSum_beWords _ hb']
  have e1 : (beWords (pre ++ (c % 256) :: (c / 256 % 256) :: post)).sum
      = (beWords (pre ++ 0 :: 0 :: post)).sum + ntohs c := by
    rw [beWords_append_even _ _ hpre, beWords_append_even _ _ hpre]
    simp only [beWords, List.sum_append, List.sum_cons, ntohs, htons]
    omega
  rw [e1]
  exact canon_verify _ _ hn

theorem split_at_field (buf : List Nat) (off : Nat) (h : off + 2 ≤ buf.length) :
    buf = buf.take off ++ rd8 buf off :: rd8 buf (off + 1) :: buf.drop (off + 2) := by
  have h0 : off < buf.length := by omega
  have h1 : off + 1 < buf.length := by omega
  conv_lhs => rw [← List.take_append_drop off buf]
  congr 1
  rw [List.drop_eq_getElem_cons h0, List.drop_eq_getElem_cons h1]
  simp [rd8, List.getD_eq_getElem?_getD, List.getElem?_eq_getElem h0, List.getElem?_eq_getElem h1]

/-- Indexed form of `cksum_store_append`: the checksum field sits at the even
offset `off` of `buf` and holds zero. -/
theorem cksum_store_verifies (buf : List Nat) (off : Nat) (hoff : off % 2 = 0)
    (hin : off + 2 ≤ buf.length) (hz0 : rd8 buf off = 0) (hz1 : rd8 buf (off + 1) = 0)
    (hb : BytesOK buf) (hlen : buf.length ≤ 131074) :
    verifies (st16 buf off (cksum buf (buf.length : Nat))) := by
  have hs := split_at_field buf off hin
  rw [hz0, hz1] at hs
  have hl : (buf.take off).length = off := by simp; omega
  have := cksum_store_append (buf.take off) (buf.drop (off + 2)) (by rw [hl]; exact hoff)
    (BytesOK_take hb _) (BytesOK_drop hb _) (by simp; omega)
  rw [← hs, hl] at this
  exact this

theorem beWords_cons_cons (a b : Nat) (l : List Nat) :
    beWords (a :: b :: l) = (a * 256 + b) :: beWords l := by
  rw [beWords]

theorem replicate_two_mul_succ (k b : Nat) :
    List.replicate (2 * (k + 1)) b = b :: b :: List.replicate (2 * k) b := by
  have : 2 * (k + 1) = 2 * k + 1 + 1 := by omega
  rw [this, List.replicate_succ, List.replicate_succ]

theorem beWords_replicate_ff (k : Nat) :
    (beWords (List.replicate (2 * k) 255)).sum = k * 65535 := by
  induction k with
  | zero => simp [beWords]
  | succ k ih =>
    rw [replicate_two_mul_succ, beWords, List.sum_cons, ih]
    omega

theorem BytesOK_replicate (n b : Nat) (hb : b < 256) : BytesOK (List.replicate n b) := by
  intro x hx
  rw [List.eq_of_mem_replicate hx]; exact hb

/-- A zeroed checksum field followed by words whose total is 65538 * 0xFFFF: the
stored checksum does not make the buffer verify. -/
theorem long_header_sum (X : List Nat) (hr : BytesOK X)
    (hs : (beWords X).sum = 65538 * 65535) :
    onesSum (beWords (st16 (0 :: 0 :: X) 0
      (cksum (0 :: 0 :: X) ((0 :: 0 :: X).length : Nat)))) ≠ 0xFFFF := by
  have hb : BytesOK (0 :: 0 :: X) := BytesOK_cons (by norm_num) (BytesOK_cons (by norm_num) hr)
  have hn := ntohs_cksum (0 :: 0 :: X) (0 :: 0 :: X).length hb (Nat.le_refl _)
  rw [List.take_length, beWords_cons_cons, List.sum_cons, hs] at hn
  have hc := cksum_lt (0 :: 0 :: X) ((0 :: 0 :: X).length : Nat)
  generalize cksum (0 :: 0 :: X) ((0 :: 0 :: X).length : Nat) = c at hn hc ⊢
  have hn' : ntohs c = 1 := by rw [hn]; simp [canon]
  have e := st16_append [] X 0 0 c
  simp only [List.nil_append, List.length_nil] at e
  have hb' : BytesOK ((c % 256) :: (c / 256 % 256) :: X) :=
    BytesOK_cons (Nat.mod_lt _ (by norm_num)) (BytesOK_cons (Nat.mod_lt _ (by norm_num)) hr)
  rw [e, onesSum_beWords _ hb', beWords_cons_cons, List.sum_cons, hs]
  have : c % 256 * 256 + c / 256 % 256 = 1 := by
    simp only [ntohs, htons] at hn'; omega
  rw [this]
  simp [canon]

/-! ## Byte-buffer lemmas -/

theorem rd8_eq (buf : List Nat) (i : Nat) : rd8 buf i = (buf[i]?).getD 0 := by
  simp [rd8, List.getD_eq_getElem?_getD]

theorem getElem?_st8 (buf : List Nat) (i v j : Nat) :
    (st8 buf i v)[j]? = if i = j ∧ i < buf.length then some (v % 256) else buf[j]? := by
  simp only [st8, List.getElem?_set]
  by_cases h : i = j
  · subst h
    by_cases h2 : i < buf.length
    · simp [h2]
    · simp [h2, List.getElem?_eq_none (Nat.le_of_not_lt h2)]
  · simp [h]

theorem getElem?_st16 (buf : List Nat) (i v j : Nat) :
    (st16 buf i v)[j]? =
      if i + 1 = j ∧ i + 1 < buf.length then some (v / 256 % 256)
      else if i = j ∧ i < buf.length then some (v % 256) else buf[j]? := by
  simp only [st16, getElem?_st8, st8_length]

theorem getElem?_st32 (buf : List Nat) (i v j : Nat) :
    (st32 buf i v)[j]? =
      if i + 3 = j ∧ i + 3 < buf.length then some (v / 16777216 % 256)
      else if i + 2 = j ∧ i + 2 < buf.length then some (v / 65536 % 256)
      else if i + 1 = j ∧ i + 1 < buf.length then some (v / 256 % 256)
      else if i = j ∧ i < buf.length then some (v % 256) else buf[j]? := by
  simp only [st32, getElem?_st8, st8_length]

theorem st32_length (buf : List Nat) (i v : Nat) : (st32 buf i v).length = buf.length := by
  simp [st32, st8]

theorem memcpy_length (src : List Nat) : ∀ (dst : List Nat) (off : Nat),
    (memcpy dst off src).length = dst.length := by
  induction src with
  | nil => intro dst off; rfl
  | cons b bs ih => intro dst off; simp [memcpy, ih]

theorem getElem?_memcpy (src : List Nat) : ∀ (dst : List Nat) (off j : Nat),
    (memcpy dst off src)[j]? =
      if off ≤ j ∧ j < off + src.length ∧ j < dst.length then src[j - off]? else dst[j]? := by
  induction src with
  | nil =>
    intro dst off j
    have : ¬ (off ≤ j ∧ j < off + 0 ∧ j < dst.length) := by omega
    simp only [memcpy, List.length_nil, this, if_false]
  | cons b bs ih =>
    intro dst off j
    simp only [memcpy, ih, List.length_set, List.getElem?_set, List.length_cons]
    by_cases h1 : off = j
    · subst h1
      by_cases h2 : off < dst.length
      · simp [h2]
      · simp [h2, List.getElem?_eq_none (Nat.le_of_not_lt h2)]
    · by_cases h3 : off + 1 ≤ j ∧ j < off + 1 + bs.length ∧ j < dst.length
      · have h4 : off ≤ j ∧ j < off + (bs.length + 1) ∧ j < dst.length := by omega
        have h5 : j - off = (j - (off + 1)) + 1 := by omega
        simp [h3, h4, h5]
      · have h4 : ¬ (off ≤ j ∧ j < off + (bs.length + 1) ∧ j < dst.length) := by omega
        simp [h3, h4, h1]

theorem getElem?_bytes_at (buf : List Nat) (off n j : Nat) :
    (bytes_at buf off n)[j]? = if j < n then buf[off + j]? else none := by
  simp only [bytes_at, List.getElem?_take, List.getElem?_drop]

theorem bytes_at_length (buf : List Nat) (off n : Nat) :
    (bytes_at buf off n).length = min n (buf.length - off) := by
  simp [bytes_at]

theorem getElem?_replicate_zero (n j : Nat) :
    (List.replicate n 0)[j]? = if j < n then some 0 else none := by
  simp [List.getElem?_replicate]

theorem BytesOK_set {l : List Nat} (h : BytesOK l) (i v : Nat) (hv : v < 256) :
    BytesOK (l.set i v) := by
  intro x hx
  rcases List.mem_or_eq_of_mem_set hx with h1 | h1
  · exact h x h1
  · omega

theorem BytesOK_st8 {l : List Nat} (h : BytesOK l) (i v : Nat) : BytesOK (st8 l i v) :=
  BytesOK_set h i _ (Nat.mod_lt _ (by norm_num))

theorem BytesOK_st16 {l : List Nat} (h : BytesOK l) (i v : Nat) : BytesOK (st16 l i v) :=
  BytesOK_st8 (BytesOK_st8 h _ _) _ _

theorem BytesOK_st32 {l : List Nat} (h : BytesOK l) (i v : Nat) : BytesOK (st32 l i v) :=
  BytesOK_st8 (BytesOK_st8 (BytesOK_st8 (BytesOK_st8 h _ _) _ _) _ _) _ _

theorem BytesOK_memcpy (src : List Nat) (hs : BytesOK src) : ∀ (dst : List Nat) (off : Nat),
    BytesOK dst → BytesOK (memcpy dst off src) := by
  induction src with
  | nil => intro dst off h; exact h
  | cons b bs ih =>
    intro dst off h
    exact ih (fun x hx => hs x (List.mem_cons_of_mem _ hx)) _ _
      (BytesOK_set h off b (hs b (List.mem_cons_self _ _)))

theorem BytesOK_bytes_at {l : List Nat} (h : BytesOK l) (off n : Nat) :
    BytesOK (bytes_at l off n) :=
  BytesOK_take (BytesOK_drop h off) n

theorem BytesOK_of_getElem? (l : List Nat) (h : ∀ (j x : Nat), l[j]? = some x → x < 256) :
    BytesOK l := by
  intro b hb
  obtain ⟨n, hn, rfl⟩ := List.getElem_of_mem hb
  exact h n _ (List.getElem?_eq_getElem hn)

/-- The summation of `cksum` reads only the first `len` bytes. -/
theorem cksum_sum_take (data : List Nat) (len s : Nat) :
    cksum_sum (data.take len) len s = cksum_sum data len s := by
  induction data, len, s using cksum_sum.induct with
  | case1 data len s ih =>
    rw [cksum_sum, cksum_sum, ← ih]
    have e : (data.take (len + 2)).drop 2 = (data.drop 2).take len := by
      rw [List.drop_take]; simp
    rw [e]
    simp [rd8, List.getD_eq_getElem?_getD, List.getElem?_take]
  | case2 data s =>
    simp [cksum_sum, rd8, List.getD_eq_getElem?_getD, List.getElem?_take]
  | case3 data s => simp [cksum_sum]

theorem cksum_take (data : List Nat) (len : Nat) :
    cksum (data.take len) len = cksum data len := by
  simp only [cksum, Int.toNat_ofNat, cksum_sum_take]

/-! ## The rewriting of a forwarded frame -/

theorem memcpy_comm_mac (raw a b : List Nat) (ha : a.length ≤ 6) :
    memcpy (memcpy raw 0 a) 6 b = memcpy (memcpy raw 6 b) 0 a := by
  apply List.ext_getElem?
  intro j
  simp only [getElem?_memcpy, memcpy_length]
  by_cases h : j < 6
  · simp (disch := omega) only [if_pos, if_neg, if_true, if_false, true_and, lt_min_iff,
      Nat.zero_add, Nat.sub_zero, Nat.zero_le, Option.getD_some]
  · simp (disch := omega) only [if_pos, if_neg, if_true, if_false, true_and, lt_min_iff,
      Nat.zero_add, Nat.sub_zero, Nat.zero_le, Option.getD_some]

theorem withheld_rewrite_eq (raw query_mac out_mac : List Nat) :
    withheld_rewrite raw query_mac out_mac = forward_rewrite raw out_mac query_mac := by
  have h : (bytes_at query_mac 0 ETHER_ADDR_LEN).length ≤ 6 := by
    simp [bytes_at, ETHER_ADDR_LEN]
  simp only [withheld_rewrite, forward_rewrite, memcpy_comm_mac _ _ _ h]

theorem fwd_header_eq (inp src_mac dst_mac : List Nat) (hlen : 34 ≤ inp.length)
    (hs : src_mac.length = 6) (_hd : dst_mac.length = 6) :
    List.take 20 (List.drop 14 (st16 (st8 (memcpy (memcpy inp 6
      (bytes_at src_mac 0 ETHER_ADDR_LEN)) 0 (bytes_at dst_mac 0 ETHER_ADDR_LEN)) 22
      (rd8 inp 22 + 256 - 1)) 24 0)) = fwd_header inp := by
  apply List.ext_getElem?
  intro k
  simp only [fwd_header, List.getElem?_take, List.getElem?_drop, getElem?_st16, getElem?_st8,
    getElem?_memcpy, getElem?_bytes_at, st8_length, memcpy_length, bytes_at_length,
    ETHER_ADDR_LEN]
  by_cases h0 : k < 20
  · by_cases h1 : k = 11
    · subst h1; simp (disch := omega) only [if_pos, if_neg, if_true, if_false, true_and, lt_min_iff,
      Nat.zero_add, Nat.sub_zero, Nat.zero_le, Option.getD_some]
    · by_cases h2 : k = 10
      · subst h2; simp (disch := omega) only [if_pos, if_neg, if_true, if_false, true_and, lt_min_iff,
      Nat.zero_add, Nat.sub_zero, Nat.zero_le, Option.getD_some]
      · by_cases h3 : k = 8
        · subst h3; simp (disch := omega) only [if_pos, if_neg, if_true, if_false, true_and, lt_min_iff,
      Nat.zero_add, Nat.sub_zero, Nat.zero_le, Option.getD_some]
        · simp (disch := omega) only [if_pos, if_neg, if_true, if_false, true_and, lt_min_iff,
      Nat.zero_add, Nat.sub_zero, Nat.zero_le, Option.getD_some]
  · simp (disch := omega) only [if_pos, if_neg, if_true, if_false, true_and, lt_min_iff,
      Nat.zero_add, Nat.sub_zero, Nat.zero_le, Option.getD_some]

theorem rd8_after_macs (inp src_mac dst_mac : List Nat) :
    rd8 (memcpy (memcpy inp 6 (bytes_at src_mac 0 ETHER_ADDR_LEN)) 0
      (bytes_at dst_mac 0 ETHER_ADDR_LEN)) 22 = rd8 inp 22 := by
  simp only [rd8_eq, getElem?_memcpy, memcpy_length, bytes_at_length, ETHER_ADDR_LEN]
  simp (disch := omega) only [if_pos, if_neg, if_true, if_false, true_and, lt_min_iff,
      Nat.zero_add, Nat.sub_zero, Nat.zero_le, Option.getD_some]

/-- Every byte of the frame that `forward_rewrite` produces. -/
theorem forward_rewrite_getElem? (inp src_mac dst_mac : List Nat) (hlen : 34 ≤ inp.length)
    (hs : src_mac.length = 6) (hd : dst_mac.length = 6) (j : Nat) :
    (forward_rewrite inp src_mac dst_mac)[j]? =
      if j = 25 then some (cksum (fwd_header inp) (20 : Nat) / 256 % 256)
      else if j = 24 then some (cksum (fwd_header inp) (20 : Nat) % 256)
      else if j = 22 then some ((rd8 inp 22 + 255) % 256)
      else if j < 6 then dst_mac[j]?
      else if j < 12 then src_mac[j - 6]?
      else inp[j]? := by
  have e : (rd8 inp 22 + 256 - 1) % 256 = (rd8 inp 22 + 255) % 256 := by omega
  simp only [forward_rewrite, rd8_after_macs, sizeof_iphdr]
  rw [← cksum_take, fwd_header_eq inp src_mac dst_mac hlen hs hd]
  simp only [getElem?_st16, getElem?_st8, getElem?_memcpy, getElem?_bytes_at, st8_length,
    st16_length, memcpy_length, bytes_at_length, ETHER_ADDR_LEN, e]
  by_cases h25 : j = 25
  · subst h25; simp (disch := omega) only [if_pos, if_neg, if_true, if_false, true_and, lt_min_iff,
      Nat.zero_add, Nat.sub_zero, Nat.zero_le, Option.getD_some]
  · by_cases h24 : j = 24
    · subst h24; simp (disch := omega) only [if_pos, if_neg, if_true, if_false, true_and, lt_min_iff,
      Nat.zero_add, Nat.sub_zero, Nat.zero_le, Option.getD_some]
    · by_cases h22 : j = 22
      · subst h22; simp (disch := omega) only [if_pos, if_neg, if_true, if_false, true_and, lt_min_iff,
      Nat.zero_add, Nat.sub_zero, Nat.zero_le, Option.getD_some]
      · by_cases h6 : j < 6
        · simp (disch := omega) only [if_pos, if_neg, if_true, if_false, true_and, lt_min_iff,
      Nat.zero_add, Nat.sub_zero, Nat.zero_le, Option.getD_some]
        · by_cases h12 : j < 12
          · simp (disch := omega) only [if_pos, if_neg, if_true, if_false, true_and, lt_min_iff,
      Nat.zero_add, Nat.sub_zero, Nat.zero_le, Option.getD_some]
          · simp (disch := omega) only [if_pos, if_neg, if_true, if_false, true_and, lt_min_iff,
      Nat.zero_add, Nat.sub_zero, Nat.zero_le, Option.getD_some]

theorem forward_rewrite_length (inp src_mac dst_mac : List Nat) :
    (forward_rewrite inp src_mac dst_mac).length = inp.length := by
  simp only [forward_rewrite, st16_length, st8_length, memcpy_length]

theorem BytesOK_fwd_header (inp : List Nat) (h : BytesOK inp) : BytesOK (fwd_header inp) :=
  BytesOK_st16 (BytesOK_st8 (BytesOK_bytes_at h _ _) _ _) _ _

theorem fwd_header_length (inp : List Nat) (hlen : 34 ≤ inp.length) :
    (fwd_header inp).length = 20 := by
  simp only [fwd_header, st16_length, st8_length, bytes_at_length]; omega

/-- The frame that `forward_rewrite` produces is the forwarded frame of the
specification, for an inbound TTL of at least 1. -/
theorem forward_rewrite_is_forwarded (inp src_mac dst_mac : List Nat)
    (hlen : 34 ≤ inp.length) (hs : src_mac.length = 6) (hd : dst_mac.length = 6)
    (hb : BytesOK inp) (httl : 1 ≤ rd8 inp 22) :
    is_forwarded inp (forward_rewrite inp src_mac dst_mac) src_mac dst_mac := by
  have hg := forward_rewrite_getElem? inp src_mac dst_mac hlen hs hd
  have hl := forward_rewrite_length inp src_mac dst_mac
  have httl' : rd8 inp 22 < 256 := by
    have h22 : 22 < inp.length := by omega
    rw [rd8_eq, List.getElem?_eq_getElem h22]
    exact hb _ (List.getElem_mem _)
  have hc := cksum_lt (fwd_header inp) (20 : Nat)
  simp only [Nat.cast_ofNat] at hg hc
  have hzero : bytes_at (st16 (forward_rewrite inp src_mac dst_mac) 24 0) 14 20
      = fwd_header inp := by
    apply List.ext_getElem?
    intro k
    simp only [fwd_header, getElem?_bytes_at, getElem?_st16, getElem?_st8, hg, hl, st8_length,
      bytes_at_length]
    by_cases h0 : k < 20
    · by_cases h1 : k = 11
      · subst h1; simp (disch := omega) only [if_pos, if_neg, if_true, if_false, true_and, lt_min_iff,
      Nat.zero_add, Nat.sub_zero, Nat.zero_le, Option.getD_some]
      · by_cases h2 : k = 10
        · subst h2; simp (disch := omega) only [if_pos, if_neg, if_true, if_false, true_and, lt_min_iff,
      Nat.zero_add, Nat.sub_zero, Nat.zero_le, Option.getD_some]
        · by_cases h3 : k = 8
          · subst h3
            simp (disch := omega) only [if_pos, if_neg, if_true, if_false, true_and, lt_min_iff,
              Nat.zero_add, Nat.sub_zero, Nat.zero_le, Option.getD_some]
            exact congrArg some (by omega)
          · simp (disch := omega) only [if_pos, if_neg, if_true, if_false, true_and, lt_min_iff,
      Nat.zero_add, Nat.sub_zero, Nat.zero_le, Option.getD_some]
    · simp (disch := omega) only [if_pos, if_neg, if_true, if_false, true_and, lt_min_iff,
      Nat.zero_add, Nat.sub_zero, Nat.zero_le, Option.getD_some]
  have hstore : bytes_at (forward_rewrite inp src_mac dst_mac) 14 20
      = st16 (fwd_header inp) 10 (cksum (fwd_header inp) ((fwd_header inp).length : Nat)) := by
    rw [fwd_header_length inp hlen]
    apply List.ext_getElem?
    intro k
    simp only [getElem?_bytes_at, getElem?_st16, hg, fwd_header_length inp hlen, Nat.cast_ofNat]
    simp only [fwd_header, getElem?_st16, getElem?_st8, getElem?_bytes_at, st8_length,
      bytes_at_length]
    by_cases h0 : k < 20
    · by_cases h1 : k = 11
      · subst h1; simp (disch := omega) only [if_pos, if_neg, if_true, if_false, true_and, lt_min_iff,
      Nat.zero_add, Nat.sub_zero, Nat.zero_le, Option.getD_some]
      · by_cases h2 : k = 10
        · subst h2; simp (disch := omega) only [if_pos, if_neg, if_true, if_false, true_and, lt_min_iff,
      Nat.zero_add, Nat.sub_zero, Nat.zero_le, Option.getD_some]
        · by_cases h3 : k = 8
          · subst h3
            simp (disch := omega) only [if_pos, if_neg, if_true, if_false, true_and, lt_min_iff,
              Nat.zero_add, Nat.sub_zero, Nat.zero_le, Option.getD_some]
            exact congrArg some (by omega)
          · simp (disch := omega) only [if_pos, if_neg, if_true, if_false, true_and, lt_min_iff,
      Nat.zero_add, Nat.sub_zero, Nat.zero_le, Option.getD_some]
    · simp (disch := omega) only [if_pos, if_neg, if_true, if_false, true_and, lt_min_iff,
      Nat.zero_add, Nat.sub_zero, Nat.zero_le, Option.getD_some]
  refine ⟨hl, ?_, ?_, ?_, ?_, ?_, ?_⟩
  · apply List.ext_getElem?
    intro k
    simp only [getElem?_bytes_at, hg, Nat.zero_add]
    by_cases h : k < 6
    · simp (disch := omega) only [if_pos, if_neg, if_true, if_false, true_and, lt_min_iff,
      Nat.zero_add, Nat.sub_zero, Nat.zero_le, Option.getD_some]
    · simp (disch := omega) only [if_pos, if_neg, if_true, if_false, true_and, lt_min_iff,
      Nat.zero_add, Nat.sub_zero, Nat.zero_le, Option.getD_some]
      exact (List.getElem?_eq_none (by omega)).symm
  · apply List.ext_getElem?
    intro k
    simp only [getElem?_bytes_at, hg]
    by_cases h : k < 6
    · simp (disch := omega) only [if_pos, if_neg, if_true, if_false, true_and, lt_min_iff,
      Nat.zero_add, Nat.sub_zero, Nat.zero_le, Option.getD_some]
      congr 1; omega
    · simp (disch := omega) only [if_pos, if_neg, if_true, if_false, true_and, lt_min_iff,
      Nat.zero_add, Nat.sub_zero, Nat.zero_le, Option.getD_some]
      exact (List.getElem?_eq_none (by omega)).symm
  · rw [rd8_eq, hg]
    simp only [show (22 : Nat) ≠ 25 by decide, show (22 : Nat) ≠ 24 by decide, if_false, if_true,
      Option.getD_some]
    omega
  · rw [hzero]
    simp only [ld16, rd8_eq, hg]
    simp only [show (24 : Nat) ≠ 25 by decide, show 24 + 1 = 25 by rfl, if_false, if_true,
      Option.getD_some]
    omega
  · rw [hstore]
    have hz0 : rd8 (fwd_header inp) 10 = 0 := by
      simp only [rd8_eq, fwd_header, getElem?_st16, getElem?_st8, st8_length, bytes_at_length]
      simp (disch := omega) only [if_pos, if_neg, if_true, if_false, true_and, lt_min_iff,
      Nat.zero_add, Nat.sub_zero, Nat.zero_le, Option.getD_some]
    have hz1 : rd8 (fwd_header inp) (10 + 1) = 0 := by
      simp only [rd8_eq, fwd_header, getElem?_st16, getElem?_st8, st8_length, bytes_at_length]
      simp (disch := omega) only [if_pos, if_neg, if_true, if_false, true_and, lt_min_iff,
      Nat.zero_add, Nat.sub_zero, Nat.zero_le, Option.getD_some]
    exact cksum_store_verifies (fwd_header inp) 10 (by decide)
      (by rw [fwd_header_length inp hlen]; decide) hz0 hz1 (BytesOK_fwd_header inp hb)
      (by rw [fwd_header_length inp hlen]; decide)
  · intro i h12 h22 h24 h25
    rw [hg]
    simp (disch := omega) only [if_pos, if_neg, if_true, if_false, true_and, lt_min_iff,
      Nat.zero_add, Nat.sub_zero, Nat.zero_le, Option.getD_some]

/-! ## The loops of process_ipv4 -/

theorem scan_not_dst (frame : ethernet_frame_t) (ifs : List chirouter_interface_t)
    (h : ∀ iface ∈ ifs, ld32 frame.raw 30 ≠ iface.ip) (s : ipv4_scan_t) :
    (ifs.foldl (ipv4_scan_step frame) s).router_is_dst = s.router_is_dst ∧
      (ifs.foldl (ipv4_scan_step frame) s).host_unreachable = s.host_unreachable := by
  induction ifs generalizing s with
  | nil => exact ⟨rfl, rfl⟩
  | cons i rest ih =>
    have hi := h i (List.mem_cons_self _ _)
    have hr := ih (fun x hx => h x (List.mem_cons_of_mem _ hx)) (ipv4_scan_step frame s i)
    rw [List.foldl_cons, hr.1, hr.2]
    unfold ipv4_scan_step
    simp only [hi, if_false]
    split_ifs <;> exact ⟨rfl, rfl⟩

theorem scan_iface_mono (frame : ethernet_frame_t) (ifs : List chirouter_interface_t)
    (s : ipv4_scan_t) (hs : s.frame_iface.isSome = true) :
    (ifs.foldl (ipv4_scan_step frame) s).frame_iface.isSome = true := by
  induction ifs generalizing s with
  | nil => exact hs
  | cons i rest ih =>
    rw [List.foldl_cons]
    apply ih
    unfold ipv4_scan_step
    simp only
    split_ifs <;> simp [hs]

theorem scan_iface_some (frame : ethernet_frame_t) (ifs : List chirouter_interface_t)
    (h : ∃ iface ∈ ifs,
      ethernet_addr_is_equal (bytes_at frame.raw 0 ETHER_ADDR_LEN) iface.mac = true)
    (s : ipv4_scan_t) :
    (ifs.foldl (ipv4_scan_step frame) s).frame_iface.isSome = true := by
  induction ifs generalizing s with
  | nil => obtain ⟨i, hi, _⟩ := h; simp at hi
  | cons i rest ih =>
    rw [List.foldl_cons]
    obtain ⟨x, hx, hmac⟩ := h
    rcases List.mem_cons.1 hx with rfl | hx'
    · apply scan_iface_mono
      unfold ipv4_scan_step
      simp only [hmac, if_true]
      split_ifs <;> rfl
    · exact ih ⟨x, hx', hmac⟩ _

theorem scan_dst_mono (frame : ethernet_frame_t) (ifs : List chirouter_interface_t)
    (s : ipv4_scan_t) (hs : s.router_is_dst = true) :
    (ifs.foldl (ipv4_scan_step frame) s).router_is_dst = true := by
  induction ifs generalizing s with
  | nil => exact hs
  | cons i rest ih =>
    rw [List.foldl_cons]
    apply ih
    unfold ipv4_scan_step
    simp only
    split_ifs <;> simp [hs]

theorem scan_dst_true (frame : ethernet_frame_t) (ifs : List chirouter_interface_t)
    (h : ∃ iface ∈ ifs, ld32 frame.raw 30 = iface.ip) (s : ipv4_scan_t) :
    (ifs.foldl (ipv4_scan_step frame) s).router_is_dst = true := by
  induction ifs generalizing s with
  | nil => obtain ⟨i, hi, _⟩ := h; simp at hi
  | cons i rest ih =>
    rw [List.foldl_cons]
    obtain ⟨x, hx, hip⟩ := h
    rcases List.mem_cons.1 hx with rfl | hx'
    · apply scan_dst_mono
      unfold ipv4_scan_step
      simp only [hip, if_true]
      split_ifs <;> rfl
    · exact ih ⟨x, hx', hip⟩ _

theorem scan_in_iface (frame : ethernet_frame_t) (ifs : List chirouter_interface_t)
    (h : ld32 frame.raw 30 = frame.in_interface.ip) (s : ipv4_scan_t) :
    (ifs.foldl (ipv4_scan_step frame) s).host_unreachable = s.host_unreachable := by
  induction ifs generalizing s with
  | nil => rfl
  | cons i rest ih =>
    rw [List.foldl_cons, ih]
    unfold ipv4_scan_step
    simp only [h, ne_eq, not_true_eq_false, if_false]
    split_ifs <;> rfl

theorem route_step_chosen (table : List chirouter_rtable_entry_t) (dst : Nat)
    (s : route_pick_t) (e : chirouter_rtable_entry_t) (he : e ∈ table)
    (hs : route_chosen table dst s) : route_chosen table dst (route_step dst s e) := by
  unfold route_step
  simp only
  split_ifs with h1 h2
  · exact ⟨e, he, h1, rfl⟩
  · exact hs
  · exact hs

theorem route_fold_chosen (table : List chirouter_rtable_entry_t) (dst : Nat)
    (l : List chirouter_rtable_entry_t) (hl : ∀ e ∈ l, e ∈ table) (s : route_pick_t)
    (hs : route_chosen table dst s) : route_chosen table dst (l.foldl (route_step dst) s) := by
  induction l generalizing s with
  | nil => exact hs
  | cons e rest ih =>
    rw [List.foldl_cons]
    exact ih (fun x hx => hl x (List.mem_cons_of_mem _ hx)) _
      (route_step_chosen table dst s e (hl e (List.mem_cons_self _ _)) hs)

theorem route_fold_match (table : List chirouter_rtable_entry_t) (dst : Nat)
    (l : List chirouter_rtable_entry_t) (hl : ∀ e ∈ l, e ∈ table)
    (h : ∃ e ∈ l, route_matches dst e) :
    route_chosen table dst (l.foldl (route_step dst) ⟨0, none, none⟩) := by
  induction l with
  | nil => obtain ⟨e, he, _⟩ := h; simp at he
  | cons e rest ih =>
    rw [List.foldl_cons]
    by_cases hm : route_matches dst e
    · apply route_fold_chosen table dst rest (fun x hx => hl x (List.mem_cons_of_mem _ hx))
      refine ⟨e, hl e (List.mem_cons_self _ _), hm, ?_⟩
      unfold route_step
      have hm' : e.mask &&& e.dest = dst &&& e.mask := hm
      simp [hm']
    · have hstep : route_step dst ⟨0, none, none⟩ e = ⟨0, none, none⟩ := by
        unfold route_step
        have hm' : ¬ (e.mask &&& e.dest = dst &&& e.mask) := hm
        simp [hm']
      rw [hstep]
      apply ih (fun x hx => hl x (List.mem_cons_of_mem _ hx))
      obtain ⟨x, hx, hxm⟩ := h
      rcases List.mem_cons.1 hx with rfl | hx'
      · exact absurd hxm hm
      · exact ⟨x, hx', hxm⟩

/-- With a matching entry the loop ends with the interface and gateway of a
matching entry of the table. -/
theorem route_lookup_match (table : List chirouter_rtable_entry_t) (dst : Nat)
    (h : ∃ e ∈ table, route_matches dst e) : route_chosen table dst (route_lookup table dst) :=
  route_fold_match table dst table (fun _ he => he) h

/-- Without a matching entry the loop leaves its locals untouched. -/
theorem route_lookup_no_match (table : List chirouter_rtable_entry_t) (dst : Nat)
    (h : ∀ e ∈ table, ¬ route_matches dst e) : route_lookup table dst = ⟨0, none, none⟩ := by
  unfold route_lookup
  induction table with
  | nil => rfl
  | cons e rest ih =>
    rw [List.foldl_cons]
    have hstep : route_step dst ⟨0, none, none⟩ e = ⟨0, none, none⟩ := by
      unfold route_step
      have hm' : ¬ (e.mask &&& e.dest = dst &&& e.mask) := h e (List.mem_cons_self _ _)
      simp [hm']
    rw [hstep]
    exact ih (fun x hx => h x (List.mem_cons_of_mem _ hx))

/-- The run of `process_ipv4` on a frame addressed to a router MAC whose IP
destination is not a router IP and has a matching route: the frame is handed to
`chirouter_forward_ip` with the gateway and interface the loop chose. -/
theorem process_ipv4_forwards (ctx : chirouter_ctx_t) (frame : ethernet_frame_t)
    (hmac : ∃ iface ∈ ctx.interfaces,
      ethernet_addr_is_equal (bytes_at frame.raw 0 ETHER_ADDR_LEN) iface.mac = true)
    (hdst : ∀ iface ∈ ctx.interfaces, ld32 frame.raw 30 ≠ iface.ip)
    (hroute : ∃ e ∈ ctx.routing_table, route_matches (ld32 frame.raw 30) e) :
    ∃ e ∈ ctx.routing_table, route_matches (ld32 frame.raw 30) e ∧
      route_lookup ctx.routing_table (ld32 frame.raw 30)
        = ⟨ntohs e.mask, some e.interface, some e.gw⟩ ∧
      process_ipv4 ctx frame = some (chirouter_forward_ip ctx frame e.gw e.interface) := by
  obtain ⟨e, he, hm, hpick⟩ := route_lookup_match ctx.routing_table _ hroute
  refine ⟨e, he, hm, hpick, ?_⟩
  have h1 := scan_not_dst frame ctx.interfaces hdst ⟨none, false, false⟩
  have h2 := scan_iface_some frame ctx.interfaces hmac ⟨none, false, false⟩
  obtain ⟨fi, hfi⟩ := Option.isSome_iff_exists.1 h2
  unfold process_ipv4
  simp only [h1.1, h1.2, hfi, hpick]
  simp

/-- The run of `process_ipv4` on a frame addressed to a router MAC whose IP
destination is not a router IP and has no matching route. -/
theorem process_ipv4_no_route (ctx : chirouter_ctx_t) (frame : ethernet_frame_t)
    (hmac : ∃ iface ∈ ctx.interfaces,
      ethernet_addr_is_equal (bytes_at frame.raw 0 ETHER_ADDR_LEN) iface.mac = true)
    (hdst : ∀ iface ∈ ctx.interfaces, ld32 frame.raw 30 ≠ iface.ip)
    (hroute : ∀ e ∈ ctx.routing_table, ¬ route_matches (ld32 frame.raw 30) e) :
    process_ipv4 ctx frame = some ⟨ctx, [chirouter_send_icmp frame ICMPTYPE_DEST_UNREACHABLE
      ICMPCODE_DEST_NET_UNREACHABLE], 0⟩ := by
  have hpick := route_lookup_no_match ctx.routing_table _ hroute
  have h1 := scan_not_dst frame ctx.interfaces hdst ⟨none, false, false⟩
  have h2 := scan_iface_some frame ctx.interfaces hmac ⟨none, false, false⟩
  obtain ⟨fi, hfi⟩ := Option.isSome_iff_exists.1 h2
  unfold process_ipv4
  simp only [h1.1, h1.2, hfi, hpick]
  simp

/-! ## The pending-request list -/

theorem add_frame_to_lookup (l : List chirouter_pending_arp_req_t) (ip : Nat)
    (frame : ethernet_frame_t) (p : chirouter_pending_arp_req_t)
    (h : l.find? (fun q => q.ip == ip) = some p) :
    (add_frame_to l ip frame).find? (fun q => q.ip == ip)
      = some { p with withheld_frames := p.withheld_frames ++ [frame] } := by
  induction l with
  | nil => simp at h
  | cons q rest ih =>
    by_cases hq : q.ip = ip
    · have hq' : (q.ip == ip) = true := by simpa using hq
      simp only [List.find?_cons, hq'] at h
      simp only [add_frame_to, hq', if_true, List.find?_cons]
      cases h
      rfl
    · have hq' : (q.ip == ip) = false := by simpa using hq
      simp only [List.find?_cons, hq'] at h
      simp only [add_frame_to, hq', Bool.false_eq_true, if_false, List.find?_cons]
      exact ih h

/-- After the miss branch of `chirouter_forward_ip` the pending entry of the next
hop holds the frame. -/
theorem pending_after_withhold (ctx : chirouter_ctx_t) (ip : Nat)
    (iface : chirouter_interface_t) (frame : ethernet_frame_t) :
    ∃ p, chirouter_arp_pending_req_lookup
        (chirouter_arp_pending_req_add_frame
          (match chirouter_arp_pending_req_lookup ctx ip with
            | none => chirouter_arp_pending_req_add ctx ip iface
            | some _ => ctx) ip frame) ip = some p ∧
      frame ∈ p.withheld_frames := by
  cases hl : chirouter_arp_pending_req_lookup ctx ip with
  | none =>
    have hfind : (chirouter_arp_pending_req_add ctx ip iface).pending_arp_reqs.find?
        (fun q => q.ip == ip) = some ⟨ip, iface, []⟩ := by
      unfold chirouter_arp_pending_req_lookup at hl
      simp only [chirouter_arp_pending_req_add, List.find?_append, hl, Option.none_or,
        List.find?_cons, beq_self_eq_true]
    refine ⟨_, add_frame_to_lookup _ ip frame _ hfind, ?_⟩
    simp
  | some p =>
    unfold chirouter_arp_pending_req_lookup at hl
    refine ⟨_, add_frame_to_lookup _ ip frame p hl, ?_⟩
    simp

/-! ## The frame built by chirouter_send_icmp -/

/-- The function `icmp_reply` in stages, for a payload length `p >= 0`. -/
theorem icmp_reply_eq (frame : ethernet_frame_t) (type code p : Nat)
    (hp : icmp_payload_len frame type = (p : Int)) :
    icmp_reply frame type code =
      st16 (icmp_body_part frame type code p) 36
        (cksum ((icmp_body_part frame type code p).drop 34) ((8 + p : Nat) : Int)) := by
  have e1 : ((sizeof_ethhdr : Int) + sizeof_iphdr + ICMP_HDR_SIZE + (p : Int)).toNat = 42 + p := by
    simp only [sizeof_ethhdr, sizeof_iphdr, ICMP_HDR_SIZE]; omega
  have e2 : ((((sizeof_iphdr : Int) + ICMP_HDR_SIZE + (p : Int)) % 65536).toNat)
      = (28 + p) % 65536 := by
    simp only [sizeof_iphdr, ICMP_HDR_SIZE]; omega
  have e3 : ((ICMP_HDR_SIZE : Int) + (p : Int)) = ((8 + p : Nat) : Int) := by
    simp only [ICMP_HDR_SIZE]; push_cast; rfl
  have e4 : ((sizeof_iphdr : Nat) : Int) = ((20 : Nat) : Int) := rfl
  unfold icmp_reply
  simp only [hp, e1, e2, e3, e4, Int.toNat_ofNat]
  unfold icmp_body_part icmp_head_part icmp_ip_part
  simp only [ETHER_ADDR_LEN, IPV4_ADDR_LEN, ETHERTYPE_IP, ICMP_PROTO]
  split_ifs <;> rfl

theorem icmp_ip_part_length (frame : ethernet_frame_t) (p : Nat) :
    (icmp_ip_part frame p).length = 42 + p := by
  simp only [icmp_ip_part, memcpy_length, st32_length, st16_length, st8_length,
    List.length_replicate]

theorem icmp_head_part_length (frame : ethernet_frame_t) (type code p : Nat) :
    (icmp_head_part frame type code p).length = 42 + p := by
  simp only [icmp_head_part, st16_length, st8_length, icmp_ip_part_length]

theorem icmp_body_part_length (frame : ethernet_frame_t) (type code p : Nat) :
    (icmp_body_part frame type code p).length = 42 + p := by
  unfold icmp_body_part
  split_ifs <;> simp only [memcpy_length, st16_length, icmp_head_part_length]

theorem icmp_reply_length (frame : ethernet_frame_t) (type code p : Nat)
    (hp : icmp_payload_len frame type = (p : Int)) :
    (icmp_reply frame type code).length = 42 + p := by
  rw [icmp_reply_eq frame type code p hp, st16_length, icmp_body_part_length]

/-- Below the ICMP message the reply is the IP part with the header checksum
stored at 24 and 25. -/
theorem icmp_reply_low (frame : ethernet_frame_t) (type code p : Nat)
    (hp : icmp_payload_len frame type = (p : Int)) (j : Nat) (hj : j < 34) :
    (icmp_reply frame type code)[j]? =
      if j = 25 then some (cksum ((icmp_ip_part frame p).drop 14) (20 : Nat) / 256 % 256)
      else if j = 24 then some (cksum ((icmp_ip_part frame p).drop 14) (20 : Nat) % 256)
      else (icmp_ip_part frame p)[j]? := by
  rw [icmp_reply_eq frame type code p hp]
  generalize cksum ((icmp_body_part frame type code p).drop 34) ((8 + p : Nat) : Int) = c2
  have hl := icmp_body_part_length frame type code p
  unfold icmp_body_part at hl ⊢
  unfold icmp_head_part at hl ⊢
  generalize cksum ((icmp_ip_part frame p).drop 14) (20 : Nat) = c1 at hl ⊢
  have hl1 := icmp_ip_part_length frame p
  split_ifs at hl ⊢ <;>
    simp only [getElem?_st16, getElem?_st8, getElem?_memcpy, st16_length, st8_length,
      memcpy_length, hl1] <;>
    simp (disch := omega) only [if_pos, if_neg, if_true, if_false, true_and, and_true]

theorem htons_lo (x : Nat) (hx : x < 65536) : htons x % 256 = x / 256 := by
  unfold htons; rw [Nat.mod_eq_of_lt hx]; omega

theorem htons_hi (x : Nat) (hx : x < 65536) : htons x / 256 % 256 = x % 256 := by
  unfold htons; rw [Nat.mod_eq_of_lt hx]
  have hb : x / 256 < 256 := by omega
  have h : (x % 256 * 256 + x / 256) / 256 = x % 256 := by omega
  rw [h]; omega

theorem icmp_ip_pre_length (frame : ethernet_frame_t) (p : Nat) :
    (icmp_ip_pre frame p).length = 42 + p := by
  simp only [icmp_ip_pre, memcpy_length, st16_length, st8_length, List.length_replicate]

theorem icmp_ip_pre_14 (frame : ethernet_frame_t) (p : Nat) : rd8 (icmp_ip_pre frame p) 14 = 0 := by
  simp only [icmp_ip_pre, rd8_eq, getElem?_memcpy, getElem?_st16, getElem?_st8,
    memcpy_length, st16_length, st8_length, List.length_replicate, bytes_at_length,
    getElem?_replicate_zero]
  simp (disch := omega) only [if_pos, if_neg, if_true, if_false, true_and, and_true,
    lt_min_iff, Nat.zero_add, Nat.sub_zero, Nat.zero_le, Option.getD_some]

/-- The two bit-field assignments `version = 4` and `ihl = 5` leave 0x45 in the
first byte of the IP header. -/
theorem icmp_ip_part_eq (frame : ethernet_frame_t) (p : Nat) :
    icmp_ip_part frame p =
      memcpy (st32 (st8 (st8 (icmp_ip_pre frame p) 14 64) 14 0x45) 26 frame.in_interface.ip) 30
        (bytes_at frame.raw 26 4) := by
  have h1 : rd8 (st8 (icmp_ip_pre frame p) 14 64) 14 = 64 := by
    simp only [rd8_eq, getElem?_st8, icmp_ip_pre_length]
    simp (disch := omega) only [if_pos, true_and, Option.getD_some]
  have e : icmp_ip_part frame p =
      memcpy (st32 (st8 (st8 (icmp_ip_pre frame p) 14 (4 * 16 + rd8 (icmp_ip_pre frame p) 14 % 16))
        14 (rd8 (st8 (icmp_ip_pre frame p) 14 (4 * 16 + rd8 (icmp_ip_pre frame p) 14 % 16)) 14
          / 16 * 16 + 5)) 26 frame.in_interface.ip) 30 (bytes_at frame.raw 26 4) := rfl
  rw [e, icmp_ip_pre_14]
  simp only [Nat.zero_mod, Nat.add_zero, Nat.reduceMul, h1]

theorem icmp_ip_part_dst (frame : ethernet_frame_t) (p : Nat) (hraw : 12 ≤ frame.raw.length)
    (j : Nat) (hj : j < 6) : (icmp_ip_part frame p)[j]? = frame.raw[6 + j]? := by
  rw [icmp_ip_part_eq]
  simp only [icmp_ip_pre, getElem?_memcpy, getElem?_st32, getElem?_st16, getElem?_st8,
    getElem?_bytes_at, memcpy_length, st32_length, st16_length, st8_length,
    List.length_replicate, bytes_at_length]
  simp (disch := omega) only [if_pos, if_neg, if_true, if_false, true_and, and_true,
    lt_min_iff, Nat.zero_add, Nat.sub_zero, Nat.zero_le]

theorem icmp_ip_part_src (frame : ethernet_frame_t) (p : Nat)
    (hmac : frame.in_interface.mac.length = 6)
    (j : Nat) (h6 : 6 ≤ j) (hj : j < 12) :
    (icmp_ip_part frame p)[j]? = frame.in_interface.mac[j - 6]? := by
  rw [icmp_ip_part_eq]
  simp only [icmp_ip_pre, getElem?_memcpy, getElem?_st32, getElem?_st16, getElem?_st8,
    getElem?_bytes_at, memcpy_length, st32_length, st16_length, st8_length,
    List.length_replicate, bytes_at_length]
  simp (disch := omega) only [if_pos, if_neg, if_true, if_false, true_and, and_true,
    lt_min_iff, Nat.zero_add, Nat.sub_zero, Nat.zero_le]

theorem icmp_ip_part_ipdst (frame : ethernet_frame_t) (p : Nat) (hraw : 30 ≤ frame.raw.length)
    (j : Nat) (h30 : 30 ≤ j) (hj : j < 34) :
    (icmp_ip_part frame p)[j]? = frame.raw[26 + (j - 30)]? := by
  rw [icmp_ip_part_eq]
  simp only [icmp_ip_pre, getElem?_memcpy, getElem?_st32, getElem?_st16, getElem?_st8,
    getElem?_bytes_at, memcpy_length, st32_length, st16_length, st8_length,
    List.length_replicate, bytes_at_length]
  simp (disch := omega) only [if_pos, if_neg, if_true, if_false, true_and, and_true,
    lt_min_iff, Nat.zero_add, Nat.sub_zero, Nat.zero_le]

theorem icmp_ip_part_fixed (frame : ethernet_frame_t) (p : Nat) (j : Nat)
    (h12 : 12 ≤ j) (hj : j < 30) :
    (icmp_ip_part frame p)[j]? = (icmp_fixed_bytes frame p)[j - 12]? := by
  have hL : (28 + p) % 65536 < 65536 := Nat.mod_lt _ (by norm_num)
  have h16 := htons_lo _ hL
  have h17 := htons_hi _ hL
  have h8 : htons 0x0800 % 256 = 8 := by decide
  have h0 : htons 0x0800 / 256 % 256 = 0 := by decide
  have hz : htons 0 = 0 := by decide
  rw [icmp_ip_part_eq]
  simp only [icmp_ip_pre, getElem?_memcpy, getElem?_st32, getElem?_st16, getElem?_st8,
    getElem?_bytes_at, memcpy_length, st32_length, st16_length, st8_length,
    List.length_replicate, bytes_at_length, getElem?_replicate_zero, h16, h17, h8, h0, hz,
    icmp_fixed_bytes]
  interval_cases j <;>
    simp (disch := omega) only [if_pos, if_neg, if_true, if_false, true_and, and_true,
      lt_min_iff, Nat.zero_add, Nat.sub_zero, Nat.zero_le, Option.getD_some] <;>
    rfl

theorem drop_st16 (b : List Nat) (k i v : Nat) :
    (st16 b (k + i) v).drop k = st16 (b.drop k) i v := by
  apply List.ext_getElem?
  intro j
  simp only [List.getElem?_drop, getElem?_st16, List.length_drop]
  by_cases h1 : j = i + 1
  · subst h1
    by_cases h2 : k + i + 1 < b.length
    · simp (disch := omega) only [if_pos, if_neg, if_true, if_false, true_and, and_true]
    · simp (disch := omega) only [if_pos, if_neg, if_true, if_false, true_and, and_true]
  · by_cases h3 : j = i
    · subst h3
      by_cases h2 : k + j < b.length
      · simp (disch := omega) only [if_pos, if_neg, if_true, if_false, true_and, and_true]
      · simp (disch := omega) only [if_pos, if_neg, if_true, if_false, true_and, and_true]
    · simp (disch := omega) only [if_pos, if_neg, if_true, if_false, true_and, and_true]

theorem BytesOK_icmp_ip_part (frame : ethernet_frame_t) (p : Nat) (hb : BytesOK frame.raw)
    (hm : BytesOK frame.in_interface.mac) : BytesOK (icmp_ip_part frame p) := by
  have h0 : BytesOK (List.replicate (42 + p) 0) := BytesOK_replicate _ _ (by norm_num)
  have h1 := BytesOK_memcpy _ (BytesOK_bytes_at hb 6 6) _ 0 h0
  have h2 := BytesOK_memcpy _ (BytesOK_bytes_at hm 0 6) _ 6 h1
  have h3 : BytesOK (icmp_ip_pre frame p) :=
    BytesOK_st8 (BytesOK_st8 (BytesOK_st16 (BytesOK_st16 (BytesOK_st16 (BytesOK_st16
      (BytesOK_st8 (BytesOK_st16 h2 _ _) _ _) _ _) _ _) _ _) _ _) _ _) _ _
  rw [icmp_ip_part_eq]
  exact BytesOK_memcpy _ (BytesOK_bytes_at hb _ _) _ _
    (BytesOK_st32 (BytesOK_st8 (BytesOK_st8 h3 _ _) _ _) _ _)

theorem BytesOK_icmp_body_part (frame : ethernet_frame_t) (type code p : Nat)
    (hb : BytesOK frame.raw) (hm : BytesOK frame.in_interface.mac) :
    BytesOK (icmp_body_part frame type code p) := by
  have h := BytesOK_icmp_ip_part frame p hb hm
  have hh : BytesOK (icmp_head_part frame type code p) :=
    BytesOK_st16 (BytesOK_st8 (BytesOK_st8 (BytesOK_st16 h _ _) _ _) _ _) _ _
  unfold icmp_body_part
  split_ifs
  · exact BytesOK_memcpy _ (BytesOK_bytes_at hb _ _) _ _ (BytesOK_st16 (BytesOK_st16 hh _ _) _ _)
  · exact hh
  · exact BytesOK_memcpy _ (BytesOK_bytes_at hb _ _) _ _ hh

/-- The IP header of the reply verifies. -/
theorem icmp_reply_ip_verifies (frame : ethernet_frame_t) (type code p : Nat)
    (hp : icmp_payload_len frame type = (p : Int)) (hb : BytesOK frame.raw)
    (hm : BytesOK frame.in_interface.mac) :
    verifies (bytes_at (icmp_reply frame type code) 14 20) := by
  have hlen : (bytes_at (icmp_ip_part frame p) 14 20).length = 20 := by
    rw [bytes_at_length, icmp_ip_part_length]; omega
  have hck : cksum ((icmp_ip_part frame p).drop 14) (20 : Nat)
      = cksum (bytes_at (icmp_ip_part frame p) 14 20) (20 : Nat) := by
    rw [bytes_at, cksum_take]
  have e : bytes_at (icmp_reply frame type code) 14 20
      = st16 (bytes_at (icmp_ip_part frame p) 14 20) 10
          (cksum (bytes_at (icmp_ip_part frame p) 14 20)
            ((bytes_at (icmp_ip_part frame p) 14 20).length : Nat)) := by
    rw [hlen, ← hck]
    apply List.ext_getElem?
    intro k
    simp only [getElem?_bytes_at, getElem?_st16, hlen]
    by_cases h0 : k < 20
    · rw [if_pos h0, icmp_reply_low frame type code p hp (14 + k) (by omega)]
      by_cases h1 : k = 11
      · subst h1; simp (disch := omega) only [if_pos, if_neg, if_true, if_false, true_and]
      · by_cases h2 : k = 10
        · subst h2; simp (disch := omega) only [if_pos, if_neg, if_true, if_false, true_and]
        · simp (disch := omega) only [if_pos, if_neg, if_true, if_false, true_and]
    · simp (disch := omega) only [if_pos, if_neg, if_true, if_false, true_and]
  rw [e]
  have h24 := icmp_ip_part_fixed frame p 24 (by decide) (by decide)
  have h25 := icmp_ip_part_fixed frame p 25 (by decide) (by decide)
  have hz0 : rd8 (bytes_at (icmp_ip_part frame p) 14 20) 10 = 0 := by
    rw [rd8_eq, getElem?_bytes_at, if_pos (by decide), h24]; rfl
  have hz1 : rd8 (bytes_at (icmp_ip_part frame p) 14 20) (10 + 1) = 0 := by
    rw [rd8_eq, getElem?_bytes_at, if_pos (by decide), h25]; rfl
  exact cksum_store_verifies _ 10 (by decide) (by rw [hlen]; decide) hz0 hz1
    (BytesOK_bytes_at (BytesOK_icmp_ip_part frame p hb hm) _ _) (by rw [hlen]; decide)

theorem icmp_body_part_36 (frame : ethernet_frame_t) (type code p : Nat) :
    (icmp_body_part frame type code p)[36]? = some 0 ∧
      (icmp_body_part frame type code p)[37]? = some 0 := by
  have hl1 := icmp_ip_part_length frame p
  unfold icmp_body_part icmp_head_part
  split_ifs <;>
    simp only [getElem?_st16, getElem?_st8, getElem?_memcpy, st16_length, st8_length,
      memcpy_length, hl1] <;>
    simp (disch := omega) only [if_pos, if_neg, if_true, if_false, true_and, and_true]

/-- The ICMP message of the reply verifies. -/
theorem icmp_reply_icmp_verifies (frame : ethernet_frame_t) (type code p : Nat)
    (hp : icmp_payload_len frame type = (p : Int)) (hp2 : p ≤ 65535)
    (hb : BytesOK frame.raw) (hm : BytesOK frame.in_interface.mac) :
    verifies (bytes_at (icmp_reply frame type code) 34 (8 + p)) := by
  have hlen : ((icmp_body_part frame type code p).drop 34).length = 8 + p := by
    rw [List.length_drop, icmp_body_part_length]; omega
  have e : bytes_at (icmp_reply frame type code) 34 (8 + p)
      = st16 ((icmp_body_part frame type code p).drop 34) 2
          (cksum ((icmp_body_part frame type code p).drop 34)
            (((icmp_body_part frame type code p).drop 34).length : Nat)) := by
    rw [hlen, icmp_reply_eq frame type code p hp, bytes_at,
      show (36 : Nat) = 34 + 2 from rfl, drop_st16]
    apply List.take_of_length_le
    rw [st16_length, hlen]
  rw [e]
  have h36 := icmp_body_part_36 frame type code p
  have hz0 : rd8 ((icmp_body_part frame type code p).drop 34) 2 = 0 := by
    rw [rd8_eq, List.getElem?_drop, h36.1]; rfl
  have hz1 : rd8 ((icmp_body_part frame type code p).drop 34) (2 + 1) = 0 := by
    rw [rd8_eq, List.getElem?_drop, h36.2]; rfl
  exact cksum_store_verifies _ 2 (by decide) (by rw [hlen]; omega) hz0 hz1
    (BytesOK_drop (BytesOK_icmp_body_part frame type code p hb hm) _) (by rw [hlen]; omega)

/-- Type and code of the reply. -/
theorem icmp_reply_type_code (frame : ethernet_frame_t) (type code p : Nat)
    (hp : icmp_payload_len frame type = (p : Int)) :
    (icmp_reply frame type code)[34]? = some (type % 256) ∧
      (icmp_reply frame type code)[35]? = some (code % 256) := by
  rw [icmp_reply_eq frame type code p hp]
  generalize cksum ((icmp_body_part frame type code p).drop 34) ((8 + p : Nat) : Int) = c2
  have hl := icmp_body_part_length frame type code p
  have hl1 := icmp_ip_part_length frame p
  unfold icmp_body_part at hl ⊢
  unfold icmp_head_part at hl ⊢
  split_ifs at hl ⊢ <;>
    simp only [getElem?_st16, getElem?_st8, getElem?_memcpy, st16_length, st8_length,
      memcpy_length, hl1] <;>
    simp (disch := omega) only [if_pos, if_neg, if_true, if_false, true_and, and_true]

/-- The payload of a reply that is not an echo: the bytes of the inbound frame
from the IP header on. -/
theorem icmp_reply_error_payload (frame : ethernet_frame_t) (type code p : Nat)
    (hp : icmp_payload_len frame type = (p : Int))
    (ht : ¬ (type = ICMPTYPE_ECHO_REQUEST ∨ type = ICMPTYPE_ECHO_REPLY))
    (hraw : 14 + p ≤ frame.raw.length) :
    bytes_at (icmp_reply frame type code) 42 p = bytes_at frame.raw 14 p := by
  rw [icmp_reply_eq frame type code p hp]
  generalize cksum ((icmp_body_part frame type code p).drop 34) ((8 + p : Nat) : Int) = c2
  have hl1 := icmp_head_part_length frame type code p
  unfold icmp_body_part
  rw [if_neg ht]
  apply List.ext_getElem?
  intro k
  simp only [getElem?_bytes_at, getElem?_st16, getElem?_memcpy, memcpy_length, hl1,
    bytes_at_length]
  by_cases hk : k < p
  · simp (disch := omega) only [if_pos, if_neg, if_true, if_false, true_and, and_true,
      lt_min_iff]
    congr 1; omega
  · simp (disch := omega) only [if_pos, if_neg, if_true, if_false, true_and, and_true]

theorem ld16_bytes (raw : List Nat) (i : Nat) (hb : BytesOK raw) (hi : i + 2 ≤ raw.length) :
    ld16 raw i % 256 = rd8 raw i ∧ ld16 raw i / 256 % 256 = rd8 raw (i + 1) := by
  have h0 : rd8 raw i < 256 := by
    rw [rd8_eq, List.getElem?_eq_getElem (by omega : i < raw.length)]
    exact hb _ (List.getElem_mem _)
  have h1 : rd8 raw (i + 1) < 256 := by
    rw [rd8_eq, List.getElem?_eq_getElem (by omega : i + 1 < raw.length)]
    exact hb _ (List.getElem_mem _)
  unfold ld16
  constructor <;> omega

/-- Identifier, sequence number and payload of an echo reply with code 0. -/
theorem icmp_reply_echo_body (frame : ethernet_frame_t) (type p : Nat)
    (hp : icmp_payload_len frame type = (p : Int))
    (ht : type = ICMPTYPE_ECHO_REQUEST ∨ type = ICMPTYPE_ECHO_REPLY)
    (hb : BytesOK frame.raw) (hraw : 42 + p ≤ frame.raw.length) (j : Nat) (h38 : 38 ≤ j) :
    (icmp_reply frame type 0)[j]? = if j < 42 + p then frame.raw[j]? else none := by
  rw [icmp_reply_eq frame type 0 p hp]
  generalize cksum ((icmp_body_part frame type 0 p).drop 34) ((8 + p : Nat) : Int) = c2
  have hl1 := icmp_head_part_length frame type 0 p
  have b38 := ld16_bytes frame.raw 38 hb (by omega)
  have b40 := ld16_bytes frame.raw 40 hb (by omega)
  have r38 : frame.raw[38]? = some (rd8 frame.raw 38) := by
    rw [rd8_eq, List.getElem?_eq_getElem (by omega : 38 < frame.raw.length)]; rfl
  have r39 : frame.raw[39]? = some (rd8 frame.raw (38 + 1)) := by
    rw [rd8_eq, List.getElem?_eq_getElem (by omega : 38 + 1 < frame.raw.length)]; rfl
  have r40 : frame.raw[40]? = some (rd8 frame.raw 40) := by
    rw [rd8_eq, List.getElem?_eq_getElem (by omega : 40 < frame.raw.length)]; rfl
  have r41 : frame.raw[41]? = some (rd8 frame.raw (40 + 1)) := by
    rw [rd8_eq, List.getElem?_eq_getElem (by omega : 40 + 1 < frame.raw.length)]; rfl
  unfold icmp_body_part
  rw [if_pos ht, if_pos rfl]
  simp only [getElem?_bytes_at, getElem?_st16, getElem?_memcpy, memcpy_length, st16_length, hl1,
    bytes_at_length, b38.1, b38.2, b40.1, b40.2]
  by_cases hk : j < 42 + p
  · by_cases h42 : 42 ≤ j
    · simp (disch := omega) only [if_pos, if_neg, if_true, if_false, true_and, and_true,
        lt_min_iff]
      congr 1; omega
    · have hj : j = 38 ∨ j = 39 ∨ j = 40 ∨ j = 41 := by omega
      rcases hj with rfl | rfl | rfl | rfl <;>
        simp (disch := omega) only [if_pos, if_neg, if_true, if_false, true_and, and_true,
          lt_min_iff, r38, r39, r40, r41]
  · simp (disch := omega) only [if_pos, if_neg, if_true, if_false, true_and, and_true,
      lt_min_iff]
    exact List.getElem?_eq_none (by rw [hl1]; omega)

theorem rd8_of_getElem? (l : List Nat) (i v : Nat) (h : l[i]? = some v) : rd8 l i = v := by
  rw [rd8_eq, h]; rfl

theorem icmp_reply_header_byte (frame : ethernet_frame_t) (type code p : Nat)
    (hp : icmp_payload_len frame type = (p : Int)) (j : Nat) (h12 : 12 ≤ j) (hj : j < 30)
    (h24 : j ≠ 24) (h25 : j ≠ 25) :
    (icmp_reply frame type code)[j]? = (icmp_fixed_bytes frame p)[j - 12]? := by
  rw [icmp_reply_low frame type code p hp j (by omega), if_neg h25, if_neg h24,
    icmp_ip_part_fixed frame p j h12 hj]

theorem ntohs_lt (x : Nat) : ntohs x < 65536 := by
  unfold ntohs htons; omega

theorem icmp_payload_bound (frame : ethernet_frame_t) (type p : Nat)
    (hp : icmp_payload_len frame type = (p : Int)) : 28 + p ≤ 65535 := by
  unfold icmp_payload_len at hp
  have := ntohs_lt (ld16 frame.raw 16)
  simp only [sizeof_iphdr, ICMP_HDR_SIZE] at hp
  split_ifs at hp <;> omega

/-- The Ethernet and IP headers of the frame `chirouter_send_icmp` builds. -/
theorem icmp_reply_headers (frame : ethernet_frame_t) (type code p : Nat)
    (hp : icmp_payload_len frame type = (p : Int)) (hraw : 30 ≤ frame.raw.length)
    (hmac : frame.in_interface.mac.length = 6) (hip : frame.in_interface.ip < 2 ^ 32) :
    bytes_at (icmp_reply frame type code) 0 6 = bytes_at frame.raw 6 6 ∧
    bytes_at (icmp_reply frame type code) 6 6 = frame.in_interface.mac ∧
    ntohs (ld16 (icmp_reply frame type code) 12) = ETHERTYPE_IP ∧
    rd8 (icmp_reply frame type code) 14 / 16 = 4 ∧
    rd8 (icmp_reply frame type code) 14 % 16 = 5 ∧
    rd8 (icmp_reply frame type code) 22 = 64 ∧
    rd8 (icmp_reply frame type code) 23 = ICMP_PROTO ∧
    ld32 (icmp_reply frame type code) 26 = frame.in_interface.ip ∧
    bytes_at (icmp_reply frame type code) 30 4 = bytes_at frame.raw 26 4 ∧
    ntohs (ld16 (icmp_reply frame type code) 16) = 20 + 8 + p := by
  have hbyte : ∀ j, 12 ≤ j → j < 30 → j ≠ 24 → j ≠ 25 →
      rd8 (icmp_reply frame type code) j = ((icmp_fixed_bytes frame p)[j - 12]?).getD 0 := by
    intro j h12 hj h24 h25
    rw [rd8_eq, icmp_reply_header_byte frame type code p hp j h12 hj h24 h25]
  have hpb := icmp_payload_bound frame type p hp
  refine ⟨?_, ?_, ?_, ?_, ?_, ?_, ?_, ?_, ?_, ?_⟩
  · apply List.ext_getElem?
    intro k
    simp only [getElem?_bytes_at, Nat.zero_add]
    by_cases hk : k < 6
    · rw [if_pos hk, if_pos hk, icmp_reply_low frame type code p hp k (by omega),
        if_neg (by omega), if_neg (by omega), icmp_ip_part_dst frame p (by omega) k hk]
    · rw [if_neg hk, if_neg hk]
  · apply List.ext_getElem?
    intro k
    simp only [getElem?_bytes_at]
    by_cases hk : k < 6
    · rw [if_pos hk, icmp_reply_low frame type code p hp (6 + k) (by omega),
        if_neg (by omega), if_neg (by omega),
        icmp_ip_part_src frame p hmac (6 + k) (by omega) (by omega)]
      congr 1; omega
    · rw [if_neg hk]
      exact (List.getElem?_eq_none (by omega)).symm
  · have h12 := hbyte 12 (by decide) (by decide) (by decide) (by decide)
    have h13 := hbyte 13 (by decide) (by decide) (by decide) (by decide)
    simp only [ld16, h12, h13, icmp_fixed_bytes, List.getElem?_cons_succ,
      List.getElem?_cons_zero, Nat.reduceSub, Option.getD_some]
    decide
  · have h14 := hbyte 14 (by decide) (by decide) (by decide) (by decide)
    simp only [h14, icmp_fixed_bytes, List.getElem?_cons_succ, List.getElem?_cons_zero,
      Nat.reduceSub, Option.getD_some]
    try rfl
  · have h14 := hbyte 14 (by decide) (by decide) (by decide) (by decide)
    simp only [h14, icmp_fixed_bytes, List.getElem?_cons_succ, List.getElem?_cons_zero,
      Nat.reduceSub, Option.getD_some]
    try rfl
  · have h22 := hbyte 22 (by decide) (by decide) (by decide) (by decide)
    simp only [h22, icmp_fixed_bytes, List.getElem?_cons_succ, List.getElem?_cons_zero,
      Nat.reduceSub, Option.getD_some]
    try rfl
  · have h23 := hbyte 23 (by decide) (by decide) (by decide) (by decide)
    simp only [h23, icmp_fixed_bytes, List.getElem?_cons_succ, List.getElem?_cons_zero,
      Nat.reduceSub, Option.getD_some]
    try rfl
  · have h26 := hbyte 26 (by decide) (by decide) (by decide) (by decide)
    have h27 := hbyte 27 (by decide) (by decide) (by decide) (by decide)
    have h28 := hbyte 28 (by decide) (by decide) (by decide) (by decide)
    have h29 := hbyte 29 (by decide) (by decide) (by decide) (by decide)
    simp only [ld32, h26, h27, h28, h29, icmp_fixed_bytes]
    simp only [List.getElem?_cons_succ, List.getElem?_cons_zero, Nat.reduceSub,
      Option.getD_some]
    omega
  · apply List.ext_getElem?
    intro k
    simp only [getElem?_bytes_at]
    by_cases hk : k < 4
    · rw [if_pos hk, if_pos hk, icmp_reply_low frame type code p hp (30 + k) (by omega),
        if_neg (by omega), if_neg (by omega),
        icmp_ip_part_ipdst frame p hraw (30 + k) (by omega) (by omega)]
      congr 1; omega
    · rw [if_neg hk, if_neg hk]
  · have h16 := hbyte 16 (by decide) (by decide) (by decide) (by decide)
    have h17 := hbyte 17 (by decide) (by decide) (by decide) (by decide)
    simp only [ld16, h16, h17, icmp_fixed_bytes]
    simp only [List.getElem?_cons_succ, List.getElem?_cons_zero, Nat.reduceSub,
      Option.getD_some]
    have e : (28 + p) % 65536 = 28 + p := Nat.mod_eq_of_lt (by omega)
    rw [e]
    have hx : (28 + p) / 256 + 256 * ((28 + p) % 256) = htons (28 + p) := by
      unfold htons; rw [Nat.mod_eq_of_lt (by omega : 28 + p < 65536)]; omega
    rw [hx, ntohs_htons, Nat.mod_eq_of_lt (by omega : 28 + p < 65536)]

/-- The run of `process_ipv4` on an ICMP Echo Request addressed to the IP of the
interface it arrived on. -/
theorem process_ipv4_echo (ctx : chirouter_ctx_t) (frame : ethernet_frame_t)
    (hmac : ∃ iface ∈ ctx.interfaces,
      ethernet_addr_is_equal (bytes_at frame.raw 0 ETHER_ADDR_LEN) iface.mac = true)
    (hin : frame.in_interface ∈ ctx.interfaces)
    (hdst : ld32 frame.raw 30 = frame.in_interface.ip)
    (hproto : rd8 frame.raw 23 = ICMP_PROTO)
    (htype : rd8 frame.raw 34 = ICMPTYPE_ECHO_REQUEST)
    (httl : rd8 frame.raw 22 ≠ 1) :
    process_ipv4 ctx frame
      = some ⟨ctx, [chirouter_send_icmp frame ICMPTYPE_ECHO_REPLY 0], 0⟩ := by
  have h1 := scan_dst_true frame ctx.interfaces ⟨_, hin, hdst⟩ ⟨none, false, false⟩
  have h2 := scan_in_iface frame ctx.interfaces hdst ⟨none, false, false⟩
  have h3 := scan_iface_some frame ctx.interfaces hmac ⟨none, false, false⟩
  obtain ⟨fi, hfi⟩ := Option.isSome_iff_exists.1 h3
  unfold process_ipv4
  simp only [h1, h2, hfi, hproto, htype]
  simp [httl, ICMP_PROTO, TCP_PROTO, UDP_PROTO]

theorem forward_ip_kinds (ctx : chirouter_ctx_t) (frame : ethernet_frame_t) (gateway : Nat)
    (iface : chirouter_interface_t) :
    ∀ s ∈ (chirouter_forward_ip ctx frame gateway iface).sent,
      s.kind = sent_kind_t.arp ARP_OP_REQUEST ∨
      s.kind = sent_kind_t.icmp ICMPTYPE_TIME_EXCEEDED 0 ∨ s.kind = sent_kind_t.forward := by
  intro s hs
  unfold chirouter_forward_ip at hs
  simp only at hs
  split at hs
  · unfold chirouter_send_arp at hs
    simp only [if_true, List.mem_singleton] at hs
    left; rw [hs]
  · split_ifs at hs
    · simp only [List.mem_singleton] at hs
      right; left; rw [hs]; rfl
    · simp only [List.mem_singleton] at hs
      right; right; rw [hs]

/-! ## process_arp -/

theorem find_none_of_not_mem (l : List chirouter_pending_arp_req_t) (ip : Nat)
    (h : ip ∉ l.map (fun p => p.ip)) : l.find? (fun p => p.ip == ip) = none := by
  rw [List.find?_eq_none]
  intro x hx hxe
  exact h (List.mem_map.2 ⟨x, hx, by simpa using hxe⟩)

theorem delete_pending_lookup (l : List chirouter_pending_arp_req_t) (ip : Nat)
    (h : pending_unique l) : (delete_pending l ip).find? (fun p => p.ip == ip) = none := by
  induction l with
  | nil => rfl
  | cons q rest ih =>
    unfold pending_unique at h ih
    rw [List.map_cons, List.nodup_cons] at h
    by_cases hq : q.ip = ip
    · have hq' : (q.ip == ip) = true := by simpa using hq
      simp only [delete_pending, hq', if_true]
      exact find_none_of_not_mem rest ip (hq ▸ h.1)
    · have hq' : (q.ip == ip) = false := by simpa using hq
      simp only [delete_pending, hq', Bool.false_eq_true, if_false, List.find?_cons]
      exact ih h.2

theorem delete_pending_sublist (l : List chirouter_pending_arp_req_t) (ip : Nat) :
    List.Sublist (delete_pending l ip) l := by
  induction l with
  | nil => exact List.Sublist.refl _
  | cons q rest ih =>
    unfold delete_pending
    split_ifs
    · exact List.sublist_cons_self _ _
    · exact List.Sublist.cons₂ _ ih

theorem add_frame_to_ips (l : List chirouter_pending_arp_req_t) (ip : Nat)
    (frame : ethernet_frame_t) :
    (add_frame_to l ip frame).map (fun p => p.ip) = l.map (fun p => p.ip) := by
  induction l with
  | nil => rfl
  | cons q rest ih =>
    unfold add_frame_to
    split_ifs
    · rfl
    · rw [List.map_cons, List.map_cons, ih]

/-- `process_arp` keeps the pending-request list at one entry per target IP. -/
theorem process_arp_preserves_unique (ctx : chirouter_ctx_t) (frame : ethernet_frame_t)
    (h : pending_unique ctx.pending_arp_reqs) :
    pending_unique (process_arp ctx frame).ctx.pending_arp_reqs := by
  unfold process_arp
  simp only
  split_ifs
  · exact h
  · exact h
  · split
    · exact h
    · exact List.Nodup.sublist (List.Sublist.map _ (delete_pending_sublist _ _)) h
  · exact h

/-- `chirouter_forward_ip` keeps the pending-request list at one entry per target
IP: an entry is added only when the lookup finds none. -/
theorem forward_ip_preserves_unique (ctx : chirouter_ctx_t) (frame : ethernet_frame_t)
    (gateway : Nat) (iface : chirouter_interface_t) (h : pending_unique ctx.pending_arp_reqs) :
    pending_unique (chirouter_forward_ip ctx frame gateway iface).ctx.pending_arp_reqs := by
  unfold chirouter_forward_ip
  simp only
  split
  · simp only [chirouter_arp_pending_req_add_frame, pending_unique, add_frame_to_ips]
    split
    · rename_i hl
      unfold chirouter_arp_pending_req_lookup at hl
      rw [List.find?_eq_none] at hl
      simp only [chirouter_arp_pending_req_add, List.map_append, List.map_cons, List.map_nil]
      apply List.Nodup.append h (List.nodup_singleton _)
      intro x hx hx'
      rw [List.mem_singleton] at hx'
      obtain ⟨q, hq, hqx⟩ := List.mem_map.1 hx
      exact hl q hq (by simp [hqx, hx'])
    · exact h
  · split_ifs <;> exact h

theorem forall₂_map_right {α β : Type} (R : α → β → Prop) (f : α → β) (l : List α)
    (h : ∀ a ∈ l, R a (f a)) : List.Forall₂ R l (l.map f) := by
  induction l with
  | nil => exact List.Forall₂.nil
  | cons a rest ih =>
    exact List.Forall₂.cons (h a (List.mem_cons_self _ _))
      (ih (fun x hx => h x (List.mem_cons_of_mem _ hx)))

theorem forward_withheld_output (query_mac : List Nat) (p : chirouter_pending_arp_req_t)
    (wf : ethernet_frame_t) (hq : query_mac.length = 6) (hm : p.out_interface.mac.length = 6) :
    withheld_output query_mac p wf (forward_withheld query_mac p wf) := by
  unfold withheld_output forward_withheld
  constructor
  · intro h1
    rw [if_pos h1]
  · intro h2 hlen hb
    have h1 : ¬ (rd8 wf.raw 22 = 1) := by omega
    rw [if_neg h1, withheld_rewrite_eq]
    exact ⟨rfl, rfl, forward_rewrite_is_forwarded _ _ _ hlen hm hq hb (by omega)⟩

/-- The reply branch of `process_arp`. -/
theorem process_arp_reply (ctx : chirouter_ctx_t) (frame : ethernet_frame_t)
    (hop : ntohs (ld16 frame.raw 20) = ARP_OP_REPLY) :
    process_arp ctx frame =
      match chirouter_arp_pending_req_lookup ctx (ld32 frame.raw 28) with
      | none => ⟨chirouter_arp_cache_add ctx (ld32 frame.raw 28) (bytes_at frame.raw 22 6), [], 0⟩
      | some pending_arp =>
          ⟨{ chirouter_arp_cache_add ctx (ld32 frame.raw 28) (bytes_at frame.raw 22 6) with
              pending_arp_reqs := delete_pending ctx.pending_arp_reqs (ld32 frame.raw 28) },
            pending_arp.withheld_frames.map
              (forward_withheld (bytes_at frame.raw 22 6) pending_arp), 0⟩ := by
  have hne : ¬ (ntohs (ld16 frame.raw 20) = ARP_OP_REQUEST) := by rw [hop]; decide
  unfold process_arp
  simp only [if_neg hne, if_pos hop]
  rfl

/-! ## C1: the routing-table loop -/

/-- C1 (the code at the failing input): both the /24 entry and the /16 entry match
10.0.1.5, `ntohs` gives both netmasks the same key 0xFFFF, and the loop of
`process_ipv4` takes whichever comes later in the table: the /16 entry (eth2,
gateway 10.0.2.254) when the table lists the /24 entry first. -/
theorem route_lookup_takes_later_shorter_mask :
    route_matches (in_addr 10 0 1 5) ex_route24 ∧
      route_matches (in_addr 10 0 1 5) ex_route16 ∧
      ntohs ex_route24.mask = 0xFFFF ∧ ntohs ex_route16.mask = 0xFFFF ∧
      route_lookup [ex_route24, ex_route16] (in_addr 10 0 1 5)
        = ⟨0xFFFF, some ex_eth2, some (in_addr 10 0 2 254)⟩ ∧
      route_lookup [ex_route16, ex_route24] (in_addr 10 0 1 5)
        = ⟨0xFFFF, some ex_eth1, some 0⟩ := by
  decide

/-! ## C2: forwarding on an ARP-cache hit -/

/-- C2 (as amended): on an ARP-cache hit for the next hop (the gateway if
non-zero, otherwise the IP destination) and an inbound TTL of at least 2,
`chirouter_forward_ip` sends exactly one frame, on the outbound interface, whose
Ethernet source is the MAC of that interface, whose Ethernet destination is the
cached MAC of the next hop, whose TTL is the inbound TTL minus 1, whose checksum
is `cksum` of the 20-byte header with the checksum field zeroed (so the header
verifies), and whose length and other bytes are those of the inbound frame; the
router state is unchanged. -/
theorem forward_ip_hit_rewrites (ctx : chirouter_ctx_t) (frame : ethernet_frame_t)
    (gateway : Nat) (frame_out_iface : chirouter_interface_t)
    (arp_entry : chirouter_arpcache_entry_t)
    (hhit : chirouter_arp_cache_lookup ctx
      (if gateway ≠ 0 then gateway else ld32 frame.raw 30) = some arp_entry)
    (httl : 2 ≤ rd8 frame.raw 22) (hlen : 34 ≤ frame.raw.length) (hb : BytesOK frame.raw)
    (hsrc : frame_out_iface.mac.length = 6) (hdst : arp_entry.mac.length = 6) :
    arp_entry.ip = (if gateway ≠ 0 then gateway else ld32 frame.raw 30) ∧
    ∃ out, chirouter_forward_ip ctx frame gateway frame_out_iface
        = ⟨ctx, [⟨frame_out_iface, out, sent_kind_t.forward⟩], 0⟩ ∧
      is_forwarded frame.raw out frame_out_iface.mac arp_entry.mac := by
  constructor
  · have := List.find?_some hhit
    simpa using this
  · refine ⟨forward_rewrite frame.raw frame_out_iface.mac arp_entry.mac, ?_,
      forward_rewrite_is_forwarded _ _ _ hlen hsrc hdst hb (by omega)⟩
    unfold chirouter_forward_ip
    simp only [hhit]
    have : ¬ (rd8 frame.raw 22 = 1) := by omega
    simp only [this, if_false]

/-- Witness of C2: the datagram for 10.0.1.5 with TTL 64, forwarded on eth1. -/
theorem forward_ip_hit_rewrites_witness :
    (⟨in_addr 10 0 1 5, ex_host_mac⟩ : chirouter_arpcache_entry_t).ip
        = (if (0 : Nat) ≠ 0 then 0 else ld32 (ex_frame 64).raw 30) ∧
    ∃ out, chirouter_forward_ip (ex_ctx [⟨in_addr 10 0 1 5, ex_host_mac⟩]) (ex_frame 64) 0 ex_eth1
        = ⟨ex_ctx [⟨in_addr 10 0 1 5, ex_host_mac⟩], [⟨ex_eth1, out, sent_kind_t.forward⟩], 0⟩ ∧
      is_forwarded (ex_frame 64).raw out ex_eth1.mac ex_host_mac :=
  forward_ip_hit_rewrites (ex_ctx [⟨in_addr 10 0 1 5, ex_host_mac⟩]) (ex_frame 64) 0 ex_eth1
    ⟨in_addr 10 0 1 5, ex_host_mac⟩ (by decide) (by decide) (by decide) (by decide)
    (by decide) (by decide)

/-- C2 fails as stated: a datagram with inbound TTL 0 (which is not 1) is sent on
an ARP-cache hit with TTL 255, not with the inbound TTL minus 1. -/
theorem forward_ip_ttl_zero_sent_with_255 :
    rd8 (ex_frame 0).raw 22 = 0 ∧
    ∃ out, (chirouter_forward_ip (ex_ctx [⟨in_addr 10 0 1 5, ex_host_mac⟩]) (ex_frame 0) 0
        ex_eth1).sent = [⟨ex_eth1, out, sent_kind_t.forward⟩] ∧
      rd8 out 22 = 255 ∧ ¬ (rd8 out 22 + 1 = rd8 (ex_frame 0).raw 22) :=
  ⟨by decide, _, rfl, by decide, by decide⟩

/-! ## C5: TTL 1 on the forwarding path -/

/-- C5 (as amended): for an IPv4 frame addressed to the MAC of a router
interface, whose IP destination is not a router IP and has a matching route, and
whose TTL is 1, let `e` be the entry the routing-table loop chose: if the next hop
of `e` (its gateway if non-zero, otherwise the IP destination) is in the ARP cache,
`process_ipv4` emits exactly one ICMP Time Exceeded on the inbound interface and
does nothing else (no forwarding, no ARP request, no change of the router state);
if the next hop is not in the cache, `process_ipv4` emits no ICMP message: it
sends what `chirouter_send_arp` builds for an ARP request and withholds the frame
on the pending entry of the next hop. -/
theorem ipv4_ttl_one (ctx : chirouter_ctx_t) (frame : ethernet_frame_t)
    (hmac : ∃ iface ∈ ctx.interfaces,
      ethernet_addr_is_equal (bytes_at frame.raw 0 ETHER_ADDR_LEN) iface.mac = true)
    (hdst : ∀ iface ∈ ctx.interfaces, ld32 frame.raw 30 ≠ iface.ip)
    (hroute : ∃ e ∈ ctx.routing_table, route_matches (ld32 frame.raw 30) e)
    (httl : rd8 frame.raw 22 = 1) :
    ∃ e ∈ ctx.routing_table, route_matches (ld32 frame.raw 30) e ∧
      route_lookup ctx.routing_table (ld32 frame.raw 30)
        = ⟨ntohs e.mask, some e.interface, some e.gw⟩ ∧
      ((chirouter_arp_cache_lookup ctx
          (if e.gw ≠ 0 then e.gw else ld32 frame.raw 30)).isSome = true →
        process_ipv4 ctx frame
          = some ⟨ctx, [chirouter_send_icmp frame ICMPTYPE_TIME_EXCEEDED 0], 0⟩) ∧
      (chirouter_arp_cache_lookup ctx (if e.gw ≠ 0 then e.gw else ld32 frame.raw 30) = none →
        ∃ o, process_ipv4 ctx frame = some o ∧
          o.sent = chirouter_send_arp (bytes_at frame.raw 0 ETHER_ADDR_LEN) e.interface
            ARP_OP_REQUEST (if e.gw ≠ 0 then e.gw else ld32 frame.raw 30) ∧
          o.sent.length = 1 ∧
          (∀ s ∈ o.sent, s.kind = sent_kind_t.arp ARP_OP_REQUEST) ∧
          ∃ p, chirouter_arp_pending_req_lookup o.ctx
              (if e.gw ≠ 0 then e.gw else ld32 frame.raw 30) = some p ∧
            frame ∈ p.withheld_frames) := by
  obtain ⟨e, he, hm, hpick, hrun⟩ := process_ipv4_forwards ctx frame hmac hdst hroute
  refine ⟨e, he, hm, hpick, ?_, ?_⟩
  · intro hhit
    obtain ⟨entry, hentry⟩ := Option.isSome_iff_exists.1 hhit
    rw [hrun]
    unfold chirouter_forward_ip
    simp only [hentry, httl, if_true]
  · intro hmiss
    refine ⟨_, hrun, ?_, ?_, ?_, ?_⟩
    · unfold chirouter_forward_ip
      simp only [hmiss]
    · unfold chirouter_forward_ip
      simp only [hmiss]
      unfold chirouter_send_arp
      simp only [if_true, List.length_singleton]
    · unfold chirouter_forward_ip
      simp only [hmiss]
      intro s hs
      unfold chirouter_send_arp at hs
      simp only [if_true] at hs
      rw [List.mem_singleton] at hs
      rw [hs]
    · unfold chirouter_forward_ip
      simp only [hmiss]
      exact pending_after_withhold ctx _ e.interface frame

/-! ## C3, C4: the Internet checksum -/

/-- C3 (as amended): for every byte sequence and every length `len` of at most
131074 bytes within it, `cksum` returns, in network byte order, the 16-bit
ones-complement of the end-around-carry sum of the first `len` bytes read as
big-endian 16-bit words (an odd trailing byte padded with a zero low byte), with
0x0000 replaced by 0xFFFF; and `cksum` returns 0 for no data and no length
whatever. -/
theorem cksum_is_internet_checksum (data : List Nat) (len : Nat) (h : BytesOK data)
    (hlen : len ≤ data.length) (hmax : len ≤ 131074) :
    ntohs (cksum data len) = inetChecksum (data.take len) ∧
      ∀ (d : List Nat) (l : Int), cksum d l ≠ 0 := by
  refine ⟨?_, cksum_ne_zero⟩
  have hb := BytesOK_take h len
  have hsum := beWords_sum_le (data.take len) hb
  have hl : (data.take len).length = len := by simp; omega
  have hT : (beWords (data.take len)).sum < 2 ^ 32 := by
    have : ((data.take len).length + 1) / 2 ≤ 65537 := by omega
    calc (beWords (data.take len)).sum
        ≤ 65535 * (((data.take len).length + 1) / 2) := hsum
      _ ≤ 65535 * 65537 := Nat.mul_le_mul_left _ this
      _ < 2 ^ 32 := by norm_num
  rw [ntohs_cksum data len h hlen, Nat.mod_eq_of_lt hT, inetChecksum, onesSum_beWords _ hb]

/-- Witness of C3 on the first four bytes of an IPv4 header. -/
theorem cksum_is_internet_checksum_witness :
    ntohs (cksum [0x45, 0x00, 0x00, 0x1c] (4 : Nat)) = inetChecksum ([0x45, 0x00, 0x00, 0x1c].take 4)
      ∧ ∀ (d : List Nat) (l : Int), cksum d l ≠ 0 :=
  cksum_is_internet_checksum [0x45, 0x00, 0x00, 0x1c] 4 (by decide) (by decide) (by decide)

/-- C3 fails as stated: on 131076 bytes 0xFF the 32-bit accumulator of `cksum`
wraps, and `cksum` returns 0x0001 in network byte order where the Internet
checksum is 0xFFFF. -/
theorem cksum_wraps_on_long_input :
    ntohs (cksum (List.replicate 131076 255) (131076 : Nat)) = 1 ∧
      inetChecksum (List.replicate 131076 255) = 0xFFFF ∧
      ntohs (cksum (List.replicate 131076 255) (131076 : Nat)) ≠
        inetChecksum (List.replicate 131076 255) := by
  have hb : BytesOK (List.replicate 131076 255) := BytesOK_replicate _ _ (by norm_num)
  have hs : (beWords (List.replicate 131076 255)).sum = 65538 * 65535 :=
    beWords_replicate_ff 65538
  have hl : (List.replicate 131076 255).length = 131076 := List.length_replicate _ _
  generalize List.replicate 131076 255 = X at hb hs hl ⊢
  have h1 : ntohs (cksum X (131076 : Nat)) = 1 := by
    rw [ntohs_cksum _ 131076 hb (by rw [hl]), List.take_of_length_le (by rw [hl]), hs]
    simp [canon]
  have h2 : inetChecksum X = 0xFFFF := by
    rw [inetChecksum, onesSum_beWords _ hb, hs]
    simp [canon]
  refine ⟨h1, h2, ?_⟩
  rw [h1, h2]; norm_num

/-- C4 (as amended): for every even-length header of at most 131074 bytes whose
16-bit checksum field (at an even offset `off`) is zero, after the value returned
by `cksum` is stored into that field the end-around-carry ones-complement sum of
all 16-bit words of the header is 0xFFFF; this includes the headers for which
`cksum` substituted 0xFFFF for 0x0000. -/
theorem cksum_header_verifies (hdr : List Nat) (off : Nat) (_heven : hdr.length % 2 = 0)
    (hoff : off % 2 = 0) (hin : off + 2 ≤ hdr.length)
    (hz0 : rd8 hdr off = 0) (hz1 : rd8 hdr (off + 1) = 0)
    (hb : BytesOK hdr) (hlen : hdr.length ≤ 131074) :
    onesSum (beWords (st16 hdr off (cksum hdr (hdr.length : Nat)))) = 0xFFFF :=
  cksum_store_verifies hdr off hoff hin hz0 hz1 hb hlen

/-- Witness of C4 on a header whose words sum to 0xFFFF, so that `cksum`
substitutes 0xFFFF for 0x0000. -/
theorem cksum_header_verifies_witness :
    cksum [0xFF, 0xFF, 0, 0] (4 : Nat) = 0xFFFF ∧
      onesSum (beWords (st16 [0xFF, 0xFF, 0, 0] 2 (cksum [0xFF, 0xFF, 0, 0]
        (([0xFF, 0xFF, 0, 0] : List Nat).length : Nat)))) = 0xFFFF :=
  ⟨by decide, cksum_header_verifies [0xFF, 0xFF, 0, 0] 2 (by decide) (by decide) (by decide)
    (by decide) (by decide) (by decide) (by decide)⟩

/-- C4 fails as stated: a header of 131078 bytes (a zero checksum field followed
by 131076 bytes 0xFF) does not verify after the value of `cksum` is stored. -/
theorem cksum_long_header_not_verified :
    (0 :: 0 :: List.replicate 131076 255).length % 2 = 0 ∧
      onesSum (beWords (st16 (0 :: 0 :: List.replicate 131076 255) 0
        (cksum (0 :: 0 :: List.replicate 131076 255)
          ((0 :: 0 :: List.replicate 131076 255).length : Nat)))) ≠ 0xFFFF :=
  ⟨by rw [List.length_cons, List.length_cons, List.length_replicate],
    long_header_sum _ (BytesOK_replicate _ _ (by norm_num)) (beWords_replicate_ff 65538)⟩

/-- Witness of C5: the datagram for 10.0.1.5 with TTL 1; the route 10.0.1.0/24 is
on-link, so the next hop is 10.0.1.5 itself. -/
theorem ipv4_ttl_one_witness :
    ∃ e ∈ (ex_ctx [⟨in_addr 10 0 1 5, ex_host_mac⟩]).routing_table,
      route_matches (ld32 (ex_frame 1).raw 30) e ∧
      route_lookup (ex_ctx [⟨in_addr 10 0 1 5, ex_host_mac⟩]).routing_table
          (ld32 (ex_frame 1).raw 30)
        = ⟨ntohs e.mask, some e.interface, some e.gw⟩ ∧
      ((chirouter_arp_cache_lookup (ex_ctx [⟨in_addr 10 0 1 5, ex_host_mac⟩])
          (if e.gw ≠ 0 then e.gw else ld32 (ex_frame 1).raw 30)).isSome = true →
        process_ipv4 (ex_ctx [⟨in_addr 10 0 1 5, ex_host_mac⟩]) (ex_frame 1)
          = some ⟨ex_ctx [⟨in_addr 10 0 1 5, ex_host_mac⟩],
              [chirouter_send_icmp (ex_frame 1) ICMPTYPE_TIME_EXCEEDED 0], 0⟩) ∧
      (chirouter_arp_cache_lookup (ex_ctx [⟨in_addr 10 0 1 5, ex_host_mac⟩])
          (if e.gw ≠ 0 then e.gw else ld32 (ex_frame 1).raw 30) = none →
        ∃ o, process_ipv4 (ex_ctx [⟨in_addr 10 0 1 5, ex_host_mac⟩]) (ex_frame 1) = some o ∧
          o.sent = chirouter_send_arp (bytes_at (ex_frame 1).raw 0 ETHER_ADDR_LEN) e.interface
            ARP_OP_REQUEST (if e.gw ≠ 0 then e.gw else ld32 (ex_frame 1).raw 30) ∧
          o.sent.length = 1 ∧
          (∀ s ∈ o.sent, s.kind = sent_kind_t.arp ARP_OP_REQUEST) ∧
          ∃ p, chirouter_arp_pending_req_lookup o.ctx
              (if e.gw ≠ 0 then e.gw else ld32 (ex_frame 1).raw 30) = some p ∧
            ex_frame 1 ∈ p.withheld_frames) :=
  ipv4_ttl_one (ex_ctx [⟨in_addr 10 0 1 5, ex_host_mac⟩]) (ex_frame 1)
    ⟨ex_eth0, by decide, by decide⟩ (by decide) ⟨ex_route24, by decide, by decide⟩ (by decide)

/-- C5 fails as stated: with the next hop missing from the ARP cache, the datagram
with TTL 1 for 10.0.1.5 (addressed to the MAC of eth0, not a router IP, matching
route) causes no ICMP Time Exceeded; one ARP request goes out on eth1 and the
frame is withheld on a new pending entry. -/
theorem ipv4_ttl_one_arp_miss_withholds :
    ethernet_addr_is_equal (bytes_at (ex_frame 1).raw 0 ETHER_ADDR_LEN) ex_eth0.mac = true ∧
    (∀ iface ∈ (ex_ctx []).interfaces, ld32 (ex_frame 1).raw 30 ≠ iface.ip) ∧
    route_matches (ld32 (ex_frame 1).raw 30) ex_route24 ∧
    rd8 (ex_frame 1).raw 22 = 1 ∧
    (process_ipv4 (ex_ctx []) (ex_frame 1)).map (fun o => o.sent.map (fun s => s.kind))
      = some [sent_kind_t.arp ARP_OP_REQUEST] ∧
    (process_ipv4 (ex_ctx []) (ex_frame 1)).map (fun o => o.ctx.pending_arp_reqs)
      = some [⟨in_addr 10 0 1 5, ex_eth1, [ex_frame 1]⟩] ∧
    process_ipv4 (ex_ctx []) (ex_frame 1)
      ≠ some ⟨ex_ctx [], [chirouter_send_icmp (ex_frame 1) ICMPTYPE_TIME_EXCEEDED 0], 0⟩ := by
  decide

/-! ## C6: Echo Reply -/

/-- C6: for an ICMP Echo Request whose IP total length is `L` (at least 28, within
the frame), the frame that `chirouter_send_icmp` builds for an Echo Reply has ICMP
type Echo Reply and code 0; its identifier, sequence number and `L - 28` payload
bytes are bytewise those of the request; its ICMP message and its IP header both
verify; and `process_ipv4` sends exactly this frame (and changes nothing) when the
request is addressed to the MAC of a router interface and to the IP of the
interface it arrived on, with TTL above 1. -/
theorem echo_reply_matches_request (frame : ethernet_frame_t) (L : Nat)
    (hL : ntohs (ld16 frame.raw 16) = L) (h28 : 28 ≤ L) (hraw : 14 + L ≤ frame.raw.length)
    (hb : BytesOK frame.raw) (hm : BytesOK frame.in_interface.mac) :
    (icmp_reply frame ICMPTYPE_ECHO_REPLY 0).length = 14 + L ∧
    rd8 (icmp_reply frame ICMPTYPE_ECHO_REPLY 0) 34 = ICMPTYPE_ECHO_REPLY ∧
    rd8 (icmp_reply frame ICMPTYPE_ECHO_REPLY 0) 35 = 0 ∧
    bytes_at (icmp_reply frame ICMPTYPE_ECHO_REPLY 0) 38 2 = bytes_at frame.raw 38 2 ∧
    bytes_at (icmp_reply frame ICMPTYPE_ECHO_REPLY 0) 40 2 = bytes_at frame.raw 40 2 ∧
    bytes_at (icmp_reply frame ICMPTYPE_ECHO_REPLY 0) 42 (L - 28)
      = bytes_at frame.raw 42 (L - 28) ∧
    verifies (bytes_at (icmp_reply frame ICMPTYPE_ECHO_REPLY 0) 34 (L - 20)) ∧
    verifies (bytes_at (icmp_reply frame ICMPTYPE_ECHO_REPLY 0) 14 20) ∧
    ∀ ctx : chirouter_ctx_t,
      (∃ iface ∈ ctx.interfaces,
        ethernet_addr_is_equal (bytes_at frame.raw 0 ETHER_ADDR_LEN) iface.mac = true) →
      frame.in_interface ∈ ctx.interfaces →
      ld32 frame.raw 30 = frame.in_interface.ip →
      rd8 frame.raw 23 = ICMP_PROTO →
      rd8 frame.raw 34 = ICMPTYPE_ECHO_REQUEST →
      1 < rd8 frame.raw 22 →
      process_ipv4 ctx frame
        = some ⟨ctx, [⟨frame.in_interface, icmp_reply frame ICMPTYPE_ECHO_REPLY 0,
            sent_kind_t.icmp ICMPTYPE_ECHO_REPLY 0⟩], 0⟩ := by
  have hlt := ntohs_lt (ld16 frame.raw 16)
  have hp : icmp_payload_len frame ICMPTYPE_ECHO_REPLY = ((L - 28 : Nat) : Int) := by
    unfold icmp_payload_len
    simp only [true_or, if_true, hL, sizeof_iphdr, ICMP_HDR_SIZE]
    omega
  have hbody := icmp_reply_echo_body frame ICMPTYPE_ECHO_REPLY (L - 28) hp (Or.inr rfl) hb
    (by omega)
  have htc := icmp_reply_type_code frame ICMPTYPE_ECHO_REPLY 0 (L - 28) hp
  have hseg : ∀ off n : Nat, 38 ≤ off → off + n ≤ 42 + (L - 28) →
      bytes_at (icmp_reply frame ICMPTYPE_ECHO_REPLY 0) off n = bytes_at frame.raw off n := by
    intro off n h38 hn
    apply List.ext_getElem?
    intro k
    simp only [getElem?_bytes_at]
    by_cases hk : k < n
    · rw [if_pos hk, if_pos hk, hbody (off + k) (by omega), if_pos (by omega)]
    · rw [if_neg hk, if_neg hk]
  refine ⟨?_, ?_, ?_, hseg 38 2 (by omega) (by omega), hseg 40 2 (by omega) (by omega),
    hseg 42 (L - 28) (by omega) (by omega), ?_, ?_, ?_⟩
  · rw [icmp_reply_length frame _ 0 (L - 28) hp]; omega
  · exact rd8_of_getElem? _ _ _ htc.1
  · exact rd8_of_getElem? _ _ _ htc.2
  · have := icmp_reply_icmp_verifies frame ICMPTYPE_ECHO_REPLY 0 (L - 28) hp (by omega) hb hm
    have e : 8 + (L - 28) = L - 20 := by omega
    rwa [e] at this
  · exact icmp_reply_ip_verifies frame ICMPTYPE_ECHO_REPLY 0 (L - 28) hp hb hm
  · intro ctx hmac hin hdst hproto htype httl
    exact process_ipv4_echo ctx frame hmac hin hdst hproto htype (by omega)

/-- Witness of C6: the Echo Request with a five-byte payload. -/
theorem echo_reply_matches_request_witness :
    (icmp_reply ex_echo_request ICMPTYPE_ECHO_REPLY 0).length = 14 + 33 ∧
    rd8 (icmp_reply ex_echo_request ICMPTYPE_ECHO_REPLY 0) 34 = ICMPTYPE_ECHO_REPLY ∧
    rd8 (icmp_reply ex_echo_request ICMPTYPE_ECHO_REPLY 0) 35 = 0 ∧
    bytes_at (icmp_reply ex_echo_request ICMPTYPE_ECHO_REPLY 0) 38 2
      = bytes_at ex_echo_request.raw 38 2 ∧
    bytes_at (icmp_reply ex_echo_request ICMPTYPE_ECHO_REPLY 0) 40 2
      = bytes_at ex_echo_request.raw 40 2 ∧
    bytes_at (icmp_reply ex_echo_request ICMPTYPE_ECHO_REPLY 0) 42 (33 - 28)
      = bytes_at ex_echo_request.raw 42 (33 - 28) ∧
    verifies (bytes_at (icmp_reply ex_echo_request ICMPTYPE_ECHO_REPLY 0) 34 (33 - 20)) ∧
    verifies (bytes_at (icmp_reply ex_echo_request ICMPTYPE_ECHO_REPLY 0) 14 20) ∧
    ∀ ctx : chirouter_ctx_t,
      (∃ iface ∈ ctx.interfaces,
        ethernet_addr_is_equal (bytes_at ex_echo_request.raw 0 ETHER_ADDR_LEN) iface.mac
          = true) →
      ex_echo_request.in_interface ∈ ctx.interfaces →
      ld32 ex_echo_request.raw 30 = ex_echo_request.in_interface.ip →
      rd8 ex_echo_request.raw 23 = ICMP_PROTO →
      rd8 ex_echo_request.raw 34 = ICMPTYPE_ECHO_REQUEST →
      1 < rd8 ex_echo_request.raw 22 →
      process_ipv4 ctx ex_echo_request
        = some ⟨ctx, [⟨ex_echo_request.in_interface,
            icmp_reply ex_echo_request ICMPTYPE_ECHO_REPLY 0,
            sent_kind_t.icmp ICMPTYPE_ECHO_REPLY 0⟩], 0⟩ :=
  echo_reply_matches_request ex_echo_request 33 (by decide) (by decide) (by decide)
    (by decide) (by decide)

/-! ## C7: the frame built by chirouter_send_icmp -/

/-- C7: for an inbound frame of at least 42 bytes, an ICMP type and code (8-bit
values) and a payload length `p` (28 for every type but the two echo types), the
frame that `chirouter_send_icmp` sends goes out on the inbound interface and has
Ethernet destination = inbound Ethernet source, Ethernet source = MAC of the
inbound interface, EtherType IPv4, IP version 4, IHL 5, TTL 64, protocol ICMP,
IP source = IP of the inbound interface, IP destination = inbound IP source, IP
total length 20 + 8 + p, length 14 + 20 + 8 + p, and the given type and code; for
Destination Unreachable and Time Exceeded the payload is the 28 bytes that start
at the inbound IP header. -/
theorem send_icmp_frame_layout (frame : ethernet_frame_t) (type code p : Nat)
    (htype : type < 256) (hcode : code < 256)
    (hp : icmp_payload_len frame type = (p : Int)) (hraw : 42 ≤ frame.raw.length)
    (hmac : frame.in_interface.mac.length = 6) (hip : frame.in_interface.ip < 2 ^ 32) :
    (chirouter_send_icmp frame type code).iface = frame.in_interface ∧
    bytes_at (chirouter_send_icmp frame type code).msg 0 6 = bytes_at frame.raw 6 6 ∧
    bytes_at (chirouter_send_icmp frame type code).msg 6 6 = frame.in_interface.mac ∧
    ntohs (ld16 (chirouter_send_icmp frame type code).msg 12) = ETHERTYPE_IP ∧
    rd8 (chirouter_send_icmp frame type code).msg 14 / 16 = 4 ∧
    rd8 (chirouter_send_icmp frame type code).msg 14 % 16 = 5 ∧
    rd8 (chirouter_send_icmp frame type code).msg 22 = 64 ∧
    rd8 (chirouter_send_icmp frame type code).msg 23 = ICMP_PROTO ∧
    ld32 (chirouter_send_icmp frame type code).msg 26 = frame.in_interface.ip ∧
    bytes_at (chirouter_send_icmp frame type code).msg 30 4 = bytes_at frame.raw 26 4 ∧
    ntohs (ld16 (chirouter_send_icmp frame type code).msg 16) = 20 + 8 + p ∧
    (chirouter_send_icmp frame type code).msg.length = 14 + 20 + 8 + p ∧
    rd8 (chirouter_send_icmp frame type code).msg 34 = type ∧
    rd8 (chirouter_send_icmp frame type code).msg 35 = code ∧
    ((type = ICMPTYPE_DEST_UNREACHABLE ∨ type = ICMPTYPE_TIME_EXCEEDED) →
      p = 28 ∧ bytes_at (chirouter_send_icmp frame type code).msg 42 28
        = bytes_at frame.raw 14 28) := by
  obtain ⟨h1, h2, h3, h4, h5, h6, h7, h8, h9, h10⟩ :=
    icmp_reply_headers frame type code p hp (by omega) hmac hip
  have htc := icmp_reply_type_code frame type code p hp
  refine ⟨rfl, h1, h2, h3, h4, h5, h6, h7, h8, h9, h10, ?_, ?_, ?_, ?_⟩
  · show (icmp_reply frame type code).length = 14 + 20 + 8 + p
    rw [icmp_reply_length frame type code p hp]
  · have := rd8_of_getElem? _ _ _ htc.1
    rwa [Nat.mod_eq_of_lt htype] at this
  · have := rd8_of_getElem? _ _ _ htc.2
    rwa [Nat.mod_eq_of_lt hcode] at this
  · intro ht
    have hne : ¬ (type = ICMPTYPE_ECHO_REQUEST ∨ type = ICMPTYPE_ECHO_REPLY) := by
      simp only [ICMPTYPE_DEST_UNREACHABLE, ICMPTYPE_TIME_EXCEEDED, ICMPTYPE_ECHO_REQUEST,
        ICMPTYPE_ECHO_REPLY] at ht ⊢
      omega
    have hp28 : p = 28 := by
      unfold icmp_payload_len at hp
      have hne' : ¬ (type = ICMPTYPE_ECHO_REPLY ∨ type = ICMPTYPE_ECHO_REQUEST) :=
        fun h => hne h.symm
      simp only [hne', if_false, sizeof_iphdr] at hp
      omega
    subst hp28
    exact ⟨rfl, icmp_reply_error_payload frame type code 28 hp hne (by omega)⟩

/-- Witness of C7: Time Exceeded for the datagram with TTL 1. -/
theorem send_icmp_frame_layout_witness :
    (chirouter_send_icmp (ex_frame 1) 11 0).iface = (ex_frame 1).in_interface ∧
    bytes_at (chirouter_send_icmp (ex_frame 1) 11 0).msg 0 6 = bytes_at (ex_frame 1).raw 6 6 ∧
    bytes_at (chirouter_send_icmp (ex_frame 1) 11 0).msg 6 6 = (ex_frame 1).in_interface.mac ∧
    ntohs (ld16 (chirouter_send_icmp (ex_frame 1) 11 0).msg 12) = ETHERTYPE_IP ∧
    rd8 (chirouter_send_icmp (ex_frame 1) 11 0).msg 14 / 16 = 4 ∧
    rd8 (chirouter_send_icmp (ex_frame 1) 11 0).msg 14 % 16 = 5 ∧
    rd8 (chirouter_send_icmp (ex_frame 1) 11 0).msg 22 = 64 ∧
    rd8 (chirouter_send_icmp (ex_frame 1) 11 0).msg 23 = ICMP_PROTO ∧
    ld32 (chirouter_send_icmp (ex_frame 1) 11 0).msg 26 = (ex_frame 1).in_interface.ip ∧
    bytes_at (chirouter_send_icmp (ex_frame 1) 11 0).msg 30 4 = bytes_at (ex_frame 1).raw 26 4 ∧
    ntohs (ld16 (chirouter_send_icmp (ex_frame 1) 11 0).msg 16) = 20 + 8 + 28 ∧
    (chirouter_send_icmp (ex_frame 1) 11 0).msg.length = 14 + 20 + 8 + 28 ∧
    rd8 (chirouter_send_icmp (ex_frame 1) 11 0).msg 34 = 11 ∧
    rd8 (chirouter_send_icmp (ex_frame 1) 11 0).msg 35 = 0 ∧
    (((11 : Nat) = ICMPTYPE_DEST_UNREACHABLE ∨ (11 : Nat) = ICMPTYPE_TIME_EXCEEDED) →
      28 = 28 ∧ bytes_at (chirouter_send_icmp (ex_frame 1) 11 0).msg 42 28
        = bytes_at (ex_frame 1).raw 14 28) :=
  send_icmp_frame_layout (ex_frame 1) 11 0 28 (by decide) (by decide) (by decide) (by decide)
    (by decide) (by decide)

/-! ## C8: Network Unreachable -/

/-- C8: for an IPv4 frame whose Ethernet destination is the MAC of a router
interface and whose IP destination is not a router IP: if no routing-table entry
matches, `process_ipv4` sends exactly one frame, the ICMP Destination Unreachable
with code Network Unreachable built by `chirouter_send_icmp`, and leaves the
router state (ARP cache, pending requests) unchanged; if some entry matches, and
an entry with mask 0 matches every destination, the frame is handed to
`chirouter_forward_ip` with the entry the routing-table loop chose and nothing
sent is a Network Unreachable. -/
theorem ipv4_net_unreachable_iff_no_route (ctx : chirouter_ctx_t) (frame : ethernet_frame_t)
    (hmac : ∃ iface ∈ ctx.interfaces,
      ethernet_addr_is_equal (bytes_at frame.raw 0 ETHER_ADDR_LEN) iface.mac = true)
    (hdst : ∀ iface ∈ ctx.interfaces, ld32 frame.raw 30 ≠ iface.ip) :
    ((∀ e ∈ ctx.routing_table, ¬ route_matches (ld32 frame.raw 30) e) →
      process_ipv4 ctx frame
        = some ⟨ctx, [⟨frame.in_interface,
            icmp_reply frame ICMPTYPE_DEST_UNREACHABLE ICMPCODE_DEST_NET_UNREACHABLE,
            sent_kind_t.icmp ICMPTYPE_DEST_UNREACHABLE ICMPCODE_DEST_NET_UNREACHABLE⟩], 0⟩ ∧
      rd8 (icmp_reply frame ICMPTYPE_DEST_UNREACHABLE ICMPCODE_DEST_NET_UNREACHABLE) 34
        = ICMPTYPE_DEST_UNREACHABLE ∧
      rd8 (icmp_reply frame ICMPTYPE_DEST_UNREACHABLE ICMPCODE_DEST_NET_UNREACHABLE) 35
        = ICMPCODE_DEST_NET_UNREACHABLE) ∧
    ((∃ e ∈ ctx.routing_table, route_matches (ld32 frame.raw 30) e) →
      ∃ e ∈ ctx.routing_table, route_matches (ld32 frame.raw 30) e ∧
        route_lookup ctx.routing_table (ld32 frame.raw 30)
          = ⟨ntohs e.mask, some e.interface, some e.gw⟩ ∧
        process_ipv4 ctx frame = some (chirouter_forward_ip ctx frame e.gw e.interface) ∧
        ∀ s ∈ (chirouter_forward_ip ctx frame e.gw e.interface).sent,
          s.kind ≠ sent_kind_t.icmp ICMPTYPE_DEST_UNREACHABLE ICMPCODE_DEST_NET_UNREACHABLE) ∧
    (∀ e : chirouter_rtable_entry_t, e.mask = 0 → route_matches (ld32 frame.raw 30) e) := by
  refine ⟨?_, ?_, ?_⟩
  · intro hno
    have hp : icmp_payload_len frame ICMPTYPE_DEST_UNREACHABLE = ((28 : Nat) : Int) := by
      unfold icmp_payload_len
      simp [ICMPTYPE_DEST_UNREACHABLE, ICMPTYPE_ECHO_REPLY, ICMPTYPE_ECHO_REQUEST, sizeof_iphdr]
    have htc := icmp_reply_type_code frame ICMPTYPE_DEST_UNREACHABLE
      ICMPCODE_DEST_NET_UNREACHABLE 28 hp
    exact ⟨process_ipv4_no_route ctx frame hmac hdst hno, rd8_of_getElem? _ _ _ htc.1,
      rd8_of_getElem? _ _ _ htc.2⟩
  · intro hroute
    obtain ⟨e, he, hm, hpick, hrun⟩ := process_ipv4_forwards ctx frame hmac hdst hroute
    refine ⟨e, he, hm, hpick, hrun, ?_⟩
    intro s hs
    rcases forward_ip_kinds ctx frame e.gw e.interface s hs with h | h | h <;>
      rw [h] <;> decide
  · intro e he
    unfold route_matches
    rw [he]
    simp

/-- Witness of C8: the router without routes answers the datagram for 10.0.1.5, and
the router with the route 10.0.1.0/24 forwards it. -/
theorem ipv4_net_unreachable_iff_no_route_witness :
    ((∀ e ∈ ex_ctx_no_route.routing_table, ¬ route_matches (ld32 (ex_frame 64).raw 30) e) →
      process_ipv4 ex_ctx_no_route (ex_frame 64)
        = some ⟨ex_ctx_no_route, [⟨(ex_frame 64).in_interface,
            icmp_reply (ex_frame 64) ICMPTYPE_DEST_UNREACHABLE ICMPCODE_DEST_NET_UNREACHABLE,
            sent_kind_t.icmp ICMPTYPE_DEST_UNREACHABLE ICMPCODE_DEST_NET_UNREACHABLE⟩], 0⟩ ∧
      rd8 (icmp_reply (ex_frame 64) ICMPTYPE_DEST_UNREACHABLE ICMPCODE_DEST_NET_UNREACHABLE) 34
        = ICMPTYPE_DEST_UNREACHABLE ∧
      rd8 (icmp_reply (ex_frame 64) ICMPTYPE_DEST_UNREACHABLE ICMPCODE_DEST_NET_UNREACHABLE) 35
        = ICMPCODE_DEST_NET_UNREACHABLE) ∧
    ((∃ e ∈ ex_ctx_no_route.routing_table, route_matches (ld32 (ex_frame 64).raw 30) e) →
      ∃ e ∈ ex_ctx_no_route.routing_table, route_matches (ld32 (ex_frame 64).raw 30) e ∧
        route_lookup ex_ctx_no_route.routing_table (ld32 (ex_frame 64).raw 30)
          = ⟨ntohs e.mask, some e.interface, some e.gw⟩ ∧
        process_ipv4 ex_ctx_no_route (ex_frame 64)
          = some (chirouter_forward_ip ex_ctx_no_route (ex_frame 64) e.gw e.interface) ∧
        ∀ s ∈ (chirouter_forward_ip ex_ctx_no_route (ex_frame 64) e.gw e.interface).sent,
          s.kind ≠ sent_kind_t.icmp ICMPTYPE_DEST_UNREACHABLE ICMPCODE_DEST_NET_UNREACHABLE) ∧
    (∀ e : chirouter_rtable_entry_t, e.mask = 0 →
      route_matches (ld32 (ex_frame 64).raw 30) e) :=
  ipv4_net_unreachable_iff_no_route ex_ctx_no_route (ex_frame 64)
    ⟨ex_eth0, by decide, by decide⟩ (by decide)

/-! ## C9: ARP replies -/

/-- C9 (as amended): after `process_arp` has processed an ARP Reply (a frame of at
least 42 bytes) in a state with one pending entry per target IP, the ARP cache
maps the sender IP to the sender MAC and no pending entry exists for that IP;
without a pending entry nothing is sent; with a pending entry (whose outbound
interface has a 6-byte MAC) each withheld frame, in queue order, produced exactly
one output: a Time Exceeded ICMP if its TTL was 1, and, if its TTL was at least 2,
the frame itself sent on the outbound interface of the pending entry with
Ethernet destination = sender MAC, Ethernet source = MAC of that interface, TTL
decremented by 1 and IP checksum recomputed. -/
theorem arp_reply_consumes_pending (ctx : chirouter_ctx_t) (frame : ethernet_frame_t)
    (hop : ntohs (ld16 frame.raw 20) = ARP_OP_REPLY) (hlen : 42 ≤ frame.raw.length)
    (huniq : pending_unique ctx.pending_arp_reqs) :
    chirouter_arp_cache_lookup (process_arp ctx frame).ctx (ld32 frame.raw 28)
      = some ⟨ld32 frame.raw 28, bytes_at frame.raw 22 6⟩ ∧
    chirouter_arp_pending_req_lookup (process_arp ctx frame).ctx (ld32 frame.raw 28) = none ∧
    (chirouter_arp_pending_req_lookup ctx (ld32 frame.raw 28) = none →
      (process_arp ctx frame).sent = []) ∧
    (∀ p, chirouter_arp_pending_req_lookup ctx (ld32 frame.raw 28) = some p →
      p.out_interface.mac.length = 6 →
      List.Forall₂ (withheld_output (bytes_at frame.raw 22 6) p)
        p.withheld_frames (process_arp ctx frame).sent) := by
  have hmac : (bytes_at frame.raw 22 6).length = 6 := by rw [bytes_at_length]; omega
  rw [process_arp_reply ctx frame hop]
  cases hp : chirouter_arp_pending_req_lookup ctx (ld32 frame.raw 28) with
  | none =>
    refine ⟨?_, ?_, fun _ => rfl, fun p hp' => by cases hp'⟩
    · simp [chirouter_arp_cache_lookup, chirouter_arp_cache_add]
    · simpa [chirouter_arp_pending_req_lookup, chirouter_arp_cache_add] using hp
  | some p =>
    refine ⟨?_, ?_, (fun h => by cases h), ?_⟩
    · simp [chirouter_arp_cache_lookup, chirouter_arp_cache_add]
    · simp only [chirouter_arp_pending_req_lookup, chirouter_arp_cache_add]
      exact delete_pending_lookup _ _ huniq
    · intro p' hp' hm
      cases hp'
      exact forall₂_map_right _ _ _ (fun wf _ => forward_withheld_output _ _ wf hmac hm)

/-- Witness of C9: the ARP Reply of 10.0.1.5 releases a datagram with TTL 64 and
one with TTL 1. -/
theorem arp_reply_consumes_pending_witness :
    chirouter_arp_cache_lookup (process_arp (ex_ctx_pending [ex_frame 64, ex_frame 1])
        ex_arp_reply).ctx (ld32 ex_arp_reply.raw 28)
      = some ⟨ld32 ex_arp_reply.raw 28, bytes_at ex_arp_reply.raw 22 6⟩ ∧
    chirouter_arp_pending_req_lookup (process_arp (ex_ctx_pending [ex_frame 64, ex_frame 1])
        ex_arp_reply).ctx (ld32 ex_arp_reply.raw 28) = none ∧
    (chirouter_arp_pending_req_lookup (ex_ctx_pending [ex_frame 64, ex_frame 1])
        (ld32 ex_arp_reply.raw 28) = none →
      (process_arp (ex_ctx_pending [ex_frame 64, ex_frame 1]) ex_arp_reply).sent = []) ∧
    (∀ p, chirouter_arp_pending_req_lookup (ex_ctx_pending [ex_frame 64, ex_frame 1])
        (ld32 ex_arp_reply.raw 28) = some p →
      p.out_interface.mac.length = 6 →
      List.Forall₂ (withheld_output (bytes_at ex_arp_reply.raw 22 6) p)
        p.withheld_frames
        (process_arp (ex_ctx_pending [ex_frame 64, ex_frame 1]) ex_arp_reply).sent) :=
  arp_reply_consumes_pending (ex_ctx_pending [ex_frame 64, ex_frame 1]) ex_arp_reply
    (by decide) (by decide) (by decide)

/-- C9 fails as stated: a withheld datagram with TTL 0 (which is not 1) is sent on
the ARP reply with TTL 255, not with its TTL decremented by 1. -/
theorem arp_reply_sends_ttl_zero_with_255 :
    rd8 (ex_frame 0).raw 22 = 0 ∧
    ∃ out, (process_arp (ex_ctx_pending [ex_frame 0]) ex_arp_reply).sent
        = [⟨ex_eth1, out, sent_kind_t.forward⟩] ∧
      rd8 out 22 = 255 ∧ ¬ (rd8 out 22 + 1 = rd8 (ex_frame 0).raw 22) :=
  ⟨by decide, _, rfl, by decide, by decide⟩

end Router

namespace Router

/-! ## C39: the TTL of a forwarded frame -/

theorem rd8_forward_rewrite_ttl (inp src_mac dst_mac : List Nat) (hlen : 34 ≤ inp.length)
    (hs : src_mac.length = 6) (hd : dst_mac.length = 6) :
    rd8 (forward_rewrite inp src_mac dst_mac) 22 = (rd8 inp 22 + 255) % 256 := by
  have h := forward_rewrite_getElem? inp src_mac dst_mac hlen hs hd 22
  simp only [show ¬ ((22 : Nat) = 25) by decide, show ¬ ((22 : Nat) = 24) by decide,
    if_false, if_true] at h
  exact rd8_of_getElem? _ _ _ h

/-- C39, counterexample: a datagram for 10.0.1.5 with TTL 0 arrives on eth0 with
the next hop in the ARP cache: `chirouter_process_ethernet_frame` sends it on
eth1 with TTL 255, which is larger than the inbound TTL. -/
theorem process_frame_ttl_zero_forwarded_with_larger_ttl :
    rd8 (ex_frame 0).raw 22 = 0 ∧
    ∃ o out, chirouter_process_ethernet_frame (ex_ctx [⟨in_addr 10 0 1 5, ex_host_mac⟩])
        (ex_frame 0) = some o ∧
      o.sent = [⟨ex_eth1, out, sent_kind_t.forward⟩] ∧
      rd8 out 22 = 255 ∧ ¬ (rd8 out 22 < rd8 (ex_frame 0).raw 22) :=
  ⟨by decide, _, _, rfl, rfl, by decide, by decide⟩

/-- C39, amended: every frame that `chirouter_forward_ip` forwards, and every
withheld frame that the ARP-reply path of `process_arp` forwards, leaves with
the TTL (inbound TTL + 255) mod 256: for an inbound TTL of at least 2 the
outbound TTL is the inbound TTL minus 1, which is smaller; a frame with TTL 1
is not forwarded; and a frame with inbound TTL 0 is forwarded with TTL 255. -/
theorem forwarded_ttl (ctx : chirouter_ctx_t) (frame : ethernet_frame_t) (gateway : Nat)
    (frame_out_iface : chirouter_interface_t) (query_mac : List Nat)
    (pending_arp : chirouter_pending_arp_req_t)
    (hlen : 34 ≤ frame.raw.length) (hb : BytesOK frame.raw)
    (hout : frame_out_iface.mac.length = 6)
    (hcache : ∀ e ∈ ctx.arpcache, e.mac.length = 6)
    (hq : query_mac.length = 6) (hp : pending_arp.out_interface.mac.length = 6) :
    (∀ s ∈ (chirouter_forward_ip ctx frame gateway frame_out_iface).sent,
      s.kind = sent_kind_t.forward →
        rd8 frame.raw 22 ≠ 1 ∧
        rd8 s.msg 22 = (rd8 frame.raw 22 + 255) % 256 ∧
        (2 ≤ rd8 frame.raw 22 →
          rd8 s.msg 22 + 1 = rd8 frame.raw 22 ∧ rd8 s.msg 22 < rd8 frame.raw 22) ∧
        (rd8 frame.raw 22 = 0 → rd8 s.msg 22 = 255)) ∧
    ((forward_withheld query_mac pending_arp frame).kind = sent_kind_t.forward →
        rd8 frame.raw 22 ≠ 1 ∧
        rd8 (forward_withheld query_mac pending_arp frame).msg 22
          = (rd8 frame.raw 22 + 255) % 256 ∧
        (2 ≤ rd8 frame.raw 22 →
          rd8 (forward_withheld query_mac pending_arp frame).msg 22 + 1 = rd8 frame.raw 22 ∧
          rd8 (forward_withheld query_mac pending_arp frame).msg 22 < rd8 frame.raw 22) ∧
        (rd8 frame.raw 22 = 0 →
          rd8 (forward_withheld query_mac pending_arp frame).msg 22 = 255)) := by
  have hlt : rd8 frame.raw 22 < 256 := by
    rw [rd8_eq]
    have h22 : 22 < frame.raw.length := by omega
    rw [List.getElem?_eq_getElem h22]
    exact hb _ (List.getElem_mem _)
  have fin : ∀ t : Nat, t = (rd8 frame.raw 22 + 255) % 256 → rd8 frame.raw 22 ≠ 1 →
      rd8 frame.raw 22 ≠ 1 ∧ t = (rd8 frame.raw 22 + 255) % 256 ∧
      (2 ≤ rd8 frame.raw 22 → t + 1 = rd8 frame.raw 22 ∧ t < rd8 frame.raw 22) ∧
      (rd8 frame.raw 22 = 0 → t = 255) := by
    intro t ht h1
    refine ⟨h1, ht, ?_, ?_⟩
    · intro h2
      omega
    · intro h0
      rw [ht, h0]
  constructor
  · intro s hs hk
    unfold chirouter_forward_ip at hs
    simp only at hs
    split at hs
    · unfold chirouter_send_arp at hs
      simp only [if_true, List.mem_singleton] at hs
      rw [hs] at hk
      cases hk
    · rename_i arp_entry hhit
      have hmac : arp_entry.mac.length = 6 := by
        unfold chirouter_arp_cache_lookup at hhit
        exact hcache _ (List.mem_of_find?_eq_some hhit)
      split_ifs at hs with h1
      · simp only [List.mem_singleton] at hs
        rw [hs] at hk
        cases hk
      · simp only [List.mem_singleton] at hs
        rw [hs]
        exact fin _ (rd8_forward_rewrite_ttl _ _ _ hlen hout hmac) h1
  · intro hk
    unfold forward_withheld at hk ⊢
    by_cases h1 : rd8 frame.raw 22 = 1
    · rw [if_pos h1] at hk
      cases hk
    · rw [if_neg h1]
      show _ ∧ rd8 (withheld_rewrite frame.raw query_mac pending_arp.out_interface.mac) 22 = _ ∧ _
      rw [withheld_rewrite_eq]
      exact fin _ (rd8_forward_rewrite_ttl _ _ _ hlen hp hq) h1

/-- C39, witness: the datagram with TTL 64 is forwarded with TTL 63. -/
theorem forwarded_ttl_witness :
    rd8 (forward_rewrite (ex_frame 64).raw ex_eth1.mac ex_host_mac) 22 + 1 = 64 ∧
    rd8 (forward_rewrite (ex_frame 64).raw ex_eth1.mac ex_host_mac) 22 < 64 :=
  ((forwarded_ttl (ex_ctx [⟨in_addr 10 0 1 5, ex_host_mac⟩]) (ex_frame 64) 0 ex_eth1
    ex_host_mac ⟨in_addr 10 0 1 5, ex_eth1, []⟩ (by decide) (by decide) (by decide)
    (by decide) (by decide) (by decide)).1
      ⟨ex_eth1, forward_rewrite (ex_frame 64).raw ex_eth1.mac ex_host_mac, sent_kind_t.forward⟩
      (List.mem_singleton.mpr rfl) rfl).2.2.1 (by decide)

end Router

namespace TCP

/-! ## C10: bounds of the retransmission timeout -/

theorem clamp_RTO_bounds (RTO : Nat) : MIN_RTO ≤ clamp_RTO RTO ∧ clamp_RTO RTO ≤ MAX_RTO := by
  unfold clamp_RTO
  simp only [MIN_RTO, MAX_RTO, MILLISECOND, SECOND]
  split_ifs <;> omega

theorem update_RTO_eq_clamp (fp : double_ops) (tcp_data : tcp_data_t)
    (recv_ts sent_ts : timespec) :
    ∃ r, (update_RTO fp tcp_data recv_ts sent_ts).RTO = clamp_RTO r := by
  unfold update_RTO
  exact ⟨_, rfl⟩

theorem timeout_rtx_eq_clamp (tcp_data : tcp_data_t) (now : timespec) :
    (chitcpd_tcp_state_handle_TIMEOUT_RTX tcp_data now).1.RTO
      = clamp_RTO ((tcp_data.RTO * 2) % 2 ^ 64) := by
  unfold chitcpd_tcp_state_handle_TIMEOUT_RTX
  simp only
  split_ifs <;> rfl

/-- C10: `tcp_data_init` (with `mt_init` successful) sets RTO to MIN_RTO = 200 ms;
after every call of `update_RTO` (any timestamps, any prior SRTT, RTTVAR and RTO,
whatever the double-precision expressions evaluate to) and after every
`chitcpd_tcp_state_handle_TIMEOUT_RTX` the stored RTO lies between MIN_RTO and
MAX_RTO (200 ms and 60 s in nanoseconds); hence it does so after `tcp_data_init`
followed by any sequence of these calls. -/
theorem rto_within_bounds :
    MIN_RTO = 200000000 ∧ MAX_RTO = 60000000000 ∧
    (∀ tcp_data : tcp_data_t, (tcp_data_init true tcp_data).RTO = MIN_RTO) ∧
    (∀ (fp : double_ops) (tcp_data : tcp_data_t) (recv_ts sent_ts : timespec),
      MIN_RTO ≤ (update_RTO fp tcp_data recv_ts sent_ts).RTO ∧
        (update_RTO fp tcp_data recv_ts sent_ts).RTO ≤ MAX_RTO) ∧
    (∀ (tcp_data : tcp_data_t) (now : timespec),
      MIN_RTO ≤ (chitcpd_tcp_state_handle_TIMEOUT_RTX tcp_data now).1.RTO ∧
        (chitcpd_tcp_state_handle_TIMEOUT_RTX tcp_data now).1.RTO ≤ MAX_RTO) ∧
    (∀ (tcp_data : tcp_data_t) (calls : List rto_call_t),
      MIN_RTO ≤ (rto_run (tcp_data_init true tcp_data) calls).RTO ∧
        (rto_run (tcp_data_init true tcp_data) calls).RTO ≤ MAX_RTO) := by
  have hu : ∀ (fp : double_ops) (tcp_data : tcp_data_t) (recv_ts sent_ts : timespec),
      MIN_RTO ≤ (update_RTO fp tcp_data recv_ts sent_ts).RTO ∧
        (update_RTO fp tcp_data recv_ts sent_ts).RTO ≤ MAX_RTO := by
    intro fp tcp_data recv_ts sent_ts
    obtain ⟨r, hr⟩ := update_RTO_eq_clamp fp tcp_data recv_ts sent_ts
    rw [hr]; exact clamp_RTO_bounds r
  have ht : ∀ (tcp_data : tcp_data_t) (now : timespec),
      MIN_RTO ≤ (chitcpd_tcp_state_handle_TIMEOUT_RTX tcp_data now).1.RTO ∧
        (chitcpd_tcp_state_handle_TIMEOUT_RTX tcp_data now).1.RTO ≤ MAX_RTO := by
    intro tcp_data now
    rw [timeout_rtx_eq_clamp]; exact clamp_RTO_bounds _
  refine ⟨by decide, by decide, fun _ => rfl, hu, ht, ?_⟩
  intro tcp_data calls
  unfold rto_run
  have h0 : MIN_RTO ≤ (tcp_data_init true tcp_data).RTO ∧
      (tcp_data_init true tcp_data).RTO ≤ MAX_RTO := by
    show MIN_RTO ≤ MIN_RTO ∧ MIN_RTO ≤ MAX_RTO
    exact ⟨Nat.le_refl _, by decide⟩
  generalize tcp_data_init true tcp_data = s at h0
  induction calls generalizing s with
  | nil => exact h0
  | cons c rest ih =>
    rw [List.foldl_cons]
    apply ih
    cases c with
    | update fp recv_ts sent_ts => exact hu fp s recv_ts sent_ts
    | timeout_rtx now => exact ht s now

/-! ## C11: the first measurement of the round-trip time -/

theorem timespec_subtract_ns (x y : timespec) :
    timespec_ns (timespec_subtract x y).1 = timespec_ns x - timespec_ns y := by
  unfold timespec_subtract timespec_ns
  simp only
  split_ifs <;> ring

theorem clamp_RTO_eq (RTO : Nat) : clamp_RTO RTO = max MIN_RTO (min MAX_RTO RTO) := by
  unfold clamp_RTO
  simp only [MIN_RTO, MAX_RTO, MILLISECOND, SECOND]
  split_ifs <;> omega

theorem measured_RTT_eq (recv_ts sent_ts : timespec) (R : Nat)
    (hR : timespec_ns recv_ts - timespec_ns sent_ts = (R : Int)) (hb : R < 2 ^ 64) :
    measured_RTT recv_ts sent_ts = R := by
  have h := timespec_subtract_ns recv_ts sent_ts
  rw [hR] at h
  unfold timespec_ns at h
  unfold measured_RTT
  rw [h]
  have : ((R : Int)) % 2 ^ 64 = ((R % 2 ^ 64 : Nat) : Int) := by norm_cast
  rw [this, Nat.mod_eq_of_lt hb, Int.toNat_ofNat]

theorem update_RTO_first (fp : double_ops) (tcp_data : tcp_data_t) (recv_ts sent_ts : timespec)
    (hfirst : tcp_data.first_RTT = true) :
    update_RTO fp tcp_data recv_ts sent_ts =
      { tcp_data with
        RTT := measured_RTT recv_ts sent_ts
        SRTT := measured_RTT recv_ts sent_ts
        RTTVAR := measured_RTT recv_ts sent_ts / 2
        RTO := clamp_RTO
          (if CLOCK_GRANULARITY > (4 * (measured_RTT recv_ts sent_ts / 2)) % 2 ^ 64 then
            (measured_RTT recv_ts sent_ts + CLOCK_GRANULARITY) % 2 ^ 64
          else (measured_RTT recv_ts sent_ts + 4 * (measured_RTT recv_ts sent_ts / 2)) % 2 ^ 64)
        first_RTT := false } := by
  unfold update_RTO measured_RTT
  simp only [hfirst, if_true]
  split_ifs <;> rfl

/-- C11: with `first_RTT` set, `update_RTO` called with timestamps whose difference
is R nanoseconds (R >= 0, and 3 R below 2^64, which is about 195 years) sets
SRTT = R, RTTVAR = R / 2 in integer division and
RTO = clamp (SRTT + max (50 ms, 4 RTTVAR)) to the range from 200 ms to 60 s,
and it clears `first_RTT`. -/
theorem update_RTO_first_measurement (fp : double_ops) (tcp_data : tcp_data_t)
    (recv_ts sent_ts : timespec) (R : Nat)
    (hfirst : tcp_data.first_RTT = true)
    (hR : timespec_ns recv_ts - timespec_ns sent_ts = (R : Int))
    (hb : 3 * R < 2 ^ 64) :
    (update_RTO fp tcp_data recv_ts sent_ts).SRTT = R ∧
    (update_RTO fp tcp_data recv_ts sent_ts).RTTVAR = R / 2 ∧
    (update_RTO fp tcp_data recv_ts sent_ts).RTO
      = max 200000000 (min 60000000000 (R + max 50000000 (4 * (R / 2)))) ∧
    (update_RTO fp tcp_data recv_ts sent_ts).first_RTT = false := by
  rw [update_RTO_first fp tcp_data recv_ts sent_ts hfirst,
    measured_RTT_eq recv_ts sent_ts R hR (by omega)]
  refine ⟨rfl, rfl, ?_, rfl⟩
  show clamp_RTO _ = _
  rw [clamp_RTO_eq, Nat.mod_eq_of_lt (show 4 * (R / 2) < 2 ^ 64 by omega)]
  simp only [CLOCK_GRANULARITY, MIN_RTO, MAX_RTO, MILLISECOND, SECOND]
  congr 2
  split_ifs with hg
  · rw [Nat.mod_eq_of_lt (by omega)]; omega
  · rw [Nat.mod_eq_of_lt (by omega)]; omega

theorem update_RTO_first_measurement_witness :
    (update_RTO exact_double_ops { ex_init_data with first_RTT := true }
        ⟨10, 100000000⟩ ⟨10, 0⟩).SRTT = 100000000 ∧
    (update_RTO exact_double_ops { ex_init_data with first_RTT := true }
        ⟨10, 100000000⟩ ⟨10, 0⟩).RTTVAR = 100000000 / 2 ∧
    (update_RTO exact_double_ops { ex_init_data with first_RTT := true }
        ⟨10, 100000000⟩ ⟨10, 0⟩).RTO
      = max 200000000 (min 60000000000 (100000000 + max 50000000 (4 * (100000000 / 2)))) ∧
    (update_RTO exact_double_ops { ex_init_data with first_RTT := true }
        ⟨10, 100000000⟩ ⟨10, 0⟩).first_RTT = false :=
  update_RTO_first_measurement exact_double_ops { ex_init_data with first_RTT := true }
    ⟨10, 100000000⟩ ⟨10, 0⟩ 100000000 rfl (by decide) (by decide)

/-! ## C12: later measurements of the round-trip time -/

theorem update_RTO_later (fp : double_ops) (tcp_data : tcp_data_t) (recv_ts sent_ts : timespec)
    (hfirst : tcp_data.first_RTT = false) :
    (update_RTO fp tcp_data recv_ts sent_ts).RTTVAR
      = fp.rttvar tcp_data.RTTVAR
          (abs_int ((tcp_data.SRTT + 2 ^ 64 - measured_RTT recv_ts sent_ts) % 2 ^ 64)) % 2 ^ 64 ∧
    (update_RTO fp tcp_data recv_ts sent_ts).SRTT
      = fp.srtt tcp_data.SRTT (measured_RTT recv_ts sent_ts) % 2 ^ 64 := by
  unfold update_RTO measured_RTT
  simp only [hfirst, Bool.false_eq_true, if_false]
  split_ifs <;> exact ⟨rfl, rfl⟩

theorem abs_int_small_difference (SRTT R : Nat) (hS : SRTT < 2 ^ 64) (hR : R < 2 ^ 64)
    (hd : max SRTT R - min SRTT R < 2 ^ 31) :
    abs_int ((SRTT + 2 ^ 64 - R) % 2 ^ 64) = ((max SRTT R - min SRTT R : Nat) : Int) := by
  unfold abs_int
  simp only
  rcases Nat.le_total R SRTT with h | h
  · have e : (SRTT + 2 ^ 64 - R) % 2 ^ 64 % 2 ^ 32 = SRTT - R := by
      rw [max_eq_left h, min_eq_right h] at hd
      omega
    rw [e, max_eq_left h, min_eq_right h]
    rw [max_eq_left h, min_eq_right h] at hd
    simp only [hd, if_true]
  · rw [max_eq_right h, min_eq_left h] at hd ⊢
    by_cases h0 : R = SRTT
    · subst h0
      have e : (R + 2 ^ 64 - R) % 2 ^ 64 % 2 ^ 32 = 0 := by omega
      rw [e]; simp
    · have e : (SRTT + 2 ^ 64 - R) % 2 ^ 64 % 2 ^ 32 = 2 ^ 32 - (R - SRTT) := by omega
      rw [e]
      have h1 : ¬ (2 ^ 32 - (R - SRTT) < 2 ^ 31) := by omega
      have h2 : ¬ (2 ^ 32 - (R - SRTT) = 2 ^ 31) := by omega
      simp only [h1, h2, if_false]
      congr 1
      omega

/-- C12: the later measurement does not compute RTTVAR' = floor(3/4 RTTVAR + 1/4
|SRTT - R|) when |SRTT - R| is 2^31 nanoseconds or more: `abs` takes an `int`, so
that the difference is cut to 32 bits first.  With SRTT = 200 ms, RTTVAR = 100 ms
and a measurement R = 3 s (exact double arithmetic), `update_RTO` stores
RTTVAR = 448741824 where the formula gives 775000000; SRTT' is as the formula
says, and the RTO that follows is 2344967296 instead of 3650000000. -/
theorem update_RTO_abs_cut_to_32_bits :
    (update_RTO exact_double_ops ex_established ⟨13, 0⟩ ⟨10, 0⟩).RTT = 3000000000 ∧
    (update_RTO exact_double_ops ex_established ⟨13, 0⟩ ⟨10, 0⟩).RTTVAR = 448741824 ∧
    spec_update_RTTVAR ex_established.RTTVAR ex_established.SRTT 3000000000 = 775000000 ∧
    (update_RTO exact_double_ops ex_established ⟨13, 0⟩ ⟨10, 0⟩).SRTT
      = spec_update_SRTT ex_established.SRTT 3000000000 ∧
    (update_RTO exact_double_ops ex_established ⟨13, 0⟩ ⟨10, 0⟩).RTO = 2344967296 ∧
    spec_update_RTO ex_established.RTTVAR ex_established.SRTT 3000000000 = 3650000000 := by
  decide

/-! ## C13: the retransmission timeout -/

theorem timer_armed_DL_SORT (l : List active_timer_t) (id : Nat) :
    (DL_SORT l).any (fun elt => elt.timer == id) = l.any (fun elt => elt.timer == id) := by
  unfold DL_SORT
  have hp := List.perm_insertionSort (fun a b : active_timer_t => timeoutcmp a b ≤ 0) l
  rw [Bool.eq_iff_iff, List.any_eq_true, List.any_eq_true]
  constructor
  · rintro ⟨x, hx, h⟩; exact ⟨x, hp.mem_iff.mp hx, h⟩
  · rintro ⟨x, hx, h⟩; exact ⟨x, hp.mem_iff.mpr hx, h⟩

theorem timer_armed_mt_set_timer (mt : multi_timer_t) (id timeout : Nat)
    (callback_fn callback_args : Option Nat) (now : timespec) (hid : id < mt.num_timers) :
    timer_armed (mt_set_timer mt id timeout callback_fn callback_args now).1 id = true := by
  unfold mt_set_timer timer_armed
  have h1 : ¬ (id ≥ mt.num_timers ∨ id < 0) := by omega
  simp only [h1, if_false]
  by_cases h2 : mt.active_timers.any (fun elt => elt.timer == id) = true
  · simp only [h2, if_true]
  · rw [if_neg h2]
    show (DL_SORT _).any _ = true
    rw [timer_armed_DL_SORT]
    simp

theorem timer_armed_tcp_set_timer (tcp_data : tcp_data_t) (id : Nat) (now : timespec)
    (hid : id < tcp_data.mt.num_timers) :
    timer_armed (tcp_set_timer tcp_data id now).1.mt id = true := by
  unfold tcp_set_timer
  exact timer_armed_mt_set_timer _ _ _ _ _ _ hid

theorem rtx_resend_fst (SND_WND : Nat) (now : timespec) (elt : retransmission_queue_t) :
    (rtx_resend SND_WND now elt).1
      = if rtx_skipped SND_WND elt then elt
        else { elt with packet_sent_ts := now, retransmitted := true } := by
  unfold rtx_resend rtx_skipped
  split_ifs <;> simp_all

theorem rtx_resend_snd (SND_WND : Nat) (now : timespec) (elt : retransmission_queue_t) :
    (rtx_resend SND_WND now elt).2
      = if rtx_skipped SND_WND elt then []
        else [tcp_action_t.send_tcp_packet elt.packet_sent] := by
  unfold rtx_resend rtx_skipped
  split_ifs <;> simp_all

theorem rtx_resend_sent (SND_WND : Nat) (now : timespec) (q : List retransmission_queue_t) :
    sent_packets ((q.map (rtx_resend SND_WND now)).map Prod.snd).flatten
      = (q.filter (fun elt => !rtx_skipped SND_WND elt)).map (fun elt => elt.packet_sent) := by
  induction q with
  | nil => rfl
  | cons a q ih =>
    simp only [List.map_cons, List.flatten_cons, List.filter_cons]
    unfold sent_packets at ih ⊢
    rw [List.filterMap_append, ih, rtx_resend_snd]
    by_cases h : rtx_skipped SND_WND a = true
    · simp [h]
    · simp [h]

theorem timeout_rtx_unfold (tcp_data : tcp_data_t) (now : timespec) :
    chitcpd_tcp_state_handle_TIMEOUT_RTX tcp_data now =
      if tcp_data.rt_queue = [] then
        ({ tcp_data with
            RTO := clamp_RTO ((tcp_data.RTO * 2) % 2 ^ 64)
            rt_queue := []
            rtms_timer_on := false }, [])
      else
        ((tcp_set_timer { tcp_data with
            RTO := clamp_RTO ((tcp_data.RTO * 2) % 2 ^ 64)
            rt_queue := (tcp_data.rt_queue.map (rtx_resend tcp_data.SND_WND now)).map Prod.fst
            rtms_timer_on := true } RETRANSMISSION now).1,
          ((tcp_data.rt_queue.map (rtx_resend tcp_data.SND_WND now)).map Prod.snd).flatten
            ++ [tcp_action_t.set_timer RETRANSMISSION (clamp_RTO ((tcp_data.RTO * 2) % 2 ^ 64))]) := by
  unfold chitcpd_tcp_state_handle_TIMEOUT_RTX
  cases hq : tcp_data.rt_queue with
  | nil => simp [hq]
  | cons a q => simp [hq, tcp_set_timer]

theorem sent_packets_append (a b : List tcp_action_t) :
    sent_packets (a ++ b) = sent_packets a ++ sent_packets b := by
  unfold sent_packets
  exact List.filterMap_append _ _ _

/-- C13: in a state whose RTO is within its bounds (200 ms to 60 s, as it is after
`tcp_data_init`) and whose retransmission timer has fired,
`chitcpd_tcp_state_handle_TIMEOUT_RTX` sets RTO' = min (2 RTO, MAX_RTO); sends
again, in queue order, the packet of every entry of the retransmission queue
except, when SND.WND = 0, those with neither SYN nor FIN; stamps and marks
each entry it sent again as retransmitted and leaves the others as they are, so
that the packets, the expected acknowledgment numbers and the order of the queue
are unchanged; leaves SND.UNA and SND.NXT unchanged; and leaves the flag
`rtms_timer_on` set and the RETRANSMISSION timer armed exactly when the queue
is not empty. -/
theorem timeout_rtx_effect (tcp_data : tcp_data_t) (now : timespec)
    (hlo : MIN_RTO ≤ tcp_data.RTO) (hhi : tcp_data.RTO ≤ MAX_RTO)
    (hmt : RETRANSMISSION < tcp_data.mt.num_timers)
    (hidle : timer_armed tcp_data.mt RETRANSMISSION = false) :
    (chitcpd_tcp_state_handle_TIMEOUT_RTX tcp_data now).1.RTO = min (2 * tcp_data.RTO) MAX_RTO ∧
    sent_packets (chitcpd_tcp_state_handle_TIMEOUT_RTX tcp_data now).2
      = (tcp_data.rt_queue.filter (fun elt => !rtx_skipped tcp_data.SND_WND elt)).map
          (fun elt => elt.packet_sent) ∧
    (chitcpd_tcp_state_handle_TIMEOUT_RTX tcp_data now).1.rt_queue
      = tcp_data.rt_queue.map (fun elt =>
          if rtx_skipped tcp_data.SND_WND elt then elt
          else { elt with packet_sent_ts := now, retransmitted := true }) ∧
    (chitcpd_tcp_state_handle_TIMEOUT_RTX tcp_data now).1.rt_queue.map
        (fun elt => (elt.packet_sent, elt.expected_ack_seq))
      = tcp_data.rt_queue.map (fun elt => (elt.packet_sent, elt.expected_ack_seq)) ∧
    (chitcpd_tcp_state_handle_TIMEOUT_RTX tcp_data now).1.SND_UNA = tcp_data.SND_UNA ∧
    (chitcpd_tcp_state_handle_TIMEOUT_RTX tcp_data now).1.SND_NXT = tcp_data.SND_NXT ∧
    ((chitcpd_tcp_state_handle_TIMEOUT_RTX tcp_data now).1.rtms_timer_on = true
      ↔ tcp_data.rt_queue ≠ []) ∧
    (timer_armed (chitcpd_tcp_state_handle_TIMEOUT_RTX tcp_data now).1.mt RETRANSMISSION = true
      ↔ tcp_data.rt_queue ≠ []) := by
  have hRTO : clamp_RTO ((tcp_data.RTO * 2) % 2 ^ 64) = min (2 * tcp_data.RTO) MAX_RTO := by
    rw [clamp_RTO_eq]
    simp only [MIN_RTO, MAX_RTO, MILLISECOND, SECOND] at hlo hhi ⊢
    rw [Nat.mod_eq_of_lt (by omega)]
    omega
  have hq : (tcp_data.rt_queue.map (rtx_resend tcp_data.SND_WND now)).map Prod.fst
      = tcp_data.rt_queue.map (fun elt =>
          if rtx_skipped tcp_data.SND_WND elt then elt
          else { elt with packet_sent_ts := now, retransmitted := true }) := by
    rw [List.map_map]
    apply List.map_congr_left
    intro a _
    exact rtx_resend_fst _ _ _
  have hk : (tcp_data.rt_queue.map (fun elt =>
          if rtx_skipped tcp_data.SND_WND elt then elt
          else { elt with packet_sent_ts := now, retransmitted := true })).map
        (fun elt => (elt.packet_sent, elt.expected_ack_seq))
      = tcp_data.rt_queue.map (fun elt => (elt.packet_sent, elt.expected_ack_seq)) := by
    rw [List.map_map]
    apply List.map_congr_left
    intro a _
    simp only [Function.comp]
    split_ifs <;> rfl
  rw [timeout_rtx_unfold]
  by_cases he : tcp_data.rt_queue = []
  · rw [if_pos he]
    refine ⟨hRTO, by rw [he]; rfl, by rw [he]; rfl, by rw [he], rfl, rfl, ?_, ?_⟩
    · simp [he]
    · simp [he, hidle]
  · rw [if_neg he]
    refine ⟨?_, ?_, ?_, ?_, rfl, rfl, ?_, ?_⟩
    · exact hRTO
    · rw [sent_packets_append, rtx_resend_sent]
      simp [sent_packets]
    · exact hq
    · show List.map _ ((tcp_data.rt_queue.map (rtx_resend tcp_data.SND_WND now)).map Prod.fst) = _
      rw [hq, hk]
    · simp only [ne_eq, he, not_false_eq_true, iff_true]
      rfl
    · simp only [ne_eq, he, not_false_eq_true, iff_true]
      exact timer_armed_tcp_set_timer _ _ _ hmt

theorem timeout_rtx_effect_witness :
    (chitcpd_tcp_state_handle_TIMEOUT_RTX
        { ex_established with
          SND_NXT := 334
          rt_queue := [⟨make_packet 0 1 0 233 2001 4096 (List.replicate 101 88), ⟨99, 0⟩, 334, false⟩]
          rtms_timer_on := true } ⟨100, 0⟩).1.RTO = min (2 * 600000000) MAX_RTO ∧
    sent_packets (chitcpd_tcp_state_handle_TIMEOUT_RTX
        { ex_established with
          SND_NXT := 334
          rt_queue := [⟨make_packet 0 1 0 233 2001 4096 (List.replicate 101 88), ⟨99, 0⟩, 334, false⟩]
          rtms_timer_on := true } ⟨100, 0⟩).2
      = [make_packet 0 1 0 233 2001 4096 (List.replicate 101 88)] ∧
    (chitcpd_tcp_state_handle_TIMEOUT_RTX
        { ex_established with
          SND_NXT := 334
          rt_queue := [⟨make_packet 0 1 0 233 2001 4096 (List.replicate 101 88), ⟨99, 0⟩, 334, false⟩]
          rtms_timer_on := true } ⟨100, 0⟩).1.rt_queue
      = [⟨make_packet 0 1 0 233 2001 4096 (List.replicate 101 88), ⟨100, 0⟩, 334, true⟩] ∧
    timer_armed (chitcpd_tcp_state_handle_TIMEOUT_RTX
        { ex_established with
          SND_NXT := 334
          rt_queue := [⟨make_packet 0 1 0 233 2001 4096 (List.replicate 101 88), ⟨99, 0⟩, 334, false⟩]
          rtms_timer_on := true } ⟨100, 0⟩).1.mt RETRANSMISSION = true := by
  have h := timeout_rtx_effect
    { ex_established with
      SND_NXT := 334
      rt_queue := [⟨make_packet 0 1 0 233 2001 4096 (List.replicate 101 88), ⟨99, 0⟩, 334, false⟩]
      rtms_timer_on := true } ⟨100, 0⟩ (by decide) (by decide) (by decide) (by decide)
  exact ⟨h.1, h.2.1, h.2.2.1, h.2.2.2.2.2.2.2.mpr (by decide)⟩

/-! ## Lemmas: timers and the retransmission queue -/

theorem timer_armed_eraseP_ne (l : List active_timer_t) (id id2 : Nat) (hne : id2 ≠ id) :
    (l.eraseP (fun elt => elt.timer == id)).any (fun elt => elt.timer == id2)
      = l.any (fun elt => elt.timer == id2) := by
  induction l with
  | nil => rfl
  | cons a l ih =>
    rw [List.eraseP_cons]
    by_cases h : a.timer = id
    · have : (a.timer == id) = true := by simp [h]
      have h2 : (a.timer == id2) = false := by
        simp only [beq_eq_false_iff_ne, ne_eq]
        omega
      simp [this, h2]
    · have : (a.timer == id) = false := by simp [h]
      simp only [this, cond_false, List.any_cons, ih]

theorem mt_wf_set_timer (mt : multi_timer_t) (id timeout : Nat)
    (callback_fn callback_args : Option Nat) (now : timespec) (h : mt_wf mt) :
    mt_wf (mt_set_timer mt id timeout callback_fn callback_args now).1 := by
  obtain ⟨ha, hl, hw⟩ := h
  unfold mt_set_timer
  by_cases h1 : id ≥ mt.num_timers ∨ id < 0
  · rw [if_pos h1]; exact ⟨ha, hl, hw⟩
  · rw [if_neg h1]
    by_cases h2 : mt.active_timers.any (fun elt => elt.timer == id) = true
    · rw [if_pos h2]; exact ⟨ha, hl, hw⟩
    · rw [if_neg h2]
      refine ⟨ha, ?_, ?_⟩
      · show (List.modify _ _ _).length = _
        rw [List.length_modify]; exact hl
      · intro id2 t ht hact
        show (DL_SORT _).any _ = true
        rw [timer_armed_DL_SORT, List.any_append]
        by_cases hid : id2 = id
        · subst hid; simp
        · have ht2 : mt.timers[id2]? = some t := by
            have : (List.modify (fun t : single_timer_t =>
                ({ t with active := true, callback_fn := callback_fn,
                          callback_args := callback_args } : single_timer_t)) id mt.timers)[id2]?
                = some t := ht
            rw [List.getElem?_modify] at this
            have hne : ¬ (id = id2) := fun e => hid e.symm
            simpa [hne] using this
          have := hw id2 t ht2 hact
          unfold timer_armed at this
          rw [this]; rfl

theorem mt_cancel_timer_some (mt : multi_timer_t) (id : Nat) (h : mt_wf mt) :
    ∃ mt2 rc, mt_cancel_timer mt id = some (mt2, rc) ∧ mt_wf mt2 ∧
      mt2.num_timers = mt.num_timers := by
  obtain ⟨ha, hl, hw⟩ := h
  unfold mt_cancel_timer
  by_cases h1 : id ≥ mt.num_timers ∨ id < 0
  · rw [if_pos h1]; exact ⟨mt, _, rfl, ⟨ha, hl, hw⟩, rfl⟩
  · rw [if_neg h1, if_pos ha]
    have hlt : id < mt.timers.length := by omega
    rw [List.getElem?_eq_getElem hlt]
    simp only
    by_cases hact : (mt.timers[id]).active = true
    · have harm := hw id _ (List.getElem?_eq_getElem hlt) hact
      unfold timer_armed at harm
      have hne : mt.active_timers.isEmpty = false := by
        cases hq : mt.active_timers with
        | nil => rw [hq] at harm; simp at harm
        | cons a l => rfl
      simp only [hact, Bool.not_true, Bool.false_eq_true, if_false, delete_timer, hne, harm,
        if_true, Option.map_some']
      refine ⟨_, _, rfl, ⟨ha, ?_, ?_⟩, rfl⟩
      · show (List.modify _ _ _).length = _
        rw [List.length_modify]; exact hl
      · intro id2 t ht hact2
        have ht' : (List.modify (fun t : single_timer_t =>
            ({ t with active := false } : single_timer_t)) id mt.timers)[id2]? = some t := ht
        rw [List.getElem?_modify] at ht'
        by_cases hid : id = id2
        · subst hid
          rw [List.getElem?_eq_getElem hlt] at ht'
          simp at ht'
          rw [← ht'] at hact2
          simp at hact2
        · simp [hid] at ht'
          have := hw id2 t ht' hact2
          unfold timer_armed at this ⊢
          show (List.eraseP _ _).any _ = true
          rw [timer_armed_eraseP_ne _ _ _ (fun e => hid e.symm)]
          exact this
    · simp only [hact, Bool.not_false, if_true]
      exact ⟨mt, _, rfl, ⟨ha, hl, hw⟩, rfl⟩

theorem mt_wf_tcp_data_init (tcp_data : tcp_data_t) : mt_wf (tcp_data_init true tcp_data).mt := by
  refine ⟨rfl, rfl, ?_⟩
  intro id t ht hact
  have h : (tcp_data_init true tcp_data).mt.timers
      = [⟨0, false, 0, some rtx_callback_fn, some RETRANSMISSION,
           [82, 69, 84, 82, 65, 78, 83, 77, 73, 83, 83, 73, 79, 78]⟩,
         ⟨1, false, 0, some pst_callback_fn, some PERSIST, [80, 69, 82, 83, 73, 83, 84]⟩] := rfl
  rw [h] at ht
  match id, ht with
  | 0, ht => simp at ht; rw [← ht] at hact; simp at hact
  | 1, ht => simp at ht; rw [← ht] at hact; simp at hact
  | n + 2, ht => simp at ht

theorem tcp_set_timer_eq (tcp_data : tcp_data_t) (id : Nat) (now : timespec) :
    ∃ mt, tcp_set_timer tcp_data id now
        = ({ tcp_data with mt := mt }, [tcp_action_t.set_timer id tcp_data.RTO]) ∧
      (mt_wf tcp_data.mt → mt_wf mt) ∧ mt.num_timers = tcp_data.mt.num_timers ∧
      (id < tcp_data.mt.num_timers → timer_armed mt id = true) := by
  refine ⟨_, rfl, mt_wf_set_timer _ _ _ _ _ _, ?_, timer_armed_mt_set_timer _ _ _ _ _ _⟩
  unfold mt_set_timer
  split_ifs <;> rfl

theorem tcp_cancel_timer_eq (tcp_data : tcp_data_t) (id : Nat) (h : mt_wf tcp_data.mt) :
    ∃ mt, tcp_cancel_timer tcp_data id
        = some ({ tcp_data with mt := mt }, [tcp_action_t.cancel_timer id]) ∧ mt_wf mt ∧
      mt.num_timers = tcp_data.mt.num_timers := by
  obtain ⟨mt2, rc, h1, h2, h3⟩ := mt_cancel_timer_some tcp_data.mt id h
  refine ⟨mt2, ?_, h2, h3⟩
  unfold tcp_cancel_timer
  rw [h1]

theorem with_rtx_self (tcp_data : tcp_data_t) :
    with_rtx tcp_data tcp_data.RTT tcp_data.SRTT tcp_data.RTTVAR tcp_data.RTO tcp_data.first_RTT
      tcp_data.send tcp_data.rt_queue tcp_data.rtms_timer_on tcp_data.mt = tcp_data := rfl

theorem update_RTO_shape (fp : double_ops) (tcp_data : tcp_data_t) (recv_ts sent_ts : timespec) :
    ∃ RTT SRTT RTTVAR RTO first_RTT,
      update_RTO fp tcp_data recv_ts sent_ts
        = with_rtx tcp_data RTT SRTT RTTVAR RTO first_RTT tcp_data.send tcp_data.rt_queue
            tcp_data.rtms_timer_on tcp_data.mt := by
  unfold update_RTO
  simp only
  split_ifs <;> exact ⟨_, _, _, _, _, rfl⟩

theorem rtqueue_pop_loop_shape (fp : double_ops) (now : timespec) (ack_seq : Nat)
    (q : List retransmission_queue_t) (tcp_data : tcp_data_t) :
    ∃ RTT SRTT RTTVAR RTO first_RTT send rt_queue,
      rtqueue_pop_loop fp now ack_seq q tcp_data
        = with_rtx tcp_data RTT SRTT RTTVAR RTO first_RTT send rt_queue
            tcp_data.rtms_timer_on tcp_data.mt := by
  induction q generalizing tcp_data with
  | nil => exact ⟨_, _, _, _, _, _, _, (with_rtx_self tcp_data).symm⟩
  | cons elt rest ih =>
    unfold rtqueue_pop_loop
    by_cases h : elt.expected_ack_seq ≤ ack_seq
    · rw [if_pos h]
      obtain ⟨a, b, c, d, e, hu⟩ := update_RTO_shape fp tcp_data now elt.packet_sent_ts
      simp only [hu]
      obtain ⟨a2, b2, c2, d2, e2, f2, g2, h2⟩ := ih
        { with_rtx tcp_data a b c d e tcp_data.send tcp_data.rt_queue tcp_data.rtms_timer_on
            tcp_data.mt with
          send := circular_buffer_read tcp_data.send (TCP_PAYLOAD_LEN elt.packet_sent)
          rt_queue := rest }
      exact ⟨a2, b2, c2, d2, e2, f2, g2, h2⟩
    · rw [if_neg h]
      exact ⟨_, _, _, _, _, _, _, (with_rtx_self tcp_data).symm⟩

theorem rtqueue_pop_loop_queue (fp : double_ops) (now : timespec) (ack_seq : Nat)
    (q : List retransmission_queue_t) (tcp_data : tcp_data_t) (hq : tcp_data.rt_queue = q) :
    (rtqueue_pop_loop fp now ack_seq q tcp_data).rt_queue
      = q.dropWhile (fun elt => decide (elt.expected_ack_seq ≤ ack_seq)) := by
  induction q generalizing tcp_data with
  | nil => simpa [rtqueue_pop_loop] using hq
  | cons elt rest ih =>
    unfold rtqueue_pop_loop
    by_cases h : elt.expected_ack_seq ≤ ack_seq
    · rw [if_pos h, List.dropWhile_cons_of_pos (by simpa using h)]
      exact ih _ rfl
    · rw [if_neg h, List.dropWhile_cons_of_neg (by simpa using h)]
      exact hq

theorem rtqueue_pop_nonempty (fp : double_ops) (tcp_data : tcp_data_t) (ack_seq : Nat)
    (now : timespec) (hq : tcp_data.rt_queue ≠ []) :
    rtqueue_pop fp tcp_data ack_seq now
      = rtqueue_pop_timers (rtqueue_pop_loop fp now ack_seq tcp_data.rt_queue tcp_data) now := by
  unfold rtqueue_pop rtqueue_pop_timers
  cases h : tcp_data.rt_queue with
  | nil => exact absurd h hq
  | cons elt rest =>
    simp only [Nat.not_lt_zero, if_false]

theorem rtqueue_pop_empty (fp : double_ops) (tcp_data : tcp_data_t) (ack_seq : Nat)
    (now : timespec) (hq : tcp_data.rt_queue = []) :
    rtqueue_pop fp tcp_data ack_seq now = tcp_cancel_timer tcp_data RETRANSMISSION := by
  unfold rtqueue_pop
  rw [hq]

theorem rtqueue_pop_timers_shape (tcp_data : tcp_data_t) (now : timespec)
    (hwf : mt_wf tcp_data.mt) :
    ∃ rtms_timer_on mt actions,
      rtqueue_pop_timers tcp_data now
        = some ({ tcp_data with rtms_timer_on := rtms_timer_on, mt := mt }, actions) ∧
      sent_packets actions = [] ∧ mt_wf mt ∧ mt.num_timers = tcp_data.mt.num_timers ∧
      rtms_timer_on = !tcp_data.rt_queue.isEmpty := by
  unfold rtqueue_pop_timers
  by_cases hon : tcp_data.rtms_timer_on = true
  · obtain ⟨mt, h1, h2, h3⟩ := tcp_cancel_timer_eq
      { tcp_data with rtms_timer_on := false } RETRANSMISSION hwf
    simp only [hon, if_true, h1]
    by_cases hq : tcp_data.rt_queue = []
    · have hl : ¬ (tcp_data.rt_queue.length > 0) := by simp [hq]
      refine ⟨false, mt, [tcp_action_t.cancel_timer RETRANSMISSION], ?_, rfl, h2, h3, by simp [hq]⟩
      simp only [hl, if_false]
    · have hl : tcp_data.rt_queue.length > 0 := List.length_pos.mpr hq
      have hi : tcp_data.rt_queue.isEmpty = false := by
        cases h : tcp_data.rt_queue with
        | nil => exact absurd h hq
        | cons a l => rfl
      obtain ⟨mt2, k1, k2, k3, _⟩ := tcp_set_timer_eq
        { tcp_data with rtms_timer_on := true, mt := mt } RETRANSMISSION now
      refine ⟨true, mt2, [tcp_action_t.cancel_timer RETRANSMISSION,
        tcp_action_t.set_timer RETRANSMISSION tcp_data.RTO], ?_, rfl, k2 h2, k3.trans h3,
        by simp [hi]⟩
      simp only [hl, if_true, Bool.not_false]
      rw [k1]
      rfl
  · have hoff : tcp_data.rtms_timer_on = false := by simpa using hon
    simp only [hoff, Bool.false_eq_true, if_false]
    by_cases hq : tcp_data.rt_queue = []
    · have hl : ¬ (tcp_data.rt_queue.length > 0) := by simp [hq]
      refine ⟨false, tcp_data.mt, [], ?_, rfl, hwf, rfl, by simp [hq]⟩
      simp only [hl, if_false]
      rw [← hoff]
    · have hl : tcp_data.rt_queue.length > 0 := List.length_pos.mpr hq
      have hi : tcp_data.rt_queue.isEmpty = false := by
        cases h : tcp_data.rt_queue with
        | nil => exact absurd h hq
        | cons a l => rfl
      obtain ⟨mt2, k1, k2, k3, _⟩ := tcp_set_timer_eq
        { tcp_data with rtms_timer_on := true } RETRANSMISSION now
      refine ⟨true, mt2, [tcp_action_t.set_timer RETRANSMISSION tcp_data.RTO], ?_, rfl, k2 hwf,
        k3, by simp [hi]⟩
      simp only [hl, if_true, Bool.not_false, hoff]
      rw [k1]
      rfl

theorem rtqueue_pop_shape (fp : double_ops) (tcp_data : tcp_data_t) (ack_seq : Nat)
    (now : timespec) (hwf : mt_wf tcp_data.mt) :
    ∃ RTT SRTT RTTVAR RTO first_RTT send rtms_timer_on mt actions,
      rtqueue_pop fp tcp_data ack_seq now
        = some (with_rtx tcp_data RTT SRTT RTTVAR RTO first_RTT send
            (tcp_data.rt_queue.dropWhile (fun elt => decide (elt.expected_ack_seq ≤ ack_seq)))
            rtms_timer_on mt, actions) ∧
      sent_packets actions = [] ∧ mt_wf mt ∧ mt.num_timers = tcp_data.mt.num_timers := by
  by_cases hq : tcp_data.rt_queue = []
  · rw [rtqueue_pop_empty fp tcp_data ack_seq now hq]
    obtain ⟨mt, h1, h2, h3⟩ := tcp_cancel_timer_eq tcp_data RETRANSMISSION hwf
    refine ⟨tcp_data.RTT, tcp_data.SRTT, tcp_data.RTTVAR, tcp_data.RTO, tcp_data.first_RTT,
      tcp_data.send, tcp_data.rtms_timer_on, mt, [tcp_action_t.cancel_timer RETRANSMISSION],
      ?_, rfl, h2, h3⟩
    rw [h1, hq, List.dropWhile_nil, ← hq]
    rfl
  · rw [rtqueue_pop_nonempty fp tcp_data ack_seq now hq]
    obtain ⟨a, b, c, d, e, f, g, hs⟩ :=
      rtqueue_pop_loop_shape fp now ack_seq tcp_data.rt_queue tcp_data
    have hg := rtqueue_pop_loop_queue fp now ack_seq tcp_data.rt_queue tcp_data rfl
    rw [hs] at hg
    have hg' : g = tcp_data.rt_queue.dropWhile (fun elt => decide (elt.expected_ack_seq ≤ ack_seq)) :=
      hg
    rw [hs, hg']
    obtain ⟨flag, mt, actions, h1, h2, h3, h4, _⟩ := rtqueue_pop_timers_shape
      (with_rtx tcp_data a b c d e f
        (tcp_data.rt_queue.dropWhile (fun elt => decide (elt.expected_ack_seq ≤ ack_seq)))
        tcp_data.rtms_timer_on tcp_data.mt) now hwf
    exact ⟨a, b, c, d, e, f, flag, mt, actions, h1, h2, h3, h4⟩

theorem rtqueue_append_shape (tcp_data : tcp_data_t) (packet : tcp_packet_t) (seq : Nat)
    (now : timespec) :
    ∃ mt actions,
      rtqueue_append tcp_data packet seq now
        = ({ tcp_data with
              rt_queue := tcp_data.rt_queue
                ++ [⟨packet, now, (TCP_PAYLOAD_LEN packet + seq) % 2 ^ 32, false⟩]
              rtms_timer_on := true
              mt := mt }, actions) ∧
      sent_packets actions = [] ∧ (mt_wf tcp_data.mt → mt_wf mt) ∧
      mt.num_timers = tcp_data.mt.num_timers := by
  unfold rtqueue_append
  by_cases hon : tcp_data.rtms_timer_on = true
  · refine ⟨tcp_data.mt, [], ?_, rfl, id, rfl⟩
    simp only [hon, Bool.not_true, Bool.false_and, Bool.false_eq_true, if_false]
  · have hoff : tcp_data.rtms_timer_on = false := by simpa using hon
    obtain ⟨mt2, k1, k2, k3, _⟩ := tcp_set_timer_eq
      { tcp_data with
        rt_queue := tcp_data.rt_queue ++ [⟨packet, now, (TCP_PAYLOAD_LEN packet + seq) % 2 ^ 32, false⟩]
        rtms_timer_on := true } RETRANSMISSION now
    refine ⟨mt2, [tcp_action_t.set_timer RETRANSMISSION tcp_data.RTO], ?_, rfl, k2, k3⟩
    have hi : (tcp_data.rt_queue
        ++ [(⟨packet, now, (TCP_PAYLOAD_LEN packet + seq) % 2 ^ 32, false⟩ :
              retransmission_queue_t)]).isEmpty = false := by
      cases tcp_data.rt_queue <;> rfl
    simp only [hoff, Bool.not_false, Bool.true_and, hi, if_true]
    rw [k1]

/-! ## C14: the three-way handshake, active side -/

theorem random_number_lt (rand : Nat) : random_number rand < 256 := by
  unfold random_number
  exact Nat.lt_succ_of_le Nat.and_le_right

theorem handle_CLOSED_connect (env : tcp_env_t) (tcp_state : tcp_state_t) (tcp_data : tcp_data_t) :
    chitcpd_tcp_state_handle_CLOSED env tcp_state tcp_data tcp_event_type_t.APPLICATION_CONNECT
      = some ⟨tcp_state_t.SYN_SENT,
          (rtqueue_append
            { tcp_data with
              ISS := random_number env.rand
              SND_UNA := random_number env.rand
              SND_NXT := (random_number env.rand + 1) % 2 ^ 32
              RCV_WND := circular_buffer_capacity tcp_data.recv
              send := circular_buffer_set_seq_initial tcp_data.send
                ((random_number env.rand + 1) % 2 ^ 32) }
            (make_packet 1 0 0 (random_number env.rand) 0 (circular_buffer_capacity tcp_data.recv) [])
            (chitcp_htonl (random_number env.rand % 2 ^ 32)) env.now).1,
          tcp_action_t.send_tcp_packet
              (make_packet 1 0 0 (random_number env.rand) 0
                (circular_buffer_capacity tcp_data.recv) [])
            :: (rtqueue_append
            { tcp_data with
              ISS := random_number env.rand
              SND_UNA := random_number env.rand
              SND_NXT := (random_number env.rand + 1) % 2 ^ 32
              RCV_WND := circular_buffer_capacity tcp_data.recv
              send := circular_buffer_set_seq_initial tcp_data.send
                ((random_number env.rand + 1) % 2 ^ 32) }
            (make_packet 1 0 0 (random_number env.rand) 0 (circular_buffer_capacity tcp_data.recv) [])
            (chitcp_htonl (random_number env.rand % 2 ^ 32)) env.now).2⟩ := by
  unfold chitcpd_tcp_state_handle_CLOSED
  rfl

theorem sent_packets_cons_send (p : tcp_packet_t) (l : List tcp_action_t) :
    sent_packets (tcp_action_t.send_tcp_packet p :: l) = p :: sent_packets l := rfl

theorem packet_arrival_SYN_SENT_syn (env : tcp_env_t) (tcp_data : tcp_data_t)
    (packet : tcp_packet_t) (hwf : mt_wf tcp_data.mt) (hsyn : packet.syn = 1)
    (hack : ¬ (packet.ack = 1 ∧
      (packet.ack_seq ≤ tcp_data.ISS ∨ packet.ack_seq > tcp_data.SND_NXT))) :
    ∃ RTT SRTT RTTVAR RTO first_RTT send rtms_timer_on mt popped,
      sent_packets popped = [] ∧ mt_wf mt ∧ mt.num_timers = tcp_data.mt.num_timers ∧
      packet_arrival_SYN_SENT env tcp_data packet =
        if packet.ack_seq > tcp_data.ISS then
          some ⟨tcp_state_t.ESTABLISHED,
            syn_sent_assign (with_rtx tcp_data RTT SRTT RTTVAR RTO first_RTT send
              (tcp_data.rt_queue.dropWhile (fun elt => decide (elt.expected_ack_seq ≤ 2 ^ 32 - 1)))
              rtms_timer_on mt) packet,
            popped ++ [tcp_action_t.send_tcp_packet (ack_packet
              (syn_sent_assign (with_rtx tcp_data RTT SRTT RTTVAR RTO first_RTT send
                (tcp_data.rt_queue.dropWhile (fun elt => decide (elt.expected_ack_seq ≤ 2 ^ 32 - 1)))
                rtms_timer_on mt) packet))]⟩
        else
          some ⟨tcp_state_t.SYN_RCVD,
            (rtqueue_append
              (syn_sent_assign (with_rtx tcp_data RTT SRTT RTTVAR RTO first_RTT send
                (tcp_data.rt_queue.dropWhile (fun elt => decide (elt.expected_ack_seq ≤ 2 ^ 32 - 1)))
                rtms_timer_on mt) packet)
              (make_packet 1 1 0 tcp_data.ISS ((packet.seq + 1) % 2 ^ 32) tcp_data.RCV_WND [])
              (chitcp_htonl (tcp_data.ISS % 2 ^ 32)) env.now).1,
            popped ++ tcp_action_t.send_tcp_packet
                (make_packet 1 1 0 tcp_data.ISS ((packet.seq + 1) % 2 ^ 32) tcp_data.RCV_WND [])
              :: (rtqueue_append
              (syn_sent_assign (with_rtx tcp_data RTT SRTT RTTVAR RTO first_RTT send
                (tcp_data.rt_queue.dropWhile (fun elt => decide (elt.expected_ack_seq ≤ 2 ^ 32 - 1)))
                rtms_timer_on mt) packet)
              (make_packet 1 1 0 tcp_data.ISS ((packet.seq + 1) % 2 ^ 32) tcp_data.RCV_WND [])
              (chitcp_htonl (tcp_data.ISS % 2 ^ 32)) env.now).2⟩ := by
  obtain ⟨a, b, c, d, e, f, g, mt, popped, h1, h2, h3, h4⟩ :=
    rtqueue_pop_shape env.fp { tcp_data with first_RTT := true } (2 ^ 32 - 1) env.now hwf
  refine ⟨a, b, c, d, e, f, g, mt, popped, h2, h3, h4, ?_⟩
  unfold packet_arrival_SYN_SENT
  rw [if_neg hack, if_pos hsyn]
  simp only [h1]
  rfl

theorem packet_arrival_SYN_SENT_established (env : tcp_env_t) (tcp_data : tcp_data_t)
    (packet : tcp_packet_t) (hwf : mt_wf tcp_data.mt) (hsyn : packet.syn = 1)
    (hack : ¬ (packet.ack = 1 ∧
      (packet.ack_seq ≤ tcp_data.ISS ∨ packet.ack_seq > tcp_data.SND_NXT)))
    (hgt : packet.ack_seq > tcp_data.ISS) :
    ∃ RTT SRTT RTTVAR RTO first_RTT send rtms_timer_on mt popped,
      sent_packets popped = [] ∧ mt_wf mt ∧ mt.num_timers = tcp_data.mt.num_timers ∧
      packet_arrival_SYN_SENT env tcp_data packet =
          some ⟨tcp_state_t.ESTABLISHED,
            syn_sent_assign (with_rtx tcp_data RTT SRTT RTTVAR RTO first_RTT send
              (tcp_data.rt_queue.dropWhile (fun elt => decide (elt.expected_ack_seq ≤ 2 ^ 32 - 1)))
              rtms_timer_on mt) packet,
            popped ++ [tcp_action_t.send_tcp_packet (ack_packet
              (syn_sent_assign (with_rtx tcp_data RTT SRTT RTTVAR RTO first_RTT send
                (tcp_data.rt_queue.dropWhile (fun elt => decide (elt.expected_ack_seq ≤ 2 ^ 32 - 1)))
                rtms_timer_on mt) packet))]⟩ := by
  obtain ⟨a, b, c, d, e, f, g, mt, popped, h1, h2, h3, h4⟩ :=
    packet_arrival_SYN_SENT_syn env tcp_data packet hwf hsyn hack
  exact ⟨a, b, c, d, e, f, g, mt, popped, h1, h2, h3, h4.trans (if_pos hgt)⟩

theorem handle_event_arrival (env : tcp_env_t) (tcp_state : tcp_state_t) (tcp_data : tcp_data_t)
    (h : tcp_state ≠ tcp_state_t.CLOSED) (h2 : tcp_state ≠ tcp_state_t.TIME_WAIT) :
    chitcpd_tcp_handle_event env tcp_state tcp_data tcp_event_type_t.PACKET_ARRIVAL
      = chitcpd_tcp_state_handle_PACKET_ARRIVAL env tcp_state tcp_data := by
  cases tcp_state <;>
    simp [chitcpd_tcp_handle_event, chitcpd_tcp_state_handle_LISTEN,
      chitcpd_tcp_state_handle_SYN_RCVD, chitcpd_tcp_state_handle_SYN_SENT,
      chitcpd_tcp_state_handle_ESTABLISHED, chitcpd_tcp_state_handle_FIN_WAIT_1,
      chitcpd_tcp_state_handle_FIN_WAIT_2, chitcpd_tcp_state_handle_CLOSE_WAIT,
      chitcpd_tcp_state_handle_CLOSING, chitcpd_tcp_state_handle_LAST_ACK] at h h2 ⊢

theorem handshake_from_init (env1 env2 : tcp_env_t) (tcp_data0 : tcp_data_t) (s w : Nat)
    (hs : s + 1 < 2 ^ 32) (hcap : circular_buffer_capacity tcp_data0.recv < 2 ^ 16) :
    ∃ r1 r2,
      chitcpd_tcp_handle_event env1 tcp_state_t.CLOSED (tcp_data_init true tcp_data0)
        tcp_event_type_t.APPLICATION_CONNECT = some r1 ∧
      r1.tcp_state = tcp_state_t.SYN_SENT ∧
      r1.tcp_data.SND_UNA = random_number env1.rand ∧
      r1.tcp_data.SND_NXT = random_number env1.rand + 1 ∧
      sent_packets r1.actions
        = [⟨1, 0, 0, random_number env1.rand, 0, circular_buffer_capacity tcp_data0.recv, []⟩] ∧
      r1.tcp_data.rt_queue.map (fun elt => elt.packet_sent)
        = [⟨1, 0, 0, random_number env1.rand, 0, circular_buffer_capacity tcp_data0.recv, []⟩] ∧
      chitcpd_tcp_handle_event env2 r1.tcp_state
        { r1.tcp_data with
          pending_packets := [⟨1, 1, 0, s, random_number env1.rand + 1, w, []⟩] }
        tcp_event_type_t.PACKET_ARRIVAL = some r2 ∧
      r2.tcp_state = tcp_state_t.ESTABLISHED ∧
      sent_packets r2.actions
        = [⟨0, 1, 0, random_number env1.rand + 1, s + 1,
            circular_buffer_capacity tcp_data0.recv, []⟩] ∧
      r2.tcp_data.rt_queue = [] ∧
      r2.tcp_data.SND_UNA = random_number env1.rand + 1 ∧
      r2.tcp_data.SND_NXT = random_number env1.rand + 1 ∧
      r2.tcp_data.IRS = s ∧
      r2.tcp_data.RCV_NXT = s + 1 := by
  have hI := random_number_lt env1.rand
  have hI1 : (random_number env1.rand + 1) % 2 ^ 32 = random_number env1.rand + 1 :=
    Nat.mod_eq_of_lt (by omega)
  have hI0 : random_number env1.rand % 2 ^ 32 = random_number env1.rand :=
    Nat.mod_eq_of_lt (by omega)
  have hc : circular_buffer_capacity tcp_data0.recv % 2 ^ 16
      = circular_buffer_capacity tcp_data0.recv := Nat.mod_eq_of_lt hcap
  have hs1 : (s + 1) % 2 ^ 32 = s + 1 := Nat.mod_eq_of_lt hs
  have hpk : make_packet 1 0 0 (random_number env1.rand) 0
        (circular_buffer_capacity (tcp_data_init true tcp_data0).recv) []
      = ⟨1, 0, 0, random_number env1.rand, 0, circular_buffer_capacity tcp_data0.recv, []⟩ := by
    unfold make_packet
    rw [hI0]
    show tcp_packet_t.mk 1 0 0 _ 0 (circular_buffer_capacity tcp_data0.recv % 2 ^ 16) [] = _
    rw [hc]
  obtain ⟨mt1, acts1, ha1, ha2, ha3, ha4⟩ := rtqueue_append_shape
    { tcp_data_init true tcp_data0 with
      ISS := random_number env1.rand
      SND_UNA := random_number env1.rand
      SND_NXT := (random_number env1.rand + 1) % 2 ^ 32
      RCV_WND := circular_buffer_capacity (tcp_data_init true tcp_data0).recv
      send := circular_buffer_set_seq_initial (tcp_data_init true tcp_data0).send
        ((random_number env1.rand + 1) % 2 ^ 32) }
    (make_packet 1 0 0 (random_number env1.rand) 0
      (circular_buffer_capacity (tcp_data_init true tcp_data0).recv) [])
    (chitcp_htonl (random_number env1.rand % 2 ^ 32)) env1.now
  have hwf1 : mt_wf mt1 := ha3 (mt_wf_tcp_data_init tcp_data0)
  have hr1 := handle_CLOSED_connect env1 tcp_state_t.CLOSED (tcp_data_init true tcp_data0)
  rw [ha1] at hr1
  obtain ⟨a, b, c, d, e, f, g, mt2, popped, hp1, hp2, _, hp3⟩ := packet_arrival_SYN_SENT_established env2
    { ({ tcp_data_init true tcp_data0 with
        ISS := random_number env1.rand
        SND_UNA := random_number env1.rand
        SND_NXT := (random_number env1.rand + 1) % 2 ^ 32
        RCV_WND := circular_buffer_capacity (tcp_data_init true tcp_data0).recv
        send := circular_buffer_set_seq_initial (tcp_data_init true tcp_data0).send
          ((random_number env1.rand + 1) % 2 ^ 32)
        rt_queue := ([] : List retransmission_queue_t)
          ++ [⟨make_packet 1 0 0 (random_number env1.rand) 0
                (circular_buffer_capacity (tcp_data_init true tcp_data0).recv) [],
              env1.now,
              (TCP_PAYLOAD_LEN (make_packet 1 0 0 (random_number env1.rand) 0
                (circular_buffer_capacity (tcp_data_init true tcp_data0).recv) [])
                + chitcp_htonl (random_number env1.rand % 2 ^ 32)) % 2 ^ 32, false⟩]
        rtms_timer_on := true
        mt := mt1 } : tcp_data_t) with pending_packets := [] }
    ⟨1, 1, 0, s, random_number env1.rand + 1, w, []⟩ hwf1 rfl
    (by
      show ¬ ((1 : Nat) = 1 ∧ (random_number env1.rand + 1 ≤ random_number env1.rand
        ∨ random_number env1.rand + 1 > (random_number env1.rand + 1) % 2 ^ 32))
      rw [hI1]; omega)
    (by show random_number env1.rand + 1 > random_number env1.rand; omega)
  refine ⟨_, ?w, hr1, rfl, rfl, hI1, ?g1, ?g2, ?g3, ?g4, ?g5, ?g6, ?g7, ?g8, ?g9, ?g10⟩
  case g3 =>
    show chitcpd_tcp_handle_event env2 tcp_state_t.SYN_SENT _ _ = _
    rw [handle_event_arrival env2 tcp_state_t.SYN_SENT _ (by decide) (by decide)]
    exact hp3
  case g1 => rw [sent_packets_cons_send, ha2, hpk]
  case g2 =>
    show List.map _ ([] ++ [_]) = _
    simp only [List.nil_append, List.map_cons, List.map_nil, hpk]
  case g4 => rfl
  case g7 => rfl
  case g8 => rfl
  case g9 => rfl
  case g10 => exact hs1
  case g5 =>
    rw [sent_packets_append, hp1]
    show [ack_packet _] = _
    unfold ack_packet make_packet syn_sent_assign with_rtx
    simp only [hI1, hs1, Nat.mod_mod]
    show [tcp_packet_t.mk 0 1 0 _ _ (circular_buffer_capacity tcp_data0.recv % 2 ^ 16) []] = _
    rw [hc]
  case g6 =>
    show List.dropWhile _ ([] ++ [_]) = _
    have : (TCP_PAYLOAD_LEN (make_packet 1 0 0 (random_number env1.rand) 0
        (circular_buffer_capacity (tcp_data_init true tcp_data0).recv) [])
        + chitcp_htonl (random_number env1.rand % 2 ^ 32)) % 2 ^ 32 ≤ 2 ^ 32 - 1 := by
      have := Nat.mod_lt (TCP_PAYLOAD_LEN (make_packet 1 0 0 (random_number env1.rand) 0
        (circular_buffer_capacity (tcp_data_init true tcp_data0).recv) [])
        + chitcp_htonl (random_number env1.rand % 2 ^ 32)) (show 2 ^ 32 > 0 by norm_num)
      omega
    simp only [List.nil_append, List.dropWhile_cons, this, decide_True, if_true,
      List.dropWhile_nil]

theorem dropWhile_all_acked (q : List retransmission_queue_t)
    (h : ∀ elt ∈ q, elt.expected_ack_seq < 2 ^ 32) :
    q.dropWhile (fun elt => decide (elt.expected_ack_seq ≤ 2 ^ 32 - 1)) = [] := by
  induction q with
  | nil => rfl
  | cons a q ih =>
    have ha := h a (List.mem_cons_self a q)
    rw [List.dropWhile_cons_of_pos (by simp only [decide_eq_true_eq]; omega)]
    exact ih (fun e he => h e (List.mem_cons_of_mem a he))

theorem syn_sent_synack_established (env : tcp_env_t) (tcp_data : tcp_data_t) (ISS s w : Nat)
    (hs : s + 1 < 2 ^ 32) (hI : ISS + 1 < 2 ^ 32)
    (hwf : mt_wf tcp_data.mt) (h1 : tcp_data.ISS = ISS) (h3 : tcp_data.SND_NXT = ISS + 1)
    (hq : ∀ elt ∈ tcp_data.rt_queue, elt.expected_ack_seq < 2 ^ 32) :
    ∃ r2,
      chitcpd_tcp_handle_event env tcp_state_t.SYN_SENT
        { tcp_data with pending_packets := [⟨1, 1, 0, s, ISS + 1, w, []⟩] }
        tcp_event_type_t.PACKET_ARRIVAL = some r2 ∧
      r2.tcp_state = tcp_state_t.ESTABLISHED ∧
      sent_packets r2.actions = [⟨0, 1, 0, ISS + 1, s + 1, tcp_data.RCV_WND % 2 ^ 16, []⟩] ∧
      r2.tcp_data.rt_queue = [] ∧
      r2.tcp_data.SND_UNA = ISS + 1 ∧
      r2.tcp_data.SND_NXT = ISS + 1 ∧
      r2.tcp_data.IRS = s ∧
      r2.tcp_data.RCV_NXT = s + 1 := by
  have hs1 : (s + 1) % 2 ^ 32 = s + 1 := Nat.mod_eq_of_lt hs
  have hI1 : (ISS + 1) % 2 ^ 32 = ISS + 1 := Nat.mod_eq_of_lt hI
  obtain ⟨a, b, c, d, e, f, g, mt2, popped, hp1, hp2, _, hp3⟩ :=
    packet_arrival_SYN_SENT_established env
      { ({ tcp_data with pending_packets := [⟨1, 1, 0, s, ISS + 1, w, []⟩] } : tcp_data_t) with
        pending_packets := [] }
      ⟨1, 1, 0, s, ISS + 1, w, []⟩ hwf rfl
      (by
        show ¬ ((1 : Nat) = 1 ∧ (ISS + 1 ≤ tcp_data.ISS ∨ ISS + 1 > tcp_data.SND_NXT))
        rw [h1, h3]; omega)
      (by show ISS + 1 > tcp_data.ISS; rw [h1]; omega)
  refine ⟨?w, ?g3, ?g4, ?g5, ?g6, ?g7, ?g8, ?g9, ?g10⟩
  case g3 =>
    rw [handle_event_arrival env tcp_state_t.SYN_SENT _ (by decide) (by decide)]
    exact hp3
  case g4 => rfl
  case g7 => rfl
  case g8 => rfl
  case g9 => rfl
  case g10 => exact hs1
  case g5 =>
    rw [sent_packets_append, hp1]
    show [ack_packet _] = _
    unfold ack_packet make_packet syn_sent_assign with_rtx
    simp only [hI1, hs1, Nat.mod_mod, List.nil_append]
  case g6 => exact dropWhile_all_acked _ hq

/-- C14: three-way handshake, active side.  From CLOSED after `tcp_data_init`,
APPLICATION_CONNECT with the ISS that `random_number` gives sets SND.UNA = ISS and
SND.NXT = ISS + 1, sends one SYN with SEQ = ISS and WIN = the capacity of the
receive buffer, puts it in the retransmission queue and moves to SYN_SENT; then
the arrival of a SYN+ACK with SEG.SEQ = s and SEG.ACK = ISS + 1 makes the handler
send one ACK with SEQ = ISS + 1 and ACK = s + 1, empties the retransmission queue,
and ends in ESTABLISHED with SND.UNA = SND.NXT = ISS + 1, IRS = s and
RCV.NXT = s + 1.  The second step holds for every ISS of a connection in
SYN_SENT with SND.NXT = ISS + 1 (second part; with ISS = 1000 and s = 2000 it
gives SND.UNA = 1001, SND.NXT = 1001, RCV.NXT = 2001). -/
theorem handshake_active_open (env1 env2 : tcp_env_t) (tcp_data0 tcp_data : tcp_data_t)
    (ISS s w : Nat)
    (hs : s + 1 < 2 ^ 32) (hcap : circular_buffer_capacity tcp_data0.recv < 2 ^ 16)
    (hI : ISS + 1 < 2 ^ 32) (hwf : mt_wf tcp_data.mt) (h1 : tcp_data.ISS = ISS)
    (h3 : tcp_data.SND_NXT = ISS + 1)
    (hq : ∀ elt ∈ tcp_data.rt_queue, elt.expected_ack_seq < 2 ^ 32) :
    (∃ r1 r2,
      chitcpd_tcp_handle_event env1 tcp_state_t.CLOSED (tcp_data_init true tcp_data0)
        tcp_event_type_t.APPLICATION_CONNECT = some r1 ∧
      r1.tcp_state = tcp_state_t.SYN_SENT ∧
      r1.tcp_data.SND_UNA = random_number env1.rand ∧
      r1.tcp_data.SND_NXT = random_number env1.rand + 1 ∧
      sent_packets r1.actions
        = [⟨1, 0, 0, random_number env1.rand, 0, circular_buffer_capacity tcp_data0.recv, []⟩] ∧
      r1.tcp_data.rt_queue.map (fun elt => elt.packet_sent)
        = [⟨1, 0, 0, random_number env1.rand, 0, circular_buffer_capacity tcp_data0.recv, []⟩] ∧
      chitcpd_tcp_handle_event env2 r1.tcp_state
        { r1.tcp_data with
          pending_packets := [⟨1, 1, 0, s, random_number env1.rand + 1, w, []⟩] }
        tcp_event_type_t.PACKET_ARRIVAL = some r2 ∧
      r2.tcp_state = tcp_state_t.ESTABLISHED ∧
      sent_packets r2.actions
        = [⟨0, 1, 0, random_number env1.rand + 1, s + 1,
            circular_buffer_capacity tcp_data0.recv, []⟩] ∧
      r2.tcp_data.rt_queue = [] ∧
      r2.tcp_data.SND_UNA = random_number env1.rand + 1 ∧
      r2.tcp_data.SND_NXT = random_number env1.rand + 1 ∧
      r2.tcp_data.IRS = s ∧
      r2.tcp_data.RCV_NXT = s + 1) ∧
    (∃ r2,
      chitcpd_tcp_handle_event env2 tcp_state_t.SYN_SENT
        { tcp_data with pending_packets := [⟨1, 1, 0, s, ISS + 1, w, []⟩] }
        tcp_event_type_t.PACKET_ARRIVAL = some r2 ∧
      r2.tcp_state = tcp_state_t.ESTABLISHED ∧
      sent_packets r2.actions = [⟨0, 1, 0, ISS + 1, s + 1, tcp_data.RCV_WND % 2 ^ 16, []⟩] ∧
      r2.tcp_data.rt_queue = [] ∧
      r2.tcp_data.SND_UNA = ISS + 1 ∧
      r2.tcp_data.SND_NXT = ISS + 1 ∧
      r2.tcp_data.IRS = s ∧
      r2.tcp_data.RCV_NXT = s + 1) :=
  ⟨handshake_from_init env1 env2 tcp_data0 s w hs hcap,
    syn_sent_synack_established env2 tcp_data ISS s w hs hI hwf h1 h3 hq⟩

theorem handshake_active_open_witness :
    ∃ r2,
      chitcpd_tcp_handle_event (ex_env 0) tcp_state_t.SYN_SENT
        { ex_syn_sent with pending_packets := [⟨1, 1, 0, 2000, 1001, 4096, []⟩] }
        tcp_event_type_t.PACKET_ARRIVAL = some r2 ∧
      r2.tcp_state = tcp_state_t.ESTABLISHED ∧
      sent_packets r2.actions = [⟨0, 1, 0, 1001, 2001, 4096, []⟩] ∧
      r2.tcp_data.rt_queue = [] ∧
      r2.tcp_data.SND_UNA = 1001 ∧
      r2.tcp_data.SND_NXT = 1001 ∧
      r2.tcp_data.IRS = 2000 ∧
      r2.tcp_data.RCV_NXT = 2001 :=
  (handshake_active_open (ex_env 1000) (ex_env 0) ex_zero_data ex_syn_sent 1000 2000 4096
    (by decide) (by decide) (by decide)
    (mt_wf_set_timer _ _ _ _ _ _ (mt_wf_tcp_data_init ex_zero_data)) rfl rfl (by decide)).2

/-! ## C15: simultaneous open -/

/-- C15: in SYN_SENT the handler reads the acknowledgment number of a segment whose
ACK flag is clear.  For a connection with ISS = 1000, SND.UNA = 1000 and
SND.NXT = 1001, a SYN without ACK whose acknowledgment field holds 0 is answered
by a SYN+ACK with SEQ = 1000 and ACK = SEG.SEQ + 1 and the state becomes SYN_RCVD,
but SND.UNA and SND.NXT are both set to 0; and the same SYN with 5000 in the
acknowledgment field is answered by a plain ACK, the state becomes ESTABLISHED
and SND.UNA = SND.NXT = 5000. -/
theorem simultaneous_open_reads_ack_field :
    (chitcpd_tcp_handle_event (ex_env 0) tcp_state_t.SYN_SENT
        { ex_syn_sent with pending_packets := [⟨1, 0, 0, 2000, 0, 4096, []⟩] }
        tcp_event_type_t.PACKET_ARRIVAL).map
      (fun r => (r.tcp_state, r.tcp_data.ISS, r.tcp_data.SND_UNA, r.tcp_data.SND_NXT,
        sent_packets r.actions))
      = some (tcp_state_t.SYN_RCVD, 1000, 0, 0, [⟨1, 1, 0, 1000, 2001, 4096, []⟩]) ∧
    (chitcpd_tcp_handle_event (ex_env 0) tcp_state_t.SYN_SENT
        { ex_syn_sent with pending_packets := [⟨1, 0, 0, 2000, 5000, 4096, []⟩] }
        tcp_event_type_t.PACKET_ARRIVAL).map
      (fun r => (r.tcp_state, r.tcp_data.ISS, r.tcp_data.SND_UNA, r.tcp_data.SND_NXT,
        sent_packets r.actions))
      = some (tcp_state_t.ESTABLISHED, 1000, 5000, 5000, [⟨0, 1, 0, 5000, 2001, 4096, []⟩]) := by
  exact ⟨rfl, rfl⟩

/-! ## C16: the sequence check of the synchronized states -/

theorem packet_arrival_of_synchronized (env : tcp_env_t) (tcp_state : tcp_state_t)
    (tcp_data : tcp_data_t) (packet : tcp_packet_t) (rest : List tcp_packet_t)
    (h1 : tcp_state ≠ tcp_state_t.CLOSED) (h2 : tcp_state ≠ tcp_state_t.LISTEN)
    (h3 : tcp_state ≠ tcp_state_t.SYN_SENT)
    (hp : tcp_data.pending_packets = packet :: rest) :
    chitcpd_tcp_state_handle_PACKET_ARRIVAL env tcp_state tcp_data
      = packet_arrival_synchronized env tcp_state { tcp_data with pending_packets := rest }
          packet := by
  unfold chitcpd_tcp_state_handle_PACKET_ARRIVAL
  rw [hp]
  simp only [h1, h2, h3, if_false]

/-- C16 (counterexample): in ESTABLISHED with RCV.NXT = 2001 and RCV.WND = 4096, a
segment without data whose SEG.SEQ = 2000 is below RCV.NXT makes the handler
return without sending anything; and a segment with one byte of data at
SEG.SEQ = 2002, which lies inside the receive window, takes the out-of-order
branch: it is not processed further and nothing is sent either.  After both
calls the TCB is what it was before the segment arrived. -/
theorem old_segment_gets_no_ack :
    seq_check ex_established ⟨0, 1, 0, 2000, 233, 4096, []⟩ = seq_check_t.dropped ∧
    chitcpd_tcp_state_handle_PACKET_ARRIVAL (ex_env 0) tcp_state_t.ESTABLISHED
        { ex_established with pending_packets := [⟨0, 1, 0, 2000, 233, 4096, []⟩] }
      = some ⟨tcp_state_t.ESTABLISHED, ex_established, []⟩ ∧
    seq_check ex_established ⟨0, 1, 0, 2002, 233, 4096, [88]⟩ = seq_check_t.out_of_order ∧
    chitcpd_tcp_state_handle_PACKET_ARRIVAL (ex_env 0) tcp_state_t.ESTABLISHED
        { ex_established with pending_packets := [⟨0, 1, 0, 2002, 233, 4096, [88]⟩] }
      = some ⟨tcp_state_t.ESTABLISHED, ex_established, []⟩ := by
  exact ⟨rfl, rfl, rfl, rfl⟩

/-- C16 (amended): sequence check in the synchronized states (SYN_RCVD through
TIME_WAIT), for a TCB and a segment whose numbers do not wrap, with W = RCV.WND
and L = SEG_LEN.  A segment is processed further iff (L = 0 and W = 0 and
SEG.SEQ = RCV.NXT) or (L = 0 and W > 0 and RCV.NXT <= SEG.SEQ < RCV.NXT + W) or
(L > 0 and W > 0 and SEG.SEQ = RCV.NXT).  A segment with SEG.SEQ < RCV.NXT is
dropped: nothing is sent and the TCB is unchanged.  A segment with L > 0 and
SEG.SEQ > RCV.NXT takes the out-of-order branch, whatever the window: it is not
processed further, nothing is sent, and of the TCB only the out-of-order list
can differ afterwards, which is what `out_of_order_insert` makes of it.  Every
other segment causes exactly one bare ACK (SEQ = SND.NXT, ACK = RCV.NXT,
WIN = RCV.WND, no payload) and leaves the TCB unchanged.  In all three cases
the segment is taken from the pending packets. -/
theorem seq_check_outcomes (env : tcp_env_t) (tcp_state : tcp_state_t) (tcp_data : tcp_data_t)
    (packet : tcp_packet_t) (rest : List tcp_packet_t)
    (h1 : tcp_state ≠ tcp_state_t.CLOSED) (h2 : tcp_state ≠ tcp_state_t.LISTEN)
    (h3 : tcp_state ≠ tcp_state_t.SYN_SENT)
    (hp : tcp_data.pending_packets = packet :: rest)
    (hlen : SEG_LEN packet < 2 ^ 16)
    (hwnd : tcp_data.RCV_WND < 2 ^ 16) (hrcv : tcp_data.RCV_NXT + tcp_data.RCV_WND < 2 ^ 32)
    (hnxt : tcp_data.SND_NXT < 2 ^ 32) :
    (seq_check tcp_data packet = seq_check_t.acceptable ↔
      (SEG_LEN packet = 0 ∧ tcp_data.RCV_WND = 0 ∧ packet.seq = tcp_data.RCV_NXT) ∨
      (SEG_LEN packet = 0 ∧ tcp_data.RCV_WND > 0 ∧ tcp_data.RCV_NXT ≤ packet.seq ∧
        packet.seq < tcp_data.RCV_NXT + tcp_data.RCV_WND) ∨
      (SEG_LEN packet > 0 ∧ tcp_data.RCV_WND > 0 ∧ packet.seq = tcp_data.RCV_NXT)) ∧
    (seq_check tcp_data packet = seq_check_t.dropped ↔ packet.seq < tcp_data.RCV_NXT) ∧
    (seq_check tcp_data packet = seq_check_t.out_of_order ↔
      packet.seq > tcp_data.RCV_NXT ∧ SEG_LEN packet > 0) ∧
    (seq_check tcp_data packet = seq_check_t.dropped →
      chitcpd_tcp_state_handle_PACKET_ARRIVAL env tcp_state tcp_data
        = some ⟨tcp_state, { tcp_data with pending_packets := rest }, []⟩) ∧
    (seq_check tcp_data packet = seq_check_t.out_of_order →
      chitcpd_tcp_state_handle_PACKET_ARRIVAL env tcp_state tcp_data
        = some ⟨tcp_state,
            { tcp_data with
              pending_packets := rest
              list := out_of_order_insert tcp_data.list ⟨packet.seq, packet⟩ }, []⟩) ∧
    (seq_check tcp_data packet = seq_check_t.not_acceptable →
      chitcpd_tcp_state_handle_PACKET_ARRIVAL env tcp_state tcp_data
        = some ⟨tcp_state, { tcp_data with pending_packets := rest },
            [tcp_action_t.send_tcp_packet
              ⟨0, 1, 0, tcp_data.SND_NXT, tcp_data.RCV_NXT, tcp_data.RCV_WND, []⟩]⟩) := by
  have hL : SEG_LEN packet % 2 ^ 16 = SEG_LEN packet := Nat.mod_eq_of_lt hlen
  have hW : tcp_data.RCV_WND % 2 ^ 16 = tcp_data.RCV_WND := Nat.mod_eq_of_lt hwnd
  have hE : (tcp_data.RCV_NXT + tcp_data.RCV_WND) % 2 ^ 32 = tcp_data.RCV_NXT + tcp_data.RCV_WND :=
    Nat.mod_eq_of_lt hrcv
  have hev := packet_arrival_of_synchronized env tcp_state tcp_data packet rest h1 h2 h3 hp
  have hsc : seq_check { tcp_data with pending_packets := rest } packet
      = seq_check tcp_data packet := rfl
  refine ⟨?_, ?_, ?_, ?_, ?_, ?_⟩
  · unfold seq_check seq_acceptability
    simp only [hL, hW, hE]
    by_cases c1 : packet.seq > tcp_data.RCV_NXT ∧ SEG_LEN packet ≠ 0
    · rw [if_pos c1]
      simp only [reduceCtorEq, false_iff]
      rintro (⟨a, _, _⟩ | ⟨a, _, _, _⟩ | ⟨_, _, a⟩) <;> omega
    · rw [if_neg c1]
      by_cases c2 : packet.seq < tcp_data.RCV_NXT
      · rw [if_pos c2]
        simp only [reduceCtorEq, false_iff]
        rintro (⟨_, _, a⟩ | ⟨_, _, a, _⟩ | ⟨_, _, a⟩) <;> omega
      · rw [if_neg c2]
        by_cases l0 : SEG_LEN packet = 0
        · by_cases w0 : tcp_data.RCV_WND = 0
          · by_cases e : tcp_data.RCV_NXT = packet.seq
            · simp [l0, w0, e]
            · have e' : ¬ (packet.seq = tcp_data.RCV_NXT) := fun h => e h.symm
              simp [l0, w0, e, e']
          · have w1 : tcp_data.RCV_WND > 0 := Nat.pos_of_ne_zero w0
            have k1 : ¬ (SEG_LEN packet = 0 ∧ tcp_data.RCV_WND = 0) := fun h => w0 h.2
            have k2 : SEG_LEN packet = 0 ∧ tcp_data.RCV_WND > 0 := ⟨l0, w1⟩
            rw [if_neg k1, if_pos k2]
            by_cases e : tcp_data.RCV_NXT > packet.seq ∨
                packet.seq ≥ tcp_data.RCV_NXT + tcp_data.RCV_WND
            · rw [if_pos e]
              simp only [Bool.not_false, if_true, reduceCtorEq, false_iff]
              rintro (⟨_, a, _⟩ | ⟨_, _, a, b⟩ | ⟨a, _, _⟩) <;> omega
            · rw [if_neg e]
              simp only [Bool.not_true, Bool.false_eq_true, if_false, true_iff]
              right; left
              exact ⟨l0, w1, by omega, by omega⟩
        · have l1 : SEG_LEN packet > 0 := Nat.pos_of_ne_zero l0
          by_cases w0 : tcp_data.RCV_WND = 0
          · simp [l0, l1, w0]
          · have w1 : tcp_data.RCV_WND > 0 := Nat.pos_of_ne_zero w0
            have e : packet.seq = tcp_data.RCV_NXT := by omega
            have e1 : ¬ (tcp_data.RCV_NXT > packet.seq ∨
                packet.seq ≥ tcp_data.RCV_NXT + tcp_data.RCV_WND) := by omega
            simp only [l0, l1, w0, w1, e1, false_and, and_self, and_false, if_false, if_true,
              Bool.not_true, Bool.false_eq_true, true_iff, true_and, false_or]
            exact e
  · unfold seq_check
    simp only [hL]
    by_cases c1 : packet.seq > tcp_data.RCV_NXT ∧ SEG_LEN packet ≠ 0
    · rw [if_pos c1]
      simp only [reduceCtorEq, false_iff]
      omega
    · rw [if_neg c1]
      by_cases c2 : packet.seq < tcp_data.RCV_NXT
      · simp only [c2, if_true]
      · rw [if_neg c2]
        split_ifs <;> simp [c2]
  · unfold seq_check
    simp only [hL]
    by_cases c1 : packet.seq > tcp_data.RCV_NXT ∧ SEG_LEN packet ≠ 0
    · rw [if_pos c1]
      simp only [true_iff]
      exact ⟨c1.1, Nat.pos_of_ne_zero c1.2⟩
    · rw [if_neg c1]
      have : ¬ (packet.seq > tcp_data.RCV_NXT ∧ SEG_LEN packet > 0) := by
        intro h; exact c1 ⟨h.1, by omega⟩
      split_ifs <;> simp [this]
  · intro h
    rw [hev]
    unfold packet_arrival_synchronized
    rw [hsc, h]
  · intro h
    rw [hev]
    unfold packet_arrival_synchronized
    rw [hsc, h]
  · intro h
    rw [hev]
    unfold packet_arrival_synchronized
    rw [hsc, h]
    simp only [ack_packet, make_packet, Nat.mod_eq_of_lt hnxt, hW,
      Nat.mod_eq_of_lt (show tcp_data.RCV_NXT < 2 ^ 32 by omega)]

theorem seq_check_outcomes_witness :
    seq_check { ex_established with pending_packets := [⟨0, 1, 0, 7000, 233, 4096, []⟩] }
        ⟨0, 1, 0, 7000, 233, 4096, []⟩ = seq_check_t.not_acceptable ∧
    chitcpd_tcp_state_handle_PACKET_ARRIVAL (ex_env 0) tcp_state_t.ESTABLISHED
        { ex_established with pending_packets := [⟨0, 1, 0, 7000, 233, 4096, []⟩] }
      = some ⟨tcp_state_t.ESTABLISHED, ex_established,
          [tcp_action_t.send_tcp_packet ⟨0, 1, 0, 233, 2001, 4096, []⟩]⟩ :=
  ⟨rfl, (seq_check_outcomes (ex_env 0) tcp_state_t.ESTABLISHED
    { ex_established with pending_packets := [⟨0, 1, 0, 7000, 233, 4096, []⟩] }
    ⟨0, 1, 0, 7000, 233, 4096, []⟩ [] (by decide) (by decide) (by decide) rfl (by decide)
    (by decide) (by decide) (by decide)).2.2.2.2.2 rfl⟩

/-! ## Lemmas: what the handlers leave unchanged -/

theorem keeps_send_refl (a : tcp_data_t) : keeps_send a a := ⟨rfl, rfl, rfl, rfl, rfl⟩

theorem keeps_send_trans {a b c : tcp_data_t} (h1 : keeps_send a b) (h2 : keeps_send b c) :
    keeps_send a c :=
  ⟨h2.1.trans h1.1, h2.2.1.trans h1.2.1, h2.2.2.1.trans h1.2.2.1, h2.2.2.2.1.trans h1.2.2.2.1,
    h2.2.2.2.2.trans h1.2.2.2.2⟩

theorem tcp_set_timer_keeps (tcp_data : tcp_data_t) (id : Nat) (now : timespec) :
    keeps_send tcp_data (tcp_set_timer tcp_data id now).1 ∧
    sent_packets (tcp_set_timer tcp_data id now).2 = [] :=
  ⟨⟨rfl, rfl, rfl, rfl, rfl⟩, rfl⟩

theorem tcp_cancel_timer_keeps (tcp_data : tcp_data_t) (id : Nat)
    (r : tcp_data_t × List tcp_action_t) (h : tcp_cancel_timer tcp_data id = some r) :
    ∃ mt, r = ({ tcp_data with mt := mt }, [tcp_action_t.cancel_timer id]) := by
  unfold tcp_cancel_timer at h
  cases hc : mt_cancel_timer tcp_data.mt id with
  | none => rw [hc] at h; cases h
  | some x =>
    rw [hc] at h
    simp only [Option.some.injEq] at h
    exact ⟨x.1, h.symm⟩

theorem rtqueue_append_keeps (tcp_data : tcp_data_t) (packet : tcp_packet_t) (seq : Nat)
    (now : timespec) :
    keeps_send tcp_data (rtqueue_append tcp_data packet seq now).1 ∧
    sent_packets (rtqueue_append tcp_data packet seq now).2 = [] := by
  obtain ⟨mt, acts, h1, h2, _, _⟩ := rtqueue_append_shape tcp_data packet seq now
  rw [h1]
  exact ⟨⟨rfl, rfl, rfl, rfl, rfl⟩, h2⟩

theorem rtqueue_pop_loop_keeps (fp : double_ops) (now : timespec) (ack_seq : Nat)
    (q : List retransmission_queue_t) (tcp_data : tcp_data_t) :
    keeps_send tcp_data (rtqueue_pop_loop fp now ack_seq q tcp_data) := by
  obtain ⟨a, b, c, d, e, f, g, h⟩ := rtqueue_pop_loop_shape fp now ack_seq q tcp_data
  rw [h]
  exact ⟨rfl, rfl, rfl, rfl, rfl⟩

theorem rtqueue_pop_timers_keeps (tcp_data : tcp_data_t) (now : timespec)
    (r : tcp_data_t × List tcp_action_t) (h : rtqueue_pop_timers tcp_data now = some r) :
    keeps_send tcp_data r.1 ∧ sent_packets r.2 = [] := by
  unfold rtqueue_pop_timers at h
  by_cases hon : tcp_data.rtms_timer_on = true
  · simp only [hon, if_true] at h
    cases hc : tcp_cancel_timer { tcp_data with rtms_timer_on := false } RETRANSMISSION with
    | none => rw [hc] at h; cases h
    | some x =>
      obtain ⟨mt, hx⟩ := tcp_cancel_timer_keeps _ _ _ hc
      rw [hc, hx] at h
      simp only at h
      split_ifs at h <;> (cases h; exact ⟨⟨rfl, rfl, rfl, rfl, rfl⟩, rfl⟩)
  · have hoff : tcp_data.rtms_timer_on = false := by simpa using hon
    simp only [hoff, Bool.false_eq_true, if_false] at h
    split_ifs at h <;> (cases h; exact ⟨⟨rfl, rfl, rfl, rfl, rfl⟩, rfl⟩)

theorem rtqueue_pop_keeps (fp : double_ops) (tcp_data : tcp_data_t) (ack_seq : Nat)
    (now : timespec) (r : tcp_data_t × List tcp_action_t)
    (h : rtqueue_pop fp tcp_data ack_seq now = some r) :
    keeps_send tcp_data r.1 ∧ sent_packets r.2 = [] := by
  by_cases hq : tcp_data.rt_queue = []
  · rw [rtqueue_pop_empty fp tcp_data ack_seq now hq] at h
    obtain ⟨mt, hx⟩ := tcp_cancel_timer_keeps _ _ _ h
    rw [hx]
    exact ⟨⟨rfl, rfl, rfl, rfl, rfl⟩, rfl⟩
  · rw [rtqueue_pop_nonempty fp tcp_data ack_seq now hq] at h
    obtain ⟨k, hs⟩ := rtqueue_pop_timers_keeps _ _ _ h
    exact ⟨keeps_send_trans (rtqueue_pop_loop_keeps fp now ack_seq _ tcp_data) k, hs⟩

/-! ## Lemmas: the transmit pump -/

theorem no_wraparound_append (a b : List tcp_action_t) :
    no_wraparound (a ++ b) ↔ no_wraparound a ∧ no_wraparound b := by
  unfold no_wraparound
  constructor
  · intro h
    exact ⟨fun p hp => h p (List.mem_append_left _ hp), fun p hp => h p (List.mem_append_right _ hp)⟩
  · rintro ⟨h1, h2⟩ p hp
    rcases List.mem_append.mp hp with h | h
    · exact h1 p h
    · exact h2 p h

theorem no_wraparound_nil : no_wraparound [] := by
  intro p hp; cases hp

theorem advances_send_of_keeps {a b : tcp_data_t} (h : keeps_send a b) (hlt : a.SND_NXT < 2 ^ 32) :
    advances_send a b :=
  ⟨h.1, by rw [h.2.1], by rw [h.2.1]; exact hlt, h.2.2.1, h.2.2.2.1, h.2.2.2.2⟩

theorem advances_send_trans {a b c : tcp_data_t} (h1 : advances_send a b)
    (h2 : advances_send b c) : advances_send a c :=
  ⟨h2.1.trans h1.1, Nat.le_trans h1.2.1 h2.2.1, h2.2.2.1, h2.2.2.2.1.trans h1.2.2.2.1,
    h2.2.2.2.2.1.trans h1.2.2.2.2.1, h2.2.2.2.2.2.trans h1.2.2.2.2.2⟩

theorem application_close_advances (tcp_data : tcp_data_t) (now : timespec)
    (hlt : tcp_data.SND_NXT < 2 ^ 32)
    (hnw : no_wraparound (chitcpd_tcp_state_handle_APPLICATION_CLOSE tcp_data now).2) :
    advances_send tcp_data (chitcpd_tcp_state_handle_APPLICATION_CLOSE tcp_data now).1 := by
  unfold chitcpd_tcp_state_handle_APPLICATION_CLOSE at hnw ⊢
  obtain ⟨k, _⟩ := rtqueue_append_keeps tcp_data
    (make_packet 0 1 1 tcp_data.SND_NXT tcp_data.RCV_NXT tcp_data.RCV_WND []) tcp_data.SND_NXT now
  have hp := hnw (make_packet 0 1 1 tcp_data.SND_NXT tcp_data.RCV_NXT tcp_data.RCV_WND [])
    (List.mem_cons_self _ _)
  have hseq : (make_packet 0 1 1 tcp_data.SND_NXT tcp_data.RCV_NXT tcp_data.RCV_WND []).seq
      = tcp_data.SND_NXT := Nat.mod_eq_of_lt hlt
  have hlen : SEG_LEN (make_packet 0 1 1 tcp_data.SND_NXT tcp_data.RCV_NXT tcp_data.RCV_WND [])
      = 1 := rfl
  rw [hseq, hlen] at hp
  refine ⟨k.1, ?_, ?_, k.2.2.1, k.2.2.2.1, k.2.2.2.2⟩
  · show tcp_data.SND_NXT ≤ (_ + 1) % 2 ^ 32
    rw [k.2.1, Nat.mod_eq_of_lt hp]
    omega
  · exact Nat.mod_lt _ (by norm_num)

theorem update_send_buffer_loop_advances (env : tcp_env_t) (hpk : peek_bounded env) (fuel : Nat) :
    ∀ (bytes_to_send : Int) (tcp_data : tcp_data_t) (actions : List tcp_action_t)
      (r : tcp_data_t × List tcp_action_t),
      update_send_buffer_loop env fuel bytes_to_send tcp_data actions = some r →
      (∀ a ∈ actions, a ∈ r.2) ∧
      (no_wraparound r.2 → tcp_data.SND_NXT < 2 ^ 32 → advances_send tcp_data r.1) := by
  induction fuel with
  | zero =>
    intro bts td acts r h
    unfold update_send_buffer_loop at h
    split_ifs at h
    cases h
    exact ⟨fun a ha => ha, fun _ hlt => ⟨rfl, Nat.le_refl _, hlt, rfl, rfl, rfl⟩⟩
  | succ n ih =>
    intro bts td acts r h
    unfold update_send_buffer_loop at h
    by_cases hb : bts > 0
    · rw [if_pos hb] at h
      dsimp only at h
      by_cases hr : (env.peek_at td.send td.SND_NXT
          (if bts > TCP_MSS then TCP_MSS else bts).toNat).1 > 0
      · rw [if_pos hr] at h
        obtain ⟨ih1, ih2⟩ := ih _ _ _ _ h
        obtain ⟨k, _⟩ := rtqueue_append_keeps td
          (make_packet 0 1 0 td.SND_NXT td.RCV_NXT td.RCV_WND
            (((env.peek_at td.send td.SND_NXT (if bts > TCP_MSS then TCP_MSS else bts).toNat).2
              ++ List.replicate (if bts > TCP_MSS then TCP_MSS else bts).toNat 0).take
                (if bts > TCP_MSS then TCP_MSS else bts).toNat))
          td.SND_NXT env.now
        refine ⟨fun a ha => ih1 a (List.mem_append_left _ ha), ?_⟩
        intro hnw hlt
        have hmem := ih1 _ (List.mem_append_right acts (List.mem_cons_self _ _))
        have hp := hnw _ hmem
        have hseq : (make_packet 0 1 0 td.SND_NXT td.RCV_NXT td.RCV_WND
            (((env.peek_at td.send td.SND_NXT (if bts > TCP_MSS then TCP_MSS else bts).toNat).2
              ++ List.replicate (if bts > TCP_MSS then TCP_MSS else bts).toNat 0).take
                (if bts > TCP_MSS then TCP_MSS else bts).toNat)).seq = td.SND_NXT :=
          Nat.mod_eq_of_lt hlt
        have hlen : SEG_LEN (make_packet 0 1 0 td.SND_NXT td.RCV_NXT td.RCV_WND
            (((env.peek_at td.send td.SND_NXT (if bts > TCP_MSS then TCP_MSS else bts).toNat).2
              ++ List.replicate (if bts > TCP_MSS then TCP_MSS else bts).toNat 0).take
                (if bts > TCP_MSS then TCP_MSS else bts).toNat))
            = (if bts > TCP_MSS then TCP_MSS else bts).toNat := by
          unfold SEG_LEN TCP_PAYLOAD_LEN make_packet
          simp
        rw [hseq, hlen] at hp
        have hbd := hpk td.send td.SND_NXT (if bts > TCP_MSS then TCP_MSS else bts).toNat
        have hrd : (env.peek_at td.send td.SND_NXT
            (if bts > TCP_MSS then TCP_MSS else bts).toNat).1.toNat
            ≤ (if bts > TCP_MSS then TCP_MSS else bts).toNat := by
          omega
        have hstep := ih2 hnw (Nat.mod_lt _ (by norm_num))
        refine ⟨hstep.1.trans k.1, ?_, hstep.2.2.1, hstep.2.2.2.1.trans k.2.2.1,
          hstep.2.2.2.2.1.trans k.2.2.2.1, hstep.2.2.2.2.2.trans k.2.2.2.2⟩
        refine Nat.le_trans ?_ hstep.2.1
        show td.SND_NXT ≤ (_ + _) % 2 ^ 32
        rw [k.2.1, Nat.mod_eq_of_lt (by omega)]
        omega
      · rw [if_neg hr] at h
        exact ih _ _ _ _ h
    · rw [if_neg hb] at h
      cases h
      exact ⟨fun a ha => ha, fun _ hlt => ⟨rfl, Nat.le_refl _, hlt, rfl, rfl, rfl⟩⟩

theorem chitcp_update_send_buffer_advances (env : tcp_env_t) (hpk : peek_bounded env)
    (tcp_data : tcp_data_t) (r : tcp_data_t × List tcp_action_t)
    (h : chitcp_update_send_buffer env tcp_data = some r)
    (hnw : no_wraparound r.2) (hlt : tcp_data.SND_NXT < 2 ^ 32) :
    advances_send tcp_data r.1 := by
  unfold chitcp_update_send_buffer at h
  dsimp only at h
  split_ifs at h
  · cases h
    exact application_close_advances tcp_data env.now hlt hnw
  · cases h
    exact ⟨rfl, Nat.le_refl _, hlt, rfl, rfl, rfl⟩
  · exact (update_send_buffer_loop_advances env hpk _ _ _ _ _ h).2 hnw hlt
  · exact (update_send_buffer_loop_advances env hpk _ _ _ _ _ h).2 hnw hlt

/-! ## Lemmas: the stages of the arrival of a packet -/

theorem out_of_order_drain_mem (list : List out_of_order_list_t) :
    ∀ (pending_packets : List tcp_packet_t) (next_seq : Nat),
      (∀ o ∈ (out_of_order_drain list pending_packets next_seq).1, o ∈ list) ∧
      (∀ p ∈ (out_of_order_drain list pending_packets next_seq).2.1,
        p ∈ pending_packets ∨ ∃ o ∈ list, p = o.packet) := by
  induction list with
  | nil =>
    intro pending next
    exact ⟨fun o ho => ho, fun p hp => Or.inl hp⟩
  | cons l rest ih =>
    intro pending next
    unfold out_of_order_drain
    by_cases h : l.seq = next
    · rw [if_pos h]
      obtain ⟨i1, i2⟩ := ih (pending ++ [l.packet]) ((next + TCP_PAYLOAD_LEN l.packet) % 2 ^ 32)
      refine ⟨fun o ho => List.mem_cons_of_mem _ (i1 o ho), ?_⟩
      intro p hp
      rcases i2 p hp with h1 | ⟨o, ho, he⟩
      · rcases List.mem_append.mp h1 with h2 | h2
        · exact Or.inl h2
        · right
          refine ⟨l, List.mem_cons_self _ _, ?_⟩
          simpa using h2
      · exact Or.inr ⟨o, List.mem_cons_of_mem _ ho, he⟩
    · rw [if_neg h]
      obtain ⟨i1, i2⟩ := ih pending next
      refine ⟨?_, ?_⟩
      · intro o ho
        rcases List.mem_cons.mp ho with h1 | h1
        · rw [h1]; exact List.mem_cons_self _ _
        · exact List.mem_cons_of_mem _ (i1 o h1)
      · intro p hp
        rcases i2 p hp with h1 | ⟨o, ho, he⟩
        · exact Or.inl h1
        · exact Or.inr ⟨o, List.mem_cons_of_mem _ ho, he⟩

theorem out_of_order_insert_mem (list : List out_of_order_list_t) (seg : out_of_order_list_t) :
    ∀ o ∈ out_of_order_insert list seg, o ∈ list ∨ o = seg := by
  intro o ho
  unfold out_of_order_insert at ho
  dsimp only at ho
  have hin : ∀ x ∈ List.take (DL_LOWER_BOUND seg list) list
      ++ seg :: List.drop (DL_LOWER_BOUND seg list) list, x ∈ list ∨ x = seg := by
    intro x hx
    rcases List.mem_append.mp hx with h | h
    · exact Or.inl (List.mem_of_mem_take h)
    · rcases List.mem_cons.mp h with h | h
      · exact Or.inr h
      · exact Or.inl (List.mem_of_mem_drop h)
  split_ifs at ho
  all_goals first
    | exact hin o ((List.eraseIdx_sublist _ _).subset ho)
    | exact hin o ho

theorem packet_arrival_fin_keeps (tcp_state current : tcp_state_t) (tcp_data : tcp_data_t)
    (packet : tcp_packet_t) (actions : List tcp_action_t) :
    keeps_send tcp_data (packet_arrival_fin tcp_state current tcp_data packet actions).tcp_data := by
  unfold packet_arrival_fin
  dsimp only
  split_ifs
  all_goals first
    | exact ⟨rfl, rfl, rfl, rfl, rfl⟩
    | exact ⟨rfl, by assumption, rfl, rfl, rfl⟩

theorem packet_arrival_text_keeps (tcp_state current : tcp_state_t) (tcp_data : tcp_data_t)
    (packet : tcp_packet_t) (actions : List tcp_action_t) (hinv : send_inv tcp_data) :
    send_inv (packet_arrival_text tcp_state current tcp_data packet actions).tcp_data ∧
    (packet_arrival_text tcp_state current tcp_data packet actions).tcp_data.SND_UNA
      = tcp_data.SND_UNA ∧
    (packet_arrival_text tcp_state current tcp_data packet actions).tcp_data.SND_NXT
      = tcp_data.SND_NXT ∧
    (packet_arrival_text tcp_state current tcp_data packet actions).tcp_data.SND_WND
      = tcp_data.SND_WND := by
  obtain ⟨i1, i2, i3, i4⟩ := hinv
  unfold packet_arrival_text
  split_ifs with h1 h2
  · dsimp only
    obtain ⟨d1, d2⟩ := out_of_order_drain_mem tcp_data.list tcp_data.pending_packets
      (circular_buffer_next (circular_buffer_write tcp_data.recv packet.payload))
    have k := packet_arrival_fin_keeps tcp_state current
      { tcp_data with
        recv := circular_buffer_write tcp_data.recv packet.payload
        RCV_NXT := circular_buffer_next (circular_buffer_write tcp_data.recv packet.payload)
        RCV_WND := circular_buffer_available (circular_buffer_write tcp_data.recv packet.payload)
        list := (out_of_order_drain tcp_data.list tcp_data.pending_packets
          (circular_buffer_next (circular_buffer_write tcp_data.recv packet.payload))).1
        pending_packets := (out_of_order_drain tcp_data.list tcp_data.pending_packets
          (circular_buffer_next (circular_buffer_write tcp_data.recv packet.payload))).2.1 }
      packet
      (actions ++ [tcp_action_t.send_tcp_packet (make_packet 0 1 0 tcp_data.SND_NXT
        (out_of_order_drain tcp_data.list tcp_data.pending_packets
          (circular_buffer_next (circular_buffer_write tcp_data.recv packet.payload))).2.2
        (circular_buffer_available (circular_buffer_write tcp_data.recv packet.payload)) [])])
    refine ⟨⟨?_, ?_, ?_, ?_⟩, k.1, k.2.1, k.2.2.1⟩
    · rw [k.1, k.2.1]; exact i1
    · rw [k.2.1]; exact i2
    · rw [k.2.2.2.1]
      intro p hp
      rcases d2 p hp with h | ⟨o, ho, he⟩
      · exact i3 p h
      · rw [he]; exact i4 o ho
    · rw [k.2.2.2.2]
      intro o ho
      exact i4 o (d1 o ho)
  · have k := packet_arrival_fin_keeps tcp_state current tcp_data packet actions
    refine ⟨⟨?_, ?_, ?_, ?_⟩, k.1, k.2.1, k.2.2.1⟩
    · rw [k.1, k.2.1]; exact i1
    · rw [k.2.1]; exact i2
    · rw [k.2.2.2.1]; exact i3
    · rw [k.2.2.2.2]; exact i4
  · exact ⟨⟨i1, i2, i3, i4⟩, rfl, rfl, rfl⟩

theorem packet_arrival_persist_keeps (env : tcp_env_t) (tcp_data : tcp_data_t)
    (packet : tcp_packet_t) (r : tcp_data_t × List tcp_action_t)
    (h : packet_arrival_persist env tcp_data packet = some r) :
    keeps_send tcp_data r.1 ∧ sent_packets r.2 = [] := by
  unfold packet_arrival_persist at h
  dsimp only at h
  split_ifs at h with h1 h2 h3
  · cases hc : tcp_cancel_timer tcp_data PERSIST with
    | none => rw [hc] at h; cases h
    | some x =>
      obtain ⟨mt, hx⟩ := tcp_cancel_timer_keeps _ _ _ hc
      rw [hc, hx] at h
      cases h
      exact ⟨⟨rfl, rfl, rfl, rfl, rfl⟩, rfl⟩
  · cases h
    exact ⟨⟨rfl, rfl, rfl, rfl, rfl⟩, rfl⟩
  · cases hc : tcp_cancel_timer tcp_data PERSIST with
    | none => rw [hc] at h; cases h
    | some x =>
      obtain ⟨mt, hx⟩ := tcp_cancel_timer_keeps _ _ _ hc
      rw [hc, hx] at h
      dsimp only at h
      cases hpp : tcp_data.probe_packet with
      | none =>
        rw [hpp] at h
        cases h
        exact ⟨⟨rfl, rfl, rfl, rfl, rfl⟩, rfl⟩
      | some pp =>
        rw [hpp] at h
        cases h
        exact ⟨⟨rfl, rfl, rfl, rfl, rfl⟩, rfl⟩
  · cases h
    exact ⟨⟨rfl, rfl, rfl, rfl, rfl⟩, rfl⟩

theorem packet_arrival_fin_actions (tcp_state current : tcp_state_t) (tcp_data : tcp_data_t)
    (packet : tcp_packet_t) (actions : List tcp_action_t) :
    ∃ extra, (packet_arrival_fin tcp_state current tcp_data packet actions).actions
      = actions ++ extra := by
  unfold packet_arrival_fin
  dsimp only
  split_ifs
  all_goals first
    | exact ⟨[], (List.append_nil _).symm⟩
    | exact ⟨_, rfl⟩

theorem packet_arrival_text_actions (tcp_state current : tcp_state_t) (tcp_data : tcp_data_t)
    (packet : tcp_packet_t) (actions : List tcp_action_t) :
    ∃ extra, (packet_arrival_text tcp_state current tcp_data packet actions).actions
      = actions ++ extra := by
  unfold packet_arrival_text
  dsimp only
  split_ifs
  · obtain ⟨e, he⟩ := packet_arrival_fin_actions tcp_state current
      { tcp_data with
        recv := circular_buffer_write tcp_data.recv packet.payload
        RCV_NXT := circular_buffer_next (circular_buffer_write tcp_data.recv packet.payload)
        RCV_WND := circular_buffer_available (circular_buffer_write tcp_data.recv packet.payload)
        list := (out_of_order_drain tcp_data.list tcp_data.pending_packets
          (circular_buffer_next (circular_buffer_write tcp_data.recv packet.payload))).1
        pending_packets := (out_of_order_drain tcp_data.list tcp_data.pending_packets
          (circular_buffer_next (circular_buffer_write tcp_data.recv packet.payload))).2.1 }
      packet
      (actions ++ [tcp_action_t.send_tcp_packet (make_packet 0 1 0 tcp_data.SND_NXT
        (out_of_order_drain tcp_data.list tcp_data.pending_packets
          (circular_buffer_next (circular_buffer_write tcp_data.recv packet.payload))).2.2
        (circular_buffer_available (circular_buffer_write tcp_data.recv packet.payload)) [])])
    exact ⟨_, he.trans (List.append_assoc _ _ _)⟩
  · exact packet_arrival_fin_actions tcp_state current tcp_data packet actions
  · exact ⟨[], (List.append_nil _).symm⟩

theorem send_inv_of_keeps {a b : tcp_data_t} (h : keeps_send a b) (hinv : send_inv a) :
    send_inv b := by
  obtain ⟨i1, i2, i3, i4⟩ := hinv
  refine ⟨?_, ?_, ?_, ?_⟩
  · rw [h.1, h.2.1]; exact i1
  · rw [h.2.1]; exact i2
  · rw [h.2.2.2.1]; exact i3
  · rw [h.2.2.2.2]; exact i4

theorem packet_arrival_ack_inv (env : tcp_env_t) (tcp_state : tcp_state_t)
    (tcp_data : tcp_data_t) (packet : tcp_packet_t) (r : tcp_result_t)
    (h : packet_arrival_ack env tcp_state tcp_data packet = some r)
    (hinv : send_inv tcp_data) (hrange : packet_in_range packet) (hpk : peek_bounded env)
    (hnw : no_wraparound r.actions) :
    send_inv r.tcp_data ∧
    (established_family tcp_state → tcp_data.SND_UNA ≤ packet.ack_seq →
      packet.ack_seq ≤ tcp_data.SND_NXT →
      r.tcp_data.SND_UNA = packet.ack_seq ∧ r.tcp_data.SND_WND = packet.win) := by
  unfold packet_arrival_ack at h
  by_cases c1 : tcp_state = tcp_state_t.SYN_RCVD ∧ tcp_data.SND_UNA ≤ packet.ack_seq
      ∧ packet.ack_seq ≤ tcp_data.SND_NXT
  · rw [if_pos c1] at h
    dsimp only at h
    cases hc : rtqueue_pop env.fp { tcp_data with first_RTT := true } (2 ^ 32 - 1) env.now with
    | none => rw [hc] at h; cases h
    | some x =>
      obtain ⟨k, _⟩ := rtqueue_pop_keeps _ _ _ _ _ hc
      rw [hc] at h
      cases h
      refine ⟨⟨Nat.le_refl _, hrange.2, ?_, ?_⟩, ?_⟩
      · show ∀ p ∈ x.1.pending_packets, _
        rw [k.2.2.2.1]; exact hinv.2.2.1
      · show ∀ o ∈ x.1.list, _
        rw [k.2.2.2.2]; exact hinv.2.2.2
      · intro hf
        rcases hf with e | e | e | e | e | e | e <;> rw [c1.1] at e <;> cases e
  · rw [if_neg c1] at h
    by_cases c2 : tcp_state = tcp_state_t.ESTABLISHED ∨ tcp_state = tcp_state_t.FIN_WAIT_1
        ∨ tcp_state = tcp_state_t.FIN_WAIT_2 ∨ tcp_state = tcp_state_t.CLOSE_WAIT
        ∨ tcp_state = tcp_state_t.CLOSING ∨ tcp_state = tcp_state_t.LAST_ACK
        ∨ tcp_state = tcp_state_t.TIME_WAIT
    · rw [if_pos c2] at h
      by_cases c3 : tcp_data.SND_UNA ≤ packet.ack_seq ∧ packet.ack_seq ≤ tcp_data.SND_NXT
      · rw [if_pos c3] at h
        cases hc : rtqueue_pop env.fp tcp_data packet.ack_seq env.now with
        | none => rw [hc] at h; cases h
        | some x =>
          obtain ⟨k1, _⟩ := rtqueue_pop_keeps _ _ _ _ _ hc
          rw [hc] at h
          dsimp only at h
          cases hd : packet_arrival_persist env x.1 packet with
          | none => rw [hd] at h; cases h
          | some y =>
            obtain ⟨k2, _⟩ := packet_arrival_persist_keeps _ _ _ _ hd
            rw [hd] at h
            dsimp only at h
            cases he : chitcp_update_send_buffer env
                { y.1 with SND_UNA := packet.ack_seq, SND_WND := packet.win } with
            | none => rw [he] at h; cases h
            | some z =>
              rw [he] at h
              dsimp only at h
              simp only [Option.some.injEq] at h
              have k12 := keeps_send_trans k1 k2
              obtain ⟨extra, hx⟩ := packet_arrival_text_actions tcp_state
                (packet_arrival_ack_state tcp_state z.1 packet) z.1 packet (x.2 ++ y.2 ++ z.2)
              rw [h] at hx
              rw [hx] at hnw
              have hnz : no_wraparound z.2 :=
                ((no_wraparound_append _ _).mp ((no_wraparound_append _ _).mp hnw).1).2
              have hlt : ({ y.1 with SND_UNA := packet.ack_seq, SND_WND := packet.win }
                  : tcp_data_t).SND_NXT < 2 ^ 32 := by
                show y.1.SND_NXT < 2 ^ 32
                rw [k12.2.1]; exact hinv.2.1
              have adv := chitcp_update_send_buffer_advances env hpk _ z he hnz hlt
              have hz : send_inv z.1 := by
                refine ⟨?_, adv.2.2.1, ?_, ?_⟩
                · rw [adv.1]
                  show packet.ack_seq ≤ z.1.SND_NXT
                  refine Nat.le_trans ?_ adv.2.1
                  show packet.ack_seq ≤ y.1.SND_NXT
                  rw [k12.2.1]; exact c3.2
                · rw [adv.2.2.2.2.1]
                  show ∀ p ∈ y.1.pending_packets, _
                  rw [k12.2.2.2.1]; exact hinv.2.2.1
                · rw [adv.2.2.2.2.2]
                  show ∀ o ∈ y.1.list, _
                  rw [k12.2.2.2.2]; exact hinv.2.2.2
              obtain ⟨t1, t2, _, t4⟩ := packet_arrival_text_keeps tcp_state
                (packet_arrival_ack_state tcp_state z.1 packet) z.1 packet (x.2 ++ y.2 ++ z.2) hz
              rw [h] at t1 t2 t4
              refine ⟨t1, fun _ _ _ => ⟨?_, ?_⟩⟩
              · rw [t2, adv.1]
              · rw [t4, adv.2.2.2.1]
      · rw [if_neg c3] at h
        by_cases c4 : packet.ack_seq > tcp_data.SND_NXT
        · rw [if_pos c4] at h
          simp only [Option.some.injEq] at h
          obtain ⟨t1, _, _, _⟩ := packet_arrival_text_keeps tcp_state
            (packet_arrival_ack_state tcp_state tcp_data packet) tcp_data packet
            [tcp_action_t.send_tcp_packet (ack_packet tcp_data)] hinv
          rw [h] at t1
          exact ⟨t1, fun _ h1 h2 => absurd ⟨h1, h2⟩ c3⟩
        · rw [if_neg c4] at h
          cases h
          exact ⟨hinv, fun _ h1 h2 => absurd ⟨h1, h2⟩ c3⟩
    · rw [if_neg c2] at h
      simp only [Option.some.injEq] at h
      obtain ⟨t1, _, _, _⟩ := packet_arrival_text_keeps tcp_state tcp_state tcp_data packet [] hinv
      rw [h] at t1
      exact ⟨t1, fun hf => absurd hf c2⟩

/-! ## C17: the invariant of the send sequence variables -/

theorem packet_arrival_synchronized_inv (env : tcp_env_t) (tcp_state : tcp_state_t)
    (tcp_data : tcp_data_t) (packet : tcp_packet_t) (r : tcp_result_t)
    (h : packet_arrival_synchronized env tcp_state tcp_data packet = some r)
    (hinv : send_inv tcp_data) (hrange : packet_in_range packet) (hpk : peek_bounded env)
    (hnw : no_wraparound r.actions) :
    send_inv r.tcp_data := by
  unfold packet_arrival_synchronized at h
  cases hs : seq_check tcp_data packet with
  | out_of_order =>
    rw [hs] at h
    cases h
    refine ⟨hinv.1, hinv.2.1, hinv.2.2.1, ?_⟩
    intro o ho
    rcases out_of_order_insert_mem _ _ o ho with h1 | h1
    · exact hinv.2.2.2 o h1
    · rw [h1]; exact hrange
  | dropped => rw [hs] at h; cases h; exact hinv
  | not_acceptable => rw [hs] at h; cases h; exact hinv
  | acceptable =>
    rw [hs] at h
    dsimp only at h
    split_ifs at h
    · cases h; exact hinv
    · cases h; exact hinv
    · exact (packet_arrival_ack_inv env tcp_state tcp_data packet r h hinv hrange hpk hnw).1

theorem connect_inv (tcp_data : tcp_data_t) (rand : Nat) (packet : tcp_packet_t) (seq : Nat)
    (now : timespec) (IRS RCV_NXT RCV_WND : Nat) (send recv : circular_buffer_t)
    (hinv : send_inv tcp_data) :
    send_inv (rtqueue_append
      { tcp_data with
        ISS := random_number rand
        SND_UNA := random_number rand
        SND_NXT := (random_number rand + 1) % 2 ^ 32
        RCV_WND := RCV_WND
        IRS := IRS
        RCV_NXT := RCV_NXT
        send := send
        recv := recv } packet seq now).1 := by
  have hI := random_number_lt rand
  apply send_inv_of_keeps (rtqueue_append_keeps _ packet seq now).1
  refine ⟨?_, Nat.mod_lt _ (by norm_num), hinv.2.2.1, hinv.2.2.2⟩
  show random_number rand ≤ (random_number rand + 1) % 2 ^ 32
  rw [Nat.mod_eq_of_lt (by omega)]
  omega

theorem packet_arrival_LISTEN_inv (env : tcp_env_t) (tcp_data : tcp_data_t)
    (packet : tcp_packet_t) (hinv : send_inv tcp_data) :
    send_inv (packet_arrival_LISTEN env tcp_data packet).tcp_data := by
  unfold packet_arrival_LISTEN
  split_ifs
  · exact hinv
  · exact connect_inv tcp_data env.rand _ _ _ _ _ _ _ _ hinv
  · exact hinv

theorem packet_arrival_SYN_SENT_inv (env : tcp_env_t) (tcp_data : tcp_data_t)
    (packet : tcp_packet_t) (r : tcp_result_t)
    (h : packet_arrival_SYN_SENT env tcp_data packet = some r)
    (hinv : send_inv tcp_data) (hrange : packet_in_range packet) :
    send_inv r.tcp_data := by
  unfold packet_arrival_SYN_SENT at h
  split_ifs at h with h1 h2
  · cases h; exact hinv
  · dsimp only at h
    cases hc : rtqueue_pop env.fp { tcp_data with first_RTT := true } (2 ^ 32 - 1) env.now with
    | none => rw [hc] at h; cases h
    | some x =>
      obtain ⟨k, _⟩ := rtqueue_pop_keeps _ _ _ _ _ hc
      rw [hc] at h
      dsimp only at h
      have hx : send_inv
          { x.1 with
            RCV_NXT := (packet.seq + 1) % 2 ^ 32
            IRS := packet.seq
            SND_UNA := packet.ack_seq
            SND_NXT := packet.ack_seq
            SND_WND := packet.win
            recv := circular_buffer_set_seq_initial x.1.recv ((packet.seq + 1) % 2 ^ 32) } := by
        refine ⟨Nat.le_refl _, hrange.2, ?_, ?_⟩
        · show ∀ p ∈ x.1.pending_packets, _
          rw [k.2.2.2.1]; exact hinv.2.2.1
        · show ∀ o ∈ x.1.list, _
          rw [k.2.2.2.2]; exact hinv.2.2.2
      split_ifs at h
      · cases h; exact hx
      · cases h
        exact send_inv_of_keeps (rtqueue_append_keeps _ _ _ _).1 hx
  · cases h; exact hinv

theorem PACKET_ARRIVAL_inv (env : tcp_env_t) (tcp_state : tcp_state_t) (tcp_data : tcp_data_t)
    (r : tcp_result_t)
    (h : chitcpd_tcp_state_handle_PACKET_ARRIVAL env tcp_state tcp_data = some r)
    (hinv : send_inv tcp_data) (hpk : peek_bounded env) (hnw : no_wraparound r.actions) :
    send_inv r.tcp_data := by
  unfold chitcpd_tcp_state_handle_PACKET_ARRIVAL at h
  cases hp : tcp_data.pending_packets with
  | nil => rw [hp] at h; cases h; exact hinv
  | cons packet rest =>
    rw [hp] at h
    dsimp only at h
    have hrange : packet_in_range packet := hinv.2.2.1 packet (by rw [hp]; exact List.mem_cons_self _ _)
    have hinv' : send_inv { tcp_data with pending_packets := rest } :=
      ⟨hinv.1, hinv.2.1,
        fun p hp' => hinv.2.2.1 p (by rw [hp]; exact List.mem_cons_of_mem _ hp'), hinv.2.2.2⟩
    split_ifs at h
    · cases h; exact hinv'
    · cases h; exact packet_arrival_LISTEN_inv env _ packet hinv'
    · exact packet_arrival_SYN_SENT_inv env _ packet r h hinv' hrange
    · exact packet_arrival_synchronized_inv env tcp_state _ packet r h hinv' hrange hpk hnw

theorem TIMEOUT_RTX_keeps (tcp_data : tcp_data_t) (now : timespec) :
    keeps_send tcp_data (chitcpd_tcp_state_handle_TIMEOUT_RTX tcp_data now).1 := by
  rw [timeout_rtx_unfold]
  split_ifs
  · exact ⟨rfl, rfl, rfl, rfl, rfl⟩
  · exact ⟨rfl, rfl, rfl, rfl, rfl⟩

theorem TIMEOUT_PST_advances (env : tcp_env_t) (tcp_data : tcp_data_t)
    (hlt : tcp_data.SND_NXT < 2 ^ 32)
    (hnw : no_wraparound (chitcpd_tcp_state_handle_TIMEOUT_PST env tcp_data).2) :
    advances_send tcp_data (chitcpd_tcp_state_handle_TIMEOUT_PST env tcp_data).1 := by
  unfold chitcpd_tcp_state_handle_TIMEOUT_PST at hnw ⊢
  dsimp only at hnw ⊢
  by_cases c1 : circular_buffer_count tcp_data.send ≤ 0
  · simp only [c1, if_true] at hnw ⊢
    exact ⟨rfl, Nat.le_refl _, hlt, rfl, rfl, rfl⟩
  · simp only [c1, if_false] at hnw ⊢
    cases hpp : tcp_data.probe_packet with
    | some pp =>
      simp only [hpp] at hnw ⊢
      exact ⟨rfl, Nat.le_refl _, hlt, rfl, rfl, rfl⟩
    | none =>
      simp only [hpp] at hnw ⊢
      by_cases c2 : (env.peek_at tcp_data.send tcp_data.SND_NXT 1).1 > 0
      · simp only [c2, if_true] at hnw ⊢
        have hp := hnw _ (List.mem_append_left _ (List.mem_cons_self _ _))
        have hseq : (make_packet 0 1 0 tcp_data.SND_NXT tcp_data.RCV_NXT tcp_data.RCV_WND
            (List.take 1 ((env.peek_at tcp_data.send tcp_data.SND_NXT 1).2 ++ [0]))).seq
            = tcp_data.SND_NXT := Nat.mod_eq_of_lt hlt
        have hlen : SEG_LEN (make_packet 0 1 0 tcp_data.SND_NXT tcp_data.RCV_NXT tcp_data.RCV_WND
            (List.take 1 ((env.peek_at tcp_data.send tcp_data.SND_NXT 1).2 ++ [0]))) = 1 := by
          unfold SEG_LEN TCP_PAYLOAD_LEN make_packet
          simp
        rw [hseq, hlen] at hp
        refine ⟨rfl, ?_, Nat.mod_lt _ (by norm_num), rfl, rfl, rfl⟩
        show tcp_data.SND_NXT ≤ (tcp_data.SND_NXT + 1) % 2 ^ 32
        rw [Nat.mod_eq_of_lt hp]
        omega
      · simp only [c2, if_false] at hnw ⊢
        exact ⟨rfl, Nat.le_refl _, hlt, rfl, rfl, rfl⟩

theorem send_inv_of_advances {a b : tcp_data_t} (h : advances_send a b) (hinv : send_inv a) :
    send_inv b := by
  obtain ⟨i1, i2, i3, i4⟩ := hinv
  refine ⟨?_, h.2.2.1, ?_, ?_⟩
  · rw [h.1]; exact Nat.le_trans i1 h.2.1
  · rw [h.2.2.2.2.1]; exact i3
  · rw [h.2.2.2.2.2]; exact i4

theorem update_send_buffer_inv (env : tcp_env_t) (next : tcp_state_t) (tcp_data : tcp_data_t)
    (closing : Bool) (r : tcp_result_t)
    (h : (match chitcp_update_send_buffer env { tcp_data with closing := closing } with
      | none => none
      | some (tcp_data, actions) => some (⟨next, tcp_data, actions⟩ : tcp_result_t)) = some r)
    (hinv : send_inv tcp_data) (hpk : peek_bounded env) (hnw : no_wraparound r.actions) :
    send_inv r.tcp_data := by
  cases hc : chitcp_update_send_buffer env { tcp_data with closing := closing } with
  | none => rw [hc] at h; cases h
  | some x =>
    rw [hc] at h
    cases h
    exact send_inv_of_advances
      (chitcp_update_send_buffer_advances env hpk _ x hc hnw hinv.2.1) hinv

theorem handle_event_inv (env : tcp_env_t) (tcp_state : tcp_state_t) (tcp_data : tcp_data_t)
    (event : tcp_event_type_t) (r : tcp_result_t)
    (h : chitcpd_tcp_handle_event env tcp_state tcp_data event = some r)
    (hinv : send_inv tcp_data) (hpk : peek_bounded env) (hnw : no_wraparound r.actions) :
    send_inv r.tcp_data := by
  have harr : ∀ st, chitcpd_tcp_state_handle_PACKET_ARRIVAL env st tcp_data = some r →
      send_inv r.tcp_data := fun st h => PACKET_ARRIVAL_inv env st tcp_data r h hinv hpk hnw
  have hrtx : ∀ st, handle_TIMEOUT_RTX env st tcp_data = some r → send_inv r.tcp_data := by
    intro st h
    unfold handle_TIMEOUT_RTX at h
    cases h
    exact send_inv_of_keeps (TIMEOUT_RTX_keeps tcp_data env.now) hinv
  have hpst : ∀ st, handle_TIMEOUT_PST env st tcp_data = some r → send_inv r.tcp_data := by
    intro st h
    unfold handle_TIMEOUT_PST at h
    cases h
    exact send_inv_of_advances (TIMEOUT_PST_advances env tcp_data hinv.2.1 hnw) hinv
  have hrcv : ∀ st, handle_APPLICATION_RECEIVE st tcp_data = some r → send_inv r.tcp_data := by
    intro st h
    unfold handle_APPLICATION_RECEIVE at h
    cases h
    exact hinv
  have hcls : ∀ st, handle_APPLICATION_CLOSE env st tcp_data = some r → send_inv r.tcp_data := by
    intro st h
    unfold handle_APPLICATION_CLOSE at h
    exact update_send_buffer_inv env st tcp_data true r h hinv hpk hnw
  have hsnd : ∀ st, (match chitcp_update_send_buffer env tcp_data with
      | none => none
      | some (tcp_data, actions) => some (⟨st, tcp_data, actions⟩ : tcp_result_t)) = some r →
      send_inv r.tcp_data := by
    intro st h
    exact update_send_buffer_inv env st tcp_data tcp_data.closing r h hinv hpk hnw
  have hid : some (⟨tcp_state, tcp_data, []⟩ : tcp_result_t) = some r → send_inv r.tcp_data := by
    intro h; cases h; exact hinv
  unfold chitcpd_tcp_handle_event at h
  cases tcp_state
  case CLOSED =>
    simp only [chitcpd_tcp_state_handle_CLOSED] at h
    split_ifs at h
    · cases h
      exact connect_inv tcp_data env.rand _ _ _ _ _ _ _ _ hinv
    · cases h
      exact ⟨hinv.1, hinv.2.1, (fun p hp => by cases hp), hinv.2.2.2⟩
    · exact hid h
  case LISTEN =>
    simp only [chitcpd_tcp_state_handle_LISTEN] at h
    split_ifs at h
    · exact harr _ h
    · exact hid h
  case SYN_RCVD =>
    simp only [chitcpd_tcp_state_handle_SYN_RCVD] at h
    split_ifs at h
    · exact harr _ h
    · exact hrtx _ h
    · exact hid h
  case SYN_SENT =>
    simp only [chitcpd_tcp_state_handle_SYN_SENT] at h
    split_ifs at h
    · exact harr _ h
    · exact hrtx _ h
    · exact hid h
  case ESTABLISHED =>
    simp only [chitcpd_tcp_state_handle_ESTABLISHED] at h
    split_ifs at h
    · exact hsnd _ h
    · exact harr _ h
    · exact hrcv _ h
    · exact hcls _ h
    · exact hrtx _ h
    · exact hpst _ h
    · exact hid h
  case FIN_WAIT_1 =>
    simp only [chitcpd_tcp_state_handle_FIN_WAIT_1] at h
    split_ifs at h
    · exact harr _ h
    · exact hrcv _ h
    · exact hrtx _ h
    · exact hpst _ h
    · exact hid h
  case FIN_WAIT_2 =>
    simp only [chitcpd_tcp_state_handle_FIN_WAIT_2] at h
    split_ifs at h
    · exact harr _ h
    · exact hrcv _ h
    · exact hrtx _ h
    · exact hid h
  case CLOSE_WAIT =>
    simp only [chitcpd_tcp_state_handle_CLOSE_WAIT] at h
    split_ifs at h
    · exact hcls _ h
    · exact harr _ h
    · exact hrtx _ h
    · exact hpst _ h
    · exact hid h
  case CLOSING =>
    simp only [chitcpd_tcp_state_handle_CLOSING] at h
    split_ifs at h
    · exact harr _ h
    · exact hrtx _ h
    · exact hpst _ h
    · exact hid h
  case TIME_WAIT =>
    simp only [chitcpd_tcp_state_handle_TIME_WAIT] at h
    exact hid h
  case LAST_ACK =>
    simp only [chitcpd_tcp_state_handle_LAST_ACK] at h
    split_ifs at h
    · exact harr _ h
    · exact hrtx _ h
    · exact hpst _ h
    · exact hid h

theorem tcp_step_inv (tcp_state : tcp_state_t) (tcp_data : tcp_data_t) (input : tcp_input_t)
    (r : tcp_result_t) (h : tcp_step tcp_state tcp_data input = some r)
    (hinv : send_inv tcp_data) (hin : input_in_range input) (hnw : no_wraparound r.actions) :
    send_inv r.tcp_data := by
  cases input with
  | event env event => exact handle_event_inv env tcp_state tcp_data event r h hinv hin hnw
  | socket_send bytes => cases h; exact hinv
  | socket_recv len => cases h; exact hinv
  | packet_arrives packet =>
    cases h
    refine ⟨hinv.1, hinv.2.1, ?_, hinv.2.2.2⟩
    intro p hp
    rcases List.mem_append.mp hp with h1 | h1
    · exact hinv.2.2.1 p h1
    · rw [List.mem_singleton.mp h1]; exact hin
  | timer_expires =>
    unfold tcp_step at h
    cases hm : mt_timeout tcp_data.mt with
    | none => rw [hm] at h; cases h
    | some mt => rw [hm] at h; cases h; exact hinv

theorem reachable_send_inv (tcp_state : tcp_state_t) (tcp_data : tcp_data_t)
    (h : reachable_without_wraparound tcp_state tcp_data) : send_inv tcp_data := by
  induction h with
  | init tcp_data passive h hlt =>
    exact ⟨h, hlt, (fun p hp => by cases hp), (fun o ho => by cases ho)⟩
  | step tcp_state tcp_data input r _ hin hstep hnw ih =>
    exact tcp_step_inv tcp_state tcp_data input r hstep ih hin hnw

theorem no_wraparound_of_sent (actions : List tcp_action_t)
    (h : ∀ p ∈ sent_packets actions, p.seq + SEG_LEN p < 2 ^ 32) : no_wraparound actions := by
  intro p hp
  apply h
  unfold sent_packets
  rw [List.mem_filterMap]
  exact ⟨_, hp, rfl⟩

theorem peek_bounded_ex_env (rand : Nat) : peek_bounded (ex_env rand) := by
  intro buf seq len
  show ((((buf.data.drop _).take len).length : Nat) : Int) ≤ (len : Int)
  exact Int.ofNat_le.mpr (List.length_take_le _ _)

theorem peek_bounded_ex_env_at (sec : Int) : peek_bounded (ex_env_at sec) := by
  intro buf seq len
  show ((((buf.data.drop _).take len).length : Nat) : Int) ≤ (len : Int)
  exact Int.ofNat_le.mpr (List.length_take_le _ _)

/-- The connection after connect and SYN+ACK is reached from `tcp_data_init`. -/
theorem ex_after_synack_reachable :
    reachable_without_wraparound tcp_state_t.ESTABLISHED ex_after_synack.tcp_data :=
  reachable_without_wraparound.step tcp_state_t.SYN_SENT ex_synack_pending
    (tcp_input_t.event (ex_env 0) tcp_event_type_t.PACKET_ARRIVAL) ex_after_synack
    (reachable_without_wraparound.step tcp_state_t.SYN_SENT ex_after_connect.tcp_data
      (tcp_input_t.packet_arrives ex_synack)
      ⟨tcp_state_t.SYN_SENT, ex_synack_pending, []⟩
      (reachable_without_wraparound.step tcp_state_t.CLOSED ex_init_data
        (tcp_input_t.event (ex_env 1000) tcp_event_type_t.APPLICATION_CONNECT)
        ex_after_connect
        (reachable_without_wraparound.init ex_zero_data false (by decide) (by decide))
        (peek_bounded_ex_env 1000) rfl
        (no_wraparound_of_sent _ (by decide)))
      (show packet_in_range ex_synack from ⟨by decide, by decide⟩) rfl
      (no_wraparound_of_sent _ (by decide)))
    (peek_bounded_ex_env 0) rfl (no_wraparound_of_sent _ (by decide))

/-- So is the connection after the application has written three bytes and they
have been sent. -/
theorem ex_connected_sent_reachable :
    reachable_without_wraparound tcp_state_t.ESTABLISHED ex_connected_sent.tcp_data :=
  reachable_without_wraparound.step tcp_state_t.ESTABLISHED ex_connected_written
    (tcp_input_t.event (ex_env_at 100) tcp_event_type_t.APPLICATION_SEND) ex_connected_sent
    (reachable_without_wraparound.step tcp_state_t.ESTABLISHED ex_after_synack.tcp_data
      (tcp_input_t.socket_send [1, 2, 3])
      ⟨tcp_state_t.ESTABLISHED, ex_connected_written, []⟩
      ex_after_synack_reachable trivial rfl (no_wraparound_of_sent _ (by decide)))
    (peek_bounded_ex_env_at 100) rfl (no_wraparound_of_sent _ (by decide))

/-- A segment without data at SEG.SEQ = 2001 with a 32-bit acknowledgment number. -/
theorem ex_ack_in_range (ack_seq : Nat) (h : ack_seq < 2 ^ 32) :
    packet_in_range ⟨0, 1, 0, 2001, ack_seq, 4096, []⟩ :=
  ⟨by show 2001 < 2 ^ 32; norm_num, h⟩

/-- And so is that connection with a segment queued by the network thread. -/
theorem ex_connected_queued_reachable (packet : tcp_packet_t) (h : packet_in_range packet) :
    reachable_without_wraparound tcp_state_t.ESTABLISHED
      { ex_connected_sent.tcp_data with
        pending_packets := ex_connected_sent.tcp_data.pending_packets ++ [packet] } :=
  reachable_without_wraparound.step tcp_state_t.ESTABLISHED ex_connected_sent.tcp_data
    (tcp_input_t.packet_arrives packet)
    ⟨tcp_state_t.ESTABLISHED,
      { ex_connected_sent.tcp_data with
        pending_packets := ex_connected_sent.tcp_data.pending_packets ++ [packet] }, []⟩
    ex_connected_sent_reachable h rfl (fun _ hp => absurd hp (List.not_mem_nil _))

set_option maxRecDepth 100000 in
/-- The segment with SEG.ACK = 234 that is pending in `ex_connected_partial_ack` is
acceptable and acknowledges one of the three bytes in flight, and
PACKET_ARRIVAL at 101 s does not return. -/
theorem ex_connected_partial_ack_run :
    ex_connected_partial_ack.pending_packets = [⟨0, 1, 0, 2001, 234, 4096, []⟩] ∧
    seq_check ex_connected_partial_ack ⟨0, 1, 0, 2001, 234, 4096, []⟩
      = seq_check_t.acceptable ∧
    ex_connected_partial_ack.SND_UNA = 233 ∧ ex_connected_partial_ack.SND_NXT = 236 ∧
    chitcpd_tcp_state_handle_PACKET_ARRIVAL (ex_env_at 101) tcp_state_t.ESTABLISHED
      ex_connected_partial_ack = none :=
  ⟨rfl, rfl, rfl, rfl, rfl⟩

set_option maxRecDepth 100000 in
/-- The segment with SEG.ACK = 236 that is pending in `ex_connected_full_ack` is
acceptable and acknowledges the three bytes in flight, and PACKET_ARRIVAL at
101 s returns `ex_connected_acked`, in which SND.UNA = SND.NXT = 236 and nothing
was sent. -/
theorem ex_connected_full_ack_run :
    ex_connected_full_ack.pending_packets = [⟨0, 1, 0, 2001, 236, 4096, []⟩] ∧
    seq_check ex_connected_full_ack ⟨0, 1, 0, 2001, 236, 4096, []⟩
      = seq_check_t.acceptable ∧
    ex_connected_full_ack.SND_UNA = 233 ∧ ex_connected_full_ack.SND_NXT = 236 ∧
    chitcpd_tcp_state_handle_PACKET_ARRIVAL (ex_env_at 101) tcp_state_t.ESTABLISHED
      ex_connected_full_ack = some ex_connected_acked ∧
    ex_connected_acked.tcp_data.SND_UNA = 236 ∧ ex_connected_acked.tcp_data.SND_NXT = 236 ∧
    sent_packets ex_connected_acked.actions = [] :=
  ⟨rfl, rfl, rfl, rfl, rfl, rfl, rfl, rfl⟩

/-- C17: (1) In every state reached from `tcp_data_init` through the handlers of
the events (connect, arrival of a packet, send, receive, close, the
retransmission and the persist timeout) and the steps of the other threads,
as long as no segment that is sent reaches beyond the end of the 32-bit
sequence space, SND.UNA <= SND.NXT.  (2) When in such a state of the family of
ESTABLISHED an acceptable segment with ACK arrives whose
SND.UNA <= SEG.ACK <= SND.NXT, a call of the handler that returns leaves
SND.UNA' = SEG.ACK, which is at least SND.UNA and at most SND.NXT'.  (3) The
handler does not return from every such segment: in the state reached from
`tcp_data_init` by connect, SYN+ACK, a write of three bytes and their sending in
one segment at SEG.SEQ = 233 (SND.UNA = 233, SND.NXT = 236), the segment with
SEG.ACK = 234 is acceptable and its acknowledgment is in range, and
PACKET_ARRIVAL does not return, because the loop of
`chitcp_update_send_buffer` does not end. -/
theorem send_sequence_invariant (tcp_state : tcp_state_t) (tcp_data : tcp_data_t)
    (h : reachable_without_wraparound tcp_state tcp_data) :
    tcp_data.SND_UNA ≤ tcp_data.SND_NXT ∧
    (∀ (env : tcp_env_t) (packet : tcp_packet_t) (rest : List tcp_packet_t) (r : tcp_result_t),
      established_family tcp_state → peek_bounded env →
      tcp_data.pending_packets = packet :: rest →
      seq_check tcp_data packet = seq_check_t.acceptable → packet.syn ≠ 1 → packet.ack ≠ 0 →
      tcp_data.SND_UNA ≤ packet.ack_seq → packet.ack_seq ≤ tcp_data.SND_NXT →
      chitcpd_tcp_state_handle_PACKET_ARRIVAL env tcp_state tcp_data = some r →
      no_wraparound r.actions →
      r.tcp_data.SND_UNA = packet.ack_seq ∧ tcp_data.SND_UNA ≤ r.tcp_data.SND_UNA ∧
        r.tcp_data.SND_UNA ≤ r.tcp_data.SND_NXT) ∧
    (reachable_without_wraparound tcp_state_t.ESTABLISHED ex_connected_partial_ack ∧
      peek_bounded (ex_env_at 101) ∧
      ex_connected_partial_ack.pending_packets = [⟨0, 1, 0, 2001, 234, 4096, []⟩] ∧
      seq_check ex_connected_partial_ack ⟨0, 1, 0, 2001, 234, 4096, []⟩
        = seq_check_t.acceptable ∧
      ex_connected_partial_ack.SND_UNA = 233 ∧ ex_connected_partial_ack.SND_NXT = 236 ∧
      chitcpd_tcp_state_handle_PACKET_ARRIVAL (ex_env_at 101) tcp_state_t.ESTABLISHED
        ex_connected_partial_ack = none) := by
  have hinv := reachable_send_inv tcp_state tcp_data h
  refine ⟨hinv.1, ?_,
    ⟨ex_connected_queued_reachable _ (ex_ack_in_range 234 (by norm_num)),
      peek_bounded_ex_env_at 101, ex_connected_partial_ack_run⟩⟩
  intro env packet rest r hf hpk hp hacc hsyn hack h1 h2 hr hnw
  have hne : tcp_state ≠ tcp_state_t.CLOSED ∧ tcp_state ≠ tcp_state_t.LISTEN
      ∧ tcp_state ≠ tcp_state_t.SYN_SENT := by
    rcases hf with e | e | e | e | e | e | e <;> rw [e] <;> exact ⟨by decide, by decide, by decide⟩
  rw [packet_arrival_of_synchronized env tcp_state tcp_data packet rest hne.1 hne.2.1 hne.2.2 hp]
    at hr
  have hrange : packet_in_range packet := hinv.2.2.1 packet (by rw [hp]; exact List.mem_cons_self _ _)
  have hinv' : send_inv { tcp_data with pending_packets := rest } :=
    ⟨hinv.1, hinv.2.1,
      fun p hp' => hinv.2.2.1 p (by rw [hp]; exact List.mem_cons_of_mem _ hp'), hinv.2.2.2⟩
  unfold packet_arrival_synchronized at hr
  have hsc : seq_check { tcp_data with pending_packets := rest } packet
      = seq_check tcp_data packet := rfl
  rw [hsc, hacc] at hr
  dsimp only at hr
  rw [if_neg hsyn, if_neg hack] at hr
  obtain ⟨k1, k2⟩ := packet_arrival_ack_inv env tcp_state _ packet r hr hinv' hrange hpk hnw
  obtain ⟨e1, _⟩ := k2 hf h1 h2
  refine ⟨e1, by rw [e1]; exact h1, k1.1⟩

/-- C17, an instance: in the state reached from `tcp_data_init` by connect, SYN+ACK
and the sending of three bytes at SEG.SEQ = 233, the segment with
SEG.ACK = 236 arrives; the handler returns and leaves SND.UNA' = 236, which is
above SND.UNA = 233 and is SND.NXT'. -/
theorem send_sequence_invariant_witness :
    reachable_without_wraparound tcp_state_t.ESTABLISHED ex_connected_full_ack ∧
    chitcpd_tcp_state_handle_PACKET_ARRIVAL (ex_env_at 101) tcp_state_t.ESTABLISHED
        ex_connected_full_ack = some ex_connected_acked ∧
    ex_connected_full_ack.SND_UNA = 233 ∧ ex_connected_full_ack.SND_NXT = 236 ∧
    ex_connected_acked.tcp_data.SND_UNA = 236 ∧
    ex_connected_full_ack.SND_UNA ≤ ex_connected_acked.tcp_data.SND_UNA ∧
    ex_connected_acked.tcp_data.SND_UNA ≤ ex_connected_acked.tcp_data.SND_NXT :=
  ⟨ex_connected_queued_reachable _ (ex_ack_in_range 236 (by norm_num)),
    ex_connected_full_ack_run.2.2.2.2.1, ex_connected_full_ack_run.2.2.1,
    ex_connected_full_ack_run.2.2.2.1,
    (send_sequence_invariant tcp_state_t.ESTABLISHED ex_connected_full_ack
      (ex_connected_queued_reachable _ (ex_ack_in_range 236 (by norm_num)))).2.1
      (ex_env_at 101) ⟨0, 1, 0, 2001, 236, 4096, []⟩ [] ex_connected_acked
      (Or.inl rfl) (peek_bounded_ex_env_at 101) ex_connected_full_ack_run.1
      ex_connected_full_ack_run.2.1 (by decide) (by decide)
      (le_of_eq_of_le ex_connected_full_ack_run.2.2.1 (by norm_num))
      (le_of_le_of_eq (by norm_num) ex_connected_full_ack_run.2.2.2.1.symm)
      ex_connected_full_ack_run.2.2.2.2.1
      (no_wraparound_of_sent _ (by
        rw [ex_connected_full_ack_run.2.2.2.2.2.2.2]
        intro p hp
        cases hp))⟩

/-! ## C18: duplicate acknowledgments -/

/-- C18 (counterexample): in ESTABLISHED with SND.UNA = SND.NXT = 233, SND.WND = 0
and three bytes in the send buffer, an acceptable segment without data whose
SEG.ACK = 233 equals SND.UNA is processed as an acknowledgment: SND.WND becomes
the 4096 of the segment, the three bytes are transmitted in one segment, which
is put in the retransmission queue, and SND.NXT becomes 236. -/
theorem ack_equal_to_snd_una_is_processed :
    ex_window_update.SND_UNA = 233 ∧ ex_window_update.SND_WND = 0 ∧
    ex_window_update.rt_queue = [] ∧
    seq_check ex_window_update ⟨0, 1, 0, 2001, 233, 4096, []⟩ = seq_check_t.acceptable ∧
    (chitcpd_tcp_state_handle_PACKET_ARRIVAL (ex_env 0) tcp_state_t.ESTABLISHED
        ex_window_update).map
      (fun r => (r.tcp_state, r.tcp_data.SND_UNA, r.tcp_data.SND_WND, r.tcp_data.SND_NXT,
        sent_packets r.actions, r.tcp_data.rt_queue.map (fun elt => elt.packet_sent)))
      = some (tcp_state_t.ESTABLISHED, 233, 4096, 236, [⟨0, 1, 0, 233, 2001, 4096, [1, 2, 3]⟩],
          [⟨0, 1, 0, 233, 2001, 4096, [1, 2, 3]⟩]) := by
  exact ⟨rfl, rfl, rfl, rfl, rfl⟩

/-- C18 (amended): in ESTABLISHED, FIN_WAIT_1, FIN_WAIT_2, CLOSE_WAIT, CLOSING,
LAST_ACK (and TIME_WAIT), for an acceptable segment with ACK set and SYN clear
and a TCB with SND.UNA <= SND.NXT: if SEG.ACK < SND.UNA no ACK processing is
performed, the TCB is unchanged apart from the removal of the segment from the
pending packets, and nothing is transmitted; ACK processing happens whenever
SND.UNA <= SEG.ACK <= SND.NXT, also when SEG.ACK = SND.UNA: then the handler
leaves SND.UNA = SEG.ACK and SND.WND = SEG.WND (the second part is stated for a
TCB with 32-bit numbers and without wraparound of the segments sent). -/
theorem duplicate_ack_ignored (env : tcp_env_t) (tcp_state : tcp_state_t)
    (tcp_data : tcp_data_t) (packet : tcp_packet_t) (rest : List tcp_packet_t)
    (hf : established_family tcp_state)
    (hp : tcp_data.pending_packets = packet :: rest)
    (hacc : seq_check tcp_data packet = seq_check_t.acceptable)
    (hsyn : packet.syn ≠ 1) (hack : packet.ack ≠ 0)
    (hle : tcp_data.SND_UNA ≤ tcp_data.SND_NXT) :
    (packet.ack_seq < tcp_data.SND_UNA →
      chitcpd_tcp_state_handle_PACKET_ARRIVAL env tcp_state tcp_data
        = some ⟨tcp_state, { tcp_data with pending_packets := rest }, []⟩) ∧
    (tcp_data.SND_UNA ≤ packet.ack_seq → packet.ack_seq ≤ tcp_data.SND_NXT →
      ∀ r, chitcpd_tcp_state_handle_PACKET_ARRIVAL env tcp_state tcp_data = some r →
        send_inv tcp_data → peek_bounded env → no_wraparound r.actions →
        r.tcp_data.SND_UNA = packet.ack_seq ∧ r.tcp_data.SND_WND = packet.win) := by
  have hne : tcp_state ≠ tcp_state_t.CLOSED ∧ tcp_state ≠ tcp_state_t.LISTEN
      ∧ tcp_state ≠ tcp_state_t.SYN_SENT ∧ tcp_state ≠ tcp_state_t.SYN_RCVD := by
    rcases hf with e | e | e | e | e | e | e <;> rw [e] <;>
      exact ⟨by decide, by decide, by decide, by decide⟩
  have hev := packet_arrival_of_synchronized env tcp_state tcp_data packet rest hne.1 hne.2.1
    hne.2.2.1 hp
  have hsc : seq_check { tcp_data with pending_packets := rest } packet
      = seq_check tcp_data packet := rfl
  have hsync : packet_arrival_synchronized env tcp_state
      { tcp_data with pending_packets := rest } packet
      = packet_arrival_ack env tcp_state { tcp_data with pending_packets := rest } packet := by
    unfold packet_arrival_synchronized
    rw [hsc, hacc]
    dsimp only
    rw [if_neg hsyn, if_neg hack]
  refine ⟨?_, ?_⟩
  · intro hlt
    rw [hev, hsync]
    unfold packet_arrival_ack
    have c1 : ¬ (tcp_state = tcp_state_t.SYN_RCVD ∧
        ({ tcp_data with pending_packets := rest } : tcp_data_t).SND_UNA ≤ packet.ack_seq
        ∧ packet.ack_seq ≤ ({ tcp_data with pending_packets := rest } : tcp_data_t).SND_NXT) :=
      fun h => hne.2.2.2 h.1
    have c3 : ¬ (({ tcp_data with pending_packets := rest } : tcp_data_t).SND_UNA ≤ packet.ack_seq
        ∧ packet.ack_seq ≤ ({ tcp_data with pending_packets := rest } : tcp_data_t).SND_NXT) := by
      show ¬ (tcp_data.SND_UNA ≤ packet.ack_seq ∧ packet.ack_seq ≤ tcp_data.SND_NXT)
      omega
    have c4 : ¬ (packet.ack_seq
        > ({ tcp_data with pending_packets := rest } : tcp_data_t).SND_NXT) := by
      show ¬ (packet.ack_seq > tcp_data.SND_NXT)
      omega
    have c2 : tcp_state = tcp_state_t.ESTABLISHED ∨ tcp_state = tcp_state_t.FIN_WAIT_1
        ∨ tcp_state = tcp_state_t.FIN_WAIT_2 ∨ tcp_state = tcp_state_t.CLOSE_WAIT
        ∨ tcp_state = tcp_state_t.CLOSING ∨ tcp_state = tcp_state_t.LAST_ACK
        ∨ tcp_state = tcp_state_t.TIME_WAIT := hf
    rw [if_neg c1, if_pos c2, if_neg c3, if_neg c4]
  · intro h1 h2 r hr hinv hpk hnw
    rw [hev, hsync] at hr
    have hrange : packet_in_range packet :=
      hinv.2.2.1 packet (by rw [hp]; exact List.mem_cons_self _ _)
    have hinv' : send_inv { tcp_data with pending_packets := rest } :=
      ⟨hinv.1, hinv.2.1,
        fun p hp' => hinv.2.2.1 p (by rw [hp]; exact List.mem_cons_of_mem _ hp'), hinv.2.2.2⟩
    exact (packet_arrival_ack_inv env tcp_state _ packet r hr hinv' hrange hpk hnw).2 hf h1 h2

theorem duplicate_ack_ignored_witness :
    chitcpd_tcp_state_handle_PACKET_ARRIVAL (ex_env 0) tcp_state_t.ESTABLISHED
        { ex_established with pending_packets := [⟨0, 1, 0, 2001, 200, 100, []⟩] }
      = some ⟨tcp_state_t.ESTABLISHED, ex_established, []⟩ ∧
    chitcpd_tcp_state_handle_PACKET_ARRIVAL (ex_env 0) tcp_state_t.ESTABLISHED ex_window_update
      = some ex_window_opened ∧
    ex_window_opened.tcp_data.SND_UNA = 233 ∧ ex_window_opened.tcp_data.SND_WND = 4096 :=
  ⟨(duplicate_ack_ignored (ex_env 0) tcp_state_t.ESTABLISHED
      { ex_established with pending_packets := [⟨0, 1, 0, 2001, 200, 100, []⟩] }
      ⟨0, 1, 0, 2001, 200, 100, []⟩ [] (Or.inl rfl) rfl rfl (by decide) (by decide)
      (by decide)).1 (by decide),
    rfl,
    (duplicate_ack_ignored (ex_env 0) tcp_state_t.ESTABLISHED ex_window_update
      ⟨0, 1, 0, 2001, 233, 4096, []⟩ [] (Or.inl rfl) rfl rfl (by decide) (by decide)
      (by decide)).2 (by decide) (by decide) ex_window_opened rfl
      ⟨by decide, by decide,
        (fun p hp => by
          have h : ex_window_update.pending_packets = [⟨0, 1, 0, 2001, 233, 4096, []⟩] := rfl
          rw [h, List.mem_singleton] at hp
          rw [hp]
          exact ⟨by decide, by decide⟩),
        (fun o ho => by
          have h : ex_window_update.list = [] := rfl
          rw [h] at ho
          cases ho)⟩
      (peek_bounded_ex_env 0) (no_wraparound_of_sent _ (by decide))⟩

/-! ## C19: what an acknowledgment removes from the retransmission queue -/

/-- C19: `rtqueue_append` stores as expected acknowledgment seq + payload length,
without the SYN bit and the FIN bit, so that `rtqueue_pop` removes an entry as
soon as SEG.ACK >= seq + payload length.  In particular, when the application
closes the established connection with SND.NXT = 233, the FIN is queued with
SEG.SEQ = 233 and expected acknowledgment 233, and a segment with SEG.ACK = 233
that arrives then empties the queue and leaves the retransmission timer idle,
with SND.UNA = 233 < SND.NXT = 234 in FIN_WAIT_1.  What remains of the claim
holds: after a pop with acknowledgment a, the head of the queue, if any, has an
expected acknowledgment above a. -/
theorem rtqueue_pop_removes_unacknowledged_fin :
    (∀ (tcp_data : tcp_data_t) (packet : tcp_packet_t) (seq : Nat) (now : timespec),
      (rtqueue_append tcp_data packet seq now).1.rt_queue
        = tcp_data.rt_queue ++ [⟨packet, now, (TCP_PAYLOAD_LEN packet + seq) % 2 ^ 32, false⟩]) ∧
    (tcp_run ⟨tcp_state_t.ESTABLISHED, ex_established, []⟩ ex_close_inputs).map
      (fun r => (r.tcp_state, r.tcp_data.SND_UNA, r.tcp_data.SND_NXT,
        r.tcp_data.rt_queue.map
          (fun elt => (elt.packet_sent.fin, elt.packet_sent.seq, SEG_LEN elt.packet_sent,
            elt.expected_ack_seq)),
        timer_armed r.tcp_data.mt RETRANSMISSION))
      = some (tcp_state_t.FIN_WAIT_1, 233, 234, [(1, 233, 1, 233)], true) ∧
    (tcp_run ⟨tcp_state_t.ESTABLISHED, ex_established, []⟩ ex_close_ack_inputs).map
      (fun r => (r.tcp_state, r.tcp_data.SND_UNA, r.tcp_data.SND_NXT, r.tcp_data.rt_queue,
        timer_armed r.tcp_data.mt RETRANSMISSION))
      = some (tcp_state_t.FIN_WAIT_1, 233, 234, [], false) ∧
    (∀ (fp : double_ops) (tcp_data : tcp_data_t) (ack_seq : Nat) (now : timespec)
        (r : tcp_data_t × List tcp_action_t) (elt : retransmission_queue_t),
      mt_wf tcp_data.mt → rtqueue_pop fp tcp_data ack_seq now = some r →
      r.1.rt_queue.head? = some elt → ack_seq < elt.expected_ack_seq) := by
  refine ⟨?_, ?_, ?_, ?_⟩
  · intro tcp_data packet seq now
    obtain ⟨mt, actions, h, _⟩ := rtqueue_append_shape tcp_data packet seq now
    rw [h]
  · rfl
  · rfl
  · intro fp tcp_data ack_seq now r elt hwf hr hhead
    obtain ⟨a, b, c, d, e, f, g, mt, actions, h, _⟩ :=
      rtqueue_pop_shape fp tcp_data ack_seq now hwf
    rw [h] at hr
    cases hr
    have hq : (with_rtx tcp_data a b c d e f
        (tcp_data.rt_queue.dropWhile (fun elt => decide (elt.expected_ack_seq ≤ ack_seq)))
        g mt).rt_queue
        = tcp_data.rt_queue.dropWhile (fun elt => decide (elt.expected_ack_seq ≤ ack_seq)) := rfl
    have hh : (tcp_data.rt_queue.dropWhile
        (fun elt => decide (elt.expected_ack_seq ≤ ack_seq))).head? = some elt := by
      rw [← hq]; exact hhead
    have hn := List.head?_dropWhile_not (fun elt => decide (elt.expected_ack_seq ≤ ack_seq))
      tcp_data.rt_queue
    rw [hh] at hn
    have hn' : decide (elt.expected_ack_seq ≤ ack_seq) = false := hn
    have := of_decide_eq_false hn'
    omega

theorem rtqueue_pop_removes_unacknowledged_fin_witness :
    ((rtqueue_pop exact_double_ops ex_two_in_flight 236 ⟨101, 0⟩).map
        (fun r => r.1.rt_queue.map (fun elt => elt.expected_ack_seq))) = some [238] ∧
    236 < (⟨⟨0, 1, 0, 236, 2001, 4096, [4, 5]⟩, ⟨100, 0⟩, 238, false⟩ :
      retransmission_queue_t).expected_ack_seq :=
  ⟨rfl, rtqueue_pop_removes_unacknowledged_fin.2.2.2 exact_double_ops ex_two_in_flight 236
    ⟨101, 0⟩ ((rtqueue_pop exact_double_ops ex_two_in_flight 236 ⟨101, 0⟩).getD
      (ex_two_in_flight, []))
    ⟨⟨0, 1, 0, 236, 2001, 4096, [4, 5]⟩, ⟨100, 0⟩, 238, false⟩
    (mt_wf_tcp_data_init ex_zero_data) rfl rfl⟩

/-! ## C20: round-trip samples of retransmitted segments -/

/-- C20: `rtqueue_pop` calls `update_RTO` for every entry that it removes and does
not look at the flag `retransmitted`.  A segment of three bytes sent at 100 s and
sent again by the retransmission timeout at 101 s is in the queue with the flag
set and SRTT = 200 ms, RTTVAR = 100 ms, RTO = 1200 ms; its acknowledgment at
102 s changes them to 300 ms, 275 ms and 1400 ms.  One acknowledgment at 101 s
of two segments sent at 100 s gives SRTT = 387.5 ms, RTTVAR = 381.25 ms and
RTO = 1912.5 ms, the result of two updates, where one update from the oldest
entry gives 300 ms, 275 ms and 1400 ms. -/
theorem rtqueue_pop_samples_retransmitted_segments :
    (tcp_run ⟨tcp_state_t.ESTABLISHED, ex_established, []⟩ ex_resend_inputs).map
      (fun r => (r.tcp_data.rt_queue.map
          (fun elt => (elt.packet_sent.seq, elt.expected_ack_seq, elt.retransmitted)),
        r.tcp_data.SRTT, r.tcp_data.RTTVAR, r.tcp_data.RTO))
      = some ([(233, 236, true)], 200000000, 100000000, 1200000000) ∧
    (tcp_run ⟨tcp_state_t.ESTABLISHED, ex_established, []⟩ ex_resend_ack_inputs).map
      (fun r => (r.tcp_data.rt_queue, r.tcp_data.SRTT, r.tcp_data.RTTVAR, r.tcp_data.RTO))
      = some ([], 300000000, 275000000, 1400000000) ∧
    (tcp_run ⟨tcp_state_t.ESTABLISHED, ex_established, []⟩ ex_two_segments_inputs).map
      (fun r => (r.tcp_data.rt_queue.map
          (fun elt => (elt.packet_sent.seq, elt.expected_ack_seq, elt.retransmitted)),
        r.tcp_data.SRTT, r.tcp_data.RTTVAR, r.tcp_data.RTO,
        (update_RTO exact_double_ops r.tcp_data ⟨101, 0⟩ ⟨100, 0⟩).SRTT,
        (update_RTO exact_double_ops r.tcp_data ⟨101, 0⟩ ⟨100, 0⟩).RTTVAR,
        (update_RTO exact_double_ops r.tcp_data ⟨101, 0⟩ ⟨100, 0⟩).RTO))
      = some ([(233, 236, false), (236, 238, false)], 200000000, 100000000, 600000000,
          300000000, 275000000, 1400000000) ∧
    (tcp_run ⟨tcp_state_t.ESTABLISHED, ex_established, []⟩ ex_two_segments_ack_inputs).map
      (fun r => (r.tcp_data.rt_queue, r.tcp_data.SRTT, r.tcp_data.RTTVAR, r.tcp_data.RTO))
      = some ([], 387500000, 381250000, 1912500000) := by
  exact ⟨rfl, rfl, rfl, rfl⟩

/-! ## C28: the errors of the multi-timer -/

/-- C28: with the timer thread running, `mt_cancel_timer` on a valid id whose timer
is idle returns `CHITCP_EINVAL` and leaves the multi-timer (the flags of all
timers and the list of active timers) as it is; `mt_set_timer` on an id that is
in the list of active timers returns `CHITCP_EINVAL` and leaves the multi-timer
as it is, so that the deadline, the callback and the place in the list of the
timer that is set are unchanged; and with `id >= num_timers` each of
`mt_set_timer`, `mt_cancel_timer`, `mt_get_timer_by_id` and `mt_set_timer_name`
returns `CHITCP_EINVAL` and changes nothing. -/
theorem mt_error_contract (mt : multi_timer_t) (id timeout : Nat)
    (callback_fn callback_args : Option Nat) (now : timespec) (name : List Nat) :
    (id < mt.num_timers → mt.active = true →
      (∃ t, mt.timers[id]? = some t ∧ t.active = false) →
      mt_cancel_timer mt id = some (mt, chitcp_rc_t.CHITCP_EINVAL)) ∧
    (timer_armed mt id = true →
      mt_set_timer mt id timeout callback_fn callback_args now
        = (mt, chitcp_rc_t.CHITCP_EINVAL)) ∧
    (mt.num_timers ≤ id →
      mt_set_timer mt id timeout callback_fn callback_args now
        = (mt, chitcp_rc_t.CHITCP_EINVAL) ∧
      mt_cancel_timer mt id = some (mt, chitcp_rc_t.CHITCP_EINVAL) ∧
      mt_get_timer_by_id mt id = none ∧
      mt_set_timer_name mt id name = (mt, chitcp_rc_t.CHITCP_EINVAL)) := by
  refine ⟨?_, ?_, ?_⟩
  · rintro hid hact ⟨t, ht, hidle⟩
    unfold mt_cancel_timer
    have h1 : ¬ (id ≥ mt.num_timers ∨ id < 0) := by omega
    rw [if_neg h1, if_pos hact, ht]
    simp only [hidle, Bool.not_false, if_true]
  · intro harmed
    have harmed : (mt.active_timers.any fun elt => elt.timer == id) = true := harmed
    unfold mt_set_timer
    by_cases h1 : id ≥ mt.num_timers ∨ id < 0
    · rw [if_pos h1]
    · rw [if_neg h1, if_pos harmed]
  · intro hid
    have h1 : id ≥ mt.num_timers ∨ id < 0 := Or.inl hid
    refine ⟨?_, ?_, ?_, ?_⟩
    · unfold mt_set_timer; rw [if_pos h1]
    · unfold mt_cancel_timer; rw [if_pos h1]
    · unfold mt_get_timer_by_id; rw [if_pos h1]
    · unfold mt_set_timer_name; rw [if_pos h1]

theorem mt_error_contract_witness :
    mt_cancel_timer ex_one_armed 1 = some (ex_one_armed, chitcp_rc_t.CHITCP_EINVAL) ∧
    mt_set_timer ex_one_armed 0 700 (some 3) (some 4) ⟨9, 0⟩
      = (ex_one_armed, chitcp_rc_t.CHITCP_EINVAL) ∧
    mt_get_timer_by_id ex_one_armed 2 = none :=
  ⟨(mt_error_contract ex_one_armed 1 0 none none ⟨0, 0⟩ []).1 (by decide) rfl
      ⟨⟨1, false, 0, none, none, []⟩, rfl, rfl⟩,
    (mt_error_contract ex_one_armed 0 700 (some 3) (some 4) ⟨9, 0⟩ []).2.1 rfl,
    ((mt_error_contract ex_one_armed 2 0 none none ⟨0, 0⟩ []).2.2 (by decide)).2.2.1⟩

/-! ## C29: the state of the multi-timer -/

theorem timeoutcmp_le_iff (a b : active_timer_t) :
    timeoutcmp a b ≤ 0 ↔ deadline_le a.timeout_spec b.timeout_spec := by
  unfold timeoutcmp deadline_le
  dsimp only
  split_ifs <;> constructor <;> intro h <;> omega

theorem DL_SORT_sorted (l : List active_timer_t) :
    (DL_SORT l).Pairwise (fun a b => deadline_le a.timeout_spec b.timeout_spec) := by
  unfold DL_SORT
  haveI : IsTotal active_timer_t (fun a b => timeoutcmp a b ≤ 0) :=
    ⟨fun a b => by
      rw [timeoutcmp_le_iff, timeoutcmp_le_iff]
      unfold deadline_le
      omega⟩
  haveI : IsTrans active_timer_t (fun a b => timeoutcmp a b ≤ 0) :=
    ⟨fun a b c => by
      rw [timeoutcmp_le_iff, timeoutcmp_le_iff, timeoutcmp_le_iff]
      unfold deadline_le
      omega⟩
  have h := List.sorted_insertionSort (fun a b : active_timer_t => timeoutcmp a b ≤ 0) l
  exact List.Pairwise.imp (fun {a b} hab => (timeoutcmp_le_iff a b).mp hab) h

theorem timer_armed_iff_mem (mt : multi_timer_t) (id : Nat) :
    timer_armed mt id = true ↔ id ∈ mt.active_timers.map (fun elt => elt.timer) := by
  unfold timer_armed
  rw [List.any_eq_true, List.mem_map]
  constructor
  · rintro ⟨x, hx, h⟩
    exact ⟨x, hx, by simpa using h⟩
  · rintro ⟨x, hx, h⟩
    exact ⟨x, hx, by simpa using h⟩

theorem map_timer_eraseP (l : List active_timer_t) (id : Nat) :
    (l.eraseP (fun elt => elt.timer == id)).map (fun elt => elt.timer)
      = (l.map (fun elt => elt.timer)).erase id := by
  induction l with
  | nil => rfl
  | cons a l ih =>
    rw [List.eraseP_cons, List.map_cons, List.erase_cons]
    by_cases h : a.timer = id
    · have : (a.timer == id) = true := by simp [h]
      simp [this]
    · have : (a.timer == id) = false := by simp [h]
      simp [this, ih]

theorem mt_inv_init (num_timers : Nat) : mt_inv (mt_init num_timers) := by
  refine ⟨rfl, ?_, List.nodup_nil, ?_, ?_, List.Pairwise.nil⟩
  · show ((List.range num_timers).map mt_init_timer).length = num_timers
    rw [List.length_map, List.length_range]
  · intro id t ht
    have ht' : ((List.range num_timers).map mt_init_timer)[id]? = some t := ht
    rw [List.getElem?_map] at ht'
    have hf : t.active = false := by
      cases hr : (List.range num_timers)[id]? with
      | none => rw [hr] at ht'; cases ht'
      | some k =>
        rw [hr] at ht'
        have : mt_init_timer k = t := by simpa using ht'
        rw [← this]; rfl
    constructor
    · intro h; rw [hf] at h; cases h
    · intro h; cases h
  · intro elt helt
    cases helt

theorem mt_inv_set_timer (mt : multi_timer_t) (id timeout : Nat)
    (callback_fn callback_args : Option Nat) (now : timespec) (h : mt_inv mt) :
    mt_inv (mt_set_timer mt id timeout callback_fn callback_args now).1 := by
  obtain ⟨ha, hl, hn, hf, hb, hs⟩ := h
  unfold mt_set_timer
  by_cases h1 : id ≥ mt.num_timers ∨ id < 0
  · rw [if_pos h1]; exact ⟨ha, hl, hn, hf, hb, hs⟩
  · rw [if_neg h1]
    by_cases h2 : mt.active_timers.any (fun elt => elt.timer == id) = true
    · rw [if_pos h2]; exact ⟨ha, hl, hn, hf, hb, hs⟩
    · rw [if_neg h2]
      have hnot : id ∉ mt.active_timers.map (fun elt => elt.timer) := by
        intro hmem
        exact h2 ((timer_armed_iff_mem mt id).mpr hmem)
      have hperm := List.perm_insertionSort (fun a b : active_timer_t => timeoutcmp a b ≤ 0)
        (mt.active_timers ++ [⟨id, timespec_normalize { now with tv_nsec := now.tv_nsec + timeout }⟩])
      refine ⟨ha, ?_, ?_, ?_, ?_, DL_SORT_sorted _⟩
      · show (List.modify _ _ _).length = _
        rw [List.length_modify]; exact hl
      · show ((DL_SORT _).map _).Nodup
        refine ((hperm.map _).nodup_iff).mpr ?_
        rw [List.map_append, List.map_cons, List.map_nil]
        rw [List.nodup_append]
        refine ⟨hn, List.nodup_singleton _, ?_⟩
        intro a ha1 ha2
        rw [List.mem_singleton] at ha2
        rw [ha2] at ha1
        exact hnot ha1
      · intro id2 t ht
        show t.active = true ↔ (DL_SORT _).any _ = true
        rw [timer_armed_DL_SORT, List.any_append]
        have ht' : (List.modify (fun t : single_timer_t =>
            ({ t with active := true, callback_fn := callback_fn,
                      callback_args := callback_args } : single_timer_t)) id mt.timers)[id2]?
            = some t := ht
        rw [List.getElem?_modify] at ht'
        by_cases hid : id = id2
        · subst hid
          have hlt : id < mt.timers.length := by omega
          rw [List.getElem?_eq_getElem hlt] at ht'
          simp at ht'
          rw [← ht']
          simp
        · simp [hid] at ht'
          have := hf id2 t ht'
          unfold timer_armed at this
          rw [this]
          have hne : (id == id2) = false := by simp [hid]
          simp [hne]
      · intro elt helt
        have helt' : elt ∈ DL_SORT (mt.active_timers
            ++ [⟨id, timespec_normalize { now with tv_nsec := now.tv_nsec + timeout }⟩]) := helt
        have := hperm.mem_iff.mp helt'
        rw [List.mem_append, List.mem_singleton] at this
        rcases this with h3 | h3
        · exact hb elt h3
        · rw [h3]; show id < mt.num_timers; omega

/-- The step that cancelling and timing out share: the flag of timer `id`, which
is in the list, is cleared and `delete_timer` takes it out of the list. -/
theorem mt_inv_delete (mt : multi_timer_t) (id : Nat) (f : single_timer_t → single_timer_t)
    (hfa : ∀ t, (f t).active = false) (h : mt_inv mt) (harm : timer_armed mt id = true) :
    delete_timer { mt with timers := mt.timers.modify f id } id
      = some (⟨mt.num_timers, mt.timers.modify f id,
        mt.active_timers.eraseP (fun elt => elt.timer == id), mt.active⟩ : multi_timer_t) ∧
    mt_inv (⟨mt.num_timers, mt.timers.modify f id,
        mt.active_timers.eraseP (fun elt => elt.timer == id), mt.active⟩ : multi_timer_t) ∧
    timer_armed (⟨mt.num_timers, mt.timers.modify f id,
        mt.active_timers.eraseP (fun elt => elt.timer == id), mt.active⟩ : multi_timer_t) id
      = false := by
  obtain ⟨ha, hl, hn, hf, hb, hs⟩ := h
  have harm' : mt.active_timers.any (fun elt => elt.timer == id) = true := harm
  have hne : mt.active_timers.isEmpty = false := by
    cases hq : mt.active_timers with
    | nil => rw [hq] at harm'; simp at harm'
    | cons a l => rfl
  have hgone : id ∉ (mt.active_timers.eraseP (fun elt => elt.timer == id)).map
      (fun elt => elt.timer) := by
    rw [map_timer_eraseP]
    intro hmem
    exact ((List.Nodup.mem_erase_iff hn).mp hmem).1 rfl
  have hfalse : timer_armed (⟨mt.num_timers, mt.timers.modify f id,
        mt.active_timers.eraseP (fun elt => elt.timer == id), mt.active⟩ : multi_timer_t) id = false := by
    cases hc : timer_armed (⟨mt.num_timers, mt.timers.modify f id,
        mt.active_timers.eraseP (fun elt => elt.timer == id), mt.active⟩ : multi_timer_t) id with
    | false => rfl
    | true => exact absurd ((timer_armed_iff_mem _ id).mp hc) hgone
  refine ⟨?_, ⟨ha, ?_, ?_, ?_, ?_, ?_⟩, hfalse⟩
  · unfold delete_timer
    simp only [hne, Bool.false_eq_true, if_false, harm', if_true]
  · show (List.modify _ _ _).length = _
    rw [List.length_modify]; exact hl
  · show ((mt.active_timers.eraseP _).map _).Nodup
    rw [map_timer_eraseP]
    exact hn.erase id
  · intro id2 t ht
    have ht' : (List.modify f id mt.timers)[id2]? = some t := ht
    rw [List.getElem?_modify] at ht'
    by_cases hid : id = id2
    · subst hid
      have hlt : id < mt.timers.length := by
        have := hb
        obtain ⟨x, hx, hxe⟩ := List.any_eq_true.mp harm'
        have hxid : x.timer = id := by simpa using hxe
        have := hb x hx
        omega
      rw [List.getElem?_eq_getElem hlt] at ht'
      simp at ht'
      rw [← ht', hfa, hfalse]
    · simp [hid] at ht'
      have := hf id2 t ht'
      rw [this]
      show mt.active_timers.any _ = true ↔ (mt.active_timers.eraseP _).any _ = true
      rw [timer_armed_eraseP_ne _ _ _ (fun e => hid e.symm)]
  · intro elt helt
    exact hb elt (List.mem_of_mem_eraseP helt)
  · exact hs.sublist (List.eraseP_sublist _)

theorem mt_inv_cancel_timer (mt : multi_timer_t) (id : Nat) (h : mt_inv mt) :
    ∃ mt2 rc, mt_cancel_timer mt id = some (mt2, rc) ∧ mt_inv mt2 ∧
      (rc = chitcp_rc_t.CHITCP_OK → timer_armed mt2 id = false) := by
  have h0 := h
  obtain ⟨ha, hl, hn, hf, hb, hs⟩ := h
  unfold mt_cancel_timer
  by_cases h1 : id ≥ mt.num_timers ∨ id < 0
  · rw [if_pos h1]; exact ⟨mt, _, rfl, h0, fun e => by cases e⟩
  · rw [if_neg h1, if_pos ha]
    have hlt : id < mt.timers.length := by omega
    rw [List.getElem?_eq_getElem hlt]
    dsimp only
    by_cases hact : (mt.timers[id]).active = true
    · have harm := (hf id _ (List.getElem?_eq_getElem hlt)).mp hact
      obtain ⟨k1, k2, k3⟩ := mt_inv_delete mt id (fun t => { t with active := false })
        (fun _ => rfl) h0 harm
      simp only [hact, Bool.not_true, Bool.false_eq_true, if_false]
      rw [k1]
      exact ⟨_, _, rfl, k2, fun _ => k3⟩
    · simp only [hact, Bool.not_false, if_true]
      exact ⟨mt, _, rfl, h0, fun e => by cases e⟩

theorem mt_inv_timeout (mt : multi_timer_t) (h : mt_inv mt) :
    ∃ mt2, mt_timeout mt = some mt2 ∧ mt_inv mt2 ∧
      ∀ elt rest, mt.active_timers = elt :: rest →
        mt2.active_timers = rest ∧ timer_armed mt2 elt.timer = false := by
  unfold mt_timeout
  cases hq : mt.active_timers with
  | nil => exact ⟨mt, rfl, h, fun elt rest e => by cases e⟩
  | cons a l =>
    dsimp only
    have harm : timer_armed mt a.timer = true := by
      unfold timer_armed
      rw [hq]
      simp
    obtain ⟨k1, k2, k3⟩ := mt_inv_delete mt a.timer
      (fun t => { t with num_timeouts := t.num_timeouts + 1, active := false })
      (fun _ => rfl) h harm
    rw [← hq, k1]
    refine ⟨_, rfl, k2, ?_⟩
    intro elt rest e
    rw [hq] at e
    cases e
    refine ⟨?_, k3⟩
    show mt.active_timers.eraseP _ = l
    rw [hq, List.eraseP_cons]
    simp

theorem mt_inv_set_timer_name (mt : multi_timer_t) (id : Nat) (name : List Nat)
    (h : mt_inv mt) : mt_inv (mt_set_timer_name mt id name).1 := by
  obtain ⟨ha, hl, hn, hf, hb, hs⟩ := h
  unfold mt_set_timer_name
  by_cases h1 : id ≥ mt.num_timers ∨ id < 0
  · rw [if_pos h1]; exact ⟨ha, hl, hn, hf, hb, hs⟩
  · rw [if_neg h1]
    refine ⟨ha, ?_, hn, ?_, hb, hs⟩
    · show (List.modify _ _ _).length = _
      rw [List.length_modify]; exact hl
    · intro id2 t ht
      have ht' : (List.modify (fun t : single_timer_t =>
          ({ t with name := name.take MAX_TIMER_NAME_LEN } : single_timer_t)) id mt.timers)[id2]?
          = some t := ht
      rw [List.getElem?_modify] at ht'
      show t.active = true ↔ timer_armed mt id2 = true
      by_cases hid : id = id2
      · subst hid
        have hlt : id < mt.timers.length := by omega
        rw [List.getElem?_eq_getElem hlt] at ht'
        simp at ht'
        rw [← ht']
        show (mt.timers[id]).active = true ↔ _
        exact hf id _ (List.getElem?_eq_getElem hlt)
      · simp [hid] at ht'
        exact hf id2 t ht'

theorem mt_reachable_inv (mt : multi_timer_t) (h : mt_reachable mt) : mt_inv mt := by
  induction h with
  | init n => exact mt_inv_init n
  | set_timer mt id timeout cb args now _ ih => exact mt_inv_set_timer mt id timeout cb args now ih
  | cancel_timer mt mt2 id rc _ hc ih =>
    obtain ⟨m, r, k1, k2, _⟩ := mt_inv_cancel_timer mt id ih
    rw [k1] at hc
    cases hc
    exact k2
  | set_timer_name mt id name _ ih => exact mt_inv_set_timer_name mt id name ih
  | timeout mt mt2 _ hc ih =>
    obtain ⟨m, k1, k2, _⟩ := mt_inv_timeout mt ih
    rw [k1] at hc
    cases hc
    exact k2

/-- C29: in every multi-timer reached from `mt_init` by calls of `mt_set_timer`,
`mt_cancel_timer` (and `mt_set_timer_name`), whether they succeed or fail, and
by timeouts, (a) each id occurs at most once in the list of active timers,
(b) the flag `active` of a timer is set exactly when its id is in the list, and
(c) the list is in non-decreasing order of deadline (seconds, then
nanoseconds), so that its head has the earliest deadline.  A call of
`mt_cancel_timer` returns, and when it returns `CHITCP_OK` the timer is no
longer in the list; a timeout takes the head out of the list, which is then
the rest of the list, so that the timer does not time out again before it is
set again. -/
theorem mt_state_invariant (mt : multi_timer_t) (h : mt_reachable mt) :
    (mt.active_timers.map (fun elt => elt.timer)).Nodup ∧
    (∀ id t, mt.timers[id]? = some t → (t.active = true ↔ timer_armed mt id = true)) ∧
    mt.active_timers.Pairwise (fun a b => deadline_le a.timeout_spec b.timeout_spec) ∧
    (∀ first rest, mt.active_timers = first :: rest →
      ∀ elt ∈ rest, deadline_le first.timeout_spec elt.timeout_spec) ∧
    (∀ id, ∃ mt2 rc, mt_cancel_timer mt id = some (mt2, rc) ∧
      (rc = chitcp_rc_t.CHITCP_OK → timer_armed mt2 id = false)) ∧
    (∃ mt2, mt_timeout mt = some mt2 ∧
      ∀ first rest, mt.active_timers = first :: rest →
        mt2.active_timers = rest ∧ timer_armed mt2 first.timer = false) := by
  have hinv := mt_reachable_inv mt h
  obtain ⟨ha, hl, hn, hf, hb, hs⟩ := hinv
  refine ⟨hn, hf, hs, ?_, ?_, ?_⟩
  · intro first rest hq elt helt
    rw [hq, List.pairwise_cons] at hs
    exact hs.1 elt helt
  · intro id
    obtain ⟨m, r, k1, _, k3⟩ := mt_inv_cancel_timer mt id ⟨ha, hl, hn, hf, hb, hs⟩
    exact ⟨m, r, k1, k3⟩
  · obtain ⟨m, k1, _, k3⟩ := mt_inv_timeout mt ⟨ha, hl, hn, hf, hb, hs⟩
    exact ⟨m, k1, k3⟩

theorem mt_state_invariant_witness :
    ex_two_armed.active_timers.map (fun elt => (elt.timer, elt.timeout_spec))
      = [(1, ⟨5, 30⟩), (0, ⟨5, 100⟩)] ∧
    (ex_two_armed.active_timers.map (fun elt => elt.timer)).Nodup ∧
    ex_two_armed.active_timers.Pairwise
      (fun a b => deadline_le a.timeout_spec b.timeout_spec) :=
  ⟨rfl,
    (mt_state_invariant ex_two_armed
      (mt_reachable.set_timer _ 1 30 none none ⟨5, 0⟩
        (mt_reachable.set_timer _ 0 100 none none ⟨5, 0⟩ (mt_reachable.init 2)))).1,
    (mt_state_invariant ex_two_armed
      (mt_reachable.set_timer _ 1 30 none none ⟨5, 0⟩
        (mt_reachable.set_timer _ 0 100 none none ⟨5, 0⟩ (mt_reachable.init 2)))).2.2.1⟩

/-! ## C21: the retransmission timer and its flag -/

theorem timer_armed_false_of_not_mem (mt : multi_timer_t) (id : Nat)
    (h : id ∉ mt.active_timers.map (fun elt => elt.timer)) : timer_armed mt id = false := by
  cases hc : timer_armed mt id with
  | false => rfl
  | true => exact absurd ((timer_armed_iff_mem mt id).mp hc) h

theorem eraseP_of_not_armed (l : List active_timer_t) (id : Nat)
    (h : l.any (fun elt => elt.timer == id) = false) :
    l.eraseP (fun elt => elt.timer == id) = l := by
  apply List.eraseP_of_forall_not
  intro a ha hp
  have : l.any (fun elt => elt.timer == id) = true := List.any_eq_true.mpr ⟨a, ha, hp⟩
  rw [h] at this
  cases this

/-- What `mt_cancel_timer` does to a multi-timer that is in order: it returns, and
timer `id` is then not in the list, which is otherwise as it was. -/
theorem mt_cancel_timer_list (mt : multi_timer_t) (id : Nat) (h : mt_inv mt) :
    ∃ mt2 rc, mt_cancel_timer mt id = some (mt2, rc) ∧ mt_inv mt2 ∧
      mt2.num_timers = mt.num_timers ∧
      mt2.active_timers = mt.active_timers.eraseP (fun elt => elt.timer == id) := by
  have h0 := h
  obtain ⟨ha, hl, hn, hf, hb, hs⟩ := h
  unfold mt_cancel_timer
  by_cases h1 : id ≥ mt.num_timers ∨ id < 0
  · rw [if_pos h1]
    refine ⟨mt, _, rfl, h0, rfl, ?_⟩
    symm
    apply List.eraseP_of_forall_not
    intro a ha1 hp
    have := hb a ha1
    have he : a.timer = id := by simpa using hp
    omega
  · rw [if_neg h1, if_pos ha]
    have hlt : id < mt.timers.length := by omega
    rw [List.getElem?_eq_getElem hlt]
    dsimp only
    by_cases hact : (mt.timers[id]).active = true
    · have harm := (hf id _ (List.getElem?_eq_getElem hlt)).mp hact
      obtain ⟨k1, k2, _⟩ := mt_inv_delete mt id (fun t => { t with active := false })
        (fun _ => rfl) h0 harm
      simp only [hact, Bool.not_true, Bool.false_eq_true, if_false]
      rw [k1]
      exact ⟨_, _, rfl, k2, rfl, rfl⟩
    · simp only [hact, Bool.not_false, if_true]
      refine ⟨mt, _, rfl, h0, rfl, ?_⟩
      symm
      apply eraseP_of_not_armed
      cases hc : mt.active_timers.any (fun elt => elt.timer == id) with
      | false => rfl
      | true => exact absurd ((hf id _ (List.getElem?_eq_getElem hlt)).mpr hc) hact

theorem tcp_cancel_timer_armed (tcp_data : tcp_data_t) (id : Nat) (h : mt_inv tcp_data.mt) :
    ∃ mt, tcp_cancel_timer tcp_data id
        = some ({ tcp_data with mt := mt }, [tcp_action_t.cancel_timer id]) ∧ mt_inv mt ∧
      mt.num_timers = tcp_data.mt.num_timers ∧ timer_armed mt id = false ∧
      ∀ id2, id2 ≠ id → timer_armed mt id2 = timer_armed tcp_data.mt id2 := by
  obtain ⟨mt2, rc, k1, k2, k3, k4⟩ := mt_cancel_timer_list tcp_data.mt id h
  unfold tcp_cancel_timer
  rw [k1]
  refine ⟨mt2, rfl, k2, k3, ?_, ?_⟩
  · apply timer_armed_false_of_not_mem
    rw [k4, map_timer_eraseP]
    intro hmem
    exact ((List.Nodup.mem_erase_iff h.2.2.1).mp hmem).1 rfl
  · intro id2 hne
    unfold timer_armed
    rw [k4]
    exact timer_armed_eraseP_ne _ _ _ hne

theorem mt_set_timer_armed_ne (mt : multi_timer_t) (id timeout : Nat)
    (callback_fn callback_args : Option Nat) (now : timespec) (id2 : Nat) (hne : id2 ≠ id) :
    timer_armed (mt_set_timer mt id timeout callback_fn callback_args now).1 id2
      = timer_armed mt id2 := by
  unfold mt_set_timer
  by_cases h1 : id ≥ mt.num_timers ∨ id < 0
  · rw [if_pos h1]
  · rw [if_neg h1]
    by_cases h2 : mt.active_timers.any (fun elt => elt.timer == id) = true
    · rw [if_pos h2]
    · rw [if_neg h2]
      show (DL_SORT _).any _ = mt.active_timers.any _
      rw [timer_armed_DL_SORT, List.any_append]
      have : (id == id2) = false := by
        simp only [beq_eq_false_iff_ne, ne_eq]
        exact fun e => hne e.symm
      simp [this]

theorem mt_set_timer_num_timers (mt : multi_timer_t) (id timeout : Nat)
    (callback_fn callback_args : Option Nat) (now : timespec) :
    (mt_set_timer mt id timeout callback_fn callback_args now).1.num_timers = mt.num_timers := by
  unfold mt_set_timer
  split_ifs <;> rfl

theorem tcp_set_timer_armed (tcp_data : tcp_data_t) (id : Nat) (now : timespec)
    (h : mt_inv tcp_data.mt) :
    ∃ mt, tcp_set_timer tcp_data id now
        = ({ tcp_data with mt := mt }, [tcp_action_t.set_timer id tcp_data.RTO]) ∧ mt_inv mt ∧
      mt.num_timers = tcp_data.mt.num_timers ∧
      (id < tcp_data.mt.num_timers → timer_armed mt id = true) ∧
      ∀ id2, id2 ≠ id → timer_armed mt id2 = timer_armed tcp_data.mt id2 := by
  unfold tcp_set_timer
  exact ⟨_, rfl, mt_inv_set_timer _ _ _ _ _ _ h, mt_set_timer_num_timers _ _ _ _ _ _,
    fun hid => timer_armed_mt_set_timer _ _ _ _ _ _ hid,
    fun id2 hne => mt_set_timer_armed_ne _ _ _ _ _ _ id2 hne⟩

theorem mt_inv_tcp_data_init (tcp_data : tcp_data_t) :
    mt_inv (tcp_data_init true tcp_data).mt := by
  have h : (tcp_data_init true tcp_data).mt
      = (mt_set_timer_name (mt_set_timer_name
          ⟨2, [⟨0, false, 0, some rtx_callback_fn, some RETRANSMISSION, []⟩,
               ⟨1, false, 0, some pst_callback_fn, some PERSIST, []⟩], [], true⟩
          RETRANSMISSION [82, 69, 84, 82, 65, 78, 83, 77, 73, 83, 83, 73, 79, 78]).1
          PERSIST [80, 69, 82, 83, 73, 83, 84]).1 := rfl
  rw [h]
  apply mt_inv_set_timer_name
  apply mt_inv_set_timer_name
  refine ⟨rfl, rfl, List.nodup_nil, ?_, ?_, List.Pairwise.nil⟩
  · intro id t ht
    have hf : t.active = false := by
      match id, ht with
      | 0, ht => simp at ht; rw [← ht]
      | 1, ht => simp at ht; rw [← ht]
      | n + 2, ht => simp at ht
    constructor
    · intro h2; rw [hf] at h2; cases h2
    · intro h2; cases h2
  · intro elt helt
    cases helt

theorem rtx_init (tcp_data : tcp_data_t) :
    rtx_flag_inv (tcp_data_init true tcp_data) ∧ rtx_timer_inv (tcp_data_init true tcp_data) := by
  have hq : (tcp_data_init true tcp_data).rt_queue = [] := rfl
  have hfl : (tcp_data_init true tcp_data).rtms_timer_on = false := rfl
  have ha : timer_armed (tcp_data_init true tcp_data).mt RETRANSMISSION = false := rfl
  have hn : RETRANSMISSION < (tcp_data_init true tcp_data).mt.num_timers := by
    show RETRANSMISSION < 2
    decide
  refine ⟨⟨mt_inv_tcp_data_init tcp_data, hn, ?_, ?_⟩, ?_⟩
  · rw [hq, hfl]; simp
  · rw [ha]; intro h; cases h
  · unfold rtx_timer_inv
    rw [ha, hfl]

theorem rtx_append (tcp_data : tcp_data_t) (packet : tcp_packet_t) (seq : Nat) (now : timespec)
    (h : rtx_flag_inv tcp_data) :
    rtx_flag_inv (rtqueue_append tcp_data packet seq now).1 ∧
    (rtx_timer_inv tcp_data → rtx_timer_inv (rtqueue_append tcp_data packet seq now).1) := by
  obtain ⟨hmt, hid, hfq, haf⟩ := h
  unfold rtqueue_append
  have hne : tcp_data.rt_queue
      ++ [(⟨packet, now, (TCP_PAYLOAD_LEN packet + seq) % 2 ^ 32, false⟩ : retransmission_queue_t)]
      ≠ [] := by simp
  have hemp : (tcp_data.rt_queue
      ++ [(⟨packet, now, (TCP_PAYLOAD_LEN packet + seq) % 2 ^ 32, false⟩ :
        retransmission_queue_t)]).isEmpty = false := by
    cases tcp_data.rt_queue <;> rfl
  by_cases hon : tcp_data.rtms_timer_on = true
  · simp only [hon, Bool.not_true, Bool.false_and, Bool.false_eq_true, if_false]
    refine ⟨⟨hmt, hid, ?_, ?_⟩, ?_⟩
    · exact ⟨fun _ => hne, fun _ => rfl⟩
    · exact fun _ => rfl
    · intro ht
      exact ⟨fun _ => rfl, fun _ => ht.mpr hon⟩
  · have hoff : tcp_data.rtms_timer_on = false := by simpa using hon
    simp only [hoff, hemp, Bool.not_false, Bool.and_self, if_true]
    obtain ⟨mt, k1, k2, k3, k4, _⟩ := tcp_set_timer_armed
      { tcp_data with
        rt_queue := tcp_data.rt_queue
          ++ [⟨packet, now, (TCP_PAYLOAD_LEN packet + seq) % 2 ^ 32, false⟩]
        rtms_timer_on := true } RETRANSMISSION now hmt
    rw [k1]
    have harm : timer_armed mt RETRANSMISSION = true := k4 hid
    refine ⟨⟨k2, by rw [k3]; exact hid, ?_, ?_⟩, ?_⟩
    · exact ⟨fun _ => hne, fun _ => rfl⟩
    · exact fun _ => rfl
    · intro _
      exact ⟨fun _ => rfl, fun _ => harm⟩

theorem rtx_pop_timers (tcp_data : tcp_data_t) (now : timespec) (hmt : mt_inv tcp_data.mt)
    (hid : RETRANSMISSION < tcp_data.mt.num_timers)
    (haf : timer_armed tcp_data.mt RETRANSMISSION = true → tcp_data.rtms_timer_on = true) :
    ∃ r, rtqueue_pop_timers tcp_data now = some r ∧ rtx_flag_inv r.1 ∧ rtx_timer_inv r.1 ∧
      r.1.rt_queue = tcp_data.rt_queue := by
  unfold rtqueue_pop_timers
  by_cases hon : tcp_data.rtms_timer_on = true
  · obtain ⟨mt, k1, k2, k3, k4, _⟩ := tcp_cancel_timer_armed
      { tcp_data with rtms_timer_on := false } RETRANSMISSION hmt
    simp only [hon, if_true, k1]
    by_cases hq : tcp_data.rt_queue = []
    · have hl : ¬ (tcp_data.rt_queue.length > 0) := by simp [hq]
      simp only [hl, if_false]
      refine ⟨_, rfl, ⟨k2, by rw [k3]; exact hid, ?_, ?_⟩, ?_, rfl⟩
      · exact ⟨(fun h => by cases h), fun h => absurd hq h⟩
      · intro h; rw [k4] at h; cases h
      · exact ⟨(fun h => by rw [k4] at h; cases h), fun h => by cases h⟩
    · have hl : tcp_data.rt_queue.length > 0 := List.length_pos.mpr hq
      simp only [hl, if_true, Bool.not_false]
      obtain ⟨mt2, j1, j2, j3, j4, _⟩ := tcp_set_timer_armed
        { tcp_data with rtms_timer_on := true, mt := mt } RETRANSMISSION now k2
      rw [j1]
      have harm : timer_armed mt2 RETRANSMISSION = true := j4 (by rw [k3]; exact hid)
      refine ⟨_, rfl, ⟨j2, by rw [j3, k3]; exact hid, ?_, ?_⟩, ?_, rfl⟩
      · exact ⟨fun _ => hq, fun _ => rfl⟩
      · exact fun _ => rfl
      · exact ⟨fun _ => rfl, fun _ => harm⟩
  · have hoff : tcp_data.rtms_timer_on = false := by simpa using hon
    have hna : timer_armed tcp_data.mt RETRANSMISSION = false := by
      cases hc : timer_armed tcp_data.mt RETRANSMISSION with
      | false => rfl
      | true => exact absurd (haf hc) hon
    simp only [hoff, Bool.false_eq_true, if_false]
    by_cases hq : tcp_data.rt_queue = []
    · have hl : ¬ (tcp_data.rt_queue.length > 0) := by simp [hq]
      simp only [hl, if_false]
      refine ⟨_, rfl, ⟨hmt, hid, ?_, ?_⟩, ?_, rfl⟩
      · exact ⟨fun h => absurd h hon, fun h => absurd hq h⟩
      · exact haf
      · exact ⟨haf, fun h => absurd h hon⟩
    · have hl : tcp_data.rt_queue.length > 0 := List.length_pos.mpr hq
      simp only [hl, if_true, Bool.not_false]
      obtain ⟨mt2, j1, j2, j3, j4, _⟩ := tcp_set_timer_armed
        { tcp_data with rtms_timer_on := true } RETRANSMISSION now hmt
      rw [List.nil_append, j1]
      have harm : timer_armed mt2 RETRANSMISSION = true := j4 hid
      refine ⟨_, rfl, ⟨j2, by rw [j3]; exact hid, ?_, ?_⟩, ?_, rfl⟩
      · exact ⟨fun _ => hq, fun _ => rfl⟩
      · exact fun _ => rfl
      · exact ⟨fun _ => rfl, fun _ => harm⟩

theorem rtx_pop (fp : double_ops) (tcp_data : tcp_data_t) (ack_seq : Nat) (now : timespec)
    (h : rtx_flag_inv tcp_data) :
    ∃ r, rtqueue_pop fp tcp_data ack_seq now = some r ∧ rtx_flag_inv r.1 ∧ rtx_timer_inv r.1 := by
  obtain ⟨hmt, hid, hfq, haf⟩ := h
  by_cases hq : tcp_data.rt_queue = []
  · rw [rtqueue_pop_empty fp tcp_data ack_seq now hq]
    obtain ⟨mt, k1, k2, k3, k4, _⟩ := tcp_cancel_timer_armed tcp_data RETRANSMISSION hmt
    rw [k1]
    have hoff : tcp_data.rtms_timer_on = false := by
      cases hc : tcp_data.rtms_timer_on with
      | false => rfl
      | true => exact absurd hq (hfq.mp hc)
    refine ⟨_, rfl, ⟨k2, by rw [k3]; exact hid, hfq, ?_⟩, ?_⟩
    · intro h2; rw [k4] at h2; cases h2
    · exact ⟨(fun h2 => by rw [k4] at h2; cases h2),
        fun h2 => by
          have h3 : tcp_data.rtms_timer_on = true := h2
          rw [hoff] at h3; cases h3⟩
  · rw [rtqueue_pop_nonempty fp tcp_data ack_seq now hq]
    obtain ⟨a, b, c, d, e, f, g, hs⟩ :=
      rtqueue_pop_loop_shape fp now ack_seq tcp_data.rt_queue tcp_data
    rw [hs]
    obtain ⟨r, k1, k2, k3, _⟩ := rtx_pop_timers
      (with_rtx tcp_data a b c d e f g tcp_data.rtms_timer_on tcp_data.mt) now hmt hid haf
    exact ⟨r, k1, k2, k3⟩

theorem rtx_timeout_rtx (tcp_data : tcp_data_t) (now : timespec) (h : rtx_flag_inv tcp_data) :
    rtx_flag_inv (chitcpd_tcp_state_handle_TIMEOUT_RTX tcp_data now).1 ∧
    rtx_timer_inv (chitcpd_tcp_state_handle_TIMEOUT_RTX tcp_data now).1 := by
  obtain ⟨hmt, hid, hfq, haf⟩ := h
  rw [timeout_rtx_unfold]
  by_cases hq : tcp_data.rt_queue = []
  · rw [if_pos hq]
    have hoff : tcp_data.rtms_timer_on = false := by
      cases hc : tcp_data.rtms_timer_on with
      | false => rfl
      | true => exact absurd hq (hfq.mp hc)
    have hna : timer_armed tcp_data.mt RETRANSMISSION = false := by
      cases hc : timer_armed tcp_data.mt RETRANSMISSION with
      | false => rfl
      | true => have := haf hc; rw [hoff] at this; cases this
    refine ⟨⟨hmt, hid, ?_, ?_⟩, ?_⟩
    · exact ⟨(fun h2 => by cases h2), fun h2 => absurd rfl h2⟩
    · intro h2
      have h3 : timer_armed tcp_data.mt RETRANSMISSION = true := h2
      rw [hna] at h3; cases h3
    · exact ⟨(fun h2 => by
          have h3 : timer_armed tcp_data.mt RETRANSMISSION = true := h2
          rw [hna] at h3; cases h3),
        fun h2 => by cases h2⟩
  · rw [if_neg hq]
    obtain ⟨mt, k1, k2, k3, k4, _⟩ := tcp_set_timer_armed
      { tcp_data with
        RTO := clamp_RTO ((tcp_data.RTO * 2) % 2 ^ 64)
        rt_queue := (tcp_data.rt_queue.map (rtx_resend tcp_data.SND_WND now)).map Prod.fst
        rtms_timer_on := true } RETRANSMISSION now hmt
    rw [k1]
    have harm : timer_armed mt RETRANSMISSION = true := k4 hid
    have hq2 : (tcp_data.rt_queue.map (rtx_resend tcp_data.SND_WND now)).map Prod.fst ≠ [] := by
      intro e
      apply hq
      have := congrArg List.length e
      simp at this
      exact this
    refine ⟨⟨k2, by rw [k3]; exact hid, ?_, ?_⟩, ?_⟩
    · exact ⟨fun _ => hq2, fun _ => rfl⟩
    · exact fun _ => rfl
    · exact ⟨fun _ => rfl, fun _ => harm⟩

theorem rtx_timer_expires (tcp_data : tcp_data_t) (h : rtx_flag_inv tcp_data) :
    ∃ mt, mt_timeout tcp_data.mt = some mt ∧ rtx_flag_inv { tcp_data with mt := mt } := by
  obtain ⟨hmt, hid, hfq, haf⟩ := h
  obtain ⟨mt2, k1, k2, k3⟩ := mt_inv_timeout tcp_data.mt hmt
  refine ⟨mt2, k1, k2, ?_, hfq, ?_⟩
  · show RETRANSMISSION < mt2.num_timers
    unfold mt_timeout at k1
    cases hq : tcp_data.mt.active_timers with
    | nil => rw [hq] at k1; cases k1; exact hid
    | cons a l =>
      rw [hq] at k1
      dsimp only at k1
      unfold delete_timer at k1
      split_ifs at k1 <;> (cases k1; exact hid)
  · intro harm
    apply haf
    show timer_armed tcp_data.mt RETRANSMISSION = true
    cases hq : tcp_data.mt.active_timers with
    | nil =>
      unfold mt_timeout at k1
      rw [hq] at k1
      cases k1
      exact harm
    | cons a l =>
      obtain ⟨j1, _⟩ := k3 a l hq
      have harm' : mt2.active_timers.any (fun elt => elt.timer == RETRANSMISSION) = true := harm
      unfold timer_armed
      rw [hq, List.any_cons, ← j1, harm', Bool.or_true]

theorem rtx_persist_set (tcp_data : tcp_data_t) (now : timespec) (h : rtx_flag_inv tcp_data) :
    rtx_flag_inv (tcp_set_timer tcp_data PERSIST now).1 := by
  obtain ⟨hmt, hid, hfq, haf⟩ := h
  obtain ⟨mt, k1, k2, k3, _, k5⟩ := tcp_set_timer_armed tcp_data PERSIST now hmt
  rw [k1]
  refine ⟨k2, by rw [k3]; exact hid, hfq, ?_⟩
  intro harm
  apply haf
  rw [← k5 RETRANSMISSION (by decide)]
  exact harm

theorem rtx_persist_cancel (tcp_data : tcp_data_t) (h : rtx_flag_inv tcp_data) :
    ∃ r, tcp_cancel_timer tcp_data PERSIST = some r ∧ rtx_flag_inv r.1 := by
  obtain ⟨hmt, hid, hfq, haf⟩ := h
  obtain ⟨mt, k1, k2, k3, _, k5⟩ := tcp_cancel_timer_armed tcp_data PERSIST hmt
  rw [k1]
  refine ⟨_, rfl, k2, by rw [k3]; exact hid, hfq, ?_⟩
  intro harm
  apply haf
  rw [← k5 RETRANSMISSION (by decide)]
  exact harm

theorem rtx_reachable_inv (tcp_data : tcp_data_t) (h : rtx_reachable tcp_data) :
    rtx_flag_inv tcp_data := by
  induction h with
  | init td => exact (rtx_init td).1
  | append td packet seq now _ ih => exact (rtx_append td packet seq now ih).1
  | pop fp td ack now r _ hr ih =>
    obtain ⟨r2, k1, k2, _⟩ := rtx_pop fp td ack now ih
    rw [k1] at hr
    cases hr
    exact k2
  | timeout_rtx td now _ ih => exact (rtx_timeout_rtx td now ih).1
  | timer_expires td mt _ hm ih =>
    obtain ⟨mt2, k1, k2⟩ := rtx_timer_expires td ih
    rw [k1] at hm
    cases hm
    exact k2
  | persist_set td now _ ih => exact rtx_persist_set td now ih
  | persist_cancel td r _ hr ih =>
    obtain ⟨r2, k1, k2⟩ := rtx_persist_cancel td ih
    rw [k1] at hr
    cases hr
    exact k2
  | other td changed _ hq hf hm ih =>
    obtain ⟨hmt, hid, hfq, haf⟩ := ih
    unfold rtx_flag_inv
    rw [hq, hf, hm]
    exact ⟨hmt, hid, hfq, haf⟩

/-- C21 (counterexample): a segment is put in the empty retransmission queue at
100 s, which sets the RETRANSMISSION timer; the timer times out; before the
timeout is handled a second segment is put in the queue by `rtqueue_append`,
which finds the flag `rtms_timer_on` set and does not set the timer.  After
this call the queue holds two segments and the flag is set, and the timer is
not armed. -/
theorem rtqueue_append_after_expiry_leaves_timer_idle :
    ex_init_data.rt_queue = [] ∧ ex_init_data.rtms_timer_on = false ∧
    ex_one_queued.rtms_timer_on = true ∧
    timer_armed ex_one_queued.mt RETRANSMISSION = true ∧
    mt_timeout ex_one_queued.mt = some ex_timer_expired.mt ∧
    timer_armed ex_timer_expired.mt RETRANSMISSION = false ∧
    ex_two_queued.rt_queue.length = 2 ∧
    ex_two_queued.rtms_timer_on = true ∧
    timer_armed ex_two_queued.mt RETRANSMISSION = false := by
  refine ⟨rfl, rfl, rfl, rfl, rfl, rfl, rfl, rfl, rfl⟩

/-- C21 (amended): in every state reached from `tcp_data_init` by `rtqueue_append`,
`rtqueue_pop`, `chitcpd_tcp_state_handle_TIMEOUT_RTX`, timeouts of the timers
and the other changes of the connection, the flag `rtms_timer_on` is set exactly
when the retransmission queue is not empty, and the RETRANSMISSION timer is
armed only when the flag is set.  After `rtqueue_pop`, which returns, and after
`chitcpd_tcp_state_handle_TIMEOUT_RTX` the timer is armed exactly when the flag
is set; after `rtqueue_append` it is so when it was so before the call, that
is unless the timer has timed out and neither `rtqueue_pop` nor the handler of
the timeout has run since. -/
theorem retransmission_timer_invariant (tcp_data : tcp_data_t) (h : rtx_reachable tcp_data) :
    (tcp_data.rtms_timer_on = true ↔ tcp_data.rt_queue ≠ []) ∧
    (timer_armed tcp_data.mt RETRANSMISSION = true → tcp_data.rtms_timer_on = true) ∧
    (∀ packet seq now,
      (timer_armed tcp_data.mt RETRANSMISSION = true ↔ tcp_data.rtms_timer_on = true) →
      (timer_armed (rtqueue_append tcp_data packet seq now).1.mt RETRANSMISSION = true
        ↔ (rtqueue_append tcp_data packet seq now).1.rtms_timer_on = true)) ∧
    (∀ fp ack_seq now, ∃ r, rtqueue_pop fp tcp_data ack_seq now = some r ∧
      (timer_armed r.1.mt RETRANSMISSION = true ↔ r.1.rtms_timer_on = true)) ∧
    (∀ now,
      timer_armed (chitcpd_tcp_state_handle_TIMEOUT_RTX tcp_data now).1.mt RETRANSMISSION = true
        ↔ (chitcpd_tcp_state_handle_TIMEOUT_RTX tcp_data now).1.rtms_timer_on = true) := by
  have hinv := rtx_reachable_inv tcp_data h
  refine ⟨hinv.2.2.1, hinv.2.2.2, ?_, ?_, ?_⟩
  · intro packet seq now ht
    exact (rtx_append tcp_data packet seq now hinv).2 ht
  · intro fp ack_seq now
    obtain ⟨r, k1, _, k3⟩ := rtx_pop fp tcp_data ack_seq now hinv
    exact ⟨r, k1, k3⟩
  · intro now
    exact (rtx_timeout_rtx tcp_data now hinv).2

theorem retransmission_timer_invariant_witness :
    (ex_two_queued.rtms_timer_on = true ↔ ex_two_queued.rt_queue ≠ []) ∧
    (timer_armed (chitcpd_tcp_state_handle_TIMEOUT_RTX ex_two_queued ⟨102, 0⟩).1.mt
        RETRANSMISSION = true
      ↔ (chitcpd_tcp_state_handle_TIMEOUT_RTX ex_two_queued ⟨102, 0⟩).1.rtms_timer_on = true) :=
  ⟨(retransmission_timer_invariant ex_two_queued
      (rtx_reachable.append _ _ _ _
        (rtx_reachable.timer_expires ex_one_queued ex_timer_expired.mt
          (rtx_reachable.append _ _ _ _ (rtx_reachable.init ex_zero_data)) rfl))).1,
    (retransmission_timer_invariant ex_two_queued
      (rtx_reachable.append _ _ _ _
        (rtx_reachable.timer_expires ex_one_queued ex_timer_expired.mt
          (rtx_reachable.append _ _ _ _ (rtx_reachable.init ex_zero_data)) rfl))).2.2.2.2
      ⟨102, 0⟩⟩

/-! ## Lemmas: what the processing of an acknowledgment leaves of the receive side -/

theorem keeps_recv_refl (a : tcp_data_t) : keeps_recv a a := ⟨rfl, rfl, rfl, rfl, rfl, rfl, rfl⟩

theorem keeps_recv_trans {a b c : tcp_data_t} (h1 : keeps_recv a b) (h2 : keeps_recv b c) :
    keeps_recv a c :=
  ⟨h2.1.trans h1.1, h2.2.1.trans h1.2.1, h2.2.2.1.trans h1.2.2.1, h2.2.2.2.1.trans h1.2.2.2.1,
    h2.2.2.2.2.1.trans h1.2.2.2.2.1, h2.2.2.2.2.2.1.trans h1.2.2.2.2.2.1,
    h2.2.2.2.2.2.2.trans h1.2.2.2.2.2.2⟩

theorem rtqueue_append_recv (tcp_data : tcp_data_t) (packet : tcp_packet_t) (seq : Nat)
    (now : timespec) : keeps_recv tcp_data (rtqueue_append tcp_data packet seq now).1 := by
  obtain ⟨mt, acts, h1, _⟩ := rtqueue_append_shape tcp_data packet seq now
  rw [h1]
  exact ⟨rfl, rfl, rfl, rfl, rfl, rfl, rfl⟩

theorem rtqueue_pop_timers_recv (tcp_data : tcp_data_t) (now : timespec)
    (r : tcp_data_t × List tcp_action_t) (h : rtqueue_pop_timers tcp_data now = some r) :
    keeps_recv tcp_data r.1 := by
  unfold rtqueue_pop_timers at h
  by_cases hon : tcp_data.rtms_timer_on = true
  · simp only [hon, if_true] at h
    cases hc : tcp_cancel_timer { tcp_data with rtms_timer_on := false } RETRANSMISSION with
    | none => rw [hc] at h; cases h
    | some x =>
      obtain ⟨mt, hx⟩ := tcp_cancel_timer_keeps _ _ _ hc
      rw [hc, hx] at h
      simp only at h
      split_ifs at h <;> (cases h; exact ⟨rfl, rfl, rfl, rfl, rfl, rfl, rfl⟩)
  · have hoff : tcp_data.rtms_timer_on = false := by simpa using hon
    simp only [hoff, Bool.false_eq_true, if_false] at h
    split_ifs at h <;> (cases h; exact ⟨rfl, rfl, rfl, rfl, rfl, rfl, rfl⟩)

theorem rtqueue_pop_recv (fp : double_ops) (tcp_data : tcp_data_t) (ack_seq : Nat)
    (now : timespec) (r : tcp_data_t × List tcp_action_t)
    (h : rtqueue_pop fp tcp_data ack_seq now = some r) : keeps_recv tcp_data r.1 := by
  by_cases hq : tcp_data.rt_queue = []
  · rw [rtqueue_pop_empty fp tcp_data ack_seq now hq] at h
    obtain ⟨mt, hx⟩ := tcp_cancel_timer_keeps _ _ _ h
    rw [hx]
    exact ⟨rfl, rfl, rfl, rfl, rfl, rfl, rfl⟩
  · rw [rtqueue_pop_nonempty fp tcp_data ack_seq now hq] at h
    have k := rtqueue_pop_timers_recv _ _ _ h
    obtain ⟨a, b, c, d, e, f, g, hs⟩ :=
      rtqueue_pop_loop_shape fp now ack_seq tcp_data.rt_queue tcp_data
    rw [hs] at k
    exact k

theorem packet_arrival_persist_recv (env : tcp_env_t) (tcp_data : tcp_data_t)
    (packet : tcp_packet_t) (r : tcp_data_t × List tcp_action_t)
    (h : packet_arrival_persist env tcp_data packet = some r) : keeps_recv tcp_data r.1 := by
  unfold packet_arrival_persist at h
  dsimp only at h
  by_cases hw : packet.win = 0
  · rw [if_pos hw] at h
    split_ifs at h with hact
    · cases hc : tcp_cancel_timer tcp_data PERSIST with
      | none => rw [hc] at h; cases h
      | some x =>
        obtain ⟨mt, hx⟩ := tcp_cancel_timer_keeps _ _ _ hc
        rw [hc, hx] at h
        cases h
        exact ⟨rfl, rfl, rfl, rfl, rfl, rfl, rfl⟩
    · cases h
      exact ⟨rfl, rfl, rfl, rfl, rfl, rfl, rfl⟩
  · rw [if_neg hw] at h
    by_cases h2 : packet.win > 0 ∧ tcp_data.SND_WND = 0
    · rw [if_pos h2] at h
      cases hc : tcp_cancel_timer tcp_data PERSIST with
      | none => rw [hc] at h; cases h
      | some x =>
        obtain ⟨mt, hx⟩ := tcp_cancel_timer_keeps _ _ _ hc
        rw [hc, hx] at h
        dsimp only at h
        cases hp : tcp_data.probe_packet with
        | none => rw [hp] at h; cases h; exact ⟨rfl, rfl, rfl, rfl, rfl, rfl, rfl⟩
        | some p => rw [hp] at h; cases h; exact ⟨rfl, rfl, rfl, rfl, rfl, rfl, rfl⟩
    · rw [if_neg h2] at h
      cases h
      exact keeps_recv_refl _

theorem application_close_recv (tcp_data : tcp_data_t) (now : timespec) :
    keeps_recv tcp_data (chitcpd_tcp_state_handle_APPLICATION_CLOSE tcp_data now).1 := by
  unfold chitcpd_tcp_state_handle_APPLICATION_CLOSE
  have k := rtqueue_append_recv tcp_data
    (make_packet 0 1 1 tcp_data.SND_NXT tcp_data.RCV_NXT tcp_data.RCV_WND []) tcp_data.SND_NXT now
  exact ⟨k.1, k.2.1, k.2.2.1, k.2.2.2.1, k.2.2.2.2.1, k.2.2.2.2.2.1, k.2.2.2.2.2.2⟩

theorem update_send_buffer_loop_recv (env : tcp_env_t) (fuel : Nat) :
    ∀ (bytes_to_send : Int) (tcp_data : tcp_data_t) (actions : List tcp_action_t)
      (r : tcp_data_t × List tcp_action_t),
      update_send_buffer_loop env fuel bytes_to_send tcp_data actions = some r →
      keeps_recv tcp_data r.1 := by
  induction fuel with
  | zero =>
    intro bts td acts r h
    unfold update_send_buffer_loop at h
    split_ifs at h
    cases h
    exact keeps_recv_refl _
  | succ n ih =>
    intro bts td acts r h
    unfold update_send_buffer_loop at h
    by_cases hb : bts > 0
    · rw [if_pos hb] at h
      dsimp only at h
      by_cases hr : (env.peek_at td.send td.SND_NXT
          (if bts > TCP_MSS then TCP_MSS else bts).toNat).1 > 0
      · rw [if_pos hr] at h
        have k1 := ih _ _ _ _ h
        have k := rtqueue_append_recv td
          (make_packet 0 1 0 td.SND_NXT td.RCV_NXT td.RCV_WND
            (((env.peek_at td.send td.SND_NXT (if bts > TCP_MSS then TCP_MSS else bts).toNat).2
              ++ List.replicate (if bts > TCP_MSS then TCP_MSS else bts).toNat 0).take
                (if bts > TCP_MSS then TCP_MSS else bts).toNat))
          td.SND_NXT env.now
        exact keeps_recv_trans
          ⟨k.1, k.2.1, k.2.2.1, k.2.2.2.1, k.2.2.2.2.1, k.2.2.2.2.2.1, k.2.2.2.2.2.2⟩ k1
      · rw [if_neg hr] at h
        exact ih _ _ _ _ h
    · rw [if_neg hb] at h
      cases h
      exact keeps_recv_refl _

theorem chitcp_update_send_buffer_recv (env : tcp_env_t) (tcp_data : tcp_data_t)
    (r : tcp_data_t × List tcp_action_t) (h : chitcp_update_send_buffer env tcp_data = some r) :
    keeps_recv tcp_data r.1 := by
  unfold chitcp_update_send_buffer at h
  dsimp only at h
  split_ifs at h
  · cases h
    exact application_close_recv tcp_data env.now
  · cases h
    exact keeps_recv_refl _
  · exact update_send_buffer_loop_recv env _ _ _ _ _ h
  · exact update_send_buffer_loop_recv env _ _ _ _ _ h

/-- The steps of which the processing of an acceptable acknowledgment consists in
the states of the family of ESTABLISHED. -/
theorem packet_arrival_ack_accepted (env : tcp_env_t) (tcp_state : tcp_state_t)
    (tcp_data : tcp_data_t) (packet : tcp_packet_t) (r : tcp_result_t)
    (hf : established_family tcp_state)
    (h1 : tcp_data.SND_UNA ≤ packet.ack_seq) (h2 : packet.ack_seq ≤ tcp_data.SND_NXT)
    (h : packet_arrival_ack env tcp_state tcp_data packet = some r) :
    ∃ popped persist pumped : tcp_data_t × List tcp_action_t,
      rtqueue_pop env.fp tcp_data packet.ack_seq env.now = some popped ∧
      packet_arrival_persist env popped.1 packet = some persist ∧
      chitcp_update_send_buffer env
        { persist.1 with SND_UNA := packet.ack_seq, SND_WND := packet.win } = some pumped ∧
      r = packet_arrival_text tcp_state (packet_arrival_ack_state tcp_state pumped.1 packet)
        pumped.1 packet (popped.2 ++ persist.2 ++ pumped.2) := by
  have hne : tcp_state ≠ tcp_state_t.SYN_RCVD := by
    rcases hf with e | e | e | e | e | e | e <;> rw [e] <;> decide
  unfold packet_arrival_ack at h
  have c1 : ¬ (tcp_state = tcp_state_t.SYN_RCVD ∧ tcp_data.SND_UNA ≤ packet.ack_seq
      ∧ packet.ack_seq ≤ tcp_data.SND_NXT) := fun hh => hne hh.1
  have c2 : tcp_state = tcp_state_t.ESTABLISHED ∨ tcp_state = tcp_state_t.FIN_WAIT_1
      ∨ tcp_state = tcp_state_t.FIN_WAIT_2 ∨ tcp_state = tcp_state_t.CLOSE_WAIT
      ∨ tcp_state = tcp_state_t.CLOSING ∨ tcp_state = tcp_state_t.LAST_ACK
      ∨ tcp_state = tcp_state_t.TIME_WAIT := hf
  rw [if_neg c1, if_pos c2, if_pos ⟨h1, h2⟩] at h
  cases hp : rtqueue_pop env.fp tcp_data packet.ack_seq env.now with
  | none => rw [hp] at h; cases h
  | some popped =>
    rw [hp] at h
    dsimp only at h
    cases hq : packet_arrival_persist env popped.1 packet with
    | none => rw [hq] at h; cases h
    | some persist =>
      rw [hq] at h
      dsimp only at h
      cases hu : chitcp_update_send_buffer env
          { persist.1 with SND_UNA := packet.ack_seq, SND_WND := packet.win } with
      | none => rw [hu] at h; cases h
      | some pumped =>
        rw [hu] at h
        dsimp only at h
        cases h
        exact ⟨popped, persist, pumped, rfl, hq, hu, rfl⟩

/-! ## C22: the out-of-order list -/

theorem segmentcmp_nonneg_iff (a b : out_of_order_list_t) (ha : a.seq < 2 ^ 32)
    (hb : b.seq < 2 ^ 32) (h1 : a.seq < b.seq + 2 ^ 31) (h2 : b.seq < a.seq + 2 ^ 31) :
    segmentcmp a b ≥ 0 ↔ b.seq ≤ a.seq := by
  unfold segmentcmp to_int
  rw [Nat.mod_eq_of_lt ha, Nat.mod_eq_of_lt hb]
  have hmm : ((a.seq + 2 ^ 32 - b.seq) % 2 ^ 32) % 2 ^ 32 = (a.seq + 2 ^ 32 - b.seq) % 2 ^ 32 :=
    Nat.mod_mod _ _
  rw [hmm]
  by_cases hle : b.seq ≤ a.seq
  · have e : (a.seq + 2 ^ 32 - b.seq) % 2 ^ 32 = a.seq - b.seq := by
      have : a.seq + 2 ^ 32 - b.seq = (a.seq - b.seq) + 2 ^ 32 := by omega
      rw [this, Nat.add_mod_right]
      exact Nat.mod_eq_of_lt (by omega)
    rw [e]
    have hlt : a.seq - b.seq < 2 ^ 31 := by omega
    rw [if_pos hlt]
    constructor
    · intro _; exact hle
    · intro _; exact Int.ofNat_nonneg _
  · have e : (a.seq + 2 ^ 32 - b.seq) % 2 ^ 32 = a.seq + 2 ^ 32 - b.seq :=
      Nat.mod_eq_of_lt (by omega)
    rw [e]
    have hge : ¬ (a.seq + 2 ^ 32 - b.seq < 2 ^ 31) := by omega
    rw [if_neg hge]
    constructor
    · intro h
      exfalso
      have : ((a.seq + 2 ^ 32 - b.seq : Nat) : Int) < 2 ^ 32 := by
        have : a.seq + 2 ^ 32 - b.seq < 2 ^ 32 := by omega
        exact_mod_cast this
      omega
    · intro h; exact absurd h hle

/-- The place that `DL_LOWER_BOUND` finds in a list in increasing order: the
elements before it are below the new one, those from it on are not. -/
theorem DL_LOWER_BOUND_split (seg : out_of_order_list_t) (list : List out_of_order_list_t)
    (hn : list_near list seg.seq) :
    (∀ o ∈ list.take (DL_LOWER_BOUND seg list), o.seq < seg.seq) ∧
    (∀ o, (list.drop (DL_LOWER_BOUND seg list)).head? = some o → seg.seq ≤ o.seq) ∧
    DL_LOWER_BOUND seg list ≤ list.length := by
  induction list with
  | nil =>
    refine ⟨?_, ?_, Nat.le_refl _⟩
    · intro o ho; simp [DL_LOWER_BOUND] at ho
    · intro o ho; simp [DL_LOWER_BOUND] at ho
  | cons a l ih =>
    have hna := hn.2 a (List.mem_cons_self _ _)
    have hnl : list_near l seg.seq :=
      ⟨hn.1, fun o ho => hn.2 o (List.mem_cons_of_mem _ ho)⟩
    have hiff := segmentcmp_nonneg_iff a seg hna.1 hn.1 hna.2.1 hna.2.2
    unfold DL_LOWER_BOUND
    by_cases hc : segmentcmp a seg ≥ 0
    · rw [if_pos hc]
      refine ⟨?_, ?_, Nat.zero_le _⟩
      · intro o ho; simp at ho
      · intro o ho
        have : a = o := by simpa using ho
        rw [← this]
        exact hiff.mp hc
    · rw [if_neg hc]
      obtain ⟨i1, i2, i3⟩ := ih hnl
      refine ⟨?_, ?_, ?_⟩
      · intro o ho
        rw [List.take_succ_cons] at ho
        rcases List.mem_cons.mp ho with e | e
        · rw [e]
          have : ¬ (seg.seq ≤ a.seq) := fun hh => hc (hiff.mpr hh)
          omega
        · exact i1 o e
      · intro o ho
        rw [List.drop_succ_cons] at ho
        exact i2 o ho
      · simp only [List.length_cons]
        omega

theorem list_increasing_append_cons (A B : List out_of_order_list_t) (seg : out_of_order_list_t)
    (hs : list_increasing (A ++ B)) (hA : ∀ a ∈ A, a.seq < seg.seq)
    (hB : ∀ b ∈ B, seg.seq < b.seq) : list_increasing (A ++ seg :: B) := by
  unfold list_increasing at hs ⊢
  rw [List.pairwise_append] at hs ⊢
  refine ⟨hs.1, ?_, ?_⟩
  · rw [List.pairwise_cons]
    exact ⟨hB, hs.2.1⟩
  · intro a ha x hx
    rcases List.mem_cons.mp hx with e | e
    · rw [e]; exact hA a ha
    · exact hs.2.2 a ha x e

theorem insert_core (A B : List out_of_order_list_t) (seg : out_of_order_list_t)
    (hs : list_increasing (A ++ B)) (hA : ∀ a ∈ A, a.seq < seg.seq)
    (hB : ∀ b ∈ B, seg.seq ≤ b.seq) :
    ((if
        ((match (A ++ seg :: B)[A.length + 1]? with
            | none => false
            | some elt => elt.seq == seg.seq) ||
          match
            if A.length = 0 then (A ++ seg :: B).getLast?
            else (A ++ seg :: B)[A.length - 1]? with
          | none => false
          | some elt => elt.seq == seg.seq) = true then
        (A ++ seg :: B).eraseIdx A.length
      else A ++ seg :: B) = A ++ B ∧ (A ++ B = [] ∨ ∃ o ∈ A ++ B, o.seq = seg.seq)) ∨
    ((if
        ((match (A ++ seg :: B)[A.length + 1]? with
            | none => false
            | some elt => elt.seq == seg.seq) ||
          match
            if A.length = 0 then (A ++ seg :: B).getLast?
            else (A ++ seg :: B)[A.length - 1]? with
          | none => false
          | some elt => elt.seq == seg.seq) = true then
        (A ++ seg :: B).eraseIdx A.length
      else A ++ seg :: B) = A ++ seg :: B ∧ A ++ B ≠ [] ∧ (∀ o ∈ A ++ B, o.seq ≠ seg.seq) ∧
      list_increasing (A ++ seg :: B)) := by
  have hnext : (A ++ seg :: B)[A.length + 1]? = B.head? := by
    rw [List.getElem?_append_right (by omega)]
    have : A.length + 1 - A.length = 1 := by omega
    rw [this]
    cases B <;> simp
  have herase : (A ++ seg :: B).eraseIdx A.length = A ++ B := by
    rw [List.eraseIdx_append_of_length_le (Nat.le_refl _)]
    simp
  rw [hnext, herase]
  have hprev : ∀ o, (if A.length = 0 then (A ++ seg :: B).getLast?
      else (A ++ seg :: B)[A.length - 1]?) = some o →
      (o.seq == seg.seq) = true → A = [] ∧ (B = [] ∨ ∃ b ∈ B, b.seq = seg.seq) := by
    intro o ho he
    have he' : o.seq = seg.seq := by simpa using he
    cases A with
    | nil =>
      refine ⟨rfl, ?_⟩
      cases hB2 : B with
      | nil => exact Or.inl rfl
      | cons b l =>
        right
        rw [hB2] at ho
        simp only [List.length_nil, if_true, List.nil_append] at ho
        have hmem : o ∈ seg :: b :: l := List.mem_of_getLast?_eq_some ho
        have hlast : o ∈ b :: l := by
          rw [List.getLast?_cons_cons] at ho
          exact List.mem_of_getLast?_eq_some ho
        exact ⟨o, hlast, he'⟩
    | cons a l =>
      exfalso
      simp only [List.length_cons, Nat.add_one_ne_zero, if_false, Nat.add_sub_cancel] at ho
      rw [List.getElem?_append_left (by simp)] at ho
      have hmem : o ∈ a :: l := List.mem_iff_getElem?.mpr ⟨_, ho⟩
      have := hA o hmem
      omega
  have hc1 : (match B.head? with
      | none => false
      | some elt => elt.seq == seg.seq) = true ↔ ∃ b, B.head? = some b ∧ b.seq = seg.seq := by
    cases B.head? <;> simp
  have hc2 : (match (if A.length = 0 then (A ++ seg :: B).getLast?
        else (A ++ seg :: B)[A.length - 1]?) with
      | none => false
      | some elt => elt.seq == seg.seq) = true →
      ∃ o, (if A.length = 0 then (A ++ seg :: B).getLast?
        else (A ++ seg :: B)[A.length - 1]?) = some o ∧ (o.seq == seg.seq) = true := by
    cases (if A.length = 0 then (A ++ seg :: B).getLast? else (A ++ seg :: B)[A.length - 1]?)
      <;> simp
  have hsB : B.Pairwise (fun a b => a.seq < b.seq) := (List.pairwise_append.mp hs).2.1
  by_cases hP : A ++ B = [] ∨ ∃ o ∈ A ++ B, o.seq = seg.seq
  · left
    refine ⟨?_, hP⟩
    apply if_pos
    rw [Bool.or_eq_true]
    rcases hP with he | ⟨o, ho, hoe⟩
    · right
      have hA0 : A = [] := (List.append_eq_nil.mp he).1
      have hB0 : B = [] := (List.append_eq_nil.mp he).2
      subst hA0 hB0
      simp
    · left
      rw [hc1]
      rcases List.mem_append.mp ho with h1 | h1
      · have := hA o h1; omega
      · cases hBe : B with
        | nil => rw [hBe] at h1; cases h1
        | cons b l =>
          refine ⟨b, rfl, ?_⟩
          have hb := hB b (by rw [hBe]; exact List.mem_cons_self _ _)
          rw [hBe] at h1 hsB
          rcases List.mem_cons.mp h1 with e | e
          · rw [← e]; exact hoe
          · have := (List.pairwise_cons.mp hsB).1 o e
            omega
  · right
    have hne : A ++ B ≠ [] := fun e => hP (Or.inl e)
    have hno : ∀ o ∈ A ++ B, o.seq ≠ seg.seq := fun o ho e => hP (Or.inr ⟨o, ho, e⟩)
    refine ⟨?_, hne, hno, ?_⟩
    · apply if_neg
      rw [Bool.or_eq_true]
      rintro (h | h)
      · obtain ⟨b, hb, hbe⟩ := hc1.mp h
        have hmem : b ∈ B := List.mem_of_mem_head? hb
        exact hno b (List.mem_append_right _ hmem) hbe
      · obtain ⟨o, ho, hoe⟩ := hc2 h
        obtain ⟨hA0, hB0⟩ := hprev o ho hoe
        rcases hB0 with e | ⟨b, hb, hbe⟩
        · exact hne (by rw [hA0, e]; rfl)
        · exact hno b (List.mem_append_right _ hb) hbe
    · apply list_increasing_append_cons A B seg hs hA
      intro b hb
      have h1 := hB b hb
      have h2 := hno b (List.mem_append_right _ hb)
      omega

/-- What the out-of-order branch does to a list in increasing order: the list is
as it was when it is empty or holds the sequence number of the segment, and it
has the segment at its place otherwise. -/
theorem out_of_order_insert_spec (list : List out_of_order_list_t) (seg : out_of_order_list_t)
    (hs : list_increasing list) (hn : list_near list seg.seq) :
    (out_of_order_insert list seg = list ∧ (list = [] ∨ ∃ o ∈ list, o.seq = seg.seq)) ∨
    (out_of_order_insert list seg
        = list.take (DL_LOWER_BOUND seg list) ++ seg :: list.drop (DL_LOWER_BOUND seg list) ∧
      list ≠ [] ∧ (∀ o ∈ list, o.seq ≠ seg.seq) ∧
      list_increasing (list.take (DL_LOWER_BOUND seg list)
        ++ seg :: list.drop (DL_LOWER_BOUND seg list))) := by
  obtain ⟨i1, i2, i3⟩ := DL_LOWER_BOUND_split seg list hn
  have hsB : (list.drop (DL_LOWER_BOUND seg list)).Pairwise (fun a b => a.seq < b.seq) :=
    hs.sublist (List.drop_sublist _ _)
  have hB : ∀ b ∈ list.drop (DL_LOWER_BOUND seg list), seg.seq ≤ b.seq := by
    intro b hb
    cases hd : list.drop (DL_LOWER_BOUND seg list) with
    | nil => rw [hd] at hb; cases hb
    | cons c l =>
      rw [hd] at hb hsB i2
      have hc := i2 c rfl
      rcases List.mem_cons.mp hb with e | e
      · rw [e]; exact hc
      · have := (List.pairwise_cons.mp hsB).1 b e
        omega
  have hcore := insert_core (list.take (DL_LOWER_BOUND seg list))
    (list.drop (DL_LOWER_BOUND seg list)) seg
    (by rw [List.take_append_drop]; exact hs) i1 hB
  rw [List.length_take, Nat.min_eq_left i3, List.take_append_drop] at hcore
  unfold out_of_order_insert
  exact hcore

theorem out_of_order_insert_increasing (list : List out_of_order_list_t)
    (seg : out_of_order_list_t) (hs : list_increasing list) (hn : list_near list seg.seq) :
    list_increasing (out_of_order_insert list seg) := by
  rcases out_of_order_insert_spec list seg hs hn with ⟨h, _⟩ | ⟨h, _, _, h2⟩
  · rw [h]; exact hs
  · rw [h]; exact h2

theorem out_of_order_drain_sublist (list : List out_of_order_list_t) :
    ∀ (pending_packets : List tcp_packet_t) (next_seq : Nat),
      (out_of_order_drain list pending_packets next_seq).1.Sublist list := by
  induction list with
  | nil => intro p n; exact List.Sublist.refl _
  | cons l rest ih =>
    intro p n
    unfold out_of_order_drain
    by_cases h : l.seq = n
    · rw [if_pos h]
      exact (ih _ _).cons _
    · rw [if_neg h]
      exact (ih _ _).cons₂ _

theorem packet_arrival_fin_list (tcp_state current : tcp_state_t) (tcp_data : tcp_data_t)
    (packet : tcp_packet_t) (actions : List tcp_action_t) :
    (packet_arrival_fin tcp_state current tcp_data packet actions).tcp_data.list
      = tcp_data.list :=
  (packet_arrival_fin_keeps tcp_state current tcp_data packet actions).2.2.2.2

theorem packet_arrival_text_list (tcp_state current : tcp_state_t) (tcp_data : tcp_data_t)
    (packet : tcp_packet_t) (actions : List tcp_action_t) :
    (packet_arrival_text tcp_state current tcp_data packet actions).tcp_data.list.Sublist
      tcp_data.list := by
  unfold packet_arrival_text
  dsimp only
  split_ifs
  · rw [packet_arrival_fin_list]
    exact out_of_order_drain_sublist _ _ _
  · rw [packet_arrival_fin_list]
  · exact List.Sublist.refl _

theorem packet_arrival_ack_list (env : tcp_env_t) (tcp_state : tcp_state_t)
    (tcp_data : tcp_data_t) (packet : tcp_packet_t) (r : tcp_result_t)
    (h : packet_arrival_ack env tcp_state tcp_data packet = some r) :
    r.tcp_data.list.Sublist tcp_data.list := by
  by_cases hf : established_family tcp_state
  · by_cases hacc : tcp_data.SND_UNA ≤ packet.ack_seq ∧ packet.ack_seq ≤ tcp_data.SND_NXT
    · obtain ⟨popped, persist, pumped, k1, k2, k3, k4⟩ :=
        packet_arrival_ack_accepted env tcp_state tcp_data packet r hf hacc.1 hacc.2 h
      rw [k4]
      have e1 := (rtqueue_pop_recv _ _ _ _ _ k1).2.2.2.2.2.1
      have e2 := (packet_arrival_persist_recv _ _ _ _ k2).2.2.2.2.2.1
      have e3 := (chitcp_update_send_buffer_recv _ _ _ k3).2.2.2.2.2.1
      have e : pumped.1.list = tcp_data.list := by
        rw [e3]
        show persist.1.list = _
        rw [e2, e1]
      rw [← e]
      exact packet_arrival_text_list _ _ _ _ _
    · have hne : tcp_state ≠ tcp_state_t.SYN_RCVD := by
        rcases hf with e | e | e | e | e | e | e <;> rw [e] <;> decide
      unfold packet_arrival_ack at h
      have c1 : ¬ (tcp_state = tcp_state_t.SYN_RCVD ∧ tcp_data.SND_UNA ≤ packet.ack_seq
          ∧ packet.ack_seq ≤ tcp_data.SND_NXT) := fun hh => hne hh.1
      have c2 : tcp_state = tcp_state_t.ESTABLISHED ∨ tcp_state = tcp_state_t.FIN_WAIT_1
          ∨ tcp_state = tcp_state_t.FIN_WAIT_2 ∨ tcp_state = tcp_state_t.CLOSE_WAIT
          ∨ tcp_state = tcp_state_t.CLOSING ∨ tcp_state = tcp_state_t.LAST_ACK
          ∨ tcp_state = tcp_state_t.TIME_WAIT := hf
      rw [if_neg c1, if_pos c2, if_neg hacc] at h
      split_ifs at h
      · cases h
        exact packet_arrival_text_list _ _ _ _ _
      · cases h
        exact List.Sublist.refl _
  · unfold packet_arrival_ack at h
    have c2 : ¬ (tcp_state = tcp_state_t.ESTABLISHED ∨ tcp_state = tcp_state_t.FIN_WAIT_1
        ∨ tcp_state = tcp_state_t.FIN_WAIT_2 ∨ tcp_state = tcp_state_t.CLOSE_WAIT
        ∨ tcp_state = tcp_state_t.CLOSING ∨ tcp_state = tcp_state_t.LAST_ACK
        ∨ tcp_state = tcp_state_t.TIME_WAIT) := hf
    rw [if_neg c2] at h
    split_ifs at h
    · dsimp only at h
      cases hp : rtqueue_pop env.fp { tcp_data with first_RTT := true } (2 ^ 32 - 1) env.now with
      | none => rw [hp] at h; cases h
      | some popped =>
        rw [hp] at h
        dsimp only at h
        cases h
        have e1 := (rtqueue_pop_recv _ _ _ _ _ hp).2.2.2.2.2.1
        show popped.1.list.Sublist tcp_data.list
        rw [e1]
    · cases h
      exact packet_arrival_text_list _ _ _ _ _

theorem seq_check_out_of_order (tcp_data : tcp_data_t) (packet : tcp_packet_t)
    (h : seq_check tcp_data packet = seq_check_t.out_of_order) :
    packet.seq > tcp_data.RCV_NXT := by
  unfold seq_check at h
  dsimp only at h
  split_ifs at h with h1
  exact h1.1

/-- C22: when the out-of-order list is in strictly increasing order of SEG.SEQ
(absent wraparound: the segment and the elements of the list are less than
2^31 apart), it is so again after `chitcpd_tcp_state_handle_PACKET_ARRIVAL` in
a synchronized state; an element of the list after the call was in the list
before or is the segment, whose SEG.SEQ is then above RCV.NXT; and a segment for
the out-of-order list whose SEG.SEQ is in the list already leaves the list as
it is, changes no field of the TCB apart from its removal from the pending
packets, and sends nothing.  The same holds of a segment for the empty list:
the list stays empty. -/
theorem out_of_order_list_invariant (env : tcp_env_t) (tcp_state : tcp_state_t)
    (tcp_data : tcp_data_t) (packet : tcp_packet_t) (rest : List tcp_packet_t)
    (r : tcp_result_t)
    (h1 : tcp_state ≠ tcp_state_t.CLOSED) (h2 : tcp_state ≠ tcp_state_t.LISTEN)
    (h3 : tcp_state ≠ tcp_state_t.SYN_SENT)
    (hp : tcp_data.pending_packets = packet :: rest)
    (hs : list_increasing tcp_data.list) (hn : list_near tcp_data.list packet.seq)
    (h : chitcpd_tcp_state_handle_PACKET_ARRIVAL env tcp_state tcp_data = some r) :
    list_increasing r.tcp_data.list ∧
    (∀ o ∈ r.tcp_data.list,
      o ∈ tcp_data.list ∨ (o = ⟨packet.seq, packet⟩ ∧ packet.seq > tcp_data.RCV_NXT)) ∧
    (seq_check tcp_data packet = seq_check_t.out_of_order →
      (tcp_data.list = [] ∨ ∃ o ∈ tcp_data.list, o.seq = packet.seq) →
      r = ⟨tcp_state, { tcp_data with pending_packets := rest }, []⟩) := by
  rw [packet_arrival_of_synchronized env tcp_state tcp_data packet rest h1 h2 h3 hp] at h
  have hsc : seq_check { tcp_data with pending_packets := rest } packet
      = seq_check tcp_data packet := rfl
  unfold packet_arrival_synchronized at h
  rw [hsc] at h
  cases hc : seq_check tcp_data packet with
  | out_of_order =>
    rw [hc] at h
    dsimp only at h
    cases h
    refine ⟨?_, ?_, ?_⟩
    · exact out_of_order_insert_increasing tcp_data.list ⟨packet.seq, packet⟩ hs hn
    · intro o ho
      rcases out_of_order_insert_mem tcp_data.list ⟨packet.seq, packet⟩ o ho with e | e
      · exact Or.inl e
      · exact Or.inr ⟨e, seq_check_out_of_order tcp_data packet hc⟩
    · intro _ hpres
      rcases out_of_order_insert_spec tcp_data.list ⟨packet.seq, packet⟩ hs hn with
        ⟨e, _⟩ | ⟨_, k1, k2, _⟩
      · have e2 : out_of_order_insert
            ({ tcp_data with pending_packets := rest } : tcp_data_t).list ⟨packet.seq, packet⟩
            = tcp_data.list := e
        rw [e2]
      · rcases hpres with e | ⟨o, ho, hoe⟩
        · exact absurd e k1
        · exact absurd hoe (k2 o ho)
  | dropped =>
    rw [hc] at h
    dsimp only at h
    cases h
    exact ⟨hs, fun o ho => Or.inl ho, fun hh => by cases hh⟩
  | not_acceptable =>
    rw [hc] at h
    dsimp only at h
    cases h
    exact ⟨hs, fun o ho => Or.inl ho, fun hh => by cases hh⟩
  | acceptable =>
    rw [hc] at h
    dsimp only at h
    have hsub : r.tcp_data.list.Sublist tcp_data.list := by
      split_ifs at h
      · cases h; exact List.Sublist.refl _
      · cases h; exact List.Sublist.refl _
      · exact packet_arrival_ack_list env tcp_state
          { tcp_data with pending_packets := rest } packet r h
    exact ⟨hs.sublist hsub, fun o ho => Or.inl (hsub.subset ho), fun hh => by cases hh⟩

theorem out_of_order_list_invariant_witness :
    chitcpd_tcp_state_handle_PACKET_ARRIVAL (ex_env 0) tcp_state_t.ESTABLISHED
        ex_two_out_of_order
      = some ⟨tcp_state_t.ESTABLISHED,
          { ex_two_out_of_order with
            pending_packets := []
            list := [⟨2010, ⟨0, 1, 0, 2010, 233, 4096, [7]⟩⟩,
                     ⟨2020, ⟨0, 1, 0, 2020, 233, 4096, [8]⟩⟩,
                     ⟨2030, ⟨0, 1, 0, 2030, 233, 4096, [9]⟩⟩] }, []⟩ ∧
    list_increasing [⟨2010, ⟨0, 1, 0, 2010, 233, 4096, [7]⟩⟩,
                     ⟨2020, ⟨0, 1, 0, 2020, 233, 4096, [8]⟩⟩,
                     ⟨2030, ⟨0, 1, 0, 2030, 233, 4096, [9]⟩⟩] :=
  ⟨rfl,
    (out_of_order_list_invariant (ex_env 0) tcp_state_t.ESTABLISHED ex_two_out_of_order
      ⟨0, 1, 0, 2020, 233, 4096, [8]⟩ [] _ (by decide) (by decide) (by decide) rfl
      (by unfold list_increasing; decide)
      ⟨by decide, by
        intro o ho
        have h : ex_two_out_of_order.list
            = [⟨2010, ⟨0, 1, 0, 2010, 233, 4096, [7]⟩⟩, ⟨2030, ⟨0, 1, 0, 2030, 233, 4096, [9]⟩⟩] :=
          rfl
        rw [h] at ho
        simp only [List.mem_cons, List.mem_singleton, List.not_mem_nil, or_false] at ho
        rcases ho with e | e <;> (rw [e]; exact ⟨by decide, by decide, by decide⟩)⟩
      rfl).1⟩

/-! ## C23: the delivery of data -/

theorem mem_sent_packets (actions : List tcp_action_t) (p : tcp_packet_t) :
    p ∈ sent_packets actions ↔ tcp_action_t.send_tcp_packet p ∈ actions := by
  unfold sent_packets
  rw [List.mem_filterMap]
  constructor
  · rintro ⟨a, ha, h⟩
    cases a with
    | send_tcp_packet q =>
      simp only [Option.some.injEq] at h
      rw [← h]; exact ha
    | _ => simp at h
  · intro h
    exact ⟨_, h, rfl⟩

/-- The segments that the loop of `chitcp_update_send_buffer` sends carry data and
neither SYN nor FIN. -/
theorem update_send_buffer_loop_sent (env : tcp_env_t) (fuel : Nat) :
    ∀ (bytes_to_send : Int) (tcp_data : tcp_data_t) (actions : List tcp_action_t)
      (r : tcp_data_t × List tcp_action_t),
      update_send_buffer_loop env fuel bytes_to_send tcp_data actions = some r →
      ∀ p ∈ sent_packets r.2,
        p ∈ sent_packets actions ∨ (TCP_PAYLOAD_LEN p > 0 ∧ p.fin = 0 ∧ p.syn = 0) := by
  induction fuel with
  | zero =>
    intro bts td acts r h
    unfold update_send_buffer_loop at h
    split_ifs at h
    cases h
    exact fun p hp => Or.inl hp
  | succ n ih =>
    intro bts td acts r h
    unfold update_send_buffer_loop at h
    by_cases hb : bts > 0
    · rw [if_pos hb] at h
      dsimp only at h
      by_cases hr : (env.peek_at td.send td.SND_NXT
          (if bts > TCP_MSS then TCP_MSS else bts).toNat).1 > 0
      · rw [if_pos hr] at h
        intro p hp
        rcases ih _ _ _ _ h p hp with e | e
        · rw [sent_packets_append] at e
          rcases List.mem_append.mp e with e1 | e1
          · exact Or.inl e1
          · right
            rw [sent_packets_cons_send] at e1
            have hq := (rtqueue_append_keeps td
              (make_packet 0 1 0 td.SND_NXT td.RCV_NXT td.RCV_WND
                (((env.peek_at td.send td.SND_NXT
                    (if bts > TCP_MSS then TCP_MSS else bts).toNat).2
                  ++ List.replicate (if bts > TCP_MSS then TCP_MSS else bts).toNat 0).take
                    (if bts > TCP_MSS then TCP_MSS else bts).toNat))
              td.SND_NXT env.now).2
            rw [hq] at e1
            have hpe := List.mem_singleton.mp e1
            rw [hpe]
            refine ⟨?_, rfl, rfl⟩
            show (List.take _ _).length > 0
            rw [List.length_take, List.length_append, List.length_replicate]
            have hpos : 0 < (if bts > TCP_MSS then TCP_MSS else bts).toNat := by
              have : (0 : Int) < (if bts > TCP_MSS then TCP_MSS else bts) := by
                split_ifs
                · decide
                · exact hb
              omega
            omega
        · exact Or.inr e
      · rw [if_neg hr] at h
        exact ih _ _ _ _ h
    · rw [if_neg hb] at h
      cases h
      exact fun p hp => Or.inl hp

theorem update_send_buffer_loop_closing (env : tcp_env_t) (fuel : Nat) :
    ∀ (bytes_to_send : Int) (tcp_data : tcp_data_t) (actions : List tcp_action_t)
      (r : tcp_data_t × List tcp_action_t),
      update_send_buffer_loop env fuel bytes_to_send tcp_data actions = some r →
      r.1.closing = tcp_data.closing ∧ r.1.probe_packet = tcp_data.probe_packet := by
  induction fuel with
  | zero =>
    intro bts td acts r h
    unfold update_send_buffer_loop at h
    split_ifs at h
    cases h
    exact ⟨rfl, rfl⟩
  | succ n ih =>
    intro bts td acts r h
    unfold update_send_buffer_loop at h
    by_cases hb : bts > 0
    · rw [if_pos hb] at h
      dsimp only at h
      by_cases hr : (env.peek_at td.send td.SND_NXT
          (if bts > TCP_MSS then TCP_MSS else bts).toNat).1 > 0
      · rw [if_pos hr] at h
        have k1 := ih _ _ _ _ h
        obtain ⟨mt, acts2, k, _⟩ := rtqueue_append_shape td
          (make_packet 0 1 0 td.SND_NXT td.RCV_NXT td.RCV_WND
            (((env.peek_at td.send td.SND_NXT (if bts > TCP_MSS then TCP_MSS else bts).toNat).2
              ++ List.replicate (if bts > TCP_MSS then TCP_MSS else bts).toNat 0).take
                (if bts > TCP_MSS then TCP_MSS else bts).toNat))
          td.SND_NXT env.now
        rw [k] at k1
        exact k1
      · rw [if_neg hr] at h
        exact ih _ _ _ _ h
    · rw [if_neg hb] at h
      cases h
      exact ⟨rfl, rfl⟩

/-- The segments that `chitcp_update_send_buffer` sends: a FIN without data when
the send buffer is empty and the flag `closing` is set, segments with data and
without FIN otherwise. -/
theorem chitcp_update_send_buffer_sent (env : tcp_env_t) (tcp_data : tcp_data_t)
    (r : tcp_data_t × List tcp_action_t) (h : chitcp_update_send_buffer env tcp_data = some r) :
    (circular_buffer_count tcp_data.send = 0 ∧ tcp_data.closing = true →
      sent_packets r.2
        = [make_packet 0 1 1 tcp_data.SND_NXT tcp_data.RCV_NXT tcp_data.RCV_WND []]) ∧
    (¬ (circular_buffer_count tcp_data.send = 0 ∧ tcp_data.closing = true) →
      r.1.closing = tcp_data.closing ∧
      ∀ p ∈ sent_packets r.2, TCP_PAYLOAD_LEN p > 0 ∧ p.fin = 0 ∧ p.syn = 0) := by
  unfold chitcp_update_send_buffer at h
  dsimp only at h
  by_cases hc : circular_buffer_count tcp_data.send = 0 ∧ tcp_data.closing = true
  · rw [if_pos hc] at h
    cases h
    refine ⟨fun _ => ?_, fun hn => absurd hc hn⟩
    unfold chitcpd_tcp_state_handle_APPLICATION_CLOSE
    dsimp only
    rw [sent_packets_cons_send, (rtqueue_append_keeps _ _ _ _).2]
  · rw [if_neg hc] at h
    refine ⟨fun hn => absurd hn hc, fun _ => ?_⟩
    split_ifs at h
    · cases h
      exact ⟨rfl, fun p hp => by cases hp⟩
    · refine ⟨(update_send_buffer_loop_closing env _ _ _ _ _ h).1, ?_⟩
      intro p hp
      rcases update_send_buffer_loop_sent env _ _ _ _ _ h p hp with e | e
      · cases e
      · exact e
    · refine ⟨(update_send_buffer_loop_closing env _ _ _ _ _ h).1, ?_⟩
      intro p hp
      rcases update_send_buffer_loop_sent env _ _ _ _ _ h p hp with e | e
      · cases e
      · exact e

/-- The seventh and the eighth step for a segment with data and without FIN in
ESTABLISHED. -/
theorem packet_arrival_text_data (current : tcp_state_t) (tcp_data : tcp_data_t)
    (packet : tcp_packet_t) (actions : List tcp_action_t)
    (hfin : packet.fin ≠ 1) (hn : TCP_PAYLOAD_LEN packet > 0) :
    (packet_arrival_text tcp_state_t.ESTABLISHED current tcp_data packet actions).tcp_state
      = current ∧
    (packet_arrival_text tcp_state_t.ESTABLISHED current tcp_data packet actions).tcp_data.recv
      = circular_buffer_write tcp_data.recv packet.payload ∧
    (packet_arrival_text tcp_state_t.ESTABLISHED current tcp_data packet actions).tcp_data.RCV_NXT
      = circular_buffer_next (circular_buffer_write tcp_data.recv packet.payload) ∧
    (packet_arrival_text tcp_state_t.ESTABLISHED current tcp_data packet actions).tcp_data.RCV_WND
      = circular_buffer_available (circular_buffer_write tcp_data.recv packet.payload) ∧
    (packet_arrival_text tcp_state_t.ESTABLISHED current tcp_data packet actions).tcp_data.list
      = (out_of_order_drain tcp_data.list tcp_data.pending_packets
          (circular_buffer_next (circular_buffer_write tcp_data.recv packet.payload))).1 ∧
    (packet_arrival_text tcp_state_t.ESTABLISHED current tcp_data packet
        actions).tcp_data.pending_packets
      = (out_of_order_drain tcp_data.list tcp_data.pending_packets
          (circular_buffer_next (circular_buffer_write tcp_data.recv packet.payload))).2.1 ∧
    (packet_arrival_text tcp_state_t.ESTABLISHED current tcp_data packet actions).tcp_data.SND_NXT
      = tcp_data.SND_NXT ∧
    (packet_arrival_text tcp_state_t.ESTABLISHED current tcp_data packet actions).actions
      = actions ++ [tcp_action_t.send_tcp_packet
          (make_packet 0 1 0 tcp_data.SND_NXT
            (out_of_order_drain tcp_data.list tcp_data.pending_packets
              (circular_buffer_next (circular_buffer_write tcp_data.recv packet.payload))).2.2
            (circular_buffer_available (circular_buffer_write tcp_data.recv packet.payload))
            [])] := by
  unfold packet_arrival_text
  rw [if_pos (Or.inl rfl), if_pos ⟨hfin, rfl, hn⟩]
  unfold packet_arrival_fin
  have c1 : ¬ (tcp_state_t.ESTABLISHED = tcp_state_t.CLOSED
      ∨ tcp_state_t.ESTABLISHED = tcp_state_t.LISTEN
      ∨ tcp_state_t.ESTABLISHED = tcp_state_t.SYN_SENT) := by decide
  have c2 : ¬ (packet.fin = 1) := hfin
  dsimp only
  rw [if_neg c1, if_neg c2]
  exact ⟨rfl, rfl, rfl, rfl, rfl, rfl, rfl, rfl⟩

theorem out_of_order_drain_none (list : List out_of_order_list_t) :
    ∀ (pending_packets : List tcp_packet_t) (next_seq : Nat),
      (∀ o ∈ list, o.seq ≠ next_seq) →
      out_of_order_drain list pending_packets next_seq = (list, pending_packets, next_seq) := by
  induction list with
  | nil => intro p n _; rfl
  | cons l rest ih =>
    intro p n h
    unfold out_of_order_drain
    rw [if_neg (h l (List.mem_cons_self _ _))]
    rw [ih p n (fun o ho => h o (List.mem_cons_of_mem _ ho))]

/-- C23 (counterexample): in ESTABLISHED with RCV.NXT = 2001 and a segment of two
bytes at 2004 in the out-of-order list, the three bytes of an acceptable segment
at 2001 are put in the receive buffer and RCV.NXT becomes 2004, but the ACK that
is sent has the acknowledgment number 2006: the segment of the list is handed
to the pending packets and counted before it is processed.  And a segment with
the same three bytes whose SEG.ACK = 200 is below SND.UNA = 233 is not
delivered: the receive buffer, RCV.NXT and RCV.WND stay as they are and no ACK
is sent. -/
theorem ack_number_ahead_of_rcv_nxt :
    (chitcpd_tcp_state_handle_PACKET_ARRIVAL (ex_env 0) tcp_state_t.ESTABLISHED
        ex_gap_filled).map
      (fun r => (r.tcp_data.recv.data, r.tcp_data.RCV_NXT, r.tcp_data.RCV_WND,
        sent_packets r.actions, r.tcp_data.list, r.tcp_data.pending_packets))
      = some ([1, 2, 3], 2004, 4093, [⟨0, 1, 0, 233, 2006, 4093, []⟩], [],
          [⟨0, 1, 0, 2004, 233, 4096, [9, 9]⟩]) ∧
    seq_check ex_data_with_old_ack ⟨0, 1, 0, 2001, 200, 4096, [1, 2, 3]⟩
      = seq_check_t.acceptable ∧
    chitcpd_tcp_state_handle_PACKET_ARRIVAL (ex_env 0) tcp_state_t.ESTABLISHED
        ex_data_with_old_ack
      = some ⟨tcp_state_t.ESTABLISHED, ex_established, []⟩ := by
  refine ⟨?_, ?_, ?_⟩
  · rfl
  · rfl
  · rfl

/-- C23 (amended): in ESTABLISHED, for an acceptable segment with ACK set, SYN and
FIN clear, SND.UNA <= SEG.ACK <= SND.NXT and a payload of n > 0 bytes that fits
the receive buffer, whose end is at RCV.NXT: when the handler returns, the n
bytes are appended to the receive buffer, RCV.NXT has advanced by exactly n,
RCV.WND is the free space of the buffer, the elements of the out-of-order list
that continue RCV.NXT are handed to the pending packets, and after the segments
with data (or the FIN) that the processing of the acknowledgment may send,
exactly one ACK without data is sent; its acknowledgment number is the new
RCV.NXT plus the bytes of the elements handed over, that is the new RCV.NXT
when no element of the list is at the new RCV.NXT. -/
theorem receive_delivery (env : tcp_env_t) (tcp_data : tcp_data_t) (packet : tcp_packet_t)
    (rest : List tcp_packet_t) (r : tcp_result_t)
    (hp : tcp_data.pending_packets = packet :: rest)
    (hacc : seq_check tcp_data packet = seq_check_t.acceptable)
    (hsyn : packet.syn ≠ 1) (hack : packet.ack ≠ 0) (hfin : packet.fin ≠ 1)
    (h1 : tcp_data.SND_UNA ≤ packet.ack_seq) (h2 : packet.ack_seq ≤ tcp_data.SND_NXT)
    (hn : TCP_PAYLOAD_LEN packet > 0)
    (hfit : TCP_PAYLOAD_LEN packet ≤ circular_buffer_available tcp_data.recv)
    (hnext : circular_buffer_next tcp_data.recv = tcp_data.RCV_NXT)
    (h : chitcpd_tcp_state_handle_PACKET_ARRIVAL env tcp_state_t.ESTABLISHED tcp_data = some r) :
    r.tcp_state = tcp_state_t.ESTABLISHED ∧
    r.tcp_data.recv.data = tcp_data.recv.data ++ packet.payload ∧
    r.tcp_data.RCV_NXT = (tcp_data.RCV_NXT + TCP_PAYLOAD_LEN packet) % 2 ^ 32 ∧
    r.tcp_data.RCV_WND = circular_buffer_available r.tcp_data.recv ∧
    r.tcp_data.RCV_WND + TCP_PAYLOAD_LEN packet = circular_buffer_available tcp_data.recv ∧
    r.tcp_data.list = (out_of_order_drain tcp_data.list rest r.tcp_data.RCV_NXT).1 ∧
    r.tcp_data.pending_packets
      = (out_of_order_drain tcp_data.list rest r.tcp_data.RCV_NXT).2.1 ∧
    (∃ pre, r.actions = pre ++ [tcp_action_t.send_tcp_packet
        (make_packet 0 1 0 r.tcp_data.SND_NXT
          (out_of_order_drain tcp_data.list rest r.tcp_data.RCV_NXT).2.2
          r.tcp_data.RCV_WND [])] ∧
      ∀ p ∈ sent_packets pre, TCP_PAYLOAD_LEN p > 0 ∨ p.fin = 1) ∧
    ((∀ o ∈ tcp_data.list, o.seq ≠ r.tcp_data.RCV_NXT) →
      out_of_order_drain tcp_data.list rest r.tcp_data.RCV_NXT
        = (tcp_data.list, rest, r.tcp_data.RCV_NXT)) := by
  rw [packet_arrival_of_synchronized env _ tcp_data packet rest (by decide) (by decide)
    (by decide) hp] at h
  have hsc : seq_check { tcp_data with pending_packets := rest } packet
      = seq_check tcp_data packet := rfl
  unfold packet_arrival_synchronized at h
  rw [hsc, hacc] at h
  dsimp only at h
  rw [if_neg hsyn, if_neg hack] at h
  obtain ⟨popped, persist, pumped, k1, k2, k3, k4⟩ :=
    packet_arrival_ack_accepted env tcp_state_t.ESTABLISHED
      { tcp_data with pending_packets := rest } packet r (Or.inl rfl) h1 h2 h
  have e1 := rtqueue_pop_recv _ _ _ _ _ k1
  have e2 := packet_arrival_persist_recv _ _ _ _ k2
  have e3 := chitcp_update_send_buffer_recv _ _ _ k3
  have hrecv : pumped.1.recv = tcp_data.recv := by
    rw [e3.2.2.2.2.1]; show persist.1.recv = _; rw [e2.2.2.2.2.1, e1.2.2.2.2.1]
  have hlist : pumped.1.list = tcp_data.list := by
    rw [e3.2.2.2.2.2.1]; show persist.1.list = _; rw [e2.2.2.2.2.2.1, e1.2.2.2.2.2.1]
  have hpend : pumped.1.pending_packets = rest := by
    rw [e3.2.2.2.2.2.2]; show persist.1.pending_packets = _
    rw [e2.2.2.2.2.2.2, e1.2.2.2.2.2.2]
  have hstate : packet_arrival_ack_state tcp_state_t.ESTABLISHED pumped.1 packet
      = tcp_state_t.ESTABLISHED := rfl
  rw [hstate] at k4
  obtain ⟨t1, t2, t3, t4, t5, t6, t7, t8⟩ := packet_arrival_text_data tcp_state_t.ESTABLISHED
    pumped.1 packet (popped.2 ++ persist.2 ++ pumped.2) hfin hn
  rw [← k4] at t1 t2 t3 t4 t5 t6 t7 t8
  rw [hrecv] at t2 t3 t4 t5 t6 t8
  rw [hlist, hpend] at t5 t6 t8
  have hw : circular_buffer_write tcp_data.recv packet.payload
      = { tcp_data.recv with data := tcp_data.recv.data ++ packet.payload } := by
    unfold circular_buffer_write
    have hl : packet.payload.length ≤ circular_buffer_available tcp_data.recv := hfit
    rw [List.take_of_length_le hl]
  have hnx : circular_buffer_next (circular_buffer_write tcp_data.recv packet.payload)
      = (tcp_data.RCV_NXT + TCP_PAYLOAD_LEN packet) % 2 ^ 32 := by
    rw [hw, ← hnext]
    unfold circular_buffer_next TCP_PAYLOAD_LEN
    show (tcp_data.recv.seq_initial + (tcp_data.recv.data ++ packet.payload).length) % 2 ^ 32 = _
    rw [List.length_append]
    omega
  have hnx2 : r.tcp_data.RCV_NXT
      = circular_buffer_next (circular_buffer_write tcp_data.recv packet.payload) := t3
  refine ⟨t1, ?_, ?_, ?_, ?_, ?_, ?_, ?_, ?_⟩
  · rw [t2, hw]
  · rw [t3, hnx]
  · rw [t4, t2]
  · rw [t4, hw]
    unfold circular_buffer_available TCP_PAYLOAD_LEN at hfit ⊢
    show tcp_data.recv.maxsize - (tcp_data.recv.data ++ packet.payload).length
      + packet.payload.length = _
    rw [List.length_append]
    omega
  · rw [t5, hnx2]
  · rw [t6, hnx2]
  · refine ⟨popped.2 ++ persist.2 ++ pumped.2, ?_, ?_⟩
    · rw [t8, t7, t4, hnx2]
    · intro p hp2
      rw [sent_packets_append, sent_packets_append, (rtqueue_pop_keeps _ _ _ _ _ k1).2,
        (packet_arrival_persist_keeps _ _ _ _ k2).2] at hp2
      have hp3 : p ∈ sent_packets pumped.2 := by simpa using hp2
      obtain ⟨s1, s2⟩ := chitcp_update_send_buffer_sent _ _ _ k3
      by_cases hc : circular_buffer_count
          ({ persist.1 with SND_UNA := packet.ack_seq, SND_WND := packet.win } : tcp_data_t).send
            = 0 ∧
          ({ persist.1 with SND_UNA := packet.ack_seq, SND_WND := packet.win } : tcp_data_t).closing
            = true
      · rw [s1 hc] at hp3
        rw [List.mem_singleton.mp hp3]
        exact Or.inr rfl
      · exact Or.inl ((s2 hc).2 p hp3).1
  · intro hno
    exact out_of_order_drain_none _ _ _ hno

theorem receive_delivery_witness :
    chitcpd_tcp_state_handle_PACKET_ARRIVAL (ex_env 0) tcp_state_t.ESTABLISHED ex_data_in_order
      = some ex_data_delivered ∧
    sent_packets ex_data_delivered.actions = [⟨0, 1, 0, 233, 2004, 4093, []⟩] ∧
    ex_data_delivered.tcp_state = tcp_state_t.ESTABLISHED ∧
    ex_data_delivered.tcp_data.recv.data = [] ++ [1, 2, 3] ∧
    ex_data_delivered.tcp_data.RCV_NXT = (2001 + 3) % 2 ^ 32 :=
  ⟨rfl, rfl,
    (receive_delivery (ex_env 0) ex_data_in_order ⟨0, 1, 0, 2001, 233, 4096, [1, 2, 3]⟩ []
      ex_data_delivered rfl rfl (by decide) (by decide) (by decide) (by decide) (by decide)
      (by decide) (by decide) rfl rfl).1,
    (receive_delivery (ex_env 0) ex_data_in_order ⟨0, 1, 0, 2001, 233, 4096, [1, 2, 3]⟩ []
      ex_data_delivered rfl rfl (by decide) (by decide) (by decide) (by decide) (by decide)
      (by decide) (by decide) rfl rfl).2.1,
    (receive_delivery (ex_env 0) ex_data_in_order ⟨0, 1, 0, 2001, 233, 4096, [1, 2, 3]⟩ []
      ex_data_delivered rfl rfl (by decide) (by decide) (by decide) (by decide) (by decide)
      (by decide) (by decide) rfl rfl).2.2.1⟩

/-! ## C24: the FIN of the peer -/

/-- C24: in FIN_WAIT_1 (our FIN at 233, SND.NXT = 234) a segment with FIN and ACK
whose SEG.ACK = 234 acknowledges our FIN leaves the connection in CLOSING, not
in CLOSED: the handler sets TIME_WAIT and then CLOSING.  RCV.NXT is
SEG.SEQ + 1 = 2002 and one ACK with that acknowledgment number is sent after
our FIN.  The other cases are as the claim says: with SEG.ACK = 233 the state
is CLOSING as well, a FIN in FIN_WAIT_2 ends in CLOSED and a FIN in ESTABLISHED
in CLOSE_WAIT, each with RCV.NXT = 2002 and one ACK for it. -/
theorem fin_in_fin_wait_1_ends_in_closing :
    (tcp_run ⟨tcp_state_t.ESTABLISHED, ex_established, []⟩ ex_close_inputs).map
      (fun r => (r.tcp_state, r.tcp_data.SND_NXT)) = some (tcp_state_t.FIN_WAIT_1, 234) ∧
    (tcp_run ⟨tcp_state_t.ESTABLISHED, ex_established, []⟩ ex_fin_wait_1_fin_acked_inputs).map
      (fun r => (r.tcp_state, r.tcp_data.SND_UNA, r.tcp_data.SND_NXT, r.tcp_data.RCV_NXT,
        sent_packets r.actions))
      = some (tcp_state_t.CLOSING, 234, 234, 2002,
          [⟨0, 1, 1, 233, 2001, 4096, []⟩, ⟨0, 1, 0, 234, 2002, 4096, []⟩]) ∧
    (tcp_run ⟨tcp_state_t.ESTABLISHED, ex_established, []⟩ ex_fin_wait_1_fin_inputs).map
      (fun r => (r.tcp_state, r.tcp_data.RCV_NXT, sent_packets r.actions))
      = some (tcp_state_t.CLOSING, 2002,
          [⟨0, 1, 1, 233, 2001, 4096, []⟩, ⟨0, 1, 0, 234, 2002, 4096, []⟩]) ∧
    (tcp_run ⟨tcp_state_t.ESTABLISHED, ex_established, []⟩ ex_fin_wait_2_fin_inputs).map
      (fun r => (r.tcp_state, r.tcp_data.RCV_NXT, sent_packets r.actions))
      = some (tcp_state_t.CLOSED, 2002,
          [⟨0, 1, 1, 233, 2001, 4096, []⟩, ⟨0, 1, 0, 234, 2002, 4096, []⟩]) ∧
    (tcp_run ⟨tcp_state_t.ESTABLISHED, ex_established, []⟩ ex_established_fin_inputs).map
      (fun r => (r.tcp_state, r.tcp_data.RCV_NXT, sent_packets r.actions))
      = some (tcp_state_t.CLOSE_WAIT, 2002, [⟨0, 1, 0, 233, 2002, 4096, []⟩]) := by
  refine ⟨?_, ?_, ?_, ?_, ?_⟩
  · rfl
  · rfl
  · rfl
  · rfl
  · rfl

/-! ## C25: the close of the application -/

theorem application_close_eq (tcp_data : tcp_data_t) (now : timespec) :
    (chitcpd_tcp_state_handle_APPLICATION_CLOSE tcp_data now).1.rt_queue
      = tcp_data.rt_queue
        ++ [⟨make_packet 0 1 1 tcp_data.SND_NXT tcp_data.RCV_NXT tcp_data.RCV_WND [], now,
            (0 + tcp_data.SND_NXT) % 2 ^ 32, false⟩] ∧
    (chitcpd_tcp_state_handle_APPLICATION_CLOSE tcp_data now).1.SND_NXT
      = (tcp_data.SND_NXT + 1) % 2 ^ 32 ∧
    (chitcpd_tcp_state_handle_APPLICATION_CLOSE tcp_data now).1.closing = false ∧
    sent_packets (chitcpd_tcp_state_handle_APPLICATION_CLOSE tcp_data now).2
      = [make_packet 0 1 1 tcp_data.SND_NXT tcp_data.RCV_NXT tcp_data.RCV_WND []] := by
  unfold chitcpd_tcp_state_handle_APPLICATION_CLOSE
  dsimp only
  obtain ⟨mt, acts, k, k2, _⟩ := rtqueue_append_shape tcp_data
    (make_packet 0 1 1 tcp_data.SND_NXT tcp_data.RCV_NXT tcp_data.RCV_WND []) tcp_data.SND_NXT now
  rw [k]
  refine ⟨rfl, rfl, rfl, ?_⟩
  rw [sent_packets_cons_send, k2]

/-- The branch `event == APPLICATION_CLOSE` of the handlers of ESTABLISHED and
CLOSE_WAIT, with an empty and with a non-empty send buffer. -/
theorem handle_APPLICATION_CLOSE_effect (env : tcp_env_t) (next : tcp_state_t)
    (tcp_data : tcp_data_t) :
    (circular_buffer_count tcp_data.send = 0 →
      ∃ r, handle_APPLICATION_CLOSE env next tcp_data = some r ∧ r.tcp_state = next ∧
        sent_packets r.actions
          = [make_packet 0 1 1 tcp_data.SND_NXT tcp_data.RCV_NXT tcp_data.RCV_WND []] ∧
        r.tcp_data.rt_queue = tcp_data.rt_queue
          ++ [⟨make_packet 0 1 1 tcp_data.SND_NXT tcp_data.RCV_NXT tcp_data.RCV_WND [], env.now,
              (0 + tcp_data.SND_NXT) % 2 ^ 32, false⟩] ∧
        r.tcp_data.SND_NXT = (tcp_data.SND_NXT + 1) % 2 ^ 32 ∧
        r.tcp_data.closing = false) ∧
    (circular_buffer_count tcp_data.send ≠ 0 →
      ∀ r, handle_APPLICATION_CLOSE env next tcp_data = some r →
        r.tcp_state = next ∧ r.tcp_data.closing = true ∧
        ∀ p ∈ sent_packets r.actions, p.fin = 0) := by
  unfold handle_APPLICATION_CLOSE
  dsimp only
  refine ⟨?_, ?_⟩
  · intro hc
    have hu : chitcp_update_send_buffer env { tcp_data with closing := true }
        = some (chitcpd_tcp_state_handle_APPLICATION_CLOSE
            { tcp_data with closing := true } env.now) := by
      unfold chitcp_update_send_buffer
      dsimp only
      rw [if_pos ⟨hc, rfl⟩]
    rw [hu]
    obtain ⟨k1, k2, k3, k4⟩ := application_close_eq { tcp_data with closing := true } env.now
    exact ⟨_, rfl, rfl, k4, k1, k2, k3⟩
  · intro hc r hr
    cases hu : chitcp_update_send_buffer env { tcp_data with closing := true } with
    | none => rw [hu] at hr; cases hr
    | some x =>
      rw [hu] at hr
      cases hr
      obtain ⟨_, s2⟩ := chitcp_update_send_buffer_sent _ _ _ hu
      have hn : ¬ (circular_buffer_count
          ({ tcp_data with closing := true } : tcp_data_t).send = 0 ∧
          ({ tcp_data with closing := true } : tcp_data_t).closing = true) := fun h => hc h.1
      obtain ⟨c1, c2⟩ := s2 hn
      exact ⟨rfl, c1, fun p hp => (c2 p hp).2.1⟩

/-- C25: APPLICATION_CLOSE in ESTABLISHED (in CLOSE_WAIT) sets the flag `closing`
and runs `chitcp_update_send_buffer`, and the state becomes FIN_WAIT_1
(LAST_ACK).  `chitcp_update_send_buffer` sends a FIN exactly when the send
buffer holds no byte and the flag is set: the segment has FIN and ACK set,
SEQ = SND.NXT and ACK = RCV.NXT, it is appended to the retransmission queue,
SND.NXT increases by one and the flag is cleared, so that no second FIN
follows.  In every other call that returns no segment with FIN is sent and the
flag stays as it is: with a non-empty send buffer the close leaves the flag
set. -/
theorem application_close_effect (env : tcp_env_t) (tcp_data : tcp_data_t) :
    (circular_buffer_count tcp_data.send = 0 →
      ∃ r, chitcpd_tcp_state_handle_ESTABLISHED env tcp_state_t.ESTABLISHED tcp_data
          tcp_event_type_t.APPLICATION_CLOSE = some r ∧
        r.tcp_state = tcp_state_t.FIN_WAIT_1 ∧
        sent_packets r.actions
          = [make_packet 0 1 1 tcp_data.SND_NXT tcp_data.RCV_NXT tcp_data.RCV_WND []] ∧
        r.tcp_data.rt_queue = tcp_data.rt_queue
          ++ [⟨make_packet 0 1 1 tcp_data.SND_NXT tcp_data.RCV_NXT tcp_data.RCV_WND [], env.now,
              (0 + tcp_data.SND_NXT) % 2 ^ 32, false⟩] ∧
        r.tcp_data.SND_NXT = (tcp_data.SND_NXT + 1) % 2 ^ 32 ∧
        r.tcp_data.closing = false) ∧
    (circular_buffer_count tcp_data.send ≠ 0 →
      ∀ r, chitcpd_tcp_state_handle_ESTABLISHED env tcp_state_t.ESTABLISHED tcp_data
          tcp_event_type_t.APPLICATION_CLOSE = some r →
        r.tcp_state = tcp_state_t.FIN_WAIT_1 ∧ r.tcp_data.closing = true ∧
        ∀ p ∈ sent_packets r.actions, p.fin = 0) ∧
    (circular_buffer_count tcp_data.send = 0 →
      ∃ r, chitcpd_tcp_state_handle_CLOSE_WAIT env tcp_state_t.CLOSE_WAIT tcp_data
          tcp_event_type_t.APPLICATION_CLOSE = some r ∧
        r.tcp_state = tcp_state_t.LAST_ACK ∧
        sent_packets r.actions
          = [make_packet 0 1 1 tcp_data.SND_NXT tcp_data.RCV_NXT tcp_data.RCV_WND []] ∧
        r.tcp_data.rt_queue = tcp_data.rt_queue
          ++ [⟨make_packet 0 1 1 tcp_data.SND_NXT tcp_data.RCV_NXT tcp_data.RCV_WND [], env.now,
              (0 + tcp_data.SND_NXT) % 2 ^ 32, false⟩] ∧
        r.tcp_data.SND_NXT = (tcp_data.SND_NXT + 1) % 2 ^ 32 ∧
        r.tcp_data.closing = false) ∧
    (circular_buffer_count tcp_data.send ≠ 0 →
      ∀ r, chitcpd_tcp_state_handle_CLOSE_WAIT env tcp_state_t.CLOSE_WAIT tcp_data
          tcp_event_type_t.APPLICATION_CLOSE = some r →
        r.tcp_state = tcp_state_t.LAST_ACK ∧ r.tcp_data.closing = true ∧
        ∀ p ∈ sent_packets r.actions, p.fin = 0) ∧
    (∀ r, chitcp_update_send_buffer env tcp_data = some r →
      (circular_buffer_count tcp_data.send = 0 ∧ tcp_data.closing = true →
        sent_packets r.2
            = [make_packet 0 1 1 tcp_data.SND_NXT tcp_data.RCV_NXT tcp_data.RCV_WND []] ∧
          r.1.SND_NXT = (tcp_data.SND_NXT + 1) % 2 ^ 32 ∧ r.1.closing = false) ∧
      (¬ (circular_buffer_count tcp_data.send = 0 ∧ tcp_data.closing = true) →
        r.1.closing = tcp_data.closing ∧ ∀ p ∈ sent_packets r.2, p.fin = 0)) := by
  have he : ∀ td, chitcpd_tcp_state_handle_ESTABLISHED env tcp_state_t.ESTABLISHED td
      tcp_event_type_t.APPLICATION_CLOSE
      = handle_APPLICATION_CLOSE env tcp_state_t.FIN_WAIT_1 td := fun _ => rfl
  have hc : ∀ td, chitcpd_tcp_state_handle_CLOSE_WAIT env tcp_state_t.CLOSE_WAIT td
      tcp_event_type_t.APPLICATION_CLOSE
      = handle_APPLICATION_CLOSE env tcp_state_t.LAST_ACK td := fun _ => rfl
  rw [he, hc]
  obtain ⟨a1, a2⟩ := handle_APPLICATION_CLOSE_effect env tcp_state_t.FIN_WAIT_1 tcp_data
  obtain ⟨b1, b2⟩ := handle_APPLICATION_CLOSE_effect env tcp_state_t.LAST_ACK tcp_data
  refine ⟨a1, a2, b1, b2, ?_⟩
  intro r hr
  obtain ⟨s1, s2⟩ := chitcp_update_send_buffer_sent _ _ _ hr
  refine ⟨?_, ?_⟩
  · intro hcl
    have hu : chitcp_update_send_buffer env tcp_data
        = some (chitcpd_tcp_state_handle_APPLICATION_CLOSE tcp_data env.now) := by
      unfold chitcp_update_send_buffer
      dsimp only
      rw [if_pos hcl]
    rw [hu] at hr
    cases hr
    obtain ⟨k1, k2, k3, k4⟩ := application_close_eq tcp_data env.now
    exact ⟨k4, k2, k3⟩
  · intro hn
    obtain ⟨c1, c2⟩ := s2 hn
    exact ⟨c1, fun p hp => (c2 p hp).2.1⟩

theorem application_close_effect_witness :
    (∃ r, chitcpd_tcp_state_handle_ESTABLISHED (ex_env 0) tcp_state_t.ESTABLISHED ex_established
        tcp_event_type_t.APPLICATION_CLOSE = some r ∧
      r.tcp_state = tcp_state_t.FIN_WAIT_1 ∧
      sent_packets r.actions
        = [make_packet 0 1 1 ex_established.SND_NXT ex_established.RCV_NXT
            ex_established.RCV_WND []] ∧
      r.tcp_data.rt_queue = ex_established.rt_queue
        ++ [⟨make_packet 0 1 1 ex_established.SND_NXT ex_established.RCV_NXT
              ex_established.RCV_WND [], (ex_env 0).now,
            (0 + ex_established.SND_NXT) % 2 ^ 32, false⟩] ∧
      r.tcp_data.SND_NXT = (ex_established.SND_NXT + 1) % 2 ^ 32 ∧
      r.tcp_data.closing = false) ∧
    ((chitcpd_tcp_state_handle_ESTABLISHED (ex_env 0) tcp_state_t.ESTABLISHED ex_three_to_send
        tcp_event_type_t.APPLICATION_CLOSE).map
      (fun r => (r.tcp_state, r.tcp_data.closing, sent_packets r.actions))
      = some (tcp_state_t.FIN_WAIT_1, true, [⟨0, 1, 0, 233, 2001, 4096, [1, 2, 3]⟩])) :=
  ⟨(application_close_effect (ex_env 0) ex_established).1 rfl, rfl⟩

/-! ## C26: the persist probe -/

theorem mt_set_timer_mem (mt : multi_timer_t) (id timeout : Nat)
    (callback_fn callback_args : Option Nat) (now : timespec) (hid : id < mt.num_timers)
    (h : timer_armed mt id = false) :
    (⟨id, timespec_normalize { now with tv_nsec := now.tv_nsec + timeout }⟩ : active_timer_t)
      ∈ (mt_set_timer mt id timeout callback_fn callback_args now).1.active_timers := by
  unfold mt_set_timer
  have h1 : ¬ (id ≥ mt.num_timers ∨ id < 0) := by omega
  rw [if_neg h1]
  have h2 : ¬ (mt.active_timers.any (fun elt => elt.timer == id) = true) := by
    unfold timer_armed at h
    rw [h]
    exact Bool.false_ne_true
  rw [if_neg h2]
  show _ ∈ DL_SORT _
  unfold DL_SORT
  rw [(List.perm_insertionSort _ _).mem_iff]
  simp

theorem tcp_set_timer_fields (tcp_data : tcp_data_t) (id : Nat) (now : timespec) :
    (tcp_set_timer tcp_data id now).1
      = { tcp_data with mt := (tcp_set_timer tcp_data id now).1.mt } ∧
    (tcp_set_timer tcp_data id now).2 = [tcp_action_t.set_timer id tcp_data.RTO] :=
  ⟨rfl, rfl⟩

/-- C26, counterexample: three bytes were sent (SND.UNA = 233, SND.NXT = 236), the
peer closed its window without acknowledging them, and the persist timer
expires: the send buffer holds three bytes and no probe is outstanding, yet
TIMEOUT_PST sends nothing, remembers no probe and leaves SND.NXT at 236, as
`circular_buffer_peek_at` reads no byte at SND.NXT. -/
theorem timeout_pst_all_in_flight_sends_nothing :
    circular_buffer_count ex_all_in_flight.send = 3 ∧
    ex_all_in_flight.probe_packet = none ∧
    (ex_all_in_flight.SND_UNA, ex_all_in_flight.SND_NXT, ex_all_in_flight.SND_WND)
      = (233, 236, 0) ∧
    sent_packets (chitcpd_tcp_state_handle_TIMEOUT_PST (ex_env_at 102) ex_all_in_flight).2
      = [] ∧
    (chitcpd_tcp_state_handle_TIMEOUT_PST (ex_env_at 102) ex_all_in_flight).1.probe_packet
      = none ∧
    (chitcpd_tcp_state_handle_TIMEOUT_PST (ex_env_at 102) ex_all_in_flight).1.SND_NXT
      = 236 := by
  refine ⟨?_, ?_, ?_, ?_, ?_, ?_⟩
  · rfl
  · rfl
  · rfl
  · rfl
  · rfl
  · rfl

/-- C26, amended: on TIMEOUT_PST, (1) with a non-empty send buffer, no outstanding
probe and a byte read by `circular_buffer_peek_at` at SND.NXT, exactly one
segment is sent, an ACK with SEQ = old SND.NXT that carries that one byte (the
byte of the send buffer at SND.NXT when the buffer function is the modelled
one); it is remembered as the probe and SND.NXT increases by 1 modulo 2^32,
SND.UNA and the send buffer being unchanged; (2) with a non-empty send buffer,
no outstanding probe and no byte read at SND.NXT nothing is sent and nothing
but the timer changes; (3) with a non-empty send buffer and an outstanding probe
that very packet is sent again and SND.NXT, SND.UNA, the send buffer and the
probe are unchanged; (4) with an empty send buffer nothing is sent; (5) in all
cases `mt_set_timer` is called for PERSIST with RTO, after which the timer is
armed, and when it was not armed before (it has just expired) its deadline is
the time of the call plus RTO. -/
theorem timeout_pst_probe (env : tcp_env_t) (tcp_data : tcp_data_t)
    (hid : PERSIST < tcp_data.mt.num_timers) :
    (0 < circular_buffer_count tcp_data.send → tcp_data.probe_packet = none →
      0 < (env.peek_at tcp_data.send tcp_data.SND_NXT 1).1 →
      sent_packets (chitcpd_tcp_state_handle_TIMEOUT_PST env tcp_data).2
        = [⟨0, 1, 0, tcp_data.SND_NXT % 2 ^ 32, tcp_data.RCV_NXT % 2 ^ 32,
            tcp_data.RCV_WND % 2 ^ 16,
            ((env.peek_at tcp_data.send tcp_data.SND_NXT 1).2 ++ [0]).take 1⟩] ∧
      (((env.peek_at tcp_data.send tcp_data.SND_NXT 1).2 ++ [0]).take 1).length = 1 ∧
      (chitcpd_tcp_state_handle_TIMEOUT_PST env tcp_data).1.probe_packet
        = some ⟨0, 1, 0, tcp_data.SND_NXT % 2 ^ 32, tcp_data.RCV_NXT % 2 ^ 32,
            tcp_data.RCV_WND % 2 ^ 16,
            ((env.peek_at tcp_data.send tcp_data.SND_NXT 1).2 ++ [0]).take 1⟩ ∧
      (chitcpd_tcp_state_handle_TIMEOUT_PST env tcp_data).1.SND_NXT
        = (tcp_data.SND_NXT + 1) % 2 ^ 32 ∧
      (chitcpd_tcp_state_handle_TIMEOUT_PST env tcp_data).1.SND_UNA = tcp_data.SND_UNA ∧
      (chitcpd_tcp_state_handle_TIMEOUT_PST env tcp_data).1.send = tcp_data.send) ∧
    (∀ b, env.peek_at = circular_buffer_peek_at → tcp_data.probe_packet = none →
      tcp_data.send.data[(tcp_data.SND_NXT + 2 ^ 32 - tcp_data.send.seq_initial % 2 ^ 32)
        % 2 ^ 32]? = some b →
      sent_packets (chitcpd_tcp_state_handle_TIMEOUT_PST env tcp_data).2
        = [⟨0, 1, 0, tcp_data.SND_NXT % 2 ^ 32, tcp_data.RCV_NXT % 2 ^ 32,
            tcp_data.RCV_WND % 2 ^ 16, [b]⟩]) ∧
    (0 < circular_buffer_count tcp_data.send → tcp_data.probe_packet = none →
      (env.peek_at tcp_data.send tcp_data.SND_NXT 1).1 ≤ 0 →
      sent_packets (chitcpd_tcp_state_handle_TIMEOUT_PST env tcp_data).2 = [] ∧
      (chitcpd_tcp_state_handle_TIMEOUT_PST env tcp_data).1
        = { tcp_data with mt := (chitcpd_tcp_state_handle_TIMEOUT_PST env tcp_data).1.mt }) ∧
    (∀ probe, 0 < circular_buffer_count tcp_data.send → tcp_data.probe_packet = some probe →
      sent_packets (chitcpd_tcp_state_handle_TIMEOUT_PST env tcp_data).2 = [probe] ∧
      (chitcpd_tcp_state_handle_TIMEOUT_PST env tcp_data).1
        = { tcp_data with mt := (chitcpd_tcp_state_handle_TIMEOUT_PST env tcp_data).1.mt }) ∧
    (circular_buffer_count tcp_data.send ≤ 0 →
      sent_packets (chitcpd_tcp_state_handle_TIMEOUT_PST env tcp_data).2 = [] ∧
      (chitcpd_tcp_state_handle_TIMEOUT_PST env tcp_data).1
        = { tcp_data with mt := (chitcpd_tcp_state_handle_TIMEOUT_PST env tcp_data).1.mt }) ∧
    (tcp_action_t.set_timer PERSIST tcp_data.RTO
        ∈ (chitcpd_tcp_state_handle_TIMEOUT_PST env tcp_data).2 ∧
      timer_armed (chitcpd_tcp_state_handle_TIMEOUT_PST env tcp_data).1.mt PERSIST = true ∧
      (timer_armed tcp_data.mt PERSIST = false →
        (⟨PERSIST, timespec_normalize
            { env.now with tv_nsec := env.now.tv_nsec + tcp_data.RTO }⟩ : active_timer_t)
          ∈ (chitcpd_tcp_state_handle_TIMEOUT_PST env tcp_data).1.mt.active_timers)) := by
  have hnum : ∀ td : tcp_data_t, td.mt = tcp_data.mt → td.RTO = tcp_data.RTO →
      tcp_action_t.set_timer PERSIST tcp_data.RTO ∈ (tcp_set_timer td PERSIST env.now).2 ∧
      timer_armed (tcp_set_timer td PERSIST env.now).1.mt PERSIST = true ∧
      (timer_armed tcp_data.mt PERSIST = false →
        (⟨PERSIST, timespec_normalize
            { env.now with tv_nsec := env.now.tv_nsec + tcp_data.RTO }⟩ : active_timer_t)
          ∈ (tcp_set_timer td PERSIST env.now).1.mt.active_timers) := by
    intro td hmt hrto
    refine ⟨?_, ?_, ?_⟩
    · rw [(tcp_set_timer_fields td PERSIST env.now).2, hrto]
      exact List.mem_singleton.mpr rfl
    · exact timer_armed_tcp_set_timer td PERSIST env.now (by rw [hmt]; exact hid)
    · intro hidle
      unfold tcp_set_timer
      rw [hrto]
      exact mt_set_timer_mem td.mt PERSIST tcp_data.RTO _ _ env.now (by rw [hmt]; exact hid)
        (by rw [hmt]; exact hidle)
  have case1 : 0 < circular_buffer_count tcp_data.send → tcp_data.probe_packet = none →
      0 < (env.peek_at tcp_data.send tcp_data.SND_NXT 1).1 →
      chitcpd_tcp_state_handle_TIMEOUT_PST env tcp_data
        = ((tcp_set_timer { tcp_data with
              SND_NXT := (tcp_data.SND_NXT + 1) % 2 ^ 32,
              probe_packet := some (make_packet 0 1 0 tcp_data.SND_NXT tcp_data.RCV_NXT
                tcp_data.RCV_WND
                (((env.peek_at tcp_data.send tcp_data.SND_NXT 1).2 ++ [0]).take 1)) }
              PERSIST env.now).1,
           [tcp_action_t.send_tcp_packet (make_packet 0 1 0 tcp_data.SND_NXT tcp_data.RCV_NXT
                tcp_data.RCV_WND
                (((env.peek_at tcp_data.send tcp_data.SND_NXT 1).2 ++ [0]).take 1)),
            tcp_action_t.set_timer PERSIST tcp_data.RTO]) := by
    intro h1 h2 h3
    unfold chitcpd_tcp_state_handle_TIMEOUT_PST
    dsimp only
    rw [if_neg (not_le.mpr h1), h2]
    dsimp only
    rw [if_pos h3]
    rfl
  have case2 : 0 < circular_buffer_count tcp_data.send → tcp_data.probe_packet = none →
      (env.peek_at tcp_data.send tcp_data.SND_NXT 1).1 ≤ 0 →
      chitcpd_tcp_state_handle_TIMEOUT_PST env tcp_data
        = ((tcp_set_timer tcp_data PERSIST env.now).1,
           [tcp_action_t.set_timer PERSIST tcp_data.RTO]) := by
    intro h1 h2 h3
    unfold chitcpd_tcp_state_handle_TIMEOUT_PST
    dsimp only
    rw [if_neg (not_le.mpr h1), h2]
    dsimp only
    rw [if_neg (not_lt.mpr h3)]
    rfl
  have case3 : ∀ probe, 0 < circular_buffer_count tcp_data.send →
      tcp_data.probe_packet = some probe →
      chitcpd_tcp_state_handle_TIMEOUT_PST env tcp_data
        = ((tcp_set_timer tcp_data PERSIST env.now).1,
           [tcp_action_t.send_tcp_packet probe, tcp_action_t.set_timer PERSIST tcp_data.RTO]) := by
    intro probe h1 h2
    unfold chitcpd_tcp_state_handle_TIMEOUT_PST
    dsimp only
    rw [if_neg (not_le.mpr h1), h2]
    rfl
  have case4 : circular_buffer_count tcp_data.send ≤ 0 →
      chitcpd_tcp_state_handle_TIMEOUT_PST env tcp_data
        = ((tcp_set_timer tcp_data PERSIST env.now).1,
           [tcp_action_t.set_timer PERSIST tcp_data.RTO]) := by
    intro h1
    unfold chitcpd_tcp_state_handle_TIMEOUT_PST
    dsimp only
    rw [if_pos h1]
    rfl
  have hlen : ∀ l : List Nat, ((l ++ [0]).take 1).length = 1 := by
    intro l
    cases l <;> rfl
  refine ⟨?_, ?_, ?_, ?_, ?_, ?_⟩
  · intro h1 h2 h3
    rw [case1 h1 h2 h3]
    exact ⟨rfl, hlen _, rfl, rfl, rfl, rfl⟩
  · intro b he h2 hb
    have hlt := (List.getElem?_eq_some_iff.mp hb).1
    have hd : (tcp_data.send.data.drop ((tcp_data.SND_NXT + 2 ^ 32
        - tcp_data.send.seq_initial % 2 ^ 32) % 2 ^ 32)).take 1 = [b] := by
      rw [List.take_one_drop_eq_of_lt_length hlt]
      rw [List.getElem?_eq_getElem hlt] at hb
      have hb2 := Option.some.inj hb
      simp only [List.get_eq_getElem, hb2]
    have hp : env.peek_at tcp_data.send tcp_data.SND_NXT 1 = (1, [b]) := by
      rw [he]
      unfold circular_buffer_peek_at
      dsimp only
      rw [hd]
      rfl
    have h1 : 0 < circular_buffer_count tcp_data.send := by
      unfold circular_buffer_count
      have : 0 < tcp_data.send.data.length := by omega
      exact_mod_cast this
    have h3 : 0 < (env.peek_at tcp_data.send tcp_data.SND_NXT 1).1 := by
      rw [hp]
      exact Int.one_pos
    rw [case1 h1 h2 h3, hp]
    rfl
  · intro h1 h2 h3
    rw [case2 h1 h2 h3]
    exact ⟨rfl, rfl⟩
  · intro probe h1 h2
    rw [case3 probe h1 h2]
    exact ⟨rfl, rfl⟩
  · intro h1
    rw [case4 h1]
    exact ⟨rfl, rfl⟩
  · by_cases h1 : circular_buffer_count tcp_data.send ≤ 0
    · rw [case4 h1]
      exact hnum tcp_data rfl rfl
    · have h1 := not_le.mp h1
      cases h2 : tcp_data.probe_packet with
      | some probe =>
        rw [case3 probe h1 h2]
        obtain ⟨-, k2, k3⟩ := hnum tcp_data rfl rfl
        exact ⟨by simp, k2, k3⟩
      | none =>
        by_cases h3 : 0 < (env.peek_at tcp_data.send tcp_data.SND_NXT 1).1
        · rw [case1 h1 h2 h3]
          obtain ⟨-, k2, k3⟩ := hnum { tcp_data with
              SND_NXT := (tcp_data.SND_NXT + 1) % 2 ^ 32,
              probe_packet := some (make_packet 0 1 0 tcp_data.SND_NXT tcp_data.RCV_NXT
                tcp_data.RCV_WND
                (((env.peek_at tcp_data.send tcp_data.SND_NXT 1).2 ++ [0]).take 1)) } rfl rfl
          exact ⟨by simp, k2, k3⟩
        · rw [case2 h1 h2 (not_lt.mp h3)]
          exact hnum tcp_data rfl rfl

/-- C26, witness: the persist timer expires with three unsent bytes and no probe:
the byte 1 at SND.NXT = 233 is sent as the probe. -/
theorem timeout_pst_probe_witness :
    PERSIST < ex_probe_due.mt.num_timers ∧
    sent_packets (chitcpd_tcp_state_handle_TIMEOUT_PST (ex_env_at 102) ex_probe_due).2
      = [⟨0, 1, 0, 233, 2001, 4096, [1]⟩] ∧
    (chitcpd_tcp_state_handle_TIMEOUT_PST (ex_env_at 102) ex_probe_due).1.SND_NXT = 234 ∧
    timer_armed (chitcpd_tcp_state_handle_TIMEOUT_PST (ex_env_at 102) ex_probe_due).1.mt
      PERSIST = true :=
  have h := timeout_pst_probe (ex_env_at 102) ex_probe_due (by decide)
  ⟨by decide, h.2.1 1 rfl rfl rfl, (h.1 (by decide) rfl (by decide)).2.2.2.1, h.2.2.2.2.2.2.1⟩

/-! ## C27: the persist timer after an acknowledgment -/

theorem keeps_persist_trans {a b c : tcp_data_t} (h1 : keeps_persist a b)
    (h2 : keeps_persist b c) : keeps_persist a c :=
  ⟨h2.1.trans h1.1, h2.2.1.trans h1.2.1, h2.2.2.1.trans h1.2.2.1, h2.2.2.2.1.trans h1.2.2.2.1,
    h2.2.2.2.2⟩

theorem tcp_set_timer_persist (tcp_data : tcp_data_t) (now : timespec)
    (h : mt_inv tcp_data.mt) :
    keeps_persist tcp_data (tcp_set_timer tcp_data RETRANSMISSION now).1 := by
  obtain ⟨mt, k1, k2, k3, _, k5⟩ := tcp_set_timer_armed tcp_data RETRANSMISSION now h
  rw [k1]
  exact ⟨rfl, rfl, k5 PERSIST (by decide), k3, k2⟩

theorem tcp_cancel_timer_persist (tcp_data : tcp_data_t) (r : tcp_data_t × List tcp_action_t)
    (h : mt_inv tcp_data.mt) (hc : tcp_cancel_timer tcp_data RETRANSMISSION = some r) :
    keeps_persist tcp_data r.1 := by
  obtain ⟨mt, k1, k2, k3, _, k5⟩ := tcp_cancel_timer_armed tcp_data RETRANSMISSION h
  rw [k1] at hc
  cases hc
  exact ⟨rfl, rfl, k5 PERSIST (by decide), k3, k2⟩

theorem rtqueue_append_persist (tcp_data : tcp_data_t) (packet : tcp_packet_t) (seq : Nat)
    (now : timespec) (h : mt_inv tcp_data.mt) :
    keeps_persist tcp_data (rtqueue_append tcp_data packet seq now).1 := by
  unfold rtqueue_append
  dsimp only
  split_ifs
  · exact tcp_set_timer_persist
      { tcp_data with
        rt_queue := tcp_data.rt_queue
          ++ [⟨packet, now, (TCP_PAYLOAD_LEN packet + seq) % 2 ^ 32, false⟩]
        rtms_timer_on := true } now h
  · exact ⟨rfl, rfl, rfl, rfl, h⟩

theorem rtqueue_pop_timers_persist (tcp_data : tcp_data_t) (now : timespec)
    (r : tcp_data_t × List tcp_action_t) (hmt : mt_inv tcp_data.mt)
    (h : rtqueue_pop_timers tcp_data now = some r) : keeps_persist tcp_data r.1 := by
  unfold rtqueue_pop_timers at h
  by_cases hon : tcp_data.rtms_timer_on = true
  · simp only [hon, if_true] at h
    cases hc : tcp_cancel_timer { tcp_data with rtms_timer_on := false } RETRANSMISSION with
    | none => rw [hc] at h; cases h
    | some x =>
      have kx : keeps_persist tcp_data x.1 := tcp_cancel_timer_persist
        { tcp_data with rtms_timer_on := false } x hmt hc
      obtain ⟨mt, hx⟩ := tcp_cancel_timer_keeps _ _ _ hc
      rw [hc] at h
      dsimp only at h
      have hflag : x.1.rtms_timer_on = false := by rw [hx]
      rw [hflag] at h
      by_cases hl : x.1.rt_queue.length > 0
      · rw [if_pos hl] at h
        simp only [Bool.not_false, if_true, Option.some.injEq] at h
        rw [← h]
        exact keeps_persist_trans kx
          (tcp_set_timer_persist { x.1 with rtms_timer_on := true } now kx.2.2.2.2)
      · rw [if_neg hl] at h
        cases h
        exact kx
  · have hoff : tcp_data.rtms_timer_on = false := by simpa using hon
    simp only [hoff, Bool.false_eq_true, if_false] at h
    by_cases hl : tcp_data.rt_queue.length > 0
    · rw [if_pos hl] at h
      simp only [Bool.not_false, if_true, Option.some.injEq] at h
      rw [← h]
      exact tcp_set_timer_persist { tcp_data with rtms_timer_on := true } now hmt
    · rw [if_neg hl] at h
      cases h
      exact ⟨rfl, rfl, rfl, rfl, hmt⟩

theorem rtqueue_pop_persist (fp : double_ops) (tcp_data : tcp_data_t) (ack_seq : Nat)
    (now : timespec) (r : tcp_data_t × List tcp_action_t) (hmt : mt_inv tcp_data.mt)
    (h : rtqueue_pop fp tcp_data ack_seq now = some r) : keeps_persist tcp_data r.1 := by
  by_cases hq : tcp_data.rt_queue = []
  · rw [rtqueue_pop_empty fp tcp_data ack_seq now hq] at h
    exact tcp_cancel_timer_persist tcp_data r hmt h
  · rw [rtqueue_pop_nonempty fp tcp_data ack_seq now hq] at h
    obtain ⟨a, b, c, d, e, f, g, hs⟩ :=
      rtqueue_pop_loop_shape fp now ack_seq tcp_data.rt_queue tcp_data
    rw [hs] at h
    exact rtqueue_pop_timers_persist
      (with_rtx tcp_data a b c d e f g tcp_data.rtms_timer_on tcp_data.mt) now r hmt h

theorem application_close_persist (tcp_data : tcp_data_t) (now : timespec)
    (h : mt_inv tcp_data.mt) :
    keeps_persist tcp_data (chitcpd_tcp_state_handle_APPLICATION_CLOSE tcp_data now).1 := by
  unfold chitcpd_tcp_state_handle_APPLICATION_CLOSE
  have k := rtqueue_append_persist tcp_data
    (make_packet 0 1 1 tcp_data.SND_NXT tcp_data.RCV_NXT tcp_data.RCV_WND []) tcp_data.SND_NXT
    now h
  exact ⟨k.1, k.2.1, k.2.2.1, k.2.2.2.1, k.2.2.2.2⟩

theorem update_send_buffer_loop_persist (env : tcp_env_t) (fuel : Nat) :
    ∀ (bytes_to_send : Int) (tcp_data : tcp_data_t) (actions : List tcp_action_t)
      (r : tcp_data_t × List tcp_action_t), mt_inv tcp_data.mt →
      update_send_buffer_loop env fuel bytes_to_send tcp_data actions = some r →
      keeps_persist tcp_data r.1 := by
  induction fuel with
  | zero =>
    intro bts td acts r hmt h
    unfold update_send_buffer_loop at h
    split_ifs at h
    cases h
    exact ⟨rfl, rfl, rfl, rfl, hmt⟩
  | succ n ih =>
    intro bts td acts r hmt h
    unfold update_send_buffer_loop at h
    by_cases hb : bts > 0
    · rw [if_pos hb] at h
      dsimp only at h
      by_cases hr : (env.peek_at td.send td.SND_NXT
          (if bts > TCP_MSS then TCP_MSS else bts).toNat).1 > 0
      · rw [if_pos hr] at h
        have k := rtqueue_append_persist td
          (make_packet 0 1 0 td.SND_NXT td.RCV_NXT td.RCV_WND
            (((env.peek_at td.send td.SND_NXT (if bts > TCP_MSS then TCP_MSS else bts).toNat).2
              ++ List.replicate (if bts > TCP_MSS then TCP_MSS else bts).toNat 0).take
                (if bts > TCP_MSS then TCP_MSS else bts).toNat))
          td.SND_NXT env.now hmt
        have k1 := ih _ _ _ _ (by exact k.2.2.2.2) h
        exact keeps_persist_trans ⟨k.1, k.2.1, k.2.2.1, k.2.2.2.1, k.2.2.2.2⟩ k1
      · rw [if_neg hr] at h
        exact ih _ _ _ _ hmt h
    · rw [if_neg hb] at h
      cases h
      exact ⟨rfl, rfl, rfl, rfl, hmt⟩

theorem chitcp_update_send_buffer_persist (env : tcp_env_t) (tcp_data : tcp_data_t)
    (r : tcp_data_t × List tcp_action_t) (hmt : mt_inv tcp_data.mt)
    (h : chitcp_update_send_buffer env tcp_data = some r) : keeps_persist tcp_data r.1 := by
  unfold chitcp_update_send_buffer at h
  dsimp only at h
  split_ifs at h
  · cases h
    exact application_close_persist tcp_data env.now hmt
  · cases h
    exact ⟨rfl, rfl, rfl, rfl, hmt⟩
  · exact update_send_buffer_loop_persist env _ _ _ _ _ hmt h
  · exact update_send_buffer_loop_persist env _ _ _ _ _ hmt h

theorem packet_arrival_fin_mt (tcp_state current : tcp_state_t) (tcp_data : tcp_data_t)
    (packet : tcp_packet_t) (actions : List tcp_action_t) :
    (packet_arrival_fin tcp_state current tcp_data packet actions).tcp_data.mt = tcp_data.mt ∧
    (packet_arrival_fin tcp_state current tcp_data packet actions).tcp_data.probe_packet
      = tcp_data.probe_packet ∧
    (packet_arrival_fin tcp_state current tcp_data packet actions).tcp_data.SND_WND
      = tcp_data.SND_WND := by
  unfold packet_arrival_fin
  dsimp only
  split_ifs <;> exact ⟨rfl, rfl, rfl⟩

theorem packet_arrival_text_mt (tcp_state current : tcp_state_t) (tcp_data : tcp_data_t)
    (packet : tcp_packet_t) (actions : List tcp_action_t) :
    (packet_arrival_text tcp_state current tcp_data packet actions).tcp_data.mt = tcp_data.mt ∧
    (packet_arrival_text tcp_state current tcp_data packet actions).tcp_data.probe_packet
      = tcp_data.probe_packet ∧
    (packet_arrival_text tcp_state current tcp_data packet actions).tcp_data.SND_WND
      = tcp_data.SND_WND := by
  unfold packet_arrival_text
  dsimp only
  split_ifs
  · exact packet_arrival_fin_mt _ _ _ _ _
  · exact packet_arrival_fin_mt _ _ _ _ _
  · exact ⟨rfl, rfl, rfl⟩

/-- What the handling of the PERSIST timer in the fifth step does when the timers
are in order: it returns; with SEG.WND = 0 the timer is armed afterwards and the
probe is kept; with SEG.WND > 0 and SND.WND = 0 the timer is not armed
afterwards and no probe is remembered; otherwise nothing changes. -/
theorem packet_arrival_persist_effect (env : tcp_env_t) (tcp_data : tcp_data_t)
    (packet : tcp_packet_t) (hmt : mt_inv tcp_data.mt) (hid : PERSIST < tcp_data.mt.num_timers) :
    ∃ r, packet_arrival_persist env tcp_data packet = some r ∧ mt_inv r.1.mt ∧
      (packet.win = 0 → timer_armed r.1.mt PERSIST = true ∧
        r.1.probe_packet = tcp_data.probe_packet ∧
        tcp_action_t.set_timer PERSIST tcp_data.RTO ∈ r.2) ∧
      (packet.win > 0 → tcp_data.SND_WND = 0 → timer_armed r.1.mt PERSIST = false ∧
        r.1.probe_packet = none ∧ tcp_action_t.cancel_timer PERSIST ∈ r.2) ∧
      (packet.win > 0 → tcp_data.SND_WND ≠ 0 → r = (tcp_data, [])) := by
  unfold packet_arrival_persist
  dsimp only
  by_cases hw : packet.win = 0
  · rw [if_pos hw]
    have hpos : ¬ (packet.win > 0) := by omega
    by_cases hact : (match mt_get_timer_by_id tcp_data.mt PERSIST with
        | none => false
        | some t => t.active) = true
    · rw [if_pos hact]
      obtain ⟨mt, k1, k2, k3, k4, _⟩ := tcp_cancel_timer_armed tcp_data PERSIST hmt
      rw [k1]
      dsimp only
      obtain ⟨mt2, j1, j2, j3, j4, _⟩ := tcp_set_timer_armed
        ({ tcp_data with mt := mt } : tcp_data_t) PERSIST env.now k2
      rw [j1]
      refine ⟨_, rfl, j2, fun _ => ⟨j4 (by rw [k3]; exact hid), rfl, by simp⟩,
        fun h => absurd h hpos, fun h => absurd h hpos⟩
    · rw [if_neg hact]
      dsimp only
      obtain ⟨mt2, j1, j2, j3, j4, _⟩ := tcp_set_timer_armed tcp_data PERSIST env.now hmt
      rw [j1]
      refine ⟨_, rfl, j2, fun _ => ⟨j4 hid, rfl, by simp⟩,
        fun h => absurd h hpos, fun h => absurd h hpos⟩
  · rw [if_neg hw]
    by_cases h2 : packet.win > 0 ∧ tcp_data.SND_WND = 0
    · rw [if_pos h2]
      obtain ⟨mt, k1, k2, k3, k4, _⟩ := tcp_cancel_timer_armed tcp_data PERSIST hmt
      rw [k1]
      dsimp only
      cases hp : tcp_data.probe_packet with
      | none =>
        refine ⟨_, rfl, k2, fun h => absurd h hw, fun _ _ => ⟨k4, rfl, by simp⟩,
          fun _ h => absurd h2.2 h⟩
      | some p =>
        refine ⟨_, rfl, k2, fun h => absurd h hw, fun _ _ => ⟨k4, rfl, by simp⟩,
          fun _ h => absurd h2.2 h⟩
    · rw [if_neg h2]
      refine ⟨_, rfl, hmt, fun h => absurd h hw, fun h3 h4 => absurd ⟨h3, h4⟩ h2, fun _ _ => rfl⟩

theorem mt_inv_ex_probe_acked : mt_inv ex_probe_acked.mt := by
  have e : ex_probe_acked.mt
      = ⟨2, [⟨0, false, 0, some rtx_callback_fn, some RETRANSMISSION,
              [82, 69, 84, 82, 65, 78, 83, 77, 73, 83, 83, 73, 79, 78]⟩,
             ⟨1, true, 1, some pst_callback_fn, some PERSIST, [80, 69, 82, 83, 73, 83, 84]⟩],
          [⟨1, ⟨102, 600000000⟩⟩], true⟩ := rfl
  rw [e]
  refine ⟨rfl, rfl, by decide, ?_, ?_, ?_⟩
  · intro id t ht
    rcases id with _ | _ | id
    · cases ht
      exact ⟨(fun h => by cases h), fun h => by cases h⟩
    · cases ht
      exact ⟨fun _ => rfl, fun _ => rfl⟩
    · cases ht
  · intro elt helt
    rw [List.mem_singleton.mp helt]
    decide
  · exact List.pairwise_singleton _ _

/-- C27, counterexample: in ESTABLISHED with an empty send buffer and the PERSIST
timer idle, a segment with SEG.ACK = SND.UNA = 233 that advertises a window of
0 is accepted, and the PERSIST timer is armed afterwards, for the time of the
call plus RTO, although the send buffer holds no data. -/
theorem zero_window_arms_persist_with_empty_send_buffer :
    circular_buffer_count ex_zero_window_idle.send = 0 ∧
    timer_armed ex_zero_window_idle.mt PERSIST = false ∧
    chitcpd_tcp_state_handle_PACKET_ARRIVAL (ex_env 0) tcp_state_t.ESTABLISHED
      ex_zero_window_idle = some ex_zero_window_armed ∧
    ex_zero_window_armed.tcp_state = tcp_state_t.ESTABLISHED ∧
    ex_zero_window_armed.tcp_data.SND_WND = 0 ∧
    circular_buffer_count ex_zero_window_armed.tcp_data.send = 0 ∧
    timer_armed ex_zero_window_armed.tcp_data.mt PERSIST = true ∧
    ex_zero_window_armed.tcp_data.mt.active_timers = [⟨PERSIST, ⟨100, 600000000⟩⟩] := by
  refine ⟨?_, ?_, ?_, ?_, ?_, ?_, ?_, ?_⟩
  · rfl
  · rfl
  · rfl
  · rfl
  · rfl
  · rfl
  · rfl
  · rfl

/-- C27, amended: in the ESTABLISHED-family states, with the timers in order, when
the handler returns from an acceptable segment with ACK set, SYN clear and
SND.UNA <= SEG.ACK <= SND.NXT, the new SND.WND is SEG.WND and (1) with
SEG.WND = 0 the PERSIST timer is armed, whatever the send buffer holds, and the
probe remembered is kept; (2) with SEG.WND > 0 after SND.WND was 0 the PERSIST
timer is not armed and no probe is remembered; (3) with SEG.WND > 0 after
SND.WND was not 0 the PERSIST timer is armed exactly when it was before, and
the probe remembered is kept. -/
theorem persist_timer_after_ack (env : tcp_env_t) (tcp_state : tcp_state_t)
    (tcp_data : tcp_data_t) (packet : tcp_packet_t) (rest : List tcp_packet_t)
    (r : tcp_result_t)
    (hf : established_family tcp_state) (hmt : mt_inv tcp_data.mt)
    (hid : PERSIST < tcp_data.mt.num_timers)
    (hp : tcp_data.pending_packets = packet :: rest)
    (hacc : seq_check tcp_data packet = seq_check_t.acceptable)
    (hsyn : packet.syn ≠ 1) (hack : packet.ack ≠ 0)
    (h1 : tcp_data.SND_UNA ≤ packet.ack_seq) (h2 : packet.ack_seq ≤ tcp_data.SND_NXT)
    (h : chitcpd_tcp_state_handle_PACKET_ARRIVAL env tcp_state tcp_data = some r) :
    r.tcp_data.SND_WND = packet.win ∧
    (packet.win = 0 → timer_armed r.tcp_data.mt PERSIST = true ∧
      r.tcp_data.probe_packet = tcp_data.probe_packet) ∧
    (packet.win > 0 → tcp_data.SND_WND = 0 → timer_armed r.tcp_data.mt PERSIST = false ∧
      r.tcp_data.probe_packet = none) ∧
    (packet.win > 0 → tcp_data.SND_WND ≠ 0 →
      timer_armed r.tcp_data.mt PERSIST = timer_armed tcp_data.mt PERSIST ∧
      r.tcp_data.probe_packet = tcp_data.probe_packet) := by
  have hne : tcp_state ≠ tcp_state_t.CLOSED ∧ tcp_state ≠ tcp_state_t.LISTEN
      ∧ tcp_state ≠ tcp_state_t.SYN_SENT := by
    rcases hf with e | e | e | e | e | e | e <;> rw [e] <;> decide
  rw [packet_arrival_of_synchronized env _ tcp_data packet rest hne.1 hne.2.1 hne.2.2 hp] at h
  have hsc : seq_check { tcp_data with pending_packets := rest } packet
      = seq_check tcp_data packet := rfl
  unfold packet_arrival_synchronized at h
  rw [hsc, hacc] at h
  dsimp only at h
  rw [if_neg hsyn, if_neg hack] at h
  obtain ⟨popped, persist, pumped, k1, k2, k3, k4⟩ :=
    packet_arrival_ack_accepted env tcp_state
      { tcp_data with pending_packets := rest } packet r hf h1 h2 h
  have e1 : keeps_persist tcp_data popped.1 :=
    rtqueue_pop_persist env.fp { tcp_data with pending_packets := rest } packet.ack_seq
      env.now popped hmt k1
  obtain ⟨p2, j1, j2, j3, j4, j5⟩ := packet_arrival_persist_effect env popped.1 packet
    e1.2.2.2.2 (by rw [e1.2.2.2.1]; exact hid)
  rw [k2] at j1
  cases j1
  have e3 : keeps_persist
      ({ persist.1 with SND_UNA := packet.ack_seq, SND_WND := packet.win } : tcp_data_t)
      pumped.1 :=
    chitcp_update_send_buffer_persist env _ pumped j2 k3
  obtain ⟨t1, t2, t3⟩ := packet_arrival_text_mt tcp_state
    (packet_arrival_ack_state tcp_state pumped.1 packet) pumped.1 packet
    (popped.2 ++ persist.2 ++ pumped.2)
  rw [← k4] at t1 t2 t3
  have harm : timer_armed r.tcp_data.mt PERSIST = timer_armed persist.1.mt PERSIST := by
    rw [t1, e3.2.2.1]
  have hprobe : r.tcp_data.probe_packet = persist.1.probe_packet := by
    rw [t2, e3.2.1]
  refine ⟨?_, ?_, ?_, ?_⟩
  · rw [t3, e3.1]
  · intro hw
    obtain ⟨a1, a2, _⟩ := j3 hw
    rw [harm, hprobe, a1, a2, e1.2.1]
    exact ⟨rfl, rfl⟩
  · intro hw h0
    obtain ⟨a1, a2, _⟩ := j4 hw (by rw [e1.1]; exact h0)
    rw [harm, hprobe, a1, a2]
    exact ⟨rfl, rfl⟩
  · intro hw h0
    have a := j5 hw (by rw [e1.1]; exact h0)
    rw [harm, hprobe, a]
    exact ⟨e1.2.2.1, e1.2.1⟩

/-- C27, witness: the probe with the byte at 233 is outstanding and SND.WND = 0; a
segment with SEG.ACK = 234 and a window of 10 arrives: the handler returns, the
PERSIST timer is no longer armed and no probe is remembered. -/
theorem persist_timer_after_ack_witness :
    chitcpd_tcp_state_handle_PACKET_ARRIVAL (ex_env_at 103) tcp_state_t.ESTABLISHED
      ex_probe_acked = some ex_probe_window_opened ∧
    timer_armed ex_probe_acked.mt PERSIST = true ∧
    ex_probe_acked.probe_packet = some ⟨0, 1, 0, 233, 2001, 4096, [1]⟩ ∧
    ex_probe_window_opened.tcp_data.SND_WND = 10 ∧
    timer_armed ex_probe_window_opened.tcp_data.mt PERSIST = false ∧
    ex_probe_window_opened.tcp_data.probe_packet = none :=
  have h := persist_timer_after_ack (ex_env_at 103) tcp_state_t.ESTABLISHED ex_probe_acked
    ⟨0, 1, 0, 2001, 234, 10, []⟩ [] ex_probe_window_opened (Or.inl rfl) mt_inv_ex_probe_acked
    (by decide) rfl rfl (by decide) (by decide) (by decide) (by decide) rfl
  ⟨rfl, rfl, rfl, h.1, (h.2.2.1 (by decide) rfl).1, (h.2.2.1 (by decide) rfl).2⟩

/-! ## C37: `rtqueue_pop` with -1 -/

theorem update_RTO_rt_queue (fp : double_ops) (tcp_data : tcp_data_t) (recv_ts sent_ts : timespec)
    (q : List retransmission_queue_t) :
    update_RTO fp { tcp_data with rt_queue := q } recv_ts sent_ts
      = { update_RTO fp tcp_data recv_ts sent_ts with rt_queue := q } := by
  unfold update_RTO
  dsimp only
  split_ifs <;> rfl

theorem rtqueue_pop_one_rt_queue (fp : double_ops) (now : timespec) (tcp_data : tcp_data_t)
    (elt : retransmission_queue_t) (q : List retransmission_queue_t) :
    rtqueue_pop_one fp now { tcp_data with rt_queue := q } elt
      = { rtqueue_pop_one fp now tcp_data elt with rt_queue := q } := by
  unfold rtqueue_pop_one
  dsimp only
  rw [update_RTO_rt_queue]

theorem foldl_rtqueue_pop_one_rt_queue (fp : double_ops) (now : timespec)
    (l : List retransmission_queue_t) :
    ∀ (tcp_data : tcp_data_t) (q : List retransmission_queue_t),
      l.foldl (rtqueue_pop_one fp now) { tcp_data with rt_queue := q }
        = { l.foldl (rtqueue_pop_one fp now) tcp_data with rt_queue := q } := by
  induction l with
  | nil => intro tcp_data q; rfl
  | cons elt rest ih =>
    intro tcp_data q
    rw [List.foldl_cons, List.foldl_cons, rtqueue_pop_one_rt_queue, ih]

/-- The loop of `rtqueue_pop` with the acknowledgment 2^32 - 1 over a queue of
32-bit values removes every element. -/
theorem rtqueue_pop_loop_all (fp : double_ops) (now : timespec)
    (q : List retransmission_queue_t) :
    ∀ (tcp_data : tcp_data_t), (∀ elt ∈ q, elt.expected_ack_seq < 2 ^ 32) → q ≠ [] →
      rtqueue_pop_loop fp now (2 ^ 32 - 1) q tcp_data
        = { q.foldl (rtqueue_pop_one fp now) tcp_data with rt_queue := [] } := by
  induction q with
  | nil => intro tcp_data _ hne; exact absurd rfl hne
  | cons elt rest ih =>
    intro tcp_data h32 _
    have he : elt.expected_ack_seq ≤ 2 ^ 32 - 1 := by
      have := h32 elt (List.mem_cons_self _ _)
      omega
    unfold rtqueue_pop_loop
    rw [if_pos he]
    cases rest with
    | nil =>
      unfold rtqueue_pop_loop
      rfl
    | cons e2 r2 =>
      show rtqueue_pop_loop fp now (2 ^ 32 - 1) (e2 :: r2)
          ({ rtqueue_pop_one fp now tcp_data elt with rt_queue := e2 :: r2 } : tcp_data_t)
        = ({ List.foldl (rtqueue_pop_one fp now) (rtqueue_pop_one fp now tcp_data elt) (e2 :: r2)
              with rt_queue := [] } : tcp_data_t)
      rw [ih _ (fun x hx => h32 x (List.mem_cons_of_mem _ hx)) (List.cons_ne_nil _ _),
        foldl_rtqueue_pop_one_rt_queue]

/-- C37: the argument -1 of the handshake call sites is 2^32 - 1 as a `tcp_seq`,
for which the test `ack_seq < 0` is false.  With the retransmission queue and
its timer in order and a non-empty queue of 32-bit values,
`rtqueue_pop` with 2^32 - 1 returns; it has removed every element of the queue,
has run `update_RTO` (and read the bytes off the send buffer) once for each of
them, in the order of the queue, has cleared the flag `rtms_timer_on` and has
cancelled the RETRANSMISSION timer, which is not armed afterwards, the other
timers being as they were.  So the branch SYN_RCVD of the arrival handler
leaves an empty queue behind. -/
theorem rtqueue_pop_minus_one (fp : double_ops) (tcp_data : tcp_data_t) (now : timespec)
    (h : rtx_flag_inv tcp_data) (hq : tcp_data.rt_queue ≠ [])
    (h32 : ∀ elt ∈ tcp_data.rt_queue, elt.expected_ack_seq < 2 ^ 32) :
    ((-1 : Int) % 2 ^ 32).toNat = 2 ^ 32 - 1 ∧ ¬ (2 ^ 32 - 1 < 0) ∧
    (∃ mt, rtqueue_pop fp tcp_data (2 ^ 32 - 1) now
        = some ({ tcp_data.rt_queue.foldl (rtqueue_pop_one fp now) tcp_data with
                  rt_queue := [], rtms_timer_on := false, mt := mt },
                [tcp_action_t.cancel_timer RETRANSMISSION]) ∧
      timer_armed mt RETRANSMISSION = false ∧
      ∀ id, id ≠ RETRANSMISSION → timer_armed mt id = timer_armed tcp_data.mt id) ∧
    (∀ env packet r, tcp_data.SND_UNA ≤ packet.ack_seq → packet.ack_seq ≤ tcp_data.SND_NXT →
      packet_arrival_ack env tcp_state_t.SYN_RCVD tcp_data packet = some r →
      r.tcp_state = tcp_state_t.ESTABLISHED ∧ r.tcp_data.rt_queue = [] ∧
      r.tcp_data.rtms_timer_on = false ∧
      timer_armed r.tcp_data.mt RETRANSMISSION = false) := by
  have main : ∀ (fp : double_ops) (now : timespec) (td : tcp_data_t),
      rtx_flag_inv td → td.rt_queue ≠ [] →
      (∀ elt ∈ td.rt_queue, elt.expected_ack_seq < 2 ^ 32) →
      ∃ mt, rtqueue_pop fp td (2 ^ 32 - 1) now
        = some ({ td.rt_queue.foldl (rtqueue_pop_one fp now) td with
                  rt_queue := [], rtms_timer_on := false, mt := mt },
                [tcp_action_t.cancel_timer RETRANSMISSION]) ∧
      timer_armed mt RETRANSMISSION = false ∧
      ∀ id, id ≠ RETRANSMISSION → timer_armed mt id = timer_armed td.mt id := by
    intro fp now td hinv hne hb
    obtain ⟨hmt, hid, hfq, haf⟩ := hinv
    have hon : td.rtms_timer_on = true := hfq.mpr hne
    rw [rtqueue_pop_nonempty fp td (2 ^ 32 - 1) now hne]
    obtain ⟨a, b, c, d, e, f, g, hs⟩ := rtqueue_pop_loop_shape fp now (2 ^ 32 - 1) td.rt_queue td
    have hall := rtqueue_pop_loop_all fp now td.rt_queue td hb hne
    have hflag : (rtqueue_pop_loop fp now (2 ^ 32 - 1) td.rt_queue td).rtms_timer_on = true := by
      rw [hs]
      exact hon
    have hmt2 : (rtqueue_pop_loop fp now (2 ^ 32 - 1) td.rt_queue td).mt = td.mt := by
      rw [hs]
      rfl
    have hq2 : (rtqueue_pop_loop fp now (2 ^ 32 - 1) td.rt_queue td).rt_queue = [] := by
      rw [hall]
    obtain ⟨mt, k1, k2, k3, k4, k5⟩ := tcp_cancel_timer_armed
      ({ rtqueue_pop_loop fp now (2 ^ 32 - 1) td.rt_queue td with rtms_timer_on := false }
        : tcp_data_t) RETRANSMISSION (by rw [show _ = td.mt from hmt2]; exact hmt)
    refine ⟨mt, ?_, k4, fun id hid2 => (k5 id hid2).trans (by rw [show _ = td.mt from hmt2])⟩
    unfold rtqueue_pop_timers
    rw [if_pos hflag, k1]
    dsimp only
    have c2 : ¬ ((rtqueue_pop_loop fp now (2 ^ 32 - 1) td.rt_queue td).rt_queue.length > 0) := by
      rw [hq2]
      decide
    rw [if_neg c2, hall]
  refine ⟨by decide, by decide, main fp now tcp_data h hq h32, ?_⟩
  intro env packet r h1 h2 hr
  unfold packet_arrival_ack at hr
  have c1 : tcp_state_t.SYN_RCVD = tcp_state_t.SYN_RCVD ∧ tcp_data.SND_UNA ≤ packet.ack_seq
      ∧ packet.ack_seq ≤ tcp_data.SND_NXT := ⟨rfl, h1, h2⟩
  rw [if_pos c1] at hr
  dsimp only at hr
  obtain ⟨mt, k1, k2, _⟩ := main env.fp env.now { tcp_data with first_RTT := true } h hq h32
  rw [k1] at hr
  dsimp only at hr
  cases hr
  exact ⟨rfl, rfl, rfl, k2⟩

/-- C37, witness: the queue of `ex_two_queued` holds two segments; `rtqueue_pop`
with 2^32 - 1 at 102 s removes both. -/
theorem rtqueue_pop_minus_one_witness :
    ex_two_queued.rt_queue.length = 2 ∧
    ∃ r, rtqueue_pop exact_double_ops ex_two_queued (2 ^ 32 - 1) ⟨102, 0⟩ = some r ∧
      r.1.rt_queue = [] ∧ r.1.rtms_timer_on = false ∧
      timer_armed r.1.mt RETRANSMISSION = false :=
  ⟨rfl,
    match (rtqueue_pop_minus_one exact_double_ops ex_two_queued ⟨102, 0⟩
      (rtx_reachable_inv _
        (rtx_reachable.append _ _ _ _
          (rtx_reachable.timer_expires ex_one_queued ex_timer_expired.mt
            (rtx_reachable.append _ _ _ _ (rtx_reachable.init ex_zero_data)) rfl)))
      (by decide) (by decide)).2.2.1 with
    | ⟨_, h1, h2, _⟩ => ⟨_, h1, rfl, rfl, h2⟩⟩

/-! ## C38: data that arrive after the close -/

/-- The segments that the loop of `chitcp_update_send_buffer` sends carry RCV.NXT
as their acknowledgment number. -/
theorem update_send_buffer_loop_ack_seq (env : tcp_env_t) (fuel : Nat) :
    ∀ (bytes_to_send : Int) (tcp_data : tcp_data_t) (actions : List tcp_action_t)
      (r : tcp_data_t × List tcp_action_t),
      update_send_buffer_loop env fuel bytes_to_send tcp_data actions = some r →
      ∀ p ∈ sent_packets r.2,
        p ∈ sent_packets actions ∨ p.ack_seq = tcp_data.RCV_NXT % 2 ^ 32 := by
  induction fuel with
  | zero =>
    intro bts td acts r h
    unfold update_send_buffer_loop at h
    split_ifs at h
    cases h
    exact fun p hp => Or.inl hp
  | succ n ih =>
    intro bts td acts r h
    unfold update_send_buffer_loop at h
    by_cases hb : bts > 0
    · rw [if_pos hb] at h
      dsimp only at h
      by_cases hr : (env.peek_at td.send td.SND_NXT
          (if bts > TCP_MSS then TCP_MSS else bts).toNat).1 > 0
      · rw [if_pos hr] at h
        intro p hp
        have hrecv := rtqueue_append_recv td
          (make_packet 0 1 0 td.SND_NXT td.RCV_NXT td.RCV_WND
            (((env.peek_at td.send td.SND_NXT
                (if bts > TCP_MSS then TCP_MSS else bts).toNat).2
              ++ List.replicate (if bts > TCP_MSS then TCP_MSS else bts).toNat 0).take
                (if bts > TCP_MSS then TCP_MSS else bts).toNat))
          td.SND_NXT env.now
        rcases ih _ _ _ _ h p hp with e | e
        · rw [sent_packets_append] at e
          rcases List.mem_append.mp e with e1 | e1
          · exact Or.inl e1
          · right
            rw [sent_packets_cons_send] at e1
            have hq := (rtqueue_append_keeps td
              (make_packet 0 1 0 td.SND_NXT td.RCV_NXT td.RCV_WND
                (((env.peek_at td.send td.SND_NXT
                    (if bts > TCP_MSS then TCP_MSS else bts).toNat).2
                  ++ List.replicate (if bts > TCP_MSS then TCP_MSS else bts).toNat 0).take
                    (if bts > TCP_MSS then TCP_MSS else bts).toNat))
              td.SND_NXT env.now).2
            rw [hq] at e1
            have hpe := List.mem_singleton.mp e1
            rw [hpe]
            rfl
        · right
          rw [e]
          exact congrArg (fun x => x % 2 ^ 32) hrecv.2.2.1
      · rw [if_neg hr] at h
        exact ih _ _ _ _ h
    · rw [if_neg hb] at h
      cases h
      exact fun p hp => Or.inl hp

theorem chitcp_update_send_buffer_ack_seq (env : tcp_env_t) (tcp_data : tcp_data_t)
    (r : tcp_data_t × List tcp_action_t) (h : chitcp_update_send_buffer env tcp_data = some r) :
    ∀ p ∈ sent_packets r.2, p.ack_seq = tcp_data.RCV_NXT % 2 ^ 32 := by
  unfold chitcp_update_send_buffer at h
  dsimp only at h
  split_ifs at h
  · cases h
    intro p hp
    rw [(application_close_eq tcp_data env.now).2.2.2] at hp
    rw [List.mem_singleton.mp hp]
    rfl
  · cases h
    intro p hp
    cases hp
  · intro p hp
    rcases update_send_buffer_loop_ack_seq env _ _ _ _ _ h p hp with e | e
    · cases e
    · exact e
  · intro p hp
    rcases update_send_buffer_loop_ack_seq env _ _ _ _ _ h p hp with e | e
    · cases e
    · exact e

/-- The seventh and the eighth step in FIN_WAIT_1 and FIN_WAIT_2 for a segment
without FIN: nothing is done. -/
theorem packet_arrival_text_after_close (tcp_state current : tcp_state_t)
    (tcp_data : tcp_data_t) (packet : tcp_packet_t) (actions : List tcp_action_t)
    (hs : tcp_state = tcp_state_t.FIN_WAIT_1 ∨ tcp_state = tcp_state_t.FIN_WAIT_2)
    (hfin : packet.fin ≠ 1) :
    packet_arrival_text tcp_state current tcp_data packet actions
      = ⟨current, tcp_data, actions⟩ := by
  have c1 : tcp_state = tcp_state_t.ESTABLISHED ∨ tcp_state = tcp_state_t.FIN_WAIT_1
      ∨ tcp_state = tcp_state_t.FIN_WAIT_2 := Or.inr hs
  have c2 : ¬ (packet.fin ≠ 1 ∧ tcp_state = tcp_state_t.ESTABLISHED
      ∧ TCP_PAYLOAD_LEN packet > 0) := by
    rintro ⟨_, e, _⟩
    rcases hs with k | k <;> rw [k] at e <;> cases e
  have c3 : ¬ (tcp_state = tcp_state_t.CLOSED ∨ tcp_state = tcp_state_t.LISTEN
      ∨ tcp_state = tcp_state_t.SYN_SENT) := by
    rcases hs with k | k <;> rw [k] <;> decide
  have c4 : ¬ (packet.fin = 1) := hfin
  unfold packet_arrival_text
  rw [if_pos c1, if_neg c2]
  unfold packet_arrival_fin
  rw [if_neg c3, if_neg c4]

/-- C38: in FIN_WAIT_1 and in FIN_WAIT_2, when the arrival handler returns from an
acceptable segment with data and without FIN, the receive buffer, RCV.NXT and
RCV.WND are what they were (and so are the out-of-order list and the rest of
the pending packets); every segment that the handler sent has the old RCV.NXT
as its acknowledgment number, so that none acknowledges the data; and unless
SEG.ACK is above SND.NXT, in which case the one ACK of that branch is sent, no
segment without data is sent at all: what is sent carries data or FIN. -/
theorem data_after_close_not_delivered (env : tcp_env_t) (tcp_state : tcp_state_t)
    (tcp_data : tcp_data_t) (packet : tcp_packet_t) (rest : List tcp_packet_t)
    (r : tcp_result_t)
    (hs : tcp_state = tcp_state_t.FIN_WAIT_1 ∨ tcp_state = tcp_state_t.FIN_WAIT_2)
    (hp : tcp_data.pending_packets = packet :: rest)
    (hacc : seq_check tcp_data packet = seq_check_t.acceptable)
    (hfin : packet.fin ≠ 1) (_hn : TCP_PAYLOAD_LEN packet > 0)
    (h : chitcpd_tcp_state_handle_PACKET_ARRIVAL env tcp_state tcp_data = some r) :
    r.tcp_data.recv = tcp_data.recv ∧
    r.tcp_data.RCV_NXT = tcp_data.RCV_NXT ∧
    r.tcp_data.RCV_WND = tcp_data.RCV_WND ∧
    r.tcp_data.list = tcp_data.list ∧
    r.tcp_data.pending_packets = rest ∧
    (∀ p ∈ sent_packets r.actions, p.ack_seq = tcp_data.RCV_NXT % 2 ^ 32) ∧
    (packet.ack_seq ≤ tcp_data.SND_NXT →
      ∀ p ∈ sent_packets r.actions, TCP_PAYLOAD_LEN p > 0 ∨ p.fin = 1) ∧
    (packet.syn ≠ 1 → packet.ack ≠ 0 → packet.ack_seq > tcp_data.SND_NXT →
      sent_packets r.actions = [ack_packet tcp_data]) := by
  have hne : tcp_state ≠ tcp_state_t.CLOSED ∧ tcp_state ≠ tcp_state_t.LISTEN
      ∧ tcp_state ≠ tcp_state_t.SYN_SENT ∧ tcp_state ≠ tcp_state_t.SYN_RCVD := by
    rcases hs with e | e <;> rw [e] <;> decide
  have hf : established_family tcp_state := by
    rcases hs with e | e
    · exact Or.inr (Or.inl e)
    · exact Or.inr (Or.inr (Or.inl e))
  rw [packet_arrival_of_synchronized env _ tcp_data packet rest hne.1 hne.2.1 hne.2.2.1 hp] at h
  have hsc : seq_check { tcp_data with pending_packets := rest } packet
      = seq_check tcp_data packet := rfl
  unfold packet_arrival_synchronized at h
  rw [hsc, hacc] at h
  dsimp only at h
  by_cases hsyn : packet.syn = 1
  · rw [if_pos hsyn] at h
    cases h
    exact ⟨rfl, rfl, rfl, rfl, rfl, (fun p hp => by cases hp), (fun _ p hp => by cases hp),
      fun k => absurd hsyn k⟩
  rw [if_neg hsyn] at h
  by_cases hack : packet.ack = 0
  · rw [if_pos hack] at h
    cases h
    exact ⟨rfl, rfl, rfl, rfl, rfl, (fun p hp => by cases hp), (fun _ p hp => by cases hp),
      fun _ k => absurd hack k⟩
  rw [if_neg hack] at h
  by_cases hr : tcp_data.SND_UNA ≤ packet.ack_seq ∧ packet.ack_seq ≤ tcp_data.SND_NXT
  · obtain ⟨popped, persist, pumped, k1, k2, k3, k4⟩ :=
      packet_arrival_ack_accepted env tcp_state
        { tcp_data with pending_packets := rest } packet r hf hr.1 hr.2 h
    rw [packet_arrival_text_after_close tcp_state _ pumped.1 packet _ hs hfin] at k4
    have e1 := rtqueue_pop_recv _ _ _ _ _ k1
    have e2 := packet_arrival_persist_recv _ _ _ _ k2
    have e3 := chitcp_update_send_buffer_recv _ _ _ k3
    have e := keeps_recv_trans e1 (keeps_recv_trans e2
      (show keeps_recv persist.1 pumped.1 from e3))
    have hsent : sent_packets r.actions = sent_packets pumped.2 := by
      rw [k4]
      show sent_packets (popped.2 ++ persist.2 ++ pumped.2) = _
      rw [sent_packets_append, sent_packets_append, (rtqueue_pop_keeps _ _ _ _ _ k1).2,
        (packet_arrival_persist_keeps _ _ _ _ k2).2]
      rfl
    have hnxt : persist.1.RCV_NXT = tcp_data.RCV_NXT := by
      rw [e2.2.2.1, e1.2.2.1]
    rw [k4]
    refine ⟨e.2.2.2.2.1, e.2.2.1, e.2.2.2.1, e.2.2.2.2.2.1, e.2.2.2.2.2.2, ?_, ?_, ?_⟩
    · intro p hp2
      have hp3 : p ∈ sent_packets pumped.2 := by
        rw [← hsent, k4]
        exact hp2
      rw [chitcp_update_send_buffer_ack_seq _ _ _ k3 p hp3]
      exact congrArg (fun x => x % 2 ^ 32) hnxt
    · intro _ p hp2
      have hp3 : p ∈ sent_packets pumped.2 := by
        rw [← hsent, k4]
        exact hp2
      obtain ⟨s1, s2⟩ := chitcp_update_send_buffer_sent _ _ _ k3
      by_cases hc : circular_buffer_count
          ({ persist.1 with SND_UNA := packet.ack_seq, SND_WND := packet.win } : tcp_data_t).send
            = 0 ∧
          ({ persist.1 with SND_UNA := packet.ack_seq, SND_WND := packet.win } : tcp_data_t).closing
            = true
      · rw [s1 hc] at hp3
        rw [List.mem_singleton.mp hp3]
        exact Or.inr rfl
      · exact Or.inl ((s2 hc).2 p hp3).1
    · intro _ _ hgt
      exact absurd hr.2 (by omega)
  · unfold packet_arrival_ack at h
    have c1 : ¬ (tcp_state = tcp_state_t.SYN_RCVD ∧ tcp_data.SND_UNA ≤ packet.ack_seq
        ∧ packet.ack_seq ≤ tcp_data.SND_NXT) := fun hh => hne.2.2.2 hh.1
    have c2 : tcp_state = tcp_state_t.ESTABLISHED ∨ tcp_state = tcp_state_t.FIN_WAIT_1
        ∨ tcp_state = tcp_state_t.FIN_WAIT_2 ∨ tcp_state = tcp_state_t.CLOSE_WAIT
        ∨ tcp_state = tcp_state_t.CLOSING ∨ tcp_state = tcp_state_t.LAST_ACK
        ∨ tcp_state = tcp_state_t.TIME_WAIT := hf
    rw [if_neg c1, if_pos c2, if_neg hr] at h
    by_cases hgt : packet.ack_seq > tcp_data.SND_NXT
    · rw [if_pos hgt, packet_arrival_text_after_close tcp_state _ _ packet _ hs hfin] at h
      cases h
      refine ⟨rfl, rfl, rfl, rfl, rfl, ?_, ?_, fun _ _ _ => rfl⟩
      · intro p hp2
        rw [List.mem_singleton.mp hp2]
        rfl
      · intro hle
        exact absurd hle (by omega)
    · rw [if_neg hgt] at h
      cases h
      exact ⟨rfl, rfl, rfl, rfl, rfl, (fun p hp => by cases hp), (fun _ p hp => by cases hp),
        fun _ _ k => absurd k hgt⟩

/-- C38, witness: in FIN_WAIT_1 three bytes arrive at RCV.NXT = 2001: nothing is
put in the receive buffer, RCV.NXT stays 2001 and nothing is sent. -/
theorem data_after_close_not_delivered_witness :
    chitcpd_tcp_state_handle_PACKET_ARRIVAL (ex_env_at 101) tcp_state_t.FIN_WAIT_1
      ex_fin_wait_1_data = some ex_fin_wait_1_data_handled ∧
    ex_fin_wait_1_data_handled.tcp_data.recv = ex_fin_wait_1_data.recv ∧
    ex_fin_wait_1_data_handled.tcp_data.RCV_NXT = 2001 ∧
    sent_packets ex_fin_wait_1_data_handled.actions = [] :=
  have h := data_after_close_not_delivered (ex_env_at 101) tcp_state_t.FIN_WAIT_1
    ex_fin_wait_1_data ⟨0, 1, 0, 2001, 233, 4096, [1, 2, 3]⟩ [] ex_fin_wait_1_data_handled
    (Or.inl rfl) rfl rfl (by decide) (by decide) rfl
  ⟨rfl, h.1, h.2.1, rfl⟩

/-! ## C40: the end of the loop of `chitcp_update_send_buffer` -/

/-- An iteration of the loop in which nothing is read leaves everything as it is,
so that the same iteration follows: no number of iterations ends the loop. -/
theorem update_send_buffer_loop_spins (env : tcp_env_t) (bytes_to_send : Int)
    (tcp_data : tcp_data_t) (actions : List tcp_action_t) (hb : bytes_to_send > 0)
    (hr : (env.peek_at tcp_data.send tcp_data.SND_NXT
      (if bytes_to_send > TCP_MSS then TCP_MSS else bytes_to_send).toNat).1 ≤ 0) :
    ∀ fuel, update_send_buffer_loop env fuel bytes_to_send tcp_data actions = none := by
  intro fuel
  induction fuel with
  | zero =>
    unfold update_send_buffer_loop
    rw [if_pos hb]
  | succ n ih =>
    unfold update_send_buffer_loop
    rw [if_pos hb]
    dsimp only
    rw [if_neg (not_lt.mpr hr)]
    exact ih

theorem int_wrap_of_range (x : Int) (h0 : 0 ≤ x) (h1 : x < 2 ^ 31) : int_wrap x = x := by
  unfold int_wrap
  omega

theorem int_wrap_range (x : Int) : -(2 ^ 31) ≤ int_wrap x ∧ int_wrap x < 2 ^ 31 := by
  unfold int_wrap
  omega

/-- When every read gives at least one byte and at most what was asked for,
`bytes_to_send` iterations end the loop. -/
theorem update_send_buffer_loop_returns (env : tcp_env_t)
    (hpos : ∀ buf seq len, 0 < len →
      0 < (env.peek_at buf seq len).1 ∧ (env.peek_at buf seq len).1 ≤ len) (fuel : Nat) :
    ∀ (bytes_to_send : Int) (tcp_data : tcp_data_t) (actions : List tcp_action_t),
      bytes_to_send ≤ fuel → bytes_to_send < 2 ^ 31 →
      ∃ r, update_send_buffer_loop env fuel bytes_to_send tcp_data actions = some r := by
  induction fuel with
  | zero =>
    intro bts td acts hle _
    unfold update_send_buffer_loop
    have hb : ¬ (bts > 0) := by
      have : bts ≤ 0 := by exact_mod_cast hle
      omega
    rw [if_neg hb]
    exact ⟨_, rfl⟩
  | succ n ih =>
    intro bts td acts hle hlt
    unfold update_send_buffer_loop
    by_cases hb : bts > 0
    · rw [if_pos hb]
      dsimp only
      have hlen : 0 < (if bts > TCP_MSS then TCP_MSS else bts).toNat := by
        have : (0 : Int) < (if bts > TCP_MSS then TCP_MSS else bts) := by
          split_ifs
          · decide
          · exact hb
        omega
      have hlen2 : ((if bts > TCP_MSS then TCP_MSS else bts).toNat : Int) ≤ bts := by
        split_ifs with hm
        · have : (TCP_MSS.toNat : Int) = TCP_MSS := by decide
          rw [this]
          omega
        · rw [Int.toNat_of_nonneg (by omega)]
      obtain ⟨p1, p2⟩ := hpos td.send td.SND_NXT _ hlen
      rw [if_pos p1]
      have hw : int_wrap (bts - (env.peek_at td.send td.SND_NXT
          (if bts > TCP_MSS then TCP_MSS else bts).toNat).1)
          = bts - (env.peek_at td.send td.SND_NXT
          (if bts > TCP_MSS then TCP_MSS else bts).toNat).1 :=
        int_wrap_of_range _ (by omega) (by omega)
      rw [hw]
      have hle2 : (bts : Int) ≤ (n : Int) + 1 := by exact_mod_cast hle
      exact ih _ _ _ (by omega) (by omega)
    · rw [if_neg hb]
      exact ⟨_, rfl⟩

/-- The segments that the loop sends carry at least one byte and at most
`TCP_MSS` bytes. -/
theorem update_send_buffer_loop_mss (env : tcp_env_t) (fuel : Nat) :
    ∀ (bytes_to_send : Int) (tcp_data : tcp_data_t) (actions : List tcp_action_t)
      (r : tcp_data_t × List tcp_action_t),
      update_send_buffer_loop env fuel bytes_to_send tcp_data actions = some r →
      ∀ p ∈ sent_packets r.2,
        p ∈ sent_packets actions ∨
          (0 < TCP_PAYLOAD_LEN p ∧ (TCP_PAYLOAD_LEN p : Int) ≤ TCP_MSS) := by
  induction fuel with
  | zero =>
    intro bts td acts r h
    unfold update_send_buffer_loop at h
    split_ifs at h
    cases h
    exact fun p hp => Or.inl hp
  | succ n ih =>
    intro bts td acts r h
    unfold update_send_buffer_loop at h
    by_cases hb : bts > 0
    · rw [if_pos hb] at h
      dsimp only at h
      by_cases hr : (env.peek_at td.send td.SND_NXT
          (if bts > TCP_MSS then TCP_MSS else bts).toNat).1 > 0
      · rw [if_pos hr] at h
        intro p hp
        rcases ih _ _ _ _ h p hp with e | e
        · rw [sent_packets_append] at e
          rcases List.mem_append.mp e with e1 | e1
          · exact Or.inl e1
          · right
            rw [sent_packets_cons_send] at e1
            have hq := (rtqueue_append_keeps td
              (make_packet 0 1 0 td.SND_NXT td.RCV_NXT td.RCV_WND
                (((env.peek_at td.send td.SND_NXT
                    (if bts > TCP_MSS then TCP_MSS else bts).toNat).2
                  ++ List.replicate (if bts > TCP_MSS then TCP_MSS else bts).toNat 0).take
                    (if bts > TCP_MSS then TCP_MSS else bts).toNat))
              td.SND_NXT env.now).2
            rw [hq] at e1
            have hpe := List.mem_singleton.mp e1
            rw [hpe]
            have hlen : TCP_PAYLOAD_LEN (make_packet 0 1 0 td.SND_NXT td.RCV_NXT td.RCV_WND
                (((env.peek_at td.send td.SND_NXT
                    (if bts > TCP_MSS then TCP_MSS else bts).toNat).2
                  ++ List.replicate (if bts > TCP_MSS then TCP_MSS else bts).toNat 0).take
                    (if bts > TCP_MSS then TCP_MSS else bts).toNat))
                = (if bts > TCP_MSS then TCP_MSS else bts).toNat := by
              unfold TCP_PAYLOAD_LEN make_packet
              simp
            rw [hlen]
            have hpos : (0 : Int) < (if bts > TCP_MSS then TCP_MSS else bts) := by
              split_ifs
              · decide
              · exact hb
            have hmss : (if bts > TCP_MSS then TCP_MSS else bts) ≤ TCP_MSS := by
              split_ifs with hm
              · exact le_refl _
              · omega
            constructor
            · omega
            · rw [Int.toNat_of_nonneg (by omega)]
              exact hmss
        · exact Or.inr e
      · rw [if_neg hr] at h
        exact ih _ _ _ _ h
    · rw [if_neg hb] at h
      cases h
      exact fun p hp => Or.inl hp

/-- With reads of at most what was asked for and without wraparound, the loop
moves SND.NXT up by at most `bytes_to_send`. -/
theorem update_send_buffer_loop_bound (env : tcp_env_t) (hpk : peek_bounded env) (fuel : Nat) :
    ∀ (bytes_to_send : Int) (tcp_data : tcp_data_t) (actions : List tcp_action_t)
      (r : tcp_data_t × List tcp_action_t),
      update_send_buffer_loop env fuel bytes_to_send tcp_data actions = some r →
      bytes_to_send < 2 ^ 31 → (tcp_data.SND_NXT : Int) + max bytes_to_send 0 < 2 ^ 32 →
      r.1.SND_UNA = tcp_data.SND_UNA ∧ tcp_data.SND_NXT ≤ r.1.SND_NXT ∧
      (r.1.SND_NXT : Int) ≤ tcp_data.SND_NXT + max bytes_to_send 0 := by
  induction fuel with
  | zero =>
    intro bts td acts r h _ _
    unfold update_send_buffer_loop at h
    split_ifs at h
    cases h
    exact ⟨rfl, Nat.le_refl _, by dsimp only; omega⟩
  | succ n ih =>
    intro bts td acts r h hlt hnw
    unfold update_send_buffer_loop at h
    by_cases hb : bts > 0
    · rw [if_pos hb] at h
      dsimp only at h
      by_cases hr : (env.peek_at td.send td.SND_NXT
          (if bts > TCP_MSS then TCP_MSS else bts).toNat).1 > 0
      · rw [if_pos hr] at h
        have hbd := hpk td.send td.SND_NXT (if bts > TCP_MSS then TCP_MSS else bts).toNat
        have hlen2 : ((if bts > TCP_MSS then TCP_MSS else bts).toNat : Int) ≤ bts := by
          split_ifs with hm
          · have : (TCP_MSS.toNat : Int) = TCP_MSS := by decide
            rw [this]
            omega
          · rw [Int.toNat_of_nonneg (by omega)]
        obtain ⟨k, _⟩ := rtqueue_append_keeps td
          (make_packet 0 1 0 td.SND_NXT td.RCV_NXT td.RCV_WND
            (((env.peek_at td.send td.SND_NXT (if bts > TCP_MSS then TCP_MSS else bts).toNat).2
              ++ List.replicate (if bts > TCP_MSS then TCP_MSS else bts).toNat 0).take
                (if bts > TCP_MSS then TCP_MSS else bts).toNat))
          td.SND_NXT env.now
        have hw : int_wrap (bts - (env.peek_at td.send td.SND_NXT
            (if bts > TCP_MSS then TCP_MSS else bts).toNat).1)
            = bts - (env.peek_at td.send td.SND_NXT
            (if bts > TCP_MSS then TCP_MSS else bts).toNat).1 :=
          int_wrap_of_range _ (by omega) (by omega)
        rw [hw] at h
        have hnxt : ((rtqueue_append td
            (make_packet 0 1 0 td.SND_NXT td.RCV_NXT td.RCV_WND
              (((env.peek_at td.send td.SND_NXT (if bts > TCP_MSS then TCP_MSS else bts).toNat).2
                ++ List.replicate (if bts > TCP_MSS then TCP_MSS else bts).toNat 0).take
                  (if bts > TCP_MSS then TCP_MSS else bts).toNat))
            td.SND_NXT env.now).1.SND_NXT
            + (env.peek_at td.send td.SND_NXT
                (if bts > TCP_MSS then TCP_MSS else bts).toNat).1.toNat) % 2 ^ 32
            = td.SND_NXT + (env.peek_at td.send td.SND_NXT
                (if bts > TCP_MSS then TCP_MSS else bts).toNat).1.toNat := by
          rw [k.2.1]
          apply Nat.mod_eq_of_lt
          omega
        obtain ⟨i1, i2, i3⟩ := ih _ _ _ _ h (by omega) (by
          show ((_ % 2 ^ 32 : Nat) : Int) + _ < _
          rw [hnxt]
          push_cast
          omega)
        have j2 : td.SND_NXT + (env.peek_at td.send td.SND_NXT
            (if bts > TCP_MSS then TCP_MSS else bts).toNat).1.toNat ≤ r.1.SND_NXT := by
          rw [← hnxt]
          exact i2
        have j3 : (r.1.SND_NXT : Int) ≤ ((td.SND_NXT + (env.peek_at td.send td.SND_NXT
            (if bts > TCP_MSS then TCP_MSS else bts).toNat).1.toNat : Nat) : Int)
            + max (bts - (env.peek_at td.send td.SND_NXT
              (if bts > TCP_MSS then TCP_MSS else bts).toNat).1) 0 := by
          rw [← hnxt]
          exact i3
        refine ⟨i1.trans k.1, by omega, ?_⟩
        push_cast at j3
        omega
      · rw [if_neg hr] at h
        exact ih _ _ _ _ h hlt hnw
    · rw [if_neg hb] at h
      cases h
      exact ⟨rfl, Nat.le_refl _, by dsimp only; omega⟩

/-- C40: the loop of `chitcp_update_send_buffer` does not end for every state.
(1) An iteration in which `circular_buffer_peek_at` reads nothing leaves
`bytes_to_send`, the buffer and SND.NXT as they are, so that no number of
iterations ends the loop.  (2) This happens in a run of the handlers: three
bytes are sent at SEG.SEQ = 233, a segment with SEG.ACK = 234 arrives, and
PACKET_ARRIVAL at 101 s does not return: `bytes_to_send` is 3 - 2 = 1 and the
read at SND.NXT = 236 finds nothing.  (3) When every read gives at least one
byte and at most what was asked for, the function returns.  (4) When it returns
other than by sending a FIN, every segment sent carries between 1 and `TCP_MSS`
bytes, and, without wraparound, SND.UNA is unchanged, SND.NXT does not go down
and SND.NXT - SND.UNA is at most the larger of its old value and
min(buffered bytes, SND.WND).  (5) SND.NXT moves by the bytes read, the segment
carries the bytes asked for: with reads of one byte and two bytes to send, two
segments with three bytes of payload leave, and SND.NXT moves up by two. -/
theorem update_send_buffer_loop_need_not_end (env : tcp_env_t) (tcp_data : tcp_data_t) :
    (∀ (bytes_to_send : Int) (actions : List tcp_action_t), bytes_to_send > 0 →
      (env.peek_at tcp_data.send tcp_data.SND_NXT
        (if bytes_to_send > TCP_MSS then TCP_MSS else bytes_to_send).toNat).1 ≤ 0 →
      ∀ fuel, update_send_buffer_loop env fuel bytes_to_send tcp_data actions = none) ∧
    (ex_partial_ack.SND_UNA = 233 ∧ ex_partial_ack.SND_NXT = 236 ∧
      ex_partial_ack.send = ⟨[1, 2, 3], 233, 4096⟩ ∧
      ex_partial_ack.pending_packets = [⟨0, 1, 0, 2001, 234, 4096, []⟩] ∧
      chitcpd_tcp_state_handle_PACKET_ARRIVAL (ex_env_at 101) tcp_state_t.ESTABLISHED
        ex_partial_ack = none ∧
      tcp_run ⟨tcp_state_t.ESTABLISHED, ex_established, []⟩
        (ex_partial_ack_inputs ++
          [tcp_input_t.event (ex_env_at 101) tcp_event_type_t.PACKET_ARRIVAL]) = none ∧
      ∀ (t : tcp_data_t) (actions : List tcp_action_t) (fuel : Nat),
        t.send = ex_partial_ack.send → t.SND_NXT = ex_partial_ack.SND_NXT →
        update_send_buffer_loop (ex_env_at 101) fuel 1 t actions = none) ∧
    ((∀ buf seq len, 0 < len →
        0 < (env.peek_at buf seq len).1 ∧ (env.peek_at buf seq len).1 ≤ len) →
      ∃ r, chitcp_update_send_buffer env tcp_data = some r) ∧
    (∀ r, chitcp_update_send_buffer env tcp_data = some r →
      ¬ (circular_buffer_count tcp_data.send = 0 ∧ tcp_data.closing) →
      (∀ p ∈ sent_packets r.2, 0 < TCP_PAYLOAD_LEN p ∧ (TCP_PAYLOAD_LEN p : Int) ≤ TCP_MSS) ∧
      (peek_bounded env → tcp_data.SND_UNA ≤ tcp_data.SND_NXT → tcp_data.SND_NXT < 2 ^ 31 →
        tcp_data.SND_WND < 2 ^ 31 → circular_buffer_count tcp_data.send < 2 ^ 31 →
        r.1.SND_UNA = tcp_data.SND_UNA ∧ tcp_data.SND_NXT ≤ r.1.SND_NXT ∧
        (r.1.SND_NXT : Int) - tcp_data.SND_UNA ≤
          max ((tcp_data.SND_NXT : Int) - tcp_data.SND_UNA)
            (min (circular_buffer_count tcp_data.send) (tcp_data.SND_WND : Int)))) ∧
    (∃ r, chitcp_update_send_buffer ex_env_one_byte ex_two_to_send = some r ∧
      sent_packets r.2 = [⟨0, 1, 0, 233, 2001, 4096, [7, 0]⟩, ⟨0, 1, 0, 234, 2001, 4096, [7]⟩] ∧
      ex_two_to_send.SND_NXT = 233 ∧ r.1.SND_NXT = 235) := by
  refine ⟨?_, ⟨rfl, rfl, rfl, rfl, rfl, rfl, ?_⟩, ?_, ?_, ⟨_, rfl, rfl, rfl, rfl⟩⟩
  · intro bts acts hb hr
    exact update_send_buffer_loop_spins env bts tcp_data acts hb hr
  · intro t acts fuel hs hn
    apply update_send_buffer_loop_spins
    · decide
    · rw [hs, hn]
      decide
  · intro hpos
    unfold chitcp_update_send_buffer
    dsimp only
    split_ifs with c1 c2 c3
    · exact ⟨_, rfl⟩
    · exact ⟨_, rfl⟩
    · apply update_send_buffer_loop_returns env hpos
      · exact Int.self_le_toNat _
      · exact (int_wrap_range _).2
    · apply update_send_buffer_loop_returns env hpos
      · exact Int.self_le_toNat _
      · exact (int_wrap_range _).2
  · intro r h hfin
    unfold chitcp_update_send_buffer at h
    dsimp only at h
    rw [if_neg hfin] at h
    by_cases c2 : circular_buffer_count tcp_data.send
        ≤ int_wrap (to_int tcp_data.SND_NXT - to_int tcp_data.SND_UNA)
    · rw [if_pos c2] at h
      cases h
      refine ⟨fun p hp => (by cases hp), ?_⟩
      intro _ _ _ _ _
      refine ⟨rfl, Nat.le_refl _, ?_⟩
      dsimp only
      omega
    · rw [if_neg c2] at h
      refine ⟨?_, ?_⟩
      · intro p hp
        rcases update_send_buffer_loop_mss env _ _ _ _ _ h p hp with e | e
        · cases e
        · exact e
      · intro hpk hun hnx hwn hcn
        have t1 : to_int tcp_data.SND_NXT = (tcp_data.SND_NXT : Int) := by
          unfold to_int
          have : tcp_data.SND_NXT % 2 ^ 32 = tcp_data.SND_NXT := Nat.mod_eq_of_lt (by omega)
          rw [this, if_pos hnx]
        have t2 : to_int tcp_data.SND_UNA = (tcp_data.SND_UNA : Int) := by
          unfold to_int
          have : tcp_data.SND_UNA % 2 ^ 32 = tcp_data.SND_UNA := Nat.mod_eq_of_lt (by omega)
          rw [this, if_pos (by omega)]
        have t3 : to_int tcp_data.SND_WND = (tcp_data.SND_WND : Int) := by
          unfold to_int
          have : tcp_data.SND_WND % 2 ^ 32 = tcp_data.SND_WND := Nat.mod_eq_of_lt (by omega)
          rw [this, if_pos hwn]
        have w1 : int_wrap (to_int tcp_data.SND_NXT - to_int tcp_data.SND_UNA)
            = (tcp_data.SND_NXT : Int) - tcp_data.SND_UNA := by
          rw [t1, t2]
          exact int_wrap_of_range _ (by omega) (by omega)
        have hc0 : 0 ≤ circular_buffer_count tcp_data.send := by
          unfold circular_buffer_count
          exact Int.ofNat_nonneg _
        rw [w1] at h c2
        rw [t3] at h
        by_cases c3 : circular_buffer_count tcp_data.send > (tcp_data.SND_WND : Int)
        · rw [if_pos c3] at h
          have hr := int_wrap_range ((tcp_data.SND_WND : Int)
            - ((tcp_data.SND_NXT : Int) - tcp_data.SND_UNA))
          by_cases c4 : (tcp_data.SND_WND : Int)
              - ((tcp_data.SND_NXT : Int) - tcp_data.SND_UNA) < 0
          · have w2 : int_wrap ((tcp_data.SND_WND : Int)
                - ((tcp_data.SND_NXT : Int) - tcp_data.SND_UNA)) < 0 := by
              unfold int_wrap
              omega
            obtain ⟨i1, i2, i3⟩ := update_send_buffer_loop_bound env hpk _ _ _ _ _ h hr.2
              (by omega)
            exact ⟨i1, i2, by omega⟩
          · have w2 : int_wrap ((tcp_data.SND_WND : Int)
                - ((tcp_data.SND_NXT : Int) - tcp_data.SND_UNA))
                = (tcp_data.SND_WND : Int) - ((tcp_data.SND_NXT : Int) - tcp_data.SND_UNA) :=
              int_wrap_of_range _ (by omega) (by omega)
            rw [w2] at h
            obtain ⟨i1, i2, i3⟩ := update_send_buffer_loop_bound env hpk _ _ _ _ _ h
              (by omega) (by omega)
            exact ⟨i1, i2, by omega⟩
        · rw [if_neg c3] at h
          have w2 : int_wrap (circular_buffer_count tcp_data.send
              - ((tcp_data.SND_NXT : Int) - tcp_data.SND_UNA))
              = circular_buffer_count tcp_data.send
                - ((tcp_data.SND_NXT : Int) - tcp_data.SND_UNA) :=
            int_wrap_of_range _ (by omega) (by omega)
          rw [w2] at h
          obtain ⟨i1, i2, i3⟩ := update_send_buffer_loop_bound env hpk _ _ _ _ _ h
            (by omega) (by omega)
          exact ⟨i1, i2, by omega⟩

/-- C40, an instance: with reads that give all that is asked for, and two bytes
in the send buffer of the established connection, the function returns, one
segment of two bytes leaves, and SND.NXT moves from 233 to 235; and in the
connection of the failing run, where the read at SND.NXT = 236 finds nothing, no
number of iterations ends the loop. -/
theorem update_send_buffer_loop_need_not_end_witness :
    (∃ r, chitcp_update_send_buffer ex_env_full_reads ex_two_to_send = some r) ∧
    (chitcp_update_send_buffer ex_env_full_reads ex_two_to_send
        = some ((chitcp_update_send_buffer ex_env_full_reads ex_two_to_send).getD
            (ex_zero_data, [])) ∧
      sent_packets ((chitcp_update_send_buffer ex_env_full_reads ex_two_to_send).getD
            (ex_zero_data, [])).2 = [⟨0, 1, 0, 233, 2001, 4096, [0, 0]⟩] ∧
      ((chitcp_update_send_buffer ex_env_full_reads ex_two_to_send).getD
            (ex_zero_data, [])).1.SND_NXT = 235) ∧
    (∀ p ∈ sent_packets ((chitcp_update_send_buffer ex_env_full_reads ex_two_to_send).getD
            (ex_zero_data, [])).2,
        0 < TCP_PAYLOAD_LEN p ∧ (TCP_PAYLOAD_LEN p : Int) ≤ TCP_MSS) ∧
    (∀ fuel, update_send_buffer_loop (ex_env_at 101) fuel 1 ex_partial_ack [] = none) :=
  ⟨(update_send_buffer_loop_need_not_end ex_env_full_reads ex_two_to_send).2.2.1
      (fun _ _ len h => ⟨Int.ofNat_lt.mpr h, le_refl _⟩),
    ⟨rfl, rfl, rfl⟩,
    ((update_send_buffer_loop_need_not_end ex_env_full_reads ex_two_to_send).2.2.2.1 _ rfl
      (by decide)).1,
    (update_send_buffer_loop_need_not_end (ex_env_at 101) ex_partial_ack).1 1 []
      (by decide) (by decide)⟩

end TCP

namespace IRC

/-! ## C30: a nickname that is taken -/

theorem find_NICK_of_mem (n : sds) (nicks : List nick_t)
    (h : ∃ e ∈ nicks, e.nick = n) : ∃ owner, find_NICK n nicks = some owner := by
  unfold find_NICK
  cases hf : nicks.find? (fun e => decide (e.nick = n)) with
  | some owner => exact ⟨owner, rfl⟩
  | none =>
    obtain ⟨e, he, hn⟩ := h
    have := List.find?_eq_none.mp hf e he
    simp [hn] at this

theorem reply_error_params_NICKNAMEINUSE (cmd : List sds) (n : sds) (h : cmd[1]? = some n) :
    reply_error_params cmd ERR_NICKNAMEINUSE
      = some (some [(n, false), ("Nickname is already in use\r\n".toList, true)]) := by
  unfold reply_error_params
  have c1 : strncmp_eq ERR_NICKNAMEINUSE ERR_UNKNOWNCOMMAND ERROR_CODE_LEN = false := by decide
  have c2 : strncmp_eq ERR_NICKNAMEINUSE ERR_NONICKNAMEGIVEN ERROR_CODE_LEN = false := by decide
  have c3 : strncmp_eq ERR_NICKNAMEINUSE ERR_NICKNAMEINUSE ERROR_CODE_LEN = true := by decide
  rw [c1, c2, c3, h]
  rfl

/-- What `reply_error` does for `ERR_NICKNAMEINUSE` when `cmd[1]` is `n`: one buffer
is handed to `sendall` for the socket of the connection. -/
theorem reply_error_NICKNAMEINUSE (env : irc_env) (st : irc_state) (cmd : List sds)
    (conn : conn_info_t) (n : sds) (h : cmd[1]? = some n) :
    ∃ target : sds,
      reply_error env st cmd ERR_NICKNAMEINUSE conn
        = some (send_msg env st conn.client_socket
            (":".toList ++ conn.server_hostname ++ " 433 ".toList ++ target ++ " ".toList ++ n
              ++ " :Nickname is already in use\r\n".toList)) ∧
      (server_find_USER st.ctx conn.client_socket = none → target = "*".toList) ∧
      (∀ s, server_find_USER st.ctx conn.client_socket = some s →
        s.info.state = conn_status.NICK_MISSING → target = "*".toList) ∧
      (∀ s, server_find_USER st.ctx conn.client_socket = some s →
        s.info.state ≠ conn_status.NICK_MISSING → target = s.info.nick) := by
  refine ⟨match server_find_USER st.ctx conn.client_socket with
    | none => "*".toList
    | some s => if s.info.state = conn_status.NICK_MISSING then "*".toList else s.info.nick,
    ?_, ?_, ?_, ?_⟩
  · unfold reply_error
    dsimp only
    rw [reply_error_params_NICKNAMEINUSE cmd n h]
    dsimp only
    unfold chirc_message_to_string chirc_message_add_parameter chirc_message_construct
    simp only [List.foldl_cons, List.foldl_nil, List.nil_append, List.cons_append,
      List.getLast?_cons_cons, List.getLast?_singleton, List.dropLast, if_true,
      ERR_NICKNAMEINUSE]
    simp [List.append_assoc]
  · intro h0
    rw [h0]
  · intro s h0 h1
    rw [h0]
    dsimp only
    rw [if_pos h1]
  · intro s h0 h1
    rw [h0]
    dsimp only
    rw [if_neg h1]

/-- C30: when a nickname n is in the table of nicks, whoever owns it, a NICK
command with n as its first parameter from a client in any state of
registration makes `handle_NICK` return `CHIRC_ERROR` (after which
`handle_request` sends nothing) with the context unchanged: the table of
clients with the state and the nick of every client, the table of nicks, the
channels, the operators and the counters are what they were.  Exactly one
buffer is handed to `sendall`, for the socket of that client; it is
`:<server> 433 <target> n :Nickname is already in use` followed by CR LF, where
the target is `*` when the client is not in the table of clients or has sent
USER and no NICK (state `NICK_MISSING`), and the nick stored for the client
otherwise. -/
theorem nick_collision (env : irc_env) (st : irc_state) (cmdtokens : List sds) (argc : Int)
    (conn : conn_info_t) (n : sds)
    (hargc : 2 ≤ argc) (htok : cmdtokens[1]? = some n)
    (hn : ∃ e ∈ st.ctx.nicks_hashtable, e.nick = n) :
    ∃ target : sds,
      handle_NICK env st cmdtokens argc conn
        = some ({ ctx := st.ctx,
                  sent := st.sent ++ [(conn.client_socket,
                    ":".toList ++ conn.server_hostname ++ " 433 ".toList ++ target
                      ++ " ".toList ++ n ++ " :Nickname is already in use\r\n".toList)] },
                CHIRC_ERROR) ∧
      (server_find_USER st.ctx conn.client_socket = none → target = "*".toList) ∧
      (∀ s, server_find_USER st.ctx conn.client_socket = some s →
        s.info.state = conn_status.NICK_MISSING → target = "*".toList) ∧
      (∀ s, server_find_USER st.ctx conn.client_socket = some s →
        s.info.state ≠ conn_status.NICK_MISSING → target = s.info.nick) := by
  obtain ⟨owner, ho⟩ := find_NICK_of_mem n st.ctx.nicks_hashtable hn
  obtain ⟨target, k1, k2, k3, k4⟩ := reply_error_NICKNAMEINUSE env st cmdtokens conn n htok
  refine ⟨target, ?_, k2, k3, k4⟩
  unfold handle_NICK
  dsimp only
  have c1 : ¬ (argc - 1 < NICK_PARAMETER_NUM) := by
    unfold NICK_PARAMETER_NUM
    omega
  rw [if_neg c1, htok]
  dsimp only
  have c2 : server_find_NICK st.ctx n = some owner := ho
  rw [c2]
  dsimp only
  rw [k1]
  rfl

/-- C30, witness: alice is registered on socket 4; the client of socket 5, which is
not in the table of clients, sends `NICK alice`: the one reply has the target
`*` and the context is as before. -/
theorem nick_collision_witness :
    handle_NICK ex_irc_env ex_alice_registered ["NICK".toList, "alice".toList] 2 (ex_conn 5)
      = some ({ ctx := ex_alice_registered.ctx,
                sent := [((5 : Int),
                  ":bar.example.com 433 * alice :Nickname is already in use\r\n".toList)] },
              CHIRC_ERROR) :=
  match nick_collision ex_irc_env ex_alice_registered ["NICK".toList, "alice".toList] 2
      (ex_conn 5) "alice".toList (by decide) rfl ⟨⟨"alice".toList, 4⟩, by decide, rfl⟩ with
  | ⟨target, h1, h2, _, _⟩ => by
    rw [h1, h2 rfl]
    rfl

/-! ## Functions that only send -/

theorem sends_only_refl (st : irc_state) : sends_only st st :=
  ⟨rfl, [], (List.append_nil _).symm⟩

theorem sends_only_trans {a b c : irc_state} (h1 : sends_only a b) (h2 : sends_only b c) :
    sends_only a c := by
  obtain ⟨c1, m1, s1⟩ := h1
  obtain ⟨c2, m2, s2⟩ := h2
  exact ⟨c2.trans c1, m1 ++ m2, by rw [s2, s1, List.append_assoc]⟩

theorem send_msg_sends (env : irc_env) (st : irc_state) (client_socket : Int) (msg : sds) :
    sends_only st (send_msg env st client_socket msg).1 :=
  ⟨rfl, [(client_socket, msg)], rfl⟩

theorem send_reply_sends (env : irc_env) (st : irc_state) (client_socket : Int) (msg : sds) :
    sends_only st (send_reply env st client_socket msg).1 := by
  unfold send_reply
  dsimp only
  split_ifs
  · exact send_msg_sends env st client_socket msg
  · exact send_msg_sends env st client_socket msg

theorem map_send_reply_sends (env : irc_env) (st : irc_state) (client_socket : Int)
    (o : Option sds) (r : irc_state × Int)
    (h : o.map (fun host_msg => send_reply env st client_socket host_msg) = some r) :
    sends_only st r.1 := by
  cases o with
  | none => cases h
  | some m =>
    cases h
    exact send_reply_sends env st client_socket m

theorem reply_error_sends (env : irc_env) (st : irc_state) (cmd : List sds) (reply_code : sds)
    (conn : conn_info_t) (r : irc_state × Int)
    (h : reply_error env st cmd reply_code conn = some r) : sends_only st r.1 := by
  unfold reply_error at h
  dsimp only at h
  cases hp : reply_error_params cmd reply_code with
  | none =>
    rw [hp] at h
    cases h
    exact sends_only_refl st
  | some o =>
    rw [hp] at h
    cases o with
    | none => cases h
    | some params =>
      dsimp only at h
      split at h
      · cases h
      · cases h
        exact send_msg_sends env st _ _

theorem reply_error_map_sends {α : Type} (env : irc_env) (st : irc_state) (cmd : List sds)
    (reply_code : sds) (conn : conn_info_t) (f : irc_state × Int → α) (g : α → irc_state)
    (hg : ∀ x, g (f x) = x.1) (r : α)
    (h : (reply_error env st cmd reply_code conn).map f = some r) : sends_only st (g r) := by
  cases hr : reply_error env st cmd reply_code conn with
  | none =>
    rw [hr] at h
    cases h
  | some x =>
    rw [hr] at h
    cases h
    rw [hg]
    exact reply_error_sends env st cmd reply_code conn x hr

theorem server_reply_nick_sends (env : irc_env) (st : irc_state) (prefix_ : sds)
    (cmdtokens : List sds) (argc : Int) (client_socket : Int) (r : irc_state × Int)
    (h : server_reply_nick env st prefix_ cmdtokens argc client_socket = some r) :
    sends_only st r.1 := by
  unfold server_reply_nick at h
  split at h
  · cases h
  · split at h
    · cases h
    · dsimp only at h
      split at h
      · cases h
      · split at h
        · cases h
          exact send_msg_sends env st _ _
        · cases h
          exact send_msg_sends env st _ _

theorem relay_to_members_sends (reply : irc_state → Int → Option (irc_state × Int))
    (skip : Option sds)
    (hreply : ∀ st client_socket r, reply st client_socket = some r → sends_only st r.1)
    (members : List channel_client) :
    ∀ (st : irc_state) (r : irc_state × Bool),
      relay_to_members reply skip members st = some r → sends_only st r.1 := by
  induction members with
  | nil =>
    intro st r h
    unfold relay_to_members at h
    cases h
    exact sends_only_refl st
  | cons cc rest ih =>
    intro st r h
    unfold relay_to_members at h
    split at h
    · exact ih st r h
    · split at h
      · cases h
      · rename_i msgtarget _
        split at h
        · cases h
        · rename_i x hx
          have hs := hreply st msgtarget.client_socket x hx
          split at h
          · cases h
            exact hs
          · exact sends_only_trans hs (ih _ r h)

theorem handle_NICK_members_sends (env : irc_env) (prefix_ : sds) (cmdtokens : List sds)
    (argc : Int) (nick : sds) (members : List channel_client) :
    ∀ (st : irc_state) (r : irc_state × Bool),
      handle_NICK_members env prefix_ cmdtokens argc nick members st = some r →
      sends_only st r.1 := by
  induction members with
  | nil =>
    intro st r h
    unfold handle_NICK_members at h
    cases h
    exact sends_only_refl st
  | cons cc rest ih =>
    intro st r h
    unfold handle_NICK_members at h
    split at h
    · exact ih st r h
    · split at h
      · cases h
      · split at h
        · cases h
        · rename_i x hx
          have hs := server_reply_nick_sends env st _ _ _ _ x hx
          split at h
          · cases h
            exact hs
          · exact sends_only_trans hs (ih _ r h)

theorem handle_NICK_channels_sends (env : irc_env) (prefix_ : sds) (cmdtokens : List sds)
    (argc : Int) (nick : sds) (channels : List channel_t) :
    ∀ (st : irc_state) (r : irc_state × Bool),
      handle_NICK_channels env prefix_ cmdtokens argc nick channels st = some r →
      sends_only st r.1 := by
  induction channels with
  | nil =>
    intro st r h
    unfold handle_NICK_channels at h
    cases h
    exact sends_only_refl st
  | cons c rest ih =>
    intro st r h
    unfold handle_NICK_channels at h
    split at h
    · exact ih st r h
    · split at h
      · cases h
      · rename_i x hx
        have hs := handle_NICK_members_sends env _ _ _ _ _ st x hx
        split at h
        · exact sends_only_trans hs (ih _ r h)
        · cases h
          exact hs

theorem server_reply_welcome_sends (env : irc_env) (st : irc_state) (client : client_t)
    (conn : conn_info_t) : sends_only st (server_reply_welcome env st client conn).1 :=
  send_reply_sends env st _ _

theorem reply_welcome_sends (env : irc_env) (st : irc_state) (client : client_t)
    (conn : conn_info_t) : sends_only st (reply_welcome env st client conn).1 := by
  unfold reply_welcome
  dsimp only
  split_ifs
  · exact send_msg_sends env st _ _
  · exact sends_only_trans (send_msg_sends env st _ _) (send_msg_sends env _ _ _)
  · exact sends_only_trans (send_msg_sends env st _ _)
      (sends_only_trans (send_msg_sends env _ _ _) (send_reply_sends env _ _ _))

theorem server_reply_lusers_sends (env : irc_env) (st : irc_state) (nick : sds)
    (conn : conn_info_t) : sends_only st (server_reply_lusers env st nick conn).1 := by
  unfold server_reply_lusers
  dsimp only
  split_ifs
  · exact send_msg_sends env st _ _
  · exact sends_only_trans (send_msg_sends env st _ _) (send_msg_sends env _ _ _)
  · exact sends_only_trans (send_msg_sends env st _ _)
      (sends_only_trans (send_msg_sends env _ _ _) (send_msg_sends env _ _ _))
  · exact sends_only_trans (send_msg_sends env st _ _)
      (sends_only_trans (send_msg_sends env _ _ _)
        (sends_only_trans (send_msg_sends env _ _ _) (send_msg_sends env _ _ _)))
  · exact sends_only_trans (send_msg_sends env st _ _)
      (sends_only_trans (send_msg_sends env _ _ _)
        (sends_only_trans (send_msg_sends env _ _ _)
          (sends_only_trans (send_msg_sends env _ _ _) (send_reply_sends env _ _ _))))

theorem handle_LUSERS_sends (env : irc_env) (st : irc_state) (cmdtokens : List sds) (argc : Int)
    (conn : conn_info_t) (r : irc_state × Int)
    (h : handle_LUSERS env st cmdtokens argc conn = some r) : sends_only st r.1 := by
  unfold handle_LUSERS at h
  dsimp only at h
  split at h
  · cases h
    exact server_reply_lusers_sends env st _ conn
  · cases h
    exact server_reply_lusers_sends env st _ conn

theorem handle_request_welcome_sends (env : irc_env) (st : irc_state) (cmdtokens : List sds)
    (argc : Int) (conn : conn_info_t) (cmd : sds) (s : client_t) (r : irc_state × Int)
    (h : handle_request_welcome env st cmdtokens argc conn cmd s = some r) :
    sends_only st r.1 := by
  unfold handle_request_welcome at h
  dsimp only at h
  have hf : sends_only st
      (if strncmp_eq cmd "USER".toList MAX_STR_LEN ∨ strncmp_eq cmd "NICK".toList MAX_STR_LEN
        then server_reply_welcome env st s conn else (st, MSG_OK)).1 := by
    split_ifs
    · exact server_reply_welcome_sends env st s conn
    · exact sends_only_refl st
  generalize (if strncmp_eq cmd "USER".toList MAX_STR_LEN ∨ strncmp_eq cmd "NICK".toList MAX_STR_LEN
    then server_reply_welcome env st s conn else (st, MSG_OK)) = first at h hf
  split at h
  · cases h
    exact hf
  · have hw := sends_only_trans hf (reply_welcome_sends env _ s conn)
    split at h
    · cases h
      exact hw
    · split at h
      · cases h
      · rename_i x hx
        have hl := sends_only_trans hw (handle_LUSERS_sends env _ _ _ _ x hx)
        split at h
        · cases h
          exact hl
        · exact sends_only_trans hl
            (reply_error_map_sends env _ _ _ _ _ (fun p => p.1) (fun _ => rfl) r h)

theorem send_msg_ok (env : irc_env) (hsend : sends_succeed env) (st : irc_state)
    (client_socket : Int) (msg : sds) :
    send_msg env st client_socket msg
      = ({ st with sent := st.sent ++ [(client_socket, msg)] }, MSG_OK) := by
  unfold send_msg
  dsimp only
  rw [if_neg (hsend _ _ _)]

theorem send_reply_ok (env : irc_env) (hsend : sends_succeed env) (st : irc_state)
    (client_socket : Int) (msg : sds) :
    send_reply env st client_socket msg
      = ({ st with sent := st.sent ++ [(client_socket, msg)] }, MSG_OK) := by
  unfold send_reply
  rw [send_msg_ok env hsend]
  rfl

/-- A loop over the members with sends that succeed, for a reply whose buffer is
the same for every member: every member gets the buffer, on the socket that
the table of nicks has for its nick. -/
theorem relay_to_members_ok (env : irc_env) (hsend : sends_succeed env) (msg : sds)
    (reply : irc_state → Int → Option (irc_state × Int))
    (hreply : ∀ st client_socket, reply st client_socket
      = some (send_reply env st client_socket msg))
    (ctx : server_ctx) (members : List channel_client)
    (hm : ∀ cc ∈ members, ∃ t, server_find_NICK ctx cc.nick = some t) :
    ∀ (st : irc_state), st.ctx = ctx →
      relay_to_members reply none members st
        = some ({ st with sent := st.sent
            ++ members.map (fun cc => (nick_socket ctx cc.nick, msg)) }, true) := by
  induction members with
  | nil =>
    intro st _
    unfold relay_to_members
    simp
  | cons cc rest ih =>
    intro st hst
    obtain ⟨t, ht⟩ := hm cc (List.mem_cons_self _ _)
    unfold relay_to_members
    dsimp only
    rw [if_neg (by decide), hst, ht]
    dsimp only
    rw [hreply, send_reply_ok env hsend]
    dsimp only
    rw [if_neg (by decide)]
    rw [ih (fun c hc => hm c (List.mem_cons_of_mem _ hc))
      { ctx := st.ctx, sent := st.sent ++ [(t.client_socket, msg)] } hst]
    have : nick_socket ctx cc.nick = t.client_socket := by
      unfold nick_socket
      rw [ht]
      rfl
    simp [this, hst]

theorem ex_irc_env_sends_succeed : sends_succeed ex_irc_env :=
  fun _ _ _ => (by decide : (0 : Int) ≠ -1)

/-! ## Words of a message -/

theorem space_isPrefixOf (c : Char) (rest : sds) :
    List.isPrefixOf " ".toList (c :: rest) = (' ' == c) := by
  show List.isPrefixOf [' '] (c :: rest) = (' ' == c)
  simp [List.isPrefixOf]

theorem sdssplitlen_scan_nil (sep : sds) (skip : Nat) (cur : sds) :
    sdssplitlen_scan sep skip [] cur = [cur] := by
  cases skip <;> rfl

theorem sdssplitlen_scan_skip (sep : sds) (skip : Nat) (c : Char) (rest cur : sds) :
    sdssplitlen_scan sep (skip + 1) (c :: rest) cur = sdssplitlen_scan sep skip rest cur := rfl

theorem sdssplitlen_scan_cons (sep : sds) (c : Char) (rest cur : sds) :
    sdssplitlen_scan sep 0 (c :: rest) cur
      = if sep.isPrefixOf (c :: rest) then cur :: sdssplitlen_scan sep (sep.length - 1) rest []
        else sdssplitlen_scan sep 0 rest (cur ++ [c]) := rfl

theorem sdssplitlen_scan_word (a : sds) (ha : ' ' ∉ a) :
    ∀ (cur rest : sds),
      sdssplitlen_scan " ".toList 0 (a ++ ' ' :: rest) cur
        = (cur ++ a) :: sdssplitlen_scan " ".toList 0 rest [] := by
  induction a with
  | nil =>
    intro cur rest
    rw [List.nil_append, List.append_nil, sdssplitlen_scan_cons, space_isPrefixOf]
    simp only [beq_self_eq_true, if_true]
    rfl
  | cons c a ih =>
    intro cur rest
    have hc : ¬ (' ' = c) := fun e => ha (by rw [e]; exact List.mem_cons_self _ _)
    have ha2 : ' ' ∉ a := fun e => ha (List.mem_cons_of_mem _ e)
    rw [List.cons_append, sdssplitlen_scan_cons, space_isPrefixOf]
    have : (' ' == c) = false := by simpa using hc
    rw [this]
    simp only [Bool.false_eq_true, if_false]
    rw [ih ha2]
    simp

/-- The second word of a message that begins with two words without a space. -/
theorem second_word_of (a b rest : sds) (ha : ' ' ∉ a) (hb : ' ' ∉ b) :
    second_word (a ++ (" ".toList ++ (b ++ (" ".toList ++ rest)))) = b := by
  unfold second_word sdssplitlen
  have e1 : a ++ (" ".toList ++ (b ++ (" ".toList ++ rest))) = a ++ ' ' :: (b ++ ' ' :: rest) := rfl
  rw [e1]
  have hne : a ++ ' ' :: (b ++ ' ' :: rest) ≠ [] := by simp
  rw [if_neg hne, sdssplitlen_scan_word a ha, sdssplitlen_scan_word b hb]
  simp

/-! ## C31: the table of nicks -/

theorem add_NICK_keys_distinct (n : sds) (client_socket : Int) (nicks : List nick_t)
    (h : (nicks.map (fun e => e.nick)).Nodup) :
    ((add_NICK n client_socket nicks).map (fun e => e.nick)).Nodup := by
  unfold add_NICK
  cases hf : find_NICK n nicks with
  | some _ => exact h
  | none =>
    dsimp only
    rw [List.map_append, List.map_cons, List.map_nil]
    apply List.Nodup.append h (List.nodup_singleton _)
    intro x hx hx2
    rw [List.mem_singleton] at hx2
    rw [hx2] at hx
    obtain ⟨e, he, hn⟩ := List.mem_map.mp hx
    unfold find_NICK at hf
    have := List.find?_eq_none.mp hf e he
    simp [hn] at this

theorem remove_NICK_keys_distinct (n : sds) (nicks : List nick_t)
    (h : (nicks.map (fun e => e.nick)).Nodup) :
    ((remove_NICK n nicks).map (fun e => e.nick)).Nodup := by
  unfold remove_NICK
  exact List.Nodup.sublist (List.Sublist.map _ (List.eraseP_sublist _)) h

/-- What `handle_NICK` does to the table of nicks: nothing, or the new nick is
added, after it has been removed in the case of a registered client. -/
theorem handle_NICK_nicks (env : irc_env) (st : irc_state) (cmdtokens : List sds) (argc : Int)
    (conn : conn_info_t) (r : irc_state × Int)
    (h : handle_NICK env st cmdtokens argc conn = some r) :
    r.1.ctx.nicks_hashtable = st.ctx.nicks_hashtable ∨
    (∃ n client_socket,
      r.1.ctx.nicks_hashtable = add_NICK n client_socket st.ctx.nicks_hashtable) ∨
    (∃ n client_socket, r.1.ctx.nicks_hashtable
      = add_NICK n client_socket (remove_NICK n st.ctx.nicks_hashtable)) := by
  have herr : ∀ code, (reply_error env st cmdtokens code conn).map (fun r => (r.1, CHIRC_ERROR))
      = some r → r.1.ctx.nicks_hashtable = st.ctx.nicks_hashtable := by
    intro code he
    have := reply_error_map_sends env st cmdtokens code conn _ (fun p => p.1) (fun _ => rfl) r he
    rw [this.1]
  unfold handle_NICK at h
  dsimp only at h
  split at h
  · exact Or.inl (herr _ h)
  · split at h
    · cases h
    · split at h
      · exact Or.inl (herr _ h)
      · split at h
        · cases h
          exact Or.inr (Or.inl ⟨_, _, rfl⟩)
        · split at h
          · split at h
            · cases h
            · rename_i x hx
              have hs := server_reply_nick_sends env st _ _ _ _ x hx
              split at h
              · cases h
                left
                rw [hs.1]
              · split at h
                · cases h
                · rename_i looped hl
                  have hs2 := sends_only_trans hs
                    (handle_NICK_channels_sends env _ _ _ _ _ _ looped hl)
                  split at h
                  · cases h
                    right
                    right
                    rw [← hs2.1]
                    exact ⟨_, _, rfl⟩
                  · cases h
                    left
                    rw [hs2.1]
          · split at h
            · cases h
              exact Or.inl rfl
            · cases h
              exact Or.inl rfl

theorem handle_NICK_keys_distinct (env : irc_env) (st : irc_state) (cmdtokens : List sds)
    (argc : Int) (conn : conn_info_t) (r : irc_state × Int)
    (h : handle_NICK env st cmdtokens argc conn = some r) (hd : nick_keys_distinct st.ctx) :
    nick_keys_distinct r.1.ctx := by
  unfold nick_keys_distinct at hd ⊢
  rcases handle_NICK_nicks env st cmdtokens argc conn r h with e | ⟨n, k, e⟩ | ⟨n, k, e⟩
  · rw [e]
    exact hd
  · rw [e]
    exact add_NICK_keys_distinct _ _ _ hd
  · rw [e]
    exact add_NICK_keys_distinct _ _ _ (remove_NICK_keys_distinct _ _ hd)

/-- What `handle_USER` does to the table of nicks: nothing, or a nick is added. -/
theorem handle_USER_nicks (env : irc_env) (st : irc_state) (cmdtokens : List sds) (argc : Int)
    (conn : conn_info_t) (r : irc_state × Int)
    (h : handle_USER env st cmdtokens argc conn = some r) :
    r.1.ctx.nicks_hashtable = st.ctx.nicks_hashtable ∨
    (∃ n client_socket,
      r.1.ctx.nicks_hashtable = add_NICK n client_socket st.ctx.nicks_hashtable) := by
  unfold handle_USER at h
  dsimp only at h
  split at h
  · have := reply_error_map_sends env st cmdtokens _ conn _ (fun p => p.1) (fun _ => rfl) r h
    left
    rw [this.1]
  · split at h
    · cases h
      exact Or.inl rfl
    · split at h
      · split at h
        · cases h
          exact Or.inl rfl
        · split at h
          · cases h
            exact Or.inr ⟨_, _, rfl⟩
          · split at h
            · cases h
              exact Or.inl rfl
            · cases h
              exact Or.inl rfl
      · cases h

theorem handle_USER_keys_distinct (env : irc_env) (st : irc_state) (cmdtokens : List sds)
    (argc : Int) (conn : conn_info_t) (r : irc_state × Int)
    (h : handle_USER env st cmdtokens argc conn = some r) (hd : nick_keys_distinct st.ctx) :
    nick_keys_distinct r.1.ctx := by
  unfold nick_keys_distinct at hd ⊢
  rcases handle_USER_nicks env st cmdtokens argc conn r h with e | ⟨n, k, e⟩
  · rw [e]
    exact hd
  · rw [e]
    exact add_NICK_keys_distinct _ _ _ hd

theorem server_reply_quit_relay_sends (env : irc_env) (st : irc_state) (prefix_ : sds)
    (cmdtokens : List sds) (argc : Int) (client_socket : Int) (r : irc_state × Int)
    (h : server_reply_quit_relay env st prefix_ cmdtokens argc client_socket = some r) :
    sends_only st r.1 := by
  unfold server_reply_quit_relay at h
  split at h
  · cases h
  · dsimp only at h
    split at h
    · cases h
    · exact map_send_reply_sends env st client_socket _ r h

theorem server_reply_quit_sends (env : irc_env) (st : irc_state) (cmdtokens : List sds)
    (argc : Int) (client_hostname : sds) (client_socket : Int) (r : irc_state × Int)
    (h : server_reply_quit env st cmdtokens argc client_hostname client_socket = some r) :
    sends_only st r.1 := by
  unfold server_reply_quit at h
  dsimp only at h
  split at h
  · cases h
  · cases h
    exact send_reply_sends env st _ _

/-- The loop of `handle_QUIT` over the channels leaves the tables of clients and
of nicks as they are. -/
theorem handle_QUIT_channels_tables (env : irc_env) (prefix_ : sds) (cmdtokens : List sds)
    (argc : Int) (nick : sds) (channels : List channel_t) :
    ∀ (st : irc_state) (r : irc_state × Bool),
      handle_QUIT_channels env prefix_ cmdtokens argc nick channels st = some r →
      r.1.ctx.nicks_hashtable = st.ctx.nicks_hashtable ∧
      r.1.ctx.client_hashtable = st.ctx.client_hashtable := by
  induction channels with
  | nil =>
    intro st r h
    unfold handle_QUIT_channels at h
    cases h
    exact ⟨rfl, rfl⟩
  | cons c rest ih =>
    intro st r h
    unfold handle_QUIT_channels at h
    split at h
    · exact ih st r h
    · split at h
      · cases h
      · rename_i x hx
        have hs := relay_to_members_sends _ _
          (fun st client_socket r hr =>
            server_reply_quit_relay_sends env st prefix_ cmdtokens argc client_socket r hr)
          _ st x hx
        split at h
        · have := ih _ r h
          dsimp only at this
          rw [this.1, this.2, hs.1]
          exact ⟨rfl, rfl⟩
        · cases h
          rw [hs.1]
          exact ⟨rfl, rfl⟩

/-- The function `handle_QUIT` leaves the tables of clients and of nicks as they
are. -/
theorem handle_QUIT_tables (env : irc_env) (st : irc_state) (cmdtokens : List sds) (argc : Int)
    (conn : conn_info_t) (r : irc_state × Option Int)
    (h : handle_QUIT env st cmdtokens argc conn = some r) :
    r.1.ctx.nicks_hashtable = st.ctx.nicks_hashtable ∧
    r.1.ctx.client_hashtable = st.ctx.client_hashtable := by
  unfold handle_QUIT at h
  dsimp only at h
  split at h
  · have := reply_error_map_sends env _ cmdtokens _ conn _ (fun p => p.1) (fun _ => rfl) r h
    rw [this.1]
    exact ⟨rfl, rfl⟩
  · split at h
    · have := reply_error_map_sends env _ cmdtokens _ conn _ (fun p => p.1) (fun _ => rfl) r h
      rw [this.1]
      exact ⟨rfl, rfl⟩
    · split at h
      · cases h
      · rename_i x hx
        have hs := server_reply_quit_sends env _ _ _ _ _ x hx
        split at h
        · cases h
          rw [hs.1]
          exact ⟨rfl, rfl⟩
        · split at h
          · cases h
          · rename_i looped hl
            have ht := handle_QUIT_channels_tables env _ _ _ _ _ _ looped hl
            rw [hs.1] at ht
            split at h
            · cases h
              exact ht
            · cases h
              exact ht

/-- After its handler, `handle_request` only sends. -/
theorem handle_request_after_handler (env : irc_env) (st : irc_state) (cmdtokens : List sds)
    (argc : Int) (conn : conn_info_t) (cmd : sds) (h : sds × handler_t)
    (r : irc_state × Option Int)
    (h0 : cmdtokens[0]? = some cmd)
    (hfound : handlers.find? (fun h => strncmp_eq h.1 cmd MAX_STR_LEN) = some h)
    (hr : handle_request env st cmdtokens argc conn = some r) :
    ∃ r1, h.2 env st cmdtokens argc conn = some r1 ∧ sends_only r1.1 r.1 := by
  unfold handle_request at hr
  dsimp only at hr
  rw [h0] at hr
  dsimp only at hr
  rw [hfound] at hr
  dsimp only at hr
  cases hran : h.2 env st cmdtokens argc conn with
  | none =>
    rw [hran] at hr
    cases hr
  | some r1 =>
    rw [hran] at hr
    refine ⟨r1, rfl, ?_⟩
    obtain ⟨st1, rc1⟩ := r1
    cases rc1 with
    | none =>
      dsimp only at hr
      cases hr
      exact sends_only_refl _
    | some rc =>
      dsimp only at hr
      split at hr
      · cases hr
        exact sends_only_refl _
      · split at hr
        · cases hr
          exact sends_only_refl _
        · split at hr
          · split at hr
            · exact reply_error_map_sends env _ cmdtokens _ conn _ (fun p => p.1)
                (fun _ => rfl) r hr
            · cases hw : handle_request_welcome env st1 cmdtokens argc conn cmd _ with
              | none =>
                rw [hw] at hr
                cases hr
              | some x =>
                rw [hw] at hr
                cases hr
                exact handle_request_welcome_sends env _ _ _ _ _ _ x hw
          · cases hr
            exact sends_only_refl _

theorem registry_reachable_keys_distinct (st : irc_state) (h : registry_reachable st) :
    nick_keys_distinct st.ctx := by
  induction h with
  | start st _ h2 =>
    unfold nick_keys_distinct
    rw [h2]
    exact List.nodup_nil
  | request env st cmdtokens argc conn cmd r _ h0 hc hr ih =>
    rcases hc with e | e | e
    · subst e
      obtain ⟨r1, h1, hs⟩ := handle_request_after_handler env st cmdtokens argc conn _
        ("NICK".toList, returning handle_NICK) r h0 rfl hr
      unfold nick_keys_distinct
      rw [hs.1]
      dsimp only [returning] at h1
      cases hn : handle_NICK env st cmdtokens argc conn with
      | none =>
        rw [hn] at h1
        cases h1
      | some x =>
        rw [hn] at h1
        cases h1
        exact handle_NICK_keys_distinct env st cmdtokens argc conn x hn ih
    · subst e
      obtain ⟨r1, h1, hs⟩ := handle_request_after_handler env st cmdtokens argc conn _
        ("USER".toList, returning handle_USER) r h0 rfl hr
      unfold nick_keys_distinct
      rw [hs.1]
      dsimp only [returning] at h1
      cases hn : handle_USER env st cmdtokens argc conn with
      | none =>
        rw [hn] at h1
        cases h1
      | some x =>
        rw [hn] at h1
        cases h1
        exact handle_USER_keys_distinct env st cmdtokens argc conn x hn ih
    · subst e
      obtain ⟨r1, h1, hs⟩ := handle_request_after_handler env st cmdtokens argc conn _
        ("QUIT".toList, handle_QUIT) r h0 rfl hr
      unfold nick_keys_distinct
      rw [hs.1, (handle_QUIT_tables env st cmdtokens argc conn r1 h1).1]
      exact ih

/-- The runs of `ex_requests` with NICK, USER and QUIT lines are runs of
`registry_reachable`. -/
theorem ex_requests_reachable (lines : List (Int × String)) :
    ∀ (st st2 : irc_state), registry_reachable st →
      (∀ l ∈ lines, (ex_line l.2)[0]? = some "NICK".toList ∨
        (ex_line l.2)[0]? = some "USER".toList ∨ (ex_line l.2)[0]? = some "QUIT".toList) →
      ex_requests st lines = some st2 → registry_reachable st2 := by
  induction lines with
  | nil =>
    intro st st2 h _ he
    cases he
    exact h
  | cons l rest ih =>
    intro st st2 h hl he
    obtain ⟨client_socket, line⟩ := l
    unfold ex_requests at he
    cases hq : ex_request st client_socket line with
    | none =>
      rw [hq] at he
      cases he
    | some r =>
      rw [hq] at he
      dsimp only at he
      apply ih r.1 st2 _ (fun l hm => hl l (List.mem_cons_of_mem _ hm)) he
      have h0 := hl (client_socket, line) (List.mem_cons_self _ _)
      dsimp only at h0
      rcases h0 with e | e | e
      · exact registry_reachable.request ex_irc_env st _ _ _ _ r h e (Or.inl rfl) hq
      · exact registry_reachable.request ex_irc_env st _ _ _ _ r h e (Or.inr (Or.inl rfl)) hq
      · exact registry_reachable.request ex_irc_env st _ _ _ _ r h e (Or.inr (Or.inr rfl)) hq

/-- C31: the table of nicks is not a bijection between the nicks of the registered
clients and their sockets.  What holds in every state that NICK, USER and QUIT
commands lead to: the nicks of the table are distinct, so that a nick maps to
one socket.  What does not hold: (1) when the clients of sockets 4 and 5 both
send `NICK x` and then USER, both are REGISTERED with the nick x, and the table
maps x to socket 4 only; (2) when alice, registered on socket 4, sends
`NICK carol`, the table holds alice and carol, both for socket 4, and the client
has the nick carol; (3) after `QUIT` of alice, which ends her thread, the table
still maps alice to socket 4 and the table of clients still has the client as
REGISTERED. -/
theorem nick_table_keeps_stale_nicks (st : irc_state) (h : registry_reachable st) :
    nick_keys_distinct st.ctx ∧
    ((ex_requests ex_empty_server
        [(4, "NICK x"), (5, "NICK x"), (4, "USER a * * :A"), (5, "USER b * * :B")]).map
        (fun st => (client_nicks st, st.ctx.nicks_hashtable))
      = some ([(4, "x".toList, conn_status.REGISTERED), (5, "x".toList, conn_status.REGISTERED)],
          [⟨"x".toList, 4⟩])) ∧
    ((ex_requests ex_empty_server
        [(4, "NICK alice"), (4, "USER al * * :Alice"), (4, "NICK carol")]).map
        (fun st => (client_nicks st, st.ctx.nicks_hashtable))
      = some ([(4, "carol".toList, conn_status.REGISTERED)],
          [⟨"alice".toList, 4⟩, ⟨"carol".toList, 4⟩])) ∧
    ((ex_requests ex_empty_server [(4, "NICK alice"), (4, "USER al * * :Alice")]).map
        (fun st => (client_nicks st, st.ctx.nicks_hashtable))
      = some ([(4, "alice".toList, conn_status.REGISTERED)], [⟨"alice".toList, 4⟩]) ∧
      ((ex_requests ex_empty_server [(4, "NICK alice"), (4, "USER al * * :Alice")]).bind
        (fun st => ex_request st 4 "QUIT")).map
        (fun r => (client_nicks r.1, r.1.ctx.nicks_hashtable, r.2))
      = some ([(4, "alice".toList, conn_status.REGISTERED)], [⟨"alice".toList, 4⟩], none)) :=
  ⟨registry_reachable_keys_distinct st h, rfl, rfl, rfl, rfl⟩

/-- C31, an instance: the state after `NICK alice`, `USER`, `NICK carol` of the
client of socket 4 is one that NICK, USER and QUIT commands lead to; the two
nicks of its table are distinct, and both belong to socket 4. -/
theorem nick_table_keeps_stale_nicks_witness :
    registry_reachable ex_nick_changed ∧
    nick_keys_distinct ex_nick_changed.ctx ∧
    ex_nick_changed.ctx.nicks_hashtable = [⟨"alice".toList, 4⟩, ⟨"carol".toList, 4⟩] :=
  ⟨ex_requests_reachable ex_nick_change_lines ex_empty_server ex_nick_changed
      (registry_reachable.start _ rfl rfl) (by decide) rfl,
    (nick_table_keeps_stale_nicks ex_nick_changed
      (ex_requests_reachable ex_nick_change_lines ex_empty_server ex_nick_changed
        (registry_reachable.start _ rfl rfl) (by decide) rfl)).1,
    rfl⟩

/-! ## C32: an empty nick -/

theorem write_USER_of_not_found (client_socket : Int) (s : client_t) (clients : List client_t)
    (h : find_USER client_socket clients = none) : write_USER client_socket s clients = clients := by
  induction clients with
  | nil => rfl
  | cons c rest ih =>
    unfold find_USER at h
    rw [List.find?_cons] at h
    by_cases hc : c.socket = client_socket
    · simp [hc] at h
    · have hd : decide (c.socket = client_socket) = false := by simpa using hc
      rw [hd] at h
      unfold write_USER
      rw [if_neg hc, ih h]

/-- C32: `handle_NICK` tests the number of tokens and not the nick, and the tokens
of a line with two spaces after NICK have an empty second token, so that an
empty nick is registered.  (1) For tokens whose second is empty, with `argc` of
at least 2, from a connection that has no client yet, on a server whose table
of nicks has no empty nick, `handle_NICK` adds a client with the empty nick
in the state USER_MISSING and returns NOT_REGISTERED.  (2) The line `NICK  x`
has the tokens NICK, the empty string and x.  (3) When the bytes
"NICK  x\r\nUSER a b c d\r\n" arrive on socket 4 of a server without clients,
`handle_request` is called for the two lines, and afterwards the client of
socket 4 is REGISTERED with the empty nick, and the table of nicks maps the empty
string to socket 4. -/
theorem empty_nick_is_registered (env : irc_env) (st : irc_state) (cmdtokens : List sds)
    (argc : Int) (conn : conn_info_t)
    (h1 : cmdtokens[1]? = some []) (h2 : 2 ≤ argc)
    (h3 : server_find_NICK st.ctx [] = none)
    (h4 : server_find_USER st.ctx conn.client_socket = none) :
    handle_NICK env st cmdtokens argc conn
      = some ({ st with ctx := { st.ctx with client_hashtable := st.ctx.client_hashtable
          ++ [⟨conn.client_socket, env.malloc_client_hostname,
                ⟨[], [], [], conn_status.USER_MISSING, env.malloc_is_irc_operator⟩⟩] } },
          conn_status.NOT_REGISTERED.toInt) ∧
    ex_line "NICK  x" = ["NICK".toList, [], "x".toList] ∧
    (service_single_client ex_irc_env (ex_conn 4) ["NICK  x\r\nUSER a b c d\r\n".toList]
        ex_empty_server []).map
        (fun r => (client_nicks r.1, r.1.ctx.nicks_hashtable, r.2.1, r.2.2))
      = some ([(4, [], conn_status.REGISTERED)], [⟨[], 4⟩],
          [["NICK".toList, [], "x".toList],
           ["USER".toList, "a".toList, "b".toList, "c".toList, "d".toList]],
          some []) := by
  refine ⟨?_, rfl, rfl⟩
  unfold handle_NICK
  dsimp only
  have hn : ¬ (argc - 1 < NICK_PARAMETER_NUM) := by
    unfold NICK_PARAMETER_NUM
    omega
  rw [if_neg hn, h1]
  dsimp only
  rw [h3, h4]
  dsimp only
  rw [if_neg (show ¬ (conn_status.NOT_REGISTERED = conn_status.NICK_MISSING) by decide),
    if_neg (show ¬ (conn_status.NOT_REGISTERED = conn_status.REGISTERED) by decide), if_pos rfl]
  unfold server_add_USER add_USER
  dsimp only
  unfold server_find_USER at h4
  rw [write_USER_of_not_found _ _ _ h4, h4, if_neg hn]

/-- C32, an instance: `NICK  x` from socket 4 on the server without clients. -/
theorem empty_nick_is_registered_witness :
    (ex_line "NICK  x")[1]? = some [] ∧
    (handle_NICK ex_irc_env ex_empty_server (ex_line "NICK  x") 3 (ex_conn 4)).map
        (fun r => (client_nicks r.1, r.2))
      = some ([(4, [], conn_status.USER_MISSING)], 0) :=
  ⟨rfl, by
    rw [(empty_nick_is_registered ex_irc_env ex_empty_server (ex_line "NICK  x") 3 (ex_conn 4)
      rfl (by decide) rfl rfl).1]
    rfl⟩

/-! ## C33: JOIN and PART -/

theorem find_CHANNEL_append_new (name : sds) (channels : List channel_t) (c : channel_t)
    (h : find_CHANNEL name channels = none) (hc : c.channel_name = name) :
    find_CHANNEL name (channels ++ [c]) = some c := by
  unfold find_CHANNEL at h ⊢
  rw [List.find?_append, h]
  simp [hc]

theorem write_CHANNEL_append_new (name : sds) (members : List channel_client)
    (channels : List channel_t) (c : channel_t)
    (h : find_CHANNEL name channels = none) (hc : c.channel_name = name) :
    write_CHANNEL name members (channels ++ [c])
      = channels ++ [{ c with channel_clients := members }] := by
  induction channels with
  | nil =>
    simp [write_CHANNEL, hc]
  | cons d rest ih =>
    unfold find_CHANNEL at h ih
    rw [List.find?_cons] at h
    by_cases hd : d.channel_name = name
    · simp [hd] at h
    · have hd2 : decide (d.channel_name = name) = false := by simpa using hd
      rw [hd2] at h
      rw [List.cons_append]
      unfold write_CHANNEL
      rw [if_neg hd, ih h]
      rfl

theorem remove_CHANNEL_append_new (name : sds) (channels : List channel_t) (c : channel_t)
    (h : find_CHANNEL name channels = none) (hc : c.channel_name = name) :
    remove_CHANNEL name (channels ++ [c]) = channels := by
  induction channels with
  | nil =>
    unfold remove_CHANNEL
    simp [hc]
  | cons d rest ih =>
    unfold find_CHANNEL at h ih
    rw [List.find?_cons] at h
    by_cases hd : d.channel_name = name
    · simp [hd] at h
    · have hd2 : decide (d.channel_name = name) = false := by simpa using hd
      rw [hd2] at h
      unfold remove_CHANNEL at ih ⊢
      rw [List.cons_append, List.eraseP_cons, hd2]
      simp only [cond_false]
      rw [ih h]

theorem remove_write_CHANNEL (name : sds) (members : List channel_client)
    (channels : List channel_t) :
    remove_CHANNEL name (write_CHANNEL name members channels) = remove_CHANNEL name channels := by
  induction channels with
  | nil => rfl
  | cons d rest ih =>
    unfold remove_CHANNEL at ih ⊢
    unfold write_CHANNEL
    by_cases hd : d.channel_name = name
    · rw [if_pos hd, List.eraseP_cons, List.eraseP_cons]
      simp [hd]
    · rw [if_neg hd, List.eraseP_cons, List.eraseP_cons]
      have hd2 : decide (d.channel_name = name) = false := by simpa using hd
      rw [hd2]
      simp only [cond_false]
      rw [ih]

theorem write_CHANNEL_mem (name : sds) (members : List channel_client)
    (channels : List channel_t) (c : channel_t)
    (h : c ∈ write_CHANNEL name members channels) :
    c ∈ channels ∨ c.channel_clients = members := by
  induction channels with
  | nil => cases h
  | cons d rest ih =>
    unfold write_CHANNEL at h
    by_cases hd : d.channel_name = name
    · rw [if_pos hd] at h
      rcases List.mem_cons.mp h with e | e
      · right
        rw [e]
      · exact Or.inl (List.mem_cons_of_mem _ e)
    · rw [if_neg hd] at h
      rcases List.mem_cons.mp h with e | e
      · left
        rw [e]
        exact List.mem_cons_self _ _
      · rcases ih e with e2 | e2
        · exact Or.inl (List.mem_cons_of_mem _ e2)
        · exact Or.inr e2

/-- The steps with which `handle_PART` and `handle_QUIT` take a member out of a
channel leave no channel without a member. -/
theorem leave_channel_no_empty (name : sds) (members : List channel_client)
    (channels : List channel_t) (h : ∀ c ∈ channels, c.channel_clients ≠ []) :
    ∀ c ∈ (if (members.length : Int) ≤ 0 then
        remove_CHANNEL name (write_CHANNEL name members channels)
      else write_CHANNEL name members channels), c.channel_clients ≠ [] := by
  intro c hc
  by_cases hm : (members.length : Int) ≤ 0
  · rw [if_pos hm, remove_write_CHANNEL] at hc
    unfold remove_CHANNEL at hc
    exact h c (List.mem_of_mem_eraseP hc)
  · rw [if_neg hm] at hc
    rcases write_CHANNEL_mem _ _ _ _ hc with e | e
    · exact h c e
    · rw [e]
      intro e2
      rw [e2] at hm
      exact hm (le_refl _)

theorem chirc_message_to_string_add (msg : chirc_message_t) (param : sds) (longlast : Bool) :
    ∃ s, chirc_message_to_string (chirc_message_add_parameter msg param longlast) = some s := by
  unfold chirc_message_to_string chirc_message_add_parameter
  dsimp only
  rw [List.getLast?_append]
  simp

theorem server_reply_part_eq (env : irc_env) (prefix_ : sds) (cmdtokens : List sds)
    (channel_name : sds) (t0 : sds) (h0 : cmdtokens[0]? = some t0) :
    ∃ msg, ∀ (st : irc_state) (client_socket : Int),
      server_reply_part env st prefix_ cmdtokens channel_name 2 client_socket
        = some (send_reply env st client_socket msg) := by
  obtain ⟨s, hs⟩ := chirc_message_to_string_add (chirc_message_construct prefix_ t0)
    (channel_name ++ "\r\n".toList) false
  refine ⟨s, fun st client_socket => ?_⟩
  unfold server_reply_part
  rw [h0]
  dsimp only
  rw [if_neg (by decide)]
  dsimp only
  rw [hs]
  rfl

theorem server_reply_part_sends (env : irc_env) (st : irc_state) (prefix_ : sds)
    (cmdtokens : List sds) (channel_name : sds) (argc : Int) (client_socket : Int)
    (r : irc_state × Int)
    (h : server_reply_part env st prefix_ cmdtokens channel_name argc client_socket = some r) :
    sends_only st r.1 := by
  unfold server_reply_part at h
  split at h
  · cases h
  · dsimp only at h
    split at h
    · cases h
    · exact map_send_reply_sends env st client_socket _ r h

theorem server_reply_join_relay_eq (env : irc_env) (join_prefix_ : sds) (cmdtokens : List sds)
    (channel_name : sds) (t0 : sds) (h0 : cmdtokens[0]? = some t0) :
    ∃ msg, ∀ (st : irc_state) (client_socket : Int),
      server_reply_join_relay env st join_prefix_ cmdtokens channel_name client_socket
        = some (send_reply env st client_socket msg) := by
  obtain ⟨s, hs⟩ := chirc_message_to_string_add (chirc_message_construct join_prefix_ t0)
    (channel_name ++ "\r\n".toList) false
  refine ⟨s, fun st client_socket => ?_⟩
  unfold server_reply_join_relay
  rw [h0]
  dsimp only
  rw [hs]
  rfl

theorem server_reply_join_eq (env : irc_env) (prefix_ cmd nickname channel_name : sds)
    (c : channel_t) :
    ∃ msg, ∀ (st : irc_state) (client_socket : Int),
      server_reply_join env st prefix_ cmd nickname channel_name client_socket c
        = some (send_reply env st client_socket msg) := by
  unfold server_reply_join
  dsimp only
  obtain ⟨s, hs⟩ := chirc_message_to_string_add
    (if strncmp_eq cmd RPL_NAMREPLY MAX_STR_LEN then
      (chirc_message_add_parameter
        (chirc_message_add_parameter
          (chirc_message_add_parameter (chirc_message_construct prefix_ cmd) nickname false)
          "=".toList false) ([] ++ channel_name) false,
        "@".toList ++ sdsjoinsds (c.channel_clients.map (fun cc => cc.nick)) " ".toList
          ++ "\r\n".toList)
    else if strncmp_eq cmd RPL_ENDOFNAMES MAX_STR_LEN then
      (chirc_message_add_parameter
        (chirc_message_add_parameter (chirc_message_construct prefix_ cmd) nickname false)
        ([] ++ channel_name) false, "End of NAMES list\r\n".toList)
    else
      (chirc_message_add_parameter (chirc_message_construct prefix_ cmd) nickname false,
        ([] : sds))).1
    (if strncmp_eq cmd RPL_NAMREPLY MAX_STR_LEN then
      (chirc_message_add_parameter
        (chirc_message_add_parameter
          (chirc_message_add_parameter (chirc_message_construct prefix_ cmd) nickname false)
          "=".toList false) ([] ++ channel_name) false,
        "@".toList ++ sdsjoinsds (c.channel_clients.map (fun cc => cc.nick)) " ".toList
          ++ "\r\n".toList)
    else if strncmp_eq cmd RPL_ENDOFNAMES MAX_STR_LEN then
      (chirc_message_add_parameter
        (chirc_message_add_parameter (chirc_message_construct prefix_ cmd) nickname false)
        ([] ++ channel_name) false, "End of NAMES list\r\n".toList)
    else
      (chirc_message_add_parameter (chirc_message_construct prefix_ cmd) nickname false,
        ([] : sds))).2 true
  refine ⟨s, fun st client_socket => ?_⟩
  rw [hs]
  rfl

/-- A loop over the members returns when every member is in the table of nicks
and the reply returns and only sends. -/
theorem relay_to_members_total (reply : irc_state → Int → Option (irc_state × Int))
    (skip : Option sds)
    (hreply : ∀ st client_socket, ∃ r, reply st client_socket = some r ∧ sends_only st r.1)
    (ctx : server_ctx) (members : List channel_client)
    (hm : ∀ cc ∈ members, ∃ t, server_find_NICK ctx cc.nick = some t) :
    ∀ (st : irc_state), st.ctx = ctx → ∃ r, relay_to_members reply skip members st = some r := by
  induction members with
  | nil =>
    intro st _
    exact ⟨_, rfl⟩
  | cons cc rest ih =>
    intro st hst
    have ih2 := ih (fun c hc => hm c (List.mem_cons_of_mem _ hc))
    obtain ⟨t, ht⟩ := hm cc (List.mem_cons_self _ _)
    unfold relay_to_members
    split_ifs
    · exact ih2 st hst
    · rw [hst, ht]
      dsimp only
      obtain ⟨r, hr, hs⟩ := hreply st t.client_socket
      rw [hr]
      dsimp only
      split_ifs
      · exact ⟨_, rfl⟩
      · exact ih2 r.1 (hs.1.trans hst)

theorem server_add_CHANNEL_CLIENT_new (ctx : server_ctx) (nick name : sds)
    (h : server_find_CHANNEL ctx name = none) :
    server_add_CHANNEL_CLIENT (server_add_CHANNEL ctx name) nick name false
      = some { ctx with channels_hashtable :=
          ctx.channels_hashtable ++ [⟨name, [⟨nick, "o".toList⟩]⟩] } := by
  unfold server_find_CHANNEL at h
  have hadd : add_CHANNEL name ctx.channels_hashtable
      = ctx.channels_hashtable ++ [⟨name, []⟩] := by
    unfold add_CHANNEL
    rw [h]
  unfold server_add_CHANNEL_CLIENT server_add_CHANNEL server_find_CHANNEL
  dsimp only
  rw [hadd, find_CHANNEL_append_new name _ ⟨name, []⟩ h rfl]
  dsimp only
  rw [if_pos rfl, write_CHANNEL_append_new name _ _ ⟨name, []⟩ h rfl]
  have hw : write_mode nick "o".toList (add_CHANNEL_CLIENT nick []) = [⟨nick, "o".toList⟩] := by
    simp [add_CHANNEL_CLIENT, find_CHANNEL_CLIENT, write_mode]
  rw [hw]

/-- JOIN of a registered client for a channel that is not there: the channel is
added at the end of the table with the client as its one member, in the mode
"o", whatever becomes of the sends. -/
theorem handle_JOIN_new_channel (env : irc_env) (st : irc_state) (cmdtokens : List sds)
    (argc : Int) (conn : conn_info_t) (s : client_t) (t0 name : sds)
    (hs : server_find_USER st.ctx conn.client_socket = some s)
    (hreg : s.info.state = conn_status.REGISTERED)
    (hname : server_find_CHANNEL st.ctx name = none)
    (hnick : ∃ t, server_find_NICK st.ctx s.info.nick = some t)
    (h0 : cmdtokens[0]? = some t0) (h1 : cmdtokens[1]? = some name) (hargc : 2 ≤ argc) :
    ∃ r, handle_JOIN env st cmdtokens argc conn = some r ∧
      r.1.ctx = { st.ctx with channels_hashtable :=
        st.ctx.channels_hashtable ++ [⟨name, [⟨s.info.nick, "o".toList⟩]⟩] } := by
  have hn : ¬ (argc - 1 < JOIN_PARAMETER_NUM) := by
    unfold JOIN_PARAMETER_NUM
    omega
  have hfind : server_find_CHANNEL
      { st.ctx with channels_hashtable :=
        st.ctx.channels_hashtable ++ [⟨name, [⟨s.info.nick, "o".toList⟩]⟩] } name
      = some ⟨name, [⟨s.info.nick, "o".toList⟩]⟩ := by
    unfold server_find_CHANNEL at hname ⊢
    exact find_CHANNEL_append_new name _ _ hname rfl
  unfold handle_JOIN
  dsimp only
  rw [hs]
  dsimp only
  rw [if_neg (by rw [hreg]; exact fun h => h rfl), if_neg hn, h1]
  dsimp only
  rw [hname]
  dsimp only [Option.isSome]
  rw [if_neg (by decide)]
  have hcc : server_find_CHANNEL_CLIENT ⟨name, []⟩ s.info.nick = none := rfl
  rw [hcc]
  dsimp only
  rw [server_add_CHANNEL_CLIENT_new st.ctx s.info.nick name hname]
  dsimp only
  rw [hfind]
  dsimp only
  obtain ⟨m1, hm1⟩ := server_reply_join_relay_eq env (user_prefix_ s conn.client_hostname)
    cmdtokens name t0 h0
  obtain ⟨x, hx⟩ := relay_to_members_total
    (fun st client_socket =>
      server_reply_join_relay env st (user_prefix_ s conn.client_hostname) cmdtokens name
        client_socket) none
    (fun st client_socket => ⟨_, hm1 st client_socket, send_reply_sends env st _ _⟩)
    { st.ctx with channels_hashtable :=
        st.ctx.channels_hashtable ++ [⟨name, [⟨s.info.nick, "o".toList⟩]⟩] }
    [⟨s.info.nick, "o".toList⟩]
    (fun cc hcc => by
      rw [List.mem_singleton.mp hcc]
      exact hnick)
    { st with ctx := { st.ctx with channels_hashtable :=
        st.ctx.channels_hashtable ++ [⟨name, [⟨s.info.nick, "o".toList⟩]⟩] } } rfl
  have hsx := relay_to_members_sends _ _
    (fun st client_socket r hr => by
      rw [hm1] at hr
      cases hr
      exact send_reply_sends env st _ _) _ _ x hx
  rw [hx]
  dsimp only
  by_cases hflag : x.2 = false
  · rw [if_pos hflag]
    exact ⟨_, rfl, hsx.1⟩
  · rw [if_neg hflag]
    obtain ⟨m2, hm2⟩ := server_reply_join_eq env (":".toList ++ conn.server_hostname)
      RPL_NAMREPLY s.info.nick name ⟨name, [⟨s.info.nick, "o".toList⟩]⟩
    obtain ⟨m3, hm3⟩ := server_reply_join_eq env (":".toList ++ conn.server_hostname)
      RPL_ENDOFNAMES s.info.nick name ⟨name, [⟨s.info.nick, "o".toList⟩]⟩
    rw [hm2]
    dsimp only
    have hs2 := sends_only_trans hsx (send_reply_sends env x.1 conn.client_socket m2)
    by_cases he : (send_reply env x.1 conn.client_socket m2).2 = MSG_ERROR
    · rw [if_pos he]
      exact ⟨_, rfl, hs2.1⟩
    · rw [if_neg he, hm3]
      dsimp only
      have hs3 := sends_only_trans hs2 (send_reply_sends env _ conn.client_socket m3)
      split_ifs
      · exact ⟨_, rfl, hs3.1⟩
      · exact ⟨_, rfl, hs3.1⟩

/-- PART of the one member of the last channel of the table, with sends that
succeed: the channel is removed. -/
theorem handle_PART_sole_member (env : irc_env) (hsend : sends_succeed env) (st : irc_state)
    (cmdtokens : List sds) (conn : conn_info_t) (s : client_t) (t0 name mode : sds)
    (channels : List channel_t)
    (hs : server_find_USER st.ctx conn.client_socket = some s)
    (hreg : s.info.state = conn_status.REGISTERED)
    (hch : st.ctx.channels_hashtable = channels ++ [⟨name, [⟨s.info.nick, mode⟩]⟩])
    (hname : find_CHANNEL name channels = none)
    (hnick : ∃ t, server_find_NICK st.ctx s.info.nick = some t)
    (h0 : cmdtokens[0]? = some t0) (h1 : cmdtokens[1]? = some name) :
    ∃ r, handle_PART env st cmdtokens 2 conn = some (r, CHIRC_OK) ∧
      r.ctx = { st.ctx with channels_hashtable := channels } := by
  have hfind : server_find_CHANNEL st.ctx name = some ⟨name, [⟨s.info.nick, mode⟩]⟩ := by
    unfold server_find_CHANNEL
    rw [hch]
    exact find_CHANNEL_append_new name _ _ hname rfl
  have hcc : server_find_CHANNEL_CLIENT ⟨name, [⟨s.info.nick, mode⟩]⟩ s.info.nick
      = some ⟨s.info.nick, mode⟩ := by
    simp [server_find_CHANNEL_CLIENT, find_CHANNEL_CLIENT]
  obtain ⟨m1, hm1⟩ := server_reply_part_eq env (user_prefix_ s conn.client_hostname) cmdtokens
    name t0 h0
  have hrel := relay_to_members_ok env hsend m1
    (fun st client_socket =>
      server_reply_part env st (user_prefix_ s conn.client_hostname) cmdtokens name 2
        client_socket) hm1 st.ctx [⟨s.info.nick, mode⟩]
    (fun cc hcc => by
      rw [List.mem_singleton.mp hcc]
      exact hnick) st rfl
  unfold handle_PART
  dsimp only
  rw [hs]
  dsimp only
  rw [if_neg (by rw [hreg]; exact fun h => h rfl), if_neg (by decide), h1]
  dsimp only
  rw [hfind]
  dsimp only
  rw [hcc]
  dsimp only
  rw [hrel]
  dsimp only
  rw [if_neg (by decide)]
  have hrem : remove_CHANNEL_CLIENT s.info.nick [⟨s.info.nick, mode⟩] = [] := by
    simp [remove_CHANNEL_CLIENT]
  rw [hrem, hch, write_CHANNEL_append_new name [] channels _ hname rfl]
  rw [if_pos (by decide), remove_CHANNEL_append_new name channels _ hname rfl]
  exact ⟨_, rfl, rfl⟩

theorem handle_PART_no_empty (env : irc_env) (st : irc_state) (cmdtokens : List sds)
    (argc : Int) (conn : conn_info_t) (r : irc_state × Int)
    (h : handle_PART env st cmdtokens argc conn = some r) (hne : no_empty_channel st.ctx) :
    no_empty_channel r.1.ctx := by
  have herr : ∀ code, (reply_error env st cmdtokens code conn).map (fun r => (r.1, CHIRC_ERROR))
      = some r → no_empty_channel r.1.ctx := by
    intro code he
    have := reply_error_map_sends env st cmdtokens code conn _ (fun p => p.1) (fun _ => rfl) r he
    unfold no_empty_channel
    rw [this.1]
    exact hne
  unfold handle_PART at h
  dsimp only at h
  split at h
  · exact herr _ h
  · split at h
    · exact herr _ h
    · split at h
      · exact herr _ h
      · split at h
        · cases h
        · split at h
          · exact herr _ h
          · split at h
            · exact herr _ h
            · split at h
              · cases h
              · rename_i x hx
                have hs := relay_to_members_sends _ _
                  (fun st client_socket r hr =>
                    server_reply_part_sends env st _ _ _ _ _ r hr) _ _ x hx
                split at h
                · cases h
                  unfold no_empty_channel
                  rw [hs.1]
                  exact hne
                · cases h
                  unfold no_empty_channel
                  dsimp only
                  rw [hs.1]
                  exact leave_channel_no_empty _ _ _ hne

theorem handle_QUIT_channels_no_empty (env : irc_env) (prefix_ : sds) (cmdtokens : List sds)
    (argc : Int) (nick : sds) (channels : List channel_t) :
    ∀ (st : irc_state) (r : irc_state × Bool),
      handle_QUIT_channels env prefix_ cmdtokens argc nick channels st = some r →
      no_empty_channel st.ctx → no_empty_channel r.1.ctx := by
  induction channels with
  | nil =>
    intro st r h hne
    unfold handle_QUIT_channels at h
    cases h
    exact hne
  | cons c rest ih =>
    intro st r h hne
    unfold handle_QUIT_channels at h
    split at h
    · exact ih st r h hne
    · split at h
      · cases h
      · rename_i x hx
        have hs := relay_to_members_sends _ _
          (fun st client_socket r hr =>
            server_reply_quit_relay_sends env st prefix_ cmdtokens argc client_socket r hr)
          _ st x hx
        split at h
        · apply ih _ r h
          unfold no_empty_channel
          dsimp only
          rw [hs.1]
          exact leave_channel_no_empty _ _ _ hne
        · cases h
          unfold no_empty_channel
          rw [hs.1]
          exact hne

theorem handle_QUIT_no_empty (env : irc_env) (st : irc_state) (cmdtokens : List sds)
    (argc : Int) (conn : conn_info_t) (r : irc_state × Option Int)
    (h : handle_QUIT env st cmdtokens argc conn = some r) (hne : no_empty_channel st.ctx) :
    no_empty_channel r.1.ctx := by
  unfold handle_QUIT at h
  dsimp only at h
  split at h
  · have := reply_error_map_sends env _ cmdtokens _ conn _ (fun p => p.1) (fun _ => rfl) r h
    unfold no_empty_channel
    rw [this.1]
    exact hne
  · split at h
    · have := reply_error_map_sends env _ cmdtokens _ conn _ (fun p => p.1) (fun _ => rfl) r h
      unfold no_empty_channel
      rw [this.1]
      exact hne
    · split at h
      · cases h
      · rename_i x hx
        have hs := server_reply_quit_sends env _ _ _ _ _ x hx
        have hx1 : no_empty_channel x.1.ctx := by
          unfold no_empty_channel
          rw [hs.1]
          exact hne
        split at h
        · cases h
          exact hx1
        · split at h
          · cases h
          · rename_i looped hl
            have ht := handle_QUIT_channels_no_empty env _ _ _ _ _ _ looped hl hx1
            split at h
            · cases h
              exact ht
            · cases h
              exact ht

/-- C33, counterexample: alice, registered on a server without channels, joins the
channel #c and then parts from it, and the send of the PART message fails:
`handle_PART` returns CHIRC_ERROR before it removes her, and the table of
channels holds #c with alice as its member, where it was empty before. -/
theorem part_with_failed_send_keeps_member :
    ex_alice_registered.ctx.channels_hashtable = [] ∧
    ((handle_JOIN ex_irc_env ex_alice_registered (ex_line "JOIN #c") 2 (ex_conn 4)).bind
        (fun r => handle_PART ex_env_send_fails r.1 (ex_line "PART #c") 2 (ex_conn 4))).map
        (fun r => (r.1.ctx.channels_hashtable, r.2))
      = some ([⟨"#c".toList, [⟨"alice".toList, "o".toList⟩]⟩], CHIRC_ERROR) :=
  ⟨rfl, rfl⟩

/-- C33, amended: for a client that is REGISTERED and whose nick is in the table
of nicks, and a channel name that is not in the table of channels, `JOIN name`
returns and has added the channel at the end of the table with the client as
its one member in the mode "o", whatever becomes of its sends; and when the
send of the PART message succeeds, `PART name` after it returns CHIRC_OK and
leaves the context, the table of channels with it, as it was before the JOIN.
Every call of `handle_PART` that returns and every call of `handle_QUIT` that
returns or ends the thread leaves no channel without a member when there was
none before. -/
theorem join_part_round_trip (env_j env_p : irc_env) (st : irc_state)
    (jtokens ptokens : List sds) (conn : conn_info_t) (s : client_t) (j0 p0 name : sds)
    (hs : server_find_USER st.ctx conn.client_socket = some s)
    (hreg : s.info.state = conn_status.REGISTERED)
    (hname : server_find_CHANNEL st.ctx name = none)
    (hnick : ∃ t, server_find_NICK st.ctx s.info.nick = some t)
    (hj0 : jtokens[0]? = some j0) (hj1 : jtokens[1]? = some name)
    (hp0 : ptokens[0]? = some p0) (hp1 : ptokens[1]? = some name) :
    (∃ r1, handle_JOIN env_j st jtokens 2 conn = some r1 ∧
      r1.1.ctx = { st.ctx with channels_hashtable :=
        st.ctx.channels_hashtable ++ [⟨name, [⟨s.info.nick, "o".toList⟩]⟩] } ∧
      (sends_succeed env_p →
        ∃ r2, handle_PART env_p r1.1 ptokens 2 conn = some (r2, CHIRC_OK) ∧
          r2.ctx = st.ctx ∧ r2.ctx.channels_hashtable = st.ctx.channels_hashtable)) ∧
    (∀ (env : irc_env) (st1 : irc_state) (cmdtokens : List sds) (argc : Int)
        (conn1 : conn_info_t) (r : irc_state × Int),
      handle_PART env st1 cmdtokens argc conn1 = some r →
      no_empty_channel st1.ctx → no_empty_channel r.1.ctx) ∧
    (∀ (env : irc_env) (st1 : irc_state) (cmdtokens : List sds) (argc : Int)
        (conn1 : conn_info_t) (r : irc_state × Option Int),
      handle_QUIT env st1 cmdtokens argc conn1 = some r →
      no_empty_channel st1.ctx → no_empty_channel r.1.ctx) := by
  refine ⟨?_, fun env st1 cmdtokens argc conn1 r h hne =>
      handle_PART_no_empty env st1 cmdtokens argc conn1 r h hne,
    fun env st1 cmdtokens argc conn1 r h hne =>
      handle_QUIT_no_empty env st1 cmdtokens argc conn1 r h hne⟩
  obtain ⟨r1, hr1, hctx⟩ := handle_JOIN_new_channel env_j st jtokens 2 conn s j0 name hs hreg
    hname hnick hj0 hj1 (le_refl _)
  refine ⟨r1, hr1, hctx, fun hsend => ?_⟩
  obtain ⟨r2, hr2, hc2⟩ := handle_PART_sole_member env_p hsend r1.1 ptokens conn s p0 name
    "o".toList st.ctx.channels_hashtable (by rw [hctx]; exact hs) hreg (by rw [hctx])
    hname (by rw [hctx]; exact hnick) hp0 hp1
  refine ⟨r2, hr2, ?_, ?_⟩
  · rw [hc2, hctx]
  · rw [hc2]

/-- C33, an instance: alice, registered on a server without channels, joins #c and
parts from it, with sends that succeed: the table of channels is empty again. -/
theorem join_part_round_trip_witness :
    ∃ r1, handle_JOIN ex_irc_env ex_alice_registered (ex_line "JOIN #c") 2 (ex_conn 4)
        = some r1 ∧
      r1.1.ctx.channels_hashtable = [⟨"#c".toList, [⟨"alice".toList, "o".toList⟩]⟩] ∧
      ∃ r2, handle_PART ex_irc_env r1.1 (ex_line "PART #c") 2 (ex_conn 4)
          = some (r2, CHIRC_OK) ∧
        r2.ctx.channels_hashtable = [] := by
  obtain ⟨r1, h1, h2, h3⟩ := (join_part_round_trip ex_irc_env ex_irc_env ex_alice_registered
    (ex_line "JOIN #c") (ex_line "PART #c") (ex_conn 4)
    ⟨4, "foo.example.com".toList,
      ⟨"alice".toList, "al".toList, "Alice".toList, conn_status.REGISTERED, false⟩⟩
    "JOIN".toList "PART".toList "#c".toList rfl rfl rfl ⟨_, rfl⟩ rfl rfl rfl rfl).1
  obtain ⟨r2, h4, _, h6⟩ := h3 ex_irc_env_sends_succeed
  exact ⟨r1, h1, by rw [h2]; rfl, r2, h4, h6⟩

/-! ## C34: MODE -/

theorem strncmp_eq_short (a b : sds) (n : Nat) (hb : b.length < n) :
    strncmp_eq a b n = decide (a = b) := by
  unfold strncmp_eq
  have e2 : b.take n = b := List.take_of_length_le (Nat.le_of_lt hb)
  rw [e2]
  by_cases hab : a = b
  · rw [hab, e2]
  · have : ¬ (a.take n = b) := by
      intro e
      by_cases hl : a.length ≤ n
      · rw [List.take_of_length_le hl] at e
        exact hab e
      · have h1 : (a.take n).length = n := by
          rw [List.length_take]
          omega
        rw [e] at h1
        omega
    simp [this, hab]

theorem reply_error_params_CHANOPRIVSNEEDED (cmd : List sds) (c1 : sds) (h : cmd[1]? = some c1) :
    reply_error_params cmd ERR_CHANOPRIVSNEEDED
      = some (some [(c1 ++ " :You".toList ++ [Char.ofNat 39]
          ++ "re not channel operator\r\n".toList, false)]) := by
  unfold reply_error_params
  have c1 : strncmp_eq ERR_CHANOPRIVSNEEDED ERR_UNKNOWNCOMMAND ERROR_CODE_LEN = false := by decide
  have c2 : strncmp_eq ERR_CHANOPRIVSNEEDED ERR_NONICKNAMEGIVEN ERROR_CODE_LEN = false := by decide
  have c3 : strncmp_eq ERR_CHANOPRIVSNEEDED ERR_NICKNAMEINUSE ERROR_CODE_LEN = false := by decide
  have c4 : strncmp_eq ERR_CHANOPRIVSNEEDED ERR_NEEDMOREPARAMS ERROR_CODE_LEN = false := by decide
  have c5 : strncmp_eq ERR_CHANOPRIVSNEEDED ERR_ALREADYREGISTRED ERROR_CODE_LEN = false := by decide
  have c6 : strncmp_eq ERR_CHANOPRIVSNEEDED ERR_NOSUCHNICK ERROR_CODE_LEN = false := by decide
  have c7 : strncmp_eq ERR_CHANOPRIVSNEEDED ERR_NOMOTD ERROR_CODE_LEN = false := by decide
  have c8 : strncmp_eq ERR_CHANOPRIVSNEEDED ERR_NOTREGISTERED ERROR_CODE_LEN = false := by decide
  have c9 : strncmp_eq ERR_CHANOPRIVSNEEDED ERR_NORECIPIENT ERROR_CODE_LEN = false := by decide
  have c10 : strncmp_eq ERR_CHANOPRIVSNEEDED ERR_NOTEXTTOSEND ERROR_CODE_LEN = false := by decide
  have c11 : strncmp_eq ERR_CHANOPRIVSNEEDED ERR_NOSUCHCHANNEL ERROR_CODE_LEN = false := by decide
  have c12 : strncmp_eq ERR_CHANOPRIVSNEEDED ERR_UNKNOWNMODE ERROR_CODE_LEN = false := by decide
  have c13 : strncmp_eq ERR_CHANOPRIVSNEEDED ERR_CHANOPRIVSNEEDED ERROR_CODE_LEN = true := by decide
  rw [c1, c2, c3, c4, c5, c6, c7, c8, c9, c10, c11, c12, c13, h]
  rfl

/-- What `reply_error` does for ERR_CHANOPRIVSNEEDED when `cmd[1]` is there: one
numeric 482 is handed to `sendall` for the socket of the connection. -/
theorem reply_error_CHANOPRIVSNEEDED (env : irc_env) (st : irc_state) (cmd : List sds)
    (conn : conn_info_t) (c1 : sds) (h : cmd[1]? = some c1) :
    ∃ rest : sds,
      reply_error env st cmd ERR_CHANOPRIVSNEEDED conn
        = some (send_msg env st conn.client_socket
            (numeric_reply conn.server_hostname ERR_CHANOPRIVSNEEDED rest)) := by
  refine ⟨(match server_find_USER st.ctx conn.client_socket with
    | none => "*".toList
    | some s => if s.info.state = conn_status.NICK_MISSING then "*".toList else s.info.nick)
    ++ " ".toList ++ (c1 ++ " :You".toList ++ [Char.ofNat 39]
          ++ "re not channel operator\r\n".toList), ?_⟩
  unfold reply_error numeric_reply
  dsimp only
  rw [reply_error_params_CHANOPRIVSNEEDED cmd c1 h]
  dsimp only
  unfold chirc_message_to_string chirc_message_add_parameter chirc_message_construct
  simp only [List.foldl_cons, List.foldl_nil, List.nil_append, List.cons_append,
    List.getLast?_cons_cons, List.getLast?_singleton, List.dropLast, if_true]
  simp [List.append_assoc]

theorem find_CHANNEL_some (name : sds) (channels : List channel_t) (c : channel_t)
    (h : find_CHANNEL name channels = some c) : c.channel_name = name ∧ c ∈ channels := by
  unfold find_CHANNEL at h
  have h1 := List.find?_some h
  have h2 := List.mem_of_find?_eq_some h
  exact ⟨by simpa using h1, h2⟩

theorem find_CHANNEL_CLIENT_some (nick : sds) (members : List channel_client)
    (cc : channel_client) (h : find_CHANNEL_CLIENT nick members = some cc) :
    cc.nick = nick ∧ cc ∈ members := by
  unfold find_CHANNEL_CLIENT at h
  have h1 := List.find?_some h
  have h2 := List.mem_of_find?_eq_some h
  exact ⟨by simpa using h1, h2⟩

theorem write_mode_nicks (nick mode : sds) (members : List channel_client) :
    (write_mode nick mode members).map (fun cc => cc.nick) = members.map (fun cc => cc.nick) := by
  induction members with
  | nil => rfl
  | cons c rest ih =>
    unfold write_mode
    split_ifs
    · rfl
    · rw [List.map_cons, List.map_cons, ih]

theorem find_write_mode (nick mode : sds) (members : List channel_client)
    (target : channel_client) (h : find_CHANNEL_CLIENT nick members = some target) :
    find_CHANNEL_CLIENT nick (write_mode nick mode members)
      = some { target with mode := mode } := by
  induction members with
  | nil => cases h
  | cons c rest ih =>
    unfold find_CHANNEL_CLIENT at h ih ⊢
    unfold write_mode
    rw [List.find?_cons] at h
    by_cases hc : c.nick = nick
    · have hd : decide (c.nick = nick) = true := by simpa using hc
      rw [hd] at h
      cases h
      rw [if_pos hc, List.find?_cons]
      have hd2 : decide (({ target with mode := mode } : channel_client).nick = nick) = true := by
        simpa using hc
      rw [hd2]
    · have hd : decide (c.nick = nick) = false := by simpa using hc
      rw [hd] at h
      rw [if_neg hc, List.find?_cons, hd]
      exact ih h

theorem find_write_mode_other (nick mode other : sds) (members : List channel_client)
    (hne : other ≠ nick) :
    find_CHANNEL_CLIENT other (write_mode nick mode members)
      = find_CHANNEL_CLIENT other members := by
  induction members with
  | nil => rfl
  | cons c rest ih =>
    unfold find_CHANNEL_CLIENT at ih ⊢
    unfold write_mode
    by_cases hc : c.nick = nick
    · rw [if_pos hc, List.find?_cons, List.find?_cons]
      have h1 : decide (({ c with mode := mode } : channel_client).nick = other) = false := by
        have : ¬ (c.nick = other) := fun e => hne (e.symm.trans hc)
        simpa using this
      rw [h1]
    · rw [if_neg hc, List.find?_cons, List.find?_cons, ih]

theorem find_write_CHANNEL (name : sds) (members : List channel_client)
    (channels : List channel_t) (c : channel_t) (h : find_CHANNEL name channels = some c) :
    find_CHANNEL name (write_CHANNEL name members channels)
      = some { c with channel_clients := members } := by
  induction channels with
  | nil => cases h
  | cons d rest ih =>
    unfold find_CHANNEL at h ih ⊢
    unfold write_CHANNEL
    rw [List.find?_cons] at h
    by_cases hc : d.channel_name = name
    · have hd : decide (d.channel_name = name) = true := by simpa using hc
      rw [hd] at h
      cases h
      rw [if_pos hc, List.find?_cons]
      have hd2 : decide (({ c with channel_clients := members } : channel_t).channel_name = name)
          = true := by simpa using hc
      rw [hd2]
    · have hd : decide (d.channel_name = name) = false := by simpa using hc
      rw [hd] at h
      rw [if_neg hc, List.find?_cons, hd]
      exact ih h

theorem server_reply_mode_eq (env : irc_env) (st : irc_state) (prefix_ : sds)
    (cmdtokens : List sds) (client_socket : Int) (t0 t1 t2 t3 : sds)
    (h0 : cmdtokens[0]? = some t0) (h1 : cmdtokens[1]? = some t1)
    (h2 : cmdtokens[2]? = some t2) (h3 : cmdtokens[3]? = some t3) :
    server_reply_mode env st prefix_ cmdtokens client_socket
      = some (send_reply env st client_socket
          (prefix_ ++ " ".toList ++ t0 ++ " ".toList ++ t1 ++ " ".toList ++ t2
            ++ " ".toList ++ t3 ++ "\r\n".toList)) := by
  unfold server_reply_mode
  rw [h0, h1, h2, h3]

/-- The function `handle_MODE` for a channel that is there, a mode "+o" or "-o", a
nick that is a member, and a client that is in the table of clients: the test of
the rights of the client, and what follows it. -/
theorem handle_MODE_eq (env : irc_env) (st : irc_state) (cmdtokens : List sds) (argc : Int)
    (conn : conn_info_t) (channel_name mode nick : sds) (channel : channel_t)
    (target : channel_client) (client : client_t)
    (hargc : 4 ≤ argc)
    (h1 : cmdtokens[1]? = some channel_name) (h2 : cmdtokens[2]? = some mode)
    (h3 : cmdtokens[3]? = some nick)
    (hch : server_find_CHANNEL st.ctx channel_name = some channel)
    (hmode : mode = "+o".toList ∨ mode = "-o".toList)
    (htarget : find_CHANNEL_CLIENT nick channel.channel_clients = some target)
    (hclient : server_find_USER st.ctx conn.client_socket = some client) :
    handle_MODE env st cmdtokens argc conn
      = if (match find_CHANNEL_CLIENT client.info.nick channel.channel_clients with
            | none => true
            | some owner =>
              !strncmp_eq owner.mode "o".toList MAX_STR_LEN
                && client.info.is_irc_operator == false) then
          (reply_error env st cmdtokens ERR_CHANOPRIVSNEEDED conn).map
            (fun r => (r.1, CHIRC_ERROR))
        else
          (relay_to_members
            (fun st client_socket =>
              server_reply_mode env st (user_prefix_ client conn.client_hostname) cmdtokens
                client_socket)
            none
            (write_mode nick (if mode = "+o".toList then "o".toList else "-o".toList)
              channel.channel_clients)
            { st with
              ctx :=
                { st.ctx with
                  channels_hashtable :=
                    write_CHANNEL channel_name
                      (write_mode nick
                        (if mode = "+o".toList then "o".toList else "-o".toList)
                        channel.channel_clients) st.ctx.channels_hashtable } }).map
            (fun r => (r.1, if r.2 then CHIRC_OK else CHIRC_ERROR)) := by
  have hname : channel.channel_name = channel_name := (find_CHANNEL_some _ _ _ hch).1
  have hn : ¬ (argc - 1 < MODE_PARAMETER_NUM) := by
    unfold MODE_PARAMETER_NUM
    omega
  have hm : ¬ (!strncmp_eq mode "+o".toList MAX_STR_LEN ∧ !strncmp_eq mode "-o".toList MAX_STR_LEN) := by
    rcases hmode with e | e
    · subst e
      decide
    · subst e
      decide
  have hplus : strncmp_eq mode "+o".toList MAX_STR_LEN = decide (mode = "+o".toList) :=
    strncmp_eq_short _ _ _ (by decide)
  unfold handle_MODE
  dsimp only
  rw [if_neg hn, h1, h2, h3]
  dsimp only
  rw [hch]
  dsimp only
  rw [if_neg hm]
  unfold server_find_CHANNEL_CLIENT
  rw [htarget, hclient]
  dsimp only
  rw [hname, hplus]
  simp only [decide_eq_true_eq]

/-- C34, counterexample: carol is an IRC operator and no member of the channel #c,
of which bob is a member.  Her `MODE #c +o bob` is answered by the numeric 482
to her socket alone, and the modes of the channel are as before. -/
theorem mode_of_irc_operator_outside_channel_refused :
    (server_find_USER ex_channel.ctx 6).map (fun c => (c.info.nick, c.info.is_irc_operator))
      = some ("carol".toList, true) ∧
    ex_channel.ctx.channels_hashtable
      = [⟨"#c".toList, [⟨"alice".toList, "o".toList⟩, ⟨"bob".toList, "-o".toList⟩]⟩] ∧
    (ex_request ex_channel 6 "MODE #c +o bob").map
        (fun r => (sent_words r.1, r.1.ctx.channels_hashtable, r.2))
      = some ([(6, "482".toList)],
          [⟨"#c".toList, [⟨"alice".toList, "o".toList⟩, ⟨"bob".toList, "-o".toList⟩]⟩],
          some CHIRC_ERROR) :=
  ⟨rfl, rfl, rfl⟩

/-- C34, amended: for a channel that is there, a mode "+o" or "-o", a target nick
that is a member and a requester that is in the table of clients, `handle_MODE`
grants the request exactly when the requester is a member of the channel and
either has the mode "o" in it or is an IRC operator.  (1) When granted, every
call that returns has set the mode of the target to "o" for "+o" and to "-o"
for "-o", and has changed nothing else in the context; when the sends succeed
and every member is in the table of nicks, the call returns CHIRC_OK and has
handed the MODE line to `sendall` once for every member, in the order of the
members.  (2) Otherwise, which includes an IRC operator that is no member, the
one numeric 482 goes to the requester, the context is unchanged, and the call
returns CHIRC_ERROR. -/
theorem mode_needs_membership (env : irc_env) (st : irc_state) (cmdtokens : List sds)
    (argc : Int) (conn : conn_info_t) (t0 channel_name mode nick : sds) (channel : channel_t)
    (target : channel_client) (client : client_t)
    (hargc : 4 ≤ argc) (h0 : cmdtokens[0]? = some t0)
    (h1 : cmdtokens[1]? = some channel_name) (h2 : cmdtokens[2]? = some mode)
    (h3 : cmdtokens[3]? = some nick)
    (hch : server_find_CHANNEL st.ctx channel_name = some channel)
    (hmode : mode = "+o".toList ∨ mode = "-o".toList)
    (htarget : find_CHANNEL_CLIENT nick channel.channel_clients = some target)
    (hclient : server_find_USER st.ctx conn.client_socket = some client) :
    ((∃ owner, find_CHANNEL_CLIENT client.info.nick channel.channel_clients = some owner ∧
        (owner.mode = "o".toList ∨ client.info.is_irc_operator = true)) →
      (∀ r, handle_MODE env st cmdtokens argc conn = some r →
        r.1.ctx =
          { st.ctx with
            channels_hashtable :=
              write_CHANNEL channel_name
                (write_mode nick (if mode = "+o".toList then "o".toList else "-o".toList)
                  channel.channel_clients) st.ctx.channels_hashtable } ∧
        (server_find_CHANNEL r.1.ctx channel_name).bind
            (fun c => find_CHANNEL_CLIENT nick c.channel_clients)
          = some { target with
              mode := if mode = "+o".toList then "o".toList else "-o".toList } ∧
        ∀ other, other ≠ nick →
          (server_find_CHANNEL r.1.ctx channel_name).bind
              (fun c => find_CHANNEL_CLIENT other c.channel_clients)
            = find_CHANNEL_CLIENT other channel.channel_clients) ∧
      (sends_succeed env →
        (∀ cc ∈ channel.channel_clients, ∃ t, server_find_NICK st.ctx cc.nick = some t) →
        ∃ r, handle_MODE env st cmdtokens argc conn = some (r, CHIRC_OK) ∧
          r.sent = st.sent ++ channel.channel_clients.map (fun cc =>
            (nick_socket st.ctx cc.nick,
              user_prefix_ client conn.client_hostname ++ " ".toList ++ t0 ++ " ".toList
                ++ channel_name ++ " ".toList ++ mode ++ " ".toList ++ nick
                ++ "\r\n".toList)))) ∧
    ((¬ ∃ owner, find_CHANNEL_CLIENT client.info.nick channel.channel_clients = some owner ∧
        (owner.mode = "o".toList ∨ client.info.is_irc_operator = true)) →
      ∃ rest, handle_MODE env st cmdtokens argc conn
        = some ({ st with sent := st.sent
            ++ [(conn.client_socket,
                  numeric_reply conn.server_hostname ERR_CHANOPRIVSNEEDED rest)] },
          CHIRC_ERROR)) := by
  have heq := handle_MODE_eq env st cmdtokens argc conn channel_name mode nick channel target
    client hargc h1 h2 h3 hch hmode htarget hclient
  have hshort : ∀ m : sds, strncmp_eq m "o".toList MAX_STR_LEN = decide (m = "o".toList) :=
    fun m => strncmp_eq_short _ _ _ (by decide)
  constructor
  · rintro ⟨owner, ho, hright⟩
    have hcond : ¬ ((match find_CHANNEL_CLIENT client.info.nick channel.channel_clients with
        | none => true
        | some owner =>
          !strncmp_eq owner.mode "o".toList MAX_STR_LEN
            && client.info.is_irc_operator == false) = true) := by
      rw [ho]
      dsimp only
      rw [hshort]
      rcases hright with e | e
      · simp [e]
      · simp [e]
    rw [if_neg hcond] at heq
    constructor
    · intro r hr
      rw [heq] at hr
      cases hl : relay_to_members
          (fun st client_socket =>
            server_reply_mode env st (user_prefix_ client conn.client_hostname) cmdtokens
              client_socket)
          none
          (write_mode nick (if mode = "+o".toList then "o".toList else "-o".toList)
            channel.channel_clients)
          { st with
            ctx :=
              { st.ctx with
                channels_hashtable :=
                  write_CHANNEL channel_name
                    (write_mode nick
                      (if mode = "+o".toList then "o".toList else "-o".toList)
                      channel.channel_clients) st.ctx.channels_hashtable } } with
      | none =>
        rw [hl] at hr
        cases hr
      | some x =>
        rw [hl] at hr
        cases hr
        have hs := relay_to_members_sends _ _
          (fun st client_socket r hr => by
            rw [server_reply_mode_eq env st _ cmdtokens client_socket _ _ _ _ h0 h1 h2 h3] at hr
            cases hr
            exact send_reply_sends env st _ _) _ _ x hl
        dsimp only
        rw [hs.1]
        refine ⟨rfl, ?_, ?_⟩
        · unfold server_find_CHANNEL at hch ⊢
          dsimp only
          rw [find_write_CHANNEL _ _ _ _ hch]
          exact find_write_mode _ _ _ _ htarget
        · intro other hne
          unfold server_find_CHANNEL at hch ⊢
          dsimp only
          rw [find_write_CHANNEL _ _ _ _ hch]
          exact find_write_mode_other _ _ _ _ hne
    · intro hsend hmem
      rw [heq]
      have hmem2 : ∀ cc ∈ write_mode nick
          (if mode = "+o".toList then "o".toList else "-o".toList) channel.channel_clients,
          ∃ t, server_find_NICK st.ctx cc.nick = some t := by
        intro cc hcc
        have hn : cc.nick ∈ (write_mode nick
            (if mode = "+o".toList then "o".toList else "-o".toList)
            channel.channel_clients).map (fun cc => cc.nick) := List.mem_map_of_mem _ hcc
        rw [write_mode_nicks] at hn
        obtain ⟨c2, hc2, hn2⟩ := List.mem_map.mp hn
        obtain ⟨t, ht⟩ := hmem c2 hc2
        exact ⟨t, by rw [← hn2]; exact ht⟩
      have hrel := relay_to_members_ok env hsend
        (user_prefix_ client conn.client_hostname ++ " ".toList ++ t0 ++ " ".toList
          ++ channel_name ++ " ".toList ++ mode ++ " ".toList ++ nick ++ "\r\n".toList)
        (fun st client_socket =>
          server_reply_mode env st (user_prefix_ client conn.client_hostname) cmdtokens
            client_socket)
        (fun st client_socket =>
          server_reply_mode_eq env st _ cmdtokens client_socket _ _ _ _ h0 h1 h2 h3)
        { st.ctx with
          channels_hashtable :=
            write_CHANNEL channel_name
              (write_mode nick (if mode = "+o".toList then "o".toList else "-o".toList)
                channel.channel_clients) st.ctx.channels_hashtable }
        _ hmem2
        { st with
          ctx :=
            { st.ctx with
              channels_hashtable :=
                write_CHANNEL channel_name
                  (write_mode nick (if mode = "+o".toList then "o".toList else "-o".toList)
                    channel.channel_clients) st.ctx.channels_hashtable } } rfl
      rw [hrel]
      refine ⟨_, rfl, ?_⟩
      dsimp only
      congr 1
      have hmap : ∀ (l1 l2 : List channel_client) (g : sds → Int × sds),
          l1.map (fun cc => cc.nick) = l2.map (fun cc => cc.nick) →
          l1.map (fun cc => g cc.nick) = l2.map (fun cc => g cc.nick) := by
        intro l1 l2 g he
        have := congrArg (List.map g) he
        simpa [List.map_map] using this
      exact hmap _ _ (fun n => (nick_socket st.ctx n, _)) (write_mode_nicks _ _ _)
  · intro hno
    have hcond : (match find_CHANNEL_CLIENT client.info.nick channel.channel_clients with
        | none => true
        | some owner =>
          !strncmp_eq owner.mode "o".toList MAX_STR_LEN
            && client.info.is_irc_operator == false) = true := by
      cases ho : find_CHANNEL_CLIENT client.info.nick channel.channel_clients with
      | none => rfl
      | some owner =>
        dsimp only
        rw [hshort]
        have h1 : ¬ (owner.mode = "o".toList) := fun e => hno ⟨owner, ho, Or.inl e⟩
        have h2 : ¬ (client.info.is_irc_operator = true) := fun e => hno ⟨owner, ho, Or.inr e⟩
        have h1b : ¬ (owner.mode = ['o']) := h1
        simp [h1b, h2]
    rw [if_pos hcond] at heq
    obtain ⟨rest, hr⟩ := reply_error_CHANOPRIVSNEEDED env st cmdtokens conn channel_name h1
    refine ⟨rest, ?_⟩
    rw [heq, hr]
    rfl

/-- C34, an instance: alice is operator of the channel #c, of which bob is a
member.  Her `MODE #c +o bob` is granted: the call returns CHIRC_OK and the MODE line
has gone to the sockets 4 and 5 of the two members. -/
theorem mode_needs_membership_witness :
    find_CHANNEL_CLIENT "alice".toList [⟨"alice".toList, "o".toList⟩, ⟨"bob".toList, "-o".toList⟩]
      = some ⟨"alice".toList, "o".toList⟩ ∧
    ∃ r, handle_MODE ex_irc_env ex_channel (ex_line "MODE #c +o bob") 4 (ex_conn 4)
        = some (r, CHIRC_OK) ∧
      r.sent = [(4, ":alice!al@foo.example.com MODE #c +o bob\r\n".toList),
        (5, ":alice!al@foo.example.com MODE #c +o bob\r\n".toList)] :=
  ⟨rfl,
    ((mode_needs_membership ex_irc_env ex_channel (ex_line "MODE #c +o bob") 4 (ex_conn 4)
      "MODE".toList "#c".toList "+o".toList "bob".toList
      ⟨"#c".toList, [⟨"alice".toList, "o".toList⟩, ⟨"bob".toList, "-o".toList⟩]⟩
      ⟨"bob".toList, "-o".toList⟩
      ⟨4, [], ⟨"alice".toList, "al".toList, "Alice".toList, conn_status.REGISTERED, false⟩⟩
      (by decide) rfl rfl rfl rfl rfl (Or.inl rfl) rfl rfl).1
      ⟨⟨"alice".toList, "o".toList⟩, rfl, Or.inl rfl⟩).2
      ex_irc_env_sends_succeed
      (fun cc hcc => by
        rcases List.mem_cons.mp hcc with e | hcc
        · rw [e]
          exact ⟨_, rfl⟩
        · rcases List.mem_cons.mp hcc with e | hcc
          · rw [e]
            exact ⟨_, rfl⟩
          · cases hcc)⟩

/-! ## C35: framing -/

theorem crlf_segments_cons2 (c d : Char) (rest cur : sds) :
    crlf_segments (c :: d :: rest) cur
      = if c = '\r' ∧ d = '\n' then cur :: crlf_segments rest []
        else crlf_segments (d :: rest) (cur ++ [c]) := by
  rw [crlf_segments]

theorem crlf_rest_cons2 (c d : Char) (rest cur : sds) :
    crlf_rest (c :: d :: rest) cur
      = if c = '\r' ∧ d = '\n' then crlf_rest rest []
        else crlf_rest (d :: rest) (cur ++ [c]) := by
  rw [crlf_rest]

theorem crlf_isPrefixOf (c d : Char) (rest : sds) :
    List.isPrefixOf "\r\n".toList (c :: d :: rest) = decide (c = '\r' ∧ d = '\n') := by
  show List.isPrefixOf ['\r', '\n'] (c :: d :: rest) = decide (c = '\r' ∧ d = '\n')
  simp only [List.isPrefixOf, Bool.and_true]
  rw [Bool.eq_iff_iff]
  simp only [Bool.and_eq_true, beq_iff_eq, decide_eq_true_eq]
  constructor
  · rintro ⟨a, b⟩
    exact ⟨a.symm, b.symm⟩
  · rintro ⟨a, b⟩
    exact ⟨a.symm, b.symm⟩

theorem crlf_isPrefixOf_single (c : Char) :
    List.isPrefixOf "\r\n".toList [c] = false := by
  show List.isPrefixOf ['\r', '\n'] [c] = false
  simp [List.isPrefixOf]

/-- The scan of `sdssplitlen` for the separator CRLF gives the segments that end
with CRLF and, last, the bytes after the last CRLF. -/
theorem sdssplitlen_scan_crlf (n : Nat) :
    ∀ (s cur : sds), s.length ≤ n →
      sdssplitlen_scan "\r\n".toList 0 s cur = crlf_segments s cur ++ [crlf_rest s cur] := by
  induction n with
  | zero =>
    intro s cur h
    have : s = [] := List.eq_nil_of_length_eq_zero (Nat.le_zero.mp h)
    subst this
    rfl
  | succ n ih =>
    intro s cur h
    match s, h with
    | [], _ => rfl
    | [c], _ =>
      rw [sdssplitlen_scan_cons, crlf_isPrefixOf_single]
      rfl
    | c :: d :: rest, h =>
      rw [sdssplitlen_scan_cons, crlf_isPrefixOf, crlf_segments_cons2, crlf_rest_cons2]
      have hl : rest.length ≤ n := by
        simp only [List.length_cons] at h
        omega
      have hl2 : (d :: rest).length ≤ n := by
        simp only [List.length_cons] at h ⊢
        omega
      by_cases hm : c = '\r' ∧ d = '\n'
      · have hd : decide (c = '\r' ∧ d = '\n') = true := decide_eq_true hm
        simp only [if_pos hm, hd, if_true]
        have e : ("\r\n".toList).length - 1 = 1 := rfl
        rw [e, sdssplitlen_scan_skip, ih rest [] hl]
        rfl
      · have hd : decide (c = '\r' ∧ d = '\n') = false := decide_eq_false hm
        simp only [if_neg hm, hd, Bool.false_eq_true, if_false]
        exact ih (d :: rest) (cur ++ [c]) hl2

/-- The bytes after the last CRLF are the end of the string. -/
theorem crlf_rest_suffix (n : Nat) :
    ∀ (s cur : sds), s.length ≤ n → ∃ pre, cur ++ s = pre ++ crlf_rest s cur := by
  induction n with
  | zero =>
    intro s cur h
    have : s = [] := List.eq_nil_of_length_eq_zero (Nat.le_zero.mp h)
    subst this
    exact ⟨[], by simp [crlf_rest]⟩
  | succ n ih =>
    intro s cur h
    match s, h with
    | [], _ => exact ⟨[], by simp [crlf_rest]⟩
    | [c], _ => exact ⟨[], by simp [crlf_rest]⟩
    | c :: d :: rest, h =>
      rw [crlf_rest_cons2]
      have hl : rest.length ≤ n := by
        simp only [List.length_cons] at h
        omega
      have hl2 : (d :: rest).length ≤ n := by
        simp only [List.length_cons] at h ⊢
        omega
      by_cases hm : c = '\r' ∧ d = '\n'
      · rw [if_pos hm]
        obtain ⟨pre, hp⟩ := ih rest [] hl
        refine ⟨cur ++ [c, d] ++ pre, ?_⟩
        rw [List.nil_append] at hp
        rw [List.append_assoc, ← hp]
        simp
      · rw [if_neg hm]
        obtain ⟨pre, hp⟩ := ih (d :: rest) (cur ++ [c]) hl2
        refine ⟨pre, ?_⟩
        rw [← hp]
        simp

/-- Without a segment that ends with CRLF, all bytes come after the last CRLF. -/
theorem crlf_rest_of_no_segment (n : Nat) :
    ∀ (s cur : sds), s.length ≤ n → crlf_segments s cur = [] → crlf_rest s cur = cur ++ s := by
  induction n with
  | zero =>
    intro s cur h _
    have : s = [] := List.eq_nil_of_length_eq_zero (Nat.le_zero.mp h)
    subst this
    simp [crlf_rest]
  | succ n ih =>
    intro s cur h hs
    match s, h, hs with
    | [], _, _ => simp [crlf_rest]
    | [c], _, _ => simp [crlf_rest]
    | c :: d :: rest, h, hs =>
      rw [crlf_segments_cons2] at hs
      rw [crlf_rest_cons2]
      have hl2 : (d :: rest).length ≤ n := by
        simp only [List.length_cons] at h ⊢
        omega
      by_cases hm : c = '\r' ∧ d = '\n'
      · rw [if_pos hm] at hs
        cases hs
      · rw [if_neg hm] at hs
        rw [if_neg hm, ih (d :: rest) (cur ++ [c]) hl2 hs]
        simp

theorem sdsrange_tail (s : sds) (start : Nat) (hs : start ≤ s.length) (hne : s ≠ []) :
    sdsrange s start s.length = s.drop start := by
  have hp := List.length_pos.mpr hne
  unfold sdsrange
  dsimp only
  have hl : ¬ ((s.length : Int) = 0) := by omega
  have a1 : ¬ ((start : Int) < 0) := by omega
  have a2 : ¬ ((s.length : Int) < 0) := by omega
  have a3 : ¬ ((start : Int) > s.length) := by omega
  have a4 : ((s.length : Int) - start + 1 ≠ 0) := by omega
  simp only [if_neg hl, if_neg a1, if_neg a2, if_neg a3, if_pos a4]
  by_cases he : (start : Int) ≥ s.length
  · rw [if_pos he]
    have : start = s.length := by omega
    subst this
    simp
  · rw [if_neg he, if_pos (le_refl _)]
    have e : ((s.length : Int) - 1 - start + 1).toNat = s.length - start := by omega
    rw [e, Int.toNat_ofNat]
    apply List.take_of_length_le
    rw [List.length_drop]

theorem sdsrange_suffix (pre last : sds) (h : pre ++ last ≠ []) :
    sdsrange (pre ++ last) (((pre ++ last).length : Int) - (last.length : Int))
      (pre ++ last).length = last := by
  have e : ((pre ++ last).length : Int) - (last.length : Int) = (pre.length : Nat) := by
    rw [List.length_append]
    push_cast
    omega
  rw [e, sdsrange_tail _ _ (by rw [List.length_append]; omega) h, List.drop_left]

theorem sdstrim_spaces (s : sds) : sdstrim s " ".toList = trim_spaces s := by
  unfold sdstrim trim_spaces
  have : (fun c : Char => decide (c ∈ " ".toList)) = (fun c => decide (c = ' ')) := by
    funext c
    show decide (c ∈ [' ']) = decide (c = ' ')
    simp
  rw [this]

theorem sdssplitlen_scan_spaces (s : sds) :
    ∀ cur, sdssplitlen_scan " ".toList 0 s cur = split_spaces s cur := by
  induction s with
  | nil =>
    intro cur
    rfl
  | cons c rest ih =>
    intro cur
    rw [sdssplitlen_scan_cons, space_isPrefixOf]
    unfold split_spaces
    have e : (" ".toList).length - 1 = 0 := rfl
    rw [e]
    by_cases hc : c = ' '
    · subst hc
      simp only [beq_self_eq_true, if_true]
      rw [ih]
    · have : (' ' == c) = false := by
        simpa using fun e => hc e.symm
      rw [this, if_neg hc]
      simp only [Bool.false_eq_true, if_false]
      rw [ih]

/-- The tokens that `service_single_client` makes of a segment are the tokens of the
line. -/
theorem tokens_eq_line_tokens (seg : sds) :
    sdssplitlen (sdstrim seg " ".toList) " ".toList = line_tokens seg := by
  unfold sdssplitlen line_tokens
  rw [sdstrim_spaces, sdssplitlen_scan_spaces]

/-- One pass of the loop of `service_single_client`, for fewer than `BUFFER_SIZE`
bytes without NUL: the lines of accumulator and bytes are handled, and the
bytes after their last CRLF are kept. -/
theorem service_recv_eq (acc received : sds) (hlen : received.length < BUFFER_SIZE)
    (hnul : ∀ c ∈ received, c ≠ Char.ofNat 0) :
    service_recv acc received
      = some (stream_lines (acc ++ received), stream_rest (acc ++ received)) := by
  have htw : received.takeWhile (fun c => decide (c ≠ Char.ofNat 0)) = received := by
    rw [List.takeWhile_eq_self_iff]
    intro c hc
    exact decide_eq_true (hnul c hc)
  have htok : (fun seg : sds => sdssplitlen (sdstrim seg " ".toList) " ".toList) = line_tokens :=
    funext tokens_eq_line_tokens
  unfold service_recv stream_lines stream_rest
  dsimp only
  rw [if_neg (by omega), htw, htok]
  by_cases hne : acc ++ received = []
  · rw [hne]
    rfl
  · have hsplit : sdssplitlen (acc ++ received) "\r\n".toList
        = crlf_segments (acc ++ received) [] ++ [crlf_rest (acc ++ received) []] := by
      unfold sdssplitlen
      rw [if_neg hne]
      exact sdssplitlen_scan_crlf _ _ _ (le_refl _)
    rw [hsplit]
    by_cases hc : (((crlf_segments (acc ++ received) []
        ++ [crlf_rest (acc ++ received) []]).length : Nat) : Int) ≤ 1
    · rw [if_pos hc]
      have hnil : crlf_segments (acc ++ received) [] = [] := by
        rw [List.length_append, List.length_singleton] at hc
        apply List.eq_nil_of_length_eq_zero
        omega
      rw [hnil, crlf_rest_of_no_segment _ _ _ (le_refl _) hnil]
      rfl
    · rw [if_neg hc]
      have e1 : ((((crlf_segments (acc ++ received) []
          ++ [crlf_rest (acc ++ received) []]).length : Nat) : Int) - 1).toNat
          = (crlf_segments (acc ++ received) []).length := by
        rw [List.length_append, List.length_singleton]
        omega
      rw [e1, List.take_left, List.getLast?_append]
      simp only [List.getLast?_singleton, Option.or, Option.getD_some]
      obtain ⟨pre, hp⟩ := crlf_rest_suffix _ (acc ++ received) [] (le_refl _)
      rw [List.nil_append] at hp
      have hs := sdsrange_suffix pre (crlf_rest (acc ++ received) []) (by rw [← hp]; exact hne)
      rw [← hp] at hs
      rw [hs]

/-- Scanning on after a first part of the bytes gives what scanning again from the
start of the bytes after the last CRLF of the first part gives. -/
theorem crlf_rescan (n : Nat) :
    ∀ (s cur t : sds), s.length ≤ n →
      crlf_segments (cur ++ (s ++ t)) [] = crlf_segments (s ++ t) cur →
      crlf_rest (cur ++ (s ++ t)) [] = crlf_rest (s ++ t) cur →
      crlf_segments (s ++ t) cur = crlf_segments s cur ++ crlf_segments (crlf_rest s cur ++ t) [] ∧
      crlf_rest (s ++ t) cur = crlf_rest (crlf_rest s cur ++ t) [] := by
  induction n with
  | zero =>
    intro s cur t h h1 h2
    have : s = [] := List.eq_nil_of_length_eq_zero (Nat.le_zero.mp h)
    subst this
    rw [List.nil_append] at h1 h2 ⊢
    exact ⟨h1.symm, h2.symm⟩
  | succ n ih =>
    intro s cur t h h1 h2
    match s, h, h1, h2 with
    | [], _, h1, h2 =>
      rw [List.nil_append] at h1 h2 ⊢
      exact ⟨h1.symm, h2.symm⟩
    | [c], _, h1, h2 =>
      have e1 : crlf_segments [c] cur = [] := rfl
      have e2 : crlf_rest [c] cur = cur ++ [c] := rfl
      rw [e1, e2, List.nil_append, List.append_assoc]
      exact ⟨h1.symm, h2.symm⟩
    | c :: d :: rest, h, h1, h2 =>
      have hl : rest.length ≤ n := by
        simp only [List.length_cons] at h
        omega
      have hl2 : (d :: rest).length ≤ n := by
        simp only [List.length_cons] at h ⊢
        omega
      have ea : (c :: d :: rest) ++ t = c :: d :: (rest ++ t) := rfl
      have eb : (cur ++ [c]) ++ ((d :: rest) ++ t) = cur ++ ((c :: d :: rest) ++ t) := by
        simp
      rw [ea] at h1 h2 ⊢
      rw [crlf_segments_cons2 c d (rest ++ t) cur] at h1 ⊢
      rw [crlf_rest_cons2 c d (rest ++ t) cur] at h2 ⊢
      rw [crlf_segments_cons2 c d rest cur, crlf_rest_cons2 c d rest cur]
      by_cases hm : c = '\r' ∧ d = '\n'
      · simp only [if_pos hm]
        obtain ⟨i1, i2⟩ := ih rest [] t hl rfl rfl
        rw [i1, i2]
        exact ⟨rfl, rfl⟩
      · simp only [if_neg hm] at h1 h2 ⊢
        exact ih (d :: rest) (cur ++ [c]) t hl2
          ((congrArg (fun x => crlf_segments x []) eb).trans h1)
          ((congrArg (fun x => crlf_rest x []) eb).trans h2)

theorem crlf_segments_append (s t : sds) :
    crlf_segments (s ++ t) [] = crlf_segments s [] ++ crlf_segments (crlf_rest s [] ++ t) [] :=
  (crlf_rescan _ s [] t (le_refl _) rfl rfl).1

theorem crlf_rest_append (s t : sds) :
    crlf_rest (s ++ t) [] = crlf_rest (crlf_rest s [] ++ t) [] :=
  (crlf_rescan _ s [] t (le_refl _) rfl rfl).2

theorem crlf_segments_rest (s : sds) : crlf_segments (crlf_rest s []) [] = [] := by
  have h := crlf_segments_append s []
  rw [List.append_nil, List.append_nil] at h
  exact List.self_eq_append_right.mp h

theorem crlf_rest_rest (s : sds) : crlf_rest (crlf_rest s []) [] = crlf_rest s [] := by
  have h := crlf_rest_append s []
  rw [List.append_nil, List.append_nil] at h
  exact h.symm

theorem service_lines_cons (env : irc_env) (conn : conn_info_t) (cmdtokens : List sds)
    (rest : List (List sds)) (st : irc_state) :
    service_lines env conn (cmdtokens :: rest) st
      = match handle_request env st cmdtokens cmdtokens.length conn with
        | none => none
        | some (st, none) => some (st, [cmdtokens], false)
        | some (st, some _) =>
          (service_lines env conn rest st).map (fun r => (r.1, cmdtokens :: r.2.1, r.2.2)) := by
  rw [service_lines]

theorem service_lines_append (env : irc_env) (conn : conn_info_t) (l1 l2 : List (List sds)) :
    ∀ st, service_lines env conn (l1 ++ l2) st
      = match service_lines env conn l1 st with
        | none => none
        | some (st1, called, false) => some (st1, called, false)
        | some (st1, called, true) =>
          (service_lines env conn l2 st1).map (fun r => (r.1, called ++ r.2.1, r.2.2)) := by
  induction l1 with
  | nil =>
    intro st
    rw [List.nil_append]
    show _ = (service_lines env conn l2 st).map (fun r => (r.1, [] ++ r.2.1, r.2.2))
    simp
  | cons cmdtokens rest ih =>
    intro st
    rw [List.cons_append, service_lines_cons env conn cmdtokens (rest ++ l2) st,
      service_lines_cons env conn cmdtokens rest st]
    cases hr : handle_request env st cmdtokens cmdtokens.length conn with
    | none => rfl
    | some r =>
      obtain ⟨st1, rc⟩ := r
      cases rc with
      | none => rfl
      | some v =>
        dsimp only
        rw [ih st1]
        cases hl : service_lines env conn rest st1 with
        | none => rfl
        | some x =>
          obtain ⟨st2, called, flag⟩ := x
          cases flag with
          | false => rfl
          | true =>
            dsimp only [Option.map_some']
            cases service_lines env conn l2 st2 with
            | none => rfl
            | some y => rfl

theorem service_lines_called (env : irc_env) (conn : conn_info_t) (lines : List (List sds)) :
    ∀ (st st1 : irc_state) (called : List (List sds)),
      service_lines env conn lines st = some (st1, called, true) → called = lines := by
  induction lines with
  | nil =>
    intro st st1 called h
    unfold service_lines at h
    cases h
    rfl
  | cons cmdtokens rest ih =>
    intro st st1 called h
    unfold service_lines at h
    split at h
    · cases h
    · cases h
    · rename_i st2 _ _
      cases hl : service_lines env conn rest st2 with
      | none =>
        rw [hl] at h
        cases h
      | some x =>
        obtain ⟨st3, called2, flag⟩ := x
        rw [hl] at h
        cases h
        rw [ih st2 st3 called2 hl]

/-- The loop of `service_single_client` over chunks of fewer than `BUFFER_SIZE`
bytes without NUL, from an accumulator without a complete line: the lines of
all the bytes are handled in order, and the bytes after the last CRLF are
kept. -/
theorem service_single_client_eq (env : irc_env) (conn : conn_info_t) (chunks : List sds) :
    ∀ (st : irc_state) (acc : sds),
      (∀ c ∈ chunks, c.length < BUFFER_SIZE ∧ ∀ x ∈ c, x ≠ Char.ofNat 0) →
      crlf_segments acc [] = [] →
      service_single_client env conn chunks st acc
        = (service_lines env conn (stream_lines (acc ++ chunks.flatten)) st).map
            (fun r => (r.1, r.2.1,
              if r.2.2 then some (stream_rest (acc ++ chunks.flatten)) else none)) := by
  induction chunks with
  | nil =>
    intro st acc _ hacc
    unfold service_single_client stream_lines stream_rest
    rw [List.flatten_nil, List.append_nil, hacc,
      crlf_rest_of_no_segment _ acc [] (le_refl _) hacc]
    rfl
  | cons c rest ih =>
    intro st acc hc hacc
    obtain ⟨hlen, hnul⟩ := hc c (List.mem_cons_self _ _)
    have hrest := fun x hx => hc x (List.mem_cons_of_mem _ hx)
    have hl : stream_lines (acc ++ (c :: rest).flatten)
        = stream_lines (acc ++ c) ++ stream_lines (stream_rest (acc ++ c) ++ rest.flatten) := by
      unfold stream_lines stream_rest
      rw [List.flatten_cons, ← List.append_assoc, crlf_segments_append, List.map_append]
    have hr : stream_rest (acc ++ (c :: rest).flatten)
        = stream_rest (stream_rest (acc ++ c) ++ rest.flatten) := by
      unfold stream_rest
      rw [List.flatten_cons, ← List.append_assoc, crlf_rest_append]
    rw [hl, hr, service_lines_append]
    unfold service_single_client
    rw [service_recv_eq acc c hlen hnul]
    dsimp only
    cases h1 : service_lines env conn (stream_lines (acc ++ c)) st with
    | none => rfl
    | some x =>
      obtain ⟨st1, called, flag⟩ := x
      cases flag with
      | false => rfl
      | true =>
        dsimp only
        rw [ih st1 (stream_rest (acc ++ c)) hrest (crlf_segments_rest _)]
        cases service_lines env conn
            (stream_lines (stream_rest (acc ++ c) ++ rest.flatten)) st1 with
        | none => rfl
        | some y => rfl

/-- C35: the framing of `service_single_client` does not depend on how the bytes
are cut into reads, as long as every read returns fewer than `BUFFER_SIZE`
bytes.  For chunks of at least one and fewer than `BUFFER_SIZE` bytes
without NUL, received from the empty accumulator: (1) `handle_request` is
called, in order, for the CRLF-terminated segments of the concatenation of
the chunks, each trimmed of spaces at both ends and split at every space,
until a handler ends the thread, and when no handler does, the accumulator
holds the bytes after the last CRLF; (2) so when the loop comes back with an
accumulator, the lines that were handled are all the lines of the
concatenation.  (3) A read that returns `BUFFER_SIZE` bytes makes the loop
write the terminating NUL outside `buffer`, whatever the accumulator.
(4) An instance of a handler that ends the thread: of the four lines NICK,
USER, QUIT, PING that arrive in one read, the first three are handled. -/
theorem framing_independent_of_reads_below_buffer_size (env : irc_env) (conn : conn_info_t)
    (chunks : List sds) (st : irc_state)
    (h : ∀ c ∈ chunks, 0 < c.length ∧ c.length < BUFFER_SIZE ∧ ∀ x ∈ c, x ≠ Char.ofNat 0) :
    service_single_client env conn chunks st []
      = (service_lines env conn (stream_lines chunks.flatten) st).map
          (fun r => (r.1, r.2.1, if r.2.2 then some (stream_rest chunks.flatten) else none)) ∧
    (∀ st1 called acc,
      service_single_client env conn chunks st [] = some (st1, called, some acc) →
      called = stream_lines chunks.flatten ∧ acc = stream_rest chunks.flatten) ∧
    (∀ acc received : sds, received.length = BUFFER_SIZE → service_recv acc received = none) ∧
    (service_single_client ex_irc_env (ex_conn 4)
        ["NICK x\r\nUSER a b c d\r\nQUIT\r\nPING\r\n".toList] ex_empty_server []).map
        (fun r => (r.2.1, r.2.2))
      = some ([["NICK".toList, "x".toList],
               ["USER".toList, "a".toList, "b".toList, "c".toList, "d".toList],
               ["QUIT".toList]], none) ∧
    stream_lines "NICK x\r\nUSER a b c d\r\nQUIT\r\nPING\r\n".toList
      = [["NICK".toList, "x".toList],
         ["USER".toList, "a".toList, "b".toList, "c".toList, "d".toList],
         ["QUIT".toList], ["PING".toList]] := by
  have heq := service_single_client_eq env conn chunks st []
    (fun c hc => ⟨(h c hc).2.1, (h c hc).2.2⟩) rfl
  rw [List.nil_append] at heq
  refine ⟨heq, ?_, ?_, rfl, rfl⟩
  · intro st1 called acc hr
    rw [heq] at hr
    cases hl : service_lines env conn (stream_lines chunks.flatten) st with
    | none =>
      rw [hl] at hr
      cases hr
    | some r =>
      obtain ⟨st2, called2, flag⟩ := r
      rw [hl] at hr
      cases flag with
      | false => cases hr
      | true =>
        cases hr
        exact ⟨service_lines_called env conn _ _ _ _ hl, rfl⟩
  · intro acc received hlen
    unfold service_recv
    dsimp only
    rw [if_pos (by omega)]

/-- C35, an instance: the bytes "PING\r\nPONG\r\nLIS" arrive on socket 4 in four
reads that cut through the first CRLF and through PONG. -/
theorem framing_independent_of_reads_below_buffer_size_witness :
    (∀ c ∈ ["PING\r".toList, "\n".toList, "PO".toList, "NG\r\nLIS".toList],
      0 < c.length ∧ c.length < BUFFER_SIZE ∧ ∀ x ∈ c, x ≠ Char.ofNat 0) ∧
    (service_single_client ex_irc_env (ex_conn 4)
        ["PING\r".toList, "\n".toList, "PO".toList, "NG\r\nLIS".toList] ex_empty_server []).map
        (fun r => (r.2.1, r.2.2))
      = some ([["PING".toList], ["PONG".toList]], some "LIS".toList) :=
  ⟨by decide, by
    rw [(framing_independent_of_reads_below_buffer_size ex_irc_env (ex_conn 4)
      ["PING\r".toList, "\n".toList, "PO".toList, "NG\r\nLIS".toList] ex_empty_server
      (by decide)).1]
    rfl⟩

/-! ## C36: the welcome sequence -/

theorem second_word_numeric (host code rest : sds) (hh : ' ' ∉ host) (hc : ' ' ∉ code) :
    second_word (":".toList ++ host ++ " ".toList ++ code ++ " ".toList ++ rest) = code := by
  have e : ":".toList ++ host ++ " ".toList ++ code ++ " ".toList ++ rest
      = (":".toList ++ host) ++ (" ".toList ++ (code ++ (" ".toList ++ rest))) := by
    simp only [List.append_assoc]
  rw [e]
  apply second_word_of _ _ _ _ hc
  intro hm
  rcases List.mem_append.mp hm with h1 | h1
  · revert h1
    decide
  · exact hh h1

theorem second_word_numeric_reply (host code rest : sds) (hh : ' ' ∉ host) (hc : ' ' ∉ code) :
    second_word (numeric_reply host code rest) = code :=
  second_word_numeric host code rest hh hc

theorem reply_error_params_NOMOTD (cmd : List sds) :
    reply_error_params cmd ERR_NOMOTD = some (some [("MOTD File is missing\r\n".toList, true)]) := by
  unfold reply_error_params
  have c1 : strncmp_eq ERR_NOMOTD ERR_UNKNOWNCOMMAND ERROR_CODE_LEN = false := by decide
  have c2 : strncmp_eq ERR_NOMOTD ERR_NONICKNAMEGIVEN ERROR_CODE_LEN = false := by decide
  have c3 : strncmp_eq ERR_NOMOTD ERR_NICKNAMEINUSE ERROR_CODE_LEN = false := by decide
  have c4 : strncmp_eq ERR_NOMOTD ERR_NEEDMOREPARAMS ERROR_CODE_LEN = false := by decide
  have c5 : strncmp_eq ERR_NOMOTD ERR_ALREADYREGISTRED ERROR_CODE_LEN = false := by decide
  have c6 : strncmp_eq ERR_NOMOTD ERR_NOSUCHNICK ERROR_CODE_LEN = false := by decide
  have c7 : strncmp_eq ERR_NOMOTD ERR_NOMOTD ERROR_CODE_LEN = true := by decide
  rw [c1, c2, c3, c4, c5, c6, c7]
  rfl

/-- What `reply_error` does for ERR_NOMOTD: one buffer, whose second word is 422,
is handed to `sendall` for the socket of the connection. -/
theorem reply_error_NOMOTD (env : irc_env) (st : irc_state) (cmd : List sds)
    (conn : conn_info_t) :
    ∃ rest : sds,
      reply_error env st cmd ERR_NOMOTD conn
        = some (send_msg env st conn.client_socket
            (":".toList ++ conn.server_hostname ++ " ".toList ++ ERR_NOMOTD ++ " ".toList
              ++ rest)) := by
  refine ⟨(match server_find_USER st.ctx conn.client_socket with
    | none => "*".toList
    | some s => if s.info.state = conn_status.NICK_MISSING then "*".toList else s.info.nick)
    ++ " :MOTD File is missing\r\n".toList, ?_⟩
  unfold reply_error
  dsimp only
  rw [reply_error_params_NOMOTD cmd]
  dsimp only
  unfold chirc_message_to_string chirc_message_add_parameter chirc_message_construct
  simp only [List.foldl_cons, List.foldl_nil, List.nil_append, List.cons_append,
    List.getLast?_cons_cons, List.getLast?_singleton, List.dropLast, if_true]
  simp [List.append_assoc]

theorem server_reply_welcome_ok (env : irc_env) (hsend : sends_succeed env) (st : irc_state)
    (client : client_t) (conn : conn_info_t) :
    ∃ rest, server_reply_welcome env st client conn
      = ({ st with sent := st.sent
            ++ [(conn.client_socket, numeric_reply conn.server_hostname RPL_WELCOME rest)] },
          MSG_OK) := by
  refine ⟨client.info.nick ++ " :Welcome to the Internet Relay Network ".toList
    ++ client.info.nick ++ "!".toList ++ client.info.username ++ "@".toList
    ++ conn.client_hostname ++ "\r\n".toList, ?_⟩
  unfold server_reply_welcome numeric_reply
  dsimp only
  rw [send_reply_ok env hsend]
  simp only [List.append_assoc]

theorem reply_welcome_ok (env : irc_env) (hsend : sends_succeed env) (st : irc_state)
    (client : client_t) (conn : conn_info_t) :
    ∃ r1 r2 r3, reply_welcome env st client conn
      = ({ st with sent := st.sent
            ++ [(conn.client_socket, numeric_reply conn.server_hostname RPL_YOURHOST r1),
                (conn.client_socket, numeric_reply conn.server_hostname RPL_CREATED r2),
                (conn.client_socket, numeric_reply conn.server_hostname RPL_MYINFO r3)] },
          MSG_OK) := by
  unfold reply_welcome numeric_reply
  dsimp only
  have hne : ¬ (MSG_OK = MSG_ERROR) := by decide
  simp only [send_msg_ok env hsend, send_reply_ok env hsend, if_neg hne, List.append_assoc]
  exact ⟨_, _, _, rfl⟩

theorem server_reply_lusers_ok (env : irc_env) (hsend : sends_succeed env) (st : irc_state)
    (nick : sds) (conn : conn_info_t) :
    ∃ r1 r2 r3 r4 r5, server_reply_lusers env st nick conn
      = ({ st with sent := st.sent
            ++ [(conn.client_socket, numeric_reply conn.server_hostname RPL_LUSERCLIENT r1),
                (conn.client_socket, numeric_reply conn.server_hostname RPL_LUSEROP r2),
                (conn.client_socket, numeric_reply conn.server_hostname RPL_LUSERUNKNOWN r3),
                (conn.client_socket, numeric_reply conn.server_hostname RPL_LUSERCHANNELS r4),
                (conn.client_socket, numeric_reply conn.server_hostname RPL_LUSERME r5)] },
          MSG_OK) := by
  unfold server_reply_lusers numeric_reply
  dsimp only
  have hne : ¬ (MSG_OK = MSG_ERROR) := by decide
  simp only [send_msg_ok env hsend, send_reply_ok env hsend, if_neg hne, List.append_assoc]
  exact ⟨_, _, _, _, _, rfl⟩

/-- With sends that succeed, the last part of `handle_request` hands the numerics
`welcome_numerics cmd` to `sendall`, in this order, for the socket of the
connection, and returns CHIRC_OK. -/
theorem handle_request_welcome_ok (env : irc_env) (hsend : sends_succeed env) (st : irc_state)
    (cmdtokens : List sds) (argc : Int) (conn : conn_info_t) (cmd : sds) (s : client_t)
    (hh : ' ' ∉ conn.server_hostname) :
    ∃ r, handle_request_welcome env st cmdtokens argc conn cmd s = some (r, CHIRC_OK) ∧
      r.ctx = st.ctx ∧
      sent_words r
        = sent_words st ++ (welcome_numerics cmd).map (fun code => (conn.client_socket, code)) := by
  have hne : ¬ (MSG_OK = MSG_ERROR) := by decide
  have key : ∀ (first : irc_state) (pre : List sds), first.ctx = st.ctx →
      sent_words first = sent_words st ++ pre.map (fun code => (conn.client_socket, code)) →
      ∃ r, (if (first, MSG_OK).2 = MSG_ERROR then some ((first, MSG_OK).1, CHIRC_ERROR)
        else
          let r := reply_welcome env (first, MSG_OK).1 s conn
          if r.2 = MSG_ERROR then some (r.1, CHIRC_ERROR)
          else
            match handle_LUSERS env r.1 cmdtokens argc conn with
            | none => none
            | some r =>
              if r.2 = MSG_ERROR then some (r.1, CHIRC_ERROR)
              else
                (reply_error env r.1 cmdtokens ERR_NOMOTD conn).map
                  (fun r => (r.1, if r.2 = MSG_ERROR then CHIRC_ERROR else CHIRC_OK)))
          = some (r, CHIRC_OK) ∧ r.ctx = st.ctx ∧
        sent_words r = sent_words st ++ (pre ++ [RPL_YOURHOST, RPL_CREATED, RPL_MYINFO,
          RPL_LUSERCLIENT, RPL_LUSEROP, RPL_LUSERUNKNOWN, RPL_LUSERCHANNELS, RPL_LUSERME,
          ERR_NOMOTD]).map (fun code => (conn.client_socket, code)) := by
    intro first pre hctx hw
    obtain ⟨a1, a2, a3, hrw⟩ := reply_welcome_ok env hsend first s conn
    dsimp only
    rw [if_neg hne, hrw]
    dsimp only
    rw [if_neg hne]
    unfold handle_LUSERS
    dsimp only
    obtain ⟨b1, b2, b3, b4, b5, hl⟩ := server_reply_lusers_ok env hsend
      { first with sent := first.sent
        ++ [(conn.client_socket, numeric_reply conn.server_hostname RPL_YOURHOST a1),
            (conn.client_socket, numeric_reply conn.server_hostname RPL_CREATED a2),
            (conn.client_socket, numeric_reply conn.server_hostname RPL_MYINFO a3)] }
      (match server_find_USER first.ctx conn.client_socket with
        | none => "*".toList
        | some s => s.info.nick) conn
    rw [hl]
    dsimp only
    rw [if_neg hne]
    dsimp only
    rw [if_neg (by decide : ¬ (CHIRC_OK = MSG_ERROR))]
    obtain ⟨c1, hm⟩ := reply_error_NOMOTD env
      { first with sent := first.sent
        ++ [(conn.client_socket, numeric_reply conn.server_hostname RPL_YOURHOST a1),
            (conn.client_socket, numeric_reply conn.server_hostname RPL_CREATED a2),
            (conn.client_socket, numeric_reply conn.server_hostname RPL_MYINFO a3)]
        ++ [(conn.client_socket, numeric_reply conn.server_hostname RPL_LUSERCLIENT b1),
            (conn.client_socket, numeric_reply conn.server_hostname RPL_LUSEROP b2),
            (conn.client_socket, numeric_reply conn.server_hostname RPL_LUSERUNKNOWN b3),
            (conn.client_socket, numeric_reply conn.server_hostname RPL_LUSERCHANNELS b4),
            (conn.client_socket, numeric_reply conn.server_hostname RPL_LUSERME b5)] } cmdtokens conn
    rw [hm, send_msg_ok env hsend]
    simp only [Option.map_some', if_neg hne]
    refine ⟨_, rfl, ?_, ?_⟩
    · exact hctx
    · unfold sent_words at hw ⊢
      simp only [List.map_append, List.map_cons, List.map_nil, hw]
      have e : (":".toList ++ conn.server_hostname ++ " ".toList ++ ERR_NOMOTD ++ " ".toList ++ c1)
          = numeric_reply conn.server_hostname ERR_NOMOTD c1 := rfl
      rw [e]
      simp only [second_word_numeric_reply _ _ _ hh (by decide : ' ' ∉ RPL_YOURHOST),
        second_word_numeric_reply _ _ _ hh (by decide : ' ' ∉ RPL_CREATED),
        second_word_numeric_reply _ _ _ hh (by decide : ' ' ∉ RPL_MYINFO),
        second_word_numeric_reply _ _ _ hh (by decide : ' ' ∉ RPL_LUSERCLIENT),
        second_word_numeric_reply _ _ _ hh (by decide : ' ' ∉ RPL_LUSEROP),
        second_word_numeric_reply _ _ _ hh (by decide : ' ' ∉ RPL_LUSERUNKNOWN),
        second_word_numeric_reply _ _ _ hh (by decide : ' ' ∉ RPL_LUSERCHANNELS),
        second_word_numeric_reply _ _ _ hh (by decide : ' ' ∉ RPL_LUSERME),
        second_word_numeric_reply _ _ _ hh (by decide : ' ' ∉ ERR_NOMOTD),
        List.append_assoc, List.cons_append, List.nil_append]
  unfold handle_request_welcome welcome_numerics
  dsimp only
  by_cases hc : strncmp_eq cmd "USER".toList MAX_STR_LEN ∨ strncmp_eq cmd "NICK".toList MAX_STR_LEN
  · rw [if_pos hc, if_pos hc]
    obtain ⟨w, hw⟩ := server_reply_welcome_ok env hsend st s conn
    rw [hw]
    refine key _ [RPL_WELCOME] rfl ?_
    unfold sent_words
    simp only [List.map_append, List.map_cons, List.map_nil,
      second_word_numeric_reply _ _ _ hh (by decide : ' ' ∉ RPL_WELCOME)]
  · rw [if_neg hc, if_neg hc]
    refine key st [] rfl ?_
    simp

/-- C36: `handle_request` looks at the state of the client after the handler, not at
a change of the state.  (1) For a command of the table whose handler returns a
value other than CHIRC_ERROR and leaves the client in REGISTERED, and which is
none of PONG, PRIVMSG, PART, NOTICE, WHOIS, JOIN, OPER, MODE, the function sends,
when the sends succeed, RPL_WELCOME (after USER and NICK only), RPL_YOURHOST,
RPL_CREATED, RPL_MYINFO, the five replies of LUSERS and ERR_NOMOTD, in this
order, to the socket of the connection, whether the client was registered
before the command or not.  (2) When the client is not in REGISTERED after the
handler, or the command is one of the eight, nothing is sent after the
handler.  (3) The USER that completes the registration of bob is answered by
the ten numerics.  (4) So is a second USER of alice, who is registered already;
and LUSERS, a change of nick, PING and LIST of alice are followed by the
numerics from RPL_YOURHOST on. -/
theorem welcome_sent_to_registered_client_again (env : irc_env) (st : irc_state)
    (cmdtokens : List sds) (argc : Int) (conn : conn_info_t) (cmd : sds) (h : sds × handler_t)
    (st1 : irc_state) (rc : Int) (s : client_t)
    (h0 : cmdtokens[0]? = some cmd)
    (hfound : handlers.find? (fun h => strncmp_eq h.1 cmd MAX_STR_LEN) = some h)
    (hran : h.2 env st cmdtokens argc conn = some (st1, some rc))
    (hs : server_find_USER st1.ctx conn.client_socket = some s)
    (hrc : rc ≠ CHIRC_ERROR) :
    (sends_succeed env → ' ' ∉ conn.server_hostname →
      s.info.state = conn_status.REGISTERED →
      (∀ name ∈ no_welcome_commands, strncmp_eq cmd name MAX_STR_LEN = false) →
      ∃ r, handle_request env st cmdtokens argc conn = some (r, some CHIRC_OK) ∧
        r.ctx = st1.ctx ∧
        sent_words r = sent_words st1
          ++ (welcome_numerics cmd).map (fun code => (conn.client_socket, code))) ∧
    ((s.info.state ≠ conn_status.REGISTERED ∨
        ∃ name ∈ no_welcome_commands, strncmp_eq cmd name MAX_STR_LEN = true) →
      handle_request env st cmdtokens argc conn = some (st1, some CHIRC_OK)) ∧
    ((server_find_USER ex_bob_pending.ctx 5).map (fun c => c.info.state)
        = some conn_status.USER_MISSING ∧
      (ex_request ex_bob_pending 5 "USER bob * * :Bob").map (fun r => (sent_words r.1, r.2))
        = some ([(5, "001".toList), (5, "002".toList), (5, "003".toList), (5, "004".toList),
            (5, "251".toList), (5, "252".toList), (5, "253".toList), (5, "254".toList),
            (5, "255".toList), (5, "422".toList)], some 0)) ∧
    ((server_find_USER ex_alice_registered.ctx 4).map (fun c => c.info.state)
        = some conn_status.REGISTERED ∧
      (ex_request ex_alice_registered 4 "USER al * * :Alice").map
          (fun r => (sent_words r.1, r.2))
        = some ([(4, "001".toList), (4, "002".toList), (4, "003".toList), (4, "004".toList),
            (4, "251".toList), (4, "252".toList), (4, "253".toList), (4, "254".toList),
            (4, "255".toList), (4, "422".toList)], some 0) ∧
      (ex_request ex_alice_registered 4 "LUSERS").map (fun r => (sent_words r.1, r.2))
        = some ([(4, "251".toList), (4, "252".toList), (4, "253".toList), (4, "254".toList),
            (4, "255".toList), (4, "002".toList), (4, "003".toList), (4, "004".toList),
            (4, "251".toList), (4, "252".toList), (4, "253".toList), (4, "254".toList),
            (4, "255".toList), (4, "422".toList)], some 0) ∧
      (ex_request ex_alice_registered 4 "NICK carol").map (fun r => (sent_words r.1, r.2))
        = some ([(4, "NICK".toList), (4, "001".toList), (4, "002".toList), (4, "003".toList),
            (4, "004".toList), (4, "251".toList), (4, "252".toList), (4, "253".toList),
            (4, "254".toList), (4, "255".toList), (4, "422".toList)], some 0) ∧
      (ex_request ex_alice_registered 4 "PING").map (fun r => (sent_words r.1, r.2))
        = some ([(4, "PONG".toList), (4, "002".toList), (4, "003".toList), (4, "004".toList),
            (4, "251".toList), (4, "252".toList), (4, "253".toList), (4, "254".toList),
            (4, "255".toList), (4, "422".toList)], some 0) ∧
      (ex_request ex_alice_registered 4 "LIST").map (fun r => (sent_words r.1, r.2))
        = some ([(4, []), (4, "323".toList), (4, "002".toList), (4, "003".toList),
            (4, "004".toList), (4, "251".toList), (4, "252".toList), (4, "253".toList),
            (4, "254".toList), (4, "255".toList), (4, "422".toList)], some 0)) := by
  have hreq : ∀ (x : Option (irc_state × Option Int)),
      (if rc = CHIRC_ERROR then some (st1, some CHIRC_ERROR) else x) = x := fun x => if_neg hrc
  have hunf : handle_request env st cmdtokens argc conn
      = if s.info.state = conn_status.REGISTERED
            ∧ no_welcome_commands.all (fun name => !strncmp_eq cmd name MAX_STR_LEN) then
          (handle_request_welcome env st1 cmdtokens argc conn cmd s).map
            (fun r => (r.1, some r.2))
        else some (st1, some CHIRC_OK) := by
    unfold handle_request
    dsimp only
    rw [h0]
    dsimp only
    rw [hfound]
    dsimp only
    rw [hran]
    dsimp only
    rw [hs]
    dsimp only
    rw [if_neg hrc]
    rfl
  refine ⟨?_, ?_, ⟨rfl, rfl⟩, ⟨rfl, rfl, rfl, rfl, rfl, rfl⟩⟩
  · intro hsend hh hreg hcmd
    have hall : no_welcome_commands.all (fun name => !strncmp_eq cmd name MAX_STR_LEN) = true := by
      rw [List.all_eq_true]
      intro name hn
      rw [hcmd name hn]
      rfl
    rw [hunf, if_pos ⟨hreg, hall⟩]
    obtain ⟨r, hr, hc, hw⟩ := handle_request_welcome_ok env hsend st1 cmdtokens argc conn cmd s hh
    exact ⟨r, by rw [hr]; rfl, hc, hw⟩
  · intro hno
    rw [hunf]
    apply if_neg
    rintro ⟨hreg, hall⟩
    rcases hno with h1 | ⟨name, hn, he⟩
    · exact h1 hreg
    · rw [List.all_eq_true] at hall
      have := hall name hn
      rw [he] at this
      exact absurd this (by decide)

/-- C36, an instance: alice is registered; her second USER makes `handle_USER`
return REGISTERED, and the ten numerics from RPL_WELCOME to ERR_NOMOTD follow. -/
theorem welcome_sent_to_registered_client_again_witness :
    (server_find_USER ex_alice_registered.ctx 4).map (fun c => c.info.state)
      = some conn_status.REGISTERED ∧
    ∃ r, ex_request ex_alice_registered 4 "USER al * * :Alice" = some (r, some CHIRC_OK) ∧
      r.ctx = ex_alice_registered.ctx ∧
      sent_words r = sent_words ex_alice_registered
        ++ (welcome_numerics "USER".toList).map (fun code => ((ex_conn 4).client_socket, code)) :=
  ⟨rfl,
    (welcome_sent_to_registered_client_again ex_irc_env ex_alice_registered
      (ex_line "USER al * * :Alice") (ex_line "USER al * * :Alice").length (ex_conn 4)
      "USER".toList ("USER".toList, returning handle_USER) ex_alice_registered
      conn_status.REGISTERED.toInt
      ⟨4, "foo.example.com".toList,
        ⟨"alice".toList, "al".toList, "Alice".toList, conn_status.REGISTERED, false⟩⟩
      rfl rfl rfl rfl (by decide)).1
      (fun _ _ _ => (by decide : (0 : Int) ≠ -1)) (by decide) rfl (by decide)⟩

end IRC
